import Mathlib

/-!
# Athena 4.2 (CR transport fork): the 3D van Leer unsplit integrator

A shallow embedding of `src/integrators/integrate_3d_vl.c`.

* `Real` of the C code is modelled by `ℚ` (exact arithmetic).
* A C array `a[k][j][i]` is a total function `Int → Int → Int → α`; a store
  `a[k][j][i] = v` is `set3 a k j i v`.
* A C loop `for (i=lo; i<=hi; i++) body` is `forLoop lo hi body`: the body is
  run on the threaded state for `i = lo, lo+1, ..., hi` in that order.
* The build modelled is the MHD, non-barotropic one with `NSCALARS = 0`;
  `SELF_GRAVITY`, `H_CORRECTION` and `STATIC_MESH_REFINEMENT` are flags of
  `Config`, and the reconstruction order gives the offset of the loop limits
  `ib = il + offset`, `it = iu - offset`.
-/

namespace Athena

/-! ## Loops and arrays -/

/-- Runs `body i` for `n` consecutive values of the loop variable starting at `i`. -/
def forLoopAux {σ : Type} (body : Int → σ → σ) : Nat → Int → σ → σ
  | 0, _, s => s
  | n + 1, i, s => forLoopAux body n (i + 1) (body i s)

/-- The C loop `for (i = lo; i <= hi; i++) body`. -/
def forLoop {σ : Type} (lo hi : Int) (body : Int → σ → σ) (s : σ) : σ :=
  forLoopAux body (hi + 1 - lo).toNat lo s

/-- A one-dimensional C array. -/
abbrev Arr1 (α : Type) := Int → α

/-- A two-dimensional C array `a[j][i]`. -/
abbrev Arr2 (α : Type) := Int → Int → α

/-- A three-dimensional C array `a[k][j][i]`. -/
abbrev Arr3 (α : Type) := Int → Int → Int → α

/-- The store `a[i] = v`. -/
def set1 {α : Type} (a : Arr1 α) (i : Int) (v : α) : Arr1 α :=
  fun i' => if i' = i then v else a i'

/-- The store `a[j][i] = v`. -/
def set2 {α : Type} (a : Arr2 α) (j i : Int) (v : α) : Arr2 α :=
  fun j' i' => if j' = j ∧ i' = i then v else a j' i'

/-- The store `a[k][j][i] = v`. -/
def set3 {α : Type} (a : Arr3 α) (k j i : Int) (v : α) : Arr3 α :=
  fun k' j' i' => if k' = k ∧ j' = j ∧ i' = i then v else a k' j' i'

/-! ## Data model -/

/-- The conserved cell state `Gas` (MHD, adiabatic, no passive scalars). -/
structure Gas where
  d : ℚ
  M1 : ℚ
  M2 : ℚ
  M3 : ℚ
  E : ℚ
  B1c : ℚ
  B2c : ℚ
  B3c : ℚ
deriving DecidableEq

/-- The 1D conserved vector `Cons1D` used along a sweep and for fluxes. -/
structure Cons1D where
  d : ℚ
  Mx : ℚ
  My : ℚ
  Mz : ℚ
  E : ℚ
  By : ℚ
  Bz : ℚ
deriving DecidableEq

/-- Modelled from the spec: the declaration of `Prim1D` (in `athena.h`) is not
part of the sources; the glossary gives a primitive state as density, velocity,
pressure and magnetic field. The integrator only passes these values around. -/
structure Prim1D where
  d : ℚ
  Vx : ℚ
  Vy : ℚ
  Vz : ℚ
  P : ℚ
  By : ℚ
  Bz : ℚ
deriving DecidableEq

/-- Modelled from the spec: the declaration of the overlap record `GridOvrlpS`
(in `athena.h`) is not part of the sources. The fields are the ones the
integrator uses: the index range `ijks[0..2]`, `ijke[0..2]` of the overlap in
this grid, and per face slot `dim = 0..5` the flux register `myFlx[dim]`
(`none` for a `NULL` pointer) and the EMF registers. -/
structure GridOvrlpS where
  ijks : Arr1 Int
  ijke : Arr1 Int
  myFlx : Arr1 (Option (Arr2 Gas))
  myEMF1 : Arr1 (Arr2 ℚ)
  myEMF2 : Arr1 (Arr2 ℚ)
  myEMF3 : Arr1 (Arr2 ℚ)

/-- Modelled from the spec: the declaration of `GridS` (in `athena.h`) is not part
of the sources. The fields are the ones `integrate_3d_vl` reads or writes through `pG`. -/
structure GridS where
  is : Int
  ie : Int
  js : Int
  je : Int
  ks : Int
  ke : Int
  dt : ℚ
  dx1 : ℚ
  dx2 : ℚ
  dx3 : ℚ
  U : Arr3 Gas
  B1i : Arr3 ℚ
  B2i : Arr3 ℚ
  B3i : Arr3 ℚ
  Phi : Arr3 ℚ
  x1MassFlux : Arr3 ℚ
  x2MassFlux : Arr3 ℚ
  x3MassFlux : Arr3 ℚ
  NCGrid : Int
  CGrid : Arr1 GridOvrlpS
  NPGrid : Int
  PGrid : Arr1 GridOvrlpS

/-- The reconstruction order selected at compile time; exactly one of `FIRST_ORDER`,
`SECOND_ORDER_CHAR`/`SECOND_ORDER_PRIM`, `THIRD_ORDER_CHAR`/`THIRD_ORDER_PRIM` is defined. -/
inductive ReconOrder where
  | FIRST_ORDER
  | SECOND_ORDER
  | THIRD_ORDER
deriving DecidableEq

/-- The offset of the loop limits `ib = il + offset`, `it = iu - offset` (lines 112-126). -/
def ReconOrder.offset : ReconOrder → Int
  | .FIRST_ORDER => 1
  | .SECOND_ORDER => 2
  | .THIRD_ORDER => 3

/-- The build configuration and the external collaborators of the integrator:
the preprocessor switches, the global constants, and the functions defined in
other files (conversions, flux function, reconstruction, fast speed, positions).
`fluxes` takes the global `etah` it reads as its first argument; `lr_states` takes
the arrays `Wl`, `Wr` it writes into and returns them; `cc_pos i j k` is the
cell-centre position `cc_pos(pG,i,j,k,&x1,&x2,&x3)` on the grid being integrated. -/
structure Config where
  nghost : Int
  order : ReconOrder
  SELF_GRAVITY : Bool
  H_CORRECTION : Bool
  STATIC_MESH_REFINEMENT : Bool
  StaticGravPot : Option (ℚ → ℚ → ℚ → ℚ)
  four_pi_G : ℚ
  grav_mean_rho : ℚ
  Cons1D_to_Prim1D : Cons1D → ℚ → Prim1D
  Prim1D_to_Cons1D : Prim1D → ℚ → Cons1D
  fluxes : ℚ → Cons1D → Cons1D → Prim1D → Prim1D → ℚ → Cons1D
  lr_states : Arr1 Prim1D → Arr1 ℚ → ℚ → Int → Int → Arr1 Prim1D → Arr1 Prim1D →
    Arr1 Prim1D × Arr1 Prim1D
  cfast : Cons1D → ℚ → ℚ
  cc_pos : Int → Int → Int → ℚ × ℚ × ℚ

/-- The state the integrator works on: the grid `pG` and the file-level scratch
arrays of `integrate_3d_vl.c`, together with the global `etah`. The arrays
`Ul_x1Face` ... `Ur_x3Face` are read by the `H_CORRECTION` code but are neither
declared nor written in the file. -/
structure State where
  pG : GridS
  Wl_x1Face : Arr3 Prim1D
  Wr_x1Face : Arr3 Prim1D
  Wl_x2Face : Arr3 Prim1D
  Wr_x2Face : Arr3 Prim1D
  Wl_x3Face : Arr3 Prim1D
  Wr_x3Face : Arr3 Prim1D
  x1Flux : Arr3 Cons1D
  x2Flux : Arr3 Cons1D
  x3Flux : Arr3 Cons1D
  B1_x1Face : Arr3 ℚ
  B2_x2Face : Arr3 ℚ
  B3_x3Face : Arr3 ℚ
  emf1 : Arr3 ℚ
  emf2 : Arr3 ℚ
  emf3 : Arr3 ℚ
  emf1_cc : Arr3 ℚ
  emf2_cc : Arr3 ℚ
  emf3_cc : Arr3 ℚ
  Bxc : Arr1 ℚ
  Bxi : Arr1 ℚ
  W : Arr1 Prim1D
  Wl : Arr1 Prim1D
  Wr : Arr1 Prim1D
  U1d : Arr1 Cons1D
  Ul : Arr1 Cons1D
  Ur : Arr1 Cons1D
  Uhalf : Arr3 Gas
  eta1 : Arr3 ℚ
  eta2 : Arr3 ℚ
  eta3 : Arr3 ℚ
  Ul_x1Face : Arr3 Cons1D
  Ur_x1Face : Arr3 Cons1D
  Ul_x2Face : Arr3 Cons1D
  Ur_x2Face : Arr3 Cons1D
  Ul_x3Face : Arr3 Cons1D
  Ur_x3Face : Arr3 Cons1D
  etah : ℚ

/-- The local variables `integrate_3d_vl` computes on entry (lines 87-126). -/
structure Locals where
  dtodx1 : ℚ
  dtodx2 : ℚ
  dtodx3 : ℚ
  q1 : ℚ
  q2 : ℚ
  q3 : ℚ
  dt : ℚ
  hdt : ℚ
  is : Int
  ie : Int
  js : Int
  je : Int
  ks : Int
  ke : Int
  il : Int
  iu : Int
  jl : Int
  ju : Int
  kl : Int
  ku : Int
  ib : Int
  it : Int
  jb : Int
  jt : Int
  kb : Int
  kt : Int

/-- The entry block of `integrate_3d_vl`: time-step ratios and loop limits. -/
def locals (c : Config) (pG : GridS) : Locals where
  dtodx1 := pG.dt / pG.dx1
  dtodx2 := pG.dt / pG.dx2
  dtodx3 := pG.dt / pG.dx3
  q1 := (1 / 2) * (pG.dt / pG.dx1)
  q2 := (1 / 2) * (pG.dt / pG.dx2)
  q3 := (1 / 2) * (pG.dt / pG.dx3)
  dt := pG.dt
  hdt := (1 / 2) * pG.dt
  is := pG.is
  ie := pG.ie
  js := pG.js
  je := pG.je
  ks := pG.ks
  ke := pG.ke
  il := pG.is - c.nghost
  iu := pG.ie + c.nghost
  jl := pG.js - c.nghost
  ju := pG.je + c.nghost
  kl := pG.ks - c.nghost
  ku := pG.ke + c.nghost
  ib := pG.is - c.nghost + c.order.offset
  it := pG.ie + c.nghost - c.order.offset
  jb := pG.js - c.nghost + c.order.offset
  jt := pG.je + c.nghost - c.order.offset
  kb := pG.ks - c.nghost + c.order.offset
  kt := pG.ke + c.nghost - c.order.offset

/-! ## The predictor: Steps 1-3, first-order fluxes -/

/-- Lines 133-141: `etah = 0.0` and the copy `Uhalf[k][j][i] = pG->U[k][j][i]`. -/
def stepInit (l : Locals) (s : State) : State :=
  forLoop l.kl l.ku (fun k s =>
    forLoop l.jl l.ju (fun j s =>
      forLoop l.il l.iu (fun i s =>
        { s with Uhalf := set3 s.Uhalf k j i (s.pG.U k j i) }) s) s)
    { s with etah := 0 }

/-- Loads a cell into the 1D vector of an x1 sweep: `(d, M1, M2, M3, E, B2c, B3c)`. -/
def load1 (u : Gas) : Cons1D :=
  { d := u.d, Mx := u.M1, My := u.M2, Mz := u.M3, E := u.E, By := u.B2c, Bz := u.B3c }

/-- Loads a cell into the 1D vector of an x2 sweep: `(d, M2, M3, M1, E, B3c, B1c)`. -/
def load2 (u : Gas) : Cons1D :=
  { d := u.d, Mx := u.M2, My := u.M3, Mz := u.M1, E := u.E, By := u.B3c, Bz := u.B1c }

/-- Loads a cell into the 1D vector of an x3 sweep: `(d, M3, M1, M2, E, B1c, B2c)`. -/
def load3 (u : Gas) : Cons1D :=
  { d := u.d, Mx := u.M3, My := u.M1, Mz := u.M2, E := u.E, By := u.B1c, Bz := u.B2c }

/-- Step 1, lines 149-178: the left and right states of the face and the copy
of the face field. -/
def step1_load (k j i : Int) (s : State) : State :=
  let s := { s with Ul := set1 s.Ul i (load1 (s.pG.U k j (i - 1))) }
  let s := { s with B1_x1Face := set3 s.B1_x1Face k j i (s.pG.B1i k j i) }
  { s with Ur := set1 s.Ur i (load1 (s.pG.U k j i)) }

/-- Step 1, lines 184-187: the primitive states and the flux of the face. -/
def step1_flux (c : Config) (k j i : Int) (s : State) : State :=
  let s := { s with Wl := set1 s.Wl i (c.Cons1D_to_Prim1D (s.Ul i) (s.B1_x1Face k j i)) }
  let s := { s with Wr := set1 s.Wr i (c.Cons1D_to_Prim1D (s.Ur i) (s.B1_x1Face k j i)) }
  let f := c.fluxes s.etah (s.Ul i) (s.Ur i) (s.Wl i) (s.Wr i) (s.B1_x1Face k j i)
  { s with x1Flux := set3 s.x1Flux k j i f }

/-- Step 1 (lines 146-190): first-order fluxes in the x1-direction. -/
def step1 (c : Config) (l : Locals) (s : State) : State :=
  forLoop l.kl l.ku (fun k s =>
    forLoop l.jl l.ju (fun j s =>
      let s := forLoop (l.il + 1) l.iu (fun i s => step1_load k j i s) s
      forLoop (l.il + 1) l.iu (fun i s => step1_flux c k j i s) s) s) s

/-- Step 2, lines 198-227: the left and right states of the face and the copy
of the face field. -/
def step2_load (k j i : Int) (s : State) : State :=
  let s := { s with Ul := set1 s.Ul j (load2 (s.pG.U k (j - 1) i)) }
  let s := { s with B2_x2Face := set3 s.B2_x2Face k j i (s.pG.B2i k j i) }
  { s with Ur := set1 s.Ur j (load2 (s.pG.U k j i)) }

/-- Step 2, lines 233-236: the primitive states and the flux of the face. -/
def step2_flux (c : Config) (k j i : Int) (s : State) : State :=
  let s := { s with Wl := set1 s.Wl j (c.Cons1D_to_Prim1D (s.Ul j) (s.B2_x2Face k j i)) }
  let s := { s with Wr := set1 s.Wr j (c.Cons1D_to_Prim1D (s.Ur j) (s.B2_x2Face k j i)) }
  let f := c.fluxes s.etah (s.Ul j) (s.Ur j) (s.Wl j) (s.Wr j) (s.B2_x2Face k j i)
  { s with x2Flux := set3 s.x2Flux k j i f }

/-- Step 2 (lines 195-239): first-order fluxes in the x2-direction. -/
def step2 (c : Config) (l : Locals) (s : State) : State :=
  forLoop l.kl l.ku (fun k s =>
    forLoop l.il l.iu (fun i s =>
      let s := forLoop (l.jl + 1) l.ju (fun j s => step2_load k j i s) s
      forLoop (l.jl + 1) l.ju (fun j s => step2_flux c k j i s) s) s) s

/-- Step 3, lines 247-276: the left and right states of the face and the copy
of the face field. -/
def step3_load (k j i : Int) (s : State) : State :=
  let s := { s with Ul := set1 s.Ul k (load3 (s.pG.U (k - 1) j i)) }
  let s := { s with B3_x3Face := set3 s.B3_x3Face k j i (s.pG.B3i k j i) }
  { s with Ur := set1 s.Ur k (load3 (s.pG.U k j i)) }

/-- Step 3, lines 282-285: the primitive states and the flux of the face. -/
def step3_flux (c : Config) (k j i : Int) (s : State) : State :=
  let s := { s with Wl := set1 s.Wl k (c.Cons1D_to_Prim1D (s.Ul k) (s.B3_x3Face k j i)) }
  let s := { s with Wr := set1 s.Wr k (c.Cons1D_to_Prim1D (s.Ur k) (s.B3_x3Face k j i)) }
  let f := c.fluxes s.etah (s.Ul k) (s.Ur k) (s.Wl k) (s.Wr k) (s.B3_x3Face k j i)
  { s with x3Flux := set3 s.x3Flux k j i f }

/-- Step 3 (lines 244-288): first-order fluxes in the x3-direction. -/
def step3 (c : Config) (l : Locals) (s : State) : State :=
  forLoop l.jl l.ju (fun j s =>
    forLoop l.il l.iu (fun i s =>
      let s := forLoop (l.kl + 1) l.ku (fun k s => step3_load k j i s) s
      forLoop (l.kl + 1) l.ku (fun k s => step3_flux c k j i s) s) s) s

/-! ## Corner EMFs (`integrate_emf1_corner`, `integrate_emf2_corner`, `integrate_emf3_corner`) -/

/-- The body of the loop of `integrate_emf1_corner` (lines 1626-1664): the four
upwinded derivative terms and the corner value stored in `emf1[k][j][i]`. -/
def emf1_cell (s : State) (k j i : Int) : ℚ :=
  let de1_l3 :=
    if (s.x2Flux (k - 1) j i).d > 0 then
      (s.x3Flux k (j - 1) i).Bz - s.emf1_cc (k - 1) (j - 1) i
    else if (s.x2Flux (k - 1) j i).d < 0 then
      (s.x3Flux k j i).Bz - s.emf1_cc (k - 1) j i
    else
      (1 / 2) * ((s.x3Flux k (j - 1) i).Bz - s.emf1_cc (k - 1) (j - 1) i +
                 (s.x3Flux k j i).Bz - s.emf1_cc (k - 1) j i)
  let de1_r3 :=
    if (s.x2Flux k j i).d > 0 then
      (s.x3Flux k (j - 1) i).Bz - s.emf1_cc k (j - 1) i
    else if (s.x2Flux k j i).d < 0 then
      (s.x3Flux k j i).Bz - s.emf1_cc k j i
    else
      (1 / 2) * ((s.x3Flux k (j - 1) i).Bz - s.emf1_cc k (j - 1) i +
                 (s.x3Flux k j i).Bz - s.emf1_cc k j i)
  let de1_l2 :=
    if (s.x3Flux k (j - 1) i).d > 0 then
      -(s.x2Flux (k - 1) j i).By - s.emf1_cc (k - 1) (j - 1) i
    else if (s.x3Flux k (j - 1) i).d < 0 then
      -(s.x2Flux k j i).By - s.emf1_cc k (j - 1) i
    else
      (1 / 2) * (-(s.x2Flux (k - 1) j i).By - s.emf1_cc (k - 1) (j - 1) i
                 - (s.x2Flux k j i).By - s.emf1_cc k (j - 1) i)
  let de1_r2 :=
    if (s.x3Flux k j i).d > 0 then
      -(s.x2Flux (k - 1) j i).By - s.emf1_cc (k - 1) j i
    else if (s.x3Flux k j i).d < 0 then
      -(s.x2Flux k j i).By - s.emf1_cc k j i
    else
      (1 / 2) * (-(s.x2Flux (k - 1) j i).By - s.emf1_cc (k - 1) j i
                 - (s.x2Flux k j i).By - s.emf1_cc k j i)
  (1 / 4) * ((s.x3Flux k j i).Bz + (s.x3Flux k (j - 1) i).Bz
                - (s.x2Flux k j i).By - (s.x2Flux (k - 1) j i).By
                + de1_l2 + de1_r2 + de1_l3 + de1_r3)

/-- The function `integrate_emf1_corner` (lines 1611-1670). -/
def integrate_emf1_corner (c : Config) (s : State) : State :=
  let il := s.pG.is - c.nghost
  let iu := s.pG.ie + c.nghost
  let jl := s.pG.js - c.nghost
  let ju := s.pG.je + c.nghost
  let kl := s.pG.ks - c.nghost
  let ku := s.pG.ke + c.nghost
  forLoop (kl + 1) ku (fun k s =>
    forLoop (jl + 1) ju (fun j s =>
      forLoop (il + 1) (iu - 1) (fun i s =>
        { s with emf1 := set3 s.emf1 k j i (emf1_cell s k j i) }) s) s) s

/-- The body of the loop of `integrate_emf2_corner` (lines 1689-1727): the four
upwinded derivative terms and the corner value stored in `emf2[k][j][i]`. -/
def emf2_cell (s : State) (k j i : Int) : ℚ :=
  let de2_l3 :=
    if (s.x1Flux (k - 1) j i).d > 0 then
      -(s.x3Flux k j (i - 1)).By - s.emf2_cc (k - 1) j (i - 1)
    else if (s.x1Flux (k - 1) j i).d < 0 then
      -(s.x3Flux k j i).By - s.emf2_cc (k - 1) j i
    else
      (1 / 2) * (-(s.x3Flux k j (i - 1)).By - s.emf2_cc (k - 1) j (i - 1)
                 - (s.x3Flux k j i).By - s.emf2_cc (k - 1) j i)
  let de2_r3 :=
    if (s.x1Flux k j i).d > 0 then
      -(s.x3Flux k j (i - 1)).By - s.emf2_cc k j (i - 1)
    else if (s.x1Flux k j i).d < 0 then
      -(s.x3Flux k j i).By - s.emf2_cc k j i
    else
      (1 / 2) * (-(s.x3Flux k j (i - 1)).By - s.emf2_cc k j (i - 1)
                 - (s.x3Flux k j i).By - s.emf2_cc k j i)
  let de2_l1 :=
    if (s.x3Flux k j (i - 1)).d > 0 then
      (s.x1Flux (k - 1) j i).Bz - s.emf2_cc (k - 1) j (i - 1)
    else if (s.x3Flux k j (i - 1)).d < 0 then
      (s.x1Flux k j i).Bz - s.emf2_cc k j (i - 1)
    else
      (1 / 2) * ((s.x1Flux (k - 1) j i).Bz - s.emf2_cc (k - 1) j (i - 1) +
                 (s.x1Flux k j i).Bz - s.emf2_cc k j (i - 1))
  let de2_r1 :=
    if (s.x3Flux k j i).d > 0 then
      (s.x1Flux (k - 1) j i).Bz - s.emf2_cc (k - 1) j i
    else if (s.x3Flux k j i).d < 0 then
      (s.x1Flux k j i).Bz - s.emf2_cc k j i
    else
      (1 / 2) * ((s.x1Flux (k - 1) j i).Bz - s.emf2_cc (k - 1) j i +
                 (s.x1Flux k j i).Bz - s.emf2_cc k j i)
  (1 / 4) * ((s.x1Flux k j i).Bz + (s.x1Flux (k - 1) j i).Bz
                - (s.x3Flux k j i).By - (s.x3Flux k j (i - 1)).By
                + de2_l1 + de2_r1 + de2_l3 + de2_r3)

/-- The function `integrate_emf2_corner` (lines 1674-1733). -/
def integrate_emf2_corner (c : Config) (s : State) : State :=
  let il := s.pG.is - c.nghost
  let iu := s.pG.ie + c.nghost
  let jl := s.pG.js - c.nghost
  let ju := s.pG.je + c.nghost
  let kl := s.pG.ks - c.nghost
  let ku := s.pG.ke + c.nghost
  forLoop (kl + 1) ku (fun k s =>
    forLoop (jl + 1) (ju - 1) (fun j s =>
      forLoop (il + 1) iu (fun i s =>
        { s with emf2 := set3 s.emf2 k j i (emf2_cell s k j i) }) s) s) s

/-- The body of the loop of `integrate_emf3_corner` (lines 1752-1790): the four
upwinded derivative terms and the corner value stored in `emf3[k][j][i]`. -/
def emf3_cell (s : State) (k j i : Int) : ℚ :=
  let de3_l2 :=
    if (s.x1Flux k (j - 1) i).d > 0 then
      (s.x2Flux k j (i - 1)).Bz - s.emf3_cc k (j - 1) (i - 1)
    else if (s.x1Flux k (j - 1) i).d < 0 then
      (s.x2Flux k j i).Bz - s.emf3_cc k (j - 1) i
    else
      (1 / 2) * ((s.x2Flux k j (i - 1)).Bz - s.emf3_cc k (j - 1) (i - 1) +
                 (s.x2Flux k j i).Bz - s.emf3_cc k (j - 1) i)
  let de3_r2 :=
    if (s.x1Flux k j i).d > 0 then
      (s.x2Flux k j (i - 1)).Bz - s.emf3_cc k j (i - 1)
    else if (s.x1Flux k j i).d < 0 then
      (s.x2Flux k j i).Bz - s.emf3_cc k j i
    else
      (1 / 2) * ((s.x2Flux k j (i - 1)).Bz - s.emf3_cc k j (i - 1) +
                 (s.x2Flux k j i).Bz - s.emf3_cc k j i)
  let de3_l1 :=
    if (s.x2Flux k j (i - 1)).d > 0 then
      -(s.x1Flux k (j - 1) i).By - s.emf3_cc k (j - 1) (i - 1)
    else if (s.x2Flux k j (i - 1)).d < 0 then
      -(s.x1Flux k j i).By - s.emf3_cc k j (i - 1)
    else
      (1 / 2) * (-(s.x1Flux k (j - 1) i).By - s.emf3_cc k (j - 1) (i - 1)
                 - (s.x1Flux k j i).By - s.emf3_cc k j (i - 1))
  let de3_r1 :=
    if (s.x2Flux k j i).d > 0 then
      -(s.x1Flux k (j - 1) i).By - s.emf3_cc k (j - 1) i
    else if (s.x2Flux k j i).d < 0 then
      -(s.x1Flux k j i).By - s.emf3_cc k j i
    else
      (1 / 2) * (-(s.x1Flux k (j - 1) i).By - s.emf3_cc k (j - 1) i
                 - (s.x1Flux k j i).By - s.emf3_cc k j i)
  (1 / 4) * ((s.x2Flux k j (i - 1)).Bz + (s.x2Flux k j i).Bz
                - (s.x1Flux k (j - 1) i).By - (s.x1Flux k j i).By
                + de3_l1 + de3_r1 + de3_l2 + de3_r2)

/-- The function `integrate_emf3_corner` (lines 1737-1796). -/
def integrate_emf3_corner (c : Config) (s : State) : State :=
  let il := s.pG.is - c.nghost
  let iu := s.pG.ie + c.nghost
  let jl := s.pG.js - c.nghost
  let ju := s.pG.je + c.nghost
  let kl := s.pG.ks - c.nghost
  let ku := s.pG.ke + c.nghost
  forLoop (kl + 1) (ku - 1) (fun k s =>
    forLoop (jl + 1) ju (fun j s =>
      forLoop (il + 1) iu (fun i s =>
        { s with emf3 := set3 s.emf3 k j i (emf3_cell s k j i) }) s) s) s

/-- The derivative term `de1_l3` of `integrate_emf1_corner`, as the source computes
it: the branch for a positive selecting mass flux, the branch for a negative one, and
the branch for a mass flux that is exactly zero. -/
def de1_l3 (s : State) (k j i : Int) : ℚ :=
  if (s.x2Flux (k - 1) j i).d > 0 then
    (s.x3Flux k (j - 1) i).Bz - s.emf1_cc (k - 1) (j - 1) i
  else if (s.x2Flux (k - 1) j i).d < 0 then
    (s.x3Flux k j i).Bz - s.emf1_cc (k - 1) j i
  else
    (1 / 2) * ((s.x3Flux k (j - 1) i).Bz - s.emf1_cc (k - 1) (j - 1) i +
               (s.x3Flux k j i).Bz - s.emf1_cc (k - 1) j i)

/-- The derivative term `de1_r3` of `integrate_emf1_corner`, as the source computes
it: the branch for a positive selecting mass flux, the branch for a negative one, and
the branch for a mass flux that is exactly zero. -/
def de1_r3 (s : State) (k j i : Int) : ℚ :=
  if (s.x2Flux k j i).d > 0 then
    (s.x3Flux k (j - 1) i).Bz - s.emf1_cc k (j - 1) i
  else if (s.x2Flux k j i).d < 0 then
    (s.x3Flux k j i).Bz - s.emf1_cc k j i
  else
    (1 / 2) * ((s.x3Flux k (j - 1) i).Bz - s.emf1_cc k (j - 1) i +
               (s.x3Flux k j i).Bz - s.emf1_cc k j i)

/-- The derivative term `de1_l2` of `integrate_emf1_corner`, as the source computes
it: the branch for a positive selecting mass flux, the branch for a negative one, and
the branch for a mass flux that is exactly zero. -/
def de1_l2 (s : State) (k j i : Int) : ℚ :=
  if (s.x3Flux k (j - 1) i).d > 0 then
    -(s.x2Flux (k - 1) j i).By - s.emf1_cc (k - 1) (j - 1) i
  else if (s.x3Flux k (j - 1) i).d < 0 then
    -(s.x2Flux k j i).By - s.emf1_cc k (j - 1) i
  else
    (1 / 2) * (-(s.x2Flux (k - 1) j i).By - s.emf1_cc (k - 1) (j - 1) i
               - (s.x2Flux k j i).By - s.emf1_cc k (j - 1) i)

/-- The derivative term `de1_r2` of `integrate_emf1_corner`, as the source computes
it: the branch for a positive selecting mass flux, the branch for a negative one, and
the branch for a mass flux that is exactly zero. -/
def de1_r2 (s : State) (k j i : Int) : ℚ :=
  if (s.x3Flux k j i).d > 0 then
    -(s.x2Flux (k - 1) j i).By - s.emf1_cc (k - 1) j i
  else if (s.x3Flux k j i).d < 0 then
    -(s.x2Flux k j i).By - s.emf1_cc k j i
  else
    (1 / 2) * (-(s.x2Flux (k - 1) j i).By - s.emf1_cc (k - 1) j i
               - (s.x2Flux k j i).By - s.emf1_cc k j i)

/-- The derivative term `de2_l3` of `integrate_emf2_corner`, as the source computes
it: the branch for a positive selecting mass flux, the branch for a negative one, and
the branch for a mass flux that is exactly zero. -/
def de2_l3 (s : State) (k j i : Int) : ℚ :=
  if (s.x1Flux (k - 1) j i).d > 0 then
    -(s.x3Flux k j (i - 1)).By - s.emf2_cc (k - 1) j (i - 1)
  else if (s.x1Flux (k - 1) j i).d < 0 then
    -(s.x3Flux k j i).By - s.emf2_cc (k - 1) j i
  else
    (1 / 2) * (-(s.x3Flux k j (i - 1)).By - s.emf2_cc (k - 1) j (i - 1)
               - (s.x3Flux k j i).By - s.emf2_cc (k - 1) j i)

/-- The derivative term `de2_r3` of `integrate_emf2_corner`, as the source computes
it: the branch for a positive selecting mass flux, the branch for a negative one, and
the branch for a mass flux that is exactly zero. -/
def de2_r3 (s : State) (k j i : Int) : ℚ :=
  if (s.x1Flux k j i).d > 0 then
    -(s.x3Flux k j (i - 1)).By - s.emf2_cc k j (i - 1)
  else if (s.x1Flux k j i).d < 0 then
    -(s.x3Flux k j i).By - s.emf2_cc k j i
  else
    (1 / 2) * (-(s.x3Flux k j (i - 1)).By - s.emf2_cc k j (i - 1)
               - (s.x3Flux k j i).By - s.emf2_cc k j i)

/-- The derivative term `de2_l1` of `integrate_emf2_corner`, as the source computes
it: the branch for a positive selecting mass flux, the branch for a negative one, and
the branch for a mass flux that is exactly zero. -/
def de2_l1 (s : State) (k j i : Int) : ℚ :=
  if (s.x3Flux k j (i - 1)).d > 0 then
    (s.x1Flux (k - 1) j i).Bz - s.emf2_cc (k - 1) j (i - 1)
  else if (s.x3Flux k j (i - 1)).d < 0 then
    (s.x1Flux k j i).Bz - s.emf2_cc k j (i - 1)
  else
    (1 / 2) * ((s.x1Flux (k - 1) j i).Bz - s.emf2_cc (k - 1) j (i - 1) +
               (s.x1Flux k j i).Bz - s.emf2_cc k j (i - 1))

/-- The derivative term `de2_r1` of `integrate_emf2_corner`, as the source computes
it: the branch for a positive selecting mass flux, the branch for a negative one, and
the branch for a mass flux that is exactly zero. -/
def de2_r1 (s : State) (k j i : Int) : ℚ :=
  if (s.x3Flux k j i).d > 0 then
    (s.x1Flux (k - 1) j i).Bz - s.emf2_cc (k - 1) j i
  else if (s.x3Flux k j i).d < 0 then
    (s.x1Flux k j i).Bz - s.emf2_cc k j i
  else
    (1 / 2) * ((s.x1Flux (k - 1) j i).Bz - s.emf2_cc (k - 1) j i +
               (s.x1Flux k j i).Bz - s.emf2_cc k j i)

/-- The derivative term `de3_l2` of `integrate_emf3_corner`, as the source computes
it: the branch for a positive selecting mass flux, the branch for a negative one, and
the branch for a mass flux that is exactly zero. -/
def de3_l2 (s : State) (k j i : Int) : ℚ :=
  if (s.x1Flux k (j - 1) i).d > 0 then
    (s.x2Flux k j (i - 1)).Bz - s.emf3_cc k (j - 1) (i - 1)
  else if (s.x1Flux k (j - 1) i).d < 0 then
    (s.x2Flux k j i).Bz - s.emf3_cc k (j - 1) i
  else
    (1 / 2) * ((s.x2Flux k j (i - 1)).Bz - s.emf3_cc k (j - 1) (i - 1) +
               (s.x2Flux k j i).Bz - s.emf3_cc k (j - 1) i)

/-- The derivative term `de3_r2` of `integrate_emf3_corner`, as the source computes
it: the branch for a positive selecting mass flux, the branch for a negative one, and
the branch for a mass flux that is exactly zero. -/
def de3_r2 (s : State) (k j i : Int) : ℚ :=
  if (s.x1Flux k j i).d > 0 then
    (s.x2Flux k j (i - 1)).Bz - s.emf3_cc k j (i - 1)
  else if (s.x1Flux k j i).d < 0 then
    (s.x2Flux k j i).Bz - s.emf3_cc k j i
  else
    (1 / 2) * ((s.x2Flux k j (i - 1)).Bz - s.emf3_cc k j (i - 1) +
               (s.x2Flux k j i).Bz - s.emf3_cc k j i)

/-- The derivative term `de3_l1` of `integrate_emf3_corner`, as the source computes
it: the branch for a positive selecting mass flux, the branch for a negative one, and
the branch for a mass flux that is exactly zero. -/
def de3_l1 (s : State) (k j i : Int) : ℚ :=
  if (s.x2Flux k j (i - 1)).d > 0 then
    -(s.x1Flux k (j - 1) i).By - s.emf3_cc k (j - 1) (i - 1)
  else if (s.x2Flux k j (i - 1)).d < 0 then
    -(s.x1Flux k j i).By - s.emf3_cc k j (i - 1)
  else
    (1 / 2) * (-(s.x1Flux k (j - 1) i).By - s.emf3_cc k (j - 1) (i - 1)
               - (s.x1Flux k j i).By - s.emf3_cc k j (i - 1))

/-- The derivative term `de3_r1` of `integrate_emf3_corner`, as the source computes
it: the branch for a positive selecting mass flux, the branch for a negative one, and
the branch for a mass flux that is exactly zero. -/
def de3_r1 (s : State) (k j i : Int) : ℚ :=
  if (s.x2Flux k j i).d > 0 then
    -(s.x1Flux k (j - 1) i).By - s.emf3_cc k (j - 1) i
  else if (s.x2Flux k j i).d < 0 then
    -(s.x1Flux k j i).By - s.emf3_cc k j i
  else
    (1 / 2) * (-(s.x1Flux k (j - 1) i).By - s.emf3_cc k (j - 1) i
               - (s.x1Flux k j i).By - s.emf3_cc k j i)

/-! ## The predictor: Steps 4-6 -/

/-- Step 4a (lines 298-312): cell-centred EMFs at `t^n`, from `pG->U`. -/
def step4a (l : Locals) (s : State) : State :=
  forLoop l.kl l.ku (fun k s =>
    forLoop l.jl l.ju (fun j s =>
      forLoop l.il l.iu (fun i s =>
        let u := s.pG.U k j i
        let s := { s with emf1_cc := set3 s.emf1_cc k j i ((u.B2c * u.M3 - u.B3c * u.M2) / u.d) }
        let s := { s with emf2_cc := set3 s.emf2_cc k j i ((u.B3c * u.M1 - u.B1c * u.M3) / u.d) }
        { s with emf3_cc := set3 s.emf3_cc k j i ((u.B1c * u.M2 - u.B2c * u.M1) / u.d) }) s) s) s

/-- Step 4b, lines 324-329: the three updates of the innermost loop. -/
def ct4b (l : Locals) (k j i : Int) (s : State) : State :=
  let s := { s with B1_x1Face := set3 s.B1_x1Face k j i (s.B1_x1Face k j i +
    (l.q3 * (s.emf2 (k + 1) j i - s.emf2 k j i) -
     l.q2 * (s.emf3 k (j + 1) i - s.emf3 k j i))) }
  let s := { s with B2_x2Face := set3 s.B2_x2Face k j i (s.B2_x2Face k j i +
    (l.q1 * (s.emf3 k j (i + 1) - s.emf3 k j i) -
     l.q3 * (s.emf1 (k + 1) j i - s.emf1 k j i))) }
  { s with B3_x3Face := set3 s.B3_x3Face k j i (s.B3_x3Face k j i +
    (l.q2 * (s.emf1 k (j + 1) i - s.emf1 k j i) -
     l.q1 * (s.emf2 k j (i + 1) - s.emf2 k j i))) }

/-- Step 4b, lines 331-332: the update of `B1_x1Face[k][j][iu]`. -/
def ct4b_x1 (l : Locals) (k j : Int) (s : State) : State :=
  { s with B1_x1Face := set3 s.B1_x1Face k j l.iu (s.B1_x1Face k j l.iu +
    (l.q3 * (s.emf2 (k + 1) j l.iu - s.emf2 k j l.iu) -
     l.q2 * (s.emf3 k (j + 1) l.iu - s.emf3 k j l.iu))) }

/-- Step 4b, lines 335-336: the update of `B2_x2Face[k][ju][i]`. -/
def ct4b_x2 (l : Locals) (k i : Int) (s : State) : State :=
  { s with B2_x2Face := set3 s.B2_x2Face k l.ju i (s.B2_x2Face k l.ju i +
    (l.q1 * (s.emf3 k l.ju (i + 1) - s.emf3 k l.ju i) -
     l.q3 * (s.emf1 (k + 1) l.ju i - s.emf1 k l.ju i))) }

/-- Step 4b, lines 341-342: the update of `B3_x3Face[ku][j][i]`. -/
def ct4b_x3 (l : Locals) (j i : Int) (s : State) : State :=
  { s with B3_x3Face := set3 s.B3_x3Face l.ku j i (s.B3_x3Face l.ku j i +
    (l.q2 * (s.emf1 l.ku (j + 1) i - s.emf1 l.ku j i) -
     l.q1 * (s.emf2 l.ku j (i + 1) - s.emf2 l.ku j i))) }

/-- Step 4b (lines 321-344): constrained transport of the scratch face fields for
half a time step. -/
def step4b (l : Locals) (s : State) : State :=
  let s := forLoop (l.kl + 1) (l.ku - 1) (fun k s =>
    let s := forLoop (l.jl + 1) (l.ju - 1) (fun j s =>
      let s := forLoop (l.il + 1) (l.iu - 1) (fun i s => ct4b l k j i s) s
      ct4b_x1 l k j s) s
    forLoop (l.il + 1) (l.iu - 1) (fun i s => ct4b_x2 l k i s) s) s
  forLoop (l.jl + 1) (l.ju - 1) (fun j s =>
    forLoop (l.il + 1) (l.iu - 1) (fun i s => ct4b_x3 l j i s) s) s

/-- Step 4c (lines 351-359): half-step cell-centred field as the face average. -/
def step4c (l : Locals) (s : State) : State :=
  forLoop (l.kl + 1) (l.ku - 1) (fun k s =>
    forLoop (l.jl + 1) (l.ju - 1) (fun j s =>
      forLoop (l.il + 1) (l.iu - 1) (fun i s =>
        let u := s.Uhalf k j i
        let u := { u with
          B1c := (1 / 2) * (s.B1_x1Face k j i + s.B1_x1Face k j (i + 1))
          B2c := (1 / 2) * (s.B2_x2Face k j i + s.B2_x2Face k (j + 1) i)
          B3c := (1 / 2) * (s.B3_x3Face k j i + s.B3_x3Face (k + 1) j i) }
        { s with Uhalf := set3 s.Uhalf k j i u }) s) s) s

/-- Step 5a (lines 368-385): half-step update of `Uhalf` with the x1-fluxes. -/
def step5a (l : Locals) (s : State) : State :=
  forLoop (l.kl + 1) (l.ku - 1) (fun k s =>
    forLoop (l.jl + 1) (l.ju - 1) (fun j s =>
      forLoop (l.il + 1) (l.iu - 1) (fun i s =>
        let u := s.Uhalf k j i
        let u := { u with
          d := u.d - l.q1 * ((s.x1Flux k j (i + 1)).d - (s.x1Flux k j i).d)
          M1 := u.M1 - l.q1 * ((s.x1Flux k j (i + 1)).Mx - (s.x1Flux k j i).Mx)
          M2 := u.M2 - l.q1 * ((s.x1Flux k j (i + 1)).My - (s.x1Flux k j i).My)
          M3 := u.M3 - l.q1 * ((s.x1Flux k j (i + 1)).Mz - (s.x1Flux k j i).Mz)
          E := u.E - l.q1 * ((s.x1Flux k j (i + 1)).E - (s.x1Flux k j i).E) }
        { s with Uhalf := set3 s.Uhalf k j i u }) s) s) s

/-- Step 5b (lines 391-408): half-step update of `Uhalf` with the x2-fluxes. -/
def step5b (l : Locals) (s : State) : State :=
  forLoop (l.kl + 1) (l.ku - 1) (fun k s =>
    forLoop (l.jl + 1) (l.ju - 1) (fun j s =>
      forLoop (l.il + 1) (l.iu - 1) (fun i s =>
        let u := s.Uhalf k j i
        let u := { u with
          d := u.d - l.q2 * ((s.x2Flux k (j + 1) i).d - (s.x2Flux k j i).d)
          M1 := u.M1 - l.q2 * ((s.x2Flux k (j + 1) i).Mz - (s.x2Flux k j i).Mz)
          M2 := u.M2 - l.q2 * ((s.x2Flux k (j + 1) i).Mx - (s.x2Flux k j i).Mx)
          M3 := u.M3 - l.q2 * ((s.x2Flux k (j + 1) i).My - (s.x2Flux k j i).My)
          E := u.E - l.q2 * ((s.x2Flux k (j + 1) i).E - (s.x2Flux k j i).E) }
        { s with Uhalf := set3 s.Uhalf k j i u }) s) s) s

/-- Step 5c (lines 414-431): half-step update of `Uhalf` with the x3-fluxes. -/
def step5c (l : Locals) (s : State) : State :=
  forLoop (l.kl + 1) (l.ku - 1) (fun k s =>
    forLoop (l.jl + 1) (l.ju - 1) (fun j s =>
      forLoop (l.il + 1) (l.iu - 1) (fun i s =>
        let u := s.Uhalf k j i
        let u := { u with
          d := u.d - l.q3 * ((s.x3Flux (k + 1) j i).d - (s.x3Flux k j i).d)
          M1 := u.M1 - l.q3 * ((s.x3Flux (k + 1) j i).My - (s.x3Flux k j i).My)
          M2 := u.M2 - l.q3 * ((s.x3Flux (k + 1) j i).Mz - (s.x3Flux k j i).Mz)
          M3 := u.M3 - l.q3 * ((s.x3Flux (k + 1) j i).Mx - (s.x3Flux k j i).Mx)
          E := u.E - l.q3 * ((s.x3Flux (k + 1) j i).E - (s.x3Flux k j i).E) }
        { s with Uhalf := set3 s.Uhalf k j i u }) s) s) s

/-- The body of the loop of Step 6a (lines 446-471): the cell of `Uhalf` after the
half-step source terms of the static potential `pot`. -/
def step6a_cell (c : Config) (pot : ℚ → ℚ → ℚ → ℚ) (l : Locals) (s : State)
    (k j i : Int) (u : Gas) : Gas :=
  let x := c.cc_pos i j k
  let x1 := x.1
  let x2 := x.2.1
  let x3 := x.2.2
  let phic := pot x1 x2 x3
  let phir := pot (x1 + (1 / 2) * s.pG.dx1) x2 x3
  let phil := pot (x1 - (1 / 2) * s.pG.dx1) x2 x3
  let u := { u with M1 := u.M1 - l.q1 * (phir - phil) * (s.pG.U k j i).d }
  let u := { u with E := u.E - l.q1 * ((s.x1Flux k j i).d * (phic - phil)
                                  + (s.x1Flux k j (i + 1)).d * (phir - phic)) }
  let phir := pot x1 (x2 + (1 / 2) * s.pG.dx2) x3
  let phil := pot x1 (x2 - (1 / 2) * s.pG.dx2) x3
  let u := { u with M2 := u.M2 - l.q2 * (phir - phil) * (s.pG.U k j i).d }
  let u := { u with E := u.E - l.q2 * ((s.x2Flux k j i).d * (phic - phil)
                                  + (s.x2Flux k (j + 1) i).d * (phir - phic)) }
  let phir := pot x1 x2 (x3 + (1 / 2) * s.pG.dx3)
  let phil := pot x1 x2 (x3 - (1 / 2) * s.pG.dx3)
  let u := { u with M3 := u.M3 - l.q3 * (phir - phil) * (s.pG.U k j i).d }
  let u := { u with E := u.E - l.q3 * ((s.x3Flux k j i).d * (phic - phil)
                                  + (s.x3Flux (k + 1) j i).d * (phir - phic)) }
  u

/-- Step 6a (lines 442-475): half-step source terms of a static potential. -/
def step6a (c : Config) (l : Locals) (s : State) : State :=
  match c.StaticGravPot with
  | none => s
  | some pot =>
    forLoop (l.kl + 1) (l.ku - 1) (fun k s =>
      forLoop (l.jl + 1) (l.ju - 1) (fun j s =>
        forLoop (l.il + 1) (l.iu - 1) (fun i s =>
          let u := step6a_cell c pot l s k j i (s.Uhalf k j i)
          { s with Uhalf := set3 s.Uhalf k j i u }) s) s) s

/-- The body of the loop of Step 6b (lines 486-512): the cell of `Uhalf` after the
half-step source terms of self-gravity. -/
def step6b_cell (l : Locals) (s : State) (k j i : Int) (u : Gas) : Gas :=
  let phic := s.pG.Phi k j i
  let phir := (1 / 2) * (s.pG.Phi k j i + s.pG.Phi k j (i + 1))
  let phil := (1 / 2) * (s.pG.Phi k j i + s.pG.Phi k j (i - 1))
  let u := { u with M1 := u.M1 - l.q1 * (phir - phil) * (s.pG.U k j i).d }
  let u := { u with E := u.E - l.q1 * ((s.x1Flux k j i).d * (phic - phil)
                                  + (s.x1Flux k j (i + 1)).d * (phir - phic)) }
  let phir := (1 / 2) * (s.pG.Phi k j i + s.pG.Phi k (j + 1) i)
  let phil := (1 / 2) * (s.pG.Phi k j i + s.pG.Phi k (j - 1) i)
  let u := { u with M2 := u.M2 - l.q2 * (phir - phil) * (s.pG.U k j i).d }
  let u := { u with E := u.E - l.q2 * ((s.x2Flux k j i).d * (phic - phil)
                                  + (s.x2Flux k (j + 1) i).d * (phir - phic)) }
  let phir := (1 / 2) * (s.pG.Phi k j i + s.pG.Phi (k + 1) j i)
  let phil := (1 / 2) * (s.pG.Phi k j i + s.pG.Phi (k - 1) j i)
  let u := { u with M3 := u.M3 - l.q3 * (phir - phil) * (s.pG.U k j i).d }
  let u := { u with E := u.E - l.q3 * ((s.x3Flux k j i).d * (phic - phil)
                                  + (s.x3Flux (k + 1) j i).d * (phir - phic)) }
  u

/-- Step 6b (lines 482-516): half-step source terms of self-gravity. -/
def step6b (c : Config) (l : Locals) (s : State) : State :=
  if c.SELF_GRAVITY then
    forLoop (l.kl + 1) (l.ku - 1) (fun k s =>
      forLoop (l.jl + 1) (l.ju - 1) (fun j s =>
        forLoop (l.il + 1) (l.iu - 1) (fun i s =>
          let u := step6b_cell l s k j i (s.Uhalf k j i)
          { s with Uhalf := set3 s.Uhalf k j i u }) s) s) s
  else s

/-! ## The corrector: Steps 7-9, second-order interface states -/

/-- Step 7, lines 528-543: one cell of the half-step state loaded into the line. -/
def step7_load (k j i : Int) (s : State) : State :=
  let s := { s with U1d := set1 s.U1d i (load1 (s.Uhalf k j i)) }
  let s := { s with Bxc := set1 s.Bxc i (s.Uhalf k j i).B1c }
  { s with Bxi := set1 s.Bxi i (s.B1_x1Face k j i) }

/-- Step 7, line 551: one cell of the line converted to primitive variables. -/
def step7_prim (c : Config) (m : Int) (s : State) : State :=
  { s with W := set1 s.W m (c.Cons1D_to_Prim1D (s.U1d m) (s.Bxc m)) }

/-- Step 7, lines 557-558: the interface states of one face stored. -/
def step7_store (k j i : Int) (s : State) : State :=
  let s := { s with Wl_x1Face := set3 s.Wl_x1Face k j i (s.Wl i) }
  { s with Wr_x1Face := set3 s.Wr_x1Face k j i (s.Wr i) }

/-- The call `lr_states(W, Bxc, 0.0, lo, hi, Wl, Wr)`. -/
def step7_lr (c : Config) (lo hi : Int) (s : State) : State :=
  let r := c.lr_states s.W s.Bxc 0 lo hi s.Wl s.Wr
  { s with Wl := r.1, Wr := r.2 }

/-- Step 7 (lines 525-561): left and right states at the x1-interfaces. -/
def step7 (c : Config) (l : Locals) (s : State) : State :=
  forLoop l.kb l.kt (fun k s =>
    forLoop l.jb l.jt (fun j s =>
      let s := forLoop l.il l.iu (fun i s => step7_load k j i s) s
      let s := forLoop l.il l.iu (fun i s => step7_prim c i s) s
      let s := step7_lr c (l.ib + 1) (l.it - 1) s
      forLoop (l.ib + 1) l.it (fun i s => step7_store k j i s) s) s) s

/-- Step 8, lines 573-588: one cell of the half-step state loaded into the line. -/
def step8_load (k j i : Int) (s : State) : State :=
  let s := { s with U1d := set1 s.U1d j (load2 (s.Uhalf k j i)) }
  let s := { s with Bxc := set1 s.Bxc j (s.Uhalf k j i).B2c }
  { s with Bxi := set1 s.Bxi j (s.B2_x2Face k j i) }

/-- Step 8, line 596: one cell of the line converted to primitive variables. -/
def step8_prim (c : Config) (m : Int) (s : State) : State :=
  { s with W := set1 s.W m (c.Cons1D_to_Prim1D (s.U1d m) (s.Bxc m)) }

/-- Step 8, lines 602-603: the interface states of one face stored. -/
def step8_store (k j i : Int) (s : State) : State :=
  let s := { s with Wl_x2Face := set3 s.Wl_x2Face k j i (s.Wl j) }
  { s with Wr_x2Face := set3 s.Wr_x2Face k j i (s.Wr j) }

/-- The call `lr_states(W, Bxc, 0.0, lo, hi, Wl, Wr)`. -/
def step8_lr (c : Config) (lo hi : Int) (s : State) : State :=
  let r := c.lr_states s.W s.Bxc 0 lo hi s.Wl s.Wr
  { s with Wl := r.1, Wr := r.2 }

/-- Step 8 (lines 570-606): left and right states at the x2-interfaces. -/
def step8 (c : Config) (l : Locals) (s : State) : State :=
  forLoop l.kb l.kt (fun k s =>
    forLoop l.ib l.it (fun i s =>
      let s := forLoop l.jl l.ju (fun j s => step8_load k j i s) s
      let s := forLoop l.jl l.ju (fun j s => step8_prim c j s) s
      let s := step8_lr c (l.jb + 1) (l.jt - 1) s
      forLoop (l.jb + 1) l.jt (fun j s => step8_store k j i s) s) s) s

/-- Step 9, lines 618-633: one cell of the half-step state loaded into the line. -/
def step9_load (k j i : Int) (s : State) : State :=
  let s := { s with U1d := set1 s.U1d k (load3 (s.Uhalf k j i)) }
  let s := { s with Bxc := set1 s.Bxc k (s.Uhalf k j i).B3c }
  { s with Bxi := set1 s.Bxi k (s.B3_x3Face k j i) }

/-- Step 9, line 641: one cell of the line converted to primitive variables. -/
def step9_prim (c : Config) (m : Int) (s : State) : State :=
  { s with W := set1 s.W m (c.Cons1D_to_Prim1D (s.U1d m) (s.Bxc m)) }

/-- Step 9, lines 647-648: the interface states of one face stored. -/
def step9_store (k j i : Int) (s : State) : State :=
  let s := { s with Wl_x3Face := set3 s.Wl_x3Face k j i (s.Wl k) }
  { s with Wr_x3Face := set3 s.Wr_x3Face k j i (s.Wr k) }

/-- The call `lr_states(W, Bxc, 0.0, lo, hi, Wl, Wr)`. -/
def step9_lr (c : Config) (lo hi : Int) (s : State) : State :=
  let r := c.lr_states s.W s.Bxc 0 lo hi s.Wl s.Wr
  { s with Wl := r.1, Wr := r.2 }

/-- Step 9 (lines 615-651): left and right states at the x3-interfaces. -/
def step9 (c : Config) (l : Locals) (s : State) : State :=
  forLoop l.jb l.jt (fun j s =>
    forLoop l.ib l.it (fun i s =>
      let s := forLoop l.kl l.ku (fun k s => step9_load k j i s) s
      let s := forLoop l.kl l.ku (fun k s => step9_prim c k s) s
      let s := step9_lr c (l.kb + 1) (l.kt - 1) s
      forLoop (l.kb + 1) l.kt (fun k s => step9_store k j i s) s) s) s

/-! ## The corrector: Step 10, second-order fluxes -/

/-- Step 10a (lines 660-696, `H_CORRECTION` only): the per-face signal speeds. -/
def step10a (c : Config) (l : Locals) (s : State) : State :=
  if c.H_CORRECTION then
    let s := forLoop l.kb l.kt (fun k s =>
      forLoop l.jb l.jt (fun j s =>
        forLoop (l.ib + 1) l.it (fun i s =>
          let cfr := c.cfast (s.Ur_x1Face k j i) (s.B1_x1Face k j i)
          let cfl := c.cfast (s.Ul_x1Face k j i) (s.B1_x1Face k j i)
          let lambdar := (s.Ur_x1Face k j i).Mx / (s.Ur_x1Face k j i).d + cfr
          let lambdal := (s.Ul_x1Face k j i).Mx / (s.Ul_x1Face k j i).d - cfl
          { s with eta1 := set3 s.eta1 k j i ((1 / 2) * |lambdar - lambdal|) }) s) s) s
    let s := forLoop l.kb l.kt (fun k s =>
      forLoop (l.jb + 1) l.jt (fun j s =>
        forLoop l.ib l.it (fun i s =>
          let cfr := c.cfast (s.Ur_x2Face k j i) (s.B2_x2Face k j i)
          let cfl := c.cfast (s.Ul_x2Face k j i) (s.B2_x2Face k j i)
          let lambdar := (s.Ur_x2Face k j i).Mx / (s.Ur_x2Face k j i).d + cfr
          let lambdal := (s.Ul_x2Face k j i).Mx / (s.Ul_x2Face k j i).d - cfl
          { s with eta2 := set3 s.eta2 k j i ((1 / 2) * |lambdar - lambdal|) }) s) s) s
    forLoop (l.kb + 1) l.kt (fun k s =>
      forLoop l.jb l.jt (fun j s =>
        forLoop l.ib l.it (fun i s =>
          let cfr := c.cfast (s.Ur_x3Face k j i) (s.B3_x3Face k j i)
          let cfl := c.cfast (s.Ul_x3Face k j i) (s.B3_x3Face k j i)
          let lambdar := (s.Ur_x3Face k j i).Mx / (s.Ur_x3Face k j i).d + cfr
          let lambdal := (s.Ul_x3Face k j i).Mx / (s.Ul_x3Face k j i).d - cfl
          { s with eta3 := set3 s.eta3 k j i ((1 / 2) * |lambdar - lambdal|) }) s) s) s
  else s

/-- Modelled from the spec: the definition of `MAX` (in `defs.h`) is not part of
the sources; it is the larger of its two arguments, `((a) > (b) ? (a) : (b))`. -/
def MAX (a b : ℚ) : ℚ := if a > b then a else b

/-- The `H_CORRECTION` block of Step 10b (lines 705-716): `etah` for an x1-face. -/
def etah1 (c : Config) (k j i : Int) (s : State) : State :=
  if c.H_CORRECTION then
    let s := { s with etah := MAX (s.eta2 k j (i - 1)) (s.eta2 k j i) }
    let s := { s with etah := MAX s.etah (s.eta2 k (j + 1) (i - 1)) }
    let s := { s with etah := MAX s.etah (s.eta2 k (j + 1) i) }
    let s := { s with etah := MAX s.etah (s.eta3 k j (i - 1)) }
    let s := { s with etah := MAX s.etah (s.eta3 k j i) }
    let s := { s with etah := MAX s.etah (s.eta3 (k + 1) j (i - 1)) }
    let s := { s with etah := MAX s.etah (s.eta3 (k + 1) j i) }
    { s with etah := MAX s.etah (s.eta1 k j i) }
  else s

/-- The `H_CORRECTION` block of Step 10c (lines 735-746): `etah` for an x2-face. -/
def etah2 (c : Config) (k j i : Int) (s : State) : State :=
  if c.H_CORRECTION then
    let s := { s with etah := MAX (s.eta1 k (j - 1) i) (s.eta1 k j i) }
    let s := { s with etah := MAX s.etah (s.eta1 k (j - 1) (i + 1)) }
    let s := { s with etah := MAX s.etah (s.eta1 k j (i + 1)) }
    let s := { s with etah := MAX s.etah (s.eta3 k (j - 1) i) }
    let s := { s with etah := MAX s.etah (s.eta3 k j i) }
    let s := { s with etah := MAX s.etah (s.eta3 (k + 1) (j - 1) i) }
    let s := { s with etah := MAX s.etah (s.eta3 (k + 1) j i) }
    { s with etah := MAX s.etah (s.eta2 k j i) }
  else s

/-- The `H_CORRECTION` block of Step 10d (lines 764-775): `etah` for an x3-face. -/
def etah3 (c : Config) (k j i : Int) (s : State) : State :=
  if c.H_CORRECTION then
    let s := { s with etah := MAX (s.eta1 (k - 1) j i) (s.eta1 k j i) }
    let s := { s with etah := MAX s.etah (s.eta1 (k - 1) j (i + 1)) }
    let s := { s with etah := MAX s.etah (s.eta1 k j (i + 1)) }
    let s := { s with etah := MAX s.etah (s.eta2 (k - 1) j i) }
    let s := { s with etah := MAX s.etah (s.eta2 k j i) }
    let s := { s with etah := MAX s.etah (s.eta2 (k - 1) (j + 1) i) }
    let s := { s with etah := MAX s.etah (s.eta2 k (j + 1) i) }
    { s with etah := MAX s.etah (s.eta3 k j i) }
  else s

/-- Step 10b, lines 705-723: the body of the loop, for one x1-face. -/
def step10b_body (c : Config) (k j i : Int) (s : State) : State :=
  let s := etah1 c k j i s
  let s := { s with
    Ul := set1 s.Ul i (c.Prim1D_to_Cons1D (s.Wl_x1Face k j i) (s.B1_x1Face k j i)) }
  let s := { s with
    Ur := set1 s.Ur i (c.Prim1D_to_Cons1D (s.Wr_x1Face k j i) (s.B1_x1Face k j i)) }
  let f := c.fluxes s.etah (s.Ul i) (s.Ur i) (s.Wl_x1Face k j i) (s.Wr_x1Face k j i)
    (s.B1_x1Face k j i)
  { s with x1Flux := set3 s.x1Flux k j i f }

/-- Step 10b (lines 702-726): second-order fluxes in the x1-direction. -/
def step10b (c : Config) (l : Locals) (s : State) : State :=
  forLoop l.kb l.kt (fun k s =>
    forLoop l.jb l.jt (fun j s =>
      forLoop (l.ib + 1) l.it (fun i s => step10b_body c k j i s) s) s) s

/-- Step 10c, lines 735-752: the body of the loop, for one x2-face. -/
def step10c_body (c : Config) (k j i : Int) (s : State) : State :=
  let s := etah2 c k j i s
  let s := { s with
    Ul := set1 s.Ul i (c.Prim1D_to_Cons1D (s.Wl_x2Face k j i) (s.B2_x2Face k j i)) }
  let s := { s with
    Ur := set1 s.Ur i (c.Prim1D_to_Cons1D (s.Wr_x2Face k j i) (s.B2_x2Face k j i)) }
  let f := c.fluxes s.etah (s.Ul i) (s.Ur i) (s.Wl_x2Face k j i) (s.Wr_x2Face k j i)
    (s.B2_x2Face k j i)
  { s with x2Flux := set3 s.x2Flux k j i f }

/-- Step 10c (lines 732-755): second-order fluxes in the x2-direction. -/
def step10c (c : Config) (l : Locals) (s : State) : State :=
  forLoop l.kb l.kt (fun k s =>
    forLoop (l.jb + 1) l.jt (fun j s =>
      forLoop l.ib l.it (fun i s => step10c_body c k j i s) s) s) s

/-- Step 10d, lines 764-781: the body of the loop, for one x3-face. -/
def step10d_body (c : Config) (k j i : Int) (s : State) : State :=
  let s := etah3 c k j i s
  let s := { s with
    Ul := set1 s.Ul i (c.Prim1D_to_Cons1D (s.Wl_x3Face k j i) (s.B3_x3Face k j i)) }
  let s := { s with
    Ur := set1 s.Ur i (c.Prim1D_to_Cons1D (s.Wr_x3Face k j i) (s.B3_x3Face k j i)) }
  let f := c.fluxes s.etah (s.Ul i) (s.Ur i) (s.Wl_x3Face k j i) (s.Wr_x3Face k j i)
    (s.B3_x3Face k j i)
  { s with x3Flux := set3 s.x3Flux k j i f }

/-- Step 10d (lines 761-784): second-order fluxes in the x3-direction. -/
def step10d (c : Config) (l : Locals) (s : State) : State :=
  forLoop (l.kb + 1) l.kt (fun k s =>
    forLoop l.jb l.jt (fun j s =>
      forLoop l.ib l.it (fun i s => step10d_body c k j i s) s) s) s

/-! ## The corrector: Step 11, constrained transport for a full step -/

/-- Step 11a (lines 793-809): cell-centred EMFs at the half step, from `Uhalf`. -/
def step11a (l : Locals) (s : State) : State :=
  forLoop l.kb l.kt (fun k s =>
    forLoop l.jb l.jt (fun j s =>
      forLoop l.ib l.it (fun i s =>
        let d := (s.Uhalf k j i).d
        let M1 := (s.Uhalf k j i).M1
        let M2 := (s.Uhalf k j i).M2
        let M3 := (s.Uhalf k j i).M3
        let B1c := (s.Uhalf k j i).B1c
        let B2c := (s.Uhalf k j i).B2c
        let B3c := (s.Uhalf k j i).B3c
        let s := { s with emf1_cc := set3 s.emf1_cc k j i ((B2c * M3 - B3c * M2) / d) }
        let s := { s with emf2_cc := set3 s.emf2_cc k j i ((B3c * M1 - B1c * M3) / d) }
        { s with emf3_cc := set3 s.emf3_cc k j i ((B1c * M2 - B2c * M1) / d) }) s) s) s

/-- The stores `pG->B1i[k][j][i] = v`, `pG->B2i[k][j][i] = v`, `pG->B3i[k][j][i] = v`
and `pG->U[k][j][i] = u`. -/
def setB1i (s : State) (k j i : Int) (v : ℚ) : State :=
  { s with pG := { s.pG with B1i := set3 s.pG.B1i k j i v } }

/-- The store `pG->B2i[k][j][i] = v`. -/
def setB2i (s : State) (k j i : Int) (v : ℚ) : State :=
  { s with pG := { s.pG with B2i := set3 s.pG.B2i k j i v } }

/-- The store `pG->B3i[k][j][i] = v`. -/
def setB3i (s : State) (k j i : Int) (v : ℚ) : State :=
  { s with pG := { s.pG with B3i := set3 s.pG.B3i k j i v } }

/-- The store `pG->U[k][j][i] = u`. -/
def setU (s : State) (k j i : Int) (u : Gas) : State :=
  { s with pG := { s.pG with U := set3 s.pG.U k j i u } }

/-- Step 11c, lines 828-833: the three updates of the innermost loop. -/
def ct11c (l : Locals) (k j i : Int) (s : State) : State :=
  let s := setB1i s k j i (s.pG.B1i k j i +
    (l.dtodx3 * (s.emf2 (k + 1) j i - s.emf2 k j i) -
     l.dtodx2 * (s.emf3 k (j + 1) i - s.emf3 k j i)))
  let s := setB2i s k j i (s.pG.B2i k j i +
    (l.dtodx1 * (s.emf3 k j (i + 1) - s.emf3 k j i) -
     l.dtodx3 * (s.emf1 (k + 1) j i - s.emf1 k j i)))
  setB3i s k j i (s.pG.B3i k j i +
    (l.dtodx2 * (s.emf1 k (j + 1) i - s.emf1 k j i) -
     l.dtodx1 * (s.emf2 k j (i + 1) - s.emf2 k j i)))

/-- Step 11c, lines 835-837: the update of `pG->B1i[k][j][it]`. -/
def ct11c_x1 (l : Locals) (k j : Int) (s : State) : State :=
  setB1i s k j l.it (s.pG.B1i k j l.it +
    (l.dtodx3 * (s.emf2 (k + 1) j l.it - s.emf2 k j l.it) -
     l.dtodx2 * (s.emf3 k (j + 1) l.it - s.emf3 k j l.it)))

/-- Step 11c, lines 840-842: the update of `pG->B2i[k][jt][i]`. -/
def ct11c_x2 (l : Locals) (k i : Int) (s : State) : State :=
  setB2i s k l.jt i (s.pG.B2i k l.jt i +
    (l.dtodx1 * (s.emf3 k l.jt (i + 1) - s.emf3 k l.jt i) -
     l.dtodx3 * (s.emf1 (k + 1) l.jt i - s.emf1 k l.jt i)))

/-- Step 11c, lines 847-849: the update of `pG->B3i[kt][j][i]`. -/
def ct11c_x3 (l : Locals) (j i : Int) (s : State) : State :=
  setB3i s l.kt j i (s.pG.B3i l.kt j i +
    (l.dtodx2 * (s.emf1 l.kt (j + 1) i - s.emf1 l.kt j i) -
     l.dtodx1 * (s.emf2 l.kt j (i + 1) - s.emf2 l.kt j i)))

/-- Step 11c (lines 825-851): constrained transport of the persistent face fields
`pG->B1i`, `pG->B2i`, `pG->B3i` for a full time step. -/
def step11c (l : Locals) (s : State) : State :=
  let s := forLoop (l.kb + 1) (l.kt - 1) (fun k s =>
    let s := forLoop (l.jb + 1) (l.jt - 1) (fun j s =>
      let s := forLoop (l.ib + 1) (l.it - 1) (fun i s => ct11c l k j i s) s
      ct11c_x1 l k j s) s
    forLoop (l.ib + 1) (l.it - 1) (fun i s => ct11c_x2 l k i s) s) s
  forLoop (l.jb + 1) (l.jt - 1) (fun j s =>
    forLoop (l.ib + 1) (l.it - 1) (fun i s => ct11c_x3 l j i s) s) s

/-! ## The corrector: Step 12, source terms for a full step -/

/-- The body of the loop of Step 12a (lines 867-894): the cell of `pG->U` after the
full-step source terms of the static potential `pot`. -/
def step12a_cell (c : Config) (pot : ℚ → ℚ → ℚ → ℚ) (l : Locals) (s : State)
    (k j i : Int) (u : Gas) : Gas :=
  let x := c.cc_pos i j k
  let x1 := x.1
  let x2 := x.2.1
  let x3 := x.2.2
  let phic := pot x1 x2 x3
  let phir := pot (x1 + (1 / 2) * s.pG.dx1) x2 x3
  let phil := pot (x1 - (1 / 2) * s.pG.dx1) x2 x3
  let u := { u with M1 := u.M1 - l.dtodx1 * (phir - phil) * (s.Uhalf k j i).d }
  let u := { u with E := u.E - l.dtodx1 * ((s.x1Flux k j i).d * (phic - phil)
                                      + (s.x1Flux k j (i + 1)).d * (phir - phic)) }
  let phir := pot x1 (x2 + (1 / 2) * s.pG.dx2) x3
  let phil := pot x1 (x2 - (1 / 2) * s.pG.dx2) x3
  let u := { u with M2 := u.M2 - l.dtodx2 * (phir - phil) * (s.Uhalf k j i).d }
  let u := { u with E := u.E - l.dtodx2 * ((s.x2Flux k j i).d * (phic - phil)
                                      + (s.x2Flux k (j + 1) i).d * (phir - phic)) }
  let phir := pot x1 x2 (x3 + (1 / 2) * s.pG.dx3)
  let phil := pot x1 x2 (x3 - (1 / 2) * s.pG.dx3)
  let u := { u with M3 := u.M3 - l.dtodx3 * (phir - phil) * (s.Uhalf k j i).d }
  let u := { u with E := u.E - l.dtodx3 * ((s.x3Flux k j i).d * (phic - phil)
                                      + (s.x3Flux (k + 1) j i).d * (phir - phic)) }
  u

/-- Step 12a (lines 863-898): full-step source terms of a static potential. -/
def step12a (c : Config) (l : Locals) (s : State) : State :=
  match c.StaticGravPot with
  | none => s
  | some pot =>
    forLoop (l.kl + 1) (l.ku - 1) (fun k s =>
      forLoop (l.jl + 1) (l.ju - 1) (fun j s =>
        forLoop (l.il + 1) (l.iu - 1) (fun i s =>
          let u := step12a_cell c pot l s k j i (s.pG.U k j i)
          setU s k j i u) s) s) s

/-- The gravitational momentum fluxes through the two x1-faces of a cell and the
potential at its centre and faces (Step 12b, lines 912-938). -/
structure GravFlux where
  phic : ℚ
  phil : ℚ
  phir : ℚ
  flx_m1l : ℚ
  flx_m1r : ℚ
  flx_m2l : ℚ
  flx_m2r : ℚ
  flx_m3l : ℚ
  flx_m3r : ℚ

/-- Step 12b, `d/dx1` terms: the body of the loop up to the fluxes (lines 912-938). -/
def gravFlux1 (c : Config) (pG : GridS) (k j i : Int) : GravFlux :=
  let phic := pG.Phi k j i
  let phil := (1 / 2) * (pG.Phi k j (i - 1) + pG.Phi k j i)
  let phir := (1 / 2) * (pG.Phi k j i + pG.Phi k j (i + 1))
  let gxl := (pG.Phi k j (i - 1) - pG.Phi k j i) / pG.dx1
  let gxr := (pG.Phi k j i - pG.Phi k j (i + 1)) / pG.dx1
  let gyl := (1 / 4) * ((pG.Phi k (j - 1) (i - 1) - pG.Phi k (j + 1) (i - 1)) +
                        (pG.Phi k (j - 1) i - pG.Phi k (j + 1) i)) / pG.dx2
  let gyr := (1 / 4) * ((pG.Phi k (j - 1) i - pG.Phi k (j + 1) i) +
                        (pG.Phi k (j - 1) (i + 1) - pG.Phi k (j + 1) (i + 1))) / pG.dx2
  let gzl := (1 / 4) * ((pG.Phi (k - 1) j (i - 1) - pG.Phi (k + 1) j (i - 1)) +
                        (pG.Phi (k - 1) j i - pG.Phi (k + 1) j i)) / pG.dx3
  let gzr := (1 / 4) * ((pG.Phi (k - 1) j i - pG.Phi (k + 1) j i) +
                        (pG.Phi (k - 1) j (i + 1) - pG.Phi (k + 1) j (i + 1))) / pG.dx3
  { phic := phic, phil := phil, phir := phir
    flx_m1l := (1 / 2) * (gxl * gxl - gyl * gyl - gzl * gzl) / c.four_pi_G + c.grav_mean_rho * phil
    flx_m1r := (1 / 2) * (gxr * gxr - gyr * gyr - gzr * gzr) / c.four_pi_G + c.grav_mean_rho * phir
    flx_m2l := gxl * gyl / c.four_pi_G
    flx_m2r := gxr * gyr / c.four_pi_G
    flx_m3l := gxl * gzl / c.four_pi_G
    flx_m3r := gxr * gzr / c.four_pi_G }

/-- Step 12b, `d/dx2` terms: the body of the loop up to the fluxes (lines 957-983). -/
def gravFlux2 (c : Config) (pG : GridS) (k j i : Int) : GravFlux :=
  let phic := pG.Phi k j i
  let phil := (1 / 2) * (pG.Phi k (j - 1) i + pG.Phi k j i)
  let phir := (1 / 2) * (pG.Phi k j i + pG.Phi k (j + 1) i)
  let gxl := (1 / 4) * ((pG.Phi k (j - 1) (i - 1) - pG.Phi k (j - 1) (i + 1)) +
                        (pG.Phi k j (i - 1) - pG.Phi k j (i + 1))) / pG.dx1
  let gxr := (1 / 4) * ((pG.Phi k j (i - 1) - pG.Phi k j (i + 1)) +
                        (pG.Phi k (j + 1) (i - 1) - pG.Phi k (j + 1) (i + 1))) / pG.dx1
  let gyl := (pG.Phi k (j - 1) i - pG.Phi k j i) / pG.dx2
  let gyr := (pG.Phi k j i - pG.Phi k (j + 1) i) / pG.dx2
  let gzl := (1 / 4) * ((pG.Phi (k - 1) (j - 1) i - pG.Phi (k + 1) (j - 1) i) +
                        (pG.Phi (k - 1) j i - pG.Phi (k + 1) j i)) / pG.dx3
  let gzr := (1 / 4) * ((pG.Phi (k - 1) j i - pG.Phi (k + 1) j i) +
                        (pG.Phi (k - 1) (j + 1) i - pG.Phi (k + 1) (j + 1) i)) / pG.dx3
  { phic := phic, phil := phil, phir := phir
    flx_m1l := gyl * gxl / c.four_pi_G
    flx_m1r := gyr * gxr / c.four_pi_G
    flx_m2l := (1 / 2) * (gyl * gyl - gxl * gxl - gzl * gzl) / c.four_pi_G + c.grav_mean_rho * phil
    flx_m2r := (1 / 2) * (gyr * gyr - gxr * gxr - gzr * gzr) / c.four_pi_G + c.grav_mean_rho * phir
    flx_m3l := gyl * gzl / c.four_pi_G
    flx_m3r := gyr * gzr / c.four_pi_G }

/-- Step 12b, `d/dx3` terms: the body of the loop up to the fluxes (lines 1002-1028). -/
def gravFlux3 (c : Config) (pG : GridS) (k j i : Int) : GravFlux :=
  let phic := pG.Phi k j i
  let phil := (1 / 2) * (pG.Phi (k - 1) j i + pG.Phi k j i)
  let phir := (1 / 2) * (pG.Phi k j i + pG.Phi (k + 1) j i)
  let gxl := (1 / 4) * ((pG.Phi (k - 1) j (i - 1) - pG.Phi (k - 1) j (i + 1)) +
                        (pG.Phi k j (i - 1) - pG.Phi k j (i + 1))) / pG.dx1
  let gxr := (1 / 4) * ((pG.Phi k j (i - 1) - pG.Phi k j (i + 1)) +
                        (pG.Phi (k + 1) j (i - 1) - pG.Phi (k + 1) j (i + 1))) / pG.dx1
  let gyl := (1 / 4) * ((pG.Phi (k - 1) (j - 1) i - pG.Phi (k - 1) (j + 1) i) +
                        (pG.Phi k (j - 1) i - pG.Phi k (j + 1) i)) / pG.dx2
  let gyr := (1 / 4) * ((pG.Phi k (j - 1) i - pG.Phi k (j + 1) i) +
                        (pG.Phi (k + 1) (j - 1) i - pG.Phi (k + 1) (j + 1) i)) / pG.dx2
  let gzl := (pG.Phi (k - 1) j i - pG.Phi k j i) / pG.dx3
  let gzr := (pG.Phi k j i - pG.Phi (k + 1) j i) / pG.dx3
  { phic := phic, phil := phil, phir := phir
    flx_m1l := gzl * gxl / c.four_pi_G
    flx_m1r := gzr * gxr / c.four_pi_G
    flx_m2l := gzl * gyl / c.four_pi_G
    flx_m2r := gzr * gyr / c.four_pi_G
    flx_m3l := (1 / 2) * (gzl * gzl - gxl * gxl - gyl * gyl) / c.four_pi_G + c.grav_mean_rho * phil
    flx_m3r := (1 / 2) * (gzr * gzr - gxr * gxr - gyr * gyr) / c.four_pi_G + c.grav_mean_rho * phir }

/-- The body of the first loop of Step 12b (lines 912-947): the cell of `pG->U` after
the `d/dx1` terms of self-gravity. -/
def step12b1_cell (c : Config) (l : Locals) (s : State) (k j i : Int) (u : Gas) : Gas :=
  let g := gravFlux1 c s.pG k j i
  { u with
    M1 := u.M1 - l.dtodx1 * (g.flx_m1r - g.flx_m1l)
    M2 := u.M2 - l.dtodx1 * (g.flx_m2r - g.flx_m2l)
    M3 := u.M3 - l.dtodx1 * (g.flx_m3r - g.flx_m3l)
    E := u.E - l.dtodx1 * ((s.x1Flux k j i).d * (g.phic - g.phil) +
                           (s.x1Flux k j (i + 1)).d * (g.phir - g.phic)) }

/-- Step 12b (lines 909-950): self-gravity, `d/dx1` terms. -/
def step12b1 (c : Config) (l : Locals) (s : State) : State :=
  forLoop (l.kl + 1) (l.ku - 1) (fun k s =>
    forLoop (l.jl + 1) (l.ju - 1) (fun j s =>
      forLoop (l.il + 1) (l.iu - 1) (fun i s =>
        let u := step12b1_cell c l s k j i (s.pG.U k j i)
        setU s k j i u) s) s) s

/-- The body of the second loop of Step 12b (lines 957-992): the cell of `pG->U`
after the `d/dx2` terms of self-gravity. -/
def step12b2_cell (c : Config) (l : Locals) (s : State) (k j i : Int) (u : Gas) : Gas :=
  let g := gravFlux2 c s.pG k j i
  { u with
    M1 := u.M1 - l.dtodx2 * (g.flx_m1r - g.flx_m1l)
    M2 := u.M2 - l.dtodx2 * (g.flx_m2r - g.flx_m2l)
    M3 := u.M3 - l.dtodx2 * (g.flx_m3r - g.flx_m3l)
    E := u.E - l.dtodx2 * ((s.x2Flux k j i).d * (g.phic - g.phil) +
                           (s.x2Flux k (j + 1) i).d * (g.phir - g.phic)) }

/-- Step 12b (lines 954-995): self-gravity, `d/dx2` terms. -/
def step12b2 (c : Config) (l : Locals) (s : State) : State :=
  forLoop l.ks l.ke (fun k s =>
    forLoop l.js l.je (fun j s =>
      forLoop l.is l.ie (fun i s =>
        let u := step12b2_cell c l s k j i (s.pG.U k j i)
        setU s k j i u) s) s) s

/-- The body of the third loop of Step 12b (lines 1002-1037): the cell of `pG->U`
after the `d/dx3` terms of self-gravity. -/
def step12b3_cell (c : Config) (l : Locals) (s : State) (k j i : Int) (u : Gas) : Gas :=
  let g := gravFlux3 c s.pG k j i
  { u with
    M1 := u.M1 - l.dtodx3 * (g.flx_m1r - g.flx_m1l)
    M2 := u.M2 - l.dtodx3 * (g.flx_m2r - g.flx_m2l)
    M3 := u.M3 - l.dtodx3 * (g.flx_m3r - g.flx_m3l)
    E := u.E - l.dtodx3 * ((s.x3Flux k j i).d * (g.phic - g.phil) +
                           (s.x3Flux (k + 1) j i).d * (g.phir - g.phic)) }

/-- Step 12b (lines 999-1040): self-gravity, `d/dx3` terms. -/
def step12b3 (c : Config) (l : Locals) (s : State) : State :=
  forLoop l.ks l.ke (fun k s =>
    forLoop l.js l.je (fun j s =>
      forLoop l.is l.ie (fun i s =>
        let u := step12b3_cell c l s k j i (s.pG.U k j i)
        setU s k j i u) s) s) s

/-- Step 12b (lines 1044-1052): the mass fluxes saved in the grid. -/
def stepMassFlux (l : Locals) (s : State) : State :=
  forLoop l.ks (l.ke + 1) (fun k s =>
    forLoop l.js (l.je + 1) (fun j s =>
      forLoop l.is (l.ie + 1) (fun i s =>
        let s := { s with pG := { s.pG with
          x1MassFlux := set3 s.pG.x1MassFlux k j i (s.x1Flux k j i).d } }
        let s := { s with pG := { s.pG with
          x2MassFlux := set3 s.pG.x2MassFlux k j i (s.x2Flux k j i).d } }
        { s with pG := { s.pG with
          x3MassFlux := set3 s.pG.x3MassFlux k j i (s.x3Flux k j i).d } }) s) s) s

/-- Step 12b (lines 906-1053, `SELF_GRAVITY` only). -/
def step12b (c : Config) (l : Locals) (s : State) : State :=
  if c.SELF_GRAVITY then
    stepMassFlux l (step12b3 c l (step12b2 c l (step12b1 c l s)))
  else s

/-! ## The corrector: Step 13, full-step update of the cell-centred state -/

/-- Step 13a (lines 1061-1078): update of `pG->U` with the x1-fluxes. -/
def step13a (l : Locals) (s : State) : State :=
  forLoop (l.kb + 1) (l.kt - 1) (fun k s =>
    forLoop (l.jb + 1) (l.jt - 1) (fun j s =>
      forLoop (l.ib + 1) (l.it - 1) (fun i s =>
        let u := s.pG.U k j i
        let u := { u with
          d := u.d - l.dtodx1 * ((s.x1Flux k j (i + 1)).d - (s.x1Flux k j i).d)
          M1 := u.M1 - l.dtodx1 * ((s.x1Flux k j (i + 1)).Mx - (s.x1Flux k j i).Mx)
          M2 := u.M2 - l.dtodx1 * ((s.x1Flux k j (i + 1)).My - (s.x1Flux k j i).My)
          M3 := u.M3 - l.dtodx1 * ((s.x1Flux k j (i + 1)).Mz - (s.x1Flux k j i).Mz)
          E := u.E - l.dtodx1 * ((s.x1Flux k j (i + 1)).E - (s.x1Flux k j i).E) }
        setU s k j i u) s) s) s

/-- Step 13b (lines 1084-1101): update of `pG->U` with the x2-fluxes. -/
def step13b (l : Locals) (s : State) : State :=
  forLoop (l.kb + 1) (l.kt - 1) (fun k s =>
    forLoop (l.jb + 1) (l.jt - 1) (fun j s =>
      forLoop (l.ib + 1) (l.it - 1) (fun i s =>
        let u := s.pG.U k j i
        let u := { u with
          d := u.d - l.dtodx2 * ((s.x2Flux k (j + 1) i).d - (s.x2Flux k j i).d)
          M1 := u.M1 - l.dtodx2 * ((s.x2Flux k (j + 1) i).Mz - (s.x2Flux k j i).Mz)
          M2 := u.M2 - l.dtodx2 * ((s.x2Flux k (j + 1) i).Mx - (s.x2Flux k j i).Mx)
          M3 := u.M3 - l.dtodx2 * ((s.x2Flux k (j + 1) i).My - (s.x2Flux k j i).My)
          E := u.E - l.dtodx2 * ((s.x2Flux k (j + 1) i).E - (s.x2Flux k j i).E) }
        setU s k j i u) s) s) s

/-- Step 13c (lines 1107-1124): update of `pG->U` with the x3-fluxes. -/
def step13c (l : Locals) (s : State) : State :=
  forLoop (l.kb + 1) (l.kt - 1) (fun k s =>
    forLoop (l.jb + 1) (l.jt - 1) (fun j s =>
      forLoop (l.ib + 1) (l.it - 1) (fun i s =>
        let u := s.pG.U k j i
        let u := { u with
          d := u.d - l.dtodx3 * ((s.x3Flux (k + 1) j i).d - (s.x3Flux k j i).d)
          M1 := u.M1 - l.dtodx3 * ((s.x3Flux (k + 1) j i).My - (s.x3Flux k j i).My)
          M2 := u.M2 - l.dtodx3 * ((s.x3Flux (k + 1) j i).Mz - (s.x3Flux k j i).Mz)
          M3 := u.M3 - l.dtodx3 * ((s.x3Flux (k + 1) j i).Mx - (s.x3Flux k j i).Mx)
          E := u.E - l.dtodx3 * ((s.x3Flux (k + 1) j i).E - (s.x3Flux k j i).E) }
        setU s k j i u) s) s) s

/-- Step 13e (lines 1132-1140): cell-centred field as the average of the updated
face fields. -/
def step13e (l : Locals) (s : State) : State :=
  forLoop (l.kb + 1) (l.kt - 1) (fun k s =>
    forLoop (l.jb + 1) (l.jt - 1) (fun j s =>
      forLoop (l.ib + 1) (l.it - 1) (fun i s =>
        let u := s.pG.U k j i
        let u := { u with
          B1c := (1 / 2) * (s.pG.B1i k j i + s.pG.B1i k j (i + 1))
          B2c := (1 / 2) * (s.pG.B2i k j i + s.pG.B2i k (j + 1) i)
          B3c := (1 / 2) * (s.pG.B3i k j i + s.pG.B3i (k + 1) j i) }
        setU s k j i u) s) s) s

/-! ## Static mesh refinement: flux and EMF registers -/

/-- The store `g.myFlx[dim][a][b] = v` into a flux register (nothing is stored
through a `NULL` register, which the integrator never attempts). -/
def storeFlx (g : GridOvrlpS) (dim a b : Int) (v : Gas) : GridOvrlpS :=
  match g.myFlx dim with
  | some reg => { g with myFlx := set1 g.myFlx dim (some (set2 reg a b v)) }
  | none => g

/-- The store `g.myEMF1[dim][a][b] = v`. -/
def storeEMF1 (g : GridOvrlpS) (dim a b : Int) (v : ℚ) : GridOvrlpS :=
  { g with myEMF1 := set1 g.myEMF1 dim (set2 (g.myEMF1 dim) a b v) }

/-- The store `g.myEMF2[dim][a][b] = v`. -/
def storeEMF2 (g : GridOvrlpS) (dim a b : Int) (v : ℚ) : GridOvrlpS :=
  { g with myEMF2 := set1 g.myEMF2 dim (set2 (g.myEMF2 dim) a b v) }

/-- The store `g.myEMF3[dim][a][b] = v`. -/
def storeEMF3 (g : GridOvrlpS) (dim a b : Int) (v : ℚ) : GridOvrlpS :=
  { g with myEMF3 := set1 g.myEMF3 dim (set2 (g.myEMF3 dim) a b v) }

/-- The register entry stored for an x1-face (lines 1164-1174). -/
def flxReg1 (f : Cons1D) : Gas :=
  { d := f.d, M1 := f.Mx, M2 := f.My, M3 := f.Mz, E := f.E, B1c := 0, B2c := f.By, B3c := f.Bz }

/-- The register entry stored for an x2-face (lines 1211-1221). -/
def flxReg2 (f : Cons1D) : Gas :=
  { d := f.d, M1 := f.Mz, M2 := f.Mx, M3 := f.My, E := f.E, B1c := f.Bz, B2c := 0, B3c := f.By }

/-- The register entry stored for an x3-face (lines 1258-1268). -/
def flxReg3 (f : Cons1D) : Gas :=
  { d := f.d, M1 := f.My, M2 := f.Mz, M3 := f.Mx, E := f.E, B1c := f.By, B2c := f.Bz, B3c := 0 }

/-- The body of the loop over `dim = 0, 1` (lines 1153-1194): the stores for one
x1-face of a neighbouring grid. The counters `kk`, `jj` run as `k - kcs`, `j - jcs`. -/
def smrX1_dim (s : State) (dim : Int) (g : GridOvrlpS) : GridOvrlpS :=
  if (g.myFlx dim).isSome then
    let i := if dim = 0 then g.ijks 0 else g.ijke 0 + 1
    let jcs := g.ijks 1
    let jce := g.ijke 1
    let kcs := g.ijks 2
    let kce := g.ijke 2
    let g := forLoop kcs kce (fun k g =>
      forLoop jcs jce (fun j g =>
        storeFlx g dim (k - kcs) (j - jcs) (flxReg1 (s.x1Flux k j i))) g) g
    let g := forLoop kcs (kce + 1) (fun k g =>
      forLoop jcs jce (fun j g =>
        storeEMF2 g dim (k - kcs) (j - jcs) (s.emf2 k j i)) g) g
    forLoop kcs kce (fun k g =>
      forLoop jcs (jce + 1) (fun j g =>
        storeEMF3 g dim (k - kcs) (j - jcs) (s.emf3 k j i)) g) g
  else g

/-- The x1-boundaries of one neighbouring grid (lines 1152-1195, and 1298-1341 for a
parent): the loop over `dim = 0, 1`. -/
def smrX1 (s : State) (g : GridOvrlpS) : GridOvrlpS :=
  forLoop 0 1 (fun dim g => smrX1_dim s dim g) g

/-- The body of the loop over `dim = 2, 3` (lines 1200-1241): the stores for one
x2-face of a neighbouring grid. The counters `kk`, `ii` run as `k - kcs`, `i - ics`. -/
def smrX2_dim (s : State) (dim : Int) (g : GridOvrlpS) : GridOvrlpS :=
  if (g.myFlx dim).isSome then
    let ics := g.ijks 0
    let ice := g.ijke 0
    let j := if dim = 2 then g.ijks 1 else g.ijke 1 + 1
    let kcs := g.ijks 2
    let kce := g.ijke 2
    let g := forLoop kcs kce (fun k g =>
      forLoop ics ice (fun i g =>
        storeFlx g dim (k - kcs) (i - ics) (flxReg2 (s.x2Flux k j i))) g) g
    let g := forLoop kcs (kce + 1) (fun k g =>
      forLoop ics ice (fun i g =>
        storeEMF1 g dim (k - kcs) (i - ics) (s.emf1 k j i)) g) g
    forLoop kcs kce (fun k g =>
      forLoop ics (ice + 1) (fun i g =>
        storeEMF3 g dim (k - kcs) (i - ics) (s.emf3 k j i)) g) g
  else g

/-- The x2-boundaries of one neighbouring grid (lines 1199-1242, and 1345-1388 for a
parent): the loop over `dim = 2, 3`. -/
def smrX2 (s : State) (g : GridOvrlpS) : GridOvrlpS :=
  forLoop 2 3 (fun dim g => smrX2_dim s dim g) g

/-- The body of the loop over `dim = 4, 5` (lines 1247-1288): the stores for one
x3-face of a neighbouring grid. The counters `jj`, `ii` run as `j - jcs`, `i - ics`. -/
def smrX3_dim (s : State) (dim : Int) (g : GridOvrlpS) : GridOvrlpS :=
  if (g.myFlx dim).isSome then
    let ics := g.ijks 0
    let ice := g.ijke 0
    let jcs := g.ijks 1
    let jce := g.ijke 1
    let k := if dim = 4 then g.ijks 2 else g.ijke 2 + 1
    let g := forLoop jcs jce (fun j g =>
      forLoop ics ice (fun i g =>
        storeFlx g dim (j - jcs) (i - ics) (flxReg3 (s.x3Flux k j i))) g) g
    let g := forLoop jcs (jce + 1) (fun j g =>
      forLoop ics ice (fun i g =>
        storeEMF1 g dim (j - jcs) (i - ics) (s.emf1 k j i)) g) g
    forLoop jcs jce (fun j g =>
      forLoop ics (ice + 1) (fun i g =>
        storeEMF2 g dim (j - jcs) (i - ics) (s.emf2 k j i)) g) g
  else g

/-- The x3-boundaries of one neighbouring grid (lines 1246-1289, and 1392-1435 for a
parent): the loop over `dim = 4, 5`. -/
def smrX3 (s : State) (g : GridOvrlpS) : GridOvrlpS :=
  forLoop 4 5 (fun dim g => smrX3_dim s dim g) g

/-- The body of the loop over neighbouring grids: x1-, x2- and x3-boundaries. -/
def smrGrid (s : State) (g : GridOvrlpS) : GridOvrlpS :=
  smrX3 s (smrX2 s (smrX1 s g))

/-- Lines 1148-1290: the loop over the child grids `pG->CGrid[ncg]`. -/
def smrChild (s : State) : State :=
  forLoop 0 (s.pG.NCGrid - 1) (fun ncg s =>
    { s with pG := { s.pG with CGrid := set1 s.pG.CGrid ncg (smrGrid s (s.pG.CGrid ncg)) } }) s

/-- Lines 1294-1436: the loop over the parent grids `pG->PGrid[npg]`. -/
def smrParent (s : State) : State :=
  forLoop 0 (s.pG.NPGrid - 1) (fun npg s =>
    { s with pG := { s.pG with PGrid := set1 s.pG.PGrid npg (smrGrid s (s.pG.PGrid npg)) } }) s

/-- Lines 1143-1438 (`STATIC_MESH_REFINEMENT` only). -/
def stepSMR (c : Config) (s : State) : State :=
  if c.STATIC_MESH_REFINEMENT then smrParent (smrChild s) else s

/-! ## The integrator -/

/-- The predictor: the copy of `Uhalf` and Steps 1-6, in program order. -/
def predictorStages (c : Config) (l : Locals) : List (State → State) :=
  [stepInit l, step1 c l, step2 c l, step3 c l,
   step4a l, integrate_emf1_corner c, integrate_emf2_corner c, integrate_emf3_corner c,
   step4b l, step4c l, step5a l, step5b l, step5c l, step6a c l, step6b c l]

/-- Steps 7-11b of the corrector, in program order. -/
def correctorStages7to11b (c : Config) (l : Locals) : List (State → State) :=
  [step7 c l, step8 c l, step9 c l,
   step10a c l, step10b c l, step10c c l, step10d c l,
   step11a l, integrate_emf1_corner c, integrate_emf2_corner c, integrate_emf3_corner c]

/-- The stages of `integrate_3d_vl` before Step 11c, in program order. -/
def stagesBefore11c (c : Config) (l : Locals) : List (State → State) :=
  predictorStages c l ++ correctorStages7to11b c l

/-- The stages of `integrate_3d_vl` from Step 11c on, in program order. -/
def stagesFrom11c (c : Config) (l : Locals) : List (State → State) :=
  [step11c l, step12a c l, step12b c l, step13a l, step13b l, step13c l, step13e l,
   stepSMR c]

/-- Runs a list of stages in order. -/
def runStages (fs : List (State → State)) (s : State) : State :=
  fs.foldl (fun s f => f s) s

/-- The function `integrate_3d_vl` (lines 85-1441). -/
def integrate_3d_vl (c : Config) (s : State) : State :=
  let l := locals c s.pG
  runStages (stagesFrom11c c l) (runStages (stagesBefore11c c l) s)

/-- The state when the corrector's fluxes and corner EMFs are complete: after the
predictor and Steps 7-11b, just before Step 11c. -/
def beforeStep11c (c : Config) (s : State) : State :=
  runStages (stagesBefore11c c (locals c s.pG)) s

/-- The state after Step 4c: the copy of `Uhalf`, Steps 1-3, Step 4a with the three
corner integrations, Step 4b and Step 4c, in program order. -/
def afterStep4c (c : Config) (s : State) : State :=
  runStages ((predictorStages c (locals c s.pG)).take 10) s

/-- The state after Step 4a and the corner integrations, just before Step 4b. -/
def beforeStep4b (c : Config) (s : State) : State :=
  runStages ((predictorStages c (locals c s.pG)).take 8) s

/-- How a call of `integrate_3d_vl` ends: it returns to its caller with the state it
leaves, or it ends the run through `ath_error` with a message. -/
inductive Outcome where
  | returned (s : State)
  | fatal (msg : String)

/-- The call `integrate_3d_vl(pD)` with the way it ends. The body (lines 85-1441) tests
no cell value, contains no call of `ath_error` or `exit`, and has the single `return` of
line 1440: every call returns, with the state its steps leave. -/
def integrate_3d_vl_call (c : Config) (s : State) : Outcome :=
  Outcome.returned (integrate_3d_vl c s)

/-! ## Loop shapes shared by several steps -/

/-- The loop structure of Steps 4b and 11c: a triple nest with a trailing statement
`x1` in the `j` loop, a trailing `i` loop `x2` in the `k` loop, and a final `j`, `i`
nest `x3`. -/
def ctNest {σ : Type} (klo khi jlo jhi ilo ihi : Int) (body : Int → Int → Int → σ → σ)
    (x1 : Int → Int → σ → σ) (x2 : Int → Int → σ → σ) (x3 : Int → Int → σ → σ) (s : σ) : σ :=
  let s := forLoop klo khi (fun k s =>
    let s := forLoop jlo jhi (fun j s =>
      let s := forLoop ilo ihi (fun i s => body k j i s) s
      x1 k j s) s
    forLoop ilo ihi (fun i s => x2 k i s) s) s
  forLoop jlo jhi (fun j s =>
    forLoop ilo ihi (fun i s => x3 j i s) s) s

/-- Access to one of the three-dimensional arrays of the state. -/
structure Lens (α : Type) where
  get : State → Arr3 α
  set : State → Arr3 α → State
  get_set : ∀ s a, get (set s a) = a
  set_set : ∀ s a b, set (set s a) b = set s b
  set_get : ∀ s, set s (get s) = s

/-- The array `pG->U`. -/
def lensU : Lens Gas where
  get s := s.pG.U
  set s a := { s with pG := { s.pG with U := a } }
  get_set _ _ := rfl
  set_set _ _ _ := rfl
  set_get _ := rfl

/-- The array `Uhalf`. -/
def lensUhalf : Lens Gas where
  get s := s.Uhalf
  set s a := { s with Uhalf := a }
  get_set _ _ := rfl
  set_set _ _ _ := rfl
  set_get _ := rfl

/-- The array `emf1`. -/
def lensEmf1 : Lens ℚ where
  get s := s.emf1
  set s a := { s with emf1 := a }
  get_set _ _ := rfl
  set_set _ _ _ := rfl
  set_get _ := rfl

/-- The array `emf2`. -/
def lensEmf2 : Lens ℚ where
  get s := s.emf2
  set s a := { s with emf2 := a }
  get_set _ _ := rfl
  set_set _ _ _ := rfl
  set_get _ := rfl

/-- The array `emf3`. -/
def lensEmf3 : Lens ℚ where
  get s := s.emf3
  set s a := { s with emf3 := a }
  get_set _ _ := rfl
  set_set _ _ _ := rfl
  set_get _ := rfl

/-- The loop structure of a cell-by-cell update of one array: a triple nest whose
body stores `f k j i s (a[k][j][i])` into `a[k][j][i]`. -/
def cellNest {α : Type} (L : Lens α) (klo khi jlo jhi ilo ihi : Int)
    (f : Int → Int → Int → State → α → α) (s : State) : State :=
  forLoop klo khi (fun k s =>
    forLoop jlo jhi (fun j s =>
      forLoop ilo ihi (fun i s =>
        L.set s (set3 (L.get s) k j i (f k j i s (L.get s k j i)))) s) s) s

/-- The array a `cellNest` leaves behind: the update applied inside the index box,
the old value outside. -/
def cellMap {α : Type} (klo khi jlo jhi ilo ihi : Int)
    (f : Int → Int → Int → α → α) (a : Arr3 α) : Arr3 α :=
  fun k j i =>
    if klo ≤ k ∧ k ≤ khi ∧ jlo ≤ j ∧ j ≤ jhi ∧ ilo ≤ i ∧ i ≤ ihi then f k j i (a k j i)
    else a k j i

/-! ## Quantities the properties are stated with -/

/-- The discrete divergence of the persistent face field `(B1i, B2i, B3i)` of a grid
at the cell `(k, j, i)`. -/
def divB (pG : GridS) (k j i : Int) : ℚ :=
  (pG.B1i k j (i + 1) - pG.B1i k j i) / pG.dx1 +
  (pG.B2i k (j + 1) i - pG.B2i k j i) / pG.dx2 +
  (pG.B3i (k + 1) j i - pG.B3i k j i) / pG.dx3

/-- The right-hand sides of Steps 5a and 13a: a cell advanced by the difference of
the x1-fluxes through its two faces, with ratio `r` (`q1` or `dtodx1`). -/
def flux1Update (r : ℚ) (x1Flux : Arr3 Cons1D) (k j i : Int) (u : Gas) : Gas :=
  { u with
    d := u.d - r * ((x1Flux k j (i + 1)).d - (x1Flux k j i).d)
    M1 := u.M1 - r * ((x1Flux k j (i + 1)).Mx - (x1Flux k j i).Mx)
    M2 := u.M2 - r * ((x1Flux k j (i + 1)).My - (x1Flux k j i).My)
    M3 := u.M3 - r * ((x1Flux k j (i + 1)).Mz - (x1Flux k j i).Mz)
    E := u.E - r * ((x1Flux k j (i + 1)).E - (x1Flux k j i).E) }

/-- The right-hand sides of Steps 5b and 13b. -/
def flux2Update (r : ℚ) (x2Flux : Arr3 Cons1D) (k j i : Int) (u : Gas) : Gas :=
  { u with
    d := u.d - r * ((x2Flux k (j + 1) i).d - (x2Flux k j i).d)
    M1 := u.M1 - r * ((x2Flux k (j + 1) i).Mz - (x2Flux k j i).Mz)
    M2 := u.M2 - r * ((x2Flux k (j + 1) i).Mx - (x2Flux k j i).Mx)
    M3 := u.M3 - r * ((x2Flux k (j + 1) i).My - (x2Flux k j i).My)
    E := u.E - r * ((x2Flux k (j + 1) i).E - (x2Flux k j i).E) }

/-- The right-hand sides of Steps 5c and 13c. -/
def flux3Update (r : ℚ) (x3Flux : Arr3 Cons1D) (k j i : Int) (u : Gas) : Gas :=
  { u with
    d := u.d - r * ((x3Flux (k + 1) j i).d - (x3Flux k j i).d)
    M1 := u.M1 - r * ((x3Flux (k + 1) j i).My - (x3Flux k j i).My)
    M2 := u.M2 - r * ((x3Flux (k + 1) j i).Mz - (x3Flux k j i).Mz)
    M3 := u.M3 - r * ((x3Flux (k + 1) j i).Mx - (x3Flux k j i).Mx)
    E := u.E - r * ((x3Flux (k + 1) j i).E - (x3Flux k j i).E) }

/-- The right-hand sides of Steps 4c and 13e: the cell-centred field of a cell set to
the average of the two bounding face values, per direction. -/
def faceAverage (B1 B2 B3 : Arr3 ℚ) (k j i : Int) (u : Gas) : Gas :=
  { u with
    B1c := (1 / 2) * (B1 k j i + B1 k j (i + 1))
    B2c := (1 / 2) * (B2 k j i + B2 k (j + 1) i)
    B3c := (1 / 2) * (B3 k j i + B3 (k + 1) j i) }

/-- Step 13 as a whole: Steps 13a, 13b and 13c in program order. -/
def step13 (l : Locals) (s : State) : State :=
  step13c l (step13b l (step13a l s))

/-- Steps 12 and 13 of the corrector in program order: the source terms of
Step 12a and Step 12b, then the flux update of Step 13. -/
def step12_13 (c : Config) (l : Locals) (s : State) : State :=
  step13 l (step12b c l (step12a c l s))

/-- The five conserved variables advanced by the flux differences. -/
inductive ConsVar where
  | d
  | M1
  | M2
  | M3
  | E
deriving DecidableEq

/-- The value of a conserved variable in a cell. -/
def ConsVar.cell : ConsVar → Gas → ℚ
  | .d, u => u.d
  | .M1, u => u.M1
  | .M2, u => u.M2
  | .M3, u => u.M3
  | .E, u => u.E

/-- The slot of an x1-flux that Steps 5a and 13a apply to a conserved variable. -/
def ConsVar.flux1 : ConsVar → Cons1D → ℚ
  | .d, f => f.d
  | .M1, f => f.Mx
  | .M2, f => f.My
  | .M3, f => f.Mz
  | .E, f => f.E

/-- The slot of an x2-flux that Steps 5b and 13b apply to a conserved variable. -/
def ConsVar.flux2 : ConsVar → Cons1D → ℚ
  | .d, f => f.d
  | .M1, f => f.Mz
  | .M2, f => f.Mx
  | .M3, f => f.My
  | .E, f => f.E

/-- The slot of an x3-flux that Steps 5c and 13c apply to a conserved variable. -/
def ConsVar.flux3 : ConsVar → Cons1D → ℚ
  | .d, f => f.d
  | .M1, f => f.My
  | .M2, f => f.Mz
  | .M3, f => f.Mx
  | .E, f => f.E

/-- The sum of a cell quantity over the index box `[a1..b1] x [a2..b2] x [a3..b3]`
(`i`, `j`, `k` ranges in this order). -/
def boxSum (a1 b1 a2 b2 a3 b3 : Int) (f : Int → Int → Int → ℚ) : ℚ :=
  ∑ k in Finset.Icc a3 b3, ∑ j in Finset.Icc a2 b2, ∑ i in Finset.Icc a1 b1, f k j i

/-- The sum of a face quantity over the index rectangle `[a..b] x [a'..b']`. -/
def faceSum (a b a' b' : Int) (f : Int → Int → ℚ) : ℚ :=
  ∑ m in Finset.Icc a' b', ∑ n in Finset.Icc a b, f m n

/-- Everything in the state that is not one of the scratch arrays `Uhalf`,
`B1_x1Face`, `B2_x2Face`, `B3_x3Face`, `x1Flux`, `x2Flux`, `x3Flux`, `emf1`, `emf2`,
`emf3`, `emf1_cc`, `emf2_cc`, `emf3_cc`, the line buffers `Ul`, `Ur`, `Wl`, `Wr`, or
`etah`: the grid `pG` and the remaining scratch arrays. -/
def outsidePredictor (t : State) :
    GridS × (Arr3 Prim1D × Arr3 Prim1D × Arr3 Prim1D × Arr3 Prim1D × Arr3 Prim1D × Arr3 Prim1D) ×
      (Arr1 ℚ × Arr1 ℚ × Arr1 Prim1D × Arr1 Cons1D) × (Arr3 ℚ × Arr3 ℚ × Arr3 ℚ) ×
      (Arr3 Cons1D × Arr3 Cons1D × Arr3 Cons1D × Arr3 Cons1D × Arr3 Cons1D × Arr3 Cons1D) :=
  (t.pG,
   (t.Wl_x1Face, t.Wr_x1Face, t.Wl_x2Face, t.Wr_x2Face, t.Wl_x3Face, t.Wr_x3Face),
   (t.Bxc, t.Bxi, t.W, t.U1d), (t.eta1, t.eta2, t.eta3),
   (t.Ul_x1Face, t.Ur_x1Face, t.Ul_x2Face, t.Ur_x2Face, t.Ul_x3Face, t.Ur_x3Face))

/-- The potential at the centre and at the six faces of a cell, as the energy source
terms of Step 12 sample it. -/
structure CellPhi where
  phic : ℚ
  phil1 : ℚ
  phir1 : ℚ
  phil2 : ℚ
  phir2 : ℚ
  phil3 : ℚ
  phir3 : ℚ

/-- The samples of a static potential taken by Step 12a (lines 867-888). -/
def staticPhi (c : Config) (pot : ℚ → ℚ → ℚ → ℚ) (pG : GridS) (k j i : Int) : CellPhi :=
  let x := c.cc_pos i j k
  { phic := pot x.1 x.2.1 x.2.2
    phil1 := pot (x.1 - (1 / 2) * pG.dx1) x.2.1 x.2.2
    phir1 := pot (x.1 + (1 / 2) * pG.dx1) x.2.1 x.2.2
    phil2 := pot x.1 (x.2.1 - (1 / 2) * pG.dx2) x.2.2
    phir2 := pot x.1 (x.2.1 + (1 / 2) * pG.dx2) x.2.2
    phil3 := pot x.1 x.2.1 (x.2.2 - (1 / 2) * pG.dx3)
    phir3 := pot x.1 x.2.1 (x.2.2 + (1 / 2) * pG.dx3) }

/-- The samples of the self-gravity potential taken by Step 12b (lines 912-914,
957-959, 1002-1004): cell value and face averages. -/
def selfPhi (pG : GridS) (k j i : Int) : CellPhi :=
  { phic := pG.Phi k j i
    phil1 := (1 / 2) * (pG.Phi k j (i - 1) + pG.Phi k j i)
    phir1 := (1 / 2) * (pG.Phi k j i + pG.Phi k j (i + 1))
    phil2 := (1 / 2) * (pG.Phi k (j - 1) i + pG.Phi k j i)
    phir2 := (1 / 2) * (pG.Phi k j i + pG.Phi k (j + 1) i)
    phil3 := (1 / 2) * (pG.Phi (k - 1) j i + pG.Phi k j i)
    phir3 := (1 / 2) * (pG.Phi k j i + pG.Phi (k + 1) j i) }

/-- The sum of the potentials whose source terms are active: the static potential
when `StaticGravPot` is set, the self-gravity potential when `SELF_GRAVITY` is on. -/
def gravPhi (c : Config) (pG : GridS) (k j i : Int) : CellPhi :=
  let a : CellPhi := match c.StaticGravPot with
    | some pot => staticPhi c pot pG k j i
    | none => ⟨0, 0, 0, 0, 0, 0, 0⟩
  let b : CellPhi := if c.SELF_GRAVITY then selfPhi pG k j i else ⟨0, 0, 0, 0, 0, 0, 0⟩
  { phic := a.phic + b.phic
    phil1 := a.phil1 + b.phil1
    phir1 := a.phir1 + b.phir1
    phil2 := a.phil2 + b.phil2
    phir2 := a.phir2 + b.phir2
    phil3 := a.phil3 + b.phil3
    phir3 := a.phir3 + b.phir3 }

/-- The flux of total energy `E + d*phi` through a face: the energy flux plus the
mass flux times the potential `phi` at the face. -/
def totalEnergyFlux (f : Cons1D) (phi : ℚ) : ℚ := f.E + f.d * phi

/-- The total energy `E + d*phi` of a cell in the potential `phi`. -/
def totalEnergy (u : Gas) (phi : ℚ) : ℚ := u.E + u.d * phi

/-- The discrete divergence of the scratch face field `(B1_x1Face, B2_x2Face,
B3_x3Face)` at the cell `(k, j, i)`. -/
def divFace (t : State) (k j i : Int) : ℚ :=
  (t.B1_x1Face k j (i + 1) - t.B1_x1Face k j i) / t.pG.dx1 +
  (t.B2_x2Face k (j + 1) i - t.B2_x2Face k j i) / t.pG.dx2 +
  (t.B3_x3Face (k + 1) j i - t.B3_x3Face k j i) / t.pG.dx3

/-- The three momentum components that the self-gravity terms of Step 12b advance. -/
inductive Mom where
  | M1
  | M2
  | M3
deriving DecidableEq

/-- The value of a momentum component in a cell. -/
def Mom.cell : Mom → Gas → ℚ
  | .M1, u => u.M1
  | .M2, u => u.M2
  | .M3, u => u.M3

/-- The left gravitational momentum flux of a component: `flx_m1l`, `flx_m2l`,
`flx_m3l`. -/
def Mom.left : Mom → GravFlux → ℚ
  | .M1, g => g.flx_m1l
  | .M2, g => g.flx_m2l
  | .M3, g => g.flx_m3l

/-- The right gravitational momentum flux of a component: `flx_m1r`, `flx_m2r`,
`flx_m3r`. -/
def Mom.right : Mom → GravFlux → ℚ
  | .M1, g => g.flx_m1r
  | .M2, g => g.flx_m2r
  | .M3, g => g.flx_m3r

/-- The registers of one face slot `dim` of a neighbouring grid: the flux register
and the three EMF registers. -/
def slotRegs (g : GridOvrlpS) (dim : Int) :
    Option (Arr2 Gas) × Arr2 ℚ × Arr2 ℚ × Arr2 ℚ :=
  (g.myFlx dim, g.myEMF1 dim, g.myEMF2 dim, g.myEMF3 dim)

/-- The entry `myFlx[dim][a][b]` of a neighbouring grid's flux register, when the
register exists (`none` for a `NULL` register). -/
def regEntry (g : GridOvrlpS) (dim a b : Int) : Option Gas :=
  (g.myFlx dim).map (fun reg => reg a b)

/-- The array `a` holds the value `v` at every index of the box
`[klo..khi] x [jlo..jhi] x [ilo..ihi]`. -/
def ConstOn {α : Type} (a : Arr3 α) (klo khi jlo jhi ilo ihi : Int) (v : α) : Prop :=
  ∀ k j i, klo ≤ k → k ≤ khi → jlo ≤ j → j ≤ jhi → ilo ≤ i → i ≤ ihi → a k j i = v

/-- The array `a` holds one and the same value at every index of the box
`[klo..khi] x [jlo..jhi] x [ilo..ihi]`. -/
def UniformOn {α : Type} (a : Arr3 α) (klo khi jlo jhi ilo ihi : Int) : Prop :=
  ∀ k j i k' j' i', klo ≤ k → k ≤ khi → jlo ≤ j → j ≤ jhi → ilo ≤ i → i ≤ ihi →
    klo ≤ k' → k' ≤ khi → jlo ≤ j' → j' ≤ jhi → ilo ≤ i' → i' ≤ ihi → a k j i = a k' j' i'

/-- The three flux arrays hold the value `G` at every face of the box of cells
`[a3..b3] x [a2..b2] x [a1..b1]` that lies between two cells of the box in the
direction of the flux. -/
def FluxesConst (t : State) (a1 b1 a2 b2 a3 b3 : Int) (G : Cons1D) : Prop :=
  ConstOn t.x1Flux a3 b3 a2 b2 (a1 + 1) b1 G ∧
  ConstOn t.x2Flux a3 b3 (a2 + 1) b2 a1 b1 G ∧
  ConstOn t.x3Flux (a3 + 1) b3 a2 b2 a1 b1 G

/-- The three cell-centred EMF arrays are zero in every cell of the box. -/
def CcZero (t : State) (a1 b1 a2 b2 a3 b3 : Int) : Prop :=
  ConstOn t.emf1_cc a3 b3 a2 b2 a1 b1 0 ∧
  ConstOn t.emf2_cc a3 b3 a2 b2 a1 b1 0 ∧
  ConstOn t.emf3_cc a3 b3 a2 b2 a1 b1 0

/-- Each of the three corner EMF arrays holds one value at all the corners (cell
edges) interior to the box of cells `[a3..b3] x [a2..b2] x [a1..b1]`. -/
def EmfsUniform (t : State) (a1 b1 a2 b2 a3 b3 : Int) : Prop :=
  UniformOn t.emf1 (a3 + 1) b3 (a2 + 1) b2 (a1 + 1) (b1 - 1) ∧
  UniformOn t.emf2 (a3 + 1) b3 (a2 + 1) (b2 - 1) (a1 + 1) b1 ∧
  UniformOn t.emf3 (a3 + 1) (b3 - 1) (a2 + 1) b2 (a1 + 1) b1

/-- The three scratch face-field arrays are zero at every face of the box of cells
that lies between two cells of the box. -/
def FacesZero (t : State) (a1 b1 a2 b2 a3 b3 : Int) : Prop :=
  ConstOn t.B1_x1Face a3 b3 a2 b2 (a1 + 1) b1 0 ∧
  ConstOn t.B2_x2Face a3 b3 (a2 + 1) b2 a1 b1 0 ∧
  ConstOn t.B3_x3Face (a3 + 1) b3 a2 b2 a1 b1 0

/-- Every flux difference and every corner-EMF difference taken over the box of
cells `[a3..b3] x [a2..b2] x [a1..b1]` vanishes: the flux differences of the cell
updates (Steps 5 and 13, cells `a+1..b-1`) and the EMF differences of the constrained
transport updates (Steps 4b and 11c, faces up to `b`). -/
def DiffsVanish (t : State) (a1 b1 a2 b2 a3 b3 : Int) : Prop :=
  (∀ k j i, a3 + 1 ≤ k → k ≤ b3 - 1 → a2 + 1 ≤ j → j ≤ b2 - 1 → a1 + 1 ≤ i → i ≤ b1 - 1 →
    t.x1Flux k j (i + 1) = t.x1Flux k j i ∧ t.x2Flux k (j + 1) i = t.x2Flux k j i ∧
    t.x3Flux (k + 1) j i = t.x3Flux k j i) ∧
  (∀ k j i, a3 + 1 ≤ k → k ≤ b3 - 1 → a2 + 1 ≤ j → j ≤ b2 - 1 → a1 + 1 ≤ i → i ≤ b1 →
    t.emf2 (k + 1) j i = t.emf2 k j i ∧ t.emf3 k (j + 1) i = t.emf3 k j i) ∧
  (∀ k j i, a3 + 1 ≤ k → k ≤ b3 - 1 → a2 + 1 ≤ j → j ≤ b2 → a1 + 1 ≤ i → i ≤ b1 - 1 →
    t.emf3 k j (i + 1) = t.emf3 k j i ∧ t.emf1 (k + 1) j i = t.emf1 k j i) ∧
  (∀ k j i, a3 + 1 ≤ k → k ≤ b3 → a2 + 1 ≤ j → j ≤ b2 - 1 → a1 + 1 ≤ i → i ≤ b1 - 1 →
    t.emf1 k (j + 1) i = t.emf1 k j i ∧ t.emf2 k j (i + 1) = t.emf2 k j i)

/-- A motionless cell with density `d0`, total energy `E0` and zero magnetic field. -/
def uniformGas (d0 E0 : ℚ) : Gas :=
  { d := d0, M1 := 0, M2 := 0, M3 := 0, E := E0, B1c := 0, B2c := 0, B3c := 0 }

/-- The 1D vector every sweep loads from `uniformGas d0 E0`. -/
def uniformCons (d0 E0 : ℚ) : Cons1D :=
  { d := d0, Mx := 0, My := 0, Mz := 0, E := E0, By := 0, Bz := 0 }

/-- The primitive state of `uniformCons d0 E0` with zero longitudinal field. -/
def uniformPrim (c : Config) (d0 E0 : ℚ) : Prim1D :=
  c.Cons1D_to_Prim1D (uniformCons d0 E0) 0

/-- The first-order flux between two cells holding `uniformGas d0 E0`. -/
def uniformFlux (c : Config) (d0 E0 : ℚ) : Cons1D :=
  c.fluxes 0 (uniformCons d0 E0) (uniformCons d0 E0) (uniformPrim c d0 E0) (uniformPrim c d0 E0) 0

/-- The second-order flux between two interface states `uniformPrim c d0 E0`. -/
def uniformFlux2 (c : Config) (d0 E0 : ℚ) : Cons1D :=
  c.fluxes 0 (c.Prim1D_to_Cons1D (uniformPrim c d0 E0) 0) (c.Prim1D_to_Cons1D (uniformPrim c d0 E0) 0)
    (uniformPrim c d0 E0) (uniformPrim c d0 E0) 0

/-- The state after Step 5: the copy of `Uhalf` and Steps 1-5, in program order. -/
def afterStep5 (c : Config) (s : State) : State :=
  runStages ((predictorStages c (locals c s.pG)).take 13) s

/-- The half-step cell in the words of the specification: the cell `u` minus
`dt/(2 dx1)`, `dt/(2 dx2)`, `dt/(2 dx3)` times the differences of the fluxes `F1`, `F2`,
`F3` across the cell, for `d`, `E` and the momenta, where `M1` takes `F1.Mx`, `F2.Mz`,
`F3.My`, `M2` takes `F1.My`, `F2.Mx`, `F3.Mz` and `M3` takes `F1.Mz`, `F2.My`, `F3.Mx`.
The cell-centred field is not part of the formula and is kept. -/
def specHalfStep (dt dx1 dx2 dx3 : ℚ) (F1 F2 F3 : Arr3 Cons1D) (k j i : Int) (u : Gas) : Gas :=
  { d := u.d - dt / (2 * dx1) * ((F1 k j (i + 1)).d - (F1 k j i).d)
        - dt / (2 * dx2) * ((F2 k (j + 1) i).d - (F2 k j i).d)
        - dt / (2 * dx3) * ((F3 (k + 1) j i).d - (F3 k j i).d),
    M1 := u.M1 - dt / (2 * dx1) * ((F1 k j (i + 1)).Mx - (F1 k j i).Mx)
        - dt / (2 * dx2) * ((F2 k (j + 1) i).Mz - (F2 k j i).Mz)
        - dt / (2 * dx3) * ((F3 (k + 1) j i).My - (F3 k j i).My),
    M2 := u.M2 - dt / (2 * dx1) * ((F1 k j (i + 1)).My - (F1 k j i).My)
        - dt / (2 * dx2) * ((F2 k (j + 1) i).Mx - (F2 k j i).Mx)
        - dt / (2 * dx3) * ((F3 (k + 1) j i).Mz - (F3 k j i).Mz),
    M3 := u.M3 - dt / (2 * dx1) * ((F1 k j (i + 1)).Mz - (F1 k j i).Mz)
        - dt / (2 * dx2) * ((F2 k (j + 1) i).My - (F2 k j i).My)
        - dt / (2 * dx3) * ((F3 (k + 1) j i).Mx - (F3 k j i).Mx),
    E := u.E - dt / (2 * dx1) * ((F1 k j (i + 1)).E - (F1 k j i).E)
        - dt / (2 * dx2) * ((F2 k (j + 1) i).E - (F2 k j i).E)
        - dt / (2 * dx3) * ((F3 (k + 1) j i).E - (F3 k j i).E),
    B1c := u.B1c, B2c := u.B2c, B3c := u.B3c }

/-- The flux Steps 1-3 compute for a face from the conserved states `Ul`, `Ur` on its two
sides and the face field `Bx` (lines 184-187): the primitive states handed to `fluxes`
are the conversions of the conserved ones. -/
def faceFlux (c : Config) (etah : ℚ) (Ul Ur : Cons1D) (Bx : ℚ) : Cons1D :=
  c.fluxes etah Ul Ur (c.Cons1D_to_Prim1D Ul Bx) (c.Cons1D_to_Prim1D Ur Bx) Bx

/-- The flux array `F` with the mass flux of the face `(k, j, i)` replaced by `m`. -/
def setD (F : Arr3 Cons1D) (k j i : Int) (m : ℚ) : Arr3 Cons1D :=
  set3 F k j i { F k j i with d := m }

/-- The three coordinate directions. -/
inductive Dir where
  | x1
  | x2
  | x3
deriving DecidableEq

/-- The cyclic relabelling of directions `1 → 2 → 3 → 1`. -/
def Dir.next : Dir → Dir
  | .x1 => .x2
  | .x2 => .x3
  | .x3 => .x1

/-- The index triple `(k, j, i)` one step down along a direction. -/
def Dir.down : Dir → Int × Int × Int → Int × Int × Int
  | .x1, p => (p.1, p.2.1, p.2.2 - 1)
  | .x2, p => (p.1, p.2.1 - 1, p.2.2)
  | .x3, p => (p.1 - 1, p.2.1, p.2.2)

/-- The flux across the lower face, in direction `d`, of the cell `p = (k, j, i)`. -/
def fluxAt (s : State) (d : Dir) (p : Int × Int × Int) : Cons1D :=
  match d with
  | .x1 => s.x1Flux p.1 p.2.1 p.2.2
  | .x2 => s.x2Flux p.1 p.2.1 p.2.2
  | .x3 => s.x3Flux p.1 p.2.1 p.2.2

/-- The cell-centred EMF along direction `a` of the cell `p = (k, j, i)`. -/
def ccAt (s : State) (a : Dir) (p : Int × Int × Int) : ℚ :=
  match a with
  | .x1 => s.emf1_cc p.1 p.2.1 p.2.2
  | .x2 => s.emf2_cc p.1 p.2.1 p.2.2
  | .x3 => s.emf3_cc p.1 p.2.1 p.2.2

/-- The upwinding rule in the words of the specification: the value of the lower-index
side when the selecting mass flux `m` is positive, of the higher-index side when it is
negative, and their centred average when it is zero. -/
def specUpwind (m lower upper : ℚ) : ℚ :=
  if m > 0 then lower else if m < 0 then upper else (1 / 2) * (lower + upper)

/-- The corner EMF rule in the words of the specification, for the EMF along direction
`a` at the edge `p = (k, j, i)`, with `b`, `c` the next two directions in cyclic order.
The face EMFs are `Ec = Bz`-flux across `c`-faces and `Eb = -By`-flux across `b`-faces;
each derivative term is a face EMF minus a cell-centred EMF. The two terms along `c` are
upwinded in direction `b` by the mass fluxes of the `b`-faces at `p - e_c` and `p`, and
the two terms along `b` are upwinded in direction `c` by the mass fluxes of the `c`-faces
at `p - e_b` and `p`. The corner value is a quarter of the sum of the four face EMFs and
the four derivative terms. -/
def specCornerEmf (s : State) (a : Dir) (k j i : Int) : ℚ :=
  let b := a.next
  let c := b.next
  let p : Int × Int × Int := (k, j, i)
  let Ec : Int × Int × Int → ℚ := fun q => (fluxAt s c q).Bz
  let Eb : Int × Int × Int → ℚ := fun q => -(fluxAt s b q).By
  let cc : Int × Int × Int → ℚ := fun q => ccAt s a q
  let de_lc := specUpwind (fluxAt s b (c.down p)).d
    (Ec (b.down p) - cc (b.down (c.down p))) (Ec p - cc (c.down p))
  let de_rc := specUpwind (fluxAt s b p).d (Ec (b.down p) - cc (b.down p)) (Ec p - cc p)
  let de_lb := specUpwind (fluxAt s c (b.down p)).d
    (Eb (c.down p) - cc (b.down (c.down p))) (Eb p - cc (b.down p))
  let de_rb := specUpwind (fluxAt s c p).d (Eb (c.down p) - cc (c.down p)) (Eb p - cc p)
  (1 / 4) * (Ec p + Ec (b.down p) + Eb p + Eb (c.down p) + de_lb + de_rb + de_lc + de_rc)

/-! ## Allocation of the scratch arrays (`integrate_init_3d`) -/

/-- Modelled from the spec: the declaration of `DomainS` (in `athena.h`) is not part
of the sources. Of a domain `integrate_init_3d` reads only its `Grid` pointer (`none`
for `NULL`) and, through it, the cell counts `Grid->Nx[0..2]`, which are what is kept
of the grid here. -/
structure DomainS where
  Grid : Option (Arr1 Int)

/-- Modelled from the spec: the declaration of `MeshS` (in `athena.h`) is not part of
the sources. The fields are the ones `integrate_init_3d` reads through `pM`. -/
structure MeshS where
  NLevels : Int
  DomainsPerLevel : Arr1 Int
  Domain : Arr2 DomainS

/-- The locals `size1`, `size2`, `size3` of `integrate_init_3d`. -/
structure Sizes where
  size1 : Int
  size2 : Int
  size3 : Int
deriving DecidableEq

/-- Lines 1455-1465: the body of the loop over domains, the three comparisons made
when `Grid != NULL`. -/
def scanGrid (d : DomainS) (z : Sizes) : Sizes :=
  match d.Grid with
  | some Nx =>
    let z := if Nx 0 > z.size1 then { z with size1 := Nx 0 } else z
    let z := if Nx 1 > z.size2 then { z with size2 := Nx 1 } else z
    if Nx 2 > z.size3 then { z with size3 := Nx 2 } else z
  | none => z

/-- Lines 1450-1467: the cycle over all grids, from `size1 = size2 = size3 = 0`. -/
def scanMesh (pM : MeshS) : Sizes :=
  forLoop 0 (pM.NLevels - 1) (fun nl z =>
    forLoop 0 (pM.DomainsPerLevel nl - 1) (fun nd z => scanGrid (pM.Domain nl nd) z) z)
    { size1 := 0, size2 := 0, size3 := 0 }

/-- Lines 1469-1471: the sizes with the ghost zones added. -/
def initSizes (c : Config) (pM : MeshS) : Sizes :=
  { size1 := (scanMesh pM).size1 + 2 * c.nghost,
    size2 := (scanMesh pM).size2 + 2 * c.nghost,
    size3 := (scanMesh pM).size3 + 2 * c.nghost }

/-- The macro `MAX` applied to `int` arguments. -/
def MAXint (a b : Int) : Int := if a > b then a else b

/-- Line 1472: `nmax = MAX((MAX(size1,size2)),size3)`. -/
def initNmax (c : Config) (pM : MeshS) : Int :=
  MAXint (MAXint (initSizes c pM).size1 (initSizes c pM).size2) (initSizes c pM).size3

/-- The element type in the `sizeof` of an allocation. -/
inductive Elt where
  | real
  | prim1D
  | cons1D
  | gas
deriving DecidableEq

/-- The file-level scratch pointers of `integrate_3d_vl.c` (lines 40-65). -/
inductive Buf where
  | emf1 | emf2 | emf3 | emf1_cc | emf2_cc | emf3_cc
  | eta1 | eta2 | eta3
  | Wl_x1Face | Wr_x1Face | Wl_x2Face | Wr_x2Face | Wl_x3Face | Wr_x3Face
  | Bxc | Bxi
  | B1_x1Face | B2_x2Face | B3_x3Face
  | U1d | Ul | Ur | W | Wl | Wr
  | x1Flux | x2Flux | x3Flux
  | Uhalf
deriving DecidableEq

/-- A call of one of the two allocation functions: `calloc_3d_array(n3,n2,n1,sizeof(t))`
or `malloc(n*sizeof(t))`. -/
inductive Request where
  | calloc_3d_array (n3 n2 n1 : Int) (t : Elt)
  | malloc (n : Int) (t : Elt)
deriving DecidableEq

/-- What `integrate_init_3d` does that is visible from outside: an allocation assigned
to a scratch pointer, the call `integrate_destruct()`, the call `ath_error(msg)`. -/
inductive Event where
  | alloc (b : Buf) (r : Request)
  | integrate_destruct
  | ath_error (msg : String)
deriving DecidableEq

/-- Lines 1474-1535: the allocations of `integrate_init_3d` in program order, each with
the pointer it is assigned to. -/
def initRequests (c : Config) (pM : MeshS) : List (Buf × Request) :=
  let a3 : Elt → Request := fun t => Request.calloc_3d_array (initSizes c pM).size3
    (initSizes c pM).size2 (initSizes c pM).size1 t
  let a1 : Elt → Request := fun t => Request.malloc (initNmax c pM) t
  [(Buf.emf1, a3 .real), (Buf.emf2, a3 .real), (Buf.emf3, a3 .real),
   (Buf.emf1_cc, a3 .real), (Buf.emf2_cc, a3 .real), (Buf.emf3_cc, a3 .real)] ++
  (if c.H_CORRECTION then
    [(Buf.eta1, a3 .real), (Buf.eta2, a3 .real), (Buf.eta3, a3 .real)] else []) ++
  [(Buf.Wl_x1Face, a3 .prim1D), (Buf.Wr_x1Face, a3 .prim1D),
   (Buf.Wl_x2Face, a3 .prim1D), (Buf.Wr_x2Face, a3 .prim1D),
   (Buf.Wl_x3Face, a3 .prim1D), (Buf.Wr_x3Face, a3 .prim1D),
   (Buf.Bxc, a1 .real), (Buf.Bxi, a1 .real),
   (Buf.B1_x1Face, a3 .real), (Buf.B2_x2Face, a3 .real), (Buf.B3_x3Face, a3 .real),
   (Buf.U1d, a1 .cons1D), (Buf.Ul, a1 .cons1D), (Buf.Ur, a1 .cons1D),
   (Buf.W, a1 .prim1D), (Buf.Wl, a1 .prim1D), (Buf.Wr, a1 .prim1D),
   (Buf.x1Flux, a3 .cons1D), (Buf.x2Flux, a3 .cons1D), (Buf.x3Flux, a3 .cons1D),
   (Buf.Uhalf, a3 .gas)]

/-- The outcome of a call of `integrate_init_3d`: what it did, in order, and whether
it returned to its caller (`ath_error` ends the run). -/
structure InitRun where
  trace : List Event
  returned : Bool
deriving DecidableEq

/-- The chain `if ((p = alloc(...)) == NULL) goto on_error;` over the allocations that
remain, followed by `return`; at `on_error` (lines 1540-1542) `integrate_destruct()` and
`ath_error` are called. `ok b` tells whether the allocation for `b` returns a non-NULL
pointer; `done` is what was done so far. -/
def runAllocs (ok : Buf → Bool) : List (Buf × Request) → List Event → InitRun
  | [], done => { trace := done, returned := true }
  | (b, r) :: rest, done =>
    if ok b then runAllocs ok rest (done ++ [Event.alloc b r])
    else
      { trace := done ++ [Event.alloc b r, Event.integrate_destruct,
          Event.ath_error "[integrate_init]: malloc returned a NULL pointer\n"],
        returned := false }

/-- The function `integrate_init_3d` (lines 1447-1543). -/
def integrate_init_3d (c : Config) (pM : MeshS) (ok : Buf → Bool) : InitRun :=
  runAllocs ok (initRequests c pM) []

/-- A grid of the mesh: one the loops of `integrate_init_3d` visit, domain `nd` of
level `nl` with a non-NULL `Grid` whose cell counts are `Nx`. -/
def MeshS.hasGrid (pM : MeshS) (nl nd : Int) (Nx : Arr1 Int) : Prop :=
  (0 ≤ nl ∧ nl < pM.NLevels) ∧ (0 ≤ nd ∧ nd < pM.DomainsPerLevel nl) ∧
    (pM.Domain nl nd).Grid = some Nx

/-- The 1D scratch vectors (lines 51-56); the other scratch pointers are 3D arrays. -/
def Buf.isLine : Buf → Bool
  | .Bxc | .Bxi | .U1d | .Ul | .Ur | .W | .Wl | .Wr => true
  | _ => false

/-! ## The linear solver (`MatrixSolver/ludcmp.c`) -/

/-- Runs `body i` for `n` consecutive values of the loop variable going down from `i`. -/
def forLoopDownAux {σ : Type} (body : Int → σ → σ) : Nat → Int → σ → σ
  | 0, _, s => s
  | n + 1, i, s => forLoopDownAux body n (i - 1) (body i s)

/-- The C loop `for (i = hi; i >= lo; i--) body`. -/
def forLoopDown {σ : Type} (hi lo : Int) (body : Int → σ → σ) (s : σ) : σ :=
  forLoopDownAux body (hi + 1 - lo).toNat hi s

/-- What `ludcmp` works on: the matrix `a`, the pivot vector `indx`, the sign `*d`, the
row scalings `vv` and the local `imax`. -/
structure LUState where
  a : Arr2 ℚ
  indx : Arr1 Int
  d : ℚ
  vv : Arr1 ℚ
  imax : Int

/-- Lines 35-37 of `ludcmp.c`: the largest absolute value of row `i`. -/
def rowBig (a : Arr2 ℚ) (n i : Int) : ℚ :=
  forLoop 0 (n - 1) (fun j big => if |a i j| > big then |a i j| else big) 0

/-- Lines 34-40: the loop over the rows that stores the scalings `vv[i] = 1/big`; a row
of zeros ends the run through `ath_error`. -/
def ludcmpScale (n : Int) (s : LUState) : Except String LUState :=
  forLoop 0 (n - 1) (fun i r =>
    match r with
    | .error e => .error e
    | .ok s =>
      if rowBig s.a n i = 0 then .error "[ludcmp]: Singular matrix in routine ludcmp\n"
      else .ok { s with vv := set1 s.vv i (1 / rowBig s.a n i) }) (.ok s)

/-- Lines 43-47: the entries of column `j` above the diagonal. -/
def ludcmpUpper (j : Int) (s : LUState) : LUState :=
  forLoop 0 (j - 1) (fun i s =>
    let sum := forLoop 0 (i - 1) (fun k sum => sum - s.a i k * s.a k j) (s.a i j)
    { s with a := set2 s.a i j sum }) s

/-- Lines 49-59: the entries of column `j` from the diagonal down and the search for the
pivot; the second component is the local `big`. -/
def ludcmpPivot (n j : Int) (s : LUState) : LUState × ℚ :=
  forLoop j (n - 1) (fun i p =>
    let s := p.1
    let big := p.2
    let sum := forLoop 0 (j - 1) (fun k sum => sum - s.a i k * s.a k j) (s.a i j)
    let s := { s with a := set2 s.a i j sum }
    let dum := s.vv i * |sum|
    if dum ≥ big then ({ s with imax := i }, dum) else (s, big)) (s, 0)

/-- Lines 61-69: the interchange of the rows `imax` and `j`. -/
def ludcmpSwap (n j : Int) (s : LUState) : LUState :=
  if j ≠ s.imax then
    let s := forLoop 0 (n - 1) (fun k s =>
      let dum := s.a s.imax k
      let s := { s with a := set2 s.a s.imax k (s.a j k) }
      { s with a := set2 s.a j k dum }) s
    let s := { s with d := -s.d }
    { s with vv := set1 s.vv s.imax (s.vv j) }
  else s

/-- Lines 71-76: the pivot index is stored, a zero pivot is replaced by `TINY_NUMBER`, and
the column below the diagonal is divided by the pivot. -/
def ludcmpDivide (TINY_NUMBER : ℚ) (n j : Int) (s : LUState) : LUState :=
  let s := { s with indx := set1 s.indx j s.imax }
  let s := if s.a j j = 0 then { s with a := set2 s.a j j TINY_NUMBER } else s
  if j ≠ n - 1 then
    let dum := 1 / s.a j j
    forLoop (j + 1) (n - 1) (fun i s => { s with a := set2 s.a i j (s.a i j * dum) }) s
  else s

/-- Lines 42-77: the loop over the columns. -/
def ludcmpColumns (TINY_NUMBER : ℚ) (n : Int) (s : LUState) : LUState :=
  forLoop 0 (n - 1) (fun j s =>
    ludcmpDivide TINY_NUMBER n j (ludcmpSwap n j (ludcmpPivot n j (ludcmpUpper j s)).1)) s

/-- The function `ludcmp(a, n, indx, &d)` (lines 27-87). `TINY_NUMBER` is the constant of
`defs.h`, which is not part of the sources; `mallocOk` tells whether the allocation of
`vv` succeeds; `vv0` and `imax0` are the indeterminate initial contents of the fresh
array `vv` and of the local `imax`. The result is the factorised matrix, the pivot
vector and the sign, or the message of the `ath_error` that ends the run. -/
def ludcmp (TINY_NUMBER : ℚ) (mallocOk : Bool) (vv0 : Arr1 ℚ) (imax0 : Int)
    (a : Arr2 ℚ) (n : Int) (indx : Arr1 Int) : Except String (Arr2 ℚ × Arr1 Int × ℚ) :=
  if mallocOk then
    match ludcmpScale n { a := a, indx := indx, d := 1, vv := vv0, imax := imax0 } with
    | .error e => .error e
    | .ok s =>
      let s := ludcmpColumns TINY_NUMBER n s
      .ok (s.a, s.indx, s.d)
  else .error "[ludcmp]: malloc returned a NULL pointer\n"

/-- What `lubksb` works on: the vector `b` and the local `ii`. -/
structure BksbState where
  b : Arr1 ℚ
  ii : Int

/-- Lines 97-106 of `ludcmp.c`: the forward substitution. -/
def lubksbForward (a : Arr2 ℚ) (n : Int) (indx : Arr1 Int) (s : BksbState) : BksbState :=
  forLoop 0 (n - 1) (fun i s =>
    let ip := indx i
    let sum := s.b ip
    let s := { s with b := set1 s.b ip (s.b i) }
    if s.ii ≠ 0 then
      let sum := forLoop s.ii (i - 1) (fun j sum => sum - a i j * s.b j) sum
      { s with b := set1 s.b i sum }
    else if sum ≠ 0 then
      let s := { s with ii := i }
      { s with b := set1 s.b i sum }
    else { s with b := set1 s.b i sum }) s

/-- Lines 107-111: the back substitution; the inner loop runs to `j = n`. -/
def lubksbBack (a : Arr2 ℚ) (n : Int) (s : BksbState) : BksbState :=
  forLoopDown (n - 1) 0 (fun i s =>
    let sum := forLoop (i + 1) n (fun j sum => sum - a i j * s.b j) (s.b i)
    { s with b := set1 s.b i (sum / a i i) }) s

/-- The function `lubksb(a, n, indx, b)` (lines 92-112): the vector `b` it leaves. -/
def lubksb (a : Arr2 ℚ) (n : Int) (indx : Arr1 Int) (b : Arr1 ℚ) : Arr1 ℚ :=
  (lubksbBack a n (lubksbForward a n indx { b := b, ii := 0 })).b

/-! ## Step 10: the signal speeds and the stencils of the H-correction -/

/-- The body of the loops of Step 10a (lines 663-667): the signal speed of a face from
the conserved states on its two sides and the face field. -/
def etaVal (c : Config) (Ul Ur : Cons1D) (B : ℚ) : ℚ :=
  let cfr := c.cfast Ur B
  let cfl := c.cfast Ul B
  let lambdar := Ur.Mx / Ur.d + cfr
  let lambdal := Ul.Mx / Ul.d - cfl
  (1 / 2) * |lambdar - lambdal|

/-- The array `eta1`. -/
def lensEta1 : Lens ℚ where
  get s := s.eta1
  set s a := { s with eta1 := a }
  get_set _ _ := rfl
  set_set _ _ _ := rfl
  set_get _ := rfl

/-- The array `eta2`. -/
def lensEta2 : Lens ℚ where
  get s := s.eta2
  set s a := { s with eta2 := a }
  get_set _ _ := rfl
  set_set _ _ _ := rfl
  set_get _ := rfl

/-- The array `eta3`. -/
def lensEta3 : Lens ℚ where
  get s := s.eta3
  set s a := { s with eta3 := a }
  get_set _ _ := rfl
  set_set _ _ _ := rfl
  set_get _ := rfl

/-- An entry of one of the arrays `eta1`, `eta2`, `eta3`: the array and the index
`[k][j][i]`. -/
abbrev EtaIx := Dir × Int × Int × Int

/-- The value of an entry of `eta1`, `eta2`, `eta3`. -/
def etaAt (s : State) : EtaIx → ℚ
  | (.x1, k, j, i) => s.eta1 k j i
  | (.x2, k, j, i) => s.eta2 k j i
  | (.x3, k, j, i) => s.eta3 k j i

/-- The value Step 10a stores in an entry it writes (lines 663-667, 674-678, 685-689). -/
def etaFresh (c : Config) (s : State) : EtaIx → ℚ
  | (.x1, k, j, i) => etaVal c (s.Ul_x1Face k j i) (s.Ur_x1Face k j i) (s.B1_x1Face k j i)
  | (.x2, k, j, i) => etaVal c (s.Ul_x2Face k j i) (s.Ur_x2Face k j i) (s.B2_x2Face k j i)
  | (.x3, k, j, i) => etaVal c (s.Ul_x3Face k j i) (s.Ur_x3Face k j i) (s.B3_x3Face k j i)

/-- The entries the three loop nests of Step 10a write (lines 660-662, 671-673,
682-684). -/
def etaWritten (l : Locals) : EtaIx → Prop
  | (.x1, k, j, i) => l.kb ≤ k ∧ k ≤ l.kt ∧ l.jb ≤ j ∧ j ≤ l.jt ∧ l.ib + 1 ≤ i ∧ i ≤ l.it
  | (.x2, k, j, i) => l.kb ≤ k ∧ k ≤ l.kt ∧ l.jb + 1 ≤ j ∧ j ≤ l.jt ∧ l.ib ≤ i ∧ i ≤ l.it
  | (.x3, k, j, i) => l.kb + 1 ≤ k ∧ k ≤ l.kt ∧ l.jb ≤ j ∧ j ≤ l.jt ∧ l.ib ≤ i ∧ i ≤ l.it

instance (l : Locals) (e : EtaIx) : Decidable (etaWritten l e) := by
  rcases e with ⟨d, k, j, i⟩
  cases d <;> unfold etaWritten <;> infer_instance

/-- The entries Step 10b reads for the x1-face `(k, j, i)`, in the order of lines
706-715. -/
def stencil1 (k j i : Int) : List EtaIx :=
  [(.x2, k, j, i - 1), (.x2, k, j, i), (.x2, k, j + 1, i - 1), (.x2, k, j + 1, i),
   (.x3, k, j, i - 1), (.x3, k, j, i), (.x3, k + 1, j, i - 1), (.x3, k + 1, j, i),
   (.x1, k, j, i)]

/-- The entries Step 10c reads for the x2-face `(k, j, i)`, in the order of lines
736-745. -/
def stencil2 (k j i : Int) : List EtaIx :=
  [(.x1, k, j - 1, i), (.x1, k, j, i), (.x1, k, j - 1, i + 1), (.x1, k, j, i + 1),
   (.x3, k, j - 1, i), (.x3, k, j, i), (.x3, k + 1, j - 1, i), (.x3, k + 1, j, i),
   (.x2, k, j, i)]

/-- The entries Step 10d reads for the x3-face `(k, j, i)`, in the order of lines
765-774. -/
def stencil3 (k j i : Int) : List EtaIx :=
  [(.x1, k - 1, j, i), (.x1, k, j, i), (.x1, k - 1, j, i + 1), (.x1, k, j, i + 1),
   (.x2, k - 1, j, i), (.x2, k, j, i), (.x2, k - 1, j + 1, i), (.x2, k, j + 1, i),
   (.x3, k, j, i)]

/-- The chain `etah = MAX(e0, e1); etah = MAX(etah, e2); ...` over a list of entries. -/
def etahOf (s : State) : List EtaIx → ℚ
  | [] => s.etah
  | e :: es => es.foldl (fun m e => MAX m (etaAt s e)) (etaAt s e)

/-- Steps 10b-11b in program order: the second-order fluxes, the cell-centred EMFs of
the half step and the three corner integrations. -/
def steps10bTo11b (c : Config) (l : Locals) (s : State) : State :=
  runStages ((correctorStages7to11b c l).drop 4) s

/-- The state `t` with other contents in the three flux arrays, the three arrays of
cell-centred EMFs and the three arrays of corner EMFs. -/
def withFluxesAndEmfs (t : State) (F1 F2 F3 : Arr3 Cons1D) (c1 c2 c3 e1 e2 e3 : Arr3 ℚ) :
    State :=
  { t with
    x1Flux := F1, x2Flux := F2, x3Flux := F3,
    emf1_cc := c1, emf2_cc := c2, emf3_cc := c3,
    emf1 := e1, emf2 := e2, emf3 := e3 }

/-! ## The formal solution of radiative transfer (`jacobi_2d.c`) -/

/-- Modelled from the spec: the definition of `MIN` (in `defs.h`) is not part of the
sources; it is the smaller of its two arguments, `((a) < (b) ? (a) : (b))`. -/
def MIN (a b : ℚ) : ℚ := if a < b then a else b

/-- Modelled from the spec: the record `RadS` of `athena.h`, which is not part of the
sources, with the fields that `jacobi_2d.c` accesses: the mean intensity `J`, the source
function `S`, the opacity `chi`, the destruction probability `eps` and the diagonal of
the approximate operator `lamstr`. -/
structure RadS where
  J : ℚ
  S : ℚ
  chi : ℚ
  eps : ℚ
  lamstr : ℚ

/-- Modelled from the spec: the part of the record `RadGridS` of `athena.h` that
`sweep_2d` accesses: the numbers of angles and frequencies, the index bounds, the
array `R[k][j][i][ifr]` and the quadrature weights `w[l][m]`. -/
structure RadGridS where
  nmu : Int
  ng : Int
  is : Int
  ie : Int
  ks : Int
  nf : Int
  R : Int → Int → Int → Int → RadS
  w : Arr2 ℚ

/-- The radiation grid together with the file-scope arrays `imuo[i][ifr][l][m][n]`,
`psi[j][i][ifr][l][m][n]` and `am0[l][m]` of `jacobi_2d.c` (lines 28-36). -/
structure SweepState where
  pRG : RadGridS
  imuo : Int → Int → Int → Int → Int → ℚ
  psi : Int → Int → Int → Int → Int → Int → ℚ
  am0 : Arr2 ℚ

/-- The weights `(w0, w1, w2)` of the parabolic interpolation (lines 207-209 for
`am <= 1`, lines 226-228 otherwise). -/
def sweepWeights (am : ℚ) : ℚ × ℚ × ℚ :=
  if am ≤ 1 then
    let am1 := 1 - am
    ((1 / 2) * am * (1 + am), am1 * (1 + am), -(1 / 2) * am * am1)
  else
    let bm := 1 / am
    let bm1 := 1 - bm
    ((1 / 2) * bm1 * (1 + bm1), bm * (1 + bm1), -(1 / 2) * bm * bm1)

/-- The parabolic value of the upwind intensity before it is limited (lines 210-211 for
`am <= 1`, lines 230-231 otherwise). -/
def sweepParabolic (s : SweepState) (sx i ifr l m : Int) : ℚ :=
  let am := s.am0 l m
  let w0 := (sweepWeights am).1
  let w1 := (sweepWeights am).2.1
  let w2 := (sweepWeights am).2.2
  if am ≤ 1 then
    w0 * s.imuo (i - sx) ifr l m 1 + w1 * s.imuo i ifr l m 0 + w2 * s.imuo (i + sx) ifr l m 0
  else
    w0 * s.imuo (i - sx) ifr l m 0 + w1 * s.imuo (i - sx) ifr l m 1 +
      w2 * s.imuo (i - sx) ifr l m 2

/-- The interpolated upwind intensity `imu0` of one ray, with `INTERP_2D` defined (as
line 23 does): the parabolic value limited to the two bracketing intensities (lines
207-215 for `am <= 1`, lines 226-235 otherwise). -/
def sweepImu0 (s : SweepState) (sx i ifr l m : Int) : ℚ :=
  let am := s.am0 l m
  if am ≤ 1 then
    let imu0 := sweepParabolic s sx i ifr l m
    let maxint := MAX (s.imuo (i - sx) ifr l m 1) (s.imuo i ifr l m 0)
    let minint := MIN (s.imuo (i - sx) ifr l m 1) (s.imuo i ifr l m 0)
    let imu0 := if imu0 > maxint then maxint else imu0
    if imu0 < minint then minint else imu0
  else
    let imu0 := sweepParabolic s sx i ifr l m
    let maxint := MAX (s.imuo (i - sx) ifr l m 0) (s.imuo (i - sx) ifr l m 1)
    let minint := MIN (s.imuo (i - sx) ifr l m 0) (s.imuo (i - sx) ifr l m 1)
    let imu0 := if imu0 > maxint then maxint else imu0
    if imu0 < minint then minint else imu0

/-- The source functions `(S0, S2)` at the end points of the characteristic, by linear
interpolation (lines 201-204 for `am <= 1`, lines 221-224 otherwise). -/
def sweepSources (s : SweepState) (j sx sy i ifr l m : Int) : ℚ × ℚ :=
  let am := s.am0 l m
  let R := s.pRG.R s.pRG.ks
  if am ≤ 1 then
    let am1 := 1 - am
    (am * (R (j - sy) (i - sx) ifr).S + am1 * (R (j - sy) i ifr).S,
     am * (R (j + sy) (i + sx) ifr).S + am1 * (R (j + sy) i ifr).S)
  else
    let bm := 1 / am
    let bm1 := 1 - bm
    (bm * (R (j - sy) (i - sx) ifr).S + bm1 * (R j (i - sx) ifr).S,
     bm * (R (j + sy) (i + sx) ifr).S + bm1 * (R j (i + sx) ifr).S)

/-- The body of the innermost loop of `sweep_2d` (lines 193-262), without `RAD_MULTIG`:
the intensity at the grid centre, added to the mean intensity and saved in `imuo`. -/
def sweepRay (j sx sy i ifr l m : Int) (s : SweepState) : SweepState :=
  let imu0 := sweepImu0 s sx i ifr l m
  let S0 := (sweepSources s j sx sy i ifr l m).1
  let S2 := (sweepSources s j sx sy i ifr l m).2
  let ks := s.pRG.ks
  let imu := s.psi j i ifr l m 0 * imu0 + s.psi j i ifr l m 1 * S0 +
    s.psi j i ifr l m 2 * (s.pRG.R ks j i ifr).S + s.psi j i ifr l m 3 * S2
  let r := s.pRG.R ks j i ifr
  let r := { r with J := r.J + s.pRG.w l m * imu }
  let R := fun k' j' i' f' =>
    if k' = ks ∧ j' = j ∧ i' = i ∧ f' = ifr then r else s.pRG.R k' j' i' f'
  let s := { s with pRG := { s.pRG with R := R } }
  let set5 := fun (a : Int → Int → Int → Int → Int → ℚ) (n : Int) (v : ℚ) =>
    fun i' f' l' m' n' =>
      if i' = i ∧ f' = ifr ∧ l' = l ∧ m' = m ∧ n' = n then v else a i' f' l' m' n'
  let s := { s with imuo := set5 s.imuo 2 (s.imuo i ifr l m 1) }
  let s := { s with imuo := set5 s.imuo 1 (s.imuo i ifr l m 0) }
  { s with imuo := set5 s.imuo 0 imu }

/-- The function `sweep_2d(pRG, j, sx, sy)` (lines 150-273): one sweep over the row `j`
in the direction `sx`, for the rays going in the direction `sy`. -/
def sweep_2d (j sx sy : Int) (s : SweepState) : SweepState :=
  let nmu := s.pRG.nmu
  let nmu2 := Int.tdiv s.pRG.nmu 2
  let ng := s.pRG.ng
  let ng2 := Int.tdiv s.pRG.ng 2
  let is := s.pRG.is
  let ie := s.pRG.ie
  let nf := s.pRG.nf
  let mus := if sy = 1 then nmu2 else 0
  let mue := if sy = 1 then nmu - 1 else nmu2 - 1
  let sy := if sy = 1 then sy else -1
  let gs := if sx = 1 then ng2 else 0
  let ge := if sx = 1 then ng - 1 else ng2 - 1
  let sx := if sx = 1 then sx else -1
  forLoop is ie (fun i0 s =>
    let i := if sx = 1 then i0 else ie + is - i0
    forLoop 0 (nf - 1) (fun ifr s =>
      forLoop mus mue (fun l s =>
        forLoop gs ge (fun m s => sweepRay j sx sy i ifr l m s) s) s) s) s

/-- The function `update_sfunc(R)` (lines 275-284). -/
def update_sfunc (R : RadS) : RadS :=
  let snew := (1 - R.eps) * R.J + R.eps
  let deltas := (snew - R.S) / (1 - (1 - R.eps) * R.lamstr)
  { R with S := R.S + deltas }

/-! ## The accesses of `lubksb` to its arrays -/

/-- One access of `lubksb` to its arguments: an element `a[i][j]` or an element `b[j]`. -/
inductive Access where
  | a (i j : Int)
  | b (j : Int)
deriving DecidableEq

/-- An access that stays inside a matrix of `n` rows and `n` columns and a vector of `n`
elements. -/
def Access.inBounds (n : Int) : Access → Prop
  | .a i j => 0 ≤ i ∧ i ≤ n - 1 ∧ 0 ≤ j ∧ j ≤ n - 1
  | .b j => 0 ≤ j ∧ j ≤ n - 1

instance (n : Int) (x : Access) : Decidable (Access.inBounds n x) := by
  cases x <;> unfold Access.inBounds <;> infer_instance

/-- Lines 98-105 of `ludcmp.c`: one pass of the forward substitution of `lubksb`. -/
def lubksbForwardStep (a : Arr2 ℚ) (indx : Arr1 Int) (i : Int) (s : BksbState) : BksbState :=
  let ip := indx i
  let sum := s.b ip
  let s := { s with b := set1 s.b ip (s.b i) }
  if s.ii ≠ 0 then
    let sum := forLoop s.ii (i - 1) (fun j sum => sum - a i j * s.b j) sum
    { s with b := set1 s.b i sum }
  else if sum ≠ 0 then
    let s := { s with ii := i }
    { s with b := set1 s.b i sum }
  else { s with b := set1 s.b i sum }

/-- The accesses of the inner loops `for (j = lo; j <= hi; j++) sum -= a[i][j]*b[j]`
(lines 103 and 109), in program order. -/
def rowAccesses (i lo hi : Int) : List Access :=
  forLoop lo hi (fun j tr => tr ++ [Access.a i j, Access.b j]) []

/-- The accesses of one pass of the forward substitution (lines 99-105), in program
order: `sum=b[ip]`, `b[ip]=b[i]`, the inner loop when `ii` is set, `b[i]=sum`. -/
def lubksbForwardAccesses (indx : Arr1 Int) (i : Int) (s : BksbState) : List Access :=
  [Access.b (indx i), Access.b i, Access.b (indx i)] ++
    (if s.ii ≠ 0 then rowAccesses i s.ii (i - 1) else []) ++ [Access.b i]

/-- The forward substitution of `lubksb` together with the accesses it makes. -/
def lubksbForwardTrace (a : Arr2 ℚ) (n : Int) (indx : Arr1 Int) (b : Arr1 ℚ) :
    BksbState × List Access :=
  forLoop 0 (n - 1) (fun i p =>
    (lubksbForwardStep a indx i p.1, p.2 ++ lubksbForwardAccesses indx i p.1))
    ({ b := b, ii := 0 }, [])

/-- The accesses of one pass of the back substitution (lines 108-110), in program order:
`sum=b[i]`, the inner loop over `j = i+1, ..., n`, `b[i]=sum/a[i][i]`. -/
def lubksbBackAccesses (n i : Int) : List Access :=
  [Access.b i] ++ rowAccesses i (i + 1) n ++ [Access.a i i, Access.b i]

/-- The accesses of the back substitution of `lubksb` (lines 107-111). -/
def lubksbBackTrace (n : Int) : List Access :=
  forLoopDown (n - 1) 0 (fun i tr => tr ++ lubksbBackAccesses n i) []

/-! ## A small concrete configuration and state -/

/-- A first-order (donor cell) reconstruction: the left state of interface `i` is
the cell `i - 1`, the right state is the cell `i`; written for `il ≤ i ≤ iu + 1`. -/
def demoLr (W : Arr1 Prim1D) (_Bxc : Arr1 ℚ) (_dtodx : ℚ) (il iu : Int)
    (Wl Wr : Arr1 Prim1D) : Arr1 Prim1D × Arr1 Prim1D :=
  (fun i => if il ≤ i ∧ i ≤ iu + 1 then W (i - 1) else Wl i,
   fun i => if il ≤ i ∧ i ≤ iu + 1 then W i else Wr i)

/-- A simple conversion to primitive variables (velocity = momentum / density). -/
def demoC2P (u : Cons1D) (_Bx : ℚ) : Prim1D :=
  { d := u.d, Vx := u.Mx / u.d, Vy := u.My / u.d, Vz := u.Mz / u.d, P := u.E,
    By := u.By, Bz := u.Bz }

/-- The inverse conversion to conserved variables. -/
def demoP2C (w : Prim1D) (_Bx : ℚ) : Cons1D :=
  { d := w.d, Mx := w.d * w.Vx, My := w.d * w.Vy, Mz := w.d * w.Vz, E := w.P,
    By := w.By, Bz := w.Bz }

/-- A central flux with a dissipation term scaled by `1 + etah`. -/
def demoFlux (etah : ℚ) (Ul Ur : Cons1D) (Wl Wr : Prim1D) (Bx : ℚ) : Cons1D :=
  { d := (1 / 2) * (Ul.Mx + Ur.Mx) - (1 + etah) * (Ur.d - Ul.d)
    Mx := (1 / 2) * (Ul.Mx * Wl.Vx + Wl.P + Ur.Mx * Wr.Vx + Wr.P) - (1 + etah) * (Ur.Mx - Ul.Mx)
    My := (1 / 2) * (Ul.My * Wl.Vx + Ur.My * Wr.Vx) - (1 + etah) * (Ur.My - Ul.My)
    Mz := (1 / 2) * (Ul.Mz * Wl.Vx + Ur.Mz * Wr.Vx) - (1 + etah) * (Ur.Mz - Ul.Mz)
    E := (1 / 2) * ((Ul.E + Wl.P) * Wl.Vx + (Ur.E + Wr.P) * Wr.Vx) - (1 + etah) * (Ur.E - Ul.E)
    By := (1 / 2) * (Ul.By * Wl.Vx - Bx * Wl.Vy + Ur.By * Wr.Vx - Bx * Wr.Vy)
      - (1 + etah) * (Ur.By - Ul.By)
    Bz := (1 / 2) * (Ul.Bz * Wl.Vx - Bx * Wl.Vz + Ur.Bz * Wr.Vx - Bx * Wr.Vz)
      - (1 + etah) * (Ur.Bz - Ul.Bz) }

/-- A configuration: four ghost zones, second-order limits, no gravity, no
H-correction, mesh refinement enabled. -/
def demoConfig : Config :=
  { nghost := 4, order := .SECOND_ORDER, SELF_GRAVITY := false, H_CORRECTION := false,
    STATIC_MESH_REFINEMENT := true, StaticGravPot := none, four_pi_G := 1, grav_mean_rho := 0,
    Cons1D_to_Prim1D := demoC2P, Prim1D_to_Cons1D := demoP2C, fluxes := demoFlux,
    lr_states := demoLr, cfast := fun _ _ => 1,
    cc_pos := fun i j k => ((i : ℚ) + 1 / 2, (j : ℚ) + 1 / 2, (k : ℚ) + 1 / 2) }

/-- An overlap record with no registers. -/
def demoNoOvrlp : GridOvrlpS :=
  { ijks := fun _ => 0, ijke := fun _ => 0, myFlx := fun _ => none,
    myEMF1 := fun _ _ _ => 0, myEMF2 := fun _ _ _ => 0, myEMF3 := fun _ _ _ => 0 }

/-- A grid of one active cell `(0, 0, 0)` with a non-uniform state. -/
def demoGrid : GridS :=
  { is := 0, ie := 0, js := 0, je := 0, ks := 0, ke := 0,
    dt := 1 / 10, dx1 := 1, dx2 := 2, dx3 := 3,
    U := fun k j i => { d := 1 + (i * i : Int), M1 := (k : Int), M2 := (j : Int), M3 := 1,
                        E := 5 + (j * j : Int), B1c := 1, B2c := (i : Int), B3c := (k : Int) },
    B1i := fun k j _ => ((k + j : Int) : ℚ), B2i := fun k _ i => ((k * i : Int) : ℚ),
    B3i := fun _ j i => ((i - j : Int) : ℚ),
    Phi := fun k j i => ((i * i + j + k : Int) : ℚ),
    x1MassFlux := fun _ _ _ => 0, x2MassFlux := fun _ _ _ => 0, x3MassFlux := fun _ _ _ => 0,
    NCGrid := 0, CGrid := fun _ => demoNoOvrlp, NPGrid := 0, PGrid := fun _ => demoNoOvrlp }

/-- A state on `demoGrid` with simple scratch contents. -/
def demoState : State :=
  { pG := demoGrid,
    Wl_x1Face := fun _ _ _ => ⟨1, 0, 0, 0, 1, 0, 0⟩, Wr_x1Face := fun _ _ _ => ⟨1, 0, 0, 0, 1, 0, 0⟩,
    Wl_x2Face := fun _ _ _ => ⟨1, 0, 0, 0, 1, 0, 0⟩, Wr_x2Face := fun _ _ _ => ⟨1, 0, 0, 0, 1, 0, 0⟩,
    Wl_x3Face := fun _ _ _ => ⟨1, 0, 0, 0, 1, 0, 0⟩, Wr_x3Face := fun _ _ _ => ⟨1, 0, 0, 0, 1, 0, 0⟩,
    x1Flux := fun k j i => ⟨(i : Int), 1, 0, 0, (k : Int), (j : Int), 2⟩,
    x2Flux := fun k j i => ⟨(j : Int), 0, 1, 0, (i : Int), 3, (k : Int)⟩,
    x3Flux := fun k j i => ⟨(k : Int), 0, 0, 1, (j : Int), (i : Int), 1⟩,
    B1_x1Face := fun _ _ _ => 0, B2_x2Face := fun _ _ _ => 0, B3_x3Face := fun _ _ _ => 0,
    emf1 := fun k j i => ((k * j + i : Int) : ℚ), emf2 := fun k j i => ((k + j * i : Int) : ℚ),
    emf3 := fun k j i => ((k * i - j : Int) : ℚ),
    emf1_cc := fun _ _ _ => 0, emf2_cc := fun _ _ _ => 0, emf3_cc := fun _ _ _ => 0,
    Bxc := fun _ => 0, Bxi := fun _ => 0,
    W := fun _ => ⟨1, 0, 0, 0, 1, 0, 0⟩, Wl := fun _ => ⟨1, 0, 0, 0, 1, 0, 0⟩,
    Wr := fun _ => ⟨1, 0, 0, 0, 1, 0, 0⟩,
    U1d := fun _ => ⟨1, 0, 0, 0, 1, 0, 0⟩, Ul := fun _ => ⟨1, 0, 0, 0, 1, 0, 0⟩,
    Ur := fun _ => ⟨1, 0, 0, 0, 1, 0, 0⟩,
    Uhalf := fun _ _ _ => ⟨1, 0, 0, 0, 1, 0, 0, 0⟩,
    eta1 := fun _ _ _ => 0, eta2 := fun _ _ _ => 0, eta3 := fun _ _ _ => 0,
    Ul_x1Face := fun _ _ _ => ⟨1, 0, 0, 0, 1, 0, 0⟩, Ur_x1Face := fun _ _ _ => ⟨1, 0, 0, 0, 1, 0, 0⟩,
    Ul_x2Face := fun _ _ _ => ⟨1, 0, 0, 0, 1, 0, 0⟩, Ur_x2Face := fun _ _ _ => ⟨1, 0, 0, 0, 1, 0, 0⟩,
    Ul_x3Face := fun _ _ _ => ⟨1, 0, 0, 0, 1, 0, 0⟩, Ur_x3Face := fun _ _ _ => ⟨1, 0, 0, 0, 1, 0, 0⟩,
    etah := 7 }

/-- The configuration `demoConfig` with self-gravity switched on. -/
def demoConfigSG : Config := { demoConfig with SELF_GRAVITY := true }

/-- An overlap record over the single cell `(0, 0, 0)` with a flux register on its
lower x1-face (slot 0) only. -/
def demoOvrlp : GridOvrlpS :=
  { ijks := fun _ => 0, ijke := fun _ => 0,
    myFlx := fun dim => if dim = 0 then some (fun _ _ => ⟨0, 0, 0, 0, 0, 0, 0, 0⟩) else none,
    myEMF1 := fun _ _ _ => 0, myEMF2 := fun _ _ _ => 0, myEMF3 := fun _ _ _ => 0 }

/-- The state `demoState` on a grid with one child grid, `demoOvrlp`. -/
def demoStateSMR : State :=
  { demoState with pG := { demoGrid with NCGrid := 1, CGrid := fun _ => demoOvrlp } }

/-- The state `demoState` on a grid that holds the uniform motionless cell
`uniformGas 1 (5/2)` everywhere, with zero face fields. -/
def demoUniformState : State :=
  { demoState with
    pG := { demoGrid with U := fun _ _ _ => uniformGas 1 (5 / 2), B1i := fun _ _ _ => 0,
                          B2i := fun _ _ _ => 0, B3i := fun _ _ _ => 0 } }

/-- A mesh of two levels: one grid of `8 × 4 × 2` cells on level 0, and on level 1 a
domain without a grid on this processor and a grid of `4 × 16 × 2` cells. -/
def demoMesh : MeshS :=
  { NLevels := 2,
    DomainsPerLevel := fun nl => if nl = 0 then 1 else 2,
    Domain := fun nl nd =>
      if nl = 0 then { Grid := some (fun d => if d = 0 then 8 else if d = 1 then 4 else 2) }
      else if nd = 0 then { Grid := none }
      else { Grid := some (fun d => if d = 0 then 4 else if d = 1 then 16 else 2) } }

/-- The state `demoState` on a grid filled with gas of density 1 and pressure-like
energy excess 1 that streams apart along x1: `M1 = 100 i`, `E = 1 + M1²/2`. -/
def demoStateNeg : State :=
  { demoState with
    pG := { demoGrid with
      U := fun _ _ i => { d := 1, M1 := 100 * (i : ℚ), M2 := 0, M3 := 0,
                          E := 1 + 5000 * (i : ℚ) * (i : ℚ), B1c := 0, B2c := 0, B3c := 0 } } }

/-- The matrix `[[1, 0], [1, 1]]`, with zeros outside its two rows and columns. -/
def demoMatrix : Arr2 ℚ :=
  fun i j => if (i = 0 ∧ j = 0) ∨ (i = 1 ∧ j = 0) ∨ (i = 1 ∧ j = 1) then 1 else 0

/-- The right-hand side `[1, 1]`, with zeros outside its two entries. -/
def demoRhs : Arr1 ℚ :=
  fun i => if i = 0 ∨ i = 1 then 1 else 0

/-- The state `demoState` with scratch arrays that hold the uniform EMF 3 in each
direction: every flux has `Bz = 3` and `By = -3`, every cell-centred EMF is 3. -/
def demoStateEmf : State :=
  { demoState with
    x1Flux := fun _ _ i => ⟨(i : Int), 0, 0, 0, 0, -3, 3⟩,
    x2Flux := fun _ j _ => ⟨(j : Int), 0, 0, 0, 0, -3, 3⟩,
    x3Flux := fun k _ _ => ⟨(k : Int), 0, 0, 0, 0, -3, 3⟩,
    emf1_cc := fun _ _ _ => 3, emf2_cc := fun _ _ _ => 3, emf3_cc := fun _ _ _ => 3 }

/-- The configuration `demoConfig` with the static potential `x1² + 2 x2 + 3 x3`. -/
def demoConfigPot : Config :=
  { demoConfig with StaticGravPot := some (fun x1 x2 x3 => x1 * x1 + 2 * x2 + 3 * x3) }

/-- The configuration `demoConfig` with the H-correction switched on. -/
def demoConfigH : Config := { demoConfig with H_CORRECTION := true }

/-- The state `demoState` with the value 100 left in every entry of `eta2`. -/
def demoStateStale : State := { demoState with eta2 := fun _ _ _ => 100 }

/-- A sweep state with `am0 = 1/2` for every ray and stored intensities that depend on
the position and on the slot. -/
def demoSweep : SweepState :=
  { pRG := { nmu := 2, ng := 2, is := 0, ie := 1, ks := 0, nf := 1,
             R := fun _ _ _ _ => ⟨0, 1, 1, 1 / 2, 1 / 2⟩, w := fun _ _ => 1 / 4 },
    imuo := fun i _ _ _ n => ((i * i + n : Int) : ℚ),
    psi := fun _ _ _ _ _ _ => 1 / 4,
    am0 := fun _ _ => 1 / 2 }

/-! # Theorems -/

/-! ## Generic facts about loops -/

theorem forLoopAux_obs {σ β : Type} (obs : σ → β) (body : Int → σ → σ) (hb : Int → β → β)
    (n : Nat) (lo : Int)
    (H : ∀ m s, lo ≤ m → m < lo + n → obs (body m s) = hb m (obs s)) (s : σ) :
    obs (forLoopAux body n lo s) = forLoopAux hb n lo (obs s) := by
  induction n generalizing lo s with
  | zero => rfl
  | succ n ih =>
    simp only [forLoopAux]
    rw [ih (lo + 1) (fun m s h1 h2 => H m s (by omega) (by push_cast; omega)) (body lo s)]
    rw [H lo s (le_refl _) (by push_cast; omega)]

theorem forLoopAux_skip {β : Type} (f : Int → β → β) (n : Nat) (lo : Int)
    (H : ∀ m v, lo ≤ m → m < lo + n → f m v = v) (v : β) :
    forLoopAux f n lo v = v := by
  induction n generalizing lo v with
  | zero => rfl
  | succ n ih =>
    simp only [forLoopAux]
    rw [H lo v (le_refl _) (by push_cast; omega)]
    exact ih (lo + 1) (fun m v h1 h2 => H m v (by omega) (by push_cast; omega)) v

theorem forLoopAux_single {β : Type} (f : Int → β → β) (n : Nat) (lo m : Int)
    (h1 : lo ≤ m) (h2 : m < lo + n)
    (H : ∀ m' v, lo ≤ m' → m' < lo + n → m' ≠ m → f m' v = v) (v : β) :
    forLoopAux f n lo v = f m v := by
  induction n generalizing lo v with
  | zero => exfalso; simp at h2; omega
  | succ n ih =>
    simp only [forLoopAux]
    by_cases hlo : lo = m
    · subst hlo
      exact forLoopAux_skip f n (lo + 1)
        (fun m' v' a b => H m' v' (by omega) (by push_cast; omega) (by omega)) (f lo v)
    · rw [H lo v (le_refl _) (by push_cast; omega) hlo]
      exact ih (lo + 1) (by omega) (by push_cast at h2; omega)
        (fun m' v' a b c => H m' v' (by omega) (by push_cast; omega) c) v

/-- A loop none of whose iterations changes the observation leaves it unchanged. -/
theorem forLoop_frame {σ β : Type} (obs : σ → β) (lo hi : Int) (body : Int → σ → σ)
    (H : ∀ m s, lo ≤ m → m ≤ hi → obs (body m s) = obs s) (s : σ) :
    obs (forLoop lo hi body s) = obs s := by
  unfold forLoop
  rw [forLoopAux_obs obs body (fun _ v => v) _ lo (fun m s a b => H m s a (by omega)) s]
  exact forLoopAux_skip _ _ _ (fun _ _ _ _ => rfl) _

/-- A loop with exactly one iteration `m` acting on the observation (as `g`), all
other iterations leaving it unchanged, acts on the observation as `g`. -/
theorem forLoop_hit {σ β : Type} (obs : σ → β) (lo hi m : Int) (body : Int → σ → σ)
    (g : β → β) (h1 : lo ≤ m) (h2 : m ≤ hi)
    (Hm : ∀ s, obs (body m s) = g (obs s))
    (H : ∀ m' s, lo ≤ m' → m' ≤ hi → m' ≠ m → obs (body m' s) = obs s) (s : σ) :
    obs (forLoop lo hi body s) = g (obs s) := by
  unfold forLoop
  rw [forLoopAux_obs obs body (fun m' v => if m' = m then g v else v) _ lo ?_ s]
  · rw [forLoopAux_single _ _ lo m h1 (by omega) ?_ _]
    · simp
    · intro m' v _ _ hne; simp [hne]
  · intro m' s a b
    by_cases hm : m' = m
    · subst hm; simp [Hm]
    · simp [hm]; exact H m' s a (by omega) hm

/-- A loop whose iterations preserve a property preserves it. -/
theorem forLoop_inv {σ : Type} (P : σ → Prop) (lo hi : Int) (body : Int → σ → σ)
    (H : ∀ m s, lo ≤ m → m ≤ hi → P s → P (body m s)) (s : σ) (hs : P s) :
    P (forLoop lo hi body s) := by
  have key : ∀ (n : Nat) (a : Int) (s : σ), lo ≤ a → a + n ≤ hi + 1 → P s →
      P (forLoopAux body n a s) := by
    intro n
    induction n with
    | zero => intro a s _ _ h; exact h
    | succ n ih =>
      intro a s h1 h2 h
      simp only [forLoopAux]
      exact ih (a + 1) (body a s) (by omega) (by push_cast at h2; omega)
        (H a s h1 (by push_cast at h2; omega) h)
  unfold forLoop
  by_cases h : lo ≤ hi + 1
  · exact key _ lo s (le_refl _) (by omega) hs
  · have h0 : (hi + 1 - lo).toNat = 0 := by omega
    rw [h0]; exact hs

/-- Frame of a triple loop nest. -/
theorem forLoop3_frame {σ β : Type} (obs : σ → β) (klo khi jlo jhi ilo ihi : Int)
    (body : Int → Int → Int → σ → σ)
    (H : ∀ k j i s, klo ≤ k → k ≤ khi → jlo ≤ j → j ≤ jhi → ilo ≤ i → i ≤ ihi →
      obs (body k j i s) = obs s) (s : σ) :
    obs (forLoop klo khi (fun k s => forLoop jlo jhi (fun j s =>
      forLoop ilo ihi (fun i s => body k j i s) s) s) s) = obs s := by
  apply forLoop_frame; intro k s hk1 hk2
  apply forLoop_frame; intro j s hj1 hj2
  apply forLoop_frame; intro i s hi1 hi2
  exact H k j i s hk1 hk2 hj1 hj2 hi1 hi2

/-- A triple loop nest with exactly one iteration acting on the observation. -/
theorem forLoop3_hit {σ β : Type} (obs : σ → β) (klo khi jlo jhi ilo ihi k0 j0 i0 : Int)
    (body : Int → Int → Int → σ → σ) (g : β → β)
    (hk : klo ≤ k0 ∧ k0 ≤ khi) (hj : jlo ≤ j0 ∧ j0 ≤ jhi) (hi : ilo ≤ i0 ∧ i0 ≤ ihi)
    (Hm : ∀ s, obs (body k0 j0 i0 s) = g (obs s))
    (H : ∀ k j i s, klo ≤ k → k ≤ khi → jlo ≤ j → j ≤ jhi → ilo ≤ i → i ≤ ihi →
      ¬ (k0 = k ∧ j0 = j ∧ i0 = i) → obs (body k j i s) = obs s) (s : σ) :
    obs (forLoop klo khi (fun k s => forLoop jlo jhi (fun j s =>
      forLoop ilo ihi (fun i s => body k j i s) s) s) s) = g (obs s) := by
  apply forLoop_hit obs klo khi k0 _ g hk.1 hk.2
  · intro s
    apply forLoop_hit obs jlo jhi j0 _ g hj.1 hj.2
    · intro s
      apply forLoop_hit obs ilo ihi i0 _ g hi.1 hi.2
      · exact Hm
      · intro i s h1 h2 hne
        exact H k0 j0 i s hk.1 hk.2 hj.1 hj.2 h1 h2 (fun h => hne h.2.2.symm)
    · intro j s h1 h2 hne
      apply forLoop_frame; intro i s hi1 hi2
      exact H k0 j i s hk.1 hk.2 h1 h2 hi1 hi2 (fun h => hne h.2.1.symm)
  · intro k s h1 h2 hne
    apply forLoop_frame; intro j s hj1 hj2
    apply forLoop_frame; intro i s hi1 hi2
    exact H k j i s h1 h2 hj1 hj2 hi1 hi2 (fun h => hne h.1.symm)

/-- A double loop nest none of whose iterations changes the observation. -/
theorem forLoop2_frame {σ β : Type} (obs : σ → β) (jlo jhi ilo ihi : Int)
    (body : Int → Int → σ → σ)
    (H : ∀ j i s, jlo ≤ j → j ≤ jhi → ilo ≤ i → i ≤ ihi → obs (body j i s) = obs s) (s : σ) :
    obs (forLoop jlo jhi (fun j s => forLoop ilo ihi (fun i s => body j i s) s) s) = obs s := by
  apply forLoop_frame; intro j s hj1 hj2
  apply forLoop_frame; intro i s hi1 hi2
  exact H j i s hj1 hj2 hi1 hi2

/-- A double loop nest with exactly one iteration acting on the observation. -/
theorem forLoop2_hit {σ β : Type} (obs : σ → β) (jlo jhi ilo ihi j0 i0 : Int)
    (body : Int → Int → σ → σ) (g : β → β)
    (hj : jlo ≤ j0 ∧ j0 ≤ jhi) (hi : ilo ≤ i0 ∧ i0 ≤ ihi)
    (Hm : ∀ s, obs (body j0 i0 s) = g (obs s))
    (H : ∀ j i s, jlo ≤ j → j ≤ jhi → ilo ≤ i → i ≤ ihi →
      ¬ (j0 = j ∧ i0 = i) → obs (body j i s) = obs s) (s : σ) :
    obs (forLoop jlo jhi (fun j s => forLoop ilo ihi (fun i s => body j i s) s) s)
      = g (obs s) := by
  apply forLoop_hit obs jlo jhi j0 _ g hj.1 hj.2
  · intro s
    apply forLoop_hit obs ilo ihi i0 _ g hi.1 hi.2
    · exact Hm
    · intro i s h1 h2 hne
      exact H j0 i s hj.1 hj.2 h1 h2 (fun h => hne h.2.symm)
  · intro j s h1 h2 hne
    apply forLoop_frame; intro i s hi1 hi2
    exact H j i s h1 h2 hi1 hi2 (fun h => hne h.1.symm)

/-! ## The loop shape of the constrained-transport updates -/

section ctNest
variable {σ β : Type} (obs : σ → β) (klo khi jlo jhi ilo ihi : Int)
  (body : Int → Int → Int → σ → σ) (x1 x2 x3 : Int → Int → σ → σ)

/-- No statement of the nest changes the observation. -/
theorem ctNest_frame
    (Hb : ∀ k j i s, klo ≤ k → k ≤ khi → jlo ≤ j → j ≤ jhi → ilo ≤ i → i ≤ ihi →
      obs (body k j i s) = obs s)
    (H1 : ∀ k j s, klo ≤ k → k ≤ khi → jlo ≤ j → j ≤ jhi → obs (x1 k j s) = obs s)
    (H2 : ∀ k i s, klo ≤ k → k ≤ khi → ilo ≤ i → i ≤ ihi → obs (x2 k i s) = obs s)
    (H3 : ∀ j i s, jlo ≤ j → j ≤ jhi → ilo ≤ i → i ≤ ihi → obs (x3 j i s) = obs s)
    (s : σ) :
    obs (ctNest klo khi jlo jhi ilo ihi body x1 x2 x3 s) = obs s := by
  unfold ctNest
  simp only []
  rw [forLoop2_frame obs jlo jhi ilo ihi x3 H3]
  apply forLoop_frame; intro k s hk1 hk2
  rw [forLoop_frame obs ilo ihi (fun i s => x2 k i s) (fun i s a b => H2 k i s hk1 hk2 a b)]
  apply forLoop_frame; intro j s hj1 hj2
  rw [H1 k j _ hk1 hk2 hj1 hj2]
  apply forLoop_frame; intro i s hi1 hi2
  exact Hb k j i s hk1 hk2 hj1 hj2 hi1 hi2

/-- Only the innermost statement at `(k0, j0, i0)` acts on the observation. -/
theorem ctNest_body (k0 j0 i0 : Int) (g : β → β)
    (hk : klo ≤ k0 ∧ k0 ≤ khi) (hj : jlo ≤ j0 ∧ j0 ≤ jhi) (hi : ilo ≤ i0 ∧ i0 ≤ ihi)
    (Hm : ∀ s, obs (body k0 j0 i0 s) = g (obs s))
    (Hb : ∀ k j i s, klo ≤ k → k ≤ khi → jlo ≤ j → j ≤ jhi → ilo ≤ i → i ≤ ihi →
      ¬ (k0 = k ∧ j0 = j ∧ i0 = i) → obs (body k j i s) = obs s)
    (H1 : ∀ k j s, klo ≤ k → k ≤ khi → jlo ≤ j → j ≤ jhi → obs (x1 k j s) = obs s)
    (H2 : ∀ k i s, klo ≤ k → k ≤ khi → ilo ≤ i → i ≤ ihi → obs (x2 k i s) = obs s)
    (H3 : ∀ j i s, jlo ≤ j → j ≤ jhi → ilo ≤ i → i ≤ ihi → obs (x3 j i s) = obs s)
    (s : σ) :
    obs (ctNest klo khi jlo jhi ilo ihi body x1 x2 x3 s) = g (obs s) := by
  unfold ctNest
  simp only []
  rw [forLoop2_frame obs jlo jhi ilo ihi x3 H3]
  apply forLoop_hit obs klo khi k0 _ g hk.1 hk.2
  · intro s
    rw [forLoop_frame obs ilo ihi (fun i s => x2 k0 i s)
      (fun i s a b => H2 k0 i s hk.1 hk.2 a b)]
    apply forLoop_hit obs jlo jhi j0 _ g hj.1 hj.2
    · intro s
      rw [H1 k0 j0 _ hk.1 hk.2 hj.1 hj.2]
      apply forLoop_hit obs ilo ihi i0 _ g hi.1 hi.2 Hm
      intro i s h1 h2 hne
      exact Hb k0 j0 i s hk.1 hk.2 hj.1 hj.2 h1 h2 (fun h => hne h.2.2.symm)
    · intro j s h1 h2 hne
      rw [H1 k0 j _ hk.1 hk.2 h1 h2]
      apply forLoop_frame; intro i s hi1 hi2
      exact Hb k0 j i s hk.1 hk.2 h1 h2 hi1 hi2 (fun h => hne h.2.1.symm)
  · intro k s h1 h2 hne
    rw [forLoop_frame obs ilo ihi (fun i s => x2 k i s) (fun i s a b => H2 k i s h1 h2 a b)]
    apply forLoop_frame; intro j s hj1 hj2
    rw [H1 k j _ h1 h2 hj1 hj2]
    apply forLoop_frame; intro i s hi1 hi2
    exact Hb k j i s h1 h2 hj1 hj2 hi1 hi2 (fun h => hne h.1.symm)

/-- Only the trailing statement `x1` at `(k0, j0)` acts on the observation. -/
theorem ctNest_x1 (k0 j0 : Int) (g : β → β)
    (hk : klo ≤ k0 ∧ k0 ≤ khi) (hj : jlo ≤ j0 ∧ j0 ≤ jhi)
    (Hm : ∀ s, obs (x1 k0 j0 s) = g (obs s))
    (Hb : ∀ k j i s, klo ≤ k → k ≤ khi → jlo ≤ j → j ≤ jhi → ilo ≤ i → i ≤ ihi →
      obs (body k j i s) = obs s)
    (H1 : ∀ k j s, klo ≤ k → k ≤ khi → jlo ≤ j → j ≤ jhi → ¬ (k0 = k ∧ j0 = j) →
      obs (x1 k j s) = obs s)
    (H2 : ∀ k i s, klo ≤ k → k ≤ khi → ilo ≤ i → i ≤ ihi → obs (x2 k i s) = obs s)
    (H3 : ∀ j i s, jlo ≤ j → j ≤ jhi → ilo ≤ i → i ≤ ihi → obs (x3 j i s) = obs s)
    (s : σ) :
    obs (ctNest klo khi jlo jhi ilo ihi body x1 x2 x3 s) = g (obs s) := by
  unfold ctNest
  simp only []
  rw [forLoop2_frame obs jlo jhi ilo ihi x3 H3]
  apply forLoop_hit obs klo khi k0 _ g hk.1 hk.2
  · intro s
    rw [forLoop_frame obs ilo ihi (fun i s => x2 k0 i s)
      (fun i s a b => H2 k0 i s hk.1 hk.2 a b)]
    apply forLoop_hit obs jlo jhi j0 _ g hj.1 hj.2
    · intro s
      rw [Hm]
      congr 1
      apply forLoop_frame; intro i s h1 h2
      exact Hb k0 j0 i s hk.1 hk.2 hj.1 hj.2 h1 h2
    · intro j s h1 h2 hne
      rw [H1 k0 j _ hk.1 hk.2 h1 h2 (fun h => hne h.2.symm)]
      apply forLoop_frame; intro i s hi1 hi2
      exact Hb k0 j i s hk.1 hk.2 h1 h2 hi1 hi2
  · intro k s h1 h2 hne
    rw [forLoop_frame obs ilo ihi (fun i s => x2 k i s) (fun i s a b => H2 k i s h1 h2 a b)]
    apply forLoop_frame; intro j s hj1 hj2
    rw [H1 k j _ h1 h2 hj1 hj2 (fun h => hne h.1.symm)]
    apply forLoop_frame; intro i s hi1 hi2
    exact Hb k j i s h1 h2 hj1 hj2 hi1 hi2

/-- Only the trailing loop statement `x2` at `(k0, i0)` acts on the observation. -/
theorem ctNest_x2 (k0 i0 : Int) (g : β → β)
    (hk : klo ≤ k0 ∧ k0 ≤ khi) (hi : ilo ≤ i0 ∧ i0 ≤ ihi)
    (Hm : ∀ s, obs (x2 k0 i0 s) = g (obs s))
    (Hb : ∀ k j i s, klo ≤ k → k ≤ khi → jlo ≤ j → j ≤ jhi → ilo ≤ i → i ≤ ihi →
      obs (body k j i s) = obs s)
    (H1 : ∀ k j s, klo ≤ k → k ≤ khi → jlo ≤ j → j ≤ jhi → obs (x1 k j s) = obs s)
    (H2 : ∀ k i s, klo ≤ k → k ≤ khi → ilo ≤ i → i ≤ ihi → ¬ (k0 = k ∧ i0 = i) →
      obs (x2 k i s) = obs s)
    (H3 : ∀ j i s, jlo ≤ j → j ≤ jhi → ilo ≤ i → i ≤ ihi → obs (x3 j i s) = obs s)
    (s : σ) :
    obs (ctNest klo khi jlo jhi ilo ihi body x1 x2 x3 s) = g (obs s) := by
  have Hjnest : ∀ k s, klo ≤ k → k ≤ khi →
      obs (forLoop jlo jhi (fun j s => x1 k j (forLoop ilo ihi (fun i s => body k j i s) s)) s)
        = obs s := by
    intro k s h1 h2
    apply forLoop_frame; intro j s hj1 hj2
    rw [H1 k j _ h1 h2 hj1 hj2]
    apply forLoop_frame; intro i s hi1 hi2
    exact Hb k j i s h1 h2 hj1 hj2 hi1 hi2
  unfold ctNest
  simp only []
  rw [forLoop2_frame obs jlo jhi ilo ihi x3 H3]
  apply forLoop_hit obs klo khi k0 _ g hk.1 hk.2
  · intro s
    rw [forLoop_hit obs ilo ihi i0 (fun i s => x2 k0 i s) g hi.1 hi.2 Hm
      (fun i s a b hne => H2 k0 i s hk.1 hk.2 a b (fun h => hne h.2.symm))]
    rw [Hjnest k0 s hk.1 hk.2]
  · intro k s h1 h2 hne
    rw [forLoop_frame obs ilo ihi (fun i s => x2 k i s)
      (fun i s a b => H2 k i s h1 h2 a b (fun h => hne h.1.symm))]
    exact Hjnest k s h1 h2

/-- Only the final nest statement `x3` at `(j0, i0)` acts on the observation. -/
theorem ctNest_x3 (j0 i0 : Int) (g : β → β)
    (hj : jlo ≤ j0 ∧ j0 ≤ jhi) (hi : ilo ≤ i0 ∧ i0 ≤ ihi)
    (Hm : ∀ s, obs (x3 j0 i0 s) = g (obs s))
    (Hb : ∀ k j i s, klo ≤ k → k ≤ khi → jlo ≤ j → j ≤ jhi → ilo ≤ i → i ≤ ihi →
      obs (body k j i s) = obs s)
    (H1 : ∀ k j s, klo ≤ k → k ≤ khi → jlo ≤ j → j ≤ jhi → obs (x1 k j s) = obs s)
    (H2 : ∀ k i s, klo ≤ k → k ≤ khi → ilo ≤ i → i ≤ ihi → obs (x2 k i s) = obs s)
    (H3 : ∀ j i s, jlo ≤ j → j ≤ jhi → ilo ≤ i → i ≤ ihi → ¬ (j0 = j ∧ i0 = i) →
      obs (x3 j i s) = obs s)
    (s : σ) :
    obs (ctNest klo khi jlo jhi ilo ihi body x1 x2 x3 s) = g (obs s) := by
  unfold ctNest
  simp only []
  rw [forLoop2_hit obs jlo jhi ilo ihi j0 i0 x3 g hj hi Hm H3]
  congr 1
  apply forLoop_frame; intro k s hk1 hk2
  rw [forLoop_frame obs ilo ihi (fun i s => x2 k i s) (fun i s a b => H2 k i s hk1 hk2 a b)]
  apply forLoop_frame; intro j s hj1 hj2
  rw [H1 k j _ hk1 hk2 hj1 hj2]
  apply forLoop_frame; intro i s hi1 hi2
  exact Hb k j i s hk1 hk2 hj1 hj2 hi1 hi2

end ctNest

/-! ## Step 11c: constrained transport for a full step -/

theorem step11c_eq (l : Locals) (s : State) :
    step11c l s = ctNest (l.kb + 1) (l.kt - 1) (l.jb + 1) (l.jt - 1) (l.ib + 1) (l.it - 1)
      (ct11c l) (ct11c_x1 l) (ct11c_x2 l) (ct11c_x3 l) s := rfl

/-- Step 11c adds the curl of the corner EMFs to `pG->B1i` on its update range. -/
theorem step11c_B1i (l : Locals) (s : State) (k0 j0 i0 : Int)
    (hk : l.kb + 1 ≤ k0 ∧ k0 ≤ l.kt - 1) (hj : l.jb + 1 ≤ j0 ∧ j0 ≤ l.jt - 1)
    (hi : l.ib + 1 ≤ i0 ∧ i0 ≤ l.it) :
    (step11c l s).pG.B1i k0 j0 i0 = s.pG.B1i k0 j0 i0 +
      (l.dtodx3 * (s.emf2 (k0 + 1) j0 i0 - s.emf2 k0 j0 i0) -
       l.dtodx2 * (s.emf3 k0 (j0 + 1) i0 - s.emf3 k0 j0 i0)) := by
  let obs : State → Arr3 ℚ × Arr3 ℚ × ℚ := fun s => (s.emf2, s.emf3, s.pG.B1i k0 j0 i0)
  let g : Arr3 ℚ × Arr3 ℚ × ℚ → Arr3 ℚ × Arr3 ℚ × ℚ := fun v =>
    (v.1, v.2.1, v.2.2 + (l.dtodx3 * (v.1 (k0 + 1) j0 i0 - v.1 k0 j0 i0) -
       l.dtodx2 * (v.2.1 k0 (j0 + 1) i0 - v.2.1 k0 j0 i0)))
  have key : obs (step11c l s) = g (obs s) := by
    rw [step11c_eq]
    by_cases hit : i0 = l.it
    · subst hit
      apply ctNest_x1 obs _ _ _ _ _ _ _ _ _ _ k0 j0 g hk hj
      · intro s; simp [obs, g, ct11c_x1, setB1i, set3]
      · intro k j i s _ _ _ _ _ hi2
        have : ¬ l.it = i := by omega
        simp [obs, ct11c, setB1i, setB2i, setB3i, set3, this]
      · intro k j s _ _ _ _ hne
        simp [obs, ct11c_x1, setB1i, set3, hne]
      · intro k i s _ _ _ _; rfl
      · intro j i s _ _ _ _; rfl
    · apply ctNest_body obs _ _ _ _ _ _ _ _ _ _ k0 j0 i0 g hk hj ⟨hi.1, by omega⟩
      · intro s; simp [obs, g, ct11c, setB1i, setB2i, setB3i, set3]
      · intro k j i s _ _ _ _ _ _ hne
        simp [obs, ct11c, setB1i, setB2i, setB3i, set3, hne]
      · intro k j s _ _ _ _
        simp [obs, ct11c_x1, setB1i, set3, hit]
      · intro k i s _ _ _ _; rfl
      · intro j i s _ _ _ _; rfl
  exact congrArg (fun v => v.2.2) key

/-- A double loop nest whose iterations preserve a property preserves it. -/
theorem forLoop2_inv {σ : Type} (P : σ → Prop) (jlo jhi ilo ihi : Int)
    (body : Int → Int → σ → σ) (H : ∀ j i s, P s → P (body j i s)) (s : σ) (hs : P s) :
    P (forLoop jlo jhi (fun j s => forLoop ilo ihi (fun i s => body j i s) s) s) := by
  refine forLoop_inv P _ _ _ ?_ s hs
  intro j s _ _ h
  refine forLoop_inv P _ _ _ ?_ s h
  intro i s _ _ h
  exact H j i s h

/-- A triple loop nest whose iterations preserve a property preserves it. -/
theorem forLoop3_inv {σ : Type} (P : σ → Prop) (klo khi jlo jhi ilo ihi : Int)
    (body : Int → Int → Int → σ → σ) (H : ∀ k j i s, P s → P (body k j i s))
    (s : σ) (hs : P s) :
    P (forLoop klo khi (fun k s => forLoop jlo jhi (fun j s =>
      forLoop ilo ihi (fun i s => body k j i s) s) s) s) := by
  refine forLoop_inv P _ _ _ ?_ s hs
  intro k s _ _ h
  exact forLoop2_inv P _ _ _ _ (body k) (H k) s h

/-- The constrained-transport nest preserves a property all its statements preserve. -/
theorem ctNest_inv {σ : Type} (P : σ → Prop) (klo khi jlo jhi ilo ihi : Int)
    (body : Int → Int → Int → σ → σ) (x1 x2 x3 : Int → Int → σ → σ)
    (Hb : ∀ k j i s, P s → P (body k j i s)) (H1 : ∀ k j s, P s → P (x1 k j s))
    (H2 : ∀ k i s, P s → P (x2 k i s)) (H3 : ∀ j i s, P s → P (x3 j i s))
    (s : σ) (hs : P s) :
    P (ctNest klo khi jlo jhi ilo ihi body x1 x2 x3 s) := by
  unfold ctNest
  simp only []
  refine forLoop2_inv P _ _ _ _ x3 H3 _ ?_
  refine forLoop_inv P _ _ _ ?_ s hs
  intro k s _ _ h
  refine forLoop_inv P _ _ _ (fun i s _ _ h => H2 k i s h) _ ?_
  refine forLoop_inv P _ _ _ ?_ s h
  intro j s _ _ h
  apply H1
  exact forLoop_inv P _ _ _ (fun i s _ _ h => Hb k j i s h) s h

/-- Step 11c adds the curl of the corner EMFs to `pG->B2i` on its update range. -/
theorem step11c_B2i (l : Locals) (s : State) (k0 j0 i0 : Int)
    (hk : l.kb + 1 ≤ k0 ∧ k0 ≤ l.kt - 1) (hj : l.jb + 1 ≤ j0 ∧ j0 ≤ l.jt)
    (hi : l.ib + 1 ≤ i0 ∧ i0 ≤ l.it - 1) :
    (step11c l s).pG.B2i k0 j0 i0 = s.pG.B2i k0 j0 i0 +
      (l.dtodx1 * (s.emf3 k0 j0 (i0 + 1) - s.emf3 k0 j0 i0) -
       l.dtodx3 * (s.emf1 (k0 + 1) j0 i0 - s.emf1 k0 j0 i0)) := by
  let obs : State → Arr3 ℚ × Arr3 ℚ × ℚ := fun s => (s.emf3, s.emf1, s.pG.B2i k0 j0 i0)
  let g : Arr3 ℚ × Arr3 ℚ × ℚ → Arr3 ℚ × Arr3 ℚ × ℚ := fun v =>
    (v.1, v.2.1, v.2.2 + (l.dtodx1 * (v.1 k0 j0 (i0 + 1) - v.1 k0 j0 i0) -
       l.dtodx3 * (v.2.1 (k0 + 1) j0 i0 - v.2.1 k0 j0 i0)))
  have key : obs (step11c l s) = g (obs s) := by
    rw [step11c_eq]
    by_cases hjt : j0 = l.jt
    · subst hjt
      apply ctNest_x2 obs _ _ _ _ _ _ _ _ _ _ k0 i0 g hk hi
      · intro s; simp [obs, g, ct11c_x2, setB2i, set3]
      · intro k j i s _ _ _ hj2 _ _
        have : ¬ l.jt = j := by omega
        simp [obs, ct11c, setB1i, setB2i, setB3i, set3, this]
      · intro k j s _ _ _ _; rfl
      · intro k i s _ _ _ _ hne
        simp [obs, ct11c_x2, setB2i, set3, hne]
      · intro j i s _ _ _ _; rfl
    · apply ctNest_body obs _ _ _ _ _ _ _ _ _ _ k0 j0 i0 g hk ⟨hj.1, by omega⟩ hi
      · intro s; simp [obs, g, ct11c, setB1i, setB2i, setB3i, set3]
      · intro k j i s _ _ _ _ _ _ hne
        simp [obs, ct11c, setB1i, setB2i, setB3i, set3, hne]
      · intro k j s _ _ _ _; rfl
      · intro k i s _ _ _ _
        simp [obs, ct11c_x2, setB2i, set3, hjt]
      · intro j i s _ _ _ _; rfl
  exact congrArg (fun v => v.2.2) key

/-- Step 11c adds the curl of the corner EMFs to `pG->B3i` on its update range. -/
theorem step11c_B3i (l : Locals) (s : State) (k0 j0 i0 : Int)
    (hk : l.kb + 1 ≤ k0 ∧ k0 ≤ l.kt) (hj : l.jb + 1 ≤ j0 ∧ j0 ≤ l.jt - 1)
    (hi : l.ib + 1 ≤ i0 ∧ i0 ≤ l.it - 1) :
    (step11c l s).pG.B3i k0 j0 i0 = s.pG.B3i k0 j0 i0 +
      (l.dtodx2 * (s.emf1 k0 (j0 + 1) i0 - s.emf1 k0 j0 i0) -
       l.dtodx1 * (s.emf2 k0 j0 (i0 + 1) - s.emf2 k0 j0 i0)) := by
  let obs : State → Arr3 ℚ × Arr3 ℚ × ℚ := fun s => (s.emf1, s.emf2, s.pG.B3i k0 j0 i0)
  let g : Arr3 ℚ × Arr3 ℚ × ℚ → Arr3 ℚ × Arr3 ℚ × ℚ := fun v =>
    (v.1, v.2.1, v.2.2 + (l.dtodx2 * (v.1 k0 (j0 + 1) i0 - v.1 k0 j0 i0) -
       l.dtodx1 * (v.2.1 k0 j0 (i0 + 1) - v.2.1 k0 j0 i0)))
  have key : obs (step11c l s) = g (obs s) := by
    rw [step11c_eq]
    by_cases hkt : k0 = l.kt
    · subst hkt
      apply ctNest_x3 obs _ _ _ _ _ _ _ _ _ _ j0 i0 g hj hi
      · intro s; simp [obs, g, ct11c_x3, setB3i, set3]
      · intro k j i s _ hk2 _ _ _ _
        have : ¬ l.kt = k := by omega
        simp [obs, ct11c, setB1i, setB2i, setB3i, set3, this]
      · intro k j s _ _ _ _; rfl
      · intro k i s _ _ _ _; rfl
      · intro j i s _ _ _ _ hne
        simp [obs, ct11c_x3, setB3i, set3, hne]
    · apply ctNest_body obs _ _ _ _ _ _ _ _ _ _ k0 j0 i0 g ⟨hk.1, by omega⟩ hj hi
      · intro s; simp [obs, g, ct11c, setB1i, setB2i, setB3i, set3]
      · intro k j i s _ _ _ _ _ _ hne
        simp [obs, ct11c, setB1i, setB2i, setB3i, set3, hne]
      · intro k j s _ _ _ _; rfl
      · intro k i s _ _ _ _; rfl
      · intro j i s _ _ _ _
        simp [obs, ct11c_x3, setB3i, set3, hkt]
  exact congrArg (fun v => v.2.2) key

/-- Step 11c leaves `pG->B1i` alone outside its update range. -/
theorem step11c_B1i_out (l : Locals) (s : State) (k0 j0 i0 : Int) (hne : l.ib + 1 ≤ l.it)
    (h : ¬ (l.kb + 1 ≤ k0 ∧ k0 ≤ l.kt - 1 ∧ l.jb + 1 ≤ j0 ∧ j0 ≤ l.jt - 1 ∧
      l.ib + 1 ≤ i0 ∧ i0 ≤ l.it)) :
    (step11c l s).pG.B1i k0 j0 i0 = s.pG.B1i k0 j0 i0 := by
  rw [step11c_eq]
  refine ctNest_frame (fun s => s.pG.B1i k0 j0 i0) _ _ _ _ _ _ _ _ _ _ ?_ ?_ ?_ ?_ s
  · intro k j i s _ _ _ _ _ _
    have : ¬ (k0 = k ∧ j0 = j ∧ i0 = i) := by omega
    simp [ct11c, setB1i, setB2i, setB3i, set3, this]
  · intro k j s _ _ _ _
    have : ¬ (k0 = k ∧ j0 = j ∧ i0 = l.it) := by omega
    simp [ct11c_x1, setB1i, set3, this]
  · intro k i s _ _ _ _; rfl
  · intro j i s _ _ _ _; rfl

/-- Step 11c leaves `pG->B2i` alone outside its update range. -/
theorem step11c_B2i_out (l : Locals) (s : State) (k0 j0 i0 : Int) (hne : l.jb + 1 ≤ l.jt)
    (h : ¬ (l.kb + 1 ≤ k0 ∧ k0 ≤ l.kt - 1 ∧ l.jb + 1 ≤ j0 ∧ j0 ≤ l.jt ∧
      l.ib + 1 ≤ i0 ∧ i0 ≤ l.it - 1)) :
    (step11c l s).pG.B2i k0 j0 i0 = s.pG.B2i k0 j0 i0 := by
  rw [step11c_eq]
  refine ctNest_frame (fun s => s.pG.B2i k0 j0 i0) _ _ _ _ _ _ _ _ _ _ ?_ ?_ ?_ ?_ s
  · intro k j i s _ _ _ _ _ _
    have : ¬ (k0 = k ∧ j0 = j ∧ i0 = i) := by omega
    simp [ct11c, setB1i, setB2i, setB3i, set3, this]
  · intro k j s _ _ _ _; rfl
  · intro k i s _ _ _ _
    have : ¬ (k0 = k ∧ j0 = l.jt ∧ i0 = i) := by omega
    simp [ct11c_x2, setB2i, set3, this]
  · intro j i s _ _ _ _; rfl

/-- Step 11c leaves `pG->B3i` alone outside its update range. -/
theorem step11c_B3i_out (l : Locals) (s : State) (k0 j0 i0 : Int) (hne : l.kb + 1 ≤ l.kt)
    (h : ¬ (l.kb + 1 ≤ k0 ∧ k0 ≤ l.kt ∧ l.jb + 1 ≤ j0 ∧ j0 ≤ l.jt - 1 ∧
      l.ib + 1 ≤ i0 ∧ i0 ≤ l.it - 1)) :
    (step11c l s).pG.B3i k0 j0 i0 = s.pG.B3i k0 j0 i0 := by
  rw [step11c_eq]
  refine ctNest_frame (fun s => s.pG.B3i k0 j0 i0) _ _ _ _ _ _ _ _ _ _ ?_ ?_ ?_ ?_ s
  · intro k j i s _ _ _ _ _ _
    have : ¬ (k0 = k ∧ j0 = j ∧ i0 = i) := by omega
    simp [ct11c, setB1i, setB2i, setB3i, set3, this]
  · intro k j s _ _ _ _; rfl
  · intro k i s _ _ _ _; rfl
  · intro j i s _ _ _ _
    have : ¬ (k0 = l.kt ∧ j0 = j ∧ i0 = i) := by omega
    simp [ct11c_x3, setB3i, set3, this]

/-- Step 11c writes nothing but `pG->B1i`, `pG->B2i` and `pG->B3i`. -/
theorem step11c_frame (l : Locals) (s : State) :
    ∃ b1 b2 b3, step11c l s = { s with pG := { s.pG with B1i := b1, B2i := b2, B3i := b3 } } := by
  rw [step11c_eq]
  refine ctNest_inv (fun t => ∃ b1 b2 b3,
    t = { s with pG := { s.pG with B1i := b1, B2i := b2, B3i := b3 } })
    _ _ _ _ _ _ _ _ _ _ ?_ ?_ ?_ ?_ s ⟨_, _, _, rfl⟩
  · rintro k j i t ⟨b1, b2, b3, rfl⟩; exact ⟨_, _, _, rfl⟩
  · rintro k j t ⟨b1, b2, b3, rfl⟩; exact ⟨_, _, _, rfl⟩
  · rintro k i t ⟨b1, b2, b3, rfl⟩; exact ⟨_, _, _, rfl⟩
  · rintro j i t ⟨b1, b2, b3, rfl⟩; exact ⟨_, _, _, rfl⟩

/-! ## C1: the full-step constrained transport preserves the discrete divergence -/

/-- C1: the full-step constrained transport of Step 11c preserves the discrete
divergence. In exact arithmetic, for arbitrary corner EMFs and time step and
non-zero cell sizes, the divergence
`(B1i[k][j][i+1]-B1i[k][j][i])/dx1 + (B2i[k][j+1][i]-B2i[k][j][i])/dx2 +
(B3i[k+1][j][i]-B3i[k][j][i])/dx3` of every cell with `ib+1 ≤ i ≤ it-1`,
`jb+1 ≤ j ≤ jt-1`, `kb+1 ≤ k ≤ kt-1` is the same after Step 11c as before it. -/
theorem C1_step11c_preserves_divB (c : Config) (s : State) (k j i : Int)
    (hx1 : s.pG.dx1 ≠ 0) (hx2 : s.pG.dx2 ≠ 0) (hx3 : s.pG.dx3 ≠ 0)
    (hk : (locals c s.pG).kb + 1 ≤ k ∧ k ≤ (locals c s.pG).kt - 1)
    (hj : (locals c s.pG).jb + 1 ≤ j ∧ j ≤ (locals c s.pG).jt - 1)
    (hi : (locals c s.pG).ib + 1 ≤ i ∧ i ≤ (locals c s.pG).it - 1) :
    divB (step11c (locals c s.pG) s).pG k j i = divB s.pG k j i := by
  have hd1 : (step11c (locals c s.pG) s).pG.dx1 = s.pG.dx1 := by
    obtain ⟨b1, b2, b3, h⟩ := step11c_frame (locals c s.pG) s; rw [h]
  have hd2 : (step11c (locals c s.pG) s).pG.dx2 = s.pG.dx2 := by
    obtain ⟨b1, b2, b3, h⟩ := step11c_frame (locals c s.pG) s; rw [h]
  have hd3 : (step11c (locals c s.pG) s).pG.dx3 = s.pG.dx3 := by
    obtain ⟨b1, b2, b3, h⟩ := step11c_frame (locals c s.pG) s; rw [h]
  unfold divB
  rw [hd1, hd2, hd3,
    step11c_B1i _ s k j (i + 1) hk hj ⟨by omega, by omega⟩,
    step11c_B1i _ s k j i hk hj ⟨hi.1, by omega⟩,
    step11c_B2i _ s k (j + 1) i hk ⟨by omega, by omega⟩ hi,
    step11c_B2i _ s k j i hk ⟨hj.1, by omega⟩ hi,
    step11c_B3i _ s (k + 1) j i ⟨by omega, by omega⟩ hj hi,
    step11c_B3i _ s k j i ⟨hk.1, by omega⟩ hj hi]
  simp only [locals]
  field_simp
  ring

/-- C1 at the cell `(0, 0, 0)` of the concrete state `demoState`. -/
theorem C1_witness :
    divB (step11c (locals demoConfig demoState.pG) demoState).pG 0 0 0
      = divB demoState.pG 0 0 0 :=
  C1_step11c_preserves_divB demoConfig demoState 0 0 0
    (by simp [demoState, demoGrid]) (by simp [demoState, demoGrid])
    (by simp [demoState, demoGrid])
    (by decide) (by decide) (by decide)

/-! ## Cell-by-cell updates of one array -/

/-- A cell-by-cell update whose right-hand side reads the updated array only at the
cell being written leaves the closed form `cellMap` behind. -/
theorem cellNest_eq {α : Type} (L : Lens α) (klo khi jlo jhi ilo ihi : Int)
    (f : Int → Int → Int → State → α → α)
    (hf : ∀ k j i s a u, f k j i (L.set s a) u = f k j i s u) (s : State) :
    cellNest L klo khi jlo jhi ilo ihi f s =
      L.set s (cellMap klo khi jlo jhi ilo ihi (fun k j i => f k j i s) (L.get s)) := by
  have hframe : ∃ a, cellNest L klo khi jlo jhi ilo ihi f s = L.set s a := by
    unfold cellNest
    refine forLoop3_inv (fun t => ∃ a, t = L.set s a) _ _ _ _ _ _ _ ?_ s
      ⟨L.get s, (L.set_get s).symm⟩
    rintro k j i t ⟨a, rfl⟩
    exact ⟨_, L.set_set s a _⟩
  obtain ⟨a, ha⟩ := hframe
  have hget : L.get (cellNest L klo khi jlo jhi ilo ihi f s) = a := by
    rw [ha, L.get_set]
  rw [ha]
  congr 1
  rw [← hget]
  funext k0 j0 i0
  let obs : State → State × α := fun t => (L.set t (L.get s), L.get t k0 j0 i0)
  have hbody : ∀ k j i t, ¬ (k0 = k ∧ j0 = j ∧ i0 = i) →
      obs (L.set t (set3 (L.get t) k j i (f k j i t (L.get t k j i)))) = obs t := by
    intro k j i t hne
    simp only [obs, L.set_set, L.get_set, set3, hne, if_false]
  unfold cellMap
  by_cases hin : klo ≤ k0 ∧ k0 ≤ khi ∧ jlo ≤ j0 ∧ j0 ≤ jhi ∧ ilo ≤ i0 ∧ i0 ≤ ihi
  · rw [if_pos hin]
    let g : State × α → State × α := fun v => (v.1, f k0 j0 i0 v.1 v.2)
    have key : obs (cellNest L klo khi jlo jhi ilo ihi f s) = g (obs s) := by
      unfold cellNest
      refine forLoop3_hit obs _ _ _ _ _ _ k0 j0 i0
        (fun k j i s => L.set s (set3 (L.get s) k j i (f k j i s (L.get s k j i)))) g
        ⟨hin.1, hin.2.1⟩
        ⟨hin.2.2.1, hin.2.2.2.1⟩ ⟨hin.2.2.2.2.1, hin.2.2.2.2.2⟩ ?_ ?_ s
      · intro t
        simp only [obs, g, L.set_set, L.get_set, set3, and_self, if_true, hf]
      · intro k j i t _ _ _ _ _ _ hne
        exact hbody k j i t hne
    have := congrArg Prod.snd key
    simp only [obs, g, hf] at this
    exact this
  · rw [if_neg hin]
    have key : obs (cellNest L klo khi jlo jhi ilo ihi f s) = obs s := by
      unfold cellNest
      refine forLoop3_frame obs _ _ _ _ _ _
        (fun k j i s => L.set s (set3 (L.get s) k j i (f k j i s (L.get s k j i)))) ?_ s
      intro k j i t h1 h2 h3 h4 h5 h6
      exact hbody k j i t (fun h => hin (by rw [h.1, h.2.1, h.2.2]; exact ⟨h1, h2, h3, h4, h5, h6⟩))
    exact congrArg Prod.snd key

/-! ## Step 13: the full-step update of the cell-centred state -/

theorem step13a_eq (l : Locals) (s : State) :
    step13a l s = lensU.set s (cellMap (l.kb + 1) (l.kt - 1) (l.jb + 1) (l.jt - 1)
      (l.ib + 1) (l.it - 1) (flux1Update l.dtodx1 s.x1Flux) s.pG.U) :=
  cellNest_eq lensU _ _ _ _ _ _ (fun k j i s u => flux1Update l.dtodx1 s.x1Flux k j i u)
    (fun _ _ _ _ _ _ => rfl) s

theorem step13b_eq (l : Locals) (s : State) :
    step13b l s = lensU.set s (cellMap (l.kb + 1) (l.kt - 1) (l.jb + 1) (l.jt - 1)
      (l.ib + 1) (l.it - 1) (flux2Update l.dtodx2 s.x2Flux) s.pG.U) :=
  cellNest_eq lensU _ _ _ _ _ _ (fun k j i s u => flux2Update l.dtodx2 s.x2Flux k j i u)
    (fun _ _ _ _ _ _ => rfl) s

theorem step13c_eq (l : Locals) (s : State) :
    step13c l s = lensU.set s (cellMap (l.kb + 1) (l.kt - 1) (l.jb + 1) (l.jt - 1)
      (l.ib + 1) (l.it - 1) (flux3Update l.dtodx3 s.x3Flux) s.pG.U) :=
  cellNest_eq lensU _ _ _ _ _ _ (fun k j i s u => flux3Update l.dtodx3 s.x3Flux k j i u)
    (fun _ _ _ _ _ _ => rfl) s

/-- Step 13 in closed form: only `pG->U` changes, cell by cell. -/
theorem step13_eq (l : Locals) (s : State) :
    step13 l s = lensU.set s (fun k j i =>
      if l.kb + 1 ≤ k ∧ k ≤ l.kt - 1 ∧ l.jb + 1 ≤ j ∧ j ≤ l.jt - 1 ∧
          l.ib + 1 ≤ i ∧ i ≤ l.it - 1 then
        flux3Update l.dtodx3 s.x3Flux k j i (flux2Update l.dtodx2 s.x2Flux k j i
          (flux1Update l.dtodx1 s.x1Flux k j i (s.pG.U k j i)))
      else s.pG.U k j i) := by
  unfold step13
  rw [step13a_eq, step13b_eq, step13c_eq]
  simp only [lensU]
  congr 2
  funext k j i
  by_cases h : l.kb + 1 ≤ k ∧ k ≤ l.kt - 1 ∧ l.jb + 1 ≤ j ∧ j ≤ l.jt - 1 ∧
      l.ib + 1 ≤ i ∧ i ≤ l.it - 1
  · simp only [cellMap, h, and_self, if_true]
  · simp only [cellMap, h, if_false]

/-! ## Sums over index boxes -/

theorem Icc_succ_right (a m : Int) (h : a ≤ m) :
    Finset.Icc a m = insert m (Finset.Icc a (m - 1)) := by
  ext x
  simp only [Finset.mem_Icc, Finset.mem_insert]
  omega

/-- A sum of consecutive differences over `[a..b]` telescopes. -/
theorem sum_Icc_telescope (f : Int → ℚ) (a b : Int) (h : a ≤ b + 1) :
    ∑ i in Finset.Icc a b, (f (i + 1) - f i) = f (b + 1) - f a := by
  have key : ∀ m : Int, a ≤ m →
      ∑ i in Finset.Icc a (m - 1), (f (i + 1) - f i) = f m - f a := by
    refine Int.le_induction ?_ ?_
    · have : Finset.Icc a (a - 1) = ∅ := by
        ext x; simp only [Finset.mem_Icc, Finset.not_mem_empty, iff_false]; omega
      rw [this]; simp
    · intro m hm ih
      have e : m + 1 - 1 = m := by ring
      rw [e, Icc_succ_right a m hm, Finset.sum_insert, ih]
      · ring
      · simp only [Finset.mem_Icc, not_and]; omega
  have := key (b + 1) h
  simpa using this

/-- The box sum of an x1-difference is the sum over the two end faces. -/
theorem boxSum_diff1 (a1 b1 a2 b2 a3 b3 : Int) (G : Int → Int → Int → ℚ) (h : a1 ≤ b1 + 1) :
    boxSum a1 b1 a2 b2 a3 b3 (fun k j i => G k j (i + 1) - G k j i) =
      faceSum a2 b2 a3 b3 (fun k j => G k j (b1 + 1) - G k j a1) := by
  unfold boxSum faceSum
  refine Finset.sum_congr rfl (fun k _ => Finset.sum_congr rfl (fun j _ => ?_))
  exact sum_Icc_telescope (fun i => G k j i) a1 b1 h

/-- The box sum of an x2-difference is the sum over the two end faces. -/
theorem boxSum_diff2 (a1 b1 a2 b2 a3 b3 : Int) (G : Int → Int → Int → ℚ) (h : a2 ≤ b2 + 1) :
    boxSum a1 b1 a2 b2 a3 b3 (fun k j i => G k (j + 1) i - G k j i) =
      faceSum a1 b1 a3 b3 (fun k i => G k (b2 + 1) i - G k a2 i) := by
  unfold boxSum faceSum
  refine Finset.sum_congr rfl (fun k _ => ?_)
  rw [Finset.sum_comm]
  refine Finset.sum_congr rfl (fun i _ => ?_)
  exact sum_Icc_telescope (fun j => G k j i) a2 b2 h

/-- The box sum of an x3-difference is the sum over the two end faces. -/
theorem boxSum_diff3 (a1 b1 a2 b2 a3 b3 : Int) (G : Int → Int → Int → ℚ) (h : a3 ≤ b3 + 1) :
    boxSum a1 b1 a2 b2 a3 b3 (fun k j i => G (k + 1) j i - G k j i) =
      faceSum a1 b1 a2 b2 (fun j i => G (b3 + 1) j i - G a3 j i) := by
  unfold boxSum faceSum
  rw [Finset.sum_comm]
  refine Finset.sum_congr rfl (fun j _ => ?_)
  rw [Finset.sum_comm]
  refine Finset.sum_congr rfl (fun i _ => ?_)
  exact sum_Icc_telescope (fun k => G k j i) a3 b3 h

theorem boxSum_congr (a1 b1 a2 b2 a3 b3 : Int) (f g : Int → Int → Int → ℚ)
    (h : ∀ k j i, a3 ≤ k → k ≤ b3 → a2 ≤ j → j ≤ b2 → a1 ≤ i → i ≤ b1 → f k j i = g k j i) :
    boxSum a1 b1 a2 b2 a3 b3 f = boxSum a1 b1 a2 b2 a3 b3 g := by
  unfold boxSum
  refine Finset.sum_congr rfl (fun k hk => Finset.sum_congr rfl (fun j hj =>
    Finset.sum_congr rfl (fun i hi => ?_)))
  rw [Finset.mem_Icc] at hk hj hi
  exact h k j i hk.1 hk.2 hj.1 hj.2 hi.1 hi.2

theorem boxSum_sub (a1 b1 a2 b2 a3 b3 : Int) (f g : Int → Int → Int → ℚ) :
    boxSum a1 b1 a2 b2 a3 b3 (fun k j i => f k j i - g k j i) =
      boxSum a1 b1 a2 b2 a3 b3 f - boxSum a1 b1 a2 b2 a3 b3 g := by
  unfold boxSum
  simp only [Finset.sum_sub_distrib]

theorem boxSum_mul (a1 b1 a2 b2 a3 b3 : Int) (r : ℚ) (f : Int → Int → Int → ℚ) :
    boxSum a1 b1 a2 b2 a3 b3 (fun k j i => r * f k j i) =
      r * boxSum a1 b1 a2 b2 a3 b3 f := by
  unfold boxSum
  simp only [Finset.mul_sum]

theorem faceSum_zero (a b a' b' : Int) (f : Int → Int → ℚ)
    (h : ∀ m n, a' ≤ m → m ≤ b' → a ≤ n → n ≤ b → f m n = 0) : faceSum a b a' b' f = 0 := by
  unfold faceSum
  refine Finset.sum_eq_zero (fun m hm => Finset.sum_eq_zero (fun n hn => ?_))
  rw [Finset.mem_Icc] at hm hn
  exact h m n hm.1 hm.2 hn.1 hn.2

/-- The three flux updates applied in turn, one conserved variable at a time. -/
theorem consVar_fluxUpdate (v : ConsVar) (r1 r2 r3 : ℚ) (F1 F2 F3 : Arr3 Cons1D)
    (k j i : Int) (u : Gas) :
    v.cell (flux3Update r3 F3 k j i (flux2Update r2 F2 k j i (flux1Update r1 F1 k j i u))) =
      v.cell u - r1 * (v.flux1 (F1 k j (i + 1)) - v.flux1 (F1 k j i))
        - r2 * (v.flux2 (F2 k (j + 1) i) - v.flux2 (F2 k j i))
        - r3 * (v.flux3 (F3 (k + 1) j i) - v.flux3 (F3 k j i)) := by
  cases v <;> rfl

/-! ## C2: the full-step update is conservative -/

theorem step12a_none (c : Config) (l : Locals) (s : State) (h : c.StaticGravPot = none) :
    step12a c l s = s := by
  unfold step12a; rw [h]

theorem step12b_off (c : Config) (l : Locals) (s : State) (h : c.SELF_GRAVITY = false) :
    step12b c l s = s := by
  unfold step12b; rw [h]; rfl

/-- C2: the full-step cell update is conservative. With no gravity source active,
for arbitrary flux arrays and any index box `[a1..b1] x [a2..b2] x [a3..b3]` inside
the updated range, the sum over the box of each of `d`, `M1`, `M2`, `M3`, `E` after
Step 13 is the sum before minus `dt/dx1` times the sum over `(j, k)` of the x1-flux
at face `b1+1` minus that at face `a1`, minus the analogous x2 and x3 terms; hence
the sum is unchanged when the fluxes on opposite boundary faces are equal. -/
theorem C2_full_step_conservative (c : Config) (s : State) (v : ConsVar)
    (a1 b1 a2 b2 a3 b3 : Int)
    (hg : c.StaticGravPot = none) (hsg : c.SELF_GRAVITY = false)
    (h1 : (locals c s.pG).ib + 1 ≤ a1 ∧ a1 ≤ b1 ∧ b1 ≤ (locals c s.pG).it - 1)
    (h2 : (locals c s.pG).jb + 1 ≤ a2 ∧ a2 ≤ b2 ∧ b2 ≤ (locals c s.pG).jt - 1)
    (h3 : (locals c s.pG).kb + 1 ≤ a3 ∧ a3 ≤ b3 ∧ b3 ≤ (locals c s.pG).kt - 1) :
    (boxSum a1 b1 a2 b2 a3 b3
        (fun k j i => v.cell ((step12_13 c (locals c s.pG) s).pG.U k j i)) =
      boxSum a1 b1 a2 b2 a3 b3 (fun k j i => v.cell (s.pG.U k j i))
        - s.pG.dt / s.pG.dx1 * faceSum a2 b2 a3 b3
            (fun k j => v.flux1 (s.x1Flux k j (b1 + 1)) - v.flux1 (s.x1Flux k j a1))
        - s.pG.dt / s.pG.dx2 * faceSum a1 b1 a3 b3
            (fun k i => v.flux2 (s.x2Flux k (b2 + 1) i) - v.flux2 (s.x2Flux k a2 i))
        - s.pG.dt / s.pG.dx3 * faceSum a1 b1 a2 b2
            (fun j i => v.flux3 (s.x3Flux (b3 + 1) j i) - v.flux3 (s.x3Flux a3 j i))) ∧
    ((∀ k j, a3 ≤ k → k ≤ b3 → a2 ≤ j → j ≤ b2 →
        v.flux1 (s.x1Flux k j (b1 + 1)) = v.flux1 (s.x1Flux k j a1)) →
     (∀ k i, a3 ≤ k → k ≤ b3 → a1 ≤ i → i ≤ b1 →
        v.flux2 (s.x2Flux k (b2 + 1) i) = v.flux2 (s.x2Flux k a2 i)) →
     (∀ j i, a2 ≤ j → j ≤ b2 → a1 ≤ i → i ≤ b1 →
        v.flux3 (s.x3Flux (b3 + 1) j i) = v.flux3 (s.x3Flux a3 j i)) →
     boxSum a1 b1 a2 b2 a3 b3
        (fun k j i => v.cell ((step12_13 c (locals c s.pG) s).pG.U k j i)) =
      boxSum a1 b1 a2 b2 a3 b3 (fun k j i => v.cell (s.pG.U k j i))) := by
  have main : boxSum a1 b1 a2 b2 a3 b3
        (fun k j i => v.cell ((step12_13 c (locals c s.pG) s).pG.U k j i)) =
      boxSum a1 b1 a2 b2 a3 b3 (fun k j i => v.cell (s.pG.U k j i))
        - s.pG.dt / s.pG.dx1 * faceSum a2 b2 a3 b3
            (fun k j => v.flux1 (s.x1Flux k j (b1 + 1)) - v.flux1 (s.x1Flux k j a1))
        - s.pG.dt / s.pG.dx2 * faceSum a1 b1 a3 b3
            (fun k i => v.flux2 (s.x2Flux k (b2 + 1) i) - v.flux2 (s.x2Flux k a2 i))
        - s.pG.dt / s.pG.dx3 * faceSum a1 b1 a2 b2
            (fun j i => v.flux3 (s.x3Flux (b3 + 1) j i) - v.flux3 (s.x3Flux a3 j i)) := by
    unfold step12_13
    rw [step12a_none c _ s hg, step12b_off c _ s hsg, step13_eq]
    rw [boxSum_congr a1 b1 a2 b2 a3 b3 _
      (fun k j i => v.cell (s.pG.U k j i)
        - s.pG.dt / s.pG.dx1 *
            (v.flux1 (s.x1Flux k j (i + 1)) - v.flux1 (s.x1Flux k j i))
        - s.pG.dt / s.pG.dx2 *
            (v.flux2 (s.x2Flux k (j + 1) i) - v.flux2 (s.x2Flux k j i))
        - s.pG.dt / s.pG.dx3 *
            (v.flux3 (s.x3Flux (k + 1) j i) - v.flux3 (s.x3Flux k j i)))]
    · rw [boxSum_sub, boxSum_sub, boxSum_sub, boxSum_mul, boxSum_mul, boxSum_mul,
        boxSum_diff1 a1 b1 a2 b2 a3 b3 (fun k j i => v.flux1 (s.x1Flux k j i)) (by omega),
        boxSum_diff2 a1 b1 a2 b2 a3 b3 (fun k j i => v.flux2 (s.x2Flux k j i)) (by omega),
        boxSum_diff3 a1 b1 a2 b2 a3 b3 (fun k j i => v.flux3 (s.x3Flux k j i)) (by omega)]
    · intro k j i hk1 hk2 hj1 hj2 hi1 hi2
      have hin : (locals c s.pG).kb + 1 ≤ k ∧ k ≤ (locals c s.pG).kt - 1 ∧
          (locals c s.pG).jb + 1 ≤ j ∧ j ≤ (locals c s.pG).jt - 1 ∧
          (locals c s.pG).ib + 1 ≤ i ∧ i ≤ (locals c s.pG).it - 1 := by omega
      simp only [lensU, hin, and_self, if_true]
      rw [consVar_fluxUpdate]
      rfl
  refine ⟨main, fun p1 p2 p3 => ?_⟩
  rw [main, faceSum_zero _ _ _ _ _ (fun k j a b c' d => sub_eq_zero.mpr (p1 k j a b c' d)),
    faceSum_zero _ _ _ _ _ (fun k i a b c' d => sub_eq_zero.mpr (p2 k i a b c' d)),
    faceSum_zero _ _ _ _ _ (fun j i a b c' d => sub_eq_zero.mpr (p3 j i a b c' d))]
  ring

/-- C2 for the momentum `M1` on the box `[-1..1] x [-1..0] x [0..1]` of `demoState`. -/
theorem C2_witness :
    boxSum (-1) 1 (-1) 0 0 1
        (fun k j i => ConsVar.M1.cell
          ((step12_13 demoConfig (locals demoConfig demoState.pG) demoState).pG.U k j i)) =
      boxSum (-1) 1 (-1) 0 0 1 (fun k j i => ConsVar.M1.cell (demoState.pG.U k j i))
        - demoState.pG.dt / demoState.pG.dx1 * faceSum (-1) 0 0 1
            (fun k j => ConsVar.M1.flux1 (demoState.x1Flux k j (1 + 1))
              - ConsVar.M1.flux1 (demoState.x1Flux k j (-1)))
        - demoState.pG.dt / demoState.pG.dx2 * faceSum (-1) 1 0 1
            (fun k i => ConsVar.M1.flux2 (demoState.x2Flux k (0 + 1) i)
              - ConsVar.M1.flux2 (demoState.x2Flux k (-1) i))
        - demoState.pG.dt / demoState.pG.dx3 * faceSum (-1) 1 (-1) 0
            (fun j i => ConsVar.M1.flux3 (demoState.x3Flux (1 + 1) j i)
              - ConsVar.M1.flux3 (demoState.x3Flux 0 j i)) :=
  (C2_full_step_conservative demoConfig demoState ConsVar.M1 (-1) 1 (-1) 0 0 1 rfl rfl
    (by decide) (by decide) (by decide)).1

/-! ## What each stage writes -/

/-- The copy loop in closed form. -/
theorem stepInit_eq (l : Locals) (s : State) :
    stepInit l s = lensUhalf.set { s with etah := 0 } (cellMap l.kl l.ku l.jl l.ju l.il l.iu
      (fun k j i _ => s.pG.U k j i) s.Uhalf) :=
  cellNest_eq lensUhalf _ _ _ _ _ _ (fun k j i s _ => s.pG.U k j i)
    (fun _ _ _ _ _ _ => rfl) { s with etah := 0 }

/-- Step 1 writes the line buffers `Ul`, `Ur`, `Wl`, `Wr`, `B1_x1Face` and `x1Flux`. -/
theorem step1_writes (c : Config) (l : Locals) (s : State) :
    ∃ a1 a2 a3 a4 a5 a6, step1 c l s =
      { s with Ul := a1, Ur := a2, Wl := a3, Wr := a4, B1_x1Face := a5, x1Flux := a6 } := by
  let P : State → Prop := fun t => ∃ a1 a2 a3 a4 a5 a6, t =
      { s with Ul := a1, Ur := a2, Wl := a3, Wr := a4, B1_x1Face := a5, x1Flux := a6 }
  unfold step1
  refine forLoop2_inv P _ _ _ _ _ ?_ s ⟨_, _, _, _, _, _, rfl⟩
  intro k j t ht
  refine forLoop_inv P _ _ _ ?_ _ (forLoop_inv P _ _ _ ?_ t ht)
  · rintro i t _ _ ⟨a1, a2, a3, a4, a5, a6, rfl⟩; exact ⟨_, _, _, _, _, _, rfl⟩
  · rintro i t _ _ ⟨a1, a2, a3, a4, a5, a6, rfl⟩; exact ⟨_, _, _, _, _, _, rfl⟩

/-- Step 2 writes the line buffers `Ul`, `Ur`, `Wl`, `Wr`, `B2_x2Face` and `x2Flux`. -/
theorem step2_writes (c : Config) (l : Locals) (s : State) :
    ∃ a1 a2 a3 a4 a5 a6, step2 c l s =
      { s with Ul := a1, Ur := a2, Wl := a3, Wr := a4, B2_x2Face := a5, x2Flux := a6 } := by
  let P : State → Prop := fun t => ∃ a1 a2 a3 a4 a5 a6, t =
      { s with Ul := a1, Ur := a2, Wl := a3, Wr := a4, B2_x2Face := a5, x2Flux := a6 }
  unfold step2
  refine forLoop2_inv P _ _ _ _ _ ?_ s ⟨_, _, _, _, _, _, rfl⟩
  intro k j t ht
  refine forLoop_inv P _ _ _ ?_ _ (forLoop_inv P _ _ _ ?_ t ht)
  · rintro i t _ _ ⟨a1, a2, a3, a4, a5, a6, rfl⟩; exact ⟨_, _, _, _, _, _, rfl⟩
  · rintro i t _ _ ⟨a1, a2, a3, a4, a5, a6, rfl⟩; exact ⟨_, _, _, _, _, _, rfl⟩

/-- Step 3 writes the line buffers `Ul`, `Ur`, `Wl`, `Wr`, `B3_x3Face` and `x3Flux`. -/
theorem step3_writes (c : Config) (l : Locals) (s : State) :
    ∃ a1 a2 a3 a4 a5 a6, step3 c l s =
      { s with Ul := a1, Ur := a2, Wl := a3, Wr := a4, B3_x3Face := a5, x3Flux := a6 } := by
  let P : State → Prop := fun t => ∃ a1 a2 a3 a4 a5 a6, t =
      { s with Ul := a1, Ur := a2, Wl := a3, Wr := a4, B3_x3Face := a5, x3Flux := a6 }
  unfold step3
  refine forLoop2_inv P _ _ _ _ _ ?_ s ⟨_, _, _, _, _, _, rfl⟩
  intro k j t ht
  refine forLoop_inv P _ _ _ ?_ _ (forLoop_inv P _ _ _ ?_ t ht)
  · rintro i t _ _ ⟨a1, a2, a3, a4, a5, a6, rfl⟩; exact ⟨_, _, _, _, _, _, rfl⟩
  · rintro i t _ _ ⟨a1, a2, a3, a4, a5, a6, rfl⟩; exact ⟨_, _, _, _, _, _, rfl⟩

/-- Step 4a writes the cell-centred EMF arrays. -/
theorem step4a_writes (l : Locals) (s : State) :
    ∃ a1 a2 a3, step4a l s = { s with emf1_cc := a1, emf2_cc := a2, emf3_cc := a3 } := by
  let P : State → Prop := fun t => ∃ a1 a2 a3, t =
      { s with emf1_cc := a1, emf2_cc := a2, emf3_cc := a3 }
  unfold step4a
  refine forLoop3_inv P _ _ _ _ _ _ _ ?_ s ⟨_, _, _, rfl⟩
  rintro k j i t ⟨a1, a2, a3, rfl⟩; exact ⟨_, _, _, rfl⟩

/-- Step 11a writes the cell-centred EMF arrays. -/
theorem step11a_writes (l : Locals) (s : State) :
    ∃ a1 a2 a3, step11a l s = { s with emf1_cc := a1, emf2_cc := a2, emf3_cc := a3 } := by
  let P : State → Prop := fun t => ∃ a1 a2 a3, t =
      { s with emf1_cc := a1, emf2_cc := a2, emf3_cc := a3 }
  unfold step11a
  refine forLoop3_inv P _ _ _ _ _ _ _ ?_ s ⟨_, _, _, rfl⟩
  rintro k j i t ⟨a1, a2, a3, rfl⟩; exact ⟨_, _, _, rfl⟩

theorem step4b_eq (l : Locals) (s : State) :
    step4b l s = ctNest (l.kl + 1) (l.ku - 1) (l.jl + 1) (l.ju - 1) (l.il + 1) (l.iu - 1)
      (ct4b l) (ct4b_x1 l) (ct4b_x2 l) (ct4b_x3 l) s := rfl

/-- Step 4b writes the scratch face fields. -/
theorem step4b_writes (l : Locals) (s : State) :
    ∃ a1 a2 a3, step4b l s =
      { s with B1_x1Face := a1, B2_x2Face := a2, B3_x3Face := a3 } := by
  rw [step4b_eq]
  refine ctNest_inv (fun t => ∃ a1 a2 a3, t =
      { s with B1_x1Face := a1, B2_x2Face := a2, B3_x3Face := a3 })
    _ _ _ _ _ _ _ _ _ _ ?_ ?_ ?_ ?_ s ⟨_, _, _, rfl⟩
  · rintro k j i t ⟨b1, b2, b3, rfl⟩; exact ⟨_, _, _, rfl⟩
  · rintro k j t ⟨b1, b2, b3, rfl⟩; exact ⟨_, _, _, rfl⟩
  · rintro k i t ⟨b1, b2, b3, rfl⟩; exact ⟨_, _, _, rfl⟩
  · rintro j i t ⟨b1, b2, b3, rfl⟩; exact ⟨_, _, _, rfl⟩

/-- Step 7 writes the line buffers and `Wl_x1Face`, `Wr_x1Face`. -/
theorem step7_writes (c : Config) (l : Locals) (s : State) :
    ∃ a1 a2 a3 a4 a5 a6 a7 a8, step7 c l s =
      { s with U1d := a1, Bxc := a2, Bxi := a3, W := a4, Wl := a5, Wr := a6,
               Wl_x1Face := a7, Wr_x1Face := a8 } := by
  let P : State → Prop := fun t => ∃ a1 a2 a3 a4 a5 a6 a7 a8, t =
      { s with U1d := a1, Bxc := a2, Bxi := a3, W := a4, Wl := a5, Wr := a6,
               Wl_x1Face := a7, Wr_x1Face := a8 }
  have hlr : ∀ lo hi t, P t → P (step7_lr c lo hi t) := by
    rintro lo hi t ⟨a1, a2, a3, a4, a5, a6, a7, a8, rfl⟩
    exact ⟨_, _, _, _, _, _, _, _, rfl⟩
  unfold step7
  refine forLoop2_inv P _ _ _ _ _ ?_ s ⟨_, _, _, _, _, _, _, _, rfl⟩
  intro a b t ht
  refine forLoop_inv P _ _ _ ?_ _ (hlr _ _ _
    (forLoop_inv P _ _ _ ?_ _ (forLoop_inv P _ _ _ ?_ t ht)))
  · rintro m t _ _ ⟨a1, a2, a3, a4, a5, a6, a7, a8, rfl⟩
    exact ⟨_, _, _, _, _, _, _, _, rfl⟩
  · rintro m t _ _ ⟨a1, a2, a3, a4, a5, a6, a7, a8, rfl⟩
    exact ⟨_, _, _, _, _, _, _, _, rfl⟩
  · rintro m t _ _ ⟨a1, a2, a3, a4, a5, a6, a7, a8, rfl⟩
    exact ⟨_, _, _, _, _, _, _, _, rfl⟩

/-- Step 8 writes the line buffers and `Wl_x2Face`, `Wr_x2Face`. -/
theorem step8_writes (c : Config) (l : Locals) (s : State) :
    ∃ a1 a2 a3 a4 a5 a6 a7 a8, step8 c l s =
      { s with U1d := a1, Bxc := a2, Bxi := a3, W := a4, Wl := a5, Wr := a6,
               Wl_x2Face := a7, Wr_x2Face := a8 } := by
  let P : State → Prop := fun t => ∃ a1 a2 a3 a4 a5 a6 a7 a8, t =
      { s with U1d := a1, Bxc := a2, Bxi := a3, W := a4, Wl := a5, Wr := a6,
               Wl_x2Face := a7, Wr_x2Face := a8 }
  have hlr : ∀ lo hi t, P t → P (step8_lr c lo hi t) := by
    rintro lo hi t ⟨a1, a2, a3, a4, a5, a6, a7, a8, rfl⟩
    exact ⟨_, _, _, _, _, _, _, _, rfl⟩
  unfold step8
  refine forLoop2_inv P _ _ _ _ _ ?_ s ⟨_, _, _, _, _, _, _, _, rfl⟩
  intro a b t ht
  refine forLoop_inv P _ _ _ ?_ _ (hlr _ _ _
    (forLoop_inv P _ _ _ ?_ _ (forLoop_inv P _ _ _ ?_ t ht)))
  · rintro m t _ _ ⟨a1, a2, a3, a4, a5, a6, a7, a8, rfl⟩
    exact ⟨_, _, _, _, _, _, _, _, rfl⟩
  · rintro m t _ _ ⟨a1, a2, a3, a4, a5, a6, a7, a8, rfl⟩
    exact ⟨_, _, _, _, _, _, _, _, rfl⟩
  · rintro m t _ _ ⟨a1, a2, a3, a4, a5, a6, a7, a8, rfl⟩
    exact ⟨_, _, _, _, _, _, _, _, rfl⟩

/-- Step 9 writes the line buffers and `Wl_x3Face`, `Wr_x3Face`. -/
theorem step9_writes (c : Config) (l : Locals) (s : State) :
    ∃ a1 a2 a3 a4 a5 a6 a7 a8, step9 c l s =
      { s with U1d := a1, Bxc := a2, Bxi := a3, W := a4, Wl := a5, Wr := a6,
               Wl_x3Face := a7, Wr_x3Face := a8 } := by
  let P : State → Prop := fun t => ∃ a1 a2 a3 a4 a5 a6 a7 a8, t =
      { s with U1d := a1, Bxc := a2, Bxi := a3, W := a4, Wl := a5, Wr := a6,
               Wl_x3Face := a7, Wr_x3Face := a8 }
  have hlr : ∀ lo hi t, P t → P (step9_lr c lo hi t) := by
    rintro lo hi t ⟨a1, a2, a3, a4, a5, a6, a7, a8, rfl⟩
    exact ⟨_, _, _, _, _, _, _, _, rfl⟩
  unfold step9
  refine forLoop2_inv P _ _ _ _ _ ?_ s ⟨_, _, _, _, _, _, _, _, rfl⟩
  intro a b t ht
  refine forLoop_inv P _ _ _ ?_ _ (hlr _ _ _
    (forLoop_inv P _ _ _ ?_ _ (forLoop_inv P _ _ _ ?_ t ht)))
  · rintro m t _ _ ⟨a1, a2, a3, a4, a5, a6, a7, a8, rfl⟩
    exact ⟨_, _, _, _, _, _, _, _, rfl⟩
  · rintro m t _ _ ⟨a1, a2, a3, a4, a5, a6, a7, a8, rfl⟩
    exact ⟨_, _, _, _, _, _, _, _, rfl⟩
  · rintro m t _ _ ⟨a1, a2, a3, a4, a5, a6, a7, a8, rfl⟩
    exact ⟨_, _, _, _, _, _, _, _, rfl⟩

/-- Step 10a writes the arrays `eta1`, `eta2`, `eta3`. -/
theorem step10a_writes (c : Config) (l : Locals) (s : State) :
    ∃ a1 a2 a3, step10a c l s = { s with eta1 := a1, eta2 := a2, eta3 := a3 } := by
  let P : State → Prop := fun t => ∃ a1 a2 a3, t = { s with eta1 := a1, eta2 := a2, eta3 := a3 }
  unfold step10a
  by_cases h : c.H_CORRECTION = true
  · simp only [h, if_true]
    refine forLoop3_inv P _ _ _ _ _ _ _ ?_ _ (forLoop3_inv P _ _ _ _ _ _ _ ?_ _
      (forLoop3_inv P _ _ _ _ _ _ _ ?_ s ⟨_, _, _, rfl⟩))
    · rintro k j i t ⟨a1, a2, a3, rfl⟩; exact ⟨_, _, _, rfl⟩
    · rintro k j i t ⟨a1, a2, a3, rfl⟩; exact ⟨_, _, _, rfl⟩
    · rintro k j i t ⟨a1, a2, a3, rfl⟩; exact ⟨_, _, _, rfl⟩
  · simp only [h]
    exact ⟨_, _, _, rfl⟩

theorem etah1_writes (c : Config) (k j i : Int) (s : State) :
    ∃ a, etah1 c k j i s = { s with etah := a } := by
  unfold etah1
  by_cases h : c.H_CORRECTION = true
  · simp only [h, if_true]; exact ⟨_, rfl⟩
  · simp only [h]; exact ⟨_, rfl⟩

theorem etah2_writes (c : Config) (k j i : Int) (s : State) :
    ∃ a, etah2 c k j i s = { s with etah := a } := by
  unfold etah2
  by_cases h : c.H_CORRECTION = true
  · simp only [h, if_true]; exact ⟨_, rfl⟩
  · simp only [h]; exact ⟨_, rfl⟩

theorem etah3_writes (c : Config) (k j i : Int) (s : State) :
    ∃ a, etah3 c k j i s = { s with etah := a } := by
  unfold etah3
  by_cases h : c.H_CORRECTION = true
  · simp only [h, if_true]; exact ⟨_, rfl⟩
  · simp only [h]; exact ⟨_, rfl⟩

/-- Step 10b writes `etah`, the line buffers `Ul`, `Ur` and `x1Flux`. -/
theorem step10b_writes (c : Config) (l : Locals) (s : State) :
    ∃ a1 a2 a3 a4, step10b c l s = { s with etah := a1, Ul := a2, Ur := a3, x1Flux := a4 } := by
  let P : State → Prop := fun t => ∃ a1 a2 a3 a4, t =
      { s with etah := a1, Ul := a2, Ur := a3, x1Flux := a4 }
  unfold step10b
  refine forLoop3_inv P _ _ _ _ _ _ _ ?_ s ⟨_, _, _, _, rfl⟩
  rintro k j i t ⟨a1, a2, a3, a4, rfl⟩
  obtain ⟨a, h⟩ := etah1_writes c k j i
    { s with etah := a1, Ul := a2, Ur := a3, x1Flux := a4 }
  simp only [step10b_body, h]
  exact ⟨_, _, _, _, rfl⟩

/-- Step 10c writes `etah`, the line buffers `Ul`, `Ur` and `x2Flux`. -/
theorem step10c_writes (c : Config) (l : Locals) (s : State) :
    ∃ a1 a2 a3 a4, step10c c l s = { s with etah := a1, Ul := a2, Ur := a3, x2Flux := a4 } := by
  let P : State → Prop := fun t => ∃ a1 a2 a3 a4, t =
      { s with etah := a1, Ul := a2, Ur := a3, x2Flux := a4 }
  unfold step10c
  refine forLoop3_inv P _ _ _ _ _ _ _ ?_ s ⟨_, _, _, _, rfl⟩
  rintro k j i t ⟨a1, a2, a3, a4, rfl⟩
  obtain ⟨a, h⟩ := etah2_writes c k j i
    { s with etah := a1, Ul := a2, Ur := a3, x2Flux := a4 }
  simp only [step10c_body, h]
  exact ⟨_, _, _, _, rfl⟩

/-- Step 10d writes `etah`, the line buffers `Ul`, `Ur` and `x3Flux`. -/
theorem step10d_writes (c : Config) (l : Locals) (s : State) :
    ∃ a1 a2 a3 a4, step10d c l s = { s with etah := a1, Ul := a2, Ur := a3, x3Flux := a4 } := by
  let P : State → Prop := fun t => ∃ a1 a2 a3 a4, t =
      { s with etah := a1, Ul := a2, Ur := a3, x3Flux := a4 }
  unfold step10d
  refine forLoop3_inv P _ _ _ _ _ _ _ ?_ s ⟨_, _, _, _, rfl⟩
  rintro k j i t ⟨a1, a2, a3, a4, rfl⟩
  obtain ⟨a, h⟩ := etah3_writes c k j i
    { s with etah := a1, Ul := a2, Ur := a3, x3Flux := a4 }
  simp only [step10d_body, h]
  exact ⟨_, _, _, _, rfl⟩

/-- The mass-flux copy writes only the three mass-flux arrays of the grid. -/
theorem stepMassFlux_writes (l : Locals) (s : State) :
    ∃ a1 a2 a3, stepMassFlux l s =
      { s with pG := { s.pG with x1MassFlux := a1, x2MassFlux := a2, x3MassFlux := a3 } } := by
  let P : State → Prop := fun t => ∃ a1 a2 a3, t =
      { s with pG := { s.pG with x1MassFlux := a1, x2MassFlux := a2, x3MassFlux := a3 } }
  unfold stepMassFlux
  refine forLoop3_inv P _ _ _ _ _ _ _ ?_ s ⟨_, _, _, rfl⟩
  rintro k j i t ⟨a1, a2, a3, rfl⟩; exact ⟨_, _, _, rfl⟩

/-- The register loops write only the overlap records of the grid. -/
theorem stepSMR_writes (c : Config) (s : State) :
    ∃ a1 a2, stepSMR c s = { s with pG := { s.pG with CGrid := a1, PGrid := a2 } } := by
  let P : State → Prop := fun t => ∃ a1 a2, t =
      { s with pG := { s.pG with CGrid := a1, PGrid := a2 } }
  unfold stepSMR
  by_cases h : c.STATIC_MESH_REFINEMENT = true
  · simp only [h, if_true]
    unfold smrParent smrChild
    refine forLoop_inv P _ _ _ ?_ _ (forLoop_inv P _ _ _ ?_ s ⟨_, _, rfl⟩)
    · rintro n t _ _ ⟨a1, a2, rfl⟩; exact ⟨_, _, rfl⟩
    · rintro n t _ _ ⟨a1, a2, rfl⟩; exact ⟨_, _, rfl⟩
  · simp only [h]
    exact ⟨_, _, rfl⟩

/-! ## Closed forms of the cell-by-cell stages -/

theorem step4c_eq (l : Locals) (s : State) :
    step4c l s = lensUhalf.set s (cellMap (l.kl + 1) (l.ku - 1) (l.jl + 1) (l.ju - 1)
      (l.il + 1) (l.iu - 1) (faceAverage s.B1_x1Face s.B2_x2Face s.B3_x3Face) s.Uhalf) :=
  cellNest_eq lensUhalf _ _ _ _ _ _
    (fun k j i s u => faceAverage s.B1_x1Face s.B2_x2Face s.B3_x3Face k j i u)
    (fun _ _ _ _ _ _ => rfl) s

theorem step5a_eq (l : Locals) (s : State) :
    step5a l s = lensUhalf.set s (cellMap (l.kl + 1) (l.ku - 1) (l.jl + 1) (l.ju - 1)
      (l.il + 1) (l.iu - 1) (flux1Update l.q1 s.x1Flux) s.Uhalf) :=
  cellNest_eq lensUhalf _ _ _ _ _ _ (fun k j i s u => flux1Update l.q1 s.x1Flux k j i u)
    (fun _ _ _ _ _ _ => rfl) s

theorem step5b_eq (l : Locals) (s : State) :
    step5b l s = lensUhalf.set s (cellMap (l.kl + 1) (l.ku - 1) (l.jl + 1) (l.ju - 1)
      (l.il + 1) (l.iu - 1) (flux2Update l.q2 s.x2Flux) s.Uhalf) :=
  cellNest_eq lensUhalf _ _ _ _ _ _ (fun k j i s u => flux2Update l.q2 s.x2Flux k j i u)
    (fun _ _ _ _ _ _ => rfl) s

theorem step5c_eq (l : Locals) (s : State) :
    step5c l s = lensUhalf.set s (cellMap (l.kl + 1) (l.ku - 1) (l.jl + 1) (l.ju - 1)
      (l.il + 1) (l.iu - 1) (flux3Update l.q3 s.x3Flux) s.Uhalf) :=
  cellNest_eq lensUhalf _ _ _ _ _ _ (fun k j i s u => flux3Update l.q3 s.x3Flux k j i u)
    (fun _ _ _ _ _ _ => rfl) s

theorem step6a_none (c : Config) (l : Locals) (s : State) (h : c.StaticGravPot = none) :
    step6a c l s = s := by
  unfold step6a; rw [h]

theorem step6a_some (c : Config) (l : Locals) (s : State) (pot : ℚ → ℚ → ℚ → ℚ)
    (h : c.StaticGravPot = some pot) :
    step6a c l s = lensUhalf.set s (cellMap (l.kl + 1) (l.ku - 1) (l.jl + 1) (l.ju - 1)
      (l.il + 1) (l.iu - 1) (step6a_cell c pot l s) s.Uhalf) := by
  unfold step6a; rw [h]
  exact cellNest_eq lensUhalf _ _ _ _ _ _ (fun k j i s u => step6a_cell c pot l s k j i u)
    (fun _ _ _ _ _ _ => rfl) s

theorem step6b_off (c : Config) (l : Locals) (s : State) (h : c.SELF_GRAVITY = false) :
    step6b c l s = s := by
  unfold step6b; rw [h]; rfl

theorem step6b_on (c : Config) (l : Locals) (s : State) (h : c.SELF_GRAVITY = true) :
    step6b c l s = lensUhalf.set s (cellMap (l.kl + 1) (l.ku - 1) (l.jl + 1) (l.ju - 1)
      (l.il + 1) (l.iu - 1) (step6b_cell l s) s.Uhalf) := by
  unfold step6b; rw [h]
  exact cellNest_eq lensUhalf _ _ _ _ _ _ (fun k j i s u => step6b_cell l s k j i u)
    (fun _ _ _ _ _ _ => rfl) s

theorem integrate_emf1_corner_eq (c : Config) (s : State) :
    integrate_emf1_corner c s = lensEmf1.set s (cellMap
      (s.pG.ks - c.nghost + 1) (s.pG.ke + c.nghost) (s.pG.js - c.nghost + 1) (s.pG.je + c.nghost)
      (s.pG.is - c.nghost + 1) (s.pG.ie + c.nghost - 1) (fun k j i _ => emf1_cell s k j i)
      s.emf1) :=
  cellNest_eq lensEmf1 _ _ _ _ _ _ (fun k j i s _ => emf1_cell s k j i)
    (fun _ _ _ _ _ _ => rfl) s

theorem integrate_emf2_corner_eq (c : Config) (s : State) :
    integrate_emf2_corner c s = lensEmf2.set s (cellMap
      (s.pG.ks - c.nghost + 1) (s.pG.ke + c.nghost) (s.pG.js - c.nghost + 1)
      (s.pG.je + c.nghost - 1)
      (s.pG.is - c.nghost + 1) (s.pG.ie + c.nghost) (fun k j i _ => emf2_cell s k j i)
      s.emf2) :=
  cellNest_eq lensEmf2 _ _ _ _ _ _ (fun k j i s _ => emf2_cell s k j i)
    (fun _ _ _ _ _ _ => rfl) s

theorem integrate_emf3_corner_eq (c : Config) (s : State) :
    integrate_emf3_corner c s = lensEmf3.set s (cellMap
      (s.pG.ks - c.nghost + 1) (s.pG.ke + c.nghost - 1) (s.pG.js - c.nghost + 1)
      (s.pG.je + c.nghost)
      (s.pG.is - c.nghost + 1) (s.pG.ie + c.nghost) (fun k j i _ => emf3_cell s k j i)
      s.emf3) :=
  cellNest_eq lensEmf3 _ _ _ _ _ _ (fun k j i s _ => emf3_cell s k j i)
    (fun _ _ _ _ _ _ => rfl) s

theorem step12a_some (c : Config) (l : Locals) (s : State) (pot : ℚ → ℚ → ℚ → ℚ)
    (h : c.StaticGravPot = some pot) :
    step12a c l s = lensU.set s (cellMap (l.kl + 1) (l.ku - 1) (l.jl + 1) (l.ju - 1)
      (l.il + 1) (l.iu - 1) (step12a_cell c pot l s) s.pG.U) := by
  unfold step12a; rw [h]
  exact cellNest_eq lensU _ _ _ _ _ _ (fun k j i s u => step12a_cell c pot l s k j i u)
    (fun _ _ _ _ _ _ => rfl) s

theorem step12b1_eq (c : Config) (l : Locals) (s : State) :
    step12b1 c l s = lensU.set s (cellMap (l.kl + 1) (l.ku - 1) (l.jl + 1) (l.ju - 1)
      (l.il + 1) (l.iu - 1) (step12b1_cell c l s) s.pG.U) :=
  cellNest_eq lensU _ _ _ _ _ _ (fun k j i s u => step12b1_cell c l s k j i u)
    (fun _ _ _ _ _ _ => rfl) s

theorem step12b2_eq (c : Config) (l : Locals) (s : State) :
    step12b2 c l s = lensU.set s (cellMap l.ks l.ke l.js l.je l.is l.ie
      (step12b2_cell c l s) s.pG.U) :=
  cellNest_eq lensU _ _ _ _ _ _ (fun k j i s u => step12b2_cell c l s k j i u)
    (fun _ _ _ _ _ _ => rfl) s

theorem step12b3_eq (c : Config) (l : Locals) (s : State) :
    step12b3 c l s = lensU.set s (cellMap l.ks l.ke l.js l.je l.is l.ie
      (step12b3_cell c l s) s.pG.U) :=
  cellNest_eq lensU _ _ _ _ _ _ (fun k j i s u => step12b3_cell c l s k j i u)
    (fun _ _ _ _ _ _ => rfl) s

theorem step13e_eq (l : Locals) (s : State) :
    step13e l s = lensU.set s (cellMap (l.kb + 1) (l.kt - 1) (l.jb + 1) (l.jt - 1)
      (l.ib + 1) (l.it - 1) (faceAverage s.pG.B1i s.pG.B2i s.pG.B3i) s.pG.U) :=
  cellNest_eq lensU _ _ _ _ _ _
    (fun k j i s u => faceAverage s.pG.B1i s.pG.B2i s.pG.B3i k j i u)
    (fun _ _ _ _ _ _ => rfl) s

/-! ## C4: nothing before Step 11c writes the persistent state -/

/-- A list of stages preserves a property all its stages preserve. -/
theorem runStages_inv (Q : State → Prop) (fs : List (State → State))
    (H : ∀ f ∈ fs, ∀ t, Q t → Q (f t)) (s : State) (hs : Q s) : Q (runStages fs s) := by
  unfold runStages
  induction fs generalizing s with
  | nil => exact hs
  | cons f fs ih =>
    simp only [List.foldl_cons]
    exact ih (fun g hg => H g (List.mem_cons_of_mem _ hg)) (f s)
      (H f (List.mem_cons_self _ _) s hs)

theorem runStages_append (fs gs : List (State → State)) (s : State) :
    runStages (fs ++ gs) s = runStages gs (runStages fs s) := by
  unfold runStages
  rw [List.foldl_append]

/-- No stage of the predictor writes outside the predictor's scratch arrays. -/
theorem predictorStages_frame (c : Config) (l : Locals) :
    ∀ f ∈ predictorStages c l, ∀ t, outsidePredictor (f t) = outsidePredictor t := by
  intro f hf t
  simp only [predictorStages, List.mem_cons, List.mem_singleton, List.not_mem_nil,
    or_false] at hf
  rcases hf with rfl | rfl | rfl | rfl | rfl | rfl | rfl | rfl | rfl | rfl | rfl | rfl | rfl |
    rfl | rfl
  · rw [stepInit_eq]; rfl
  · obtain ⟨b1, b2, b3, b4, b5, b6, h⟩ := step1_writes c l t; rw [h]; rfl
  · obtain ⟨b1, b2, b3, b4, b5, b6, h⟩ := step2_writes c l t; rw [h]; rfl
  · obtain ⟨b1, b2, b3, b4, b5, b6, h⟩ := step3_writes c l t; rw [h]; rfl
  · obtain ⟨b1, b2, b3, h⟩ := step4a_writes l t; rw [h]; rfl
  · rw [integrate_emf1_corner_eq]; rfl
  · rw [integrate_emf2_corner_eq]; rfl
  · rw [integrate_emf3_corner_eq]; rfl
  · obtain ⟨b1, b2, b3, h⟩ := step4b_writes l t; rw [h]; rfl
  · rw [step4c_eq]; rfl
  · rw [step5a_eq]; rfl
  · rw [step5b_eq]; rfl
  · rw [step5c_eq]; rfl
  · cases hp : c.StaticGravPot with
    | none => rw [step6a_none c l t hp]
    | some pot => rw [step6a_some c l t pot hp]; rfl
  · cases hg : c.SELF_GRAVITY with
    | false => rw [step6b_off c l t hg]
    | true => rw [step6b_on c l t hg]; rfl

/-- No stage of Steps 7-11b writes the grid. -/
theorem correctorStages7to11b_pG (c : Config) (l : Locals) :
    ∀ f ∈ correctorStages7to11b c l, ∀ t, (f t).pG = t.pG := by
  intro f hf t
  simp only [correctorStages7to11b, List.mem_cons, List.mem_singleton, List.not_mem_nil,
    or_false] at hf
  rcases hf with rfl | rfl | rfl | rfl | rfl | rfl | rfl | rfl | rfl | rfl | rfl
  · obtain ⟨b1, b2, b3, b4, b5, b6, b7, b8, h⟩ := step7_writes c l t; rw [h]
  · obtain ⟨b1, b2, b3, b4, b5, b6, b7, b8, h⟩ := step8_writes c l t; rw [h]
  · obtain ⟨b1, b2, b3, b4, b5, b6, b7, b8, h⟩ := step9_writes c l t; rw [h]
  · obtain ⟨b1, b2, b3, h⟩ := step10a_writes c l t; rw [h]
  · obtain ⟨b1, b2, b3, b4, h⟩ := step10b_writes c l t; rw [h]
  · obtain ⟨b1, b2, b3, b4, h⟩ := step10c_writes c l t; rw [h]
  · obtain ⟨b1, b2, b3, b4, h⟩ := step10d_writes c l t; rw [h]
  · obtain ⟨b1, b2, b3, h⟩ := step11a_writes l t; rw [h]
  · rw [integrate_emf1_corner_eq]; rfl
  · rw [integrate_emf2_corner_eq]; rfl
  · rw [integrate_emf3_corner_eq]; rfl

/-- No stage before Step 11c writes the grid. -/
theorem stagesBefore11c_pG (c : Config) (l : Locals) :
    ∀ f ∈ stagesBefore11c c l, ∀ t, (f t).pG = t.pG := by
  intro f hf t
  rcases List.mem_append.mp hf with h | h
  · exact congrArg Prod.fst (predictorStages_frame c l f h t)
  · exact correctorStages7to11b_pG c l f h t

/-- C4: the predictor never touches the persistent state. After every prefix of the
stages that precede Step 11c (the copy of `Uhalf`, Steps 1-6, Steps 7-11b) the grid
`pG`, hence `pG->U`, `pG->B1i`, `pG->B2i`, `pG->B3i`, is what it was on entry; after
every prefix of the predictor everything but the scratch arrays `Uhalf`, the face
fields, the fluxes, the EMFs, the line buffers and `etah` is what it was on entry;
`integrate_3d_vl` continues with Step 11c, which does write `pG->B1i`. -/
theorem C4_predictor_frame (c : Config) (s : State) :
    (∀ n, (runStages ((stagesBefore11c c (locals c s.pG)).take n) s).pG = s.pG) ∧
    (∀ n, outsidePredictor (runStages ((predictorStages c (locals c s.pG)).take n) s)
        = outsidePredictor s) ∧
    integrate_3d_vl c s = runStages (stagesFrom11c c (locals c s.pG))
        (runStages (stagesBefore11c c (locals c s.pG)) s) ∧
    (stagesFrom11c c (locals c s.pG)).head? = some (step11c (locals c s.pG)) ∧
    (step11c (locals demoConfig demoState.pG) demoState).pG.B1i 0 0 0
      ≠ demoState.pG.B1i 0 0 0 := by
  refine ⟨fun n => ?_, fun n => ?_, rfl, rfl, ?_⟩
  · exact runStages_inv (fun t => t.pG = s.pG) _
      (fun f hf t ht => (stagesBefore11c_pG c _ f (List.mem_of_mem_take hf) t).trans ht) s rfl
  · exact runStages_inv (fun t => outsidePredictor t = outsidePredictor s) _
      (fun f hf t ht => (predictorStages_frame c _ f (List.mem_of_mem_take hf) t).trans ht)
      s rfl
  · rw [step11c_B1i _ _ 0 0 0 (by decide) (by decide) (by decide)]
    simp [locals, demoState, demoGrid, demoConfig]
    norm_num

/-! ## The integrator from Step 11c on -/

theorem beforeStep11c_pG (c : Config) (s : State) : (beforeStep11c c s).pG = s.pG :=
  runStages_inv (fun t => t.pG = s.pG) _
    (fun f hf t ht => (stagesBefore11c_pG c _ f hf t).trans ht) s rfl

theorem integrate_3d_vl_eq (c : Config) (s : State) :
    integrate_3d_vl c s = stepSMR c (step13e (locals c s.pG) (step13 (locals c s.pG)
      (step12b c (locals c s.pG) (step12a c (locals c s.pG)
        (step11c (locals c s.pG) (beforeStep11c c s)))))) := rfl

/-- Without gravity the integrator ends with Steps 11c, 13, 13e and the registers. -/
theorem integrate_3d_vl_nograv (c : Config) (s : State)
    (hg : c.StaticGravPot = none) (hsg : c.SELF_GRAVITY = false) :
    integrate_3d_vl c s = stepSMR c (step13e (locals c s.pG) (step13 (locals c s.pG)
        (step11c (locals c s.pG) (beforeStep11c c s)))) := by
  rw [integrate_3d_vl_eq, step12a_none c _ _ hg, step12b_off c _ _ hsg]

theorem step11c_U (l : Locals) (s : State) : (step11c l s).pG.U = s.pG.U := by
  obtain ⟨b1, b2, b3, h⟩ := step11c_frame l s; rw [h]

theorem step11c_x1Flux (l : Locals) (s : State) : (step11c l s).x1Flux = s.x1Flux := by
  obtain ⟨b1, b2, b3, h⟩ := step11c_frame l s; rw [h]

theorem step11c_x2Flux (l : Locals) (s : State) : (step11c l s).x2Flux = s.x2Flux := by
  obtain ⟨b1, b2, b3, h⟩ := step11c_frame l s; rw [h]

theorem step11c_x3Flux (l : Locals) (s : State) : (step11c l s).x3Flux = s.x3Flux := by
  obtain ⟨b1, b2, b3, h⟩ := step11c_frame l s; rw [h]

theorem stepSMR_U (c : Config) (s : State) : (stepSMR c s).pG.U = s.pG.U := by
  obtain ⟨b1, b2, h⟩ := stepSMR_writes c s; rw [h]

theorem consVar_faceAverage (v : ConsVar) (B1 B2 B3 : Arr3 ℚ) (k j i : Int) (u : Gas) :
    v.cell (faceAverage B1 B2 B3 k j i u) = v.cell u := by
  cases v <;> rfl

theorem consVar_cellMap_faceAverage (v : ConsVar) (klo khi jlo jhi ilo ihi : Int)
    (B1 B2 B3 : Arr3 ℚ) (U : Arr3 Gas) (k j i : Int) :
    v.cell (cellMap klo khi jlo jhi ilo ihi (faceAverage B1 B2 B3) U k j i) = v.cell (U k j i) := by
  unfold cellMap
  split_ifs
  · exact consVar_faceAverage v B1 B2 B3 k j i _
  · rfl

/-- C5: the full-step update formula. With no gravity source, after
`integrate_3d_vl` every cell with `ib+1 ≤ i ≤ it-1`, `jb+1 ≤ j ≤ jt-1`,
`kb+1 ≤ k ≤ kt-1` holds, in each of `d`, `M1`, `M2`, `M3`, `E`, the old value minus
`(dt/dx1)(F1[i+1]-F1[i])`, `(dt/dx2)(F2[j+1]-F2[j])` and `(dt/dx3)(F3[k+1]-F3[k])`,
with the flux slots `M1 <- (F1.Mx, F2.Mz, F3.My)`, `M2 <- (F1.My, F2.Mx, F3.Mz)`,
`M3 <- (F1.Mz, F2.My, F3.Mx)`, where `F1`, `F2`, `F3` are the flux arrays left by the
corrector (they are still in place at the end). The value is stored as computed,
whatever its sign, and the cells outside that range keep their old `d`, `M`, `E`. -/
theorem C5_full_step_formula (c : Config) (s : State)
    (hg : c.StaticGravPot = none) (hsg : c.SELF_GRAVITY = false) (v : ConsVar) (k j i : Int) :
    ((locals c s.pG).kb + 1 ≤ k ∧ k ≤ (locals c s.pG).kt - 1 ∧
      (locals c s.pG).jb + 1 ≤ j ∧ j ≤ (locals c s.pG).jt - 1 ∧
      (locals c s.pG).ib + 1 ≤ i ∧ i ≤ (locals c s.pG).it - 1 →
      v.cell ((integrate_3d_vl c s).pG.U k j i) = v.cell (s.pG.U k j i)
        - s.pG.dt / s.pG.dx1 * (v.flux1 ((beforeStep11c c s).x1Flux k j (i + 1))
            - v.flux1 ((beforeStep11c c s).x1Flux k j i))
        - s.pG.dt / s.pG.dx2 * (v.flux2 ((beforeStep11c c s).x2Flux k (j + 1) i)
            - v.flux2 ((beforeStep11c c s).x2Flux k j i))
        - s.pG.dt / s.pG.dx3 * (v.flux3 ((beforeStep11c c s).x3Flux (k + 1) j i)
            - v.flux3 ((beforeStep11c c s).x3Flux k j i))) ∧
    (¬ ((locals c s.pG).kb + 1 ≤ k ∧ k ≤ (locals c s.pG).kt - 1 ∧
      (locals c s.pG).jb + 1 ≤ j ∧ j ≤ (locals c s.pG).jt - 1 ∧
      (locals c s.pG).ib + 1 ≤ i ∧ i ≤ (locals c s.pG).it - 1) →
      v.cell ((integrate_3d_vl c s).pG.U k j i) = v.cell (s.pG.U k j i)) := by
  have hU : (integrate_3d_vl c s).pG.U k j i =
      cellMap ((locals c s.pG).kb + 1) ((locals c s.pG).kt - 1) ((locals c s.pG).jb + 1)
        ((locals c s.pG).jt - 1) ((locals c s.pG).ib + 1) ((locals c s.pG).it - 1)
        (faceAverage (step11c (locals c s.pG) (beforeStep11c c s)).pG.B1i
          (step11c (locals c s.pG) (beforeStep11c c s)).pG.B2i
          (step11c (locals c s.pG) (beforeStep11c c s)).pG.B3i)
        (step13 (locals c s.pG) (step11c (locals c s.pG) (beforeStep11c c s))).pG.U k j i := by
    rw [integrate_3d_vl_nograv c s hg hsg, stepSMR_U, step13e_eq]
    simp only [lensU, step13_eq]
  rw [hU, consVar_cellMap_faceAverage, step13_eq]
  simp only [lensU, step11c_U, step11c_x1Flux, step11c_x2Flux, step11c_x3Flux,
    beforeStep11c_pG]
  constructor
  · intro hin
    rw [if_pos hin, consVar_fluxUpdate]
    rfl
  · intro hout
    rw [if_neg hout]

/-- C5 for the density of the cell `(0, 0, 0)` of `demoState`. -/
theorem C5_witness :
    ConsVar.d.cell ((integrate_3d_vl demoConfig demoState).pG.U 0 0 0)
      = ConsVar.d.cell (demoState.pG.U 0 0 0)
        - demoState.pG.dt / demoState.pG.dx1 *
            (ConsVar.d.flux1 ((beforeStep11c demoConfig demoState).x1Flux 0 0 (0 + 1))
            - ConsVar.d.flux1 ((beforeStep11c demoConfig demoState).x1Flux 0 0 0))
        - demoState.pG.dt / demoState.pG.dx2 *
            (ConsVar.d.flux2 ((beforeStep11c demoConfig demoState).x2Flux 0 (0 + 1) 0)
            - ConsVar.d.flux2 ((beforeStep11c demoConfig demoState).x2Flux 0 0 0))
        - demoState.pG.dt / demoState.pG.dx3 *
            (ConsVar.d.flux3 ((beforeStep11c demoConfig demoState).x3Flux (0 + 1) 0 0)
            - ConsVar.d.flux3 ((beforeStep11c demoConfig demoState).x3Flux 0 0 0)) :=
  (C5_full_step_formula demoConfig demoState rfl rfl ConsVar.d 0 0 0).1 (by decide)

/-! ## C6: the cell-centred field is the average of the two bounding faces -/

theorem step12a_faceB (c : Config) (l : Locals) (s : State) :
    (step12a c l s).pG.B1i = s.pG.B1i ∧ (step12a c l s).pG.B2i = s.pG.B2i ∧
      (step12a c l s).pG.B3i = s.pG.B3i := by
  cases hp : c.StaticGravPot with
  | none => rw [step12a_none c l s hp]; exact ⟨rfl, rfl, rfl⟩
  | some pot => rw [step12a_some c l s pot hp]; exact ⟨rfl, rfl, rfl⟩

theorem step12b_faceB (c : Config) (l : Locals) (s : State) :
    (step12b c l s).pG.B1i = s.pG.B1i ∧ (step12b c l s).pG.B2i = s.pG.B2i ∧
      (step12b c l s).pG.B3i = s.pG.B3i := by
  cases hg : c.SELF_GRAVITY with
  | false => rw [step12b_off c l s hg]; exact ⟨rfl, rfl, rfl⟩
  | true =>
    unfold step12b
    rw [hg]
    simp only [if_true]
    obtain ⟨a1, a2, a3, h⟩ := stepMassFlux_writes l (step12b3 c l (step12b2 c l (step12b1 c l s)))
    rw [h, step12b3_eq, step12b2_eq, step12b1_eq]
    exact ⟨rfl, rfl, rfl⟩

theorem step13_faceB (l : Locals) (s : State) :
    (step13 l s).pG.B1i = s.pG.B1i ∧ (step13 l s).pG.B2i = s.pG.B2i ∧
      (step13 l s).pG.B3i = s.pG.B3i := by
  rw [step13_eq]; exact ⟨rfl, rfl, rfl⟩

theorem stepSMR_faceB (c : Config) (s : State) :
    (stepSMR c s).pG.B1i = s.pG.B1i ∧ (stepSMR c s).pG.B2i = s.pG.B2i ∧
      (stepSMR c s).pG.B3i = s.pG.B3i := by
  obtain ⟨b1, b2, h⟩ := stepSMR_writes c s; rw [h]; exact ⟨rfl, rfl, rfl⟩

/-- The face fields at the end of `integrate_3d_vl` are the ones Step 11c left. -/
theorem integrate_3d_vl_faceB (c : Config) (s : State) :
    (integrate_3d_vl c s).pG.B1i = (step11c (locals c s.pG) (beforeStep11c c s)).pG.B1i ∧
    (integrate_3d_vl c s).pG.B2i = (step11c (locals c s.pG) (beforeStep11c c s)).pG.B2i ∧
    (integrate_3d_vl c s).pG.B3i = (step11c (locals c s.pG) (beforeStep11c c s)).pG.B3i := by
  rw [integrate_3d_vl_eq]
  obtain ⟨h1, h2, h3⟩ := stepSMR_faceB c (step13e (locals c s.pG) (step13 (locals c s.pG)
      (step12b c (locals c s.pG) (step12a c (locals c s.pG)
        (step11c (locals c s.pG) (beforeStep11c c s))))))
  rw [h1, h2, h3, step13e_eq]
  simp only [lensU]
  obtain ⟨h1, h2, h3⟩ := step13_faceB (locals c s.pG)
      (step12b c (locals c s.pG) (step12a c (locals c s.pG)
        (step11c (locals c s.pG) (beforeStep11c c s))))
  rw [h1, h2, h3]
  obtain ⟨h1, h2, h3⟩ := step12b_faceB c (locals c s.pG) (step12a c (locals c s.pG)
        (step11c (locals c s.pG) (beforeStep11c c s)))
  rw [h1, h2, h3]
  exact step12a_faceB c (locals c s.pG) (step11c (locals c s.pG) (beforeStep11c c s))

theorem afterStep4c_eq (c : Config) (s : State) :
    afterStep4c c s = step4c (locals c s.pG) (step4b (locals c s.pG) (beforeStep4b c s)) := rfl

/-- C6: the cell-centred field is the average of the two bounding faces, in both
stages. At the end of `integrate_3d_vl` every cell with `ib+1 ≤ i ≤ it-1` (likewise
`j`, `k`) has `U.B1c = (B1i[k][j][i] + B1i[k][j][i+1])/2`, `U.B2c`, `U.B3c` likewise,
the face values being the ones advanced by Step 11c; and after Step 4c every cell
with `il+1 ≤ i ≤ iu-1` (likewise `j`, `k`) has `Uhalf.B1c`, `B2c`, `B3c` equal to the
same averages of `B1_x1Face`, `B2_x2Face`, `B3_x3Face` as Step 4b left them. -/
theorem C6_cell_centred_average (c : Config) (s : State) (k j i : Int) :
    ((locals c s.pG).kb + 1 ≤ k ∧ k ≤ (locals c s.pG).kt - 1 ∧
      (locals c s.pG).jb + 1 ≤ j ∧ j ≤ (locals c s.pG).jt - 1 ∧
      (locals c s.pG).ib + 1 ≤ i ∧ i ≤ (locals c s.pG).it - 1 →
      ((integrate_3d_vl c s).pG.U k j i).B1c = ((integrate_3d_vl c s).pG.B1i k j i
          + (integrate_3d_vl c s).pG.B1i k j (i + 1)) / 2 ∧
      ((integrate_3d_vl c s).pG.U k j i).B2c = ((integrate_3d_vl c s).pG.B2i k j i
          + (integrate_3d_vl c s).pG.B2i k (j + 1) i) / 2 ∧
      ((integrate_3d_vl c s).pG.U k j i).B3c = ((integrate_3d_vl c s).pG.B3i k j i
          + (integrate_3d_vl c s).pG.B3i (k + 1) j i) / 2 ∧
      (integrate_3d_vl c s).pG.B1i = (step11c (locals c s.pG) (beforeStep11c c s)).pG.B1i ∧
      (integrate_3d_vl c s).pG.B2i = (step11c (locals c s.pG) (beforeStep11c c s)).pG.B2i ∧
      (integrate_3d_vl c s).pG.B3i = (step11c (locals c s.pG) (beforeStep11c c s)).pG.B3i) ∧
    ((locals c s.pG).kl + 1 ≤ k ∧ k ≤ (locals c s.pG).ku - 1 ∧
      (locals c s.pG).jl + 1 ≤ j ∧ j ≤ (locals c s.pG).ju - 1 ∧
      (locals c s.pG).il + 1 ≤ i ∧ i ≤ (locals c s.pG).iu - 1 →
      ((afterStep4c c s).Uhalf k j i).B1c = ((afterStep4c c s).B1_x1Face k j i
          + (afterStep4c c s).B1_x1Face k j (i + 1)) / 2 ∧
      ((afterStep4c c s).Uhalf k j i).B2c = ((afterStep4c c s).B2_x2Face k j i
          + (afterStep4c c s).B2_x2Face k (j + 1) i) / 2 ∧
      ((afterStep4c c s).Uhalf k j i).B3c = ((afterStep4c c s).B3_x3Face k j i
          + (afterStep4c c s).B3_x3Face (k + 1) j i) / 2 ∧
      (afterStep4c c s).B1_x1Face = (step4b (locals c s.pG) (beforeStep4b c s)).B1_x1Face ∧
      (afterStep4c c s).B2_x2Face = (step4b (locals c s.pG) (beforeStep4b c s)).B2_x2Face ∧
      (afterStep4c c s).B3_x3Face = (step4b (locals c s.pG) (beforeStep4b c s)).B3_x3Face) := by
  constructor
  · intro hin
    obtain ⟨h1, h2, h3⟩ := integrate_3d_vl_faceB c s
    have hU : (integrate_3d_vl c s).pG.U k j i =
        faceAverage (step11c (locals c s.pG) (beforeStep11c c s)).pG.B1i
          (step11c (locals c s.pG) (beforeStep11c c s)).pG.B2i
          (step11c (locals c s.pG) (beforeStep11c c s)).pG.B3i k j i
          ((step13 (locals c s.pG) (step12b c (locals c s.pG) (step12a c (locals c s.pG)
            (step11c (locals c s.pG) (beforeStep11c c s))))).pG.U k j i) := by
      rw [integrate_3d_vl_eq, stepSMR_U, step13e_eq]
      simp only [lensU, cellMap, hin, and_self, if_true]
      obtain ⟨e1, e2, e3⟩ := step13_faceB (locals c s.pG)
        (step12b c (locals c s.pG) (step12a c (locals c s.pG)
          (step11c (locals c s.pG) (beforeStep11c c s))))
      obtain ⟨f1, f2, f3⟩ := step12b_faceB c (locals c s.pG) (step12a c (locals c s.pG)
          (step11c (locals c s.pG) (beforeStep11c c s)))
      obtain ⟨g1, g2, g3⟩ := step12a_faceB c (locals c s.pG)
          (step11c (locals c s.pG) (beforeStep11c c s))
      rw [e1, e2, e3, f1, f2, f3, g1, g2, g3]
    refine ⟨?_, ?_, ?_, h1, h2, h3⟩
    · rw [hU, h1]; simp only [faceAverage]; ring
    · rw [hU, h2]; simp only [faceAverage]; ring
    · rw [hU, h3]; simp only [faceAverage]; ring
  · intro hin
    rw [afterStep4c_eq, step4c_eq]
    refine ⟨?_, ?_, ?_, rfl, rfl, rfl⟩
    all_goals
      simp only [lensUhalf, cellMap, hin, and_self, if_true, faceAverage]
      ring

/-- C6 at the cell `(0, 0, 0)` of `demoState`. -/
theorem C6_witness :
    ((integrate_3d_vl demoConfig demoState).pG.U 0 0 0).B1c =
      ((integrate_3d_vl demoConfig demoState).pG.B1i 0 0 0
        + (integrate_3d_vl demoConfig demoState).pG.B1i 0 0 (0 + 1)) / 2 ∧
    ((afterStep4c demoConfig demoState).Uhalf 0 0 0).B1c =
      ((afterStep4c demoConfig demoState).B1_x1Face 0 0 0
        + (afterStep4c demoConfig demoState).B1_x1Face 0 0 (0 + 1)) / 2 :=
  ⟨((C6_cell_centred_average demoConfig demoState 0 0 0).1 (by decide)).1,
   ((C6_cell_centred_average demoConfig demoState 0 0 0).2 (by decide)).1⟩

/-! ## Step 4b: constrained transport for half a step -/

/-- Step 4b adds half the curl of the corner EMFs to `B1_x1Face` on its update range. -/
theorem step4b_B1i (l : Locals) (s : State) (k0 j0 i0 : Int)
    (hk : l.kl + 1 ≤ k0 ∧ k0 ≤ l.ku - 1) (hj : l.jl + 1 ≤ j0 ∧ j0 ≤ l.ju - 1)
    (hi : l.il + 1 ≤ i0 ∧ i0 ≤ l.iu) :
    (step4b l s).B1_x1Face k0 j0 i0 = s.B1_x1Face k0 j0 i0 +
      (l.q3 * (s.emf2 (k0 + 1) j0 i0 - s.emf2 k0 j0 i0) -
       l.q2 * (s.emf3 k0 (j0 + 1) i0 - s.emf3 k0 j0 i0)) := by
  let obs : State → Arr3 ℚ × Arr3 ℚ × ℚ := fun s => (s.emf2, s.emf3, s.B1_x1Face k0 j0 i0)
  let g : Arr3 ℚ × Arr3 ℚ × ℚ → Arr3 ℚ × Arr3 ℚ × ℚ := fun v =>
    (v.1, v.2.1, v.2.2 + (l.q3 * (v.1 (k0 + 1) j0 i0 - v.1 k0 j0 i0) -
       l.q2 * (v.2.1 k0 (j0 + 1) i0 - v.2.1 k0 j0 i0)))
  have key : obs (step4b l s) = g (obs s) := by
    rw [step4b_eq]
    by_cases hit : i0 = l.iu
    · subst hit
      apply ctNest_x1 obs _ _ _ _ _ _ _ _ _ _ k0 j0 g hk hj
      · intro s; simp [obs, g, ct4b_x1, set3]
      · intro k j i s _ _ _ _ _ hi2
        have : ¬ l.iu = i := by omega
        simp [obs, ct4b, set3, this]
      · intro k j s _ _ _ _ hne
        simp [obs, ct4b_x1, set3, hne]
      · intro k i s _ _ _ _; rfl
      · intro j i s _ _ _ _; rfl
    · apply ctNest_body obs _ _ _ _ _ _ _ _ _ _ k0 j0 i0 g hk hj ⟨hi.1, by omega⟩
      · intro s; simp [obs, g, ct4b, set3]
      · intro k j i s _ _ _ _ _ _ hne
        simp [obs, ct4b, set3, hne]
      · intro k j s _ _ _ _
        simp [obs, ct4b_x1, set3, hit]
      · intro k i s _ _ _ _; rfl
      · intro j i s _ _ _ _; rfl
  exact congrArg (fun v => v.2.2) key

/-- Step 4b adds half the curl of the corner EMFs to `B2_x2Face` on its update range. -/
theorem step4b_B2i (l : Locals) (s : State) (k0 j0 i0 : Int)
    (hk : l.kl + 1 ≤ k0 ∧ k0 ≤ l.ku - 1) (hj : l.jl + 1 ≤ j0 ∧ j0 ≤ l.ju)
    (hi : l.il + 1 ≤ i0 ∧ i0 ≤ l.iu - 1) :
    (step4b l s).B2_x2Face k0 j0 i0 = s.B2_x2Face k0 j0 i0 +
      (l.q1 * (s.emf3 k0 j0 (i0 + 1) - s.emf3 k0 j0 i0) -
       l.q3 * (s.emf1 (k0 + 1) j0 i0 - s.emf1 k0 j0 i0)) := by
  let obs : State → Arr3 ℚ × Arr3 ℚ × ℚ := fun s => (s.emf3, s.emf1, s.B2_x2Face k0 j0 i0)
  let g : Arr3 ℚ × Arr3 ℚ × ℚ → Arr3 ℚ × Arr3 ℚ × ℚ := fun v =>
    (v.1, v.2.1, v.2.2 + (l.q1 * (v.1 k0 j0 (i0 + 1) - v.1 k0 j0 i0) -
       l.q3 * (v.2.1 (k0 + 1) j0 i0 - v.2.1 k0 j0 i0)))
  have key : obs (step4b l s) = g (obs s) := by
    rw [step4b_eq]
    by_cases hjt : j0 = l.ju
    · subst hjt
      apply ctNest_x2 obs _ _ _ _ _ _ _ _ _ _ k0 i0 g hk hi
      · intro s; simp [obs, g, ct4b_x2, set3]
      · intro k j i s _ _ _ hj2 _ _
        have : ¬ l.ju = j := by omega
        simp [obs, ct4b, set3, this]
      · intro k j s _ _ _ _; rfl
      · intro k i s _ _ _ _ hne
        simp [obs, ct4b_x2, set3, hne]
      · intro j i s _ _ _ _; rfl
    · apply ctNest_body obs _ _ _ _ _ _ _ _ _ _ k0 j0 i0 g hk ⟨hj.1, by omega⟩ hi
      · intro s; simp [obs, g, ct4b, set3]
      · intro k j i s _ _ _ _ _ _ hne
        simp [obs, ct4b, set3, hne]
      · intro k j s _ _ _ _; rfl
      · intro k i s _ _ _ _
        simp [obs, ct4b_x2, set3, hjt]
      · intro j i s _ _ _ _; rfl
  exact congrArg (fun v => v.2.2) key

/-- Step 4b adds half the curl of the corner EMFs to `B3_x3Face` on its update range. -/
theorem step4b_B3i (l : Locals) (s : State) (k0 j0 i0 : Int)
    (hk : l.kl + 1 ≤ k0 ∧ k0 ≤ l.ku) (hj : l.jl + 1 ≤ j0 ∧ j0 ≤ l.ju - 1)
    (hi : l.il + 1 ≤ i0 ∧ i0 ≤ l.iu - 1) :
    (step4b l s).B3_x3Face k0 j0 i0 = s.B3_x3Face k0 j0 i0 +
      (l.q2 * (s.emf1 k0 (j0 + 1) i0 - s.emf1 k0 j0 i0) -
       l.q1 * (s.emf2 k0 j0 (i0 + 1) - s.emf2 k0 j0 i0)) := by
  let obs : State → Arr3 ℚ × Arr3 ℚ × ℚ := fun s => (s.emf1, s.emf2, s.B3_x3Face k0 j0 i0)
  let g : Arr3 ℚ × Arr3 ℚ × ℚ → Arr3 ℚ × Arr3 ℚ × ℚ := fun v =>
    (v.1, v.2.1, v.2.2 + (l.q2 * (v.1 k0 (j0 + 1) i0 - v.1 k0 j0 i0) -
       l.q1 * (v.2.1 k0 j0 (i0 + 1) - v.2.1 k0 j0 i0)))
  have key : obs (step4b l s) = g (obs s) := by
    rw [step4b_eq]
    by_cases hkt : k0 = l.ku
    · subst hkt
      apply ctNest_x3 obs _ _ _ _ _ _ _ _ _ _ j0 i0 g hj hi
      · intro s; simp [obs, g, ct4b_x3, set3]
      · intro k j i s _ hk2 _ _ _ _
        have : ¬ l.ku = k := by omega
        simp [obs, ct4b, set3, this]
      · intro k j s _ _ _ _; rfl
      · intro k i s _ _ _ _; rfl
      · intro j i s _ _ _ _ hne
        simp [obs, ct4b_x3, set3, hne]
    · apply ctNest_body obs _ _ _ _ _ _ _ _ _ _ k0 j0 i0 g ⟨hk.1, by omega⟩ hj hi
      · intro s; simp [obs, g, ct4b, set3]
      · intro k j i s _ _ _ _ _ _ hne
        simp [obs, ct4b, set3, hne]
      · intro k j s _ _ _ _; rfl
      · intro k i s _ _ _ _; rfl
      · intro j i s _ _ _ _
        simp [obs, ct4b_x3, set3, hkt]
  exact congrArg (fun v => v.2.2) key

/-- Step 4b leaves `B1_x1Face` alone outside its update range. -/
theorem step4b_B1i_out (l : Locals) (s : State) (k0 j0 i0 : Int) (hne : l.il + 1 ≤ l.iu)
    (h : ¬ (l.kl + 1 ≤ k0 ∧ k0 ≤ l.ku - 1 ∧ l.jl + 1 ≤ j0 ∧ j0 ≤ l.ju - 1 ∧
      l.il + 1 ≤ i0 ∧ i0 ≤ l.iu)) :
    (step4b l s).B1_x1Face k0 j0 i0 = s.B1_x1Face k0 j0 i0 := by
  rw [step4b_eq]
  refine ctNest_frame (fun s => s.B1_x1Face k0 j0 i0) _ _ _ _ _ _ _ _ _ _ ?_ ?_ ?_ ?_ s
  · intro k j i s _ _ _ _ _ _
    have : ¬ (k0 = k ∧ j0 = j ∧ i0 = i) := by omega
    simp [ct4b, set3, this]
  · intro k j s _ _ _ _
    have : ¬ (k0 = k ∧ j0 = j ∧ i0 = l.iu) := by omega
    simp [ct4b_x1, set3, this]
  · intro k i s _ _ _ _; rfl
  · intro j i s _ _ _ _; rfl

/-- Step 4b leaves `B2_x2Face` alone outside its update range. -/
theorem step4b_B2i_out (l : Locals) (s : State) (k0 j0 i0 : Int) (hne : l.jl + 1 ≤ l.ju)
    (h : ¬ (l.kl + 1 ≤ k0 ∧ k0 ≤ l.ku - 1 ∧ l.jl + 1 ≤ j0 ∧ j0 ≤ l.ju ∧
      l.il + 1 ≤ i0 ∧ i0 ≤ l.iu - 1)) :
    (step4b l s).B2_x2Face k0 j0 i0 = s.B2_x2Face k0 j0 i0 := by
  rw [step4b_eq]
  refine ctNest_frame (fun s => s.B2_x2Face k0 j0 i0) _ _ _ _ _ _ _ _ _ _ ?_ ?_ ?_ ?_ s
  · intro k j i s _ _ _ _ _ _
    have : ¬ (k0 = k ∧ j0 = j ∧ i0 = i) := by omega
    simp [ct4b, set3, this]
  · intro k j s _ _ _ _; rfl
  · intro k i s _ _ _ _
    have : ¬ (k0 = k ∧ j0 = l.ju ∧ i0 = i) := by omega
    simp [ct4b_x2, set3, this]
  · intro j i s _ _ _ _; rfl

/-- Step 4b leaves `B3_x3Face` alone outside its update range. -/
theorem step4b_B3i_out (l : Locals) (s : State) (k0 j0 i0 : Int) (hne : l.kl + 1 ≤ l.ku)
    (h : ¬ (l.kl + 1 ≤ k0 ∧ k0 ≤ l.ku ∧ l.jl + 1 ≤ j0 ∧ j0 ≤ l.ju - 1 ∧
      l.il + 1 ≤ i0 ∧ i0 ≤ l.iu - 1)) :
    (step4b l s).B3_x3Face k0 j0 i0 = s.B3_x3Face k0 j0 i0 := by
  rw [step4b_eq]
  refine ctNest_frame (fun s => s.B3_x3Face k0 j0 i0) _ _ _ _ _ _ _ _ _ _ ?_ ?_ ?_ ?_ s
  · intro k j i s _ _ _ _ _ _
    have : ¬ (k0 = k ∧ j0 = j ∧ i0 = i) := by omega
    simp [ct4b, set3, this]
  · intro k j s _ _ _ _; rfl
  · intro k i s _ _ _ _; rfl
  · intro j i s _ _ _ _
    have : ¬ (k0 = l.ku ∧ j0 = j ∧ i0 = i) := by omega
    simp [ct4b_x3, set3, this]

/-! ## Steps 1-3: the copies of the face fields -/

/-- Step 1 copies `pG->B1i` into `B1_x1Face` on the faces `il+1 ≤ i ≤ iu` of every line. -/
theorem step1_B1face (c : Config) (l : Locals) (s : State) (k0 j0 i0 : Int)
    (hk : l.kl ≤ k0 ∧ k0 ≤ l.ku) (hj : l.jl ≤ j0 ∧ j0 ≤ l.ju) (hi : l.il + 1 ≤ i0 ∧ i0 ≤ l.iu) :
    (step1 c l s).B1_x1Face k0 j0 i0 = s.pG.B1i k0 j0 i0 := by
  let obs : State → GridS × ℚ := fun t => (t.pG, t.B1_x1Face k0 j0 i0)
  let g : GridS × ℚ → GridS × ℚ := fun v => (v.1, v.1.B1i k0 j0 i0)
  have key : obs (step1 c l s) = g (obs s) := by
    unfold step1
    refine forLoop2_hit obs _ _ _ _ k0 j0
      (fun k j s => forLoop (l.il + 1) l.iu (fun i s => step1_flux c k j i s)
        (forLoop (l.il + 1) l.iu (fun i s => step1_load k j i s) s)) g hk hj ?_ ?_ s
    · intro t
      show obs (forLoop (l.il + 1) l.iu (fun i s => step1_flux c k0 j0 i s) _) = _
      rw [forLoop_frame obs _ _ (fun i s => step1_flux c k0 j0 i s) (fun _ _ _ _ => rfl)]
      refine forLoop_hit obs _ _ i0 _ g hi.1 hi.2 ?_ ?_ t
      · intro t; simp [obs, g, step1_load, set3]
      · intro i t _ _ hne
        have : ¬ i0 = i := fun h => hne h.symm
        simp [obs, step1_load, set3, this]
    · intro k j t _ _ _ _ hne
      show obs (forLoop (l.il + 1) l.iu (fun i s => step1_flux c k j i s) _) = _
      rw [forLoop_frame obs _ _ (fun i s => step1_flux c k j i s) (fun _ _ _ _ => rfl)]
      refine forLoop_frame obs _ _ _ ?_ t
      intro i t _ _
      simp only [obs, step1_load, set3]
      have : ¬ (k0 = k ∧ j0 = j ∧ i0 = i) := fun h => hne ⟨h.1, h.2.1⟩
      simp [this]
  exact congrArg Prod.snd key

/-- Step 2 copies `pG->B2i` into `B2_x2Face` on the faces `jl+1 ≤ j ≤ ju` of every line. -/
theorem step2_B2face (c : Config) (l : Locals) (s : State) (k0 j0 i0 : Int)
    (hk : l.kl ≤ k0 ∧ k0 ≤ l.ku) (hj : l.jl + 1 ≤ j0 ∧ j0 ≤ l.ju) (hi : l.il ≤ i0 ∧ i0 ≤ l.iu) :
    (step2 c l s).B2_x2Face k0 j0 i0 = s.pG.B2i k0 j0 i0 := by
  let obs : State → GridS × ℚ := fun t => (t.pG, t.B2_x2Face k0 j0 i0)
  let g : GridS × ℚ → GridS × ℚ := fun v => (v.1, v.1.B2i k0 j0 i0)
  have key : obs (step2 c l s) = g (obs s) := by
    unfold step2
    refine forLoop2_hit obs _ _ _ _ k0 i0
      (fun k i s => forLoop (l.jl + 1) l.ju (fun j s => step2_flux c k j i s)
        (forLoop (l.jl + 1) l.ju (fun j s => step2_load k j i s) s)) g hk hi ?_ ?_ s
    · intro t
      show obs (forLoop (l.jl + 1) l.ju (fun j s => step2_flux c k0 j i0 s) _) = _
      rw [forLoop_frame obs _ _ (fun j s => step2_flux c k0 j i0 s) (fun _ _ _ _ => rfl)]
      refine forLoop_hit obs _ _ j0 _ g hj.1 hj.2 ?_ ?_ t
      · intro t; simp [obs, g, step2_load, set3]
      · intro j t _ _ hne
        have : ¬ j0 = j := fun h => hne h.symm
        simp [obs, step2_load, set3, this]
    · intro k i t _ _ _ _ hne
      show obs (forLoop (l.jl + 1) l.ju (fun j s => step2_flux c k j i s) _) = _
      rw [forLoop_frame obs _ _ (fun j s => step2_flux c k j i s) (fun _ _ _ _ => rfl)]
      refine forLoop_frame obs _ _ _ ?_ t
      intro j t _ _
      simp only [obs, step2_load, set3]
      have : ¬ (k0 = k ∧ j0 = j ∧ i0 = i) := fun h => hne ⟨h.1, h.2.2⟩
      simp [this]
  exact congrArg Prod.snd key

/-- Step 3 copies `pG->B3i` into `B3_x3Face` on the faces `kl+1 ≤ k ≤ ku` of every line. -/
theorem step3_B3face (c : Config) (l : Locals) (s : State) (k0 j0 i0 : Int)
    (hk : l.kl + 1 ≤ k0 ∧ k0 ≤ l.ku) (hj : l.jl ≤ j0 ∧ j0 ≤ l.ju) (hi : l.il ≤ i0 ∧ i0 ≤ l.iu) :
    (step3 c l s).B3_x3Face k0 j0 i0 = s.pG.B3i k0 j0 i0 := by
  let obs : State → GridS × ℚ := fun t => (t.pG, t.B3_x3Face k0 j0 i0)
  let g : GridS × ℚ → GridS × ℚ := fun v => (v.1, v.1.B3i k0 j0 i0)
  have key : obs (step3 c l s) = g (obs s) := by
    unfold step3
    refine forLoop2_hit obs _ _ _ _ j0 i0
      (fun j i s => forLoop (l.kl + 1) l.ku (fun k s => step3_flux c k j i s)
        (forLoop (l.kl + 1) l.ku (fun k s => step3_load k j i s) s)) g hj hi ?_ ?_ s
    · intro t
      show obs (forLoop (l.kl + 1) l.ku (fun k s => step3_flux c k j0 i0 s) _) = _
      rw [forLoop_frame obs _ _ (fun k s => step3_flux c k j0 i0 s) (fun _ _ _ _ => rfl)]
      refine forLoop_hit obs _ _ k0 _ g hk.1 hk.2 ?_ ?_ t
      · intro t; simp [obs, g, step3_load, set3]
      · intro k t _ _ hne
        have : ¬ k0 = k := fun h => hne h.symm
        simp [obs, step3_load, set3, this]
    · intro j i t _ _ _ _ hne
      show obs (forLoop (l.kl + 1) l.ku (fun k s => step3_flux c k j i s) _) = _
      rw [forLoop_frame obs _ _ (fun k s => step3_flux c k j i s) (fun _ _ _ _ => rfl)]
      refine forLoop_frame obs _ _ _ ?_ t
      intro k t _ _
      simp only [obs, step3_load, set3]
      have : ¬ (k0 = k ∧ j0 = j ∧ i0 = i) := fun h => hne ⟨h.2.1, h.2.2⟩
      simp [this]
  exact congrArg Prod.snd key

/-! ## C7: the half-step constrained transport preserves the discrete divergence -/

theorem beforeStep4b_eq (c : Config) (s : State) :
    beforeStep4b c s = integrate_emf3_corner c (integrate_emf2_corner c
      (integrate_emf1_corner c (step4a (locals c s.pG) (step3 c (locals c s.pG)
        (step2 c (locals c s.pG) (step1 c (locals c s.pG) (stepInit (locals c s.pG) s))))))) :=
  rfl

theorem beforeStep4b_pG (c : Config) (s : State) : (beforeStep4b c s).pG = s.pG :=
  congrArg Prod.fst (runStages_inv (fun t => outsidePredictor t = outsidePredictor s) _
    (fun f hf t ht => (predictorStages_frame c _ f (List.mem_of_mem_take hf) t).trans ht) s rfl)

/-- Before Step 4b the scratch face fields are copies of the persistent ones, on the
faces Steps 1-3 visit. -/
theorem beforeStep4b_faces (c : Config) (s : State) (k j i : Int)
    (hk : (locals c s.pG).kl ≤ k ∧ k ≤ (locals c s.pG).ku)
    (hj : (locals c s.pG).jl ≤ j ∧ j ≤ (locals c s.pG).ju)
    (hi : (locals c s.pG).il ≤ i ∧ i ≤ (locals c s.pG).iu) :
    ((locals c s.pG).il + 1 ≤ i → (beforeStep4b c s).B1_x1Face k j i = s.pG.B1i k j i) ∧
    ((locals c s.pG).jl + 1 ≤ j → (beforeStep4b c s).B2_x2Face k j i = s.pG.B2i k j i) ∧
    ((locals c s.pG).kl + 1 ≤ k → (beforeStep4b c s).B3_x3Face k j i = s.pG.B3i k j i) := by
  have h0 : (stepInit (locals c s.pG) s).pG = s.pG := by rw [stepInit_eq]; rfl
  have hpre : ∀ t, (integrate_emf3_corner c (integrate_emf2_corner c
      (integrate_emf1_corner c (step4a (locals c s.pG) t)))).B1_x1Face = t.B1_x1Face ∧
      (integrate_emf3_corner c (integrate_emf2_corner c
      (integrate_emf1_corner c (step4a (locals c s.pG) t)))).B2_x2Face = t.B2_x2Face ∧
      (integrate_emf3_corner c (integrate_emf2_corner c
      (integrate_emf1_corner c (step4a (locals c s.pG) t)))).B3_x3Face = t.B3_x3Face := by
    intro t
    rw [integrate_emf3_corner_eq, integrate_emf2_corner_eq, integrate_emf1_corner_eq]
    obtain ⟨a1, a2, a3, h⟩ := step4a_writes (locals c s.pG) t
    rw [h]
    exact ⟨rfl, rfl, rfl⟩
  rw [beforeStep4b_eq]
  obtain ⟨p1, p2, p3⟩ := hpre (step3 c (locals c s.pG)
        (step2 c (locals c s.pG) (step1 c (locals c s.pG) (stepInit (locals c s.pG) s))))
  rw [p1, p2, p3]
  refine ⟨fun h => ?_, fun h => ?_, fun h => ?_⟩
  · obtain ⟨a1, a2, a3, a4, a5, a6, e3⟩ := step3_writes c (locals c s.pG)
      (step2 c (locals c s.pG) (step1 c (locals c s.pG) (stepInit (locals c s.pG) s)))
    obtain ⟨b1, b2, b3, b4, b5, b6, e2⟩ := step2_writes c (locals c s.pG)
      (step1 c (locals c s.pG) (stepInit (locals c s.pG) s))
    rw [e3]
    show (step2 c (locals c s.pG)
      (step1 c (locals c s.pG) (stepInit (locals c s.pG) s))).B1_x1Face k j i = _
    rw [e2]
    show (step1 c (locals c s.pG) (stepInit (locals c s.pG) s)).B1_x1Face k j i = _
    rw [step1_B1face c _ _ k j i hk hj ⟨h, hi.2⟩, h0]
  · obtain ⟨a1, a2, a3, a4, a5, a6, e3⟩ := step3_writes c (locals c s.pG)
      (step2 c (locals c s.pG) (step1 c (locals c s.pG) (stepInit (locals c s.pG) s)))
    obtain ⟨b1, b2, b3, b4, b5, b6, e1⟩ := step1_writes c (locals c s.pG)
      (stepInit (locals c s.pG) s)
    rw [e3]
    show (step2 c (locals c s.pG)
      (step1 c (locals c s.pG) (stepInit (locals c s.pG) s))).B2_x2Face k j i = _
    rw [step2_B2face c _ _ k j i hk ⟨h, hj.2⟩ hi, e1]
    exact congrArg (fun g => g.B2i k j i) h0
  · obtain ⟨b1, b2, b3, b4, b5, b6, e2⟩ := step2_writes c (locals c s.pG)
      (step1 c (locals c s.pG) (stepInit (locals c s.pG) s))
    obtain ⟨a1, a2, a3, a4, a5, a6, e1⟩ := step1_writes c (locals c s.pG)
      (stepInit (locals c s.pG) s)
    rw [step3_B3face c _ _ k j i ⟨h, hk.2⟩ hj hi, e2]
    show (step1 c (locals c s.pG) (stepInit (locals c s.pG) s)).pG.B3i k j i = _
    rw [e1]
    exact congrArg (fun g => g.B3i k j i) h0

/-- Step 4b preserves the divergence of the scratch face field, for any state. -/
theorem step4b_divFace (c : Config) (t : State) (k j i : Int)
    (hx1 : t.pG.dx1 ≠ 0) (hx2 : t.pG.dx2 ≠ 0) (hx3 : t.pG.dx3 ≠ 0)
    (hk : (locals c t.pG).kl + 1 ≤ k ∧ k ≤ (locals c t.pG).ku - 1)
    (hj : (locals c t.pG).jl + 1 ≤ j ∧ j ≤ (locals c t.pG).ju - 1)
    (hi : (locals c t.pG).il + 1 ≤ i ∧ i ≤ (locals c t.pG).iu - 1) :
    divFace (step4b (locals c t.pG) t) k j i = divFace t k j i := by
  have hpG : (step4b (locals c t.pG) t).pG = t.pG := by
    obtain ⟨b1, b2, b3, h⟩ := step4b_writes (locals c t.pG) t; rw [h]
  unfold divFace
  rw [hpG,
    step4b_B1i _ t k j (i + 1) hk hj ⟨by omega, by omega⟩,
    step4b_B1i _ t k j i hk hj ⟨hi.1, by omega⟩,
    step4b_B2i _ t k (j + 1) i hk ⟨by omega, by omega⟩ hi,
    step4b_B2i _ t k j i hk ⟨hj.1, by omega⟩ hi,
    step4b_B3i _ t (k + 1) j i ⟨by omega, by omega⟩ hj hi,
    step4b_B3i _ t k j i ⟨hk.1, by omega⟩ hj hi]
  simp only [locals]
  field_simp
  ring

/-- C7: the half-step constrained transport preserves the discrete divergence of
the scratch face field. In exact arithmetic, for arbitrary corner EMFs (any state)
and every cell with `il+1 ≤ i ≤ iu-1`, `jl+1 ≤ j ≤ ju-1`, `kl+1 ≤ k ≤ ku-1`, the
divergence of `(B1_x1Face, B2_x2Face, B3_x3Face)` after Step 4b is the one before
it, and in `integrate_3d_vl` it is the divergence of the persistent
`(B1i, B2i, B3i)` the copies were taken from; the cells `i = iu-1`, `j = ju-1`,
`k = ku-1` are included, their outer faces being updated by the extra statements. -/
theorem C7_half_step_divergence (c : Config) (s : State) (k j i : Int)
    (hx1 : s.pG.dx1 ≠ 0) (hx2 : s.pG.dx2 ≠ 0) (hx3 : s.pG.dx3 ≠ 0)
    (hk : (locals c s.pG).kl + 1 ≤ k ∧ k ≤ (locals c s.pG).ku - 1)
    (hj : (locals c s.pG).jl + 1 ≤ j ∧ j ≤ (locals c s.pG).ju - 1)
    (hi : (locals c s.pG).il + 1 ≤ i ∧ i ≤ (locals c s.pG).iu - 1) :
    divFace (step4b (locals c s.pG) s) k j i = divFace s k j i ∧
    divFace (step4b (locals c s.pG) (beforeStep4b c s)) k j i = divB s.pG k j i := by
  refine ⟨step4b_divFace c s k j i hx1 hx2 hx3 hk hj hi, ?_⟩
  have hpG := beforeStep4b_pG c s
  have key := step4b_divFace c (beforeStep4b c s) k j i (by rw [hpG]; exact hx1)
    (by rw [hpG]; exact hx2) (by rw [hpG]; exact hx3) (by rw [hpG]; exact hk)
    (by rw [hpG]; exact hj) (by rw [hpG]; exact hi)
  rw [hpG] at key
  rw [key]
  unfold divFace divB
  rw [hpG,
    (beforeStep4b_faces c s k j (i + 1) ⟨by omega, by omega⟩ ⟨by omega, by omega⟩
      ⟨by omega, by omega⟩).1 (by omega),
    (beforeStep4b_faces c s k j i ⟨by omega, by omega⟩ ⟨by omega, by omega⟩
      ⟨by omega, by omega⟩).1 (by omega),
    (beforeStep4b_faces c s k (j + 1) i ⟨by omega, by omega⟩ ⟨by omega, by omega⟩
      ⟨by omega, by omega⟩).2.1 (by omega),
    (beforeStep4b_faces c s k j i ⟨by omega, by omega⟩ ⟨by omega, by omega⟩
      ⟨by omega, by omega⟩).2.1 (by omega),
    (beforeStep4b_faces c s (k + 1) j i ⟨by omega, by omega⟩ ⟨by omega, by omega⟩
      ⟨by omega, by omega⟩).2.2 (by omega),
    (beforeStep4b_faces c s k j i ⟨by omega, by omega⟩ ⟨by omega, by omega⟩
      ⟨by omega, by omega⟩).2.2 (by omega)]

/-- C7 at the cell `(0, 0, 0)` of `demoState`. -/
theorem C7_witness :
    divFace (step4b (locals demoConfig demoState.pG) demoState) 0 0 0 = divFace demoState 0 0 0 ∧
    divFace (step4b (locals demoConfig demoState.pG) (beforeStep4b demoConfig demoState)) 0 0 0
      = divB demoState.pG 0 0 0 :=
  C7_half_step_divergence demoConfig demoState 0 0 0
    (by simp [demoState, demoGrid]) (by simp [demoState, demoGrid])
    (by simp [demoState, demoGrid]) (by decide) (by decide) (by decide)

/-! ## C8: the gravitational energy source and the flux form of total energy -/

theorem stepMassFlux_U (l : Locals) (s : State) : (stepMassFlux l s).pG.U = s.pG.U := by
  obtain ⟨a1, a2, a3, h⟩ := stepMassFlux_writes l s; rw [h]

/-- The cell of `pG->U` after the active source terms of Step 12a. -/
theorem step12a_U (c : Config) (l : Locals) (s : State) (k j i : Int)
    (hin : l.kl + 1 ≤ k ∧ k ≤ l.ku - 1 ∧ l.jl + 1 ≤ j ∧ j ≤ l.ju - 1 ∧
      l.il + 1 ≤ i ∧ i ≤ l.iu - 1) :
    (step12a c l s).pG.U k j i =
      match c.StaticGravPot with
      | some pot => step12a_cell c pot l s k j i (s.pG.U k j i)
      | none => s.pG.U k j i := by
  cases hp : c.StaticGravPot with
  | none => rw [step12a_none c l s hp]
  | some pot =>
    rw [step12a_some c l s pot hp]
    simp only [lensU, cellMap, hin, and_self, if_true]

/-- Everything Step 12a leaves alone. -/
theorem step12a_ro (c : Config) (l : Locals) (s : State) :
    (step12a c l s).x1Flux = s.x1Flux ∧ (step12a c l s).x2Flux = s.x2Flux ∧
    (step12a c l s).x3Flux = s.x3Flux ∧ (step12a c l s).pG.Phi = s.pG.Phi ∧
    (step12a c l s).pG.dx1 = s.pG.dx1 ∧ (step12a c l s).pG.dx2 = s.pG.dx2 ∧
    (step12a c l s).pG.dx3 = s.pG.dx3 := by
  cases hp : c.StaticGravPot with
  | none => rw [step12a_none c l s hp]; exact ⟨rfl, rfl, rfl, rfl, rfl, rfl, rfl⟩
  | some pot => rw [step12a_some c l s pot hp]; exact ⟨rfl, rfl, rfl, rfl, rfl, rfl, rfl⟩

/-- The cell of `pG->U` after Step 12b with self-gravity on, in an active cell that
the first loop also visits. -/
theorem step12b_U_on (c : Config) (l : Locals) (s : State) (k j i : Int)
    (hg : c.SELF_GRAVITY = true)
    (hin : l.kl + 1 ≤ k ∧ k ≤ l.ku - 1 ∧ l.jl + 1 ≤ j ∧ j ≤ l.ju - 1 ∧
      l.il + 1 ≤ i ∧ i ≤ l.iu - 1)
    (hact : l.ks ≤ k ∧ k ≤ l.ke ∧ l.js ≤ j ∧ j ≤ l.je ∧ l.is ≤ i ∧ i ≤ l.ie) :
    (step12b c l s).pG.U k j i =
      step12b3_cell c l s k j i (step12b2_cell c l s k j i
        (step12b1_cell c l s k j i (s.pG.U k j i))) := by
  unfold step12b
  rw [hg]
  simp only [if_true]
  rw [stepMassFlux_U, step12b3_eq, step12b2_eq, step12b1_eq]
  simp only [lensU, cellMap, hin, hact, and_self, if_true]
  rfl

/-- The cell of `pG->U` after Step 12b with self-gravity on, in a cell that only the
first loop visits. -/
theorem step12b_U_ghost (c : Config) (l : Locals) (s : State) (k j i : Int)
    (hg : c.SELF_GRAVITY = true)
    (hin : l.kl + 1 ≤ k ∧ k ≤ l.ku - 1 ∧ l.jl + 1 ≤ j ∧ j ≤ l.ju - 1 ∧
      l.il + 1 ≤ i ∧ i ≤ l.iu - 1)
    (hact : ¬ (l.ks ≤ k ∧ k ≤ l.ke ∧ l.js ≤ j ∧ j ≤ l.je ∧ l.is ≤ i ∧ i ≤ l.ie)) :
    (step12b c l s).pG.U k j i = step12b1_cell c l s k j i (s.pG.U k j i) := by
  unfold step12b
  rw [hg]
  simp only [if_true]
  rw [stepMassFlux_U, step12b3_eq, step12b2_eq, step12b1_eq]
  simp only [lensU, cellMap, hin, hact, and_self, if_true, if_false]

/-- Everything Step 12b leaves alone. -/
theorem step12b_ro (c : Config) (l : Locals) (s : State) :
    (step12b c l s).x1Flux = s.x1Flux ∧ (step12b c l s).x2Flux = s.x2Flux ∧
    (step12b c l s).x3Flux = s.x3Flux := by
  cases hg : c.SELF_GRAVITY with
  | false => rw [step12b_off c l s hg]; exact ⟨rfl, rfl, rfl⟩
  | true =>
    unfold step12b
    rw [hg]
    simp only [if_true]
    obtain ⟨a1, a2, a3, h⟩ := stepMassFlux_writes l (step12b3 c l (step12b2 c l (step12b1 c l s)))
    rw [h, step12b3_eq, step12b2_eq, step12b1_eq]
    exact ⟨rfl, rfl, rfl⟩

/-- The cell of `pG->U` after Steps 12 and 13, in a cell of the update range. -/
theorem step12_13_U (c : Config) (l : Locals) (s : State) (k j i : Int)
    (hin : l.kb + 1 ≤ k ∧ k ≤ l.kt - 1 ∧ l.jb + 1 ≤ j ∧ j ≤ l.jt - 1 ∧
      l.ib + 1 ≤ i ∧ i ≤ l.it - 1) :
    (step12_13 c l s).pG.U k j i =
      flux3Update l.dtodx3 s.x3Flux k j i (flux2Update l.dtodx2 s.x2Flux k j i
        (flux1Update l.dtodx1 s.x1Flux k j i ((step12b c l (step12a c l s)).pG.U k j i))) := by
  unfold step12_13
  rw [step13_eq]
  simp only [lensU, hin, and_self, if_true]
  obtain ⟨a1, a2, a3⟩ := step12b_ro c l (step12a c l s)
  obtain ⟨b1, b2, b3, _⟩ := step12a_ro c l s
  rw [a1, a2, a3, b1, b2, b3]

theorem ReconOrder.offset_pos (o : ReconOrder) : 1 ≤ o.offset ∧ o.offset ≤ 3 := by
  cases o <;> decide

/-- The update range of the corrector lies inside the range of the predictor. -/
theorem locals_range (c : Config) (pG : GridS) (k j i : Int)
    (hin : (locals c pG).kb + 1 ≤ k ∧ k ≤ (locals c pG).kt - 1 ∧
      (locals c pG).jb + 1 ≤ j ∧ j ≤ (locals c pG).jt - 1 ∧
      (locals c pG).ib + 1 ≤ i ∧ i ≤ (locals c pG).it - 1) :
    (locals c pG).kl + 1 ≤ k ∧ k ≤ (locals c pG).ku - 1 ∧
      (locals c pG).jl + 1 ≤ j ∧ j ≤ (locals c pG).ju - 1 ∧
      (locals c pG).il + 1 ≤ i ∧ i ≤ (locals c pG).iu - 1 := by
  have h := c.order.offset_pos
  simp only [locals] at hin ⊢
  omega

theorem step12b1_cell_congr (c : Config) (l : Locals) (s t : State) (k j i : Int) (u : Gas)
    (h1 : t.pG.Phi = s.pG.Phi) (h2 : t.pG.dx1 = s.pG.dx1) (h3 : t.pG.dx2 = s.pG.dx2)
    (h4 : t.pG.dx3 = s.pG.dx3) (h5 : t.x1Flux = s.x1Flux) :
    step12b1_cell c l t k j i u = step12b1_cell c l s k j i u := by
  simp only [step12b1_cell, gravFlux1, h1, h2, h3, h4, h5]

theorem step12b2_cell_congr (c : Config) (l : Locals) (s t : State) (k j i : Int) (u : Gas)
    (h1 : t.pG.Phi = s.pG.Phi) (h2 : t.pG.dx1 = s.pG.dx1) (h3 : t.pG.dx2 = s.pG.dx2)
    (h4 : t.pG.dx3 = s.pG.dx3) (h5 : t.x2Flux = s.x2Flux) :
    step12b2_cell c l t k j i u = step12b2_cell c l s k j i u := by
  simp only [step12b2_cell, gravFlux2, h1, h2, h3, h4, h5]

theorem step12b3_cell_congr (c : Config) (l : Locals) (s t : State) (k j i : Int) (u : Gas)
    (h1 : t.pG.Phi = s.pG.Phi) (h2 : t.pG.dx1 = s.pG.dx1) (h3 : t.pG.dx2 = s.pG.dx2)
    (h4 : t.pG.dx3 = s.pG.dx3) (h5 : t.x3Flux = s.x3Flux) :
    step12b3_cell c l t k j i u = step12b3_cell c l s k j i u := by
  simp only [step12b3_cell, gravFlux3, h1, h2, h3, h4, h5]

/-- The change of total energy of a cell over Steps 12 and 13 is in flux form,
where all the source terms of the active potentials are applied to the cell. -/
theorem energy_flux_form_cell (c : Config) (s : State) (k j i : Int)
    (hin : (locals c s.pG).kb + 1 ≤ k ∧ k ≤ (locals c s.pG).kt - 1 ∧
      (locals c s.pG).jb + 1 ≤ j ∧ j ≤ (locals c s.pG).jt - 1 ∧
      (locals c s.pG).ib + 1 ≤ i ∧ i ≤ (locals c s.pG).it - 1)
    (hact : c.SELF_GRAVITY = true →
      s.pG.ks ≤ k ∧ k ≤ s.pG.ke ∧ s.pG.js ≤ j ∧ j ≤ s.pG.je ∧ s.pG.is ≤ i ∧ i ≤ s.pG.ie) :
    totalEnergy ((step12_13 c (locals c s.pG) s).pG.U k j i) (gravPhi c s.pG k j i).phic
        - totalEnergy (s.pG.U k j i) (gravPhi c s.pG k j i).phic =
      - (s.pG.dt / s.pG.dx1) *
          (totalEnergyFlux (s.x1Flux k j (i + 1)) (gravPhi c s.pG k j i).phir1
            - totalEnergyFlux (s.x1Flux k j i) (gravPhi c s.pG k j i).phil1)
      - (s.pG.dt / s.pG.dx2) *
          (totalEnergyFlux (s.x2Flux k (j + 1) i) (gravPhi c s.pG k j i).phir2
            - totalEnergyFlux (s.x2Flux k j i) (gravPhi c s.pG k j i).phil2)
      - (s.pG.dt / s.pG.dx3) *
          (totalEnergyFlux (s.x3Flux (k + 1) j i) (gravPhi c s.pG k j i).phir3
            - totalEnergyFlux (s.x3Flux k j i) (gravPhi c s.pG k j i).phil3) := by
  have hin' := locals_range c s.pG k j i hin
  obtain ⟨r1, r2, r3, r4, r5, r6, r7⟩ := step12a_ro c (locals c s.pG) s
  rw [step12_13_U c _ s k j i hin]
  cases hg : c.SELF_GRAVITY with
  | false =>
    rw [step12b_off c _ _ hg, step12a_U c _ s k j i hin']
    cases hp : c.StaticGravPot with
    | none =>
      simp only [gravPhi, hp, hg, totalEnergy, totalEnergyFlux, flux1Update, flux2Update,
        flux3Update, locals]
      simp
      ring
    | some pot =>
      simp only [gravPhi, hp, hg, totalEnergy, totalEnergyFlux, flux1Update, flux2Update,
        flux3Update, locals, step12a_cell, staticPhi]
      simp
      ring
  | true =>
    rw [step12b_U_on c _ _ k j i hg hin' (hact hg),
      step12b3_cell_congr c _ s _ k j i _ r4 r5 r6 r7 r3,
      step12b2_cell_congr c _ s _ k j i _ r4 r5 r6 r7 r2,
      step12b1_cell_congr c _ s _ k j i _ r4 r5 r6 r7 r1,
      step12a_U c _ s k j i hin']
    cases hp : c.StaticGravPot with
    | none =>
      simp only [gravPhi, hp, hg, totalEnergy, totalEnergyFlux, flux1Update, flux2Update,
        flux3Update, locals, selfPhi, step12b1_cell, step12b2_cell, step12b3_cell,
        gravFlux1, gravFlux2, gravFlux3]
      simp
      ring
    | some pot =>
      simp only [gravPhi, hp, hg, totalEnergy, totalEnergyFlux, flux1Update, flux2Update,
        flux3Update, locals, selfPhi, step12b1_cell, step12b2_cell, step12b3_cell,
        gravFlux1, gravFlux2, gravFlux3, step12a_cell, staticPhi]
      simp
      ring

/-- With self-gravity on, the ghost cell `(0, 0, 1)` of `demoState` lies in the update
range `[ib+1, it-1]` of Step 13, the face potential is single-valued, and yet the
change of `E + d*phic` over Steps 12 and 13 is not the flux-form expression: Step 12b
applies its `d/dx2` and `d/dx3` energy terms to the active cells only. -/
theorem C8_counterexample :
    ((locals demoConfigSG demoState.pG).ib + 1 ≤ 1 ∧ 1 ≤ (locals demoConfigSG demoState.pG).it - 1 ∧
      (locals demoConfigSG demoState.pG).jb + 1 ≤ 0 ∧ 0 ≤ (locals demoConfigSG demoState.pG).jt - 1 ∧
      (locals demoConfigSG demoState.pG).kb + 1 ≤ 0 ∧
      0 ≤ (locals demoConfigSG demoState.pG).kt - 1) ∧
    (∀ k j i, (gravPhi demoConfigSG demoState.pG k j i).phir1
        = (gravPhi demoConfigSG demoState.pG k j (i + 1)).phil1) ∧
    totalEnergy ((step12_13 demoConfigSG (locals demoConfigSG demoState.pG) demoState).pG.U 0 0 1)
          (gravPhi demoConfigSG demoState.pG 0 0 1).phic
        - totalEnergy (demoState.pG.U 0 0 1) (gravPhi demoConfigSG demoState.pG 0 0 1).phic ≠
      - (demoState.pG.dt / demoState.pG.dx1) *
          (totalEnergyFlux (demoState.x1Flux 0 0 (1 + 1)) (gravPhi demoConfigSG demoState.pG 0 0 1).phir1
            - totalEnergyFlux (demoState.x1Flux 0 0 1) (gravPhi demoConfigSG demoState.pG 0 0 1).phil1)
      - (demoState.pG.dt / demoState.pG.dx2) *
          (totalEnergyFlux (demoState.x2Flux 0 (0 + 1) 1) (gravPhi demoConfigSG demoState.pG 0 0 1).phir2
            - totalEnergyFlux (demoState.x2Flux 0 0 1) (gravPhi demoConfigSG demoState.pG 0 0 1).phil2)
      - (demoState.pG.dt / demoState.pG.dx3) *
          (totalEnergyFlux (demoState.x3Flux (0 + 1) 0 1) (gravPhi demoConfigSG demoState.pG 0 0 1).phir3
            - totalEnergyFlux (demoState.x3Flux 0 0 1)
                (gravPhi demoConfigSG demoState.pG 0 0 1).phil3) := by
  refine ⟨by decide, ?_, ?_⟩
  · intro k j i
    simp only [gravPhi, demoConfigSG, demoConfig, selfPhi]
    simp
  · rw [step12_13_U demoConfigSG _ demoState 0 0 1 (by decide),
      step12a_none demoConfigSG _ _ rfl,
      step12b_U_ghost demoConfigSG _ _ 0 0 1 rfl (by decide) (by decide)]
    simp only [gravPhi, demoConfigSG, demoConfig, selfPhi, totalEnergy, totalEnergyFlux,
      flux1Update, flux2Update, flux3Update, step12b1_cell, gravFlux1, locals, demoState,
      demoGrid]
    norm_num

/-- C8 (amended): the gravitational energy source keeps total energy in flux form
where every source term is applied. For the static potential of Step 12a in every cell
with `ib+1 ≤ i ≤ it-1` (likewise `j`, `k`), and with self-gravity in every such cell
that is also active (`is ≤ i ≤ ie`, likewise `j`, `k`), the change of `E + d*phic`
over Steps 12 and 13 is `-(dt/dx1)[(F1[i+1].E + F1[i+1].d*phir) - (F1[i].E +
F1[i].d*phil)]` plus the analogous x2 and x3 terms; and when the face potential is
single-valued along a row of such cells (`phir` of cell `i` is `phil` of cell `i+1`),
the x1 terms of the row sum to the two end-face terms only. -/
theorem C8_energy_flux_form (c : Config) (s : State) (k j a b : Int) (hab : a ≤ b)
    (hrow : ∀ i, a ≤ i → i ≤ b →
      (locals c s.pG).kb + 1 ≤ k ∧ k ≤ (locals c s.pG).kt - 1 ∧
      (locals c s.pG).jb + 1 ≤ j ∧ j ≤ (locals c s.pG).jt - 1 ∧
      (locals c s.pG).ib + 1 ≤ i ∧ i ≤ (locals c s.pG).it - 1)
    (hact : c.SELF_GRAVITY = true → ∀ i, a ≤ i → i ≤ b →
      s.pG.ks ≤ k ∧ k ≤ s.pG.ke ∧ s.pG.js ≤ j ∧ j ≤ s.pG.je ∧ s.pG.is ≤ i ∧ i ≤ s.pG.ie)
    (hsv : ∀ i, a ≤ i → i < b →
      (gravPhi c s.pG k j i).phir1 = (gravPhi c s.pG k j (i + 1)).phil1) :
    (∀ i, a ≤ i → i ≤ b →
      totalEnergy ((step12_13 c (locals c s.pG) s).pG.U k j i) (gravPhi c s.pG k j i).phic
          - totalEnergy (s.pG.U k j i) (gravPhi c s.pG k j i).phic =
        - (s.pG.dt / s.pG.dx1) *
            (totalEnergyFlux (s.x1Flux k j (i + 1)) (gravPhi c s.pG k j i).phir1
              - totalEnergyFlux (s.x1Flux k j i) (gravPhi c s.pG k j i).phil1)
        - (s.pG.dt / s.pG.dx2) *
            (totalEnergyFlux (s.x2Flux k (j + 1) i) (gravPhi c s.pG k j i).phir2
              - totalEnergyFlux (s.x2Flux k j i) (gravPhi c s.pG k j i).phil2)
        - (s.pG.dt / s.pG.dx3) *
            (totalEnergyFlux (s.x3Flux (k + 1) j i) (gravPhi c s.pG k j i).phir3
              - totalEnergyFlux (s.x3Flux k j i) (gravPhi c s.pG k j i).phil3)) ∧
    (∑ i in Finset.Icc a b,
        (totalEnergy ((step12_13 c (locals c s.pG) s).pG.U k j i) (gravPhi c s.pG k j i).phic
          - totalEnergy (s.pG.U k j i) (gravPhi c s.pG k j i).phic) =
      - (s.pG.dt / s.pG.dx1) *
          (totalEnergyFlux (s.x1Flux k j (b + 1)) (gravPhi c s.pG k j b).phir1
            - totalEnergyFlux (s.x1Flux k j a) (gravPhi c s.pG k j a).phil1)
      - ∑ i in Finset.Icc a b,
          ((s.pG.dt / s.pG.dx2) *
            (totalEnergyFlux (s.x2Flux k (j + 1) i) (gravPhi c s.pG k j i).phir2
              - totalEnergyFlux (s.x2Flux k j i) (gravPhi c s.pG k j i).phil2)
          + (s.pG.dt / s.pG.dx3) *
            (totalEnergyFlux (s.x3Flux (k + 1) j i) (gravPhi c s.pG k j i).phir3
              - totalEnergyFlux (s.x3Flux k j i) (gravPhi c s.pG k j i).phil3))) := by
  have cell : ∀ i, a ≤ i → i ≤ b → _ := fun i h1 h2 =>
    energy_flux_form_cell c s k j i (hrow i h1 h2) (fun hg => hact hg i h1 h2)
  refine ⟨cell, ?_⟩
  let H : Int → ℚ := fun m =>
    if m ≤ b then totalEnergyFlux (s.x1Flux k j m) (gravPhi c s.pG k j m).phil1
    else totalEnergyFlux (s.x1Flux k j m) (gravPhi c s.pG k j (m - 1)).phir1
  have hH : ∀ i, a ≤ i → i ≤ b →
      totalEnergyFlux (s.x1Flux k j (i + 1)) (gravPhi c s.pG k j i).phir1
        - totalEnergyFlux (s.x1Flux k j i) (gravPhi c s.pG k j i).phil1 = H (i + 1) - H i := by
    intro i h1 h2
    simp only [H, h2, if_true]
    by_cases h3 : i + 1 ≤ b
    · simp only [h3, if_true]
      rw [hsv i h1 (by omega)]
    · simp only [h3, if_false]
      have : i + 1 - 1 = i := by ring
      rw [this]
  have tel := sum_Icc_telescope H a b (by omega)
  have hHa : H a = totalEnergyFlux (s.x1Flux k j a) (gravPhi c s.pG k j a).phil1 := by
    simp only [H, hab, if_true]
  have hHb : H (b + 1) =
      totalEnergyFlux (s.x1Flux k j (b + 1)) (gravPhi c s.pG k j b).phir1 := by
    have h3 : ¬ b + 1 ≤ b := by omega
    have : b + 1 - 1 = b := by ring
    simp only [H, h3, if_false, this]
  rw [← hHa, ← hHb, ← tel, Finset.mul_sum, ← Finset.sum_sub_distrib]
  refine Finset.sum_congr rfl (fun i hi => ?_)
  rw [Finset.mem_Icc] at hi
  rw [cell i hi.1 hi.2, hH i hi.1 hi.2]
  ring

/-- C8 (amended) on the row `i = 0..0` of the active cell `(0, 0, 0)` of `demoState`,
with self-gravity on. -/
theorem C8_witness :
    totalEnergy ((step12_13 demoConfigSG (locals demoConfigSG demoState.pG) demoState).pG.U 0 0 0)
          (gravPhi demoConfigSG demoState.pG 0 0 0).phic
        - totalEnergy (demoState.pG.U 0 0 0) (gravPhi demoConfigSG demoState.pG 0 0 0).phic =
      - (demoState.pG.dt / demoState.pG.dx1) *
          (totalEnergyFlux (demoState.x1Flux 0 0 (0 + 1)) (gravPhi demoConfigSG demoState.pG 0 0 0).phir1
            - totalEnergyFlux (demoState.x1Flux 0 0 0) (gravPhi demoConfigSG demoState.pG 0 0 0).phil1)
      - (demoState.pG.dt / demoState.pG.dx2) *
          (totalEnergyFlux (demoState.x2Flux 0 (0 + 1) 0) (gravPhi demoConfigSG demoState.pG 0 0 0).phir2
            - totalEnergyFlux (demoState.x2Flux 0 0 0) (gravPhi demoConfigSG demoState.pG 0 0 0).phil2)
      - (demoState.pG.dt / demoState.pG.dx3) *
          (totalEnergyFlux (demoState.x3Flux (0 + 1) 0 0) (gravPhi demoConfigSG demoState.pG 0 0 0).phir3
            - totalEnergyFlux (demoState.x3Flux 0 0 0)
                (gravPhi demoConfigSG demoState.pG 0 0 0).phil3) :=
  (C8_energy_flux_form demoConfigSG demoState 0 0 0 0 (le_refl 0)
    (fun i h1 h2 => by
      have : i = 0 := le_antisymm h2 h1
      subst this; decide)
    (fun _ i h1 h2 => by
      have : i = 0 := le_antisymm h2 h1
      subst this; decide)
    (fun i h1 h2 => absurd h1 (not_le.mpr h2))).1 0 (le_refl 0) (le_refl 0)

/-- The left fluxes of the `d/dx1` loop of Step 12b at a cell are the right fluxes at
its lower x1-neighbour. -/
theorem gravFlux1_match (c : Config) (pG : GridS) (m : Mom) (k j i : Int) :
    m.left (gravFlux1 c pG k j i) = m.right (gravFlux1 c pG k j (i - 1)) := by
  have h : i - 1 + 1 = i := by ring
  cases m <;> simp only [Mom.left, Mom.right, gravFlux1, h]

/-- The left fluxes of the `d/dx2` loop of Step 12b at a cell are the right fluxes at
its lower x2-neighbour. -/
theorem gravFlux2_match (c : Config) (pG : GridS) (m : Mom) (k j i : Int) :
    m.left (gravFlux2 c pG k j i) = m.right (gravFlux2 c pG k (j - 1) i) := by
  have h : j - 1 + 1 = j := by ring
  cases m <;> simp only [Mom.left, Mom.right, gravFlux2, h]

/-- The left fluxes of the `d/dx3` loop of Step 12b at a cell are the right fluxes at
its lower x3-neighbour. -/
theorem gravFlux3_match (c : Config) (pG : GridS) (m : Mom) (k j i : Int) :
    m.left (gravFlux3 c pG k j i) = m.right (gravFlux3 c pG (k - 1) j i) := by
  have h : k - 1 + 1 = k := by ring
  cases m <;> simp only [Mom.left, Mom.right, gravFlux3, h]

theorem mom_step12b1_cell (c : Config) (l : Locals) (s : State) (m : Mom) (k j i : Int)
    (u : Gas) :
    m.cell (step12b1_cell c l s k j i u) = m.cell u -
      l.dtodx1 * (m.right (gravFlux1 c s.pG k j i) - m.left (gravFlux1 c s.pG k j i)) := by
  cases m <;> rfl

theorem mom_step12b2_cell (c : Config) (l : Locals) (s : State) (m : Mom) (k j i : Int)
    (u : Gas) :
    m.cell (step12b2_cell c l s k j i u) = m.cell u -
      l.dtodx2 * (m.right (gravFlux2 c s.pG k j i) - m.left (gravFlux2 c s.pG k j i)) := by
  cases m <;> rfl

theorem mom_step12b3_cell (c : Config) (l : Locals) (s : State) (m : Mom) (k j i : Int)
    (u : Gas) :
    m.cell (step12b3_cell c l s k j i u) = m.cell u -
      l.dtodx3 * (m.right (gravFlux3 c s.pG k j i) - m.left (gravFlux3 c s.pG k j i)) := by
  cases m <;> rfl

/-- A sum of scaled right-minus-left differences whose left value at a cell is the
right value at the cell below telescopes to the two ends. -/
theorem sum_flux_form (r : ℚ) (L R : Int → ℚ) (a b : Int) (hab : a ≤ b)
    (hm : ∀ i, L (i + 1) = R i) :
    ∑ i in Finset.Icc a b, (- (r * (R i - L i))) = - r * (R b - L a) := by
  have tel := sum_Icc_telescope L a b (by omega)
  rw [← hm b, ← tel, Finset.mul_sum]
  refine Finset.sum_congr rfl (fun i _ => ?_)
  rw [hm i]
  ring

/-- C9: the self-gravity momentum source of Step 12b is in conservative flux form.
For any potential array and each direction, the left gravitational momentum fluxes
`flx_m1l`, `flx_m2l`, `flx_m3l` computed for a cell are the right fluxes `flx_m1r`,
`flx_m2r`, `flx_m3r` computed for its lower neighbour in that direction; hence the
change each of the three loops of Step 12b makes to a momentum component, summed over
a row of consecutive cells of its loop range along its direction, is `-(dt/dx)` times
the difference of the two end-face fluxes. -/
theorem C9_selfgravity_momentum_flux_form (c : Config) (s : State) (m : Mom) :
    (∀ k j i, m.left (gravFlux1 c s.pG k j i) = m.right (gravFlux1 c s.pG k j (i - 1))) ∧
    (∀ k j i, m.left (gravFlux2 c s.pG k j i) = m.right (gravFlux2 c s.pG k (j - 1) i)) ∧
    (∀ k j i, m.left (gravFlux3 c s.pG k j i) = m.right (gravFlux3 c s.pG (k - 1) j i)) ∧
    (∀ k j a b : Int, a ≤ b →
      (locals c s.pG).kl + 1 ≤ k ∧ k ≤ (locals c s.pG).ku - 1 ∧
      (locals c s.pG).jl + 1 ≤ j ∧ j ≤ (locals c s.pG).ju - 1 ∧
      (locals c s.pG).il + 1 ≤ a ∧ b ≤ (locals c s.pG).iu - 1 →
      ∑ i in Finset.Icc a b,
          (m.cell ((step12b1 c (locals c s.pG) s).pG.U k j i) - m.cell (s.pG.U k j i)) =
        - (s.pG.dt / s.pG.dx1) *
          (m.right (gravFlux1 c s.pG k j b) - m.left (gravFlux1 c s.pG k j a))) ∧
    (∀ k i a b : Int, a ≤ b →
      s.pG.ks ≤ k ∧ k ≤ s.pG.ke ∧ s.pG.js ≤ a ∧ b ≤ s.pG.je ∧ s.pG.is ≤ i ∧ i ≤ s.pG.ie →
      ∑ j in Finset.Icc a b,
          (m.cell ((step12b2 c (locals c s.pG) s).pG.U k j i) - m.cell (s.pG.U k j i)) =
        - (s.pG.dt / s.pG.dx2) *
          (m.right (gravFlux2 c s.pG k b i) - m.left (gravFlux2 c s.pG k a i))) ∧
    (∀ j i a b : Int, a ≤ b →
      s.pG.ks ≤ a ∧ b ≤ s.pG.ke ∧ s.pG.js ≤ j ∧ j ≤ s.pG.je ∧ s.pG.is ≤ i ∧ i ≤ s.pG.ie →
      ∑ k in Finset.Icc a b,
          (m.cell ((step12b3 c (locals c s.pG) s).pG.U k j i) - m.cell (s.pG.U k j i)) =
        - (s.pG.dt / s.pG.dx3) *
          (m.right (gravFlux3 c s.pG b j i) - m.left (gravFlux3 c s.pG a j i))) := by
  refine ⟨gravFlux1_match c s.pG m, gravFlux2_match c s.pG m, gravFlux3_match c s.pG m,
    ?_, ?_, ?_⟩
  · intro k j a b hab hin
    rw [← sum_flux_form (s.pG.dt / s.pG.dx1) (fun i => m.left (gravFlux1 c s.pG k j i))
      (fun i => m.right (gravFlux1 c s.pG k j i)) a b hab
      (fun i => by
        have h := gravFlux1_match c s.pG m k j (i + 1)
        have e : i + 1 - 1 = i := by ring
        rw [e] at h
        exact h)]
    refine Finset.sum_congr rfl (fun i hi => ?_)
    rw [Finset.mem_Icc] at hi
    have hi1 : (locals c s.pG).il + 1 ≤ i := le_trans hin.2.2.2.2.1 hi.1
    have hi2 : i ≤ (locals c s.pG).iu - 1 := le_trans hi.2 hin.2.2.2.2.2
    have hU : (step12b1 c (locals c s.pG) s).pG.U k j i =
        step12b1_cell c (locals c s.pG) s k j i (s.pG.U k j i) := by
      rw [step12b1_eq]
      simp only [lensU, cellMap, hin.1, hin.2.1, hin.2.2.1, hin.2.2.2.1, hi1, hi2, and_self,
        if_true]
    rw [hU, mom_step12b1_cell]
    show _ - (s.pG.dt / s.pG.dx1) * _ - _ = _
    ring
  · intro k i a b hab hin
    rw [← sum_flux_form (s.pG.dt / s.pG.dx2) (fun j => m.left (gravFlux2 c s.pG k j i))
      (fun j => m.right (gravFlux2 c s.pG k j i)) a b hab
      (fun j => by
        have h := gravFlux2_match c s.pG m k (j + 1) i
        have e : j + 1 - 1 = j := by ring
        rw [e] at h
        exact h)]
    refine Finset.sum_congr rfl (fun j hj => ?_)
    rw [Finset.mem_Icc] at hj
    have hj1 : (locals c s.pG).js ≤ j := le_trans hin.2.2.1 hj.1
    have hj2 : j ≤ (locals c s.pG).je := le_trans hj.2 hin.2.2.2.1
    have hk1 : (locals c s.pG).ks ≤ k := hin.1
    have hk2 : k ≤ (locals c s.pG).ke := hin.2.1
    have hi1 : (locals c s.pG).is ≤ i := hin.2.2.2.2.1
    have hi2 : i ≤ (locals c s.pG).ie := hin.2.2.2.2.2
    have hU : (step12b2 c (locals c s.pG) s).pG.U k j i =
        step12b2_cell c (locals c s.pG) s k j i (s.pG.U k j i) := by
      rw [step12b2_eq]
      simp only [lensU, cellMap, hk1, hk2, hj1, hj2, hi1, hi2, and_self, if_true]
    rw [hU, mom_step12b2_cell]
    show _ - (s.pG.dt / s.pG.dx2) * _ - _ = _
    ring
  · intro j i a b hab hin
    rw [← sum_flux_form (s.pG.dt / s.pG.dx3) (fun k => m.left (gravFlux3 c s.pG k j i))
      (fun k => m.right (gravFlux3 c s.pG k j i)) a b hab
      (fun k => by
        have h := gravFlux3_match c s.pG m (k + 1) j i
        have e : k + 1 - 1 = k := by ring
        rw [e] at h
        exact h)]
    refine Finset.sum_congr rfl (fun k hk => ?_)
    rw [Finset.mem_Icc] at hk
    have hk1 : (locals c s.pG).ks ≤ k := le_trans hin.1 hk.1
    have hk2 : k ≤ (locals c s.pG).ke := le_trans hk.2 hin.2.1
    have hj1 : (locals c s.pG).js ≤ j := hin.2.2.1
    have hj2 : j ≤ (locals c s.pG).je := hin.2.2.2.1
    have hi1 : (locals c s.pG).is ≤ i := hin.2.2.2.2.1
    have hi2 : i ≤ (locals c s.pG).ie := hin.2.2.2.2.2
    have hU : (step12b3 c (locals c s.pG) s).pG.U k j i =
        step12b3_cell c (locals c s.pG) s k j i (s.pG.U k j i) := by
      rw [step12b3_eq]
      simp only [lensU, cellMap, hk1, hk2, hj1, hj2, hi1, hi2, and_self, if_true]
    rw [hU, mom_step12b3_cell]
    show _ - (s.pG.dt / s.pG.dx3) * _ - _ = _
    ring

/-- C9 on `demoState` with self-gravity on: the x1-momentum change of the `d/dx1` loop
over the row `i = -1..1` of cells at `k = j = 0`. -/
theorem C9_witness :
    ∑ i in Finset.Icc (-1 : Int) 1,
        (Mom.M1.cell ((step12b1 demoConfigSG (locals demoConfigSG demoState.pG)
            demoState).pG.U 0 0 i) - Mom.M1.cell (demoState.pG.U 0 0 i)) =
      - (demoState.pG.dt / demoState.pG.dx1) *
        (Mom.M1.right (gravFlux1 demoConfigSG demoState.pG 0 0 1)
          - Mom.M1.left (gravFlux1 demoConfigSG demoState.pG 0 0 (-1))) :=
  (C9_selfgravity_momentum_flux_form demoConfigSG demoState Mom.M1).2.2.2.1 0 0 (-1) 1
    (by decide) (by decide)

/-! ## C10: the flux registers of static mesh refinement -/

/-- What the stores into one grid's registers never touch, seen from a slot `dim0`:
the index ranges and the flux register of that slot. -/
theorem storeFlx_other (g : GridOvrlpS) (dim dim0 a b : Int) (v : Gas) (h : dim0 ≠ dim) :
    (storeFlx g dim a b v).ijks = g.ijks ∧ (storeFlx g dim a b v).ijke = g.ijke ∧
      (storeFlx g dim a b v).myFlx dim0 = g.myFlx dim0 := by
  unfold storeFlx
  cases hr : g.myFlx dim with
  | none => exact ⟨rfl, rfl, rfl⟩
  | some reg => exact ⟨rfl, rfl, by simp only [set1, h, if_false]⟩

theorem storeFlx_ij (g : GridOvrlpS) (dim a b : Int) (v : Gas) :
    (storeFlx g dim a b v).ijks = g.ijks ∧ (storeFlx g dim a b v).ijke = g.ijke := by
  unfold storeFlx
  cases hr : g.myFlx dim with
  | none => exact ⟨rfl, rfl⟩
  | some reg => exact ⟨rfl, rfl⟩

theorem regEntry_storeFlx_same (g : GridOvrlpS) (dim a b : Int) (v : Gas) :
    regEntry (storeFlx g dim a b v) dim a b = (regEntry g dim a b).map (fun _ => v) := by
  unfold storeFlx regEntry
  cases hr : g.myFlx dim with
  | none => simp only [hr, Option.map_none']
  | some reg => simp only [set1, set2, if_true, and_self, Option.map_some']

theorem regEntry_storeFlx_ne (g : GridOvrlpS) (dim a b a0 b0 : Int) (v : Gas)
    (h : ¬ (a0 = a ∧ b0 = b)) :
    regEntry (storeFlx g dim a b v) dim a0 b0 = regEntry g dim a0 b0 := by
  unfold storeFlx regEntry
  cases hr : g.myFlx dim with
  | none => simp only [hr]
  | some reg => simp only [set1, set2, if_true, h, if_false, Option.map_some']

/-- The double loop that fills a flux register: the entry written for `(a0, b0)` is
the value stored for it. -/
theorem storeFlx_nest_entry (dim alo ahi blo bhi oa ob : Int) (F : Int → Int → Gas)
    (g : GridOvrlpS) (a0 b0 : Int) (ha : alo ≤ a0 ∧ a0 ≤ ahi) (hb : blo ≤ b0 ∧ b0 ≤ bhi) :
    regEntry (forLoop alo ahi (fun a g => forLoop blo bhi (fun b g =>
        storeFlx g dim (a - oa) (b - ob) (F a b)) g) g) dim (a0 - oa) (b0 - ob) =
      (regEntry g dim (a0 - oa) (b0 - ob)).map (fun _ => F a0 b0) := by
  let obs : GridOvrlpS → Option Gas := fun g => regEntry g dim (a0 - oa) (b0 - ob)
  let body : Int → Int → GridOvrlpS → GridOvrlpS :=
    fun a b g => storeFlx g dim (a - oa) (b - ob) (F a b)
  let G : Option Gas → Option Gas := fun o => o.map (fun _ => F a0 b0)
  refine forLoop2_hit obs alo ahi blo bhi a0 b0 body G ha hb ?_ ?_ g
  · intro g
    exact regEntry_storeFlx_same g dim _ _ _
  · intro a b g _ _ _ _ hne
    refine regEntry_storeFlx_ne g dim _ _ _ _ _ ?_
    intro h
    exact hne ⟨by omega, by omega⟩

/-- The double loop that fills the flux register of slot `dim` leaves the index ranges
and every other slot alone. -/
theorem storeFlx_nest_other (dim dim0 alo ahi blo bhi oa ob : Int) (F : Int → Int → Gas)
    (g : GridOvrlpS) (h : dim0 ≠ dim) :
    (forLoop alo ahi (fun a g => forLoop blo bhi (fun b g =>
        storeFlx g dim (a - oa) (b - ob) (F a b)) g) g).myFlx dim0 = g.myFlx dim0 := by
  let body : Int → Int → GridOvrlpS → GridOvrlpS :=
    fun a b g => storeFlx g dim (a - oa) (b - ob) (F a b)
  refine forLoop2_inv (fun t => t.myFlx dim0 = g.myFlx dim0) alo ahi blo bhi body ?_ g rfl
  intro a b t ht
  exact (storeFlx_other t dim dim0 _ _ _ h).2.2.trans ht

theorem storeFlx_nest_ij (dim alo ahi blo bhi oa ob : Int) (F : Int → Int → Gas)
    (g : GridOvrlpS) :
    (forLoop alo ahi (fun a g => forLoop blo bhi (fun b g =>
        storeFlx g dim (a - oa) (b - ob) (F a b)) g) g).ijks = g.ijks ∧
    (forLoop alo ahi (fun a g => forLoop blo bhi (fun b g =>
        storeFlx g dim (a - oa) (b - ob) (F a b)) g) g).ijke = g.ijke := by
  let body : Int → Int → GridOvrlpS → GridOvrlpS :=
    fun a b g => storeFlx g dim (a - oa) (b - ob) (F a b)
  refine forLoop2_inv (fun t => t.ijks = g.ijks ∧ t.ijke = g.ijke) alo ahi blo bhi body ?_ g
    ⟨rfl, rfl⟩
  intro a b t ht
  exact ⟨(storeFlx_ij t dim _ _ _).1.trans ht.1, (storeFlx_ij t dim _ _ _).2.trans ht.2⟩

/-- The double loops that fill the EMF registers leave the index ranges and the flux
registers alone. -/
theorem storeEMF1_nest (dim alo ahi blo bhi oa ob : Int) (F : Int → Int → ℚ)
    (g : GridOvrlpS) :
    (forLoop alo ahi (fun a g => forLoop blo bhi (fun b g =>
        storeEMF1 g dim (a - oa) (b - ob) (F a b)) g) g).ijks = g.ijks ∧
    (forLoop alo ahi (fun a g => forLoop blo bhi (fun b g =>
        storeEMF1 g dim (a - oa) (b - ob) (F a b)) g) g).ijke = g.ijke ∧
    (forLoop alo ahi (fun a g => forLoop blo bhi (fun b g =>
        storeEMF1 g dim (a - oa) (b - ob) (F a b)) g) g).myFlx = g.myFlx := by
  let body : Int → Int → GridOvrlpS → GridOvrlpS :=
    fun a b g => storeEMF1 g dim (a - oa) (b - ob) (F a b)
  refine forLoop2_inv (fun t => t.ijks = g.ijks ∧ t.ijke = g.ijke ∧ t.myFlx = g.myFlx)
    alo ahi blo bhi body ?_ g ⟨rfl, rfl, rfl⟩
  intro a b t ht
  exact ht

theorem storeEMF2_nest (dim alo ahi blo bhi oa ob : Int) (F : Int → Int → ℚ)
    (g : GridOvrlpS) :
    (forLoop alo ahi (fun a g => forLoop blo bhi (fun b g =>
        storeEMF2 g dim (a - oa) (b - ob) (F a b)) g) g).ijks = g.ijks ∧
    (forLoop alo ahi (fun a g => forLoop blo bhi (fun b g =>
        storeEMF2 g dim (a - oa) (b - ob) (F a b)) g) g).ijke = g.ijke ∧
    (forLoop alo ahi (fun a g => forLoop blo bhi (fun b g =>
        storeEMF2 g dim (a - oa) (b - ob) (F a b)) g) g).myFlx = g.myFlx := by
  let body : Int → Int → GridOvrlpS → GridOvrlpS :=
    fun a b g => storeEMF2 g dim (a - oa) (b - ob) (F a b)
  refine forLoop2_inv (fun t => t.ijks = g.ijks ∧ t.ijke = g.ijke ∧ t.myFlx = g.myFlx)
    alo ahi blo bhi body ?_ g ⟨rfl, rfl, rfl⟩
  intro a b t ht
  exact ht

theorem storeEMF3_nest (dim alo ahi blo bhi oa ob : Int) (F : Int → Int → ℚ)
    (g : GridOvrlpS) :
    (forLoop alo ahi (fun a g => forLoop blo bhi (fun b g =>
        storeEMF3 g dim (a - oa) (b - ob) (F a b)) g) g).ijks = g.ijks ∧
    (forLoop alo ahi (fun a g => forLoop blo bhi (fun b g =>
        storeEMF3 g dim (a - oa) (b - ob) (F a b)) g) g).ijke = g.ijke ∧
    (forLoop alo ahi (fun a g => forLoop blo bhi (fun b g =>
        storeEMF3 g dim (a - oa) (b - ob) (F a b)) g) g).myFlx = g.myFlx := by
  let body : Int → Int → GridOvrlpS → GridOvrlpS :=
    fun a b g => storeEMF3 g dim (a - oa) (b - ob) (F a b)
  refine forLoop2_inv (fun t => t.ijks = g.ijks ∧ t.ijke = g.ijke ∧ t.myFlx = g.myFlx)
    alo ahi blo bhi body ?_ g ⟨rfl, rfl, rfl⟩
  intro a b t ht
  exact ht

theorem regEntry_congr (g g' : GridOvrlpS) (dim a b : Int) (h : g'.myFlx dim = g.myFlx dim) :
    regEntry g' dim a b = regEntry g dim a b := by
  unfold regEntry
  rw [h]

theorem regEntry_map_some (g : GridOvrlpS) (dim a b : Int) (v : Gas)
    (h : (g.myFlx dim).isSome = true) :
    (regEntry g dim a b).map (fun _ => v) = some v := by
  unfold regEntry
  cases hr : g.myFlx dim with
  | none => rw [hr] at h; exact absurd h (by decide)
  | some reg => rfl

/-- The stores for one x1-face leave the index ranges and the other slots alone. -/
theorem smrX1_dim_frame (s : State) (dim : Int) (g : GridOvrlpS) :
    (smrX1_dim s dim g).ijks = g.ijks ∧ (smrX1_dim s dim g).ijke = g.ijke ∧
      ∀ dim0, dim0 ≠ dim → (smrX1_dim s dim g).myFlx dim0 = g.myFlx dim0 := by
  unfold smrX1_dim
  by_cases h : (g.myFlx dim).isSome = true
  · simp only [h, if_true]
    obtain ⟨e1, e2, e3⟩ := storeEMF3_nest dim (g.ijks 2) (g.ijke 2) (g.ijks 1) (g.ijke 1 + 1)
      (g.ijks 2) (g.ijks 1)
      (fun k j => s.emf3 k j (if dim = 0 then g.ijks 0 else g.ijke 0 + 1))
      (forLoop (g.ijks 2) (g.ijke 2 + 1) (fun k g' => forLoop (g.ijks 1) (g.ijke 1) (fun j g' =>
        storeEMF2 g' dim (k - g.ijks 2) (j - g.ijks 1)
          (s.emf2 k j (if dim = 0 then g.ijks 0 else g.ijke 0 + 1))) g')
        (forLoop (g.ijks 2) (g.ijke 2) (fun k g' => forLoop (g.ijks 1) (g.ijke 1) (fun j g' =>
          storeFlx g' dim (k - g.ijks 2) (j - g.ijks 1)
            (flxReg1 (s.x1Flux k j (if dim = 0 then g.ijks 0 else g.ijke 0 + 1)))) g') g))
    obtain ⟨f1, f2, f3⟩ := storeEMF2_nest dim (g.ijks 2) (g.ijke 2 + 1) (g.ijks 1) (g.ijke 1)
      (g.ijks 2) (g.ijks 1)
      (fun k j => s.emf2 k j (if dim = 0 then g.ijks 0 else g.ijke 0 + 1))
      (forLoop (g.ijks 2) (g.ijke 2) (fun k g' => forLoop (g.ijks 1) (g.ijke 1) (fun j g' =>
        storeFlx g' dim (k - g.ijks 2) (j - g.ijks 1)
          (flxReg1 (s.x1Flux k j (if dim = 0 then g.ijks 0 else g.ijke 0 + 1)))) g') g)
    obtain ⟨g1, g2⟩ := storeFlx_nest_ij dim (g.ijks 2) (g.ijke 2) (g.ijks 1) (g.ijke 1)
      (g.ijks 2) (g.ijks 1)
      (fun k j => flxReg1 (s.x1Flux k j (if dim = 0 then g.ijks 0 else g.ijke 0 + 1))) g
    refine ⟨e1.trans (f1.trans g1), e2.trans (f2.trans g2), fun dim0 hd => ?_⟩
    rw [e3, f3]
    exact storeFlx_nest_other dim dim0 _ _ _ _ _ _ _ g hd
  · simp only [h]
    exact ⟨rfl, rfl, fun _ _ => rfl⟩

/-- The stores for one x1-face put the flux of the face into the register. -/
theorem smrX1_dim_entry (s : State) (dim : Int) (g : GridOvrlpS) (k0 j0 : Int)
    (h : (g.myFlx dim).isSome = true)
    (hk : g.ijks 2 ≤ k0 ∧ k0 ≤ g.ijke 2) (hj : g.ijks 1 ≤ j0 ∧ j0 ≤ g.ijke 1) :
    regEntry (smrX1_dim s dim g) dim (k0 - g.ijks 2) (j0 - g.ijks 1) =
      some (flxReg1 (s.x1Flux k0 j0 (if dim = 0 then g.ijks 0 else g.ijke 0 + 1))) := by
  unfold smrX1_dim
  simp only [h, if_true]
  obtain ⟨e1, e2, e3⟩ := storeEMF3_nest dim (g.ijks 2) (g.ijke 2) (g.ijks 1) (g.ijke 1 + 1)
    (g.ijks 2) (g.ijks 1)
    (fun k j => s.emf3 k j (if dim = 0 then g.ijks 0 else g.ijke 0 + 1))
    (forLoop (g.ijks 2) (g.ijke 2 + 1) (fun k g' => forLoop (g.ijks 1) (g.ijke 1) (fun j g' =>
      storeEMF2 g' dim (k - g.ijks 2) (j - g.ijks 1)
        (s.emf2 k j (if dim = 0 then g.ijks 0 else g.ijke 0 + 1))) g')
      (forLoop (g.ijks 2) (g.ijke 2) (fun k g' => forLoop (g.ijks 1) (g.ijke 1) (fun j g' =>
        storeFlx g' dim (k - g.ijks 2) (j - g.ijks 1)
          (flxReg1 (s.x1Flux k j (if dim = 0 then g.ijks 0 else g.ijke 0 + 1)))) g') g))
  obtain ⟨f1, f2, f3⟩ := storeEMF2_nest dim (g.ijks 2) (g.ijke 2 + 1) (g.ijks 1) (g.ijke 1)
    (g.ijks 2) (g.ijks 1)
    (fun k j => s.emf2 k j (if dim = 0 then g.ijks 0 else g.ijke 0 + 1))
    (forLoop (g.ijks 2) (g.ijke 2) (fun k g' => forLoop (g.ijks 1) (g.ijke 1) (fun j g' =>
      storeFlx g' dim (k - g.ijks 2) (j - g.ijks 1)
        (flxReg1 (s.x1Flux k j (if dim = 0 then g.ijks 0 else g.ijke 0 + 1)))) g') g)
  rw [regEntry_congr _ _ dim _ _ (congrFun (e3.trans f3) dim)]
  rw [storeFlx_nest_entry dim (g.ijks 2) (g.ijke 2) (g.ijks 1) (g.ijke 1) (g.ijks 2) (g.ijks 1)
    (fun k j => flxReg1 (s.x1Flux k j (if dim = 0 then g.ijks 0 else g.ijke 0 + 1))) g k0 j0 hk hj]
  exact regEntry_map_some g dim _ _ _ h

/-- The stores for one x2-face leave the index ranges and the other slots alone. -/
theorem smrX2_dim_frame (s : State) (dim : Int) (g : GridOvrlpS) :
    (smrX2_dim s dim g).ijks = g.ijks ∧ (smrX2_dim s dim g).ijke = g.ijke ∧
      ∀ dim0, dim0 ≠ dim → (smrX2_dim s dim g).myFlx dim0 = g.myFlx dim0 := by
  unfold smrX2_dim
  by_cases h : (g.myFlx dim).isSome = true
  · simp only [h, if_true]
    obtain ⟨e1, e2, e3⟩ := storeEMF3_nest dim (g.ijks 2) (g.ijke 2) (g.ijks 0) (g.ijke 0 + 1)
      (g.ijks 2) (g.ijks 0)
      (fun k i => s.emf3 k (if dim = 2 then g.ijks 1 else g.ijke 1 + 1) i)
      (forLoop (g.ijks 2) (g.ijke 2 + 1) (fun k g' => forLoop (g.ijks 0) (g.ijke 0) (fun i g' =>
        storeEMF1 g' dim (k - g.ijks 2) (i - g.ijks 0)
          (s.emf1 k (if dim = 2 then g.ijks 1 else g.ijke 1 + 1) i)) g')
        (forLoop (g.ijks 2) (g.ijke 2) (fun k g' => forLoop (g.ijks 0) (g.ijke 0) (fun i g' =>
          storeFlx g' dim (k - g.ijks 2) (i - g.ijks 0)
            (flxReg2 (s.x2Flux k (if dim = 2 then g.ijks 1 else g.ijke 1 + 1) i))) g') g))
    obtain ⟨f1, f2, f3⟩ := storeEMF1_nest dim (g.ijks 2) (g.ijke 2 + 1) (g.ijks 0) (g.ijke 0)
      (g.ijks 2) (g.ijks 0)
      (fun k i => s.emf1 k (if dim = 2 then g.ijks 1 else g.ijke 1 + 1) i)
      (forLoop (g.ijks 2) (g.ijke 2) (fun k g' => forLoop (g.ijks 0) (g.ijke 0) (fun i g' =>
        storeFlx g' dim (k - g.ijks 2) (i - g.ijks 0)
          (flxReg2 (s.x2Flux k (if dim = 2 then g.ijks 1 else g.ijke 1 + 1) i))) g') g)
    obtain ⟨g1, g2⟩ := storeFlx_nest_ij dim (g.ijks 2) (g.ijke 2) (g.ijks 0) (g.ijke 0)
      (g.ijks 2) (g.ijks 0)
      (fun k i => flxReg2 (s.x2Flux k (if dim = 2 then g.ijks 1 else g.ijke 1 + 1) i)) g
    refine ⟨e1.trans (f1.trans g1), e2.trans (f2.trans g2), fun dim0 hd => ?_⟩
    rw [e3, f3]
    exact storeFlx_nest_other dim dim0 _ _ _ _ _ _ _ g hd
  · simp only [h]
    exact ⟨rfl, rfl, fun _ _ => rfl⟩

/-- The stores for one x2-face put the flux of the face into the register. -/
theorem smrX2_dim_entry (s : State) (dim : Int) (g : GridOvrlpS) (k0 i0 : Int)
    (h : (g.myFlx dim).isSome = true)
    (hk : g.ijks 2 ≤ k0 ∧ k0 ≤ g.ijke 2) (hi : g.ijks 0 ≤ i0 ∧ i0 ≤ g.ijke 0) :
    regEntry (smrX2_dim s dim g) dim (k0 - g.ijks 2) (i0 - g.ijks 0) =
      some (flxReg2 (s.x2Flux k0 (if dim = 2 then g.ijks 1 else g.ijke 1 + 1) i0)) := by
  unfold smrX2_dim
  simp only [h, if_true]
  obtain ⟨e1, e2, e3⟩ := storeEMF3_nest dim (g.ijks 2) (g.ijke 2) (g.ijks 0) (g.ijke 0 + 1)
    (g.ijks 2) (g.ijks 0)
    (fun k i => s.emf3 k (if dim = 2 then g.ijks 1 else g.ijke 1 + 1) i)
    (forLoop (g.ijks 2) (g.ijke 2 + 1) (fun k g' => forLoop (g.ijks 0) (g.ijke 0) (fun i g' =>
      storeEMF1 g' dim (k - g.ijks 2) (i - g.ijks 0)
        (s.emf1 k (if dim = 2 then g.ijks 1 else g.ijke 1 + 1) i)) g')
      (forLoop (g.ijks 2) (g.ijke 2) (fun k g' => forLoop (g.ijks 0) (g.ijke 0) (fun i g' =>
        storeFlx g' dim (k - g.ijks 2) (i - g.ijks 0)
          (flxReg2 (s.x2Flux k (if dim = 2 then g.ijks 1 else g.ijke 1 + 1) i))) g') g))
  obtain ⟨f1, f2, f3⟩ := storeEMF1_nest dim (g.ijks 2) (g.ijke 2 + 1) (g.ijks 0) (g.ijke 0)
    (g.ijks 2) (g.ijks 0)
    (fun k i => s.emf1 k (if dim = 2 then g.ijks 1 else g.ijke 1 + 1) i)
    (forLoop (g.ijks 2) (g.ijke 2) (fun k g' => forLoop (g.ijks 0) (g.ijke 0) (fun i g' =>
      storeFlx g' dim (k - g.ijks 2) (i - g.ijks 0)
        (flxReg2 (s.x2Flux k (if dim = 2 then g.ijks 1 else g.ijke 1 + 1) i))) g') g)
  rw [regEntry_congr _ _ dim _ _ (congrFun (e3.trans f3) dim)]
  rw [storeFlx_nest_entry dim (g.ijks 2) (g.ijke 2) (g.ijks 0) (g.ijke 0) (g.ijks 2) (g.ijks 0)
    (fun k i => flxReg2 (s.x2Flux k (if dim = 2 then g.ijks 1 else g.ijke 1 + 1) i)) g k0 i0 hk hi]
  exact regEntry_map_some g dim _ _ _ h

/-- The stores for one x3-face leave the index ranges and the other slots alone. -/
theorem smrX3_dim_frame (s : State) (dim : Int) (g : GridOvrlpS) :
    (smrX3_dim s dim g).ijks = g.ijks ∧ (smrX3_dim s dim g).ijke = g.ijke ∧
      ∀ dim0, dim0 ≠ dim → (smrX3_dim s dim g).myFlx dim0 = g.myFlx dim0 := by
  unfold smrX3_dim
  by_cases h : (g.myFlx dim).isSome = true
  · simp only [h, if_true]
    obtain ⟨e1, e2, e3⟩ := storeEMF2_nest dim (g.ijks 1) (g.ijke 1) (g.ijks 0) (g.ijke 0 + 1)
      (g.ijks 1) (g.ijks 0)
      (fun j i => s.emf2 (if dim = 4 then g.ijks 2 else g.ijke 2 + 1) j i)
      (forLoop (g.ijks 1) (g.ijke 1 + 1) (fun j g' => forLoop (g.ijks 0) (g.ijke 0) (fun i g' =>
        storeEMF1 g' dim (j - g.ijks 1) (i - g.ijks 0)
          (s.emf1 (if dim = 4 then g.ijks 2 else g.ijke 2 + 1) j i)) g')
        (forLoop (g.ijks 1) (g.ijke 1) (fun j g' => forLoop (g.ijks 0) (g.ijke 0) (fun i g' =>
          storeFlx g' dim (j - g.ijks 1) (i - g.ijks 0)
            (flxReg3 (s.x3Flux (if dim = 4 then g.ijks 2 else g.ijke 2 + 1) j i))) g') g))
    obtain ⟨f1, f2, f3⟩ := storeEMF1_nest dim (g.ijks 1) (g.ijke 1 + 1) (g.ijks 0) (g.ijke 0)
      (g.ijks 1) (g.ijks 0)
      (fun j i => s.emf1 (if dim = 4 then g.ijks 2 else g.ijke 2 + 1) j i)
      (forLoop (g.ijks 1) (g.ijke 1) (fun j g' => forLoop (g.ijks 0) (g.ijke 0) (fun i g' =>
        storeFlx g' dim (j - g.ijks 1) (i - g.ijks 0)
          (flxReg3 (s.x3Flux (if dim = 4 then g.ijks 2 else g.ijke 2 + 1) j i))) g') g)
    obtain ⟨g1, g2⟩ := storeFlx_nest_ij dim (g.ijks 1) (g.ijke 1) (g.ijks 0) (g.ijke 0)
      (g.ijks 1) (g.ijks 0)
      (fun j i => flxReg3 (s.x3Flux (if dim = 4 then g.ijks 2 else g.ijke 2 + 1) j i)) g
    refine ⟨e1.trans (f1.trans g1), e2.trans (f2.trans g2), fun dim0 hd => ?_⟩
    rw [e3, f3]
    exact storeFlx_nest_other dim dim0 _ _ _ _ _ _ _ g hd
  · simp only [h]
    exact ⟨rfl, rfl, fun _ _ => rfl⟩

/-- The stores for one x3-face put the flux of the face into the register. -/
theorem smrX3_dim_entry (s : State) (dim : Int) (g : GridOvrlpS) (j0 i0 : Int)
    (h : (g.myFlx dim).isSome = true)
    (hj : g.ijks 1 ≤ j0 ∧ j0 ≤ g.ijke 1) (hi : g.ijks 0 ≤ i0 ∧ i0 ≤ g.ijke 0) :
    regEntry (smrX3_dim s dim g) dim (j0 - g.ijks 1) (i0 - g.ijks 0) =
      some (flxReg3 (s.x3Flux (if dim = 4 then g.ijks 2 else g.ijke 2 + 1) j0 i0)) := by
  unfold smrX3_dim
  simp only [h, if_true]
  obtain ⟨e1, e2, e3⟩ := storeEMF2_nest dim (g.ijks 1) (g.ijke 1) (g.ijks 0) (g.ijke 0 + 1)
    (g.ijks 1) (g.ijks 0)
    (fun j i => s.emf2 (if dim = 4 then g.ijks 2 else g.ijke 2 + 1) j i)
    (forLoop (g.ijks 1) (g.ijke 1 + 1) (fun j g' => forLoop (g.ijks 0) (g.ijke 0) (fun i g' =>
      storeEMF1 g' dim (j - g.ijks 1) (i - g.ijks 0)
        (s.emf1 (if dim = 4 then g.ijks 2 else g.ijke 2 + 1) j i)) g')
      (forLoop (g.ijks 1) (g.ijke 1) (fun j g' => forLoop (g.ijks 0) (g.ijke 0) (fun i g' =>
        storeFlx g' dim (j - g.ijks 1) (i - g.ijks 0)
          (flxReg3 (s.x3Flux (if dim = 4 then g.ijks 2 else g.ijke 2 + 1) j i))) g') g))
  obtain ⟨f1, f2, f3⟩ := storeEMF1_nest dim (g.ijks 1) (g.ijke 1 + 1) (g.ijks 0) (g.ijke 0)
    (g.ijks 1) (g.ijks 0)
    (fun j i => s.emf1 (if dim = 4 then g.ijks 2 else g.ijke 2 + 1) j i)
    (forLoop (g.ijks 1) (g.ijke 1) (fun j g' => forLoop (g.ijks 0) (g.ijke 0) (fun i g' =>
      storeFlx g' dim (j - g.ijks 1) (i - g.ijks 0)
        (flxReg3 (s.x3Flux (if dim = 4 then g.ijks 2 else g.ijke 2 + 1) j i))) g') g)
  rw [regEntry_congr _ _ dim _ _ (congrFun (e3.trans f3) dim)]
  rw [storeFlx_nest_entry dim (g.ijks 1) (g.ijke 1) (g.ijks 0) (g.ijke 0) (g.ijks 1) (g.ijks 0)
    (fun j i => flxReg3 (s.x3Flux (if dim = 4 then g.ijks 2 else g.ijke 2 + 1) j i)) g j0 i0 hj hi]
  exact regEntry_map_some g dim _ _ _ h

/-- The stores for one neighbouring grid, face slot by face slot. -/
theorem smrGrid_unfold (s : State) (g : GridOvrlpS) :
    smrGrid s g = smrX3_dim s 5 (smrX3_dim s 4 (smrX2_dim s 3 (smrX2_dim s 2
      (smrX1_dim s 1 (smrX1_dim s 0 g))))) := rfl

theorem smrX1_dim_keep (s : State) (dim d : Int) (h : d ≠ dim) (g : GridOvrlpS) :
    (smrX1_dim s dim g).ijks = g.ijks ∧ (smrX1_dim s dim g).ijke = g.ijke ∧
      (smrX1_dim s dim g).myFlx d = g.myFlx d :=
  ⟨(smrX1_dim_frame s dim g).1, (smrX1_dim_frame s dim g).2.1,
    (smrX1_dim_frame s dim g).2.2 d h⟩

theorem smrX2_dim_keep (s : State) (dim d : Int) (h : d ≠ dim) (g : GridOvrlpS) :
    (smrX2_dim s dim g).ijks = g.ijks ∧ (smrX2_dim s dim g).ijke = g.ijke ∧
      (smrX2_dim s dim g).myFlx d = g.myFlx d :=
  ⟨(smrX2_dim_frame s dim g).1, (smrX2_dim_frame s dim g).2.1,
    (smrX2_dim_frame s dim g).2.2 d h⟩

theorem smrX3_dim_keep (s : State) (dim d : Int) (h : d ≠ dim) (g : GridOvrlpS) :
    (smrX3_dim s dim g).ijks = g.ijks ∧ (smrX3_dim s dim g).ijke = g.ijke ∧
      (smrX3_dim s dim g).myFlx d = g.myFlx d :=
  ⟨(smrX3_dim_frame s dim g).1, (smrX3_dim_frame s dim g).2.1,
    (smrX3_dim_frame s dim g).2.2 d h⟩

/-- The stores for one neighbouring grid keep its index ranges. -/
theorem smrGrid_ij (s : State) (g : GridOvrlpS) :
    (smrGrid s g).ijks = g.ijks ∧ (smrGrid s g).ijke = g.ijke := by
  rw [smrGrid_unfold]
  have a0 := smrX1_dim_frame s 0 g
  have a1 := smrX1_dim_frame s 1 (smrX1_dim s 0 g)
  have a2 := smrX2_dim_frame s 2 (smrX1_dim s 1 (smrX1_dim s 0 g))
  have a3 := smrX2_dim_frame s 3 (smrX2_dim s 2 (smrX1_dim s 1 (smrX1_dim s 0 g)))
  have a4 := smrX3_dim_frame s 4 (smrX2_dim s 3 (smrX2_dim s 2 (smrX1_dim s 1 (smrX1_dim s 0 g))))
  have a5 := smrX3_dim_frame s 5 (smrX3_dim s 4 (smrX2_dim s 3 (smrX2_dim s 2
    (smrX1_dim s 1 (smrX1_dim s 0 g)))))
  exact ⟨a5.1.trans (a4.1.trans (a3.1.trans (a2.1.trans (a1.1.trans a0.1)))),
    a5.2.1.trans (a4.2.1.trans (a3.2.1.trans (a2.2.1.trans (a1.2.1.trans a0.2.1))))⟩

/-- After the stores for one neighbouring grid, the register of an x1-face slot
(`dim = 0, 1`) holds the x1-fluxes of that face. -/
theorem smrGrid_entry_x1 (s : State) (g : GridOvrlpS) (dim k0 j0 : Int)
    (hd : dim = 0 ∨ dim = 1) (h : (g.myFlx dim).isSome = true)
    (hk : g.ijks 2 ≤ k0 ∧ k0 ≤ g.ijke 2) (hj : g.ijks 1 ≤ j0 ∧ j0 ≤ g.ijke 1) :
    regEntry (smrGrid s g) dim (k0 - g.ijks 2) (j0 - g.ijks 1) =
      some (flxReg1 (s.x1Flux k0 j0 (if dim = 0 then g.ijks 0 else g.ijke 0 + 1))) := by
  rw [smrGrid_unfold]
  rcases hd with rfl | rfl
  · have e := smrX1_dim_entry s 0 g k0 j0 h hk hj
    have a1 := smrX1_dim_keep s 1 0 (by decide) (smrX1_dim s 0 g)
    have a2 := smrX2_dim_keep s 2 0 (by decide) (smrX1_dim s 1 (smrX1_dim s 0 g))
    have a3 := smrX2_dim_keep s 3 0 (by decide)
      (smrX2_dim s 2 (smrX1_dim s 1 (smrX1_dim s 0 g)))
    have a4 := smrX3_dim_keep s 4 0 (by decide)
      (smrX2_dim s 3 (smrX2_dim s 2 (smrX1_dim s 1 (smrX1_dim s 0 g))))
    have a5 := smrX3_dim_keep s 5 0 (by decide) (smrX3_dim s 4 (smrX2_dim s 3 (smrX2_dim s 2
      (smrX1_dim s 1 (smrX1_dim s 0 g)))))
    rw [regEntry_congr _ _ 0 _ _
      (a5.2.2.trans (a4.2.2.trans (a3.2.2.trans (a2.2.2.trans a1.2.2))))]
    exact e
  · have a0 := smrX1_dim_keep s 0 1 (by decide) g
    have e := smrX1_dim_entry s 1 (smrX1_dim s 0 g) k0 j0 (by rw [a0.2.2]; exact h)
      (by rw [a0.1, a0.2.1]; exact hk) (by rw [a0.1, a0.2.1]; exact hj)
    rw [a0.1, a0.2.1] at e
    have a2 := smrX2_dim_keep s 2 1 (by decide) (smrX1_dim s 1 (smrX1_dim s 0 g))
    have a3 := smrX2_dim_keep s 3 1 (by decide)
      (smrX2_dim s 2 (smrX1_dim s 1 (smrX1_dim s 0 g)))
    have a4 := smrX3_dim_keep s 4 1 (by decide)
      (smrX2_dim s 3 (smrX2_dim s 2 (smrX1_dim s 1 (smrX1_dim s 0 g))))
    have a5 := smrX3_dim_keep s 5 1 (by decide) (smrX3_dim s 4 (smrX2_dim s 3 (smrX2_dim s 2
      (smrX1_dim s 1 (smrX1_dim s 0 g)))))
    rw [regEntry_congr _ _ 1 _ _ (a5.2.2.trans (a4.2.2.trans (a3.2.2.trans a2.2.2)))]
    exact e

/-- After the stores for one neighbouring grid, the register of an x2-face slot
(`dim = 2, 3`) holds the x2-fluxes of that face. -/
theorem smrGrid_entry_x2 (s : State) (g : GridOvrlpS) (dim k0 i0 : Int)
    (hd : dim = 2 ∨ dim = 3) (h : (g.myFlx dim).isSome = true)
    (hk : g.ijks 2 ≤ k0 ∧ k0 ≤ g.ijke 2) (hi : g.ijks 0 ≤ i0 ∧ i0 ≤ g.ijke 0) :
    regEntry (smrGrid s g) dim (k0 - g.ijks 2) (i0 - g.ijks 0) =
      some (flxReg2 (s.x2Flux k0 (if dim = 2 then g.ijks 1 else g.ijke 1 + 1) i0)) := by
  rw [smrGrid_unfold]
  rcases hd with rfl | rfl
  · have a0 := smrX1_dim_keep s 0 2 (by decide) g
    have a1 := smrX1_dim_keep s 1 2 (by decide) (smrX1_dim s 0 g)
    have b1 := a1.1.trans a0.1
    have b2 := a1.2.1.trans a0.2.1
    have b3 := a1.2.2.trans a0.2.2
    have e := smrX2_dim_entry s 2 (smrX1_dim s 1 (smrX1_dim s 0 g)) k0 i0
      (by rw [b3]; exact h) (by rw [b1, b2]; exact hk) (by rw [b1, b2]; exact hi)
    rw [b1, b2] at e
    have a3 := smrX2_dim_keep s 3 2 (by decide)
      (smrX2_dim s 2 (smrX1_dim s 1 (smrX1_dim s 0 g)))
    have a4 := smrX3_dim_keep s 4 2 (by decide)
      (smrX2_dim s 3 (smrX2_dim s 2 (smrX1_dim s 1 (smrX1_dim s 0 g))))
    have a5 := smrX3_dim_keep s 5 2 (by decide) (smrX3_dim s 4 (smrX2_dim s 3 (smrX2_dim s 2
      (smrX1_dim s 1 (smrX1_dim s 0 g)))))
    rw [regEntry_congr _ _ 2 _ _ (a5.2.2.trans (a4.2.2.trans a3.2.2))]
    exact e
  · have a0 := smrX1_dim_keep s 0 3 (by decide) g
    have a1 := smrX1_dim_keep s 1 3 (by decide) (smrX1_dim s 0 g)
    have a2 := smrX2_dim_keep s 2 3 (by decide) (smrX1_dim s 1 (smrX1_dim s 0 g))
    have b1 := a2.1.trans (a1.1.trans a0.1)
    have b2 := a2.2.1.trans (a1.2.1.trans a0.2.1)
    have b3 := a2.2.2.trans (a1.2.2.trans a0.2.2)
    have e := smrX2_dim_entry s 3 (smrX2_dim s 2 (smrX1_dim s 1 (smrX1_dim s 0 g))) k0 i0
      (by rw [b3]; exact h) (by rw [b1, b2]; exact hk) (by rw [b1, b2]; exact hi)
    rw [b1, b2] at e
    have a4 := smrX3_dim_keep s 4 3 (by decide)
      (smrX2_dim s 3 (smrX2_dim s 2 (smrX1_dim s 1 (smrX1_dim s 0 g))))
    have a5 := smrX3_dim_keep s 5 3 (by decide) (smrX3_dim s 4 (smrX2_dim s 3 (smrX2_dim s 2
      (smrX1_dim s 1 (smrX1_dim s 0 g)))))
    rw [regEntry_congr _ _ 3 _ _ (a5.2.2.trans a4.2.2)]
    exact e

/-- After the stores for one neighbouring grid, the register of an x3-face slot
(`dim = 4, 5`) holds the x3-fluxes of that face. -/
theorem smrGrid_entry_x3 (s : State) (g : GridOvrlpS) (dim j0 i0 : Int)
    (hd : dim = 4 ∨ dim = 5) (h : (g.myFlx dim).isSome = true)
    (hj : g.ijks 1 ≤ j0 ∧ j0 ≤ g.ijke 1) (hi : g.ijks 0 ≤ i0 ∧ i0 ≤ g.ijke 0) :
    regEntry (smrGrid s g) dim (j0 - g.ijks 1) (i0 - g.ijks 0) =
      some (flxReg3 (s.x3Flux (if dim = 4 then g.ijks 2 else g.ijke 2 + 1) j0 i0)) := by
  rw [smrGrid_unfold]
  rcases hd with rfl | rfl
  · have a0 := smrX1_dim_keep s 0 4 (by decide) g
    have a1 := smrX1_dim_keep s 1 4 (by decide) (smrX1_dim s 0 g)
    have a2 := smrX2_dim_keep s 2 4 (by decide) (smrX1_dim s 1 (smrX1_dim s 0 g))
    have a3 := smrX2_dim_keep s 3 4 (by decide)
      (smrX2_dim s 2 (smrX1_dim s 1 (smrX1_dim s 0 g)))
    have b1 := a3.1.trans (a2.1.trans (a1.1.trans a0.1))
    have b2 := a3.2.1.trans (a2.2.1.trans (a1.2.1.trans a0.2.1))
    have b3 := a3.2.2.trans (a2.2.2.trans (a1.2.2.trans a0.2.2))
    have e := smrX3_dim_entry s 4
      (smrX2_dim s 3 (smrX2_dim s 2 (smrX1_dim s 1 (smrX1_dim s 0 g)))) j0 i0
      (by rw [b3]; exact h) (by rw [b1, b2]; exact hj) (by rw [b1, b2]; exact hi)
    rw [b1, b2] at e
    have a5 := smrX3_dim_keep s 5 4 (by decide) (smrX3_dim s 4 (smrX2_dim s 3 (smrX2_dim s 2
      (smrX1_dim s 1 (smrX1_dim s 0 g)))))
    rw [regEntry_congr _ _ 4 _ _ a5.2.2]
    exact e
  · have a0 := smrX1_dim_keep s 0 5 (by decide) g
    have a1 := smrX1_dim_keep s 1 5 (by decide) (smrX1_dim s 0 g)
    have a2 := smrX2_dim_keep s 2 5 (by decide) (smrX1_dim s 1 (smrX1_dim s 0 g))
    have a3 := smrX2_dim_keep s 3 5 (by decide)
      (smrX2_dim s 2 (smrX1_dim s 1 (smrX1_dim s 0 g)))
    have a4 := smrX3_dim_keep s 4 5 (by decide)
      (smrX2_dim s 3 (smrX2_dim s 2 (smrX1_dim s 1 (smrX1_dim s 0 g))))
    have b1 := a4.1.trans (a3.1.trans (a2.1.trans (a1.1.trans a0.1)))
    have b2 := a4.2.1.trans (a3.2.1.trans (a2.2.1.trans (a1.2.1.trans a0.2.1)))
    have b3 := a4.2.2.trans (a3.2.2.trans (a2.2.2.trans (a1.2.2.trans a0.2.2)))
    have e := smrX3_dim_entry s 5 (smrX3_dim s 4
      (smrX2_dim s 3 (smrX2_dim s 2 (smrX1_dim s 1 (smrX1_dim s 0 g))))) j0 i0
      (by rw [b3]; exact h) (by rw [b1, b2]; exact hj) (by rw [b1, b2]; exact hi)
    rw [b1, b2] at e
    exact e

/-- Step 12a writes only `pG->U`. -/
theorem step12a_writes (c : Config) (l : Locals) (s : State) :
    ∃ U, step12a c l s = { s with pG := { s.pG with U := U } } := by
  cases hp : c.StaticGravPot with
  | none => rw [step12a_none c l s hp]; exact ⟨_, rfl⟩
  | some pot => rw [step12a_some c l s pot hp]; exact ⟨_, rfl⟩

/-- Step 12b writes only `pG->U` and the three mass-flux arrays of the grid. -/
theorem step12b_writes (c : Config) (l : Locals) (s : State) :
    ∃ U a1 a2 a3, step12b c l s =
      { s with pG := { s.pG with U := U, x1MassFlux := a1, x2MassFlux := a2,
                                 x3MassFlux := a3 } } := by
  cases hg : c.SELF_GRAVITY with
  | false => rw [step12b_off c l s hg]; exact ⟨_, _, _, _, rfl⟩
  | true =>
    unfold step12b
    rw [hg]
    simp only [if_true]
    have e1 : ∃ U, step12b1 c l s = { s with pG := { s.pG with U := U } } :=
      ⟨_, step12b1_eq c l s⟩
    obtain ⟨U1, h1⟩ := e1
    rw [h1]
    have e2 : ∃ U, step12b2 c l { s with pG := { s.pG with U := U1 } } =
        { s with pG := { s.pG with U := U } } := ⟨_, step12b2_eq c l _⟩
    obtain ⟨U2, h2⟩ := e2
    rw [h2]
    have e3 : ∃ U, step12b3 c l { s with pG := { s.pG with U := U2 } } =
        { s with pG := { s.pG with U := U } } := ⟨_, step12b3_eq c l _⟩
    obtain ⟨U3, h3⟩ := e3
    rw [h3]
    obtain ⟨a1, a2, a3, h⟩ := stepMassFlux_writes l { s with pG := { s.pG with U := U3 } }
    rw [h]
    exact ⟨U3, a1, a2, a3, rfl⟩

/-- What Steps 11c-13e write: `pG->U`, the face fields and the mass fluxes of the
grid; the flux arrays, the corner EMFs and the overlap records are left alone. -/
theorem correctorTail_writes (c : Config) (l : Locals) (b : State) :
    ∃ U B1 B2 B3 a1 a2 a3,
      step13e l (step13 l (step12b c l (step12a c l (step11c l b)))) =
        { b with pG := { b.pG with U := U, B1i := B1, B2i := B2, B3i := B3,
                                   x1MassFlux := a1, x2MassFlux := a2, x3MassFlux := a3 } } := by
  obtain ⟨B1, B2, B3, h1⟩ := step11c_frame l b
  obtain ⟨U2, h2⟩ := step12a_writes c l (step11c l b)
  obtain ⟨U3, a1, a2, a3, h3⟩ := step12b_writes c l (step12a c l (step11c l b))
  rw [step13e_eq, step13_eq, h3, h2, h1]
  exact ⟨_, _, _, _, _, _, _, rfl⟩

/-- The loop over the child grids replaces each child's overlap record by the one
the stores for that grid leave. -/
theorem smrChild_CGrid (s : State) (n : Int) (hn : 0 ≤ n ∧ n ≤ s.pG.NCGrid - 1) :
    (smrChild s).pG.CGrid n = smrGrid s (s.pG.CGrid n) := by
  let obs : State → State × GridOvrlpS :=
    fun t => ({ t with pG := { t.pG with CGrid := s.pG.CGrid } }, t.pG.CGrid n)
  let body : Int → State → State := fun ncg s =>
    { s with pG := { s.pG with CGrid := set1 s.pG.CGrid ncg (smrGrid s (s.pG.CGrid ncg)) } }
  let G : State × GridOvrlpS → State × GridOvrlpS := fun v => (v.1, smrGrid v.1 v.2)
  have key : obs (smrChild s) = G (obs s) := by
    refine forLoop_hit obs 0 (s.pG.NCGrid - 1) n body G hn.1 hn.2 ?_ ?_ s
    · intro t
      show (_, set1 t.pG.CGrid n (smrGrid t (t.pG.CGrid n)) n) = (_, _)
      simp only [set1, if_true]
      rfl
    · intro m t _ _ hne
      show (_, set1 t.pG.CGrid m (smrGrid t (t.pG.CGrid m)) n) = (_, _)
      have : ¬ n = m := fun h => hne h.symm
      simp only [set1, this, if_false]
  exact congrArg (fun v => v.2) key

theorem smrChild_writes (s : State) :
    ∃ a, smrChild s = { s with pG := { s.pG with CGrid := a } } := by
  unfold smrChild
  refine forLoop_inv (fun t => ∃ a, t = { s with pG := { s.pG with CGrid := a } })
    _ _ _ ?_ s ⟨_, rfl⟩
  rintro m t _ _ ⟨a, rfl⟩
  exact ⟨_, rfl⟩

/-- The loop over the parent grids replaces each parent's overlap record by the one
the stores for that grid leave. -/
theorem smrParent_PGrid (s : State) (n : Int) (hn : 0 ≤ n ∧ n ≤ s.pG.NPGrid - 1) :
    (smrParent s).pG.PGrid n = smrGrid s (s.pG.PGrid n) := by
  let obs : State → State × GridOvrlpS :=
    fun t => ({ t with pG := { t.pG with PGrid := s.pG.PGrid } }, t.pG.PGrid n)
  let body : Int → State → State := fun npg s =>
    { s with pG := { s.pG with PGrid := set1 s.pG.PGrid npg (smrGrid s (s.pG.PGrid npg)) } }
  let G : State × GridOvrlpS → State × GridOvrlpS := fun v => (v.1, smrGrid v.1 v.2)
  have key : obs (smrParent s) = G (obs s) := by
    refine forLoop_hit obs 0 (s.pG.NPGrid - 1) n body G hn.1 hn.2 ?_ ?_ s
    · intro t
      show (_, set1 t.pG.PGrid n (smrGrid t (t.pG.PGrid n)) n) = (_, _)
      simp only [set1, if_true]
      rfl
    · intro m t _ _ hne
      show (_, set1 t.pG.PGrid m (smrGrid t (t.pG.PGrid m)) n) = (_, _)
      have : ¬ n = m := fun h => hne h.symm
      simp only [set1, this, if_false]
  exact congrArg (fun v => v.2) key

theorem smrParent_writes (s : State) :
    ∃ a, smrParent s = { s with pG := { s.pG with PGrid := a } } := by
  unfold smrParent
  refine forLoop_inv (fun t => ∃ a, t = { s with pG := { s.pG with PGrid := a } })
    _ _ _ ?_ s ⟨_, rfl⟩
  rintro m t _ _ ⟨a, rfl⟩
  exact ⟨_, rfl⟩

/-- With mesh refinement the register step replaces each child's overlap record by
the one the stores for that grid leave. -/
theorem stepSMR_CGrid (c : Config) (t : State) (hsmr : c.STATIC_MESH_REFINEMENT = true)
    (n : Int) (hn : 0 ≤ n ∧ n ≤ t.pG.NCGrid - 1) :
    (stepSMR c t).pG.CGrid n = smrGrid t (t.pG.CGrid n) := by
  unfold stepSMR
  simp only [hsmr, if_true]
  obtain ⟨a, ha⟩ := smrParent_writes (smrChild t)
  rw [ha]
  exact smrChild_CGrid t n hn

/-- With mesh refinement the register step replaces each parent's overlap record by
the one the stores for that grid leave. -/
theorem stepSMR_PGrid (c : Config) (t : State) (hsmr : c.STATIC_MESH_REFINEMENT = true)
    (n : Int) (hn : 0 ≤ n ∧ n ≤ t.pG.NPGrid - 1) :
    (stepSMR c t).pG.PGrid n = smrGrid t (t.pG.PGrid n) := by
  unfold stepSMR
  simp only [hsmr, if_true]
  obtain ⟨a, ha⟩ := smrChild_writes t
  rw [ha]
  exact smrParent_PGrid _ n hn

/-- With mesh refinement, the overlap records at the end of `integrate_3d_vl` are the
ones the register stores make from the initial records and the corrector's state. -/
theorem integrate_3d_vl_CGrid (c : Config) (s : State)
    (hsmr : c.STATIC_MESH_REFINEMENT = true) (n : Int) (hn : 0 ≤ n ∧ n ≤ s.pG.NCGrid - 1) :
    (integrate_3d_vl c s).pG.CGrid n = smrGrid (beforeStep11c c s) (s.pG.CGrid n) := by
  rw [integrate_3d_vl_eq]
  obtain ⟨U, B1, B2, B3, a1, a2, a3, h⟩ :=
    correctorTail_writes c (locals c s.pG) (beforeStep11c c s)
  rw [h]
  rw [stepSMR_CGrid c _ hsmr n (by simpa only [beforeStep11c_pG] using hn)]
  simp only [beforeStep11c_pG]
  rfl

theorem integrate_3d_vl_PGrid (c : Config) (s : State)
    (hsmr : c.STATIC_MESH_REFINEMENT = true) (n : Int) (hn : 0 ≤ n ∧ n ≤ s.pG.NPGrid - 1) :
    (integrate_3d_vl c s).pG.PGrid n = smrGrid (beforeStep11c c s) (s.pG.PGrid n) := by
  rw [integrate_3d_vl_eq]
  obtain ⟨U, B1, B2, B3, a1, a2, a3, h⟩ :=
    correctorTail_writes c (locals c s.pG) (beforeStep11c c s)
  rw [h]
  rw [stepSMR_PGrid c _ hsmr n (by simpa only [beforeStep11c_pG] using hn)]
  simp only [beforeStep11c_pG]
  rfl

/-- C10: the flux registers of static mesh refinement are a pure copy with index
remapping. For every child or parent neighbour `g` of the grid and every face slot
`dim` whose `myFlx[dim]` is non-NULL, after `integrate_3d_vl` the register entry at
local index `(k-kcs, j-jcs)` for an x1-face (`dim = 0, 1`), `(k-kcs, i-ics)` for an
x2-face (`dim = 2, 3`) and `(j-jcs, i-ics)` for an x3-face (`dim = 4, 5`) holds the
corrector flux at the block face, taken at index `ijks[d]` for the even slot and
`ijke[d]+1` for the odd slot, for every transverse index in `[ijks, ijke]`; `d` and
`E` are copied unchanged and `(M1, M2, M3)` receive `(Mx, My, Mz)` on x1-faces,
`(Mz, Mx, My)` on x2-faces and `(My, Mz, Mx)` on x3-faces. The index ranges of the
neighbour are not changed. -/
theorem C10_flux_registers (c : Config) (s : State) (hsmr : c.STATIC_MESH_REFINEMENT = true)
    (g g' : GridOvrlpS)
    (hg : (∃ n, 0 ≤ n ∧ n < s.pG.NCGrid ∧ g = s.pG.CGrid n ∧
            g' = (integrate_3d_vl c s).pG.CGrid n) ∨
          (∃ n, 0 ≤ n ∧ n < s.pG.NPGrid ∧ g = s.pG.PGrid n ∧
            g' = (integrate_3d_vl c s).pG.PGrid n)) :
    (g'.ijks = g.ijks ∧ g'.ijke = g.ijke) ∧
    (∀ dim k j, dim = 0 ∨ dim = 1 → (g.myFlx dim).isSome = true →
      g.ijks 2 ≤ k ∧ k ≤ g.ijke 2 → g.ijks 1 ≤ j ∧ j ≤ g.ijke 1 →
      regEntry g' dim (k - g.ijks 2) (j - g.ijks 1) =
        some (flxReg1 ((beforeStep11c c s).x1Flux k j
          (if dim = 0 then g.ijks 0 else g.ijke 0 + 1)))) ∧
    (∀ dim k i, dim = 2 ∨ dim = 3 → (g.myFlx dim).isSome = true →
      g.ijks 2 ≤ k ∧ k ≤ g.ijke 2 → g.ijks 0 ≤ i ∧ i ≤ g.ijke 0 →
      regEntry g' dim (k - g.ijks 2) (i - g.ijks 0) =
        some (flxReg2 ((beforeStep11c c s).x2Flux k
          (if dim = 2 then g.ijks 1 else g.ijke 1 + 1) i))) ∧
    (∀ dim j i, dim = 4 ∨ dim = 5 → (g.myFlx dim).isSome = true →
      g.ijks 1 ≤ j ∧ j ≤ g.ijke 1 → g.ijks 0 ≤ i ∧ i ≤ g.ijke 0 →
      regEntry g' dim (j - g.ijks 1) (i - g.ijks 0) =
        some (flxReg3 ((beforeStep11c c s).x3Flux
          (if dim = 4 then g.ijks 2 else g.ijke 2 + 1) j i))) ∧
    (∀ f : Cons1D,
      ((flxReg1 f).d = f.d ∧ (flxReg1 f).E = f.E ∧
        (flxReg1 f).M1 = f.Mx ∧ (flxReg1 f).M2 = f.My ∧ (flxReg1 f).M3 = f.Mz) ∧
      ((flxReg2 f).d = f.d ∧ (flxReg2 f).E = f.E ∧
        (flxReg2 f).M1 = f.Mz ∧ (flxReg2 f).M2 = f.Mx ∧ (flxReg2 f).M3 = f.My) ∧
      ((flxReg3 f).d = f.d ∧ (flxReg3 f).E = f.E ∧
        (flxReg3 f).M1 = f.My ∧ (flxReg3 f).M2 = f.Mz ∧ (flxReg3 f).M3 = f.Mx)) := by
  have hg' : g' = smrGrid (beforeStep11c c s) g := by
    rcases hg with ⟨n, h0, h1, rfl, rfl⟩ | ⟨n, h0, h1, rfl, rfl⟩
    · exact integrate_3d_vl_CGrid c s hsmr n ⟨h0, by omega⟩
    · exact integrate_3d_vl_PGrid c s hsmr n ⟨h0, by omega⟩
  rw [hg']
  refine ⟨smrGrid_ij _ g, ?_, ?_, ?_, ?_⟩
  · intro dim k j hd h hk hj
    exact smrGrid_entry_x1 _ g dim k j hd h hk hj
  · intro dim k i hd h hk hi
    exact smrGrid_entry_x2 _ g dim k i hd h hk hi
  · intro dim j i hd h hj hi
    exact smrGrid_entry_x3 _ g dim j i hd h hj hi
  · intro f
    exact ⟨⟨rfl, rfl, rfl, rfl, rfl⟩, ⟨rfl, rfl, rfl, rfl, rfl⟩, ⟨rfl, rfl, rfl, rfl, rfl⟩⟩

/-- C10 on `demoStateSMR`: the register of slot 0 of the child grid holds the
corrector's x1-flux at the face `i = ijks[0]`. -/
theorem C10_witness :
    regEntry ((integrate_3d_vl demoConfig demoStateSMR).pG.CGrid 0) 0
        (0 - demoOvrlp.ijks 2) (0 - demoOvrlp.ijks 1) =
      some (flxReg1 ((beforeStep11c demoConfig demoStateSMR).x1Flux 0 0
        (if (0 : Int) = 0 then demoOvrlp.ijks 0 else demoOvrlp.ijke 0 + 1))) :=
  (C10_flux_registers demoConfig demoStateSMR rfl demoOvrlp
    ((integrate_3d_vl demoConfig demoStateSMR).pG.CGrid 0)
    (Or.inl ⟨0, by decide, by decide, rfl, rfl⟩)).2.1 0 0 0 (Or.inl rfl) rfl
    ⟨by decide, by decide⟩ ⟨by decide, by decide⟩

/-! ## C3: a uniform state is a fixed point -/

/-- Hoare rule for a loop: under an invariant `P` that every iteration keeps, if the
iteration `m0` establishes `Q` and every other iteration keeps `Q`, then `Q` holds
after the loop. -/
theorem forLoop_establish {σ : Type} (P Q : σ → Prop) (lo hi m0 : Int) (body : Int → σ → σ)
    (h1 : lo ≤ m0) (h2 : m0 ≤ hi)
    (HP : ∀ m s, lo ≤ m → m ≤ hi → P s → P (body m s))
    (Hm : ∀ s, P s → Q (body m0 s))
    (HQ : ∀ m s, lo ≤ m → m ≤ hi → m ≠ m0 → P s → Q s → Q (body m s))
    (s : σ) (hs : P s) : Q (forLoop lo hi body s) := by
  have key : ∀ (n : Nat) (a : Int) (s : σ), lo ≤ a → a + n ≤ hi + 1 → P s → (m0 < a → Q s) →
      (m0 < a + n → Q (forLoopAux body n a s)) := by
    intro n
    induction n with
    | zero =>
      intro a s _ _ _ hq hlt
      exact hq (by simpa using hlt)
    | succ n ih =>
      intro a s ha hn hp hq hlt
      simp only [forLoopAux]
      have hah : a ≤ hi := by push_cast at hn; omega
      refine ih (a + 1) (body a s) (by omega) (by push_cast at hn; omega) (HP a s ha hah hp) ?_
        (by push_cast at hlt; omega)
      intro hm
      by_cases e : a = m0
      · subst e; exact Hm s hp
      · exact HQ a s ha hah e hp (hq (by omega))
  unfold forLoop
  have hn : (lo + ((hi + 1 - lo).toNat : Int)) = hi + 1 := by omega
  exact key _ lo s (le_refl _) (by omega) hs (fun h => absurd h (by omega)) (by omega)

/-- Hoare rule for a double loop nest. -/
theorem forLoop2_establish {σ : Type} (P Q : σ → Prop) (jlo jhi ilo ihi j0 i0 : Int)
    (body : Int → Int → σ → σ) (hj : jlo ≤ j0 ∧ j0 ≤ jhi) (hi : ilo ≤ i0 ∧ i0 ≤ ihi)
    (HP : ∀ j i s, jlo ≤ j → j ≤ jhi → ilo ≤ i → i ≤ ihi → P s → P (body j i s))
    (Hm : ∀ s, P s → Q (body j0 i0 s))
    (HQ : ∀ j i s, jlo ≤ j → j ≤ jhi → ilo ≤ i → i ≤ ihi → ¬ (j = j0 ∧ i = i0) →
      P s → Q s → Q (body j i s))
    (s : σ) (hs : P s) :
    Q (forLoop jlo jhi (fun j s => forLoop ilo ihi (fun i s => body j i s) s) s) := by
  refine forLoop_establish P Q jlo jhi j0 _ hj.1 hj.2 ?_ ?_ ?_ s hs
  · intro j t a b hp
    exact forLoop_inv P _ _ _ (fun i t c d hp => HP j i t a b c d hp) t hp
  · intro t hp
    exact forLoop_establish P Q ilo ihi i0 _ hi.1 hi.2
      (fun i t c d hp => HP j0 i t hj.1 hj.2 c d hp) Hm
      (fun i t c d hne hp hq => HQ j0 i t hj.1 hj.2 c d (fun h => hne h.2) hp hq) t hp
  · intro j t a b hne hp hq
    have := forLoop_inv (fun t => P t ∧ Q t) ilo ihi (fun i s => body j i s)
      (fun i t c d h => ⟨HP j i t a b c d h.1, HQ j i t a b c d (fun h' => hne h'.1) h.1 h.2⟩)
      t ⟨hp, hq⟩
    exact this.2

/-- Hoare rule for a triple loop nest. -/
theorem forLoop3_establish {σ : Type} (P Q : σ → Prop) (klo khi jlo jhi ilo ihi k0 j0 i0 : Int)
    (body : Int → Int → Int → σ → σ)
    (hk : klo ≤ k0 ∧ k0 ≤ khi) (hj : jlo ≤ j0 ∧ j0 ≤ jhi) (hi : ilo ≤ i0 ∧ i0 ≤ ihi)
    (HP : ∀ k j i s, klo ≤ k → k ≤ khi → jlo ≤ j → j ≤ jhi → ilo ≤ i → i ≤ ihi →
      P s → P (body k j i s))
    (Hm : ∀ s, P s → Q (body k0 j0 i0 s))
    (HQ : ∀ k j i s, klo ≤ k → k ≤ khi → jlo ≤ j → j ≤ jhi → ilo ≤ i → i ≤ ihi →
      ¬ (k = k0 ∧ j = j0 ∧ i = i0) → P s → Q s → Q (body k j i s))
    (s : σ) (hs : P s) :
    Q (forLoop klo khi (fun k s => forLoop jlo jhi (fun j s =>
      forLoop ilo ihi (fun i s => body k j i s) s) s) s) := by
  refine forLoop_establish P Q klo khi k0 _ hk.1 hk.2 ?_ ?_ ?_ s hs
  · intro k t a b hp
    exact forLoop_inv P _ _ _ (fun j t c d hp =>
      forLoop_inv P _ _ _ (fun i t e f hp => HP k j i t a b c d e f hp) t hp) t hp
  · intro t hp
    exact forLoop2_establish P Q jlo jhi ilo ihi j0 i0 (body k0) hj hi
      (fun j i t c d e f hp => HP k0 j i t hk.1 hk.2 c d e f hp) Hm
      (fun j i t c d e f hne hp hq =>
        HQ k0 j i t hk.1 hk.2 c d e f (fun h => hne ⟨h.2.1, h.2.2⟩) hp hq) t hp
  · intro k t a b hne hp hq
    have := forLoop_inv (fun t => P t ∧ Q t) jlo jhi
      (fun j s => forLoop ilo ihi (fun i s => body k j i s) s)
      (fun j t c d h => forLoop_inv (fun t => P t ∧ Q t) ilo ihi (fun i s => body k j i s)
        (fun i t e f h => ⟨HP k j i t a b c d e f h.1,
          HQ k j i t a b c d e f (fun h' => hne h'.1) h.1 h.2⟩) t h)
      t ⟨hp, hq⟩
    exact this.2

/-- Step 1 on a uniform state: every flux it computes is `uniformFlux`. -/
theorem step1_uniform (c : Config) (l : Locals) (s : State) (d0 E0 : ℚ)
    (hU : ∀ k j i, s.pG.U k j i = uniformGas d0 E0) (hB : ∀ k j i, s.pG.B1i k j i = 0)
    (he : s.etah = 0) (k0 j0 i0 : Int)
    (hk : l.kl ≤ k0 ∧ k0 ≤ l.ku) (hj : l.jl ≤ j0 ∧ j0 ≤ l.ju) (hi : l.il + 1 ≤ i0 ∧ i0 ≤ l.iu) :
    (step1 c l s).x1Flux k0 j0 i0 = uniformFlux c d0 E0 := by
  let P : State → Prop := fun t => (∀ k j i, t.pG.U k j i = uniformGas d0 E0) ∧
    (∀ k j i, t.pG.B1i k j i = 0) ∧ t.etah = 0
  let Q : State → Prop := fun t => t.x1Flux k0 j0 i0 = uniformFlux c d0 E0
  let P1 : State → Prop := fun t => t.Ul i0 = uniformCons d0 E0 ∧ t.Ur i0 = uniformCons d0 E0 ∧
    t.B1_x1Face k0 j0 i0 = 0
  unfold step1
  refine forLoop2_establish P Q _ _ _ _ k0 j0
    (fun k j s => forLoop (l.il + 1) l.iu (fun i s => step1_flux c k j i s)
      (forLoop (l.il + 1) l.iu (fun i s => step1_load k j i s) s)) hk hj ?_ ?_ ?_ s ⟨hU, hB, he⟩
  · intro k j t _ _ _ _ hp
    exact forLoop_inv P _ _ (fun i s => step1_flux c k j i s) (fun i t _ _ hp => hp) _
      (forLoop_inv P _ _ (fun i s => step1_load k j i s) (fun i t _ _ hp => hp) t hp)
  · intro t hp
    have h1 : (fun t => P t ∧ P1 t)
        (forLoop (l.il + 1) l.iu (fun i s => step1_load k0 j0 i s) t) := by
      refine ⟨forLoop_inv P _ _ (fun i s => step1_load k0 j0 i s) (fun i t _ _ hp => hp) t hp, ?_⟩
      refine forLoop_establish P P1 _ _ i0 (fun i s => step1_load k0 j0 i s) hi.1 hi.2
        (fun i t _ _ hp => hp) ?_ ?_ t hp
      · intro t hp
        refine ⟨?_, ?_, ?_⟩
        · simp only [step1_load, set1, if_true]
          rw [hp.1]; rfl
        · simp only [step1_load, set1, if_true]
          rw [hp.1]; rfl
        · simp only [step1_load, set3, and_self, if_true]
          exact hp.2.1 _ _ _
      · intro i t _ _ hne hp hq
        have hn : ¬ i0 = i := fun h => hne h.symm
        refine ⟨?_, ?_, ?_⟩
        · simp only [step1_load, set1, hn, if_false]; exact hq.1
        · simp only [step1_load, set1, hn, if_false]; exact hq.2.1
        · simp only [step1_load, set3, hn, and_false, if_false]; exact hq.2.2
    refine forLoop_establish (fun t => P t ∧ P1 t) Q _ _ i0 _ hi.1 hi.2 ?_ ?_ ?_ _ h1
    · intro i t _ _ hp
      exact hp
    · intro t hp
      show (step1_flux c k0 j0 i0 t).x1Flux k0 j0 i0 = _
      simp only [step1_flux, set1, set3, and_self, if_true]
      rw [hp.2.1, hp.2.2.1, hp.2.2.2, hp.1.2.2]
      rfl
    · intro i t _ _ hne hp hq
      have hn : ¬ i0 = i := fun h => hne h.symm
      show (step1_flux c k0 j0 i t).x1Flux k0 j0 i0 = _
      simp only [step1_flux, set3, hn, and_false, if_false]
      exact hq
  · intro k j t _ _ _ _ hne hp hq
    refine forLoop_inv Q _ _ _ ?_ _
      (forLoop_inv Q _ _ (fun i s => step1_load k j i s) (fun i t _ _ hq => hq) t hq)
    intro i t _ _ hq
    have hn : ¬ (k0 = k ∧ j0 = j ∧ i0 = i) := fun h => hne ⟨h.1.symm, h.2.1.symm⟩
    show (step1_flux c k j i t).x1Flux k0 j0 i0 = _
    simp only [step1_flux, set3, hn, if_false]
    exact hq

/-- Step 2 on a uniform state: every flux it computes is `uniformFlux`. -/
theorem step2_uniform (c : Config) (l : Locals) (s : State) (d0 E0 : ℚ)
    (hU : ∀ k j i, s.pG.U k j i = uniformGas d0 E0) (hB : ∀ k j i, s.pG.B2i k j i = 0)
    (he : s.etah = 0) (k0 j0 i0 : Int)
    (hk : l.kl ≤ k0 ∧ k0 ≤ l.ku) (hj : l.jl + 1 ≤ j0 ∧ j0 ≤ l.ju) (hi : l.il ≤ i0 ∧ i0 ≤ l.iu) :
    (step2 c l s).x2Flux k0 j0 i0 = uniformFlux c d0 E0 := by
  let P : State → Prop := fun t => (∀ k j i, t.pG.U k j i = uniformGas d0 E0) ∧
    (∀ k j i, t.pG.B2i k j i = 0) ∧ t.etah = 0
  let Q : State → Prop := fun t => t.x2Flux k0 j0 i0 = uniformFlux c d0 E0
  let P1 : State → Prop := fun t => t.Ul j0 = uniformCons d0 E0 ∧ t.Ur j0 = uniformCons d0 E0 ∧
    t.B2_x2Face k0 j0 i0 = 0
  unfold step2
  refine forLoop2_establish P Q _ _ _ _ k0 i0
    (fun k i s => forLoop (l.jl + 1) l.ju (fun j s => step2_flux c k j i s)
      (forLoop (l.jl + 1) l.ju (fun j s => step2_load k j i s) s)) hk hi ?_ ?_ ?_ s ⟨hU, hB, he⟩
  · intro k i t _ _ _ _ hp
    exact forLoop_inv P _ _ (fun j s => step2_flux c k j i s) (fun j t _ _ hp => hp) _
      (forLoop_inv P _ _ (fun j s => step2_load k j i s) (fun j t _ _ hp => hp) t hp)
  · intro t hp
    have h1 : (fun t => P t ∧ P1 t)
        (forLoop (l.jl + 1) l.ju (fun j s => step2_load k0 j i0 s) t) := by
      refine ⟨forLoop_inv P _ _ (fun j s => step2_load k0 j i0 s) (fun j t _ _ hp => hp) t hp, ?_⟩
      refine forLoop_establish P P1 _ _ j0 (fun j s => step2_load k0 j i0 s) hj.1 hj.2
        (fun j t _ _ hp => hp) ?_ ?_ t hp
      · intro t hp
        refine ⟨?_, ?_, ?_⟩
        · simp only [step2_load, set1, if_true]
          rw [hp.1]; rfl
        · simp only [step2_load, set1, if_true]
          rw [hp.1]; rfl
        · simp only [step2_load, set3, and_self, if_true]
          exact hp.2.1 _ _ _
      · intro j t _ _ hne hp hq
        have hn : ¬ j0 = j := fun h => hne h.symm
        refine ⟨?_, ?_, ?_⟩
        · simp only [step2_load, set1, hn, if_false]; exact hq.1
        · simp only [step2_load, set1, hn, if_false]; exact hq.2.1
        · simp only [step2_load, set3, hn, false_and, and_false, if_false]; exact hq.2.2
    refine forLoop_establish (fun t => P t ∧ P1 t) Q _ _ j0 _ hj.1 hj.2 ?_ ?_ ?_ _ h1
    · intro j t _ _ hp
      exact hp
    · intro t hp
      show (step2_flux c k0 j0 i0 t).x2Flux k0 j0 i0 = _
      simp only [step2_flux, set1, set3, and_self, if_true]
      rw [hp.2.1, hp.2.2.1, hp.2.2.2, hp.1.2.2]
      rfl
    · intro j t _ _ hne hp hq
      have hn : ¬ j0 = j := fun h => hne h.symm
      show (step2_flux c k0 j i0 t).x2Flux k0 j0 i0 = _
      simp only [step2_flux, set3, hn, false_and, and_false, if_false]
      exact hq
  · intro k i t _ _ _ _ hne hp hq
    refine forLoop_inv Q _ _ _ ?_ _
      (forLoop_inv Q _ _ (fun j s => step2_load k j i s) (fun j t _ _ hq => hq) t hq)
    intro j t _ _ hq
    have hn : ¬ (k0 = k ∧ j0 = j ∧ i0 = i) := fun h => hne ⟨h.1.symm, h.2.2.symm⟩
    show (step2_flux c k j i t).x2Flux k0 j0 i0 = _
    simp only [step2_flux, set3, hn, if_false]
    exact hq

/-- Step 3 on a uniform state: every flux it computes is `uniformFlux`. -/
theorem step3_uniform (c : Config) (l : Locals) (s : State) (d0 E0 : ℚ)
    (hU : ∀ k j i, s.pG.U k j i = uniformGas d0 E0) (hB : ∀ k j i, s.pG.B3i k j i = 0)
    (he : s.etah = 0) (k0 j0 i0 : Int)
    (hk : l.kl + 1 ≤ k0 ∧ k0 ≤ l.ku) (hj : l.jl ≤ j0 ∧ j0 ≤ l.ju) (hi : l.il ≤ i0 ∧ i0 ≤ l.iu) :
    (step3 c l s).x3Flux k0 j0 i0 = uniformFlux c d0 E0 := by
  let P : State → Prop := fun t => (∀ k j i, t.pG.U k j i = uniformGas d0 E0) ∧
    (∀ k j i, t.pG.B3i k j i = 0) ∧ t.etah = 0
  let Q : State → Prop := fun t => t.x3Flux k0 j0 i0 = uniformFlux c d0 E0
  let P1 : State → Prop := fun t => t.Ul k0 = uniformCons d0 E0 ∧ t.Ur k0 = uniformCons d0 E0 ∧
    t.B3_x3Face k0 j0 i0 = 0
  unfold step3
  refine forLoop2_establish P Q _ _ _ _ j0 i0
    (fun j i s => forLoop (l.kl + 1) l.ku (fun k s => step3_flux c k j i s)
      (forLoop (l.kl + 1) l.ku (fun k s => step3_load k j i s) s)) hj hi ?_ ?_ ?_ s ⟨hU, hB, he⟩
  · intro j i t _ _ _ _ hp
    exact forLoop_inv P _ _ (fun k s => step3_flux c k j i s) (fun k t _ _ hp => hp) _
      (forLoop_inv P _ _ (fun k s => step3_load k j i s) (fun k t _ _ hp => hp) t hp)
  · intro t hp
    have h1 : (fun t => P t ∧ P1 t)
        (forLoop (l.kl + 1) l.ku (fun k s => step3_load k j0 i0 s) t) := by
      refine ⟨forLoop_inv P _ _ (fun k s => step3_load k j0 i0 s) (fun k t _ _ hp => hp) t hp, ?_⟩
      refine forLoop_establish P P1 _ _ k0 (fun k s => step3_load k j0 i0 s) hk.1 hk.2
        (fun k t _ _ hp => hp) ?_ ?_ t hp
      · intro t hp
        refine ⟨?_, ?_, ?_⟩
        · simp only [step3_load, set1, if_true]
          rw [hp.1]; rfl
        · simp only [step3_load, set1, if_true]
          rw [hp.1]; rfl
        · simp only [step3_load, set3, and_self, if_true]
          exact hp.2.1 _ _ _
      · intro k t _ _ hne hp hq
        have hn : ¬ k0 = k := fun h => hne h.symm
        refine ⟨?_, ?_, ?_⟩
        · simp only [step3_load, set1, hn, if_false]; exact hq.1
        · simp only [step3_load, set1, hn, if_false]; exact hq.2.1
        · simp only [step3_load, set3, hn, false_and, if_false]; exact hq.2.2
    refine forLoop_establish (fun t => P t ∧ P1 t) Q _ _ k0 _ hk.1 hk.2 ?_ ?_ ?_ _ h1
    · intro k t _ _ hp
      exact hp
    · intro t hp
      show (step3_flux c k0 j0 i0 t).x3Flux k0 j0 i0 = _
      simp only [step3_flux, set1, set3, and_self, if_true]
      rw [hp.2.1, hp.2.2.1, hp.2.2.2, hp.1.2.2]
      rfl
    · intro k t _ _ hne hp hq
      have hn : ¬ k0 = k := fun h => hne h.symm
      show (step3_flux c k j0 i0 t).x3Flux k0 j0 i0 = _
      simp only [step3_flux, set3, hn, false_and, if_false]
      exact hq
  · intro j i t _ _ _ _ hne hp hq
    refine forLoop_inv Q _ _ _ ?_ _
      (forLoop_inv Q _ _ (fun k s => step3_load k j i s) (fun k t _ _ hq => hq) t hq)
    intro k t _ _ hq
    have hn : ¬ (k0 = k ∧ j0 = j ∧ i0 = i) := fun h => hne ⟨h.2.1.symm, h.2.2.symm⟩
    show (step3_flux c k j i t).x3Flux k0 j0 i0 = _
    simp only [step3_flux, set3, hn, if_false]
    exact hq

/-- Step 4a: the cell-centred EMFs it stores, from `pG->U`. -/
theorem step4a_cc (l : Locals) (s : State) (k0 j0 i0 : Int)
    (hk : l.kl ≤ k0 ∧ k0 ≤ l.ku) (hj : l.jl ≤ j0 ∧ j0 ≤ l.ju) (hi : l.il ≤ i0 ∧ i0 ≤ l.iu) :
    (step4a l s).emf1_cc k0 j0 i0 =
        ((s.pG.U k0 j0 i0).B2c * (s.pG.U k0 j0 i0).M3
          - (s.pG.U k0 j0 i0).B3c * (s.pG.U k0 j0 i0).M2) / (s.pG.U k0 j0 i0).d ∧
    (step4a l s).emf2_cc k0 j0 i0 =
        ((s.pG.U k0 j0 i0).B3c * (s.pG.U k0 j0 i0).M1
          - (s.pG.U k0 j0 i0).B1c * (s.pG.U k0 j0 i0).M3) / (s.pG.U k0 j0 i0).d ∧
    (step4a l s).emf3_cc k0 j0 i0 =
        ((s.pG.U k0 j0 i0).B1c * (s.pG.U k0 j0 i0).M2
          - (s.pG.U k0 j0 i0).B2c * (s.pG.U k0 j0 i0).M1) / (s.pG.U k0 j0 i0).d := by
  let obs : State → Gas × ℚ × ℚ × ℚ := fun t =>
    (t.pG.U k0 j0 i0, t.emf1_cc k0 j0 i0, t.emf2_cc k0 j0 i0, t.emf3_cc k0 j0 i0)
  let g : Gas × ℚ × ℚ × ℚ → Gas × ℚ × ℚ × ℚ := fun v =>
    (v.1, (v.1.B2c * v.1.M3 - v.1.B3c * v.1.M2) / v.1.d,
      (v.1.B3c * v.1.M1 - v.1.B1c * v.1.M3) / v.1.d,
      (v.1.B1c * v.1.M2 - v.1.B2c * v.1.M1) / v.1.d)
  let body : Int → Int → Int → State → State := fun k j i s =>
    let u := s.pG.U k j i
    let s := { s with emf1_cc := set3 s.emf1_cc k j i ((u.B2c * u.M3 - u.B3c * u.M2) / u.d) }
    let s := { s with emf2_cc := set3 s.emf2_cc k j i ((u.B3c * u.M1 - u.B1c * u.M3) / u.d) }
    { s with emf3_cc := set3 s.emf3_cc k j i ((u.B1c * u.M2 - u.B2c * u.M1) / u.d) }
  have key : obs (step4a l s) = g (obs s) := by
    unfold step4a
    refine forLoop3_hit obs _ _ _ _ _ _ k0 j0 i0 body g hk hj hi ?_ ?_ s
    · intro t
      simp only [obs, g, body, set3, and_self, if_true]
    · intro k j i t _ _ _ _ _ _ hne
      simp only [obs, body, set3, hne, if_false]
  exact ⟨congrArg (fun v => v.2.1) key, congrArg (fun v => v.2.2.1) key,
    congrArg (fun v => v.2.2.2) key⟩

/-- Step 11a: the cell-centred EMFs it stores, from `Uhalf`. -/
theorem step11a_cc (l : Locals) (s : State) (k0 j0 i0 : Int)
    (hk : l.kb ≤ k0 ∧ k0 ≤ l.kt) (hj : l.jb ≤ j0 ∧ j0 ≤ l.jt) (hi : l.ib ≤ i0 ∧ i0 ≤ l.it) :
    (step11a l s).emf1_cc k0 j0 i0 =
        ((s.Uhalf k0 j0 i0).B2c * (s.Uhalf k0 j0 i0).M3
          - (s.Uhalf k0 j0 i0).B3c * (s.Uhalf k0 j0 i0).M2) / (s.Uhalf k0 j0 i0).d ∧
    (step11a l s).emf2_cc k0 j0 i0 =
        ((s.Uhalf k0 j0 i0).B3c * (s.Uhalf k0 j0 i0).M1
          - (s.Uhalf k0 j0 i0).B1c * (s.Uhalf k0 j0 i0).M3) / (s.Uhalf k0 j0 i0).d ∧
    (step11a l s).emf3_cc k0 j0 i0 =
        ((s.Uhalf k0 j0 i0).B1c * (s.Uhalf k0 j0 i0).M2
          - (s.Uhalf k0 j0 i0).B2c * (s.Uhalf k0 j0 i0).M1) / (s.Uhalf k0 j0 i0).d := by
  let obs : State → Gas × ℚ × ℚ × ℚ := fun t =>
    (t.Uhalf k0 j0 i0, t.emf1_cc k0 j0 i0, t.emf2_cc k0 j0 i0, t.emf3_cc k0 j0 i0)
  let g : Gas × ℚ × ℚ × ℚ → Gas × ℚ × ℚ × ℚ := fun v =>
    (v.1, (v.1.B2c * v.1.M3 - v.1.B3c * v.1.M2) / v.1.d,
      (v.1.B3c * v.1.M1 - v.1.B1c * v.1.M3) / v.1.d,
      (v.1.B1c * v.1.M2 - v.1.B2c * v.1.M1) / v.1.d)
  let body : Int → Int → Int → State → State := fun k j i s =>
    let d := (s.Uhalf k j i).d
    let M1 := (s.Uhalf k j i).M1
    let M2 := (s.Uhalf k j i).M2
    let M3 := (s.Uhalf k j i).M3
    let B1c := (s.Uhalf k j i).B1c
    let B2c := (s.Uhalf k j i).B2c
    let B3c := (s.Uhalf k j i).B3c
    let s := { s with emf1_cc := set3 s.emf1_cc k j i ((B2c * M3 - B3c * M2) / d) }
    let s := { s with emf2_cc := set3 s.emf2_cc k j i ((B3c * M1 - B1c * M3) / d) }
    { s with emf3_cc := set3 s.emf3_cc k j i ((B1c * M2 - B2c * M1) / d) }
  have key : obs (step11a l s) = g (obs s) := by
    unfold step11a
    refine forLoop3_hit obs _ _ _ _ _ _ k0 j0 i0 body g hk hj hi ?_ ?_ s
    · intro t
      simp only [obs, g, body, set3, and_self, if_true]
    · intro k j i t _ _ _ _ _ _ hne
      simp only [obs, body, set3, hne, if_false]
  exact ⟨congrArg (fun v => v.2.1) key, congrArg (fun v => v.2.2.1) key,
    congrArg (fun v => v.2.2.2) key⟩

/-- Step 11a leaves the cell-centred EMFs outside its loop range alone. -/
theorem step11a_cc_out (l : Locals) (s : State) (k0 j0 i0 : Int)
    (h : ¬ (l.kb ≤ k0 ∧ k0 ≤ l.kt ∧ l.jb ≤ j0 ∧ j0 ≤ l.jt ∧ l.ib ≤ i0 ∧ i0 ≤ l.it)) :
    (step11a l s).emf1_cc k0 j0 i0 = s.emf1_cc k0 j0 i0 ∧
    (step11a l s).emf2_cc k0 j0 i0 = s.emf2_cc k0 j0 i0 ∧
    (step11a l s).emf3_cc k0 j0 i0 = s.emf3_cc k0 j0 i0 := by
  let obs : State → ℚ × ℚ × ℚ := fun t =>
    (t.emf1_cc k0 j0 i0, t.emf2_cc k0 j0 i0, t.emf3_cc k0 j0 i0)
  let body : Int → Int → Int → State → State := fun k j i s =>
    let d := (s.Uhalf k j i).d
    let M1 := (s.Uhalf k j i).M1
    let M2 := (s.Uhalf k j i).M2
    let M3 := (s.Uhalf k j i).M3
    let B1c := (s.Uhalf k j i).B1c
    let B2c := (s.Uhalf k j i).B2c
    let B3c := (s.Uhalf k j i).B3c
    let s := { s with emf1_cc := set3 s.emf1_cc k j i ((B2c * M3 - B3c * M2) / d) }
    let s := { s with emf2_cc := set3 s.emf2_cc k j i ((B3c * M1 - B1c * M3) / d) }
    { s with emf3_cc := set3 s.emf3_cc k j i ((B1c * M2 - B2c * M1) / d) }
  have key : obs (step11a l s) = obs s := by
    unfold step11a
    refine forLoop3_frame obs _ _ _ _ _ _ body ?_ s
    intro k j i t a1 a2 a3 a4 a5 a6
    have hne : ¬ (k0 = k ∧ j0 = j ∧ i0 = i) := by
      rintro ⟨rfl, rfl, rfl⟩
      exact h ⟨a1, a2, a3, a4, a5, a6⟩
    simp only [obs, body, set3, hne, if_false]
  exact ⟨congrArg (fun v => v.1) key, congrArg (fun v => v.2.1) key,
    congrArg (fun v => v.2.2) key⟩

/-- The corner value `emf1[k][j][i]` is the same at any two corners where the fluxes
read are `G2`, `G3` and the cell-centred EMFs read are zero. -/
theorem emf1_cell_uniform (s : State) (G2 G3 : Cons1D) (k j i k' j' i' : Int)
    (h : s.x2Flux (k - 1) j i = G2 ∧ s.x2Flux k j i = G2 ∧ s.x3Flux k (j - 1) i = G3 ∧
      s.x3Flux k j i = G3 ∧ s.emf1_cc (k - 1) (j - 1) i = 0 ∧ s.emf1_cc (k - 1) j i = 0 ∧
      s.emf1_cc k (j - 1) i = 0 ∧ s.emf1_cc k j i = 0)
    (h' : s.x2Flux (k' - 1) j' i' = G2 ∧ s.x2Flux k' j' i' = G2 ∧ s.x3Flux k' (j' - 1) i' = G3 ∧
      s.x3Flux k' j' i' = G3 ∧ s.emf1_cc (k' - 1) (j' - 1) i' = 0 ∧
      s.emf1_cc (k' - 1) j' i' = 0 ∧ s.emf1_cc k' (j' - 1) i' = 0 ∧ s.emf1_cc k' j' i' = 0) :
    emf1_cell s k j i = emf1_cell s k' j' i' := by
  obtain ⟨a1, a2, a3, a4, a5, a6, a7, a8⟩ := h
  obtain ⟨b1, b2, b3, b4, b5, b6, b7, b8⟩ := h'
  unfold emf1_cell
  rw [a1, a2, a3, a4, a5, a6, a7, a8, b1, b2, b3, b4, b5, b6, b7, b8]

theorem emf2_cell_uniform (s : State) (G1 G3 : Cons1D) (k j i k' j' i' : Int)
    (h : s.x1Flux (k - 1) j i = G1 ∧ s.x1Flux k j i = G1 ∧ s.x3Flux k j (i - 1) = G3 ∧
      s.x3Flux k j i = G3 ∧ s.emf2_cc (k - 1) j (i - 1) = 0 ∧ s.emf2_cc (k - 1) j i = 0 ∧
      s.emf2_cc k j (i - 1) = 0 ∧ s.emf2_cc k j i = 0)
    (h' : s.x1Flux (k' - 1) j' i' = G1 ∧ s.x1Flux k' j' i' = G1 ∧ s.x3Flux k' j' (i' - 1) = G3 ∧
      s.x3Flux k' j' i' = G3 ∧ s.emf2_cc (k' - 1) j' (i' - 1) = 0 ∧
      s.emf2_cc (k' - 1) j' i' = 0 ∧ s.emf2_cc k' j' (i' - 1) = 0 ∧ s.emf2_cc k' j' i' = 0) :
    emf2_cell s k j i = emf2_cell s k' j' i' := by
  obtain ⟨a1, a2, a3, a4, a5, a6, a7, a8⟩ := h
  obtain ⟨b1, b2, b3, b4, b5, b6, b7, b8⟩ := h'
  unfold emf2_cell
  rw [a1, a2, a3, a4, a5, a6, a7, a8, b1, b2, b3, b4, b5, b6, b7, b8]

theorem emf3_cell_uniform (s : State) (G1 G2 : Cons1D) (k j i k' j' i' : Int)
    (h : s.x1Flux k (j - 1) i = G1 ∧ s.x1Flux k j i = G1 ∧ s.x2Flux k j (i - 1) = G2 ∧
      s.x2Flux k j i = G2 ∧ s.emf3_cc k (j - 1) (i - 1) = 0 ∧ s.emf3_cc k (j - 1) i = 0 ∧
      s.emf3_cc k j (i - 1) = 0 ∧ s.emf3_cc k j i = 0)
    (h' : s.x1Flux k' (j' - 1) i' = G1 ∧ s.x1Flux k' j' i' = G1 ∧ s.x2Flux k' j' (i' - 1) = G2 ∧
      s.x2Flux k' j' i' = G2 ∧ s.emf3_cc k' (j' - 1) (i' - 1) = 0 ∧
      s.emf3_cc k' (j' - 1) i' = 0 ∧ s.emf3_cc k' j' (i' - 1) = 0 ∧ s.emf3_cc k' j' i' = 0) :
    emf3_cell s k j i = emf3_cell s k' j' i' := by
  obtain ⟨a1, a2, a3, a4, a5, a6, a7, a8⟩ := h
  obtain ⟨b1, b2, b3, b4, b5, b6, b7, b8⟩ := h'
  unfold emf3_cell
  rw [a1, a2, a3, a4, a5, a6, a7, a8, b1, b2, b3, b4, b5, b6, b7, b8]

/-- After `integrate_emf1_corner`, the corner values inside a box of uniform fluxes
and zero cell-centred EMFs are all equal. -/
theorem emf1_corner_uniform (c : Config) (s : State) (a1 b1 a2 b2 a3 b3 : Int) (G2 G3 : Cons1D)
    (hsub : s.pG.ks - c.nghost ≤ a3 ∧ b3 ≤ s.pG.ke + c.nghost ∧ s.pG.js - c.nghost ≤ a2 ∧
      b2 ≤ s.pG.je + c.nghost ∧ s.pG.is - c.nghost ≤ a1 ∧ b1 ≤ s.pG.ie + c.nghost)
    (h2 : ConstOn s.x2Flux a3 b3 (a2 + 1) b2 a1 b1 G2)
    (h3 : ConstOn s.x3Flux (a3 + 1) b3 a2 b2 a1 b1 G3)
    (hcc : ConstOn s.emf1_cc a3 b3 a2 b2 a1 b1 0) :
    UniformOn (integrate_emf1_corner c s).emf1 (a3 + 1) b3 (a2 + 1) b2 (a1 + 1) (b1 - 1) := by
  intro k j i k' j' i' p1 p2 p3 p4 p5 p6 q1 q2 q3 q4 q5 q6
  rw [integrate_emf1_corner_eq]
  simp only [lensEmf1, cellMap]
  rw [if_pos (by omega), if_pos (by omega)]
  exact emf1_cell_uniform s G2 G3 k j i k' j' i'
    ⟨h2 _ _ _ (by omega) (by omega) (by omega) (by omega) (by omega) (by omega),
     h2 _ _ _ (by omega) (by omega) (by omega) (by omega) (by omega) (by omega),
     h3 _ _ _ (by omega) (by omega) (by omega) (by omega) (by omega) (by omega),
     h3 _ _ _ (by omega) (by omega) (by omega) (by omega) (by omega) (by omega),
     hcc _ _ _ (by omega) (by omega) (by omega) (by omega) (by omega) (by omega),
     hcc _ _ _ (by omega) (by omega) (by omega) (by omega) (by omega) (by omega),
     hcc _ _ _ (by omega) (by omega) (by omega) (by omega) (by omega) (by omega),
     hcc _ _ _ (by omega) (by omega) (by omega) (by omega) (by omega) (by omega)⟩
    ⟨h2 _ _ _ (by omega) (by omega) (by omega) (by omega) (by omega) (by omega),
     h2 _ _ _ (by omega) (by omega) (by omega) (by omega) (by omega) (by omega),
     h3 _ _ _ (by omega) (by omega) (by omega) (by omega) (by omega) (by omega),
     h3 _ _ _ (by omega) (by omega) (by omega) (by omega) (by omega) (by omega),
     hcc _ _ _ (by omega) (by omega) (by omega) (by omega) (by omega) (by omega),
     hcc _ _ _ (by omega) (by omega) (by omega) (by omega) (by omega) (by omega),
     hcc _ _ _ (by omega) (by omega) (by omega) (by omega) (by omega) (by omega),
     hcc _ _ _ (by omega) (by omega) (by omega) (by omega) (by omega) (by omega)⟩

/-- After `integrate_emf2_corner`, the corner values inside a box of uniform fluxes
and zero cell-centred EMFs are all equal. -/
theorem emf2_corner_uniform (c : Config) (s : State) (a1 b1 a2 b2 a3 b3 : Int) (G1 G3 : Cons1D)
    (hsub : s.pG.ks - c.nghost ≤ a3 ∧ b3 ≤ s.pG.ke + c.nghost ∧ s.pG.js - c.nghost ≤ a2 ∧
      b2 ≤ s.pG.je + c.nghost ∧ s.pG.is - c.nghost ≤ a1 ∧ b1 ≤ s.pG.ie + c.nghost)
    (h1 : ConstOn s.x1Flux a3 b3 a2 b2 (a1 + 1) b1 G1)
    (h3 : ConstOn s.x3Flux (a3 + 1) b3 a2 b2 a1 b1 G3)
    (hcc : ConstOn s.emf2_cc a3 b3 a2 b2 a1 b1 0) :
    UniformOn (integrate_emf2_corner c s).emf2 (a3 + 1) b3 (a2 + 1) (b2 - 1) (a1 + 1) b1 := by
  intro k j i k' j' i' p1 p2 p3 p4 p5 p6 q1 q2 q3 q4 q5 q6
  rw [integrate_emf2_corner_eq]
  simp only [lensEmf2, cellMap]
  rw [if_pos (by omega), if_pos (by omega)]
  exact emf2_cell_uniform s G1 G3 k j i k' j' i'
    ⟨h1 _ _ _ (by omega) (by omega) (by omega) (by omega) (by omega) (by omega),
     h1 _ _ _ (by omega) (by omega) (by omega) (by omega) (by omega) (by omega),
     h3 _ _ _ (by omega) (by omega) (by omega) (by omega) (by omega) (by omega),
     h3 _ _ _ (by omega) (by omega) (by omega) (by omega) (by omega) (by omega),
     hcc _ _ _ (by omega) (by omega) (by omega) (by omega) (by omega) (by omega),
     hcc _ _ _ (by omega) (by omega) (by omega) (by omega) (by omega) (by omega),
     hcc _ _ _ (by omega) (by omega) (by omega) (by omega) (by omega) (by omega),
     hcc _ _ _ (by omega) (by omega) (by omega) (by omega) (by omega) (by omega)⟩
    ⟨h1 _ _ _ (by omega) (by omega) (by omega) (by omega) (by omega) (by omega),
     h1 _ _ _ (by omega) (by omega) (by omega) (by omega) (by omega) (by omega),
     h3 _ _ _ (by omega) (by omega) (by omega) (by omega) (by omega) (by omega),
     h3 _ _ _ (by omega) (by omega) (by omega) (by omega) (by omega) (by omega),
     hcc _ _ _ (by omega) (by omega) (by omega) (by omega) (by omega) (by omega),
     hcc _ _ _ (by omega) (by omega) (by omega) (by omega) (by omega) (by omega),
     hcc _ _ _ (by omega) (by omega) (by omega) (by omega) (by omega) (by omega),
     hcc _ _ _ (by omega) (by omega) (by omega) (by omega) (by omega) (by omega)⟩

/-- After `integrate_emf3_corner`, the corner values inside a box of uniform fluxes
and zero cell-centred EMFs are all equal. -/
theorem emf3_corner_uniform (c : Config) (s : State) (a1 b1 a2 b2 a3 b3 : Int) (G1 G2 : Cons1D)
    (hsub : s.pG.ks - c.nghost ≤ a3 ∧ b3 ≤ s.pG.ke + c.nghost ∧ s.pG.js - c.nghost ≤ a2 ∧
      b2 ≤ s.pG.je + c.nghost ∧ s.pG.is - c.nghost ≤ a1 ∧ b1 ≤ s.pG.ie + c.nghost)
    (h1 : ConstOn s.x1Flux a3 b3 a2 b2 (a1 + 1) b1 G1)
    (h2 : ConstOn s.x2Flux a3 b3 (a2 + 1) b2 a1 b1 G2)
    (hcc : ConstOn s.emf3_cc a3 b3 a2 b2 a1 b1 0) :
    UniformOn (integrate_emf3_corner c s).emf3 (a3 + 1) (b3 - 1) (a2 + 1) b2 (a1 + 1) b1 := by
  intro k j i k' j' i' p1 p2 p3 p4 p5 p6 q1 q2 q3 q4 q5 q6
  rw [integrate_emf3_corner_eq]
  simp only [lensEmf3, cellMap]
  rw [if_pos (by omega), if_pos (by omega)]
  exact emf3_cell_uniform s G1 G2 k j i k' j' i'
    ⟨h1 _ _ _ (by omega) (by omega) (by omega) (by omega) (by omega) (by omega),
     h1 _ _ _ (by omega) (by omega) (by omega) (by omega) (by omega) (by omega),
     h2 _ _ _ (by omega) (by omega) (by omega) (by omega) (by omega) (by omega),
     h2 _ _ _ (by omega) (by omega) (by omega) (by omega) (by omega) (by omega),
     hcc _ _ _ (by omega) (by omega) (by omega) (by omega) (by omega) (by omega),
     hcc _ _ _ (by omega) (by omega) (by omega) (by omega) (by omega) (by omega),
     hcc _ _ _ (by omega) (by omega) (by omega) (by omega) (by omega) (by omega),
     hcc _ _ _ (by omega) (by omega) (by omega) (by omega) (by omega) (by omega)⟩
    ⟨h1 _ _ _ (by omega) (by omega) (by omega) (by omega) (by omega) (by omega),
     h1 _ _ _ (by omega) (by omega) (by omega) (by omega) (by omega) (by omega),
     h2 _ _ _ (by omega) (by omega) (by omega) (by omega) (by omega) (by omega),
     h2 _ _ _ (by omega) (by omega) (by omega) (by omega) (by omega) (by omega),
     hcc _ _ _ (by omega) (by omega) (by omega) (by omega) (by omega) (by omega),
     hcc _ _ _ (by omega) (by omega) (by omega) (by omega) (by omega) (by omega),
     hcc _ _ _ (by omega) (by omega) (by omega) (by omega) (by omega) (by omega),
     hcc _ _ _ (by omega) (by omega) (by omega) (by omega) (by omega) (by omega)⟩

/-- Step 4b with corner EMFs that are uniform over the corners it reads leaves the
scratch face fields as they are. -/
theorem step4b_uniform (l : Locals) (s : State)
    (hne1 : l.il + 1 ≤ l.iu) (hne2 : l.jl + 1 ≤ l.ju) (hne3 : l.kl + 1 ≤ l.ku)
    (he1 : UniformOn s.emf1 (l.kl + 1) l.ku (l.jl + 1) l.ju (l.il + 1) (l.iu - 1))
    (he2 : UniformOn s.emf2 (l.kl + 1) l.ku (l.jl + 1) (l.ju - 1) (l.il + 1) l.iu)
    (he3 : UniformOn s.emf3 (l.kl + 1) (l.ku - 1) (l.jl + 1) l.ju (l.il + 1) l.iu)
    (k j i : Int) :
    (step4b l s).B1_x1Face k j i = s.B1_x1Face k j i ∧
    (step4b l s).B2_x2Face k j i = s.B2_x2Face k j i ∧
    (step4b l s).B3_x3Face k j i = s.B3_x3Face k j i := by
  refine ⟨?_, ?_, ?_⟩
  · by_cases h : l.kl + 1 ≤ k ∧ k ≤ l.ku - 1 ∧ l.jl + 1 ≤ j ∧ j ≤ l.ju - 1 ∧
        l.il + 1 ≤ i ∧ i ≤ l.iu
    · obtain ⟨a1, a2, a3, a4, a5, a6⟩ := h
      rw [step4b_B1i l s k j i ⟨a1, a2⟩ ⟨a3, a4⟩ ⟨a5, a6⟩,
        he2 (k + 1) j i k j i (by omega) (by omega) a3 a4 a5 a6 a1 (by omega) a3 a4 a5 a6,
        he3 k (j + 1) i k j i a1 a2 (by omega) (by omega) a5 a6 a1 a2 a3 (by omega) a5 a6]
      ring
    · exact step4b_B1i_out l s k j i hne1 h
  · by_cases h : l.kl + 1 ≤ k ∧ k ≤ l.ku - 1 ∧ l.jl + 1 ≤ j ∧ j ≤ l.ju ∧
        l.il + 1 ≤ i ∧ i ≤ l.iu - 1
    · obtain ⟨a1, a2, a3, a4, a5, a6⟩ := h
      rw [step4b_B2i l s k j i ⟨a1, a2⟩ ⟨a3, a4⟩ ⟨a5, a6⟩,
        he3 k j (i + 1) k j i a1 a2 a3 a4 (by omega) (by omega) a1 a2 a3 a4 a5 (by omega),
        he1 (k + 1) j i k j i (by omega) (by omega) a3 a4 a5 a6 a1 (by omega) a3 a4 a5 a6]
      ring
    · exact step4b_B2i_out l s k j i hne2 h
  · by_cases h : l.kl + 1 ≤ k ∧ k ≤ l.ku ∧ l.jl + 1 ≤ j ∧ j ≤ l.ju - 1 ∧
        l.il + 1 ≤ i ∧ i ≤ l.iu - 1
    · obtain ⟨a1, a2, a3, a4, a5, a6⟩ := h
      rw [step4b_B3i l s k j i ⟨a1, a2⟩ ⟨a3, a4⟩ ⟨a5, a6⟩,
        he1 k (j + 1) i k j i a1 a2 (by omega) (by omega) a5 a6 a1 a2 a3 (by omega) a5 a6,
        he2 k j (i + 1) k j i a1 a2 a3 a4 (by omega) (by omega) a1 a2 a3 a4 a5 (by omega)]
      ring
    · exact step4b_B3i_out l s k j i hne3 h

/-- Step 11c with corner EMFs that are uniform over the corners it reads leaves the
face fields of the grid as they are. -/
theorem step11c_uniform (l : Locals) (s : State)
    (hne1 : l.ib + 1 ≤ l.it) (hne2 : l.jb + 1 ≤ l.jt) (hne3 : l.kb + 1 ≤ l.kt)
    (he1 : UniformOn s.emf1 (l.kb + 1) l.kt (l.jb + 1) l.jt (l.ib + 1) (l.it - 1))
    (he2 : UniformOn s.emf2 (l.kb + 1) l.kt (l.jb + 1) (l.jt - 1) (l.ib + 1) l.it)
    (he3 : UniformOn s.emf3 (l.kb + 1) (l.kt - 1) (l.jb + 1) l.jt (l.ib + 1) l.it)
    (k j i : Int) :
    (step11c l s).pG.B1i k j i = s.pG.B1i k j i ∧
    (step11c l s).pG.B2i k j i = s.pG.B2i k j i ∧
    (step11c l s).pG.B3i k j i = s.pG.B3i k j i := by
  refine ⟨?_, ?_, ?_⟩
  · by_cases h : l.kb + 1 ≤ k ∧ k ≤ l.kt - 1 ∧ l.jb + 1 ≤ j ∧ j ≤ l.jt - 1 ∧
        l.ib + 1 ≤ i ∧ i ≤ l.it
    · obtain ⟨a1, a2, a3, a4, a5, a6⟩ := h
      rw [step11c_B1i l s k j i ⟨a1, a2⟩ ⟨a3, a4⟩ ⟨a5, a6⟩,
        he2 (k + 1) j i k j i (by omega) (by omega) a3 a4 a5 a6 a1 (by omega) a3 a4 a5 a6,
        he3 k (j + 1) i k j i a1 a2 (by omega) (by omega) a5 a6 a1 a2 a3 (by omega) a5 a6]
      ring
    · exact step11c_B1i_out l s k j i hne1 h
  · by_cases h : l.kb + 1 ≤ k ∧ k ≤ l.kt - 1 ∧ l.jb + 1 ≤ j ∧ j ≤ l.jt ∧
        l.ib + 1 ≤ i ∧ i ≤ l.it - 1
    · obtain ⟨a1, a2, a3, a4, a5, a6⟩ := h
      rw [step11c_B2i l s k j i ⟨a1, a2⟩ ⟨a3, a4⟩ ⟨a5, a6⟩,
        he3 k j (i + 1) k j i a1 a2 a3 a4 (by omega) (by omega) a1 a2 a3 a4 a5 (by omega),
        he1 (k + 1) j i k j i (by omega) (by omega) a3 a4 a5 a6 a1 (by omega) a3 a4 a5 a6]
      ring
    · exact step11c_B2i_out l s k j i hne2 h
  · by_cases h : l.kb + 1 ≤ k ∧ k ≤ l.kt ∧ l.jb + 1 ≤ j ∧ j ≤ l.jt - 1 ∧
        l.ib + 1 ≤ i ∧ i ≤ l.it - 1
    · obtain ⟨a1, a2, a3, a4, a5, a6⟩ := h
      rw [step11c_B3i l s k j i ⟨a1, a2⟩ ⟨a3, a4⟩ ⟨a5, a6⟩,
        he1 k (j + 1) i k j i a1 a2 (by omega) (by omega) a5 a6 a1 a2 a3 (by omega) a5 a6,
        he2 k j (i + 1) k j i a1 a2 a3 a4 (by omega) (by omega) a1 a2 a3 a4 a5 (by omega)]
      ring
    · exact step11c_B3i_out l s k j i hne3 h

/-- Step 7 on a uniform half-step state: with a reconstruction that returns the cell
value on a constant line, every interface state it stores is `uniformPrim`. -/
theorem step7_uniform (c : Config) (l : Locals) (s : State) (d0 E0 : ℚ)
    (hlr : ∀ (W : Arr1 Prim1D) (Bxc : Arr1 ℚ) (Wl Wr : Arr1 Prim1D) (w : Prim1D),
      (∀ i, l.il ≤ i → i ≤ l.iu → W i = w) → ∀ i, l.ib + 1 ≤ i → i ≤ l.it →
        (c.lr_states W Bxc 0 (l.ib + 1) (l.it - 1) Wl Wr).1 i = w ∧
        (c.lr_states W Bxc 0 (l.ib + 1) (l.it - 1) Wl Wr).2 i = w)
    (hU : ConstOn s.Uhalf l.kb l.kt l.jb l.jt l.il l.iu (uniformGas d0 E0))
    (k0 j0 i0 : Int)
    (hk : l.kb ≤ k0 ∧ k0 ≤ l.kt) (hj : l.jb ≤ j0 ∧ j0 ≤ l.jt) (hi : l.ib + 1 ≤ i0 ∧ i0 ≤ l.it) :
    (step7 c l s).Wl_x1Face k0 j0 i0 = uniformPrim c d0 E0 ∧
    (step7 c l s).Wr_x1Face k0 j0 i0 = uniformPrim c d0 E0 := by
  let P : State → Prop := fun t =>
    ConstOn t.Uhalf l.kb l.kt l.jb l.jt l.il l.iu (uniformGas d0 E0)
  let Q : State → Prop := fun t => t.Wl_x1Face k0 j0 i0 = uniformPrim c d0 E0 ∧
    t.Wr_x1Face k0 j0 i0 = uniformPrim c d0 E0
  let P2 : State → Prop := fun t => ∀ i, l.il ≤ i → i ≤ l.iu →
    t.U1d i = uniformCons d0 E0 ∧ t.Bxc i = 0
  let P3 : State → Prop := fun t => t.Wl i0 = uniformPrim c d0 E0 ∧ t.Wr i0 = uniformPrim c d0 E0
  unfold step7
  refine forLoop2_establish P Q _ _ _ _ k0 j0
    (fun k j s => forLoop (l.ib + 1) l.it (fun i s => step7_store k j i s)
      (step7_lr c (l.ib + 1) (l.it - 1)
        (forLoop l.il l.iu (fun i s => step7_prim c i s)
          (forLoop l.il l.iu (fun i s => step7_load k j i s) s)))) hk hj ?_ ?_ ?_ s hU
  · intro k j t _ _ _ _ hp
    exact forLoop_inv P _ _ (fun i s => step7_store k j i s) (fun i t _ _ hp => hp) _
      (forLoop_inv P _ _ (fun i s => step7_prim c i s) (fun i t _ _ hp => hp) _
        (forLoop_inv P _ _ (fun i s => step7_load k j i s) (fun i t _ _ hp => hp) t hp))
  · intro t hp
    have h1 : P2 (forLoop l.il l.iu (fun i s => step7_load k0 j0 i s) t) := by
      intro i a1 a2
      refine forLoop_establish P (fun t => t.U1d i = uniformCons d0 E0 ∧ t.Bxc i = 0) _ _ i
        (fun i s => step7_load k0 j0 i s) a1 a2 (fun i t _ _ hp => hp) ?_ ?_ t hp
      · intro t hp
        refine ⟨?_, ?_⟩
        · simp only [step7_load, set1, if_true]
          rw [hp k0 j0 i hk.1 hk.2 hj.1 hj.2 a1 a2]; rfl
        · simp only [step7_load, set1, if_true]
          rw [hp k0 j0 i hk.1 hk.2 hj.1 hj.2 a1 a2]; rfl
      · intro m t _ _ hne hp hq
        have hn : ¬ i = m := fun h => hne h.symm
        refine ⟨?_, ?_⟩
        · simp only [step7_load, set1, hn, if_false]; exact hq.1
        · simp only [step7_load, set1, hn, if_false]; exact hq.2
    have h2 : ∀ i, l.il ≤ i → i ≤ l.iu →
        (forLoop l.il l.iu (fun i s => step7_prim c i s)
          (forLoop l.il l.iu (fun i s => step7_load k0 j0 i s) t)).W i = uniformPrim c d0 E0 := by
      intro i a1 a2
      refine forLoop_establish P2 (fun t => t.W i = uniformPrim c d0 E0) _ _ i
        (fun i s => step7_prim c i s) a1 a2 (fun i t _ _ hp => hp) ?_ ?_ _ h1
      · intro t hp
        show (step7_prim c i t).W i = _
        simp only [step7_prim, set1, if_true]
        rw [(hp i a1 a2).1, (hp i a1 a2).2]; rfl
      · intro m t _ _ hne hp hq
        have hn : ¬ i = m := fun h => hne h.symm
        show (step7_prim c m t).W i = _
        simp only [step7_prim, set1, hn, if_false]; exact hq
    have h3 : P3 (step7_lr c (l.ib + 1) (l.it - 1)
        (forLoop l.il l.iu (fun i s => step7_prim c i s)
          (forLoop l.il l.iu (fun i s => step7_load k0 j0 i s) t))) :=
      hlr _ _ _ _ _ h2 i0 hi.1 hi.2
    refine forLoop_establish P3 Q _ _ i0 (fun i s => step7_store k0 j0 i s) hi.1 hi.2
      (fun i t _ _ hp => hp) ?_ ?_ _ h3
    · intro t hp
      refine ⟨?_, ?_⟩
      · show (step7_store k0 j0 i0 t).Wl_x1Face k0 j0 i0 = _
        simp only [step7_store, set3, and_self, if_true]; exact hp.1
      · show (step7_store k0 j0 i0 t).Wr_x1Face k0 j0 i0 = _
        simp only [step7_store, set3, and_self, if_true]; exact hp.2
    · intro m t _ _ hne hp hq
      have hn : ¬ i0 = m := fun h => hne h.symm
      refine ⟨?_, ?_⟩
      · show (step7_store k0 j0 m t).Wl_x1Face k0 j0 i0 = _
        simp only [step7_store, set3, hn, and_false, if_false]; exact hq.1
      · show (step7_store k0 j0 m t).Wr_x1Face k0 j0 i0 = _
        simp only [step7_store, set3, hn, and_false, if_false]; exact hq.2
  · intro k j t _ _ _ _ hne hp hq
    refine forLoop_inv Q _ _ (fun i s => step7_store k j i s) ?_ _
      (forLoop_inv Q _ _ (fun i s => step7_prim c i s) (fun i t _ _ hq => hq) _
        (forLoop_inv Q _ _ (fun i s => step7_load k j i s) (fun i t _ _ hq => hq) t hq))
    intro i t _ _ hq
    have hn : ¬ (k0 = k ∧ j0 = j ∧ i0 = i) := fun h => hne ⟨h.1.symm, h.2.1.symm⟩
    refine ⟨?_, ?_⟩
    · show (step7_store k j i t).Wl_x1Face k0 j0 i0 = _
      simp only [step7_store, set3, hn, if_false]; exact hq.1
    · show (step7_store k j i t).Wr_x1Face k0 j0 i0 = _
      simp only [step7_store, set3, hn, if_false]; exact hq.2

/-- Step 8 on a uniform half-step state: every interface state it stores is
`uniformPrim`. -/
theorem step8_uniform (c : Config) (l : Locals) (s : State) (d0 E0 : ℚ)
    (hlr : ∀ (W : Arr1 Prim1D) (Bxc : Arr1 ℚ) (Wl Wr : Arr1 Prim1D) (w : Prim1D),
      (∀ j, l.jl ≤ j → j ≤ l.ju → W j = w) → ∀ j, l.jb + 1 ≤ j → j ≤ l.jt →
        (c.lr_states W Bxc 0 (l.jb + 1) (l.jt - 1) Wl Wr).1 j = w ∧
        (c.lr_states W Bxc 0 (l.jb + 1) (l.jt - 1) Wl Wr).2 j = w)
    (hU : ConstOn s.Uhalf l.kb l.kt l.jl l.ju l.ib l.it (uniformGas d0 E0))
    (k0 j0 i0 : Int)
    (hk : l.kb ≤ k0 ∧ k0 ≤ l.kt) (hj : l.jb + 1 ≤ j0 ∧ j0 ≤ l.jt) (hi : l.ib ≤ i0 ∧ i0 ≤ l.it) :
    (step8 c l s).Wl_x2Face k0 j0 i0 = uniformPrim c d0 E0 ∧
    (step8 c l s).Wr_x2Face k0 j0 i0 = uniformPrim c d0 E0 := by
  let P : State → Prop := fun t =>
    ConstOn t.Uhalf l.kb l.kt l.jl l.ju l.ib l.it (uniformGas d0 E0)
  let Q : State → Prop := fun t => t.Wl_x2Face k0 j0 i0 = uniformPrim c d0 E0 ∧
    t.Wr_x2Face k0 j0 i0 = uniformPrim c d0 E0
  let P2 : State → Prop := fun t => ∀ j, l.jl ≤ j → j ≤ l.ju →
    t.U1d j = uniformCons d0 E0 ∧ t.Bxc j = 0
  let P3 : State → Prop := fun t => t.Wl j0 = uniformPrim c d0 E0 ∧ t.Wr j0 = uniformPrim c d0 E0
  unfold step8
  refine forLoop2_establish P Q _ _ _ _ k0 i0
    (fun k i s => forLoop (l.jb + 1) l.jt (fun j s => step8_store k j i s)
      (step8_lr c (l.jb + 1) (l.jt - 1)
        (forLoop l.jl l.ju (fun j s => step8_prim c j s)
          (forLoop l.jl l.ju (fun j s => step8_load k j i s) s)))) hk hi ?_ ?_ ?_ s hU
  · intro k i t _ _ _ _ hp
    exact forLoop_inv P _ _ (fun j s => step8_store k j i s) (fun j t _ _ hp => hp) _
      (forLoop_inv P _ _ (fun j s => step8_prim c j s) (fun j t _ _ hp => hp) _
        (forLoop_inv P _ _ (fun j s => step8_load k j i s) (fun j t _ _ hp => hp) t hp))
  · intro t hp
    have h1 : P2 (forLoop l.jl l.ju (fun j s => step8_load k0 j i0 s) t) := by
      intro j a1 a2
      refine forLoop_establish P (fun t => t.U1d j = uniformCons d0 E0 ∧ t.Bxc j = 0) _ _ j
        (fun j s => step8_load k0 j i0 s) a1 a2 (fun j t _ _ hp => hp) ?_ ?_ t hp
      · intro t hp
        refine ⟨?_, ?_⟩
        · simp only [step8_load, set1, if_true]
          rw [hp k0 j i0 hk.1 hk.2 a1 a2 hi.1 hi.2]; rfl
        · simp only [step8_load, set1, if_true]
          rw [hp k0 j i0 hk.1 hk.2 a1 a2 hi.1 hi.2]; rfl
      · intro m t _ _ hne hp hq
        have hn : ¬ j = m := fun h => hne h.symm
        refine ⟨?_, ?_⟩
        · simp only [step8_load, set1, hn, if_false]; exact hq.1
        · simp only [step8_load, set1, hn, if_false]; exact hq.2
    have h2 : ∀ j, l.jl ≤ j → j ≤ l.ju →
        (forLoop l.jl l.ju (fun j s => step8_prim c j s)
          (forLoop l.jl l.ju (fun j s => step8_load k0 j i0 s) t)).W j = uniformPrim c d0 E0 := by
      intro j a1 a2
      refine forLoop_establish P2 (fun t => t.W j = uniformPrim c d0 E0) _ _ j
        (fun j s => step8_prim c j s) a1 a2 (fun j t _ _ hp => hp) ?_ ?_ _ h1
      · intro t hp
        show (step8_prim c j t).W j = _
        simp only [step8_prim, set1, if_true]
        rw [(hp j a1 a2).1, (hp j a1 a2).2]; rfl
      · intro m t _ _ hne hp hq
        have hn : ¬ j = m := fun h => hne h.symm
        show (step8_prim c m t).W j = _
        simp only [step8_prim, set1, hn, if_false]; exact hq
    have h3 : P3 (step8_lr c (l.jb + 1) (l.jt - 1)
        (forLoop l.jl l.ju (fun j s => step8_prim c j s)
          (forLoop l.jl l.ju (fun j s => step8_load k0 j i0 s) t))) :=
      hlr _ _ _ _ _ h2 j0 hj.1 hj.2
    refine forLoop_establish P3 Q _ _ j0 (fun j s => step8_store k0 j i0 s) hj.1 hj.2
      (fun j t _ _ hp => hp) ?_ ?_ _ h3
    · intro t hp
      refine ⟨?_, ?_⟩
      · show (step8_store k0 j0 i0 t).Wl_x2Face k0 j0 i0 = _
        simp only [step8_store, set3, and_self, if_true]; exact hp.1
      · show (step8_store k0 j0 i0 t).Wr_x2Face k0 j0 i0 = _
        simp only [step8_store, set3, and_self, if_true]; exact hp.2
    · intro m t _ _ hne hp hq
      have hn : ¬ j0 = m := fun h => hne h.symm
      refine ⟨?_, ?_⟩
      · show (step8_store k0 m i0 t).Wl_x2Face k0 j0 i0 = _
        simp only [step8_store, set3, hn, false_and, and_false, if_false]; exact hq.1
      · show (step8_store k0 m i0 t).Wr_x2Face k0 j0 i0 = _
        simp only [step8_store, set3, hn, false_and, and_false, if_false]; exact hq.2
  · intro k i t _ _ _ _ hne hp hq
    refine forLoop_inv Q _ _ (fun j s => step8_store k j i s) ?_ _
      (forLoop_inv Q _ _ (fun j s => step8_prim c j s) (fun j t _ _ hq => hq) _
        (forLoop_inv Q _ _ (fun j s => step8_load k j i s) (fun j t _ _ hq => hq) t hq))
    intro j t _ _ hq
    have hn : ¬ (k0 = k ∧ j0 = j ∧ i0 = i) := fun h => hne ⟨h.1.symm, h.2.2.symm⟩
    refine ⟨?_, ?_⟩
    · show (step8_store k j i t).Wl_x2Face k0 j0 i0 = _
      simp only [step8_store, set3, hn, if_false]; exact hq.1
    · show (step8_store k j i t).Wr_x2Face k0 j0 i0 = _
      simp only [step8_store, set3, hn, if_false]; exact hq.2

/-- Step 9 on a uniform half-step state: every interface state it stores is
`uniformPrim`. -/
theorem step9_uniform (c : Config) (l : Locals) (s : State) (d0 E0 : ℚ)
    (hlr : ∀ (W : Arr1 Prim1D) (Bxc : Arr1 ℚ) (Wl Wr : Arr1 Prim1D) (w : Prim1D),
      (∀ k, l.kl ≤ k → k ≤ l.ku → W k = w) → ∀ k, l.kb + 1 ≤ k → k ≤ l.kt →
        (c.lr_states W Bxc 0 (l.kb + 1) (l.kt - 1) Wl Wr).1 k = w ∧
        (c.lr_states W Bxc 0 (l.kb + 1) (l.kt - 1) Wl Wr).2 k = w)
    (hU : ConstOn s.Uhalf l.kl l.ku l.jb l.jt l.ib l.it (uniformGas d0 E0))
    (k0 j0 i0 : Int)
    (hk : l.kb + 1 ≤ k0 ∧ k0 ≤ l.kt) (hj : l.jb ≤ j0 ∧ j0 ≤ l.jt) (hi : l.ib ≤ i0 ∧ i0 ≤ l.it) :
    (step9 c l s).Wl_x3Face k0 j0 i0 = uniformPrim c d0 E0 ∧
    (step9 c l s).Wr_x3Face k0 j0 i0 = uniformPrim c d0 E0 := by
  let P : State → Prop := fun t =>
    ConstOn t.Uhalf l.kl l.ku l.jb l.jt l.ib l.it (uniformGas d0 E0)
  let Q : State → Prop := fun t => t.Wl_x3Face k0 j0 i0 = uniformPrim c d0 E0 ∧
    t.Wr_x3Face k0 j0 i0 = uniformPrim c d0 E0
  let P2 : State → Prop := fun t => ∀ k, l.kl ≤ k → k ≤ l.ku →
    t.U1d k = uniformCons d0 E0 ∧ t.Bxc k = 0
  let P3 : State → Prop := fun t => t.Wl k0 = uniformPrim c d0 E0 ∧ t.Wr k0 = uniformPrim c d0 E0
  unfold step9
  refine forLoop2_establish P Q _ _ _ _ j0 i0
    (fun j i s => forLoop (l.kb + 1) l.kt (fun k s => step9_store k j i s)
      (step9_lr c (l.kb + 1) (l.kt - 1)
        (forLoop l.kl l.ku (fun k s => step9_prim c k s)
          (forLoop l.kl l.ku (fun k s => step9_load k j i s) s)))) hj hi ?_ ?_ ?_ s hU
  · intro j i t _ _ _ _ hp
    exact forLoop_inv P _ _ (fun k s => step9_store k j i s) (fun k t _ _ hp => hp) _
      (forLoop_inv P _ _ (fun k s => step9_prim c k s) (fun k t _ _ hp => hp) _
        (forLoop_inv P _ _ (fun k s => step9_load k j i s) (fun k t _ _ hp => hp) t hp))
  · intro t hp
    have h1 : P2 (forLoop l.kl l.ku (fun k s => step9_load k j0 i0 s) t) := by
      intro k a1 a2
      refine forLoop_establish P (fun t => t.U1d k = uniformCons d0 E0 ∧ t.Bxc k = 0) _ _ k
        (fun k s => step9_load k j0 i0 s) a1 a2 (fun k t _ _ hp => hp) ?_ ?_ t hp
      · intro t hp
        refine ⟨?_, ?_⟩
        · simp only [step9_load, set1, if_true]
          rw [hp k j0 i0 a1 a2 hj.1 hj.2 hi.1 hi.2]; rfl
        · simp only [step9_load, set1, if_true]
          rw [hp k j0 i0 a1 a2 hj.1 hj.2 hi.1 hi.2]; rfl
      · intro m t _ _ hne hp hq
        have hn : ¬ k = m := fun h => hne h.symm
        refine ⟨?_, ?_⟩
        · simp only [step9_load, set1, hn, if_false]; exact hq.1
        · simp only [step9_load, set1, hn, if_false]; exact hq.2
    have h2 : ∀ k, l.kl ≤ k → k ≤ l.ku →
        (forLoop l.kl l.ku (fun k s => step9_prim c k s)
          (forLoop l.kl l.ku (fun k s => step9_load k j0 i0 s) t)).W k = uniformPrim c d0 E0 := by
      intro k a1 a2
      refine forLoop_establish P2 (fun t => t.W k = uniformPrim c d0 E0) _ _ k
        (fun k s => step9_prim c k s) a1 a2 (fun k t _ _ hp => hp) ?_ ?_ _ h1
      · intro t hp
        show (step9_prim c k t).W k = _
        simp only [step9_prim, set1, if_true]
        rw [(hp k a1 a2).1, (hp k a1 a2).2]; rfl
      · intro m t _ _ hne hp hq
        have hn : ¬ k = m := fun h => hne h.symm
        show (step9_prim c m t).W k = _
        simp only [step9_prim, set1, hn, if_false]; exact hq
    have h3 : P3 (step9_lr c (l.kb + 1) (l.kt - 1)
        (forLoop l.kl l.ku (fun k s => step9_prim c k s)
          (forLoop l.kl l.ku (fun k s => step9_load k j0 i0 s) t))) :=
      hlr _ _ _ _ _ h2 k0 hk.1 hk.2
    refine forLoop_establish P3 Q _ _ k0 (fun k s => step9_store k j0 i0 s) hk.1 hk.2
      (fun k t _ _ hp => hp) ?_ ?_ _ h3
    · intro t hp
      refine ⟨?_, ?_⟩
      · show (step9_store k0 j0 i0 t).Wl_x3Face k0 j0 i0 = _
        simp only [step9_store, set3, and_self, if_true]; exact hp.1
      · show (step9_store k0 j0 i0 t).Wr_x3Face k0 j0 i0 = _
        simp only [step9_store, set3, and_self, if_true]; exact hp.2
    · intro m t _ _ hne hp hq
      have hn : ¬ k0 = m := fun h => hne h.symm
      refine ⟨?_, ?_⟩
      · show (step9_store m j0 i0 t).Wl_x3Face k0 j0 i0 = _
        simp only [step9_store, set3, hn, false_and, if_false]; exact hq.1
      · show (step9_store m j0 i0 t).Wr_x3Face k0 j0 i0 = _
        simp only [step9_store, set3, hn, false_and, if_false]; exact hq.2
  · intro j i t _ _ _ _ hne hp hq
    refine forLoop_inv Q _ _ (fun k s => step9_store k j i s) ?_ _
      (forLoop_inv Q _ _ (fun k s => step9_prim c k s) (fun k t _ _ hq => hq) _
        (forLoop_inv Q _ _ (fun k s => step9_load k j i s) (fun k t _ _ hq => hq) t hq))
    intro k t _ _ hq
    have hn : ¬ (k0 = k ∧ j0 = j ∧ i0 = i) := fun h => hne ⟨h.2.1.symm, h.2.2.symm⟩
    refine ⟨?_, ?_⟩
    · show (step9_store k j i t).Wl_x3Face k0 j0 i0 = _
      simp only [step9_store, set3, hn, if_false]; exact hq.1
    · show (step9_store k j i t).Wr_x3Face k0 j0 i0 = _
      simp only [step9_store, set3, hn, if_false]; exact hq.2

theorem etah1_off (c : Config) (k j i : Int) (s : State) (h : c.H_CORRECTION = false) :
    etah1 c k j i s = s := by
  unfold etah1; rw [h]; rfl

theorem etah2_off (c : Config) (k j i : Int) (s : State) (h : c.H_CORRECTION = false) :
    etah2 c k j i s = s := by
  unfold etah2; rw [h]; rfl

theorem etah3_off (c : Config) (k j i : Int) (s : State) (h : c.H_CORRECTION = false) :
    etah3 c k j i s = s := by
  unfold etah3; rw [h]; rfl

/-- The flux between equal states under the global `etah`: it is the flux with
`etah = 0` when the H-correction is off (`etah` is then `0`) or when the flux between
equal states does not depend on `etah`. -/
theorem fluxes_etah (c : Config) (e : ℚ) (U : Cons1D) (W : Prim1D) (b : ℚ)
    (hH : c.H_CORRECTION = true → ∀ e U W b, c.fluxes e U U W W b = c.fluxes 0 U U W W b)
    (he : c.H_CORRECTION = false → e = 0) :
    c.fluxes e U U W W b = c.fluxes 0 U U W W b := by
  cases h : c.H_CORRECTION with
  | false => rw [he h]
  | true => exact hH h e U W b

/-- Step 10b on uniform interface states: every flux it computes is `uniformFlux2`. -/
theorem step10b_uniform (c : Config) (l : Locals) (s : State) (d0 E0 : ℚ)
    (hH : c.H_CORRECTION = true → ∀ e U W b, c.fluxes e U U W W b = c.fluxes 0 U U W W b)
    (he : c.H_CORRECTION = false → s.etah = 0)
    (hWl : ConstOn s.Wl_x1Face l.kb l.kt l.jb l.jt (l.ib + 1) l.it (uniformPrim c d0 E0))
    (hWr : ConstOn s.Wr_x1Face l.kb l.kt l.jb l.jt (l.ib + 1) l.it (uniformPrim c d0 E0))
    (hB : ConstOn s.B1_x1Face l.kb l.kt l.jb l.jt (l.ib + 1) l.it 0)
    (k0 j0 i0 : Int)
    (hk : l.kb ≤ k0 ∧ k0 ≤ l.kt) (hj : l.jb ≤ j0 ∧ j0 ≤ l.jt) (hi : l.ib + 1 ≤ i0 ∧ i0 ≤ l.it) :
    (step10b c l s).x1Flux k0 j0 i0 = uniformFlux2 c d0 E0 := by
  let P : State → Prop := fun t =>
    ConstOn t.Wl_x1Face l.kb l.kt l.jb l.jt (l.ib + 1) l.it (uniformPrim c d0 E0) ∧
    ConstOn t.Wr_x1Face l.kb l.kt l.jb l.jt (l.ib + 1) l.it (uniformPrim c d0 E0) ∧
    ConstOn t.B1_x1Face l.kb l.kt l.jb l.jt (l.ib + 1) l.it 0 ∧
    (c.H_CORRECTION = false → t.etah = 0)
  let Q : State → Prop := fun t => t.x1Flux k0 j0 i0 = uniformFlux2 c d0 E0
  unfold step10b
  refine forLoop3_establish P Q _ _ _ _ _ _ k0 j0 i0 (fun k j i s => step10b_body c k j i s)
    hk hj hi ?_ ?_ ?_ s ⟨hWl, hWr, hB, he⟩
  · intro k j i t _ _ _ _ _ _ hp
    obtain ⟨a, ha⟩ := etah1_writes c k j i t
    refine ⟨?_, ?_, ?_, ?_⟩
    · show ConstOn (step10b_body c k j i t).Wl_x1Face _ _ _ _ _ _ _
      simp only [step10b_body, ha]; exact hp.1
    · show ConstOn (step10b_body c k j i t).Wr_x1Face _ _ _ _ _ _ _
      simp only [step10b_body, ha]; exact hp.2.1
    · show ConstOn (step10b_body c k j i t).B1_x1Face _ _ _ _ _ _ _
      simp only [step10b_body, ha]; exact hp.2.2.1
    · intro h
      show (step10b_body c k j i t).etah = 0
      simp only [step10b_body, etah1_off c k j i t h]
      exact hp.2.2.2 h
  · intro t hp
    obtain ⟨a, ha⟩ := etah1_writes c k0 j0 i0 t
    have hea : c.H_CORRECTION = false → a = 0 := by
      intro h
      have := congrArg State.etah ha
      rw [etah1_off c k0 j0 i0 t h] at this
      exact this.symm.trans (hp.2.2.2 h)
    show (step10b_body c k0 j0 i0 t).x1Flux k0 j0 i0 = _
    simp only [step10b_body, ha, set1, set3, and_self, if_true]
    rw [hp.1 k0 j0 i0 hk.1 hk.2 hj.1 hj.2 hi.1 hi.2, hp.2.1 k0 j0 i0 hk.1 hk.2 hj.1 hj.2 hi.1 hi.2,
      hp.2.2.1 k0 j0 i0 hk.1 hk.2 hj.1 hj.2 hi.1 hi.2]
    exact fluxes_etah c a _ _ _ hH hea
  · intro k j i t _ _ _ _ _ _ hne hp hq
    obtain ⟨a, ha⟩ := etah1_writes c k j i t
    have hn : ¬ (k0 = k ∧ j0 = j ∧ i0 = i) := fun h => hne ⟨h.1.symm, h.2.1.symm, h.2.2.symm⟩
    show (step10b_body c k j i t).x1Flux k0 j0 i0 = _
    simp only [step10b_body, ha, set3, hn, if_false]
    exact hq

/-- Step 10c on uniform interface states: every flux it computes is `uniformFlux2`. -/
theorem step10c_uniform (c : Config) (l : Locals) (s : State) (d0 E0 : ℚ)
    (hH : c.H_CORRECTION = true → ∀ e U W b, c.fluxes e U U W W b = c.fluxes 0 U U W W b)
    (he : c.H_CORRECTION = false → s.etah = 0)
    (hWl : ConstOn s.Wl_x2Face l.kb l.kt (l.jb + 1) l.jt l.ib l.it (uniformPrim c d0 E0))
    (hWr : ConstOn s.Wr_x2Face l.kb l.kt (l.jb + 1) l.jt l.ib l.it (uniformPrim c d0 E0))
    (hB : ConstOn s.B2_x2Face l.kb l.kt (l.jb + 1) l.jt l.ib l.it 0)
    (k0 j0 i0 : Int)
    (hk : l.kb ≤ k0 ∧ k0 ≤ l.kt) (hj : l.jb + 1 ≤ j0 ∧ j0 ≤ l.jt) (hi : l.ib ≤ i0 ∧ i0 ≤ l.it) :
    (step10c c l s).x2Flux k0 j0 i0 = uniformFlux2 c d0 E0 := by
  let P : State → Prop := fun t =>
    ConstOn t.Wl_x2Face l.kb l.kt (l.jb + 1) l.jt l.ib l.it (uniformPrim c d0 E0) ∧
    ConstOn t.Wr_x2Face l.kb l.kt (l.jb + 1) l.jt l.ib l.it (uniformPrim c d0 E0) ∧
    ConstOn t.B2_x2Face l.kb l.kt (l.jb + 1) l.jt l.ib l.it 0 ∧
    (c.H_CORRECTION = false → t.etah = 0)
  let Q : State → Prop := fun t => t.x2Flux k0 j0 i0 = uniformFlux2 c d0 E0
  unfold step10c
  refine forLoop3_establish P Q _ _ _ _ _ _ k0 j0 i0 (fun k j i s => step10c_body c k j i s)
    hk hj hi ?_ ?_ ?_ s ⟨hWl, hWr, hB, he⟩
  · intro k j i t _ _ _ _ _ _ hp
    obtain ⟨a, ha⟩ := etah2_writes c k j i t
    refine ⟨?_, ?_, ?_, ?_⟩
    · show ConstOn (step10c_body c k j i t).Wl_x2Face _ _ _ _ _ _ _
      simp only [step10c_body, ha]; exact hp.1
    · show ConstOn (step10c_body c k j i t).Wr_x2Face _ _ _ _ _ _ _
      simp only [step10c_body, ha]; exact hp.2.1
    · show ConstOn (step10c_body c k j i t).B2_x2Face _ _ _ _ _ _ _
      simp only [step10c_body, ha]; exact hp.2.2.1
    · intro h
      show (step10c_body c k j i t).etah = 0
      simp only [step10c_body, etah2_off c k j i t h]
      exact hp.2.2.2 h
  · intro t hp
    obtain ⟨a, ha⟩ := etah2_writes c k0 j0 i0 t
    have hea : c.H_CORRECTION = false → a = 0 := by
      intro h
      have := congrArg State.etah ha
      rw [etah2_off c k0 j0 i0 t h] at this
      exact this.symm.trans (hp.2.2.2 h)
    show (step10c_body c k0 j0 i0 t).x2Flux k0 j0 i0 = _
    simp only [step10c_body, ha, set1, set3, and_self, if_true]
    rw [hp.1 k0 j0 i0 hk.1 hk.2 hj.1 hj.2 hi.1 hi.2, hp.2.1 k0 j0 i0 hk.1 hk.2 hj.1 hj.2 hi.1 hi.2,
      hp.2.2.1 k0 j0 i0 hk.1 hk.2 hj.1 hj.2 hi.1 hi.2]
    exact fluxes_etah c a _ _ _ hH hea
  · intro k j i t _ _ _ _ _ _ hne hp hq
    obtain ⟨a, ha⟩ := etah2_writes c k j i t
    have hn : ¬ (k0 = k ∧ j0 = j ∧ i0 = i) := fun h => hne ⟨h.1.symm, h.2.1.symm, h.2.2.symm⟩
    show (step10c_body c k j i t).x2Flux k0 j0 i0 = _
    simp only [step10c_body, ha, set3, hn, if_false]
    exact hq

/-- Step 10d on uniform interface states: every flux it computes is `uniformFlux2`. -/
theorem step10d_uniform (c : Config) (l : Locals) (s : State) (d0 E0 : ℚ)
    (hH : c.H_CORRECTION = true → ∀ e U W b, c.fluxes e U U W W b = c.fluxes 0 U U W W b)
    (he : c.H_CORRECTION = false → s.etah = 0)
    (hWl : ConstOn s.Wl_x3Face (l.kb + 1) l.kt l.jb l.jt l.ib l.it (uniformPrim c d0 E0))
    (hWr : ConstOn s.Wr_x3Face (l.kb + 1) l.kt l.jb l.jt l.ib l.it (uniformPrim c d0 E0))
    (hB : ConstOn s.B3_x3Face (l.kb + 1) l.kt l.jb l.jt l.ib l.it 0)
    (k0 j0 i0 : Int)
    (hk : l.kb + 1 ≤ k0 ∧ k0 ≤ l.kt) (hj : l.jb ≤ j0 ∧ j0 ≤ l.jt) (hi : l.ib ≤ i0 ∧ i0 ≤ l.it) :
    (step10d c l s).x3Flux k0 j0 i0 = uniformFlux2 c d0 E0 := by
  let P : State → Prop := fun t =>
    ConstOn t.Wl_x3Face (l.kb + 1) l.kt l.jb l.jt l.ib l.it (uniformPrim c d0 E0) ∧
    ConstOn t.Wr_x3Face (l.kb + 1) l.kt l.jb l.jt l.ib l.it (uniformPrim c d0 E0) ∧
    ConstOn t.B3_x3Face (l.kb + 1) l.kt l.jb l.jt l.ib l.it 0 ∧
    (c.H_CORRECTION = false → t.etah = 0)
  let Q : State → Prop := fun t => t.x3Flux k0 j0 i0 = uniformFlux2 c d0 E0
  unfold step10d
  refine forLoop3_establish P Q _ _ _ _ _ _ k0 j0 i0 (fun k j i s => step10d_body c k j i s)
    hk hj hi ?_ ?_ ?_ s ⟨hWl, hWr, hB, he⟩
  · intro k j i t _ _ _ _ _ _ hp
    obtain ⟨a, ha⟩ := etah3_writes c k j i t
    refine ⟨?_, ?_, ?_, ?_⟩
    · show ConstOn (step10d_body c k j i t).Wl_x3Face _ _ _ _ _ _ _
      simp only [step10d_body, ha]; exact hp.1
    · show ConstOn (step10d_body c k j i t).Wr_x3Face _ _ _ _ _ _ _
      simp only [step10d_body, ha]; exact hp.2.1
    · show ConstOn (step10d_body c k j i t).B3_x3Face _ _ _ _ _ _ _
      simp only [step10d_body, ha]; exact hp.2.2.1
    · intro h
      show (step10d_body c k j i t).etah = 0
      simp only [step10d_body, etah3_off c k j i t h]
      exact hp.2.2.2 h
  · intro t hp
    obtain ⟨a, ha⟩ := etah3_writes c k0 j0 i0 t
    have hea : c.H_CORRECTION = false → a = 0 := by
      intro h
      have := congrArg State.etah ha
      rw [etah3_off c k0 j0 i0 t h] at this
      exact this.symm.trans (hp.2.2.2 h)
    show (step10d_body c k0 j0 i0 t).x3Flux k0 j0 i0 = _
    simp only [step10d_body, ha, set1, set3, and_self, if_true]
    rw [hp.1 k0 j0 i0 hk.1 hk.2 hj.1 hj.2 hi.1 hi.2, hp.2.1 k0 j0 i0 hk.1 hk.2 hj.1 hj.2 hi.1 hi.2,
      hp.2.2.1 k0 j0 i0 hk.1 hk.2 hj.1 hj.2 hi.1 hi.2]
    exact fluxes_etah c a _ _ _ hH hea
  · intro k j i t _ _ _ _ _ _ hne hp hq
    obtain ⟨a, ha⟩ := etah3_writes c k j i t
    have hn : ¬ (k0 = k ∧ j0 = j ∧ i0 = i) := fun h => hne ⟨h.1.symm, h.2.1.symm, h.2.2.symm⟩
    show (step10d_body c k j i t).x3Flux k0 j0 i0 = _
    simp only [step10d_body, ha, set3, hn, if_false]
    exact hq

theorem flux1Update_const (r : ℚ) (F : Arr3 Cons1D) (k j i : Int) (u : Gas)
    (h : F k j (i + 1) = F k j i) : flux1Update r F k j i u = u := by
  unfold flux1Update
  rw [h]
  simp only [sub_self, mul_zero, sub_zero]

theorem flux2Update_const (r : ℚ) (F : Arr3 Cons1D) (k j i : Int) (u : Gas)
    (h : F k (j + 1) i = F k j i) : flux2Update r F k j i u = u := by
  unfold flux2Update
  rw [h]
  simp only [sub_self, mul_zero, sub_zero]

theorem flux3Update_const (r : ℚ) (F : Arr3 Cons1D) (k j i : Int) (u : Gas)
    (h : F (k + 1) j i = F k j i) : flux3Update r F k j i u = u := by
  unfold flux3Update
  rw [h]
  simp only [sub_self, mul_zero, sub_zero]

theorem faceAverage_zero (B1 B2 B3 : Arr3 ℚ) (k j i : Int) (u : Gas)
    (h1 : B1 k j i = 0 ∧ B1 k j (i + 1) = 0) (h2 : B2 k j i = 0 ∧ B2 k (j + 1) i = 0)
    (h3 : B3 k j i = 0 ∧ B3 (k + 1) j i = 0)
    (hu : u.B1c = 0 ∧ u.B2c = 0 ∧ u.B3c = 0) : faceAverage B1 B2 B3 k j i u = u := by
  unfold faceAverage
  rw [h1.1, h1.2, h2.1, h2.2, h3.1, h3.2]
  simp only [add_zero, mul_zero]
  cases u
  simp only at hu
  obtain ⟨e1, e2, e3⟩ := hu
  subst e1 e2 e3
  rfl

/-- A cell-by-cell update that maps every cell of the box to itself changes nothing. -/
theorem cellMap_id {α : Type} (klo khi jlo jhi ilo ihi : Int) (f : Int → Int → Int → α → α)
    (a : Arr3 α)
    (h : ∀ k j i, klo ≤ k → k ≤ khi → jlo ≤ j → j ≤ jhi → ilo ≤ i → i ≤ ihi →
      f k j i (a k j i) = a k j i) :
    cellMap klo khi jlo jhi ilo ihi f a = a := by
  funext k j i
  unfold cellMap
  split_ifs with hc
  · exact h k j i hc.1 hc.2.1 hc.2.2.1 hc.2.2.2.1 hc.2.2.2.2.1 hc.2.2.2.2.2
  · rfl

/-- Steps 5a-5c with uniform fluxes change nothing. -/
theorem step5_uniform (l : Locals) (s : State) (G1 G2 G3 : Cons1D)
    (h1 : ConstOn s.x1Flux (l.kl + 1) (l.ku - 1) (l.jl + 1) (l.ju - 1) (l.il + 1) l.iu G1)
    (h2 : ConstOn s.x2Flux (l.kl + 1) (l.ku - 1) (l.jl + 1) l.ju (l.il + 1) (l.iu - 1) G2)
    (h3 : ConstOn s.x3Flux (l.kl + 1) l.ku (l.jl + 1) (l.ju - 1) (l.il + 1) (l.iu - 1) G3) :
    step5a l s = s ∧ step5b l s = s ∧ step5c l s = s := by
  refine ⟨?_, ?_, ?_⟩
  · rw [step5a_eq, cellMap_id]
    · rfl
    · intro k j i a1 a2 a3 a4 a5 a6
      refine flux1Update_const _ _ _ _ _ _ ?_
      rw [h1 k j (i + 1) a1 a2 a3 a4 (by omega) (by omega), h1 k j i a1 a2 a3 a4 a5 (by omega)]
  · rw [step5b_eq, cellMap_id]
    · rfl
    · intro k j i a1 a2 a3 a4 a5 a6
      refine flux2Update_const _ _ _ _ _ _ ?_
      rw [h2 k (j + 1) i a1 a2 (by omega) (by omega) a5 a6, h2 k j i a1 a2 a3 (by omega) a5 a6]
  · rw [step5c_eq, cellMap_id]
    · rfl
    · intro k j i a1 a2 a3 a4 a5 a6
      refine flux3Update_const _ _ _ _ _ _ ?_
      rw [h3 (k + 1) j i (by omega) (by omega) a3 a4 a5 a6, h3 k j i a1 (by omega) a3 a4 a5 a6]

/-- Step 4c with zero face fields on a cell state without field changes nothing. -/
theorem step4c_uniform (l : Locals) (s : State)
    (h1 : ConstOn s.B1_x1Face (l.kl + 1) (l.ku - 1) (l.jl + 1) (l.ju - 1) (l.il + 1) l.iu 0)
    (h2 : ConstOn s.B2_x2Face (l.kl + 1) (l.ku - 1) (l.jl + 1) l.ju (l.il + 1) (l.iu - 1) 0)
    (h3 : ConstOn s.B3_x3Face (l.kl + 1) l.ku (l.jl + 1) (l.ju - 1) (l.il + 1) (l.iu - 1) 0)
    (hu : ∀ k j i, l.kl + 1 ≤ k → k ≤ l.ku - 1 → l.jl + 1 ≤ j → j ≤ l.ju - 1 →
      l.il + 1 ≤ i → i ≤ l.iu - 1 →
      (s.Uhalf k j i).B1c = 0 ∧ (s.Uhalf k j i).B2c = 0 ∧ (s.Uhalf k j i).B3c = 0) :
    step4c l s = s := by
  rw [step4c_eq, cellMap_id]
  · rfl
  · intro k j i a1 a2 a3 a4 a5 a6
    exact faceAverage_zero _ _ _ _ _ _ _
      ⟨h1 k j i a1 a2 a3 a4 a5 (by omega), h1 k j (i + 1) a1 a2 a3 a4 (by omega) (by omega)⟩
      ⟨h2 k j i a1 a2 a3 (by omega) a5 a6, h2 k (j + 1) i a1 a2 (by omega) (by omega) a5 a6⟩
      ⟨h3 k j i a1 (by omega) a3 a4 a5 a6, h3 (k + 1) j i (by omega) (by omega) a3 a4 a5 a6⟩
      (hu k j i a1 a2 a3 a4 a5 a6)

/-- Step 13 with uniform fluxes changes nothing. -/
theorem step13_uniform (l : Locals) (s : State) (G1 G2 G3 : Cons1D)
    (h1 : ConstOn s.x1Flux (l.kb + 1) (l.kt - 1) (l.jb + 1) (l.jt - 1) (l.ib + 1) l.it G1)
    (h2 : ConstOn s.x2Flux (l.kb + 1) (l.kt - 1) (l.jb + 1) l.jt (l.ib + 1) (l.it - 1) G2)
    (h3 : ConstOn s.x3Flux (l.kb + 1) l.kt (l.jb + 1) (l.jt - 1) (l.ib + 1) (l.it - 1) G3) :
    step13 l s = s := by
  rw [step13_eq]
  have : (fun k j i =>
      if l.kb + 1 ≤ k ∧ k ≤ l.kt - 1 ∧ l.jb + 1 ≤ j ∧ j ≤ l.jt - 1 ∧
          l.ib + 1 ≤ i ∧ i ≤ l.it - 1 then
        flux3Update l.dtodx3 s.x3Flux k j i (flux2Update l.dtodx2 s.x2Flux k j i
          (flux1Update l.dtodx1 s.x1Flux k j i (s.pG.U k j i)))
      else s.pG.U k j i) = s.pG.U := by
    funext k j i
    split_ifs with hc
    · obtain ⟨a1, a2, a3, a4, a5, a6⟩ := hc
      rw [flux1Update_const, flux2Update_const, flux3Update_const]
      · rw [h3 (k + 1) j i (by omega) (by omega) a3 a4 a5 a6, h3 k j i a1 (by omega) a3 a4 a5 a6]
      · rw [h2 k (j + 1) i a1 a2 (by omega) (by omega) a5 a6, h2 k j i a1 a2 a3 (by omega) a5 a6]
      · rw [h1 k j (i + 1) a1 a2 a3 a4 (by omega) (by omega), h1 k j i a1 a2 a3 a4 a5 (by omega)]
    · rfl
  rw [this]
  rfl

/-- Step 13e with zero face fields on a cell state without field changes nothing. -/
theorem step13e_uniform (l : Locals) (s : State)
    (hB : ∀ k j i, s.pG.B1i k j i = 0 ∧ s.pG.B2i k j i = 0 ∧ s.pG.B3i k j i = 0)
    (hu : ∀ k j i, (s.pG.U k j i).B1c = 0 ∧ (s.pG.U k j i).B2c = 0 ∧ (s.pG.U k j i).B3c = 0) :
    step13e l s = s := by
  rw [step13e_eq, cellMap_id]
  · rfl
  · intro k j i _ _ _ _ _ _
    exact faceAverage_zero _ _ _ _ _ _ _ ⟨(hB _ _ _).1, (hB _ _ _).1⟩
      ⟨(hB _ _ _).2.1, (hB _ _ _).2.1⟩ ⟨(hB _ _ _).2.2, (hB _ _ _).2.2⟩ (hu k j i)

theorem ConstOn.mono {α : Type} {a : Arr3 α} {klo khi jlo jhi ilo ihi : Int} {v : α}
    (h : ConstOn a klo khi jlo jhi ilo ihi v) (klo' khi' jlo' jhi' ilo' ihi' : Int)
    (hs : klo ≤ klo' ∧ khi' ≤ khi ∧ jlo ≤ jlo' ∧ jhi' ≤ jhi ∧ ilo ≤ ilo' ∧ ihi' ≤ ihi) :
    ConstOn a klo' khi' jlo' jhi' ilo' ihi' v := by
  intro k j i a1 a2 a3 a4 a5 a6
  exact h k j i (by omega) (by omega) (by omega) (by omega) (by omega) (by omega)

/-- Uniform fluxes and uniform corner EMFs over a box make every difference the
updates take over the box vanish. -/
theorem diffsVanish_of_uniform (t : State) (a1 b1 a2 b2 a3 b3 : Int) (G : Cons1D)
    (hF : FluxesConst t a1 b1 a2 b2 a3 b3 G) (hE : EmfsUniform t a1 b1 a2 b2 a3 b3) :
    DiffsVanish t a1 b1 a2 b2 a3 b3 := by
  obtain ⟨f1, f2, f3⟩ := hF
  obtain ⟨e1, e2, e3⟩ := hE
  refine ⟨?_, ?_, ?_, ?_⟩
  · intro k j i p1 p2 p3 p4 p5 p6
    refine ⟨?_, ?_, ?_⟩
    · rw [f1 k j (i + 1) (by omega) (by omega) (by omega) (by omega) (by omega) (by omega),
        f1 k j i (by omega) (by omega) (by omega) (by omega) (by omega) (by omega)]
    · rw [f2 k (j + 1) i (by omega) (by omega) (by omega) (by omega) (by omega) (by omega),
        f2 k j i (by omega) (by omega) (by omega) (by omega) (by omega) (by omega)]
    · rw [f3 (k + 1) j i (by omega) (by omega) (by omega) (by omega) (by omega) (by omega),
        f3 k j i (by omega) (by omega) (by omega) (by omega) (by omega) (by omega)]
  · intro k j i p1 p2 p3 p4 p5 p6
    exact ⟨e2 _ _ _ _ _ _ (by omega) (by omega) (by omega) (by omega) (by omega) (by omega)
        (by omega) (by omega) (by omega) (by omega) (by omega) (by omega),
      e3 _ _ _ _ _ _ (by omega) (by omega) (by omega) (by omega) (by omega) (by omega)
        (by omega) (by omega) (by omega) (by omega) (by omega) (by omega)⟩
  · intro k j i p1 p2 p3 p4 p5 p6
    exact ⟨e3 _ _ _ _ _ _ (by omega) (by omega) (by omega) (by omega) (by omega) (by omega)
        (by omega) (by omega) (by omega) (by omega) (by omega) (by omega),
      e1 _ _ _ _ _ _ (by omega) (by omega) (by omega) (by omega) (by omega) (by omega)
        (by omega) (by omega) (by omega) (by omega) (by omega) (by omega)⟩
  · intro k j i p1 p2 p3 p4 p5 p6
    exact ⟨e1 _ _ _ _ _ _ (by omega) (by omega) (by omega) (by omega) (by omega) (by omega)
        (by omega) (by omega) (by omega) (by omega) (by omega) (by omega),
      e2 _ _ _ _ _ _ (by omega) (by omega) (by omega) (by omega) (by omega) (by omega)
        (by omega) (by omega) (by omega) (by omega) (by omega) (by omega)⟩

/-- The three corner integrations on uniform fluxes and zero cell-centred EMFs over
a box inside the loop range: the corner EMFs of the box come out uniform, and only
the corner arrays are written. -/
theorem corners_uniform (c : Config) (t : State) (a1 b1 a2 b2 a3 b3 : Int) (G : Cons1D)
    (hsub : t.pG.ks - c.nghost ≤ a3 ∧ b3 ≤ t.pG.ke + c.nghost ∧ t.pG.js - c.nghost ≤ a2 ∧
      b2 ≤ t.pG.je + c.nghost ∧ t.pG.is - c.nghost ≤ a1 ∧ b1 ≤ t.pG.ie + c.nghost)
    (hF : FluxesConst t a1 b1 a2 b2 a3 b3 G) (hcc : CcZero t a1 b1 a2 b2 a3 b3) :
    EmfsUniform (integrate_emf3_corner c (integrate_emf2_corner c (integrate_emf1_corner c t)))
      a1 b1 a2 b2 a3 b3 ∧
    ∃ e1 e2 e3, integrate_emf3_corner c (integrate_emf2_corner c (integrate_emf1_corner c t)) =
      { t with emf1 := e1, emf2 := e2, emf3 := e3 } := by
  obtain ⟨f1, f2, f3⟩ := hF
  obtain ⟨c1, c2, c3⟩ := hcc
  have u1 := emf1_corner_uniform c t a1 b1 a2 b2 a3 b3 G G hsub f2 f3 c1
  have w1 : ∃ e1, integrate_emf1_corner c t = { t with emf1 := e1 } :=
    ⟨_, integrate_emf1_corner_eq c t⟩
  obtain ⟨e1, h1⟩ := w1
  rw [h1] at u1 ⊢
  have u2 := emf2_corner_uniform c { t with emf1 := e1 } a1 b1 a2 b2 a3 b3 G G hsub f1 f3 c2
  have w2 : ∃ e2, integrate_emf2_corner c { t with emf1 := e1 } =
      { t with emf1 := e1, emf2 := e2 } := ⟨_, integrate_emf2_corner_eq c _⟩
  obtain ⟨e2, h2⟩ := w2
  rw [h2] at u2 ⊢
  have u3 := emf3_corner_uniform c { t with emf1 := e1, emf2 := e2 } a1 b1 a2 b2 a3 b3 G G hsub
    f1 f2 c3
  have w3 : ∃ e3, integrate_emf3_corner c { t with emf1 := e1, emf2 := e2 } =
      { t with emf1 := e1, emf2 := e2, emf3 := e3 } := ⟨_, integrate_emf3_corner_eq c _⟩
  obtain ⟨e3, h3⟩ := w3
  rw [h3] at u3 ⊢
  exact ⟨⟨u1, u2, u3⟩, e1, e2, e3, rfl⟩

/-- Step 4b with uniform corner EMFs changes nothing. -/
theorem step4b_id (l : Locals) (s : State)
    (hne1 : l.il + 1 ≤ l.iu) (hne2 : l.jl + 1 ≤ l.ju) (hne3 : l.kl + 1 ≤ l.ku)
    (hE : EmfsUniform s l.il l.iu l.jl l.ju l.kl l.ku) : step4b l s = s := by
  obtain ⟨a1, a2, a3, h⟩ := step4b_writes l s
  have key := step4b_uniform l s hne1 hne2 hne3 hE.1 hE.2.1 hE.2.2
  rw [h] at key
  have e1 : a1 = s.B1_x1Face := by funext k j i; exact (key k j i).1
  have e2 : a2 = s.B2_x2Face := by funext k j i; exact (key k j i).2.1
  have e3 : a3 = s.B3_x3Face := by funext k j i; exact (key k j i).2.2
  rw [h, e1, e2, e3]

/-- Step 11c with uniform corner EMFs changes nothing. -/
theorem step11c_id (l : Locals) (s : State)
    (hne1 : l.ib + 1 ≤ l.it) (hne2 : l.jb + 1 ≤ l.jt) (hne3 : l.kb + 1 ≤ l.kt)
    (hE : EmfsUniform s l.ib l.it l.jb l.jt l.kb l.kt) : step11c l s = s := by
  obtain ⟨a1, a2, a3, h⟩ := step11c_frame l s
  have key := step11c_uniform l s hne1 hne2 hne3 hE.1 hE.2.1 hE.2.2
  rw [h] at key
  have e1 : a1 = s.pG.B1i := by funext k j i; exact (key k j i).1
  have e2 : a2 = s.pG.B2i := by funext k j i; exact (key k j i).2.1
  have e3 : a3 = s.pG.B3i := by funext k j i; exact (key k j i).2.2
  rw [h, e1, e2, e3]

/-- The predictor on a uniform state with zero field, up to the corner EMFs: the half
step state is the uniform state, all first-order fluxes are `uniformFlux`, the scratch
face fields and cell-centred EMFs are zero and the corner EMFs are uniform. -/
theorem beforeStep4b_uniform (c : Config) (s : State) (d0 E0 : ℚ) (l : Locals)
    (hl : l = locals c s.pG)
    (hU : ∀ k j i, s.pG.U k j i = uniformGas d0 E0)
    (hB : ∀ k j i, s.pG.B1i k j i = 0 ∧ s.pG.B2i k j i = 0 ∧ s.pG.B3i k j i = 0) :
    (beforeStep4b c s).etah = 0 ∧
    ConstOn (beforeStep4b c s).Uhalf l.kl l.ku l.jl l.ju l.il l.iu (uniformGas d0 E0) ∧
    FluxesConst (beforeStep4b c s) l.il l.iu l.jl l.ju l.kl l.ku (uniformFlux c d0 E0) ∧
    FacesZero (beforeStep4b c s) l.il l.iu l.jl l.ju l.kl l.ku ∧
    CcZero (beforeStep4b c s) l.il l.iu l.jl l.ju l.kl l.ku ∧
    EmfsUniform (beforeStep4b c s) l.il l.iu l.jl l.ju l.kl l.ku := by
  rw [beforeStep4b_eq, ← hl]
  -- the copy of `Uhalf`
  have w0 : ∃ uh, stepInit l s = { s with etah := 0, Uhalf := uh } ∧
      ConstOn uh l.kl l.ku l.jl l.ju l.il l.iu (uniformGas d0 E0) := by
    refine ⟨_, stepInit_eq l s, ?_⟩
    intro k j i a1 a2 a3 a4 a5 a6
    simp only [cellMap, a1, a2, a3, a4, a5, a6, and_self, if_true]
    exact hU k j i
  obtain ⟨uh, h0, hUh⟩ := w0
  rw [h0]
  -- Step 1
  have x1 : ConstOn (step1 c l
      { s with etah := 0, Uhalf := uh }).x1Flux
      l.kl l.ku l.jl l.ju (l.il + 1) l.iu (uniformFlux c d0 E0) :=
    fun k j i a1 a2 a3 a4 a5 a6 => step1_uniform c l
      { s with etah := 0, Uhalf := uh } d0 E0 hU
      (fun k j i => (hB k j i).1) rfl k j i ⟨a1, a2⟩ ⟨a3, a4⟩ ⟨a5, a6⟩
  have b1 : ConstOn (step1 c l
      { s with etah := 0, Uhalf := uh }).B1_x1Face
      l.kl l.ku l.jl l.ju (l.il + 1) l.iu 0 :=
    fun k j i a1 a2 a3 a4 a5 a6 =>
      (step1_B1face c l
      { s with etah := 0, Uhalf := uh } k j i ⟨a1, a2⟩ ⟨a3, a4⟩ ⟨a5, a6⟩).trans (hB k j i).1
  obtain ⟨p1, p2, p3, p4, fb1, fx1, h1⟩ := step1_writes c l
      { s with etah := 0, Uhalf := uh }
  rw [h1] at x1 b1 ⊢
  -- Step 2
  have x2 : ConstOn (step2 c l
      { s with etah := 0, Uhalf := uh, Ul := p1, Ur := p2, Wl := p3, Wr := p4, B1_x1Face := fb1,
               x1Flux := fx1 }).x2Flux
      l.kl l.ku (l.jl + 1) l.ju l.il l.iu (uniformFlux c d0 E0) :=
    fun k j i a1 a2 a3 a4 a5 a6 => step2_uniform c l
      { s with etah := 0, Uhalf := uh, Ul := p1, Ur := p2, Wl := p3, Wr := p4, B1_x1Face := fb1,
               x1Flux := fx1 } d0 E0 hU
      (fun k j i => (hB k j i).2.1) rfl k j i ⟨a1, a2⟩ ⟨a3, a4⟩ ⟨a5, a6⟩
  have b2 : ConstOn (step2 c l
      { s with etah := 0, Uhalf := uh, Ul := p1, Ur := p2, Wl := p3, Wr := p4, B1_x1Face := fb1,
               x1Flux := fx1 }).B2_x2Face
      l.kl l.ku (l.jl + 1) l.ju l.il l.iu 0 :=
    fun k j i a1 a2 a3 a4 a5 a6 =>
      (step2_B2face c l
      { s with etah := 0, Uhalf := uh, Ul := p1, Ur := p2, Wl := p3, Wr := p4, B1_x1Face := fb1,
               x1Flux := fx1 } k j i ⟨a1, a2⟩ ⟨a3, a4⟩ ⟨a5, a6⟩).trans (hB k j i).2.1
  obtain ⟨q1, q2, q3, q4, fb2, fx2, h2⟩ := step2_writes c l
      { s with etah := 0, Uhalf := uh, Ul := p1, Ur := p2, Wl := p3, Wr := p4, B1_x1Face := fb1,
               x1Flux := fx1 }
  rw [h2] at x2 b2 ⊢
  -- Step 3
  have x3 : ConstOn (step3 c l
      { s with etah := 0, Uhalf := uh, Ul := q1, Ur := q2, Wl := q3, Wr := q4, B1_x1Face := fb1,
               x1Flux := fx1, B2_x2Face := fb2, x2Flux := fx2 }).x3Flux
      (l.kl + 1) l.ku l.jl l.ju l.il l.iu (uniformFlux c d0 E0) :=
    fun k j i a1 a2 a3 a4 a5 a6 => step3_uniform c l
      { s with etah := 0, Uhalf := uh, Ul := q1, Ur := q2, Wl := q3, Wr := q4, B1_x1Face := fb1,
               x1Flux := fx1, B2_x2Face := fb2, x2Flux := fx2 } d0 E0 hU
      (fun k j i => (hB k j i).2.2) rfl k j i ⟨a1, a2⟩ ⟨a3, a4⟩ ⟨a5, a6⟩
  have b3 : ConstOn (step3 c l
      { s with etah := 0, Uhalf := uh, Ul := q1, Ur := q2, Wl := q3, Wr := q4, B1_x1Face := fb1,
               x1Flux := fx1, B2_x2Face := fb2, x2Flux := fx2 }).B3_x3Face
      (l.kl + 1) l.ku l.jl l.ju l.il l.iu 0 :=
    fun k j i a1 a2 a3 a4 a5 a6 =>
      (step3_B3face c l
      { s with etah := 0, Uhalf := uh, Ul := q1, Ur := q2, Wl := q3, Wr := q4, B1_x1Face := fb1,
               x1Flux := fx1, B2_x2Face := fb2, x2Flux := fx2 } k j i ⟨a1, a2⟩ ⟨a3, a4⟩ ⟨a5, a6⟩).trans (hB k j i).2.2
  obtain ⟨r1, r2, r3, r4, fb3, fx3, h3⟩ := step3_writes c l
      { s with etah := 0, Uhalf := uh, Ul := q1, Ur := q2, Wl := q3, Wr := q4, B1_x1Face := fb1,
               x1Flux := fx1, B2_x2Face := fb2, x2Flux := fx2 }
  rw [h3] at x3 b3 ⊢
  -- Step 4a
  have cc := fun k j i a1 a2 a3 a4 a5 a6 => step4a_cc l
      { s with etah := 0, Uhalf := uh, Ul := r1, Ur := r2, Wl := r3, Wr := r4, B1_x1Face := fb1,
               x1Flux := fx1, B2_x2Face := fb2, x2Flux := fx2, B3_x3Face := fb3, x3Flux := fx3 } k j i ⟨a1, a2⟩ ⟨a3, a4⟩ ⟨a5, a6⟩
  have hz : ∀ k j i,
      ((s.pG.U k j i).B2c * (s.pG.U k j i).M3 - (s.pG.U k j i).B3c * (s.pG.U k j i).M2)
        / (s.pG.U k j i).d = 0 ∧
      ((s.pG.U k j i).B3c * (s.pG.U k j i).M1 - (s.pG.U k j i).B1c * (s.pG.U k j i).M3)
        / (s.pG.U k j i).d = 0 ∧
      ((s.pG.U k j i).B1c * (s.pG.U k j i).M2 - (s.pG.U k j i).B2c * (s.pG.U k j i).M1)
        / (s.pG.U k j i).d = 0 := by
    intro k j i
    rw [hU k j i]
    simp [uniformGas]
  obtain ⟨g1, g2, g3, h4⟩ := step4a_writes l
      { s with etah := 0, Uhalf := uh, Ul := r1, Ur := r2, Wl := r3, Wr := r4, B1_x1Face := fb1,
               x1Flux := fx1, B2_x2Face := fb2, x2Flux := fx2, B3_x3Face := fb3, x3Flux := fx3 }
  rw [h4] at cc ⊢
  have hF : FluxesConst
      { s with etah := 0, Uhalf := uh, Ul := r1, Ur := r2, Wl := r3, Wr := r4, B1_x1Face := fb1,
               x1Flux := fx1, B2_x2Face := fb2, x2Flux := fx2, B3_x3Face := fb3, x3Flux := fx3,
               emf1_cc := g1, emf2_cc := g2, emf3_cc := g3 }
      l.il l.iu l.jl l.ju l.kl l.ku (uniformFlux c d0 E0) := ⟨x1, x2, x3⟩
  have hC : CcZero
      { s with etah := 0, Uhalf := uh, Ul := r1, Ur := r2, Wl := r3, Wr := r4, B1_x1Face := fb1,
               x1Flux := fx1, B2_x2Face := fb2, x2Flux := fx2, B3_x3Face := fb3, x3Flux := fx3,
               emf1_cc := g1, emf2_cc := g2, emf3_cc := g3 }
      l.il l.iu l.jl l.ju l.kl l.ku :=
    ⟨fun k j i a1 a2 a3 a4 a5 a6 => (cc k j i a1 a2 a3 a4 a5 a6).1.trans (hz k j i).1,
     fun k j i a1 a2 a3 a4 a5 a6 => (cc k j i a1 a2 a3 a4 a5 a6).2.1.trans (hz k j i).2.1,
     fun k j i a1 a2 a3 a4 a5 a6 => (cc k j i a1 a2 a3 a4 a5 a6).2.2.trans (hz k j i).2.2⟩
  -- the corner EMFs
  obtain ⟨hE, e1, e2, e3, h5⟩ := corners_uniform c
      { s with etah := 0, Uhalf := uh, Ul := r1, Ur := r2, Wl := r3, Wr := r4, B1_x1Face := fb1,
               x1Flux := fx1, B2_x2Face := fb2, x2Flux := fx2, B3_x3Face := fb3, x3Flux := fx3,
               emf1_cc := g1, emf2_cc := g2, emf3_cc := g3 }
      l.il l.iu l.jl l.ju l.kl l.ku (uniformFlux c d0 E0)
    (by subst hl; exact ⟨le_refl _, le_refl _, le_refl _, le_refl _, le_refl _, le_refl _⟩) hF hC
  rw [h5] at hE ⊢
  exact ⟨rfl, hUh, hF, ⟨b1, b2, b3⟩, hC, hE⟩

/-- On a uniform state with zero field and no gravity, Steps 4b-6 change nothing:
the predictor ends in the state it had after the corner EMFs. -/
theorem predictor_uniform (c : Config) (s : State) (d0 E0 : ℚ) (l : Locals)
    (hl : l = locals c s.pG)
    (hne : l.il + 1 ≤ l.iu ∧ l.jl + 1 ≤ l.ju ∧ l.kl + 1 ≤ l.ku)
    (hg : c.StaticGravPot = none) (hsg : c.SELF_GRAVITY = false)
    (hU : ∀ k j i, s.pG.U k j i = uniformGas d0 E0)
    (hB : ∀ k j i, s.pG.B1i k j i = 0 ∧ s.pG.B2i k j i = 0 ∧ s.pG.B3i k j i = 0) :
    runStages (predictorStages c l) s = beforeStep4b c s := by
  obtain ⟨_, hUh, hF, hZ, _, hE⟩ := beforeStep4b_uniform c s d0 E0 l hl hU hB
  have e0 : runStages (predictorStages c l) s =
      step6b c l (step6a c l (step5c l (step5b l (step5a l (step4c l (step4b l
        (beforeStep4b c s))))))) := by
    subst hl; rfl
  have e1 : step4b l (beforeStep4b c s) = beforeStep4b c s :=
    step4b_id l _ hne.1 hne.2.1 hne.2.2 hE
  have e2 : step4c l (beforeStep4b c s) = beforeStep4b c s := by
    refine step4c_uniform l _
      (hZ.1.mono _ _ _ _ _ _ ⟨by omega, by omega, by omega, by omega, by omega, by omega⟩)
      (hZ.2.1.mono _ _ _ _ _ _ ⟨by omega, by omega, by omega, by omega, by omega, by omega⟩)
      (hZ.2.2.mono _ _ _ _ _ _ ⟨by omega, by omega, by omega, by omega, by omega, by omega⟩) ?_
    intro k j i a1 a2 a3 a4 a5 a6
    rw [hUh k j i (by omega) (by omega) (by omega) (by omega) (by omega) (by omega)]
    exact ⟨rfl, rfl, rfl⟩
  obtain ⟨e3, e4, e5⟩ := step5_uniform l (beforeStep4b c s) _ _ _
    (hF.1.mono _ _ _ _ _ _ ⟨by omega, by omega, by omega, by omega, by omega, by omega⟩)
    (hF.2.1.mono _ _ _ _ _ _ ⟨by omega, by omega, by omega, by omega, by omega, by omega⟩)
    (hF.2.2.mono _ _ _ _ _ _ ⟨by omega, by omega, by omega, by omega, by omega, by omega⟩)
  rw [e0, e1, e2, e3, e4, e5, step6a_none c l _ hg, step6b_off c l _ hsg]

theorem step10b_etah (c : Config) (l : Locals) (s : State) (h : c.H_CORRECTION = false) :
    (step10b c l s).etah = s.etah := by
  unfold step10b
  refine forLoop3_inv (fun t => t.etah = s.etah) _ _ _ _ _ _
    (fun k j i s => step10b_body c k j i s) ?_ s rfl
  intro k j i t ht
  show (step10b_body c k j i t).etah = s.etah
  simp only [step10b_body, etah1_off c k j i t h]
  exact ht

theorem step10c_etah (c : Config) (l : Locals) (s : State) (h : c.H_CORRECTION = false) :
    (step10c c l s).etah = s.etah := by
  unfold step10c
  refine forLoop3_inv (fun t => t.etah = s.etah) _ _ _ _ _ _
    (fun k j i s => step10c_body c k j i s) ?_ s rfl
  intro k j i t ht
  show (step10c_body c k j i t).etah = s.etah
  simp only [step10c_body, etah2_off c k j i t h]
  exact ht

/-- The corrector up to the corner EMFs, run from a state whose half-step array is
the uniform state, with zero scratch face fields: all
second-order fluxes are `uniformFlux2` and the corner EMFs are uniform. -/
theorem corrector_uniform (c : Config) (b : State) (d0 E0 : ℚ) (l : Locals)
    (hl : l = locals c b.pG)
    (hlr : ∀ (W : Arr1 Prim1D) (Bxc : Arr1 ℚ) (lo hi : Int) (Wl Wr : Arr1 Prim1D) (w : Prim1D),
      (∀ i, lo - c.order.offset - 1 ≤ i → i ≤ hi + c.order.offset + 1 → W i = w) →
      ∀ i, lo ≤ i → i ≤ hi + 1 →
        (c.lr_states W Bxc 0 lo hi Wl Wr).1 i = w ∧ (c.lr_states W Bxc 0 lo hi Wl Wr).2 i = w)
    (hH : c.H_CORRECTION = true → ∀ e U W b, c.fluxes e U U W W b = c.fluxes 0 U U W W b)
    (he : b.etah = 0)
    (hUh : ConstOn b.Uhalf l.kl l.ku l.jl l.ju l.il l.iu (uniformGas d0 E0))
    (hZ : FacesZero b l.il l.iu l.jl l.ju l.kl l.ku) :
    FluxesConst (runStages (correctorStages7to11b c l) b) l.ib l.it l.jb l.jt l.kb l.kt
      (uniformFlux2 c d0 E0) ∧
    EmfsUniform (runStages (correctorStages7to11b c l) b) l.ib l.it l.jb l.jt l.kb l.kt := by
  have ho := ReconOrder.offset_pos c.order
  have hb : l.kb = l.kl + c.order.offset ∧ l.kt = l.ku - c.order.offset ∧
      l.jb = l.jl + c.order.offset ∧ l.jt = l.ju - c.order.offset ∧
      l.ib = l.il + c.order.offset ∧ l.it = l.iu - c.order.offset := by
    subst hl; exact ⟨rfl, rfl, rfl, rfl, rfl, rfl⟩
  obtain ⟨hb1, hb2, hb3, hb4, hb5, hb6⟩ := hb
  have e0 : runStages (correctorStages7to11b c l) b =
      integrate_emf3_corner c (integrate_emf2_corner c (integrate_emf1_corner c
        (step11a l (step10d c l (step10c c l (step10b c l (step10a c l
          (step9 c l (step8 c l (step7 c l b)))))))))) := rfl
  rw [e0]
  -- Step 7
  have s7 := fun k j i a1 a2 a3 a4 a5 a6 => step7_uniform c l b d0 E0
    (fun W Bxc Wl Wr w hW i p1 p2 => by
      have := hlr W Bxc (l.ib + 1) (l.it - 1) Wl Wr w
        (fun i q1 q2 => hW i (by omega) (by omega)) i p1 (by omega)
      exact this)
    (hUh.mono _ _ _ _ _ _ ⟨by omega, by omega, by omega, by omega, by omega, by omega⟩)
    k j i ⟨a1, a2⟩ ⟨a3, a4⟩ ⟨a5, a6⟩
  obtain ⟨u1, x1, y1, w1, wl1, wr1, L1, R1, h7⟩ := step7_writes c l b
  rw [h7] at s7 ⊢
  have hL1 : ConstOn L1 l.kb l.kt l.jb l.jt (l.ib + 1) l.it (uniformPrim c d0 E0) :=
    fun k j i a1 a2 a3 a4 a5 a6 => (s7 k j i a1 a2 a3 a4 a5 a6).1
  have hR1 : ConstOn R1 l.kb l.kt l.jb l.jt (l.ib + 1) l.it (uniformPrim c d0 E0) :=
    fun k j i a1 a2 a3 a4 a5 a6 => (s7 k j i a1 a2 a3 a4 a5 a6).2
  -- Step 8
  have s8 := fun k j i a1 a2 a3 a4 a5 a6 => step8_uniform c l
      { b with U1d := u1, Bxc := x1, Bxi := y1, W := w1, Wl := wl1, Wr := wr1, Wl_x1Face := L1,
               Wr_x1Face := R1 } d0 E0
    (fun W Bxc Wl Wr w hW i p1 p2 => by
      have := hlr W Bxc (l.jb + 1) (l.jt - 1) Wl Wr w
        (fun i q1 q2 => hW i (by omega) (by omega)) i p1 (by omega)
      exact this)
    (hUh.mono _ _ _ _ _ _ ⟨by omega, by omega, by omega, by omega, by omega, by omega⟩)
    k j i ⟨a1, a2⟩ ⟨a3, a4⟩ ⟨a5, a6⟩
  obtain ⟨u2, x2, y2, w2, wl2, wr2, L2, R2, h8⟩ := step8_writes c l
      { b with U1d := u1, Bxc := x1, Bxi := y1, W := w1, Wl := wl1, Wr := wr1, Wl_x1Face := L1,
               Wr_x1Face := R1 }
  rw [h8] at s8 ⊢
  have hL2 : ConstOn L2 l.kb l.kt (l.jb + 1) l.jt l.ib l.it (uniformPrim c d0 E0) :=
    fun k j i a1 a2 a3 a4 a5 a6 => (s8 k j i a1 a2 a3 a4 a5 a6).1
  have hR2 : ConstOn R2 l.kb l.kt (l.jb + 1) l.jt l.ib l.it (uniformPrim c d0 E0) :=
    fun k j i a1 a2 a3 a4 a5 a6 => (s8 k j i a1 a2 a3 a4 a5 a6).2
  -- Step 9
  have s9 := fun k j i a1 a2 a3 a4 a5 a6 => step9_uniform c l
      { b with U1d := u2, Bxc := x2, Bxi := y2, W := w2, Wl := wl2, Wr := wr2, Wl_x1Face := L1,
               Wr_x1Face := R1, Wl_x2Face := L2, Wr_x2Face := R2 } d0 E0
    (fun W Bxc Wl Wr w hW i p1 p2 => by
      have := hlr W Bxc (l.kb + 1) (l.kt - 1) Wl Wr w
        (fun i q1 q2 => hW i (by omega) (by omega)) i p1 (by omega)
      exact this)
    (hUh.mono _ _ _ _ _ _ ⟨by omega, by omega, by omega, by omega, by omega, by omega⟩)
    k j i ⟨a1, a2⟩ ⟨a3, a4⟩ ⟨a5, a6⟩
  obtain ⟨u3, x3, y3, w3, wl3, wr3, L3, R3, h9⟩ := step9_writes c l
      { b with U1d := u2, Bxc := x2, Bxi := y2, W := w2, Wl := wl2, Wr := wr2, Wl_x1Face := L1,
               Wr_x1Face := R1, Wl_x2Face := L2, Wr_x2Face := R2 }
  rw [h9] at s9 ⊢
  have hL3 : ConstOn L3 (l.kb + 1) l.kt l.jb l.jt l.ib l.it (uniformPrim c d0 E0) :=
    fun k j i a1 a2 a3 a4 a5 a6 => (s9 k j i a1 a2 a3 a4 a5 a6).1
  have hR3 : ConstOn R3 (l.kb + 1) l.kt l.jb l.jt l.ib l.it (uniformPrim c d0 E0) :=
    fun k j i a1 a2 a3 a4 a5 a6 => (s9 k j i a1 a2 a3 a4 a5 a6).2
  -- Step 10a
  obtain ⟨n1, n2, n3, h10a⟩ := step10a_writes c l
      { b with U1d := u3, Bxc := x3, Bxi := y3, W := w3, Wl := wl3, Wr := wr3, Wl_x1Face := L1,
               Wr_x1Face := R1, Wl_x2Face := L2, Wr_x2Face := R2, Wl_x3Face := L3, Wr_x3Face := R3 }
  rw [h10a]
  -- Step 10b
  have t1 := fun k j i a1 a2 a3 a4 a5 a6 => step10b_uniform c l
      { b with U1d := u3, Bxc := x3, Bxi := y3, W := w3, Wl := wl3, Wr := wr3, Wl_x1Face := L1,
               Wr_x1Face := R1, Wl_x2Face := L2, Wr_x2Face := R2, Wl_x3Face := L3,
               Wr_x3Face := R3, eta1 := n1, eta2 := n2, eta3 := n3 } d0 E0 hH (fun _ => he) hL1 hR1
    (hZ.1.mono _ _ _ _ _ _ ⟨by omega, by omega, by omega, by omega, by omega, by omega⟩)
    k j i ⟨a1, a2⟩ ⟨a3, a4⟩ ⟨a5, a6⟩
  have te1 := step10b_etah c l
      { b with U1d := u3, Bxc := x3, Bxi := y3, W := w3, Wl := wl3, Wr := wr3, Wl_x1Face := L1,
               Wr_x1Face := R1, Wl_x2Face := L2, Wr_x2Face := R2, Wl_x3Face := L3,
               Wr_x3Face := R3, eta1 := n1, eta2 := n2, eta3 := n3 }
  obtain ⟨eh1, ul1, ur1, f1, h10b⟩ := step10b_writes c l
      { b with U1d := u3, Bxc := x3, Bxi := y3, W := w3, Wl := wl3, Wr := wr3, Wl_x1Face := L1,
               Wr_x1Face := R1, Wl_x2Face := L2, Wr_x2Face := R2, Wl_x3Face := L3,
               Wr_x3Face := R3, eta1 := n1, eta2 := n2, eta3 := n3 }
  rw [h10b] at t1 te1 ⊢
  have he1 : c.H_CORRECTION = false → eh1 = 0 := fun h => (te1 h).trans he
  have hf1 : ConstOn f1 l.kb l.kt l.jb l.jt (l.ib + 1) l.it (uniformFlux2 c d0 E0) := t1
  -- Step 10c
  have t2 := fun k j i a1 a2 a3 a4 a5 a6 => step10c_uniform c l
      { b with U1d := u3, Bxc := x3, Bxi := y3, W := w3, Wl := wl3, Wr := wr3, Wl_x1Face := L1,
               Wr_x1Face := R1, Wl_x2Face := L2, Wr_x2Face := R2, Wl_x3Face := L3,
               Wr_x3Face := R3, eta1 := n1, eta2 := n2, eta3 := n3, etah := eh1, Ul := ul1,
               Ur := ur1, x1Flux := f1 } d0 E0 hH he1 hL2 hR2
    (hZ.2.1.mono _ _ _ _ _ _ ⟨by omega, by omega, by omega, by omega, by omega, by omega⟩)
    k j i ⟨a1, a2⟩ ⟨a3, a4⟩ ⟨a5, a6⟩
  have te2 := step10c_etah c l
      { b with U1d := u3, Bxc := x3, Bxi := y3, W := w3, Wl := wl3, Wr := wr3, Wl_x1Face := L1,
               Wr_x1Face := R1, Wl_x2Face := L2, Wr_x2Face := R2, Wl_x3Face := L3,
               Wr_x3Face := R3, eta1 := n1, eta2 := n2, eta3 := n3, etah := eh1, Ul := ul1,
               Ur := ur1, x1Flux := f1 }
  obtain ⟨eh2, ul2, ur2, f2, h10c⟩ := step10c_writes c l
      { b with U1d := u3, Bxc := x3, Bxi := y3, W := w3, Wl := wl3, Wr := wr3, Wl_x1Face := L1,
               Wr_x1Face := R1, Wl_x2Face := L2, Wr_x2Face := R2, Wl_x3Face := L3,
               Wr_x3Face := R3, eta1 := n1, eta2 := n2, eta3 := n3, etah := eh1, Ul := ul1,
               Ur := ur1, x1Flux := f1 }
  rw [h10c] at t2 te2 ⊢
  have he2 : c.H_CORRECTION = false → eh2 = 0 := fun h => (te2 h).trans (he1 h)
  have hf2 : ConstOn f2 l.kb l.kt (l.jb + 1) l.jt l.ib l.it (uniformFlux2 c d0 E0) := t2
  -- Step 10d
  have t3 := fun k j i a1 a2 a3 a4 a5 a6 => step10d_uniform c l
      { b with U1d := u3, Bxc := x3, Bxi := y3, W := w3, Wl := wl3, Wr := wr3, Wl_x1Face := L1,
               Wr_x1Face := R1, Wl_x2Face := L2, Wr_x2Face := R2, Wl_x3Face := L3,
               Wr_x3Face := R3, eta1 := n1, eta2 := n2, eta3 := n3, etah := eh2, Ul := ul2,
               Ur := ur2, x1Flux := f1, x2Flux := f2 } d0 E0 hH he2 hL3 hR3
    (hZ.2.2.mono _ _ _ _ _ _ ⟨by omega, by omega, by omega, by omega, by omega, by omega⟩)
    k j i ⟨a1, a2⟩ ⟨a3, a4⟩ ⟨a5, a6⟩
  obtain ⟨eh3, ul3, ur3, f3, h10d⟩ := step10d_writes c l
      { b with U1d := u3, Bxc := x3, Bxi := y3, W := w3, Wl := wl3, Wr := wr3, Wl_x1Face := L1,
               Wr_x1Face := R1, Wl_x2Face := L2, Wr_x2Face := R2, Wl_x3Face := L3,
               Wr_x3Face := R3, eta1 := n1, eta2 := n2, eta3 := n3, etah := eh2, Ul := ul2,
               Ur := ur2, x1Flux := f1, x2Flux := f2 }
  rw [h10d] at t3 ⊢
  have hf3 : ConstOn f3 (l.kb + 1) l.kt l.jb l.jt l.ib l.it (uniformFlux2 c d0 E0) := t3
  -- Step 11a
  have ccin := fun k j i a1 a2 a3 a4 a5 a6 => step11a_cc l
      { b with U1d := u3, Bxc := x3, Bxi := y3, W := w3, Wl := wl3, Wr := wr3, Wl_x1Face := L1,
               Wr_x1Face := R1, Wl_x2Face := L2, Wr_x2Face := R2, Wl_x3Face := L3,
               Wr_x3Face := R3, eta1 := n1, eta2 := n2, eta3 := n3, etah := eh3, Ul := ul3,
               Ur := ur3, x1Flux := f1, x2Flux := f2, x3Flux := f3 } k j i ⟨a1, a2⟩ ⟨a3, a4⟩ ⟨a5, a6⟩
  have hz : ∀ k j i, l.kb ≤ k → k ≤ l.kt → l.jb ≤ j → j ≤ l.jt → l.ib ≤ i → i ≤ l.it →
      ((b.Uhalf k j i).B2c * (b.Uhalf k j i).M3 - (b.Uhalf k j i).B3c * (b.Uhalf k j i).M2)
        / (b.Uhalf k j i).d = 0 ∧
      ((b.Uhalf k j i).B3c * (b.Uhalf k j i).M1 - (b.Uhalf k j i).B1c * (b.Uhalf k j i).M3)
        / (b.Uhalf k j i).d = 0 ∧
      ((b.Uhalf k j i).B1c * (b.Uhalf k j i).M2 - (b.Uhalf k j i).B2c * (b.Uhalf k j i).M1)
        / (b.Uhalf k j i).d = 0 := by
    intro k j i a1 a2 a3 a4 a5 a6
    rw [hUh k j i (by omega) (by omega) (by omega) (by omega) (by omega) (by omega)]
    simp [uniformGas]
  obtain ⟨g1, g2, g3, h11⟩ := step11a_writes l
      { b with U1d := u3, Bxc := x3, Bxi := y3, W := w3, Wl := wl3, Wr := wr3, Wl_x1Face := L1,
               Wr_x1Face := R1, Wl_x2Face := L2, Wr_x2Face := R2, Wl_x3Face := L3,
               Wr_x3Face := R3, eta1 := n1, eta2 := n2, eta3 := n3, etah := eh3, Ul := ul3,
               Ur := ur3, x1Flux := f1, x2Flux := f2, x3Flux := f3 }
  rw [h11] at ccin ⊢
  have hF : FluxesConst
      { b with U1d := u3, Bxc := x3, Bxi := y3, W := w3, Wl := wl3, Wr := wr3, Wl_x1Face := L1,
               Wr_x1Face := R1, Wl_x2Face := L2, Wr_x2Face := R2, Wl_x3Face := L3,
               Wr_x3Face := R3, eta1 := n1, eta2 := n2, eta3 := n3, etah := eh3, Ul := ul3,
               Ur := ur3, x1Flux := f1, x2Flux := f2, x3Flux := f3, emf1_cc := g1, emf2_cc := g2,
               emf3_cc := g3 }
      l.ib l.it l.jb l.jt l.kb l.kt (uniformFlux2 c d0 E0) := ⟨hf1, hf2, hf3⟩
  have hC2 : CcZero
      { b with U1d := u3, Bxc := x3, Bxi := y3, W := w3, Wl := wl3, Wr := wr3, Wl_x1Face := L1,
               Wr_x1Face := R1, Wl_x2Face := L2, Wr_x2Face := R2, Wl_x3Face := L3,
               Wr_x3Face := R3, eta1 := n1, eta2 := n2, eta3 := n3, etah := eh3, Ul := ul3,
               Ur := ur3, x1Flux := f1, x2Flux := f2, x3Flux := f3, emf1_cc := g1, emf2_cc := g2,
               emf3_cc := g3 }
      l.ib l.it l.jb l.jt l.kb l.kt :=
    ⟨fun k j i a1 a2 a3 a4 a5 a6 =>
        (ccin k j i a1 a2 a3 a4 a5 a6).1.trans (hz k j i a1 a2 a3 a4 a5 a6).1,
     fun k j i a1 a2 a3 a4 a5 a6 =>
        (ccin k j i a1 a2 a3 a4 a5 a6).2.1.trans (hz k j i a1 a2 a3 a4 a5 a6).2.1,
     fun k j i a1 a2 a3 a4 a5 a6 =>
        (ccin k j i a1 a2 a3 a4 a5 a6).2.2.trans (hz k j i a1 a2 a3 a4 a5 a6).2.2⟩
  -- the corner EMFs
  obtain ⟨hE, e1, e2, e3, h12⟩ := corners_uniform c
      { b with U1d := u3, Bxc := x3, Bxi := y3, W := w3, Wl := wl3, Wr := wr3, Wl_x1Face := L1,
               Wr_x1Face := R1, Wl_x2Face := L2, Wr_x2Face := R2, Wl_x3Face := L3,
               Wr_x3Face := R3, eta1 := n1, eta2 := n2, eta3 := n3, etah := eh3, Ul := ul3,
               Ur := ur3, x1Flux := f1, x2Flux := f2, x3Flux := f3, emf1_cc := g1, emf2_cc := g2,
               emf3_cc := g3 }
      l.ib l.it l.jb l.jt l.kb l.kt (uniformFlux2 c d0 E0)
    (by
      have h1 : l.kl = b.pG.ks - c.nghost ∧ l.ku = b.pG.ke + c.nghost ∧
          l.jl = b.pG.js - c.nghost ∧ l.ju = b.pG.je + c.nghost ∧
          l.il = b.pG.is - c.nghost ∧ l.iu = b.pG.ie + c.nghost := by
        subst hl; exact ⟨rfl, rfl, rfl, rfl, rfl, rfl⟩
      obtain ⟨q1, q2, q3, q4, q5, q6⟩ := h1
      show b.pG.ks - c.nghost ≤ l.kb ∧ l.kt ≤ b.pG.ke + c.nghost ∧ b.pG.js - c.nghost ≤ l.jb ∧
        l.jt ≤ b.pG.je + c.nghost ∧ b.pG.is - c.nghost ≤ l.ib ∧ l.it ≤ b.pG.ie + c.nghost
      exact ⟨by omega, by omega, by omega, by omega, by omega, by omega⟩) hF hC2
  rw [h12] at hE ⊢
  exact ⟨hF, hE⟩

/-- C3: a uniform, motionless, constant-pressure state with zero magnetic field and
no gravity is an exact fixed point of one call of `integrate_3d_vl`. On a grid with at
least one active cell per direction and more ghost cells than the reconstruction
offset, assume that the reconstruction returns the cell value as both left and right
state on a line that is constant over the cells the integrator loads, and that the
flux function is a function of its arguments (with the H-correction compiled in: that
the flux between equal states does not depend on the global `etah`). Then every flux
difference and every corner-EMF difference of the predictor and of the corrector is
exactly zero, and `pG->U`, `B1i`, `B2i`, `B3i` are unchanged in every cell. -/
theorem C3_uniform_fixed_point (c : Config) (s : State) (d0 E0 : ℚ)
    (hgrid : s.pG.is ≤ s.pG.ie ∧ s.pG.js ≤ s.pG.je ∧ s.pG.ks ≤ s.pG.ke)
    (hng : c.order.offset < c.nghost)
    (hg : c.StaticGravPot = none) (hsg : c.SELF_GRAVITY = false)
    (hlr : ∀ (W : Arr1 Prim1D) (Bxc : Arr1 ℚ) (lo hi : Int) (Wl Wr : Arr1 Prim1D) (w : Prim1D),
      (∀ i, lo - c.order.offset - 1 ≤ i → i ≤ hi + c.order.offset + 1 → W i = w) →
      ∀ i, lo ≤ i → i ≤ hi + 1 →
        (c.lr_states W Bxc 0 lo hi Wl Wr).1 i = w ∧ (c.lr_states W Bxc 0 lo hi Wl Wr).2 i = w)
    (hH : c.H_CORRECTION = true → ∀ e U W b, c.fluxes e U U W W b = c.fluxes 0 U U W W b)
    (hU : ∀ k j i, s.pG.U k j i = uniformGas d0 E0)
    (hB : ∀ k j i, s.pG.B1i k j i = 0 ∧ s.pG.B2i k j i = 0 ∧ s.pG.B3i k j i = 0) :
    ((integrate_3d_vl c s).pG.U = s.pG.U ∧ (integrate_3d_vl c s).pG.B1i = s.pG.B1i ∧
      (integrate_3d_vl c s).pG.B2i = s.pG.B2i ∧ (integrate_3d_vl c s).pG.B3i = s.pG.B3i) ∧
    DiffsVanish (beforeStep4b c s) (locals c s.pG).il (locals c s.pG).iu (locals c s.pG).jl
      (locals c s.pG).ju (locals c s.pG).kl (locals c s.pG).ku ∧
    DiffsVanish (beforeStep11c c s) (locals c s.pG).ib (locals c s.pG).it (locals c s.pG).jb
      (locals c s.pG).jt (locals c s.pG).kb (locals c s.pG).kt := by
  have ho := ReconOrder.offset_pos c.order
  generalize hl : locals c s.pG = l
  have hr : l.kl = s.pG.ks - c.nghost ∧ l.ku = s.pG.ke + c.nghost ∧
      l.jl = s.pG.js - c.nghost ∧ l.ju = s.pG.je + c.nghost ∧
      l.il = s.pG.is - c.nghost ∧ l.iu = s.pG.ie + c.nghost ∧
      l.kb = l.kl + c.order.offset ∧ l.kt = l.ku - c.order.offset ∧
      l.jb = l.jl + c.order.offset ∧ l.jt = l.ju - c.order.offset ∧
      l.ib = l.il + c.order.offset ∧ l.it = l.iu - c.order.offset := by
    subst hl; exact ⟨rfl, rfl, rfl, rfl, rfl, rfl, rfl, rfl, rfl, rfl, rfl, rfl⟩
  obtain ⟨r1, r2, r3, r4, r5, r6, r7, r8, r9, r10, r11, r12⟩ := hr
  obtain ⟨he, hUh, hF, hZ, _, hE⟩ := beforeStep4b_uniform c s d0 E0 l hl.symm hU hB
  have hp := predictor_uniform c s d0 E0 l hl.symm ⟨by omega, by omega, by omega⟩ hg hsg hU hB
  have hb : beforeStep11c c s = runStages (correctorStages7to11b c l) (beforeStep4b c s) := by
    unfold beforeStep11c stagesBefore11c
    rw [hl, runStages_append, hp]
  obtain ⟨hF2, hE2⟩ := corrector_uniform c (beforeStep4b c s) d0 E0 l
    (by rw [beforeStep4b_pG]; exact hl.symm) hlr hH he hUh hZ
  rw [← hb] at hF2 hE2
  have hpG := beforeStep11c_pG c s
  have e1 : step11c l (beforeStep11c c s) = beforeStep11c c s :=
    step11c_id l _ (by omega) (by omega) (by omega) hE2
  have e2 : step13 l (beforeStep11c c s) = beforeStep11c c s :=
    step13_uniform l _ _ _ _
      (hF2.1.mono _ _ _ _ _ _ ⟨by omega, by omega, by omega, by omega, by omega, by omega⟩)
      (hF2.2.1.mono _ _ _ _ _ _ ⟨by omega, by omega, by omega, by omega, by omega, by omega⟩)
      (hF2.2.2.mono _ _ _ _ _ _ ⟨by omega, by omega, by omega, by omega, by omega, by omega⟩)
  have e3 : step13e l (beforeStep11c c s) = beforeStep11c c s := by
    refine step13e_uniform l _ ?_ ?_
    · intro k j i; rw [hpG]; exact hB k j i
    · intro k j i; rw [hpG, hU k j i]; exact ⟨rfl, rfl, rfl⟩
  have e4 : integrate_3d_vl c s = stepSMR c (beforeStep11c c s) := by
    rw [integrate_3d_vl_eq, hl, e1, step12a_none c l _ hg, step12b_off c l _ hsg, e2, e3]
  refine ⟨?_, diffsVanish_of_uniform _ _ _ _ _ _ _ _ hF hE,
    diffsVanish_of_uniform _ _ _ _ _ _ _ _ hF2 hE2⟩
  obtain ⟨f1, f2, f3⟩ := stepSMR_faceB c (beforeStep11c c s)
  rw [e4, stepSMR_U, f1, f2, f3, hpG]
  exact ⟨rfl, rfl, rfl, rfl⟩

/-- C3 on `demoUniformState`: one call of `integrate_3d_vl` leaves the grid's cell
state and face fields as they were. -/
theorem C3_witness :
    (integrate_3d_vl demoConfig demoUniformState).pG.U = demoUniformState.pG.U ∧
    (integrate_3d_vl demoConfig demoUniformState).pG.B1i = demoUniformState.pG.B1i ∧
    (integrate_3d_vl demoConfig demoUniformState).pG.B2i = demoUniformState.pG.B2i ∧
    (integrate_3d_vl demoConfig demoUniformState).pG.B3i = demoUniformState.pG.B3i :=
  (C3_uniform_fixed_point demoConfig demoUniformState 1 (5 / 2)
    ⟨by decide, by decide, by decide⟩ (by decide) rfl rfl
    (fun W Bxc lo hi Wl Wr w hW i h1 h2 => by
      have h3 : (2 : Int) = demoConfig.order.offset := rfl
      rw [← h3] at hW
      simp only [demoConfig, demoLr, h1, h2, and_self, if_true]
      exact ⟨hW (i - 1) (by omega) (by omega), hW i (by omega) (by omega)⟩)
    (fun h => absurd h (by decide))
    (fun _ _ _ => rfl) (fun _ _ _ => ⟨rfl, rfl, rfl⟩)).1

/-! ## C11, C12: which registers the mesh-refinement step writes -/

theorem slotRegs_storeFlx (g : GridOvrlpS) (dim dim0 a b : Int) (v : Gas) (h : dim0 ≠ dim) :
    slotRegs (storeFlx g dim a b v) dim0 = slotRegs g dim0 := by
  unfold storeFlx slotRegs
  cases hr : g.myFlx dim with
  | none => rfl
  | some reg => simp only [set1, h, if_false]

theorem slotRegs_storeEMF1 (g : GridOvrlpS) (dim dim0 a b : Int) (v : ℚ) (h : dim0 ≠ dim) :
    slotRegs (storeEMF1 g dim a b v) dim0 = slotRegs g dim0 := by
  simp only [storeEMF1, slotRegs, set1, h, if_false]

theorem slotRegs_storeEMF2 (g : GridOvrlpS) (dim dim0 a b : Int) (v : ℚ) (h : dim0 ≠ dim) :
    slotRegs (storeEMF2 g dim a b v) dim0 = slotRegs g dim0 := by
  simp only [storeEMF2, slotRegs, set1, h, if_false]

theorem slotRegs_storeEMF3 (g : GridOvrlpS) (dim dim0 a b : Int) (v : ℚ) (h : dim0 ≠ dim) :
    slotRegs (storeEMF3 g dim a b v) dim0 = slotRegs g dim0 := by
  simp only [storeEMF3, slotRegs, set1, h, if_false]

/-- The stores for the x1-face `dim` leave every other slot's registers alone, and
leave the slot `dim` itself alone when its flux register is `NULL`. -/
theorem smrX1_dim_slot (s : State) (dim dim0 : Int) (g : GridOvrlpS)
    (h : dim0 ≠ dim ∨ (g.myFlx dim).isSome = false) :
    slotRegs (smrX1_dim s dim g) dim0 = slotRegs g dim0 := by
  unfold smrX1_dim
  by_cases hs : (g.myFlx dim).isSome = true
  · have hd : dim0 ≠ dim := by
      rcases h with h | h
      · exact h
      · rw [hs] at h; exact absurd h (by decide)
    simp only [hs, if_true]
    rw [forLoop2_frame (fun t => slotRegs t dim0) _ _ _ _
        (fun k j t => storeEMF3 t dim (k - g.ijks 2) (j - g.ijks 1)
          (s.emf3 k j (if dim = 0 then g.ijks 0 else g.ijke 0 + 1)))
        (fun k j t _ _ _ _ => slotRegs_storeEMF3 t dim dim0 _ _ _ hd),
      forLoop2_frame (fun t => slotRegs t dim0) _ _ _ _
        (fun k j t => storeEMF2 t dim (k - g.ijks 2) (j - g.ijks 1)
          (s.emf2 k j (if dim = 0 then g.ijks 0 else g.ijke 0 + 1)))
        (fun k j t _ _ _ _ => slotRegs_storeEMF2 t dim dim0 _ _ _ hd),
      forLoop2_frame (fun t => slotRegs t dim0) _ _ _ _
        (fun k j t => storeFlx t dim (k - g.ijks 2) (j - g.ijks 1)
          (flxReg1 (s.x1Flux k j (if dim = 0 then g.ijks 0 else g.ijke 0 + 1))))
        (fun k j t _ _ _ _ => slotRegs_storeFlx t dim dim0 _ _ _ hd)]
  · simp only [hs]
    rfl

theorem smrX2_dim_slot (s : State) (dim dim0 : Int) (g : GridOvrlpS)
    (h : dim0 ≠ dim ∨ (g.myFlx dim).isSome = false) :
    slotRegs (smrX2_dim s dim g) dim0 = slotRegs g dim0 := by
  unfold smrX2_dim
  by_cases hs : (g.myFlx dim).isSome = true
  · have hd : dim0 ≠ dim := by
      rcases h with h | h
      · exact h
      · rw [hs] at h; exact absurd h (by decide)
    simp only [hs, if_true]
    rw [forLoop2_frame (fun t => slotRegs t dim0) _ _ _ _
        (fun k i t => storeEMF3 t dim (k - g.ijks 2) (i - g.ijks 0)
          (s.emf3 k (if dim = 2 then g.ijks 1 else g.ijke 1 + 1) i))
        (fun k j t _ _ _ _ => slotRegs_storeEMF3 t dim dim0 _ _ _ hd),
      forLoop2_frame (fun t => slotRegs t dim0) _ _ _ _
        (fun k i t => storeEMF1 t dim (k - g.ijks 2) (i - g.ijks 0)
          (s.emf1 k (if dim = 2 then g.ijks 1 else g.ijke 1 + 1) i))
        (fun k j t _ _ _ _ => slotRegs_storeEMF1 t dim dim0 _ _ _ hd),
      forLoop2_frame (fun t => slotRegs t dim0) _ _ _ _
        (fun k i t => storeFlx t dim (k - g.ijks 2) (i - g.ijks 0)
          (flxReg2 (s.x2Flux k (if dim = 2 then g.ijks 1 else g.ijke 1 + 1) i)))
        (fun k j t _ _ _ _ => slotRegs_storeFlx t dim dim0 _ _ _ hd)]
  · simp only [hs]
    rfl

theorem smrX3_dim_slot (s : State) (dim dim0 : Int) (g : GridOvrlpS)
    (h : dim0 ≠ dim ∨ (g.myFlx dim).isSome = false) :
    slotRegs (smrX3_dim s dim g) dim0 = slotRegs g dim0 := by
  unfold smrX3_dim
  by_cases hs : (g.myFlx dim).isSome = true
  · have hd : dim0 ≠ dim := by
      rcases h with h | h
      · exact h
      · rw [hs] at h; exact absurd h (by decide)
    simp only [hs, if_true]
    rw [forLoop2_frame (fun t => slotRegs t dim0) _ _ _ _
        (fun j i t => storeEMF2 t dim (j - g.ijks 1) (i - g.ijks 0)
          (s.emf2 (if dim = 4 then g.ijks 2 else g.ijke 2 + 1) j i))
        (fun k j t _ _ _ _ => slotRegs_storeEMF2 t dim dim0 _ _ _ hd),
      forLoop2_frame (fun t => slotRegs t dim0) _ _ _ _
        (fun j i t => storeEMF1 t dim (j - g.ijks 1) (i - g.ijks 0)
          (s.emf1 (if dim = 4 then g.ijks 2 else g.ijke 2 + 1) j i))
        (fun k j t _ _ _ _ => slotRegs_storeEMF1 t dim dim0 _ _ _ hd),
      forLoop2_frame (fun t => slotRegs t dim0) _ _ _ _
        (fun j i t => storeFlx t dim (j - g.ijks 1) (i - g.ijks 0)
          (flxReg3 (s.x3Flux (if dim = 4 then g.ijks 2 else g.ijke 2 + 1) j i)))
        (fun k j t _ _ _ _ => slotRegs_storeFlx t dim dim0 _ _ _ hd)]
  · simp only [hs]
    rfl

/-- The stores for one neighbouring grid leave the registers of a slot whose flux
register is `NULL` as they were. -/
theorem smrGrid_null (s : State) (g : GridOvrlpS) (dim : Int)
    (h : (g.myFlx dim).isSome = false) : slotRegs (smrGrid s g) dim = slotRegs g dim := by
  rw [smrGrid_unfold]
  have keep : ∀ g' : GridOvrlpS, slotRegs g' dim = slotRegs g dim →
      (g'.myFlx dim).isSome = false := by
    intro g' e
    have : g'.myFlx dim = g.myFlx dim := congrArg (fun v => v.1) e
    rw [this]; exact h
  have a0 := smrX1_dim_slot s 0 dim g (by
    by_cases e : dim = 0
    · subst e; exact Or.inr h
    · exact Or.inl e)
  have a1 := (smrX1_dim_slot s 1 dim (smrX1_dim s 0 g) (by
    by_cases e : dim = 1
    · subst e; exact Or.inr (keep _ a0)
    · exact Or.inl e)).trans a0
  have a2 := (smrX2_dim_slot s 2 dim (smrX1_dim s 1 (smrX1_dim s 0 g)) (by
    by_cases e : dim = 2
    · subst e; exact Or.inr (keep _ a1)
    · exact Or.inl e)).trans a1
  have a3 := (smrX2_dim_slot s 3 dim (smrX2_dim s 2 (smrX1_dim s 1 (smrX1_dim s 0 g))) (by
    by_cases e : dim = 3
    · subst e; exact Or.inr (keep _ a2)
    · exact Or.inl e)).trans a2
  have a4 := (smrX3_dim_slot s 4 dim
    (smrX2_dim s 3 (smrX2_dim s 2 (smrX1_dim s 1 (smrX1_dim s 0 g)))) (by
    by_cases e : dim = 4
    · subst e; exact Or.inr (keep _ a3)
    · exact Or.inl e)).trans a3
  exact (smrX3_dim_slot s 5 dim (smrX3_dim s 4
    (smrX2_dim s 3 (smrX2_dim s 2 (smrX1_dim s 1 (smrX1_dim s 0 g))))) (by
    by_cases e : dim = 5
    · subst e; exact Or.inr (keep _ a4)
    · exact Or.inl e)).trans a4

/-- The double loop that fills the register `myEMF1[dim]`: the entry written for
`(a0, b0)` is the value stored for it, the entries it does not reach and all other
registers keep their contents. -/
theorem storeEMF1_nest_entry (dim alo ahi blo bhi oa ob : Int) (F : Int → Int → ℚ)
    (g : GridOvrlpS) (a0 b0 : Int) (ha : alo ≤ a0 ∧ a0 ≤ ahi) (hb : blo ≤ b0 ∧ b0 ≤ bhi) :
    (forLoop alo ahi (fun a g => forLoop blo bhi (fun b g =>
        storeEMF1 g dim (a - oa) (b - ob) (F a b)) g) g).myEMF1 dim (a0 - oa) (b0 - ob) =
      F a0 b0 := by
  let obs : GridOvrlpS → ℚ := fun g => g.myEMF1 dim (a0 - oa) (b0 - ob)
  let body : Int → Int → GridOvrlpS → GridOvrlpS :=
    fun a b g => storeEMF1 g dim (a - oa) (b - ob) (F a b)
  let G : ℚ → ℚ := fun _ => F a0 b0
  refine forLoop2_hit obs alo ahi blo bhi a0 b0 body G ha hb ?_ ?_ g
  · intro g
    simp only [obs, G, body, storeEMF1, set1, set2, and_self, if_true]
  · intro a b g _ _ _ _ hne
    have hn : ¬ (a0 - oa = a - oa ∧ b0 - ob = b - ob) := fun h => hne ⟨by omega, by omega⟩
    simp only [obs, body, storeEMF1, set1, set2, hn, if_true, if_false]

theorem storeEMF1_nest_out (dim alo ahi blo bhi oa ob : Int) (F : Int → Int → ℚ)
    (g : GridOvrlpS) (x y : Int)
    (h : ¬ (alo ≤ x + oa ∧ x + oa ≤ ahi ∧ blo ≤ y + ob ∧ y + ob ≤ bhi)) :
    (forLoop alo ahi (fun a g => forLoop blo bhi (fun b g =>
        storeEMF1 g dim (a - oa) (b - ob) (F a b)) g) g).myEMF1 dim x y =
      g.myEMF1 dim x y := by
  let obs : GridOvrlpS → ℚ := fun g => g.myEMF1 dim x y
  let body : Int → Int → GridOvrlpS → GridOvrlpS :=
    fun a b g => storeEMF1 g dim (a - oa) (b - ob) (F a b)
  refine forLoop2_frame obs alo ahi blo bhi body ?_ g
  intro a b g a1 a2 a3 a4
  have hn : ¬ (x = a - oa ∧ y = b - ob) := by
    rintro ⟨rfl, rfl⟩
    exact h ⟨by omega, by omega, by omega, by omega⟩
  simp only [obs, body, storeEMF1, set1, set2, hn, if_true, if_false]

theorem storeEMF1_nest_others (dim alo ahi blo bhi oa ob : Int) (F : Int → Int → ℚ)
    (g : GridOvrlpS) :
    (forLoop alo ahi (fun a g => forLoop blo bhi (fun b g =>
        storeEMF1 g dim (a - oa) (b - ob) (F a b)) g) g).myEMF2 = g.myEMF2 ∧
    (forLoop alo ahi (fun a g => forLoop blo bhi (fun b g =>
        storeEMF1 g dim (a - oa) (b - ob) (F a b)) g) g).myEMF3 = g.myEMF3 := by
  let body : Int → Int → GridOvrlpS → GridOvrlpS :=
    fun a b g => storeEMF1 g dim (a - oa) (b - ob) (F a b)
  refine forLoop2_inv (fun t => t.myEMF2 = g.myEMF2 ∧ t.myEMF3 = g.myEMF3)
    alo ahi blo bhi body ?_ g ⟨rfl, rfl⟩
  intro a b t ht
  exact ht

/-- The double loop that fills the register `myEMF2[dim]`: the entry written for
`(a0, b0)` is the value stored for it, the entries it does not reach and all other
registers keep their contents. -/
theorem storeEMF2_nest_entry (dim alo ahi blo bhi oa ob : Int) (F : Int → Int → ℚ)
    (g : GridOvrlpS) (a0 b0 : Int) (ha : alo ≤ a0 ∧ a0 ≤ ahi) (hb : blo ≤ b0 ∧ b0 ≤ bhi) :
    (forLoop alo ahi (fun a g => forLoop blo bhi (fun b g =>
        storeEMF2 g dim (a - oa) (b - ob) (F a b)) g) g).myEMF2 dim (a0 - oa) (b0 - ob) =
      F a0 b0 := by
  let obs : GridOvrlpS → ℚ := fun g => g.myEMF2 dim (a0 - oa) (b0 - ob)
  let body : Int → Int → GridOvrlpS → GridOvrlpS :=
    fun a b g => storeEMF2 g dim (a - oa) (b - ob) (F a b)
  let G : ℚ → ℚ := fun _ => F a0 b0
  refine forLoop2_hit obs alo ahi blo bhi a0 b0 body G ha hb ?_ ?_ g
  · intro g
    simp only [obs, G, body, storeEMF2, set1, set2, and_self, if_true]
  · intro a b g _ _ _ _ hne
    have hn : ¬ (a0 - oa = a - oa ∧ b0 - ob = b - ob) := fun h => hne ⟨by omega, by omega⟩
    simp only [obs, body, storeEMF2, set1, set2, hn, if_true, if_false]

theorem storeEMF2_nest_out (dim alo ahi blo bhi oa ob : Int) (F : Int → Int → ℚ)
    (g : GridOvrlpS) (x y : Int)
    (h : ¬ (alo ≤ x + oa ∧ x + oa ≤ ahi ∧ blo ≤ y + ob ∧ y + ob ≤ bhi)) :
    (forLoop alo ahi (fun a g => forLoop blo bhi (fun b g =>
        storeEMF2 g dim (a - oa) (b - ob) (F a b)) g) g).myEMF2 dim x y =
      g.myEMF2 dim x y := by
  let obs : GridOvrlpS → ℚ := fun g => g.myEMF2 dim x y
  let body : Int → Int → GridOvrlpS → GridOvrlpS :=
    fun a b g => storeEMF2 g dim (a - oa) (b - ob) (F a b)
  refine forLoop2_frame obs alo ahi blo bhi body ?_ g
  intro a b g a1 a2 a3 a4
  have hn : ¬ (x = a - oa ∧ y = b - ob) := by
    rintro ⟨rfl, rfl⟩
    exact h ⟨by omega, by omega, by omega, by omega⟩
  simp only [obs, body, storeEMF2, set1, set2, hn, if_true, if_false]

theorem storeEMF2_nest_others (dim alo ahi blo bhi oa ob : Int) (F : Int → Int → ℚ)
    (g : GridOvrlpS) :
    (forLoop alo ahi (fun a g => forLoop blo bhi (fun b g =>
        storeEMF2 g dim (a - oa) (b - ob) (F a b)) g) g).myEMF1 = g.myEMF1 ∧
    (forLoop alo ahi (fun a g => forLoop blo bhi (fun b g =>
        storeEMF2 g dim (a - oa) (b - ob) (F a b)) g) g).myEMF3 = g.myEMF3 := by
  let body : Int → Int → GridOvrlpS → GridOvrlpS :=
    fun a b g => storeEMF2 g dim (a - oa) (b - ob) (F a b)
  refine forLoop2_inv (fun t => t.myEMF1 = g.myEMF1 ∧ t.myEMF3 = g.myEMF3)
    alo ahi blo bhi body ?_ g ⟨rfl, rfl⟩
  intro a b t ht
  exact ht

/-- The double loop that fills the register `myEMF3[dim]`: the entry written for
`(a0, b0)` is the value stored for it, the entries it does not reach and all other
registers keep their contents. -/
theorem storeEMF3_nest_entry (dim alo ahi blo bhi oa ob : Int) (F : Int → Int → ℚ)
    (g : GridOvrlpS) (a0 b0 : Int) (ha : alo ≤ a0 ∧ a0 ≤ ahi) (hb : blo ≤ b0 ∧ b0 ≤ bhi) :
    (forLoop alo ahi (fun a g => forLoop blo bhi (fun b g =>
        storeEMF3 g dim (a - oa) (b - ob) (F a b)) g) g).myEMF3 dim (a0 - oa) (b0 - ob) =
      F a0 b0 := by
  let obs : GridOvrlpS → ℚ := fun g => g.myEMF3 dim (a0 - oa) (b0 - ob)
  let body : Int → Int → GridOvrlpS → GridOvrlpS :=
    fun a b g => storeEMF3 g dim (a - oa) (b - ob) (F a b)
  let G : ℚ → ℚ := fun _ => F a0 b0
  refine forLoop2_hit obs alo ahi blo bhi a0 b0 body G ha hb ?_ ?_ g
  · intro g
    simp only [obs, G, body, storeEMF3, set1, set2, and_self, if_true]
  · intro a b g _ _ _ _ hne
    have hn : ¬ (a0 - oa = a - oa ∧ b0 - ob = b - ob) := fun h => hne ⟨by omega, by omega⟩
    simp only [obs, body, storeEMF3, set1, set2, hn, if_true, if_false]

theorem storeEMF3_nest_out (dim alo ahi blo bhi oa ob : Int) (F : Int → Int → ℚ)
    (g : GridOvrlpS) (x y : Int)
    (h : ¬ (alo ≤ x + oa ∧ x + oa ≤ ahi ∧ blo ≤ y + ob ∧ y + ob ≤ bhi)) :
    (forLoop alo ahi (fun a g => forLoop blo bhi (fun b g =>
        storeEMF3 g dim (a - oa) (b - ob) (F a b)) g) g).myEMF3 dim x y =
      g.myEMF3 dim x y := by
  let obs : GridOvrlpS → ℚ := fun g => g.myEMF3 dim x y
  let body : Int → Int → GridOvrlpS → GridOvrlpS :=
    fun a b g => storeEMF3 g dim (a - oa) (b - ob) (F a b)
  refine forLoop2_frame obs alo ahi blo bhi body ?_ g
  intro a b g a1 a2 a3 a4
  have hn : ¬ (x = a - oa ∧ y = b - ob) := by
    rintro ⟨rfl, rfl⟩
    exact h ⟨by omega, by omega, by omega, by omega⟩
  simp only [obs, body, storeEMF3, set1, set2, hn, if_true, if_false]

theorem storeEMF3_nest_others (dim alo ahi blo bhi oa ob : Int) (F : Int → Int → ℚ)
    (g : GridOvrlpS) :
    (forLoop alo ahi (fun a g => forLoop blo bhi (fun b g =>
        storeEMF3 g dim (a - oa) (b - ob) (F a b)) g) g).myEMF1 = g.myEMF1 ∧
    (forLoop alo ahi (fun a g => forLoop blo bhi (fun b g =>
        storeEMF3 g dim (a - oa) (b - ob) (F a b)) g) g).myEMF2 = g.myEMF2 := by
  let body : Int → Int → GridOvrlpS → GridOvrlpS :=
    fun a b g => storeEMF3 g dim (a - oa) (b - ob) (F a b)
  refine forLoop2_inv (fun t => t.myEMF1 = g.myEMF1 ∧ t.myEMF2 = g.myEMF2)
    alo ahi blo bhi body ?_ g ⟨rfl, rfl⟩
  intro a b t ht
  exact ht

theorem storeFlx_emf (g : GridOvrlpS) (dim a b : Int) (v : Gas) :
    (storeFlx g dim a b v).myEMF1 = g.myEMF1 ∧ (storeFlx g dim a b v).myEMF2 = g.myEMF2 ∧
      (storeFlx g dim a b v).myEMF3 = g.myEMF3 := by
  unfold storeFlx
  cases hr : g.myFlx dim with
  | none => exact ⟨rfl, rfl, rfl⟩
  | some reg => exact ⟨rfl, rfl, rfl⟩

/-- The double loop that fills a flux register leaves the EMF registers alone. -/
theorem storeFlx_nest_emf (dim alo ahi blo bhi oa ob : Int) (F : Int → Int → Gas)
    (g : GridOvrlpS) :
    (forLoop alo ahi (fun a g => forLoop blo bhi (fun b g =>
        storeFlx g dim (a - oa) (b - ob) (F a b)) g) g).myEMF1 = g.myEMF1 ∧
    (forLoop alo ahi (fun a g => forLoop blo bhi (fun b g =>
        storeFlx g dim (a - oa) (b - ob) (F a b)) g) g).myEMF2 = g.myEMF2 ∧
    (forLoop alo ahi (fun a g => forLoop blo bhi (fun b g =>
        storeFlx g dim (a - oa) (b - ob) (F a b)) g) g).myEMF3 = g.myEMF3 := by
  let body : Int → Int → GridOvrlpS → GridOvrlpS :=
    fun a b g => storeFlx g dim (a - oa) (b - ob) (F a b)
  refine forLoop2_inv
    (fun t => t.myEMF1 = g.myEMF1 ∧ t.myEMF2 = g.myEMF2 ∧ t.myEMF3 = g.myEMF3)
    alo ahi blo bhi body ?_ g ⟨rfl, rfl, rfl⟩
  intro a b t ht
  obtain ⟨e1, e2, e3⟩ := storeFlx_emf t dim (a - oa) (b - ob) (F a b)
  exact ⟨e1.trans ht.1, e2.trans ht.2.1, e3.trans ht.2.2⟩

theorem storeEMF1_nest_at (dim alo ahi blo bhi oa ob : Int) (F : Int → Int → ℚ)
    (g : GridOvrlpS) (x y : Int) (hx : alo ≤ oa + x ∧ oa + x ≤ ahi)
    (hy : blo ≤ ob + y ∧ ob + y ≤ bhi) :
    (forLoop alo ahi (fun a g => forLoop blo bhi (fun b g =>
        storeEMF1 g dim (a - oa) (b - ob) (F a b)) g) g).myEMF1 dim x y =
      F (oa + x) (ob + y) := by
  have e := storeEMF1_nest_entry dim alo ahi blo bhi oa ob F g (oa + x) (ob + y) hx hy
  rwa [add_sub_cancel_left, add_sub_cancel_left] at e

theorem storeEMF2_nest_at (dim alo ahi blo bhi oa ob : Int) (F : Int → Int → ℚ)
    (g : GridOvrlpS) (x y : Int) (hx : alo ≤ oa + x ∧ oa + x ≤ ahi)
    (hy : blo ≤ ob + y ∧ ob + y ≤ bhi) :
    (forLoop alo ahi (fun a g => forLoop blo bhi (fun b g =>
        storeEMF2 g dim (a - oa) (b - ob) (F a b)) g) g).myEMF2 dim x y =
      F (oa + x) (ob + y) := by
  have e := storeEMF2_nest_entry dim alo ahi blo bhi oa ob F g (oa + x) (ob + y) hx hy
  rwa [add_sub_cancel_left, add_sub_cancel_left] at e

theorem storeEMF3_nest_at (dim alo ahi blo bhi oa ob : Int) (F : Int → Int → ℚ)
    (g : GridOvrlpS) (x y : Int) (hx : alo ≤ oa + x ∧ oa + x ≤ ahi)
    (hy : blo ≤ ob + y ∧ ob + y ≤ bhi) :
    (forLoop alo ahi (fun a g => forLoop blo bhi (fun b g =>
        storeEMF3 g dim (a - oa) (b - ob) (F a b)) g) g).myEMF3 dim x y =
      F (oa + x) (ob + y) := by
  have e := storeEMF3_nest_entry dim alo ahi blo bhi oa ob F g (oa + x) (ob + y) hx hy
  rwa [add_sub_cancel_left, add_sub_cancel_left] at e

/-- The stores for one x1-face with a flux register: the two EMF registers of the
slot hold the EMFs of the edges bounding the face, entries beyond them keep their
contents, and the third EMF register is not written. -/
theorem smrX1_dim_emf (s : State) (dim : Int) (g : GridOvrlpS)
    (h : (g.myFlx dim).isSome = true) :
    (∀ a b, 0 ≤ a ∧ a ≤ g.ijke 2 - g.ijks 2 + 1 → 0 ≤ b ∧ b ≤ g.ijke 1 - g.ijks 1 →
      (smrX1_dim s dim g).myEMF2 dim a b =
        s.emf2 (g.ijks 2 + a) (g.ijks 1 + b) (if dim = 0 then g.ijks 0 else g.ijke 0 + 1)) ∧
    (∀ a b, 0 ≤ a ∧ a ≤ g.ijke 2 - g.ijks 2 → 0 ≤ b ∧ b ≤ g.ijke 1 - g.ijks 1 + 1 →
      (smrX1_dim s dim g).myEMF3 dim a b =
        s.emf3 (g.ijks 2 + a) (g.ijks 1 + b) (if dim = 0 then g.ijks 0 else g.ijke 0 + 1)) ∧
    (∀ a b, ¬ (0 ≤ a ∧ a ≤ g.ijke 2 - g.ijks 2 + 1 ∧ 0 ≤ b ∧ b ≤ g.ijke 1 - g.ijks 1) →
      (smrX1_dim s dim g).myEMF2 dim a b = g.myEMF2 dim a b) ∧
    (∀ a b, ¬ (0 ≤ a ∧ a ≤ g.ijke 2 - g.ijks 2 ∧ 0 ≤ b ∧ b ≤ g.ijke 1 - g.ijks 1 + 1) →
      (smrX1_dim s dim g).myEMF3 dim a b = g.myEMF3 dim a b) ∧
    (smrX1_dim s dim g).myEMF1 = g.myEMF1 := by
  unfold smrX1_dim
  simp only [h, if_true]
  refine ⟨?_, ?_, ?_, ?_, ?_⟩
  · intro a b ha hb
    rw [(storeEMF3_nest_others _ _ _ _ _ _ _ _ _).2]
    exact storeEMF2_nest_at dim _ _ _ _ _ _
      (fun a b => s.emf2 (a) (b) (if dim = 0 then g.ijks 0 else g.ijke 0 + 1)) _ a b
      ⟨by omega, by omega⟩ ⟨by omega, by omega⟩
  · intro a b ha hb
    exact storeEMF3_nest_at dim _ _ _ _ _ _
      (fun a b => s.emf3 (a) (b) (if dim = 0 then g.ijks 0 else g.ijke 0 + 1)) _ a b
      ⟨by omega, by omega⟩ ⟨by omega, by omega⟩
  · intro a b hn
    rw [(storeEMF3_nest_others _ _ _ _ _ _ _ _ _).2]
    rw [storeEMF2_nest_out dim _ _ _ _ _ _
      (fun a b => s.emf2 (a) (b) (if dim = 0 then g.ijks 0 else g.ijke 0 + 1)) _ a b
      (fun hh => hn ⟨by omega, by omega, by omega, by omega⟩)]
    rw [(storeFlx_nest_emf _ _ _ _ _ _ _ _ _).2.1]
  · intro a b hn
    rw [storeEMF3_nest_out dim _ _ _ _ _ _
      (fun a b => s.emf3 (a) (b) (if dim = 0 then g.ijks 0 else g.ijke 0 + 1)) _ a b
      (fun hh => hn ⟨by omega, by omega, by omega, by omega⟩)]
    rw [(storeEMF2_nest_others _ _ _ _ _ _ _ _ _).2]
    rw [(storeFlx_nest_emf _ _ _ _ _ _ _ _ _).2.2]
  · rw [(storeEMF3_nest_others _ _ _ _ _ _ _ _ _).1]
    rw [(storeEMF2_nest_others _ _ _ _ _ _ _ _ _).1]
    rw [(storeFlx_nest_emf _ _ _ _ _ _ _ _ _).1]

/-- The stores for one x2-face with a flux register: the two EMF registers of the
slot hold the EMFs of the edges bounding the face, entries beyond them keep their
contents, and the third EMF register is not written. -/
theorem smrX2_dim_emf (s : State) (dim : Int) (g : GridOvrlpS)
    (h : (g.myFlx dim).isSome = true) :
    (∀ a b, 0 ≤ a ∧ a ≤ g.ijke 2 - g.ijks 2 + 1 → 0 ≤ b ∧ b ≤ g.ijke 0 - g.ijks 0 →
      (smrX2_dim s dim g).myEMF1 dim a b =
        s.emf1 (g.ijks 2 + a) (if dim = 2 then g.ijks 1 else g.ijke 1 + 1) (g.ijks 0 + b)) ∧
    (∀ a b, 0 ≤ a ∧ a ≤ g.ijke 2 - g.ijks 2 → 0 ≤ b ∧ b ≤ g.ijke 0 - g.ijks 0 + 1 →
      (smrX2_dim s dim g).myEMF3 dim a b =
        s.emf3 (g.ijks 2 + a) (if dim = 2 then g.ijks 1 else g.ijke 1 + 1) (g.ijks 0 + b)) ∧
    (∀ a b, ¬ (0 ≤ a ∧ a ≤ g.ijke 2 - g.ijks 2 + 1 ∧ 0 ≤ b ∧ b ≤ g.ijke 0 - g.ijks 0) →
      (smrX2_dim s dim g).myEMF1 dim a b = g.myEMF1 dim a b) ∧
    (∀ a b, ¬ (0 ≤ a ∧ a ≤ g.ijke 2 - g.ijks 2 ∧ 0 ≤ b ∧ b ≤ g.ijke 0 - g.ijks 0 + 1) →
      (smrX2_dim s dim g).myEMF3 dim a b = g.myEMF3 dim a b) ∧
    (smrX2_dim s dim g).myEMF2 = g.myEMF2 := by
  unfold smrX2_dim
  simp only [h, if_true]
  refine ⟨?_, ?_, ?_, ?_, ?_⟩
  · intro a b ha hb
    rw [(storeEMF3_nest_others _ _ _ _ _ _ _ _ _).1]
    exact storeEMF1_nest_at dim _ _ _ _ _ _
      (fun a b => s.emf1 (a) (if dim = 2 then g.ijks 1 else g.ijke 1 + 1) (b)) _ a b
      ⟨by omega, by omega⟩ ⟨by omega, by omega⟩
  · intro a b ha hb
    exact storeEMF3_nest_at dim _ _ _ _ _ _
      (fun a b => s.emf3 (a) (if dim = 2 then g.ijks 1 else g.ijke 1 + 1) (b)) _ a b
      ⟨by omega, by omega⟩ ⟨by omega, by omega⟩
  · intro a b hn
    rw [(storeEMF3_nest_others _ _ _ _ _ _ _ _ _).1]
    rw [storeEMF1_nest_out dim _ _ _ _ _ _
      (fun a b => s.emf1 (a) (if dim = 2 then g.ijks 1 else g.ijke 1 + 1) (b)) _ a b
      (fun hh => hn ⟨by omega, by omega, by omega, by omega⟩)]
    rw [(storeFlx_nest_emf _ _ _ _ _ _ _ _ _).1]
  · intro a b hn
    rw [storeEMF3_nest_out dim _ _ _ _ _ _
      (fun a b => s.emf3 (a) (if dim = 2 then g.ijks 1 else g.ijke 1 + 1) (b)) _ a b
      (fun hh => hn ⟨by omega, by omega, by omega, by omega⟩)]
    rw [(storeEMF1_nest_others _ _ _ _ _ _ _ _ _).2]
    rw [(storeFlx_nest_emf _ _ _ _ _ _ _ _ _).2.2]
  · rw [(storeEMF3_nest_others _ _ _ _ _ _ _ _ _).2]
    rw [(storeEMF1_nest_others _ _ _ _ _ _ _ _ _).1]
    rw [(storeFlx_nest_emf _ _ _ _ _ _ _ _ _).2.1]

/-- The stores for one x3-face with a flux register: the two EMF registers of the
slot hold the EMFs of the edges bounding the face, entries beyond them keep their
contents, and the third EMF register is not written. -/
theorem smrX3_dim_emf (s : State) (dim : Int) (g : GridOvrlpS)
    (h : (g.myFlx dim).isSome = true) :
    (∀ a b, 0 ≤ a ∧ a ≤ g.ijke 1 - g.ijks 1 + 1 → 0 ≤ b ∧ b ≤ g.ijke 0 - g.ijks 0 →
      (smrX3_dim s dim g).myEMF1 dim a b =
        s.emf1 (if dim = 4 then g.ijks 2 else g.ijke 2 + 1) (g.ijks 1 + a) (g.ijks 0 + b)) ∧
    (∀ a b, 0 ≤ a ∧ a ≤ g.ijke 1 - g.ijks 1 → 0 ≤ b ∧ b ≤ g.ijke 0 - g.ijks 0 + 1 →
      (smrX3_dim s dim g).myEMF2 dim a b =
        s.emf2 (if dim = 4 then g.ijks 2 else g.ijke 2 + 1) (g.ijks 1 + a) (g.ijks 0 + b)) ∧
    (∀ a b, ¬ (0 ≤ a ∧ a ≤ g.ijke 1 - g.ijks 1 + 1 ∧ 0 ≤ b ∧ b ≤ g.ijke 0 - g.ijks 0) →
      (smrX3_dim s dim g).myEMF1 dim a b = g.myEMF1 dim a b) ∧
    (∀ a b, ¬ (0 ≤ a ∧ a ≤ g.ijke 1 - g.ijks 1 ∧ 0 ≤ b ∧ b ≤ g.ijke 0 - g.ijks 0 + 1) →
      (smrX3_dim s dim g).myEMF2 dim a b = g.myEMF2 dim a b) ∧
    (smrX3_dim s dim g).myEMF3 = g.myEMF3 := by
  unfold smrX3_dim
  simp only [h, if_true]
  refine ⟨?_, ?_, ?_, ?_, ?_⟩
  · intro a b ha hb
    rw [(storeEMF2_nest_others _ _ _ _ _ _ _ _ _).1]
    exact storeEMF1_nest_at dim _ _ _ _ _ _
      (fun a b => s.emf1 (if dim = 4 then g.ijks 2 else g.ijke 2 + 1) (a) (b)) _ a b
      ⟨by omega, by omega⟩ ⟨by omega, by omega⟩
  · intro a b ha hb
    exact storeEMF2_nest_at dim _ _ _ _ _ _
      (fun a b => s.emf2 (if dim = 4 then g.ijks 2 else g.ijke 2 + 1) (a) (b)) _ a b
      ⟨by omega, by omega⟩ ⟨by omega, by omega⟩
  · intro a b hn
    rw [(storeEMF2_nest_others _ _ _ _ _ _ _ _ _).1]
    rw [storeEMF1_nest_out dim _ _ _ _ _ _
      (fun a b => s.emf1 (if dim = 4 then g.ijks 2 else g.ijke 2 + 1) (a) (b)) _ a b
      (fun hh => hn ⟨by omega, by omega, by omega, by omega⟩)]
    rw [(storeFlx_nest_emf _ _ _ _ _ _ _ _ _).1]
  · intro a b hn
    rw [storeEMF2_nest_out dim _ _ _ _ _ _
      (fun a b => s.emf2 (if dim = 4 then g.ijks 2 else g.ijke 2 + 1) (a) (b)) _ a b
      (fun hh => hn ⟨by omega, by omega, by omega, by omega⟩)]
    rw [(storeEMF1_nest_others _ _ _ _ _ _ _ _ _).1]
    rw [(storeFlx_nest_emf _ _ _ _ _ _ _ _ _).2.1]
  · rw [(storeEMF2_nest_others _ _ _ _ _ _ _ _ _).2]
    rw [(storeEMF1_nest_others _ _ _ _ _ _ _ _ _).2]
    rw [(storeFlx_nest_emf _ _ _ _ _ _ _ _ _).2.2]

/-- After the stores for one neighbouring grid, the EMF registers of an x1-face slot
with a flux register hold the EMFs of the edges bounding the face; entries beyond them
and the third EMF register keep their contents. -/
theorem smrGrid_emf_x1 (s : State) (g : GridOvrlpS) (dim : Int)
    (hd : dim = 0 ∨ dim = 1) (h : (g.myFlx dim).isSome = true) :
    (∀ a b, 0 ≤ a ∧ a ≤ g.ijke 2 - g.ijks 2 + 1 → 0 ≤ b ∧ b ≤ g.ijke 1 - g.ijks 1 →
      (smrGrid s g).myEMF2 dim a b =
        s.emf2 (g.ijks 2 + a) (g.ijks 1 + b) (if dim = 0 then g.ijks 0 else g.ijke 0 + 1)) ∧
    (∀ a b, 0 ≤ a ∧ a ≤ g.ijke 2 - g.ijks 2 → 0 ≤ b ∧ b ≤ g.ijke 1 - g.ijks 1 + 1 →
      (smrGrid s g).myEMF3 dim a b =
        s.emf3 (g.ijks 2 + a) (g.ijks 1 + b) (if dim = 0 then g.ijks 0 else g.ijke 0 + 1)) ∧
    (∀ a b, ¬ (0 ≤ a ∧ a ≤ g.ijke 2 - g.ijks 2 + 1 ∧ 0 ≤ b ∧ b ≤ g.ijke 1 - g.ijks 1) →
      (smrGrid s g).myEMF2 dim a b = g.myEMF2 dim a b) ∧
    (∀ a b, ¬ (0 ≤ a ∧ a ≤ g.ijke 2 - g.ijks 2 ∧ 0 ≤ b ∧ b ≤ g.ijke 1 - g.ijks 1 + 1) →
      (smrGrid s g).myEMF3 dim a b = g.myEMF3 dim a b) ∧
    (smrGrid s g).myEMF1 dim = g.myEMF1 dim := by
  rw [smrGrid_unfold]
  rcases hd with rfl | rfl
  ·
    have sl1 := smrX1_dim_slot s 1 0 (smrX1_dim s 0 g) (Or.inl (by decide))
    simp only [slotRegs, Prod.mk.injEq] at sl1
    have sl2 := smrX2_dim_slot s 2 0 (smrX1_dim s 1 (smrX1_dim s 0 g)) (Or.inl (by decide))
    simp only [slotRegs, Prod.mk.injEq] at sl2
    have sl3 := smrX2_dim_slot s 3 0 (smrX2_dim s 2 (smrX1_dim s 1 (smrX1_dim s 0 g))) (Or.inl (by decide))
    simp only [slotRegs, Prod.mk.injEq] at sl3
    have sl4 := smrX3_dim_slot s 4 0 (smrX2_dim s 3 (smrX2_dim s 2 (smrX1_dim s 1 (smrX1_dim s 0 g)))) (Or.inl (by decide))
    simp only [slotRegs, Prod.mk.injEq] at sl4
    have sl5 := smrX3_dim_slot s 5 0 (smrX3_dim s 4 (smrX2_dim s 3 (smrX2_dim s 2 (smrX1_dim s 1 (smrX1_dim s 0 g))))) (Or.inl (by decide))
    simp only [slotRegs, Prod.mk.injEq] at sl5
    obtain ⟨e1, e2, e3, e4, e5⟩ := smrX1_dim_emf s 0 g h
    have q1 : (smrX3_dim s 5 (smrX3_dim s 4 (smrX2_dim s 3 (smrX2_dim s 2 (smrX1_dim s 1 (smrX1_dim s 0 g)))))).myEMF1 0 = (smrX1_dim s 0 g).myEMF1 0 := ((((sl5.2.1).trans sl4.2.1).trans sl3.2.1).trans sl2.2.1).trans sl1.2.1
    have q2 : (smrX3_dim s 5 (smrX3_dim s 4 (smrX2_dim s 3 (smrX2_dim s 2 (smrX1_dim s 1 (smrX1_dim s 0 g)))))).myEMF2 0 = (smrX1_dim s 0 g).myEMF2 0 := ((((sl5.2.2.1).trans sl4.2.2.1).trans sl3.2.2.1).trans sl2.2.2.1).trans sl1.2.2.1
    have q3 : (smrX3_dim s 5 (smrX3_dim s 4 (smrX2_dim s 3 (smrX2_dim s 2 (smrX1_dim s 1 (smrX1_dim s 0 g)))))).myEMF3 0 = (smrX1_dim s 0 g).myEMF3 0 := ((((sl5.2.2.2).trans sl4.2.2.2).trans sl3.2.2.2).trans sl2.2.2.2).trans sl1.2.2.2
    refine ⟨fun a b ha hb => ?_, fun a b ha hb => ?_, fun a b hn => ?_, fun a b hn => ?_, ?_⟩
    · rw [q2]; exact e1 a b ha hb
    · rw [q3]; exact e2 a b ha hb
    · rw [q2, e3 a b hn]
    · rw [q3, e4 a b hn]
    · rw [q1, e5]
  ·
    have sl0 := smrX1_dim_slot s 0 1 g (Or.inl (by decide))
    simp only [slotRegs, Prod.mk.injEq] at sl0
    have fr0 := smrX1_dim_frame s 0 g
    have sl2 := smrX2_dim_slot s 2 1 (smrX1_dim s 1 (smrX1_dim s 0 g)) (Or.inl (by decide))
    simp only [slotRegs, Prod.mk.injEq] at sl2
    have sl3 := smrX2_dim_slot s 3 1 (smrX2_dim s 2 (smrX1_dim s 1 (smrX1_dim s 0 g))) (Or.inl (by decide))
    simp only [slotRegs, Prod.mk.injEq] at sl3
    have sl4 := smrX3_dim_slot s 4 1 (smrX2_dim s 3 (smrX2_dim s 2 (smrX1_dim s 1 (smrX1_dim s 0 g)))) (Or.inl (by decide))
    simp only [slotRegs, Prod.mk.injEq] at sl4
    have sl5 := smrX3_dim_slot s 5 1 (smrX3_dim s 4 (smrX2_dim s 3 (smrX2_dim s 2 (smrX1_dim s 1 (smrX1_dim s 0 g))))) (Or.inl (by decide))
    simp only [slotRegs, Prod.mk.injEq] at sl5
    have pF : (smrX1_dim s 0 g).myFlx 1 = g.myFlx 1 := sl0.1
    have p1 : (smrX1_dim s 0 g).myEMF1 1 = g.myEMF1 1 := sl0.2.1
    have p2 : (smrX1_dim s 0 g).myEMF2 1 = g.myEMF2 1 := sl0.2.2.1
    have p3 : (smrX1_dim s 0 g).myEMF3 1 = g.myEMF3 1 := sl0.2.2.2
    have pS : (smrX1_dim s 0 g).ijks = g.ijks := fr0.1
    have pE : (smrX1_dim s 0 g).ijke = g.ijke := fr0.2.1
    obtain ⟨e1, e2, e3, e4, e5⟩ := smrX1_dim_emf s 1 (smrX1_dim s 0 g) (by rw [pF]; exact h)
    rw [pS, pE] at e1 e2 e3 e4
    have q1 : (smrX3_dim s 5 (smrX3_dim s 4 (smrX2_dim s 3 (smrX2_dim s 2 (smrX1_dim s 1 (smrX1_dim s 0 g)))))).myEMF1 1 = (smrX1_dim s 1 (smrX1_dim s 0 g)).myEMF1 1 := (((sl5.2.1).trans sl4.2.1).trans sl3.2.1).trans sl2.2.1
    have q2 : (smrX3_dim s 5 (smrX3_dim s 4 (smrX2_dim s 3 (smrX2_dim s 2 (smrX1_dim s 1 (smrX1_dim s 0 g)))))).myEMF2 1 = (smrX1_dim s 1 (smrX1_dim s 0 g)).myEMF2 1 := (((sl5.2.2.1).trans sl4.2.2.1).trans sl3.2.2.1).trans sl2.2.2.1
    have q3 : (smrX3_dim s 5 (smrX3_dim s 4 (smrX2_dim s 3 (smrX2_dim s 2 (smrX1_dim s 1 (smrX1_dim s 0 g)))))).myEMF3 1 = (smrX1_dim s 1 (smrX1_dim s 0 g)).myEMF3 1 := (((sl5.2.2.2).trans sl4.2.2.2).trans sl3.2.2.2).trans sl2.2.2.2
    refine ⟨fun a b ha hb => ?_, fun a b ha hb => ?_, fun a b hn => ?_, fun a b hn => ?_, ?_⟩
    · rw [q2]; exact e1 a b ha hb
    · rw [q3]; exact e2 a b ha hb
    · rw [q2, e3 a b hn, p2]
    · rw [q3, e4 a b hn, p3]
    · rw [q1, e5, p1]

/-- After the stores for one neighbouring grid, the EMF registers of an x2-face slot
with a flux register hold the EMFs of the edges bounding the face; entries beyond them
and the third EMF register keep their contents. -/
theorem smrGrid_emf_x2 (s : State) (g : GridOvrlpS) (dim : Int)
    (hd : dim = 2 ∨ dim = 3) (h : (g.myFlx dim).isSome = true) :
    (∀ a b, 0 ≤ a ∧ a ≤ g.ijke 2 - g.ijks 2 + 1 → 0 ≤ b ∧ b ≤ g.ijke 0 - g.ijks 0 →
      (smrGrid s g).myEMF1 dim a b =
        s.emf1 (g.ijks 2 + a) (if dim = 2 then g.ijks 1 else g.ijke 1 + 1) (g.ijks 0 + b)) ∧
    (∀ a b, 0 ≤ a ∧ a ≤ g.ijke 2 - g.ijks 2 → 0 ≤ b ∧ b ≤ g.ijke 0 - g.ijks 0 + 1 →
      (smrGrid s g).myEMF3 dim a b =
        s.emf3 (g.ijks 2 + a) (if dim = 2 then g.ijks 1 else g.ijke 1 + 1) (g.ijks 0 + b)) ∧
    (∀ a b, ¬ (0 ≤ a ∧ a ≤ g.ijke 2 - g.ijks 2 + 1 ∧ 0 ≤ b ∧ b ≤ g.ijke 0 - g.ijks 0) →
      (smrGrid s g).myEMF1 dim a b = g.myEMF1 dim a b) ∧
    (∀ a b, ¬ (0 ≤ a ∧ a ≤ g.ijke 2 - g.ijks 2 ∧ 0 ≤ b ∧ b ≤ g.ijke 0 - g.ijks 0 + 1) →
      (smrGrid s g).myEMF3 dim a b = g.myEMF3 dim a b) ∧
    (smrGrid s g).myEMF2 dim = g.myEMF2 dim := by
  rw [smrGrid_unfold]
  rcases hd with rfl | rfl
  ·
    have sl0 := smrX1_dim_slot s 0 2 g (Or.inl (by decide))
    simp only [slotRegs, Prod.mk.injEq] at sl0
    have fr0 := smrX1_dim_frame s 0 g
    have sl1 := smrX1_dim_slot s 1 2 (smrX1_dim s 0 g) (Or.inl (by decide))
    simp only [slotRegs, Prod.mk.injEq] at sl1
    have fr1 := smrX1_dim_frame s 1 (smrX1_dim s 0 g)
    have sl3 := smrX2_dim_slot s 3 2 (smrX2_dim s 2 (smrX1_dim s 1 (smrX1_dim s 0 g))) (Or.inl (by decide))
    simp only [slotRegs, Prod.mk.injEq] at sl3
    have sl4 := smrX3_dim_slot s 4 2 (smrX2_dim s 3 (smrX2_dim s 2 (smrX1_dim s 1 (smrX1_dim s 0 g)))) (Or.inl (by decide))
    simp only [slotRegs, Prod.mk.injEq] at sl4
    have sl5 := smrX3_dim_slot s 5 2 (smrX3_dim s 4 (smrX2_dim s 3 (smrX2_dim s 2 (smrX1_dim s 1 (smrX1_dim s 0 g))))) (Or.inl (by decide))
    simp only [slotRegs, Prod.mk.injEq] at sl5
    have pF : (smrX1_dim s 1 (smrX1_dim s 0 g)).myFlx 2 = g.myFlx 2 := (sl1.1).trans sl0.1
    have p1 : (smrX1_dim s 1 (smrX1_dim s 0 g)).myEMF1 2 = g.myEMF1 2 := (sl1.2.1).trans sl0.2.1
    have p2 : (smrX1_dim s 1 (smrX1_dim s 0 g)).myEMF2 2 = g.myEMF2 2 := (sl1.2.2.1).trans sl0.2.2.1
    have p3 : (smrX1_dim s 1 (smrX1_dim s 0 g)).myEMF3 2 = g.myEMF3 2 := (sl1.2.2.2).trans sl0.2.2.2
    have pS : (smrX1_dim s 1 (smrX1_dim s 0 g)).ijks = g.ijks := (fr1.1).trans fr0.1
    have pE : (smrX1_dim s 1 (smrX1_dim s 0 g)).ijke = g.ijke := (fr1.2.1).trans fr0.2.1
    obtain ⟨e1, e2, e3, e4, e5⟩ := smrX2_dim_emf s 2 (smrX1_dim s 1 (smrX1_dim s 0 g)) (by rw [pF]; exact h)
    rw [pS, pE] at e1 e2 e3 e4
    have q1 : (smrX3_dim s 5 (smrX3_dim s 4 (smrX2_dim s 3 (smrX2_dim s 2 (smrX1_dim s 1 (smrX1_dim s 0 g)))))).myEMF1 2 = (smrX2_dim s 2 (smrX1_dim s 1 (smrX1_dim s 0 g))).myEMF1 2 := ((sl5.2.1).trans sl4.2.1).trans sl3.2.1
    have q2 : (smrX3_dim s 5 (smrX3_dim s 4 (smrX2_dim s 3 (smrX2_dim s 2 (smrX1_dim s 1 (smrX1_dim s 0 g)))))).myEMF2 2 = (smrX2_dim s 2 (smrX1_dim s 1 (smrX1_dim s 0 g))).myEMF2 2 := ((sl5.2.2.1).trans sl4.2.2.1).trans sl3.2.2.1
    have q3 : (smrX3_dim s 5 (smrX3_dim s 4 (smrX2_dim s 3 (smrX2_dim s 2 (smrX1_dim s 1 (smrX1_dim s 0 g)))))).myEMF3 2 = (smrX2_dim s 2 (smrX1_dim s 1 (smrX1_dim s 0 g))).myEMF3 2 := ((sl5.2.2.2).trans sl4.2.2.2).trans sl3.2.2.2
    refine ⟨fun a b ha hb => ?_, fun a b ha hb => ?_, fun a b hn => ?_, fun a b hn => ?_, ?_⟩
    · rw [q1]; exact e1 a b ha hb
    · rw [q3]; exact e2 a b ha hb
    · rw [q1, e3 a b hn, p1]
    · rw [q3, e4 a b hn, p3]
    · rw [q2, e5, p2]
  ·
    have sl0 := smrX1_dim_slot s 0 3 g (Or.inl (by decide))
    simp only [slotRegs, Prod.mk.injEq] at sl0
    have fr0 := smrX1_dim_frame s 0 g
    have sl1 := smrX1_dim_slot s 1 3 (smrX1_dim s 0 g) (Or.inl (by decide))
    simp only [slotRegs, Prod.mk.injEq] at sl1
    have fr1 := smrX1_dim_frame s 1 (smrX1_dim s 0 g)
    have sl2 := smrX2_dim_slot s 2 3 (smrX1_dim s 1 (smrX1_dim s 0 g)) (Or.inl (by decide))
    simp only [slotRegs, Prod.mk.injEq] at sl2
    have fr2 := smrX2_dim_frame s 2 (smrX1_dim s 1 (smrX1_dim s 0 g))
    have sl4 := smrX3_dim_slot s 4 3 (smrX2_dim s 3 (smrX2_dim s 2 (smrX1_dim s 1 (smrX1_dim s 0 g)))) (Or.inl (by decide))
    simp only [slotRegs, Prod.mk.injEq] at sl4
    have sl5 := smrX3_dim_slot s 5 3 (smrX3_dim s 4 (smrX2_dim s 3 (smrX2_dim s 2 (smrX1_dim s 1 (smrX1_dim s 0 g))))) (Or.inl (by decide))
    simp only [slotRegs, Prod.mk.injEq] at sl5
    have pF : (smrX2_dim s 2 (smrX1_dim s 1 (smrX1_dim s 0 g))).myFlx 3 = g.myFlx 3 := ((sl2.1).trans sl1.1).trans sl0.1
    have p1 : (smrX2_dim s 2 (smrX1_dim s 1 (smrX1_dim s 0 g))).myEMF1 3 = g.myEMF1 3 := ((sl2.2.1).trans sl1.2.1).trans sl0.2.1
    have p2 : (smrX2_dim s 2 (smrX1_dim s 1 (smrX1_dim s 0 g))).myEMF2 3 = g.myEMF2 3 := ((sl2.2.2.1).trans sl1.2.2.1).trans sl0.2.2.1
    have p3 : (smrX2_dim s 2 (smrX1_dim s 1 (smrX1_dim s 0 g))).myEMF3 3 = g.myEMF3 3 := ((sl2.2.2.2).trans sl1.2.2.2).trans sl0.2.2.2
    have pS : (smrX2_dim s 2 (smrX1_dim s 1 (smrX1_dim s 0 g))).ijks = g.ijks := ((fr2.1).trans fr1.1).trans fr0.1
    have pE : (smrX2_dim s 2 (smrX1_dim s 1 (smrX1_dim s 0 g))).ijke = g.ijke := ((fr2.2.1).trans fr1.2.1).trans fr0.2.1
    obtain ⟨e1, e2, e3, e4, e5⟩ := smrX2_dim_emf s 3 (smrX2_dim s 2 (smrX1_dim s 1 (smrX1_dim s 0 g))) (by rw [pF]; exact h)
    rw [pS, pE] at e1 e2 e3 e4
    have q1 : (smrX3_dim s 5 (smrX3_dim s 4 (smrX2_dim s 3 (smrX2_dim s 2 (smrX1_dim s 1 (smrX1_dim s 0 g)))))).myEMF1 3 = (smrX2_dim s 3 (smrX2_dim s 2 (smrX1_dim s 1 (smrX1_dim s 0 g)))).myEMF1 3 := (sl5.2.1).trans sl4.2.1
    have q2 : (smrX3_dim s 5 (smrX3_dim s 4 (smrX2_dim s 3 (smrX2_dim s 2 (smrX1_dim s 1 (smrX1_dim s 0 g)))))).myEMF2 3 = (smrX2_dim s 3 (smrX2_dim s 2 (smrX1_dim s 1 (smrX1_dim s 0 g)))).myEMF2 3 := (sl5.2.2.1).trans sl4.2.2.1
    have q3 : (smrX3_dim s 5 (smrX3_dim s 4 (smrX2_dim s 3 (smrX2_dim s 2 (smrX1_dim s 1 (smrX1_dim s 0 g)))))).myEMF3 3 = (smrX2_dim s 3 (smrX2_dim s 2 (smrX1_dim s 1 (smrX1_dim s 0 g)))).myEMF3 3 := (sl5.2.2.2).trans sl4.2.2.2
    refine ⟨fun a b ha hb => ?_, fun a b ha hb => ?_, fun a b hn => ?_, fun a b hn => ?_, ?_⟩
    · rw [q1]; exact e1 a b ha hb
    · rw [q3]; exact e2 a b ha hb
    · rw [q1, e3 a b hn, p1]
    · rw [q3, e4 a b hn, p3]
    · rw [q2, e5, p2]

/-- After the stores for one neighbouring grid, the EMF registers of an x3-face slot
with a flux register hold the EMFs of the edges bounding the face; entries beyond them
and the third EMF register keep their contents. -/
theorem smrGrid_emf_x3 (s : State) (g : GridOvrlpS) (dim : Int)
    (hd : dim = 4 ∨ dim = 5) (h : (g.myFlx dim).isSome = true) :
    (∀ a b, 0 ≤ a ∧ a ≤ g.ijke 1 - g.ijks 1 + 1 → 0 ≤ b ∧ b ≤ g.ijke 0 - g.ijks 0 →
      (smrGrid s g).myEMF1 dim a b =
        s.emf1 (if dim = 4 then g.ijks 2 else g.ijke 2 + 1) (g.ijks 1 + a) (g.ijks 0 + b)) ∧
    (∀ a b, 0 ≤ a ∧ a ≤ g.ijke 1 - g.ijks 1 → 0 ≤ b ∧ b ≤ g.ijke 0 - g.ijks 0 + 1 →
      (smrGrid s g).myEMF2 dim a b =
        s.emf2 (if dim = 4 then g.ijks 2 else g.ijke 2 + 1) (g.ijks 1 + a) (g.ijks 0 + b)) ∧
    (∀ a b, ¬ (0 ≤ a ∧ a ≤ g.ijke 1 - g.ijks 1 + 1 ∧ 0 ≤ b ∧ b ≤ g.ijke 0 - g.ijks 0) →
      (smrGrid s g).myEMF1 dim a b = g.myEMF1 dim a b) ∧
    (∀ a b, ¬ (0 ≤ a ∧ a ≤ g.ijke 1 - g.ijks 1 ∧ 0 ≤ b ∧ b ≤ g.ijke 0 - g.ijks 0 + 1) →
      (smrGrid s g).myEMF2 dim a b = g.myEMF2 dim a b) ∧
    (smrGrid s g).myEMF3 dim = g.myEMF3 dim := by
  rw [smrGrid_unfold]
  rcases hd with rfl | rfl
  ·
    have sl0 := smrX1_dim_slot s 0 4 g (Or.inl (by decide))
    simp only [slotRegs, Prod.mk.injEq] at sl0
    have fr0 := smrX1_dim_frame s 0 g
    have sl1 := smrX1_dim_slot s 1 4 (smrX1_dim s 0 g) (Or.inl (by decide))
    simp only [slotRegs, Prod.mk.injEq] at sl1
    have fr1 := smrX1_dim_frame s 1 (smrX1_dim s 0 g)
    have sl2 := smrX2_dim_slot s 2 4 (smrX1_dim s 1 (smrX1_dim s 0 g)) (Or.inl (by decide))
    simp only [slotRegs, Prod.mk.injEq] at sl2
    have fr2 := smrX2_dim_frame s 2 (smrX1_dim s 1 (smrX1_dim s 0 g))
    have sl3 := smrX2_dim_slot s 3 4 (smrX2_dim s 2 (smrX1_dim s 1 (smrX1_dim s 0 g))) (Or.inl (by decide))
    simp only [slotRegs, Prod.mk.injEq] at sl3
    have fr3 := smrX2_dim_frame s 3 (smrX2_dim s 2 (smrX1_dim s 1 (smrX1_dim s 0 g)))
    have sl5 := smrX3_dim_slot s 5 4 (smrX3_dim s 4 (smrX2_dim s 3 (smrX2_dim s 2 (smrX1_dim s 1 (smrX1_dim s 0 g))))) (Or.inl (by decide))
    simp only [slotRegs, Prod.mk.injEq] at sl5
    have pF : (smrX2_dim s 3 (smrX2_dim s 2 (smrX1_dim s 1 (smrX1_dim s 0 g)))).myFlx 4 = g.myFlx 4 := (((sl3.1).trans sl2.1).trans sl1.1).trans sl0.1
    have p1 : (smrX2_dim s 3 (smrX2_dim s 2 (smrX1_dim s 1 (smrX1_dim s 0 g)))).myEMF1 4 = g.myEMF1 4 := (((sl3.2.1).trans sl2.2.1).trans sl1.2.1).trans sl0.2.1
    have p2 : (smrX2_dim s 3 (smrX2_dim s 2 (smrX1_dim s 1 (smrX1_dim s 0 g)))).myEMF2 4 = g.myEMF2 4 := (((sl3.2.2.1).trans sl2.2.2.1).trans sl1.2.2.1).trans sl0.2.2.1
    have p3 : (smrX2_dim s 3 (smrX2_dim s 2 (smrX1_dim s 1 (smrX1_dim s 0 g)))).myEMF3 4 = g.myEMF3 4 := (((sl3.2.2.2).trans sl2.2.2.2).trans sl1.2.2.2).trans sl0.2.2.2
    have pS : (smrX2_dim s 3 (smrX2_dim s 2 (smrX1_dim s 1 (smrX1_dim s 0 g)))).ijks = g.ijks := (((fr3.1).trans fr2.1).trans fr1.1).trans fr0.1
    have pE : (smrX2_dim s 3 (smrX2_dim s 2 (smrX1_dim s 1 (smrX1_dim s 0 g)))).ijke = g.ijke := (((fr3.2.1).trans fr2.2.1).trans fr1.2.1).trans fr0.2.1
    obtain ⟨e1, e2, e3, e4, e5⟩ := smrX3_dim_emf s 4 (smrX2_dim s 3 (smrX2_dim s 2 (smrX1_dim s 1 (smrX1_dim s 0 g)))) (by rw [pF]; exact h)
    rw [pS, pE] at e1 e2 e3 e4
    have q1 : (smrX3_dim s 5 (smrX3_dim s 4 (smrX2_dim s 3 (smrX2_dim s 2 (smrX1_dim s 1 (smrX1_dim s 0 g)))))).myEMF1 4 = (smrX3_dim s 4 (smrX2_dim s 3 (smrX2_dim s 2 (smrX1_dim s 1 (smrX1_dim s 0 g))))).myEMF1 4 := sl5.2.1
    have q2 : (smrX3_dim s 5 (smrX3_dim s 4 (smrX2_dim s 3 (smrX2_dim s 2 (smrX1_dim s 1 (smrX1_dim s 0 g)))))).myEMF2 4 = (smrX3_dim s 4 (smrX2_dim s 3 (smrX2_dim s 2 (smrX1_dim s 1 (smrX1_dim s 0 g))))).myEMF2 4 := sl5.2.2.1
    have q3 : (smrX3_dim s 5 (smrX3_dim s 4 (smrX2_dim s 3 (smrX2_dim s 2 (smrX1_dim s 1 (smrX1_dim s 0 g)))))).myEMF3 4 = (smrX3_dim s 4 (smrX2_dim s 3 (smrX2_dim s 2 (smrX1_dim s 1 (smrX1_dim s 0 g))))).myEMF3 4 := sl5.2.2.2
    refine ⟨fun a b ha hb => ?_, fun a b ha hb => ?_, fun a b hn => ?_, fun a b hn => ?_, ?_⟩
    · rw [q1]; exact e1 a b ha hb
    · rw [q2]; exact e2 a b ha hb
    · rw [q1, e3 a b hn, p1]
    · rw [q2, e4 a b hn, p2]
    · rw [q3, e5, p3]
  ·
    have sl0 := smrX1_dim_slot s 0 5 g (Or.inl (by decide))
    simp only [slotRegs, Prod.mk.injEq] at sl0
    have fr0 := smrX1_dim_frame s 0 g
    have sl1 := smrX1_dim_slot s 1 5 (smrX1_dim s 0 g) (Or.inl (by decide))
    simp only [slotRegs, Prod.mk.injEq] at sl1
    have fr1 := smrX1_dim_frame s 1 (smrX1_dim s 0 g)
    have sl2 := smrX2_dim_slot s 2 5 (smrX1_dim s 1 (smrX1_dim s 0 g)) (Or.inl (by decide))
    simp only [slotRegs, Prod.mk.injEq] at sl2
    have fr2 := smrX2_dim_frame s 2 (smrX1_dim s 1 (smrX1_dim s 0 g))
    have sl3 := smrX2_dim_slot s 3 5 (smrX2_dim s 2 (smrX1_dim s 1 (smrX1_dim s 0 g))) (Or.inl (by decide))
    simp only [slotRegs, Prod.mk.injEq] at sl3
    have fr3 := smrX2_dim_frame s 3 (smrX2_dim s 2 (smrX1_dim s 1 (smrX1_dim s 0 g)))
    have sl4 := smrX3_dim_slot s 4 5 (smrX2_dim s 3 (smrX2_dim s 2 (smrX1_dim s 1 (smrX1_dim s 0 g)))) (Or.inl (by decide))
    simp only [slotRegs, Prod.mk.injEq] at sl4
    have fr4 := smrX3_dim_frame s 4 (smrX2_dim s 3 (smrX2_dim s 2 (smrX1_dim s 1 (smrX1_dim s 0 g))))
    have pF : (smrX3_dim s 4 (smrX2_dim s 3 (smrX2_dim s 2 (smrX1_dim s 1 (smrX1_dim s 0 g))))).myFlx 5 = g.myFlx 5 := ((((sl4.1).trans sl3.1).trans sl2.1).trans sl1.1).trans sl0.1
    have p1 : (smrX3_dim s 4 (smrX2_dim s 3 (smrX2_dim s 2 (smrX1_dim s 1 (smrX1_dim s 0 g))))).myEMF1 5 = g.myEMF1 5 := ((((sl4.2.1).trans sl3.2.1).trans sl2.2.1).trans sl1.2.1).trans sl0.2.1
    have p2 : (smrX3_dim s 4 (smrX2_dim s 3 (smrX2_dim s 2 (smrX1_dim s 1 (smrX1_dim s 0 g))))).myEMF2 5 = g.myEMF2 5 := ((((sl4.2.2.1).trans sl3.2.2.1).trans sl2.2.2.1).trans sl1.2.2.1).trans sl0.2.2.1
    have p3 : (smrX3_dim s 4 (smrX2_dim s 3 (smrX2_dim s 2 (smrX1_dim s 1 (smrX1_dim s 0 g))))).myEMF3 5 = g.myEMF3 5 := ((((sl4.2.2.2).trans sl3.2.2.2).trans sl2.2.2.2).trans sl1.2.2.2).trans sl0.2.2.2
    have pS : (smrX3_dim s 4 (smrX2_dim s 3 (smrX2_dim s 2 (smrX1_dim s 1 (smrX1_dim s 0 g))))).ijks = g.ijks := ((((fr4.1).trans fr3.1).trans fr2.1).trans fr1.1).trans fr0.1
    have pE : (smrX3_dim s 4 (smrX2_dim s 3 (smrX2_dim s 2 (smrX1_dim s 1 (smrX1_dim s 0 g))))).ijke = g.ijke := ((((fr4.2.1).trans fr3.2.1).trans fr2.2.1).trans fr1.2.1).trans fr0.2.1
    obtain ⟨e1, e2, e3, e4, e5⟩ := smrX3_dim_emf s 5 (smrX3_dim s 4 (smrX2_dim s 3 (smrX2_dim s 2 (smrX1_dim s 1 (smrX1_dim s 0 g))))) (by rw [pF]; exact h)
    rw [pS, pE] at e1 e2 e3 e4
    have q1 : (smrX3_dim s 5 (smrX3_dim s 4 (smrX2_dim s 3 (smrX2_dim s 2 (smrX1_dim s 1 (smrX1_dim s 0 g)))))).myEMF1 5 = (smrX3_dim s 5 (smrX3_dim s 4 (smrX2_dim s 3 (smrX2_dim s 2 (smrX1_dim s 1 (smrX1_dim s 0 g)))))).myEMF1 5 := rfl
    have q2 : (smrX3_dim s 5 (smrX3_dim s 4 (smrX2_dim s 3 (smrX2_dim s 2 (smrX1_dim s 1 (smrX1_dim s 0 g)))))).myEMF2 5 = (smrX3_dim s 5 (smrX3_dim s 4 (smrX2_dim s 3 (smrX2_dim s 2 (smrX1_dim s 1 (smrX1_dim s 0 g)))))).myEMF2 5 := rfl
    have q3 : (smrX3_dim s 5 (smrX3_dim s 4 (smrX2_dim s 3 (smrX2_dim s 2 (smrX1_dim s 1 (smrX1_dim s 0 g)))))).myEMF3 5 = (smrX3_dim s 5 (smrX3_dim s 4 (smrX2_dim s 3 (smrX2_dim s 2 (smrX1_dim s 1 (smrX1_dim s 0 g)))))).myEMF3 5 := rfl
    refine ⟨fun a b ha hb => ?_, fun a b ha hb => ?_, fun a b hn => ?_, fun a b hn => ?_, ?_⟩
    · rw [q1]; exact e1 a b ha hb
    · rw [q2]; exact e2 a b ha hb
    · rw [q1, e3 a b hn, p1]
    · rw [q2, e4 a b hn, p2]
    · rw [q3, e5, p3]

/-! ## C11: registers are written exactly for the slots with a flux register -/

/-- C11: register completeness of static mesh refinement. For every child or parent
neighbour `g` of the grid and every face slot `dim`: when `myFlx[dim]` is `NULL`,
`integrate_3d_vl` leaves the flux register and the three EMF registers of the slot
with the contents they had before the call; when `myFlx[dim]` is non-NULL, the flux
register and the two EMF registers of the face hold, at every cell of the face, the
corrector flux and the corner EMFs of the block face. -/
theorem C11_register_completeness (c : Config) (s : State)
    (hsmr : c.STATIC_MESH_REFINEMENT = true)
    (g g' : GridOvrlpS)
    (hg : (∃ n, 0 ≤ n ∧ n < s.pG.NCGrid ∧ g = s.pG.CGrid n ∧
            g' = (integrate_3d_vl c s).pG.CGrid n) ∨
          (∃ n, 0 ≤ n ∧ n < s.pG.NPGrid ∧ g = s.pG.PGrid n ∧
            g' = (integrate_3d_vl c s).pG.PGrid n)) (dim : Int) :
    ((g.myFlx dim).isSome = false → slotRegs g' dim = slotRegs g dim) ∧
    (dim = 0 ∨ dim = 1 → (g.myFlx dim).isSome = true →
      ∀ a b, g.ijks 2 ≤ a ∧ a ≤ g.ijke 2 → g.ijks 1 ≤ b ∧ b ≤ g.ijke 1 →
        regEntry g' dim (a - g.ijks 2) (b - g.ijks 1) =
          some (flxReg1 ((beforeStep11c c s).x1Flux a b (if dim = 0 then g.ijks 0 else g.ijke 0 + 1))) ∧
        g'.myEMF2 dim (a - g.ijks 2) (b - g.ijks 1) =
          (beforeStep11c c s).emf2 a b (if dim = 0 then g.ijks 0 else g.ijke 0 + 1) ∧
        g'.myEMF3 dim (a - g.ijks 2) (b - g.ijks 1) =
          (beforeStep11c c s).emf3 a b (if dim = 0 then g.ijks 0 else g.ijke 0 + 1)) ∧
    (dim = 2 ∨ dim = 3 → (g.myFlx dim).isSome = true →
      ∀ a b, g.ijks 2 ≤ a ∧ a ≤ g.ijke 2 → g.ijks 0 ≤ b ∧ b ≤ g.ijke 0 →
        regEntry g' dim (a - g.ijks 2) (b - g.ijks 0) =
          some (flxReg2 ((beforeStep11c c s).x2Flux a (if dim = 2 then g.ijks 1 else g.ijke 1 + 1) b)) ∧
        g'.myEMF1 dim (a - g.ijks 2) (b - g.ijks 0) =
          (beforeStep11c c s).emf1 a (if dim = 2 then g.ijks 1 else g.ijke 1 + 1) b ∧
        g'.myEMF3 dim (a - g.ijks 2) (b - g.ijks 0) =
          (beforeStep11c c s).emf3 a (if dim = 2 then g.ijks 1 else g.ijke 1 + 1) b) ∧
    (dim = 4 ∨ dim = 5 → (g.myFlx dim).isSome = true →
      ∀ a b, g.ijks 1 ≤ a ∧ a ≤ g.ijke 1 → g.ijks 0 ≤ b ∧ b ≤ g.ijke 0 →
        regEntry g' dim (a - g.ijks 1) (b - g.ijks 0) =
          some (flxReg3 ((beforeStep11c c s).x3Flux (if dim = 4 then g.ijks 2 else g.ijke 2 + 1) a b)) ∧
        g'.myEMF1 dim (a - g.ijks 1) (b - g.ijks 0) =
          (beforeStep11c c s).emf1 (if dim = 4 then g.ijks 2 else g.ijke 2 + 1) a b ∧
        g'.myEMF2 dim (a - g.ijks 1) (b - g.ijks 0) =
          (beforeStep11c c s).emf2 (if dim = 4 then g.ijks 2 else g.ijke 2 + 1) a b) := by
  have hg' : g' = smrGrid (beforeStep11c c s) g := by
    rcases hg with ⟨n, h0, h1, rfl, rfl⟩ | ⟨n, h0, h1, rfl, rfl⟩
    · exact integrate_3d_vl_CGrid c s hsmr n ⟨h0, by omega⟩
    · exact integrate_3d_vl_PGrid c s hsmr n ⟨h0, by omega⟩
  rw [hg']
  refine ⟨fun h => smrGrid_null _ g dim h, ?_, ?_, ?_⟩
  · intro hd h a b ha hb
    obtain ⟨e1, e2, -⟩ := smrGrid_emf_x1 (beforeStep11c c s) g dim hd h
    have k1 := e1 (a - g.ijks 2) (b - g.ijks 1) ⟨by omega, by omega⟩ ⟨by omega, by omega⟩
    have k2 := e2 (a - g.ijks 2) (b - g.ijks 1) ⟨by omega, by omega⟩ ⟨by omega, by omega⟩
    rw [add_sub_cancel, add_sub_cancel] at k1 k2
    exact ⟨smrGrid_entry_x1 _ g dim a b hd h ha hb, k1, k2⟩
  · intro hd h a b ha hb
    obtain ⟨e1, e2, -⟩ := smrGrid_emf_x2 (beforeStep11c c s) g dim hd h
    have k1 := e1 (a - g.ijks 2) (b - g.ijks 0) ⟨by omega, by omega⟩ ⟨by omega, by omega⟩
    have k2 := e2 (a - g.ijks 2) (b - g.ijks 0) ⟨by omega, by omega⟩ ⟨by omega, by omega⟩
    rw [add_sub_cancel, add_sub_cancel] at k1 k2
    exact ⟨smrGrid_entry_x2 _ g dim a b hd h ha hb, k1, k2⟩
  · intro hd h a b ha hb
    obtain ⟨e1, e2, -⟩ := smrGrid_emf_x3 (beforeStep11c c s) g dim hd h
    have k1 := e1 (a - g.ijks 1) (b - g.ijks 0) ⟨by omega, by omega⟩ ⟨by omega, by omega⟩
    have k2 := e2 (a - g.ijks 1) (b - g.ijks 0) ⟨by omega, by omega⟩ ⟨by omega, by omega⟩
    rw [add_sub_cancel, add_sub_cancel] at k1 k2
    exact ⟨smrGrid_entry_x3 _ g dim a b hd h ha hb, k1, k2⟩

/-- C11 on `demoStateSMR`: slot 1 of the child grid has no flux register, and its
registers are as before the call. -/
theorem C11_witness :
    slotRegs ((integrate_3d_vl demoConfig demoStateSMR).pG.CGrid 0) 1 = slotRegs demoOvrlp 1 :=
  (C11_register_completeness demoConfig demoStateSMR rfl demoOvrlp
    ((integrate_3d_vl demoConfig demoStateSMR).pG.CGrid 0)
    (Or.inl ⟨0, by decide, by decide, rfl, rfl⟩) 1).1 rfl

/-! ## C12: the EMF registers cover the edges bounding the face -/

/-- C12: the EMF registers of static mesh refinement cover exactly the edges bounding
the face. For a neighbour `g` and a face slot `dim` with a flux register, after
`integrate_3d_vl`: on an x1-face `myEMF2[dim][kk][jj] = emf2[kcs+kk][jcs+jj][iface]` for
`0 ≤ kk ≤ kce-kcs+1`, `0 ≤ jj ≤ jce-jcs` and `myEMF3[dim][kk][jj] =
emf3[kcs+kk][jcs+jj][iface]` for `0 ≤ kk ≤ kce-kcs`, `0 ≤ jj ≤ jce-jcs+1`; on an x2-face
the same holds for `myEMF1` (one more entry in `k`) and `myEMF3` (one more entry in `i`),
on an x3-face for `myEMF1` (one more entry in `j`) and `myEMF2` (one more entry in `i`).
Entries outside these extents, and the EMF register of the face-normal direction, keep
their contents. The flux register entry of a face cell is the register image of the
corrector flux, whose face-normal field component is 0 and whose tangential components
are the `By`, `Bz` slots under the mapping by which the sweep loads them. -/
theorem C12_emf_registers (c : Config) (s : State) (hsmr : c.STATIC_MESH_REFINEMENT = true)
    (g g' : GridOvrlpS)
    (hg : (∃ n, 0 ≤ n ∧ n < s.pG.NCGrid ∧ g = s.pG.CGrid n ∧
            g' = (integrate_3d_vl c s).pG.CGrid n) ∨
          (∃ n, 0 ≤ n ∧ n < s.pG.NPGrid ∧ g = s.pG.PGrid n ∧
            g' = (integrate_3d_vl c s).pG.PGrid n)) (dim : Int)
    (h : (g.myFlx dim).isSome = true) :
    (dim = 0 ∨ dim = 1 →
      (∀ a b, 0 ≤ a ∧ a ≤ g.ijke 2 - g.ijks 2 + 1 → 0 ≤ b ∧ b ≤ g.ijke 1 - g.ijks 1 →
        g'.myEMF2 dim a b =
          (beforeStep11c c s).emf2 (g.ijks 2 + a) (g.ijks 1 + b) (if dim = 0 then g.ijks 0 else g.ijke 0 + 1)) ∧
      (∀ a b, 0 ≤ a ∧ a ≤ g.ijke 2 - g.ijks 2 → 0 ≤ b ∧ b ≤ g.ijke 1 - g.ijks 1 + 1 →
        g'.myEMF3 dim a b =
          (beforeStep11c c s).emf3 (g.ijks 2 + a) (g.ijks 1 + b) (if dim = 0 then g.ijks 0 else g.ijke 0 + 1)) ∧
      (∀ a b, ¬ (0 ≤ a ∧ a ≤ g.ijke 2 - g.ijks 2 + 1 ∧ 0 ≤ b ∧ b ≤ g.ijke 1 - g.ijks 1) →
        g'.myEMF2 dim a b = g.myEMF2 dim a b) ∧
      (∀ a b, ¬ (0 ≤ a ∧ a ≤ g.ijke 2 - g.ijks 2 ∧ 0 ≤ b ∧ b ≤ g.ijke 1 - g.ijks 1 + 1) →
        g'.myEMF3 dim a b = g.myEMF3 dim a b) ∧
      g'.myEMF1 dim = g.myEMF1 dim ∧
      (∀ a b, 0 ≤ a ∧ a ≤ g.ijke 2 - g.ijks 2 → 0 ≤ b ∧ b ≤ g.ijke 1 - g.ijks 1 →
        regEntry g' dim a b =
          some (flxReg1 ((beforeStep11c c s).x1Flux (g.ijks 2 + a) (g.ijks 1 + b) (if dim = 0 then g.ijks 0 else g.ijke 0 + 1))))) ∧
    (dim = 2 ∨ dim = 3 →
      (∀ a b, 0 ≤ a ∧ a ≤ g.ijke 2 - g.ijks 2 + 1 → 0 ≤ b ∧ b ≤ g.ijke 0 - g.ijks 0 →
        g'.myEMF1 dim a b =
          (beforeStep11c c s).emf1 (g.ijks 2 + a) (if dim = 2 then g.ijks 1 else g.ijke 1 + 1) (g.ijks 0 + b)) ∧
      (∀ a b, 0 ≤ a ∧ a ≤ g.ijke 2 - g.ijks 2 → 0 ≤ b ∧ b ≤ g.ijke 0 - g.ijks 0 + 1 →
        g'.myEMF3 dim a b =
          (beforeStep11c c s).emf3 (g.ijks 2 + a) (if dim = 2 then g.ijks 1 else g.ijke 1 + 1) (g.ijks 0 + b)) ∧
      (∀ a b, ¬ (0 ≤ a ∧ a ≤ g.ijke 2 - g.ijks 2 + 1 ∧ 0 ≤ b ∧ b ≤ g.ijke 0 - g.ijks 0) →
        g'.myEMF1 dim a b = g.myEMF1 dim a b) ∧
      (∀ a b, ¬ (0 ≤ a ∧ a ≤ g.ijke 2 - g.ijks 2 ∧ 0 ≤ b ∧ b ≤ g.ijke 0 - g.ijks 0 + 1) →
        g'.myEMF3 dim a b = g.myEMF3 dim a b) ∧
      g'.myEMF2 dim = g.myEMF2 dim ∧
      (∀ a b, 0 ≤ a ∧ a ≤ g.ijke 2 - g.ijks 2 → 0 ≤ b ∧ b ≤ g.ijke 0 - g.ijks 0 →
        regEntry g' dim a b =
          some (flxReg2 ((beforeStep11c c s).x2Flux (g.ijks 2 + a) (if dim = 2 then g.ijks 1 else g.ijke 1 + 1) (g.ijks 0 + b))))) ∧
    (dim = 4 ∨ dim = 5 →
      (∀ a b, 0 ≤ a ∧ a ≤ g.ijke 1 - g.ijks 1 + 1 → 0 ≤ b ∧ b ≤ g.ijke 0 - g.ijks 0 →
        g'.myEMF1 dim a b =
          (beforeStep11c c s).emf1 (if dim = 4 then g.ijks 2 else g.ijke 2 + 1) (g.ijks 1 + a) (g.ijks 0 + b)) ∧
      (∀ a b, 0 ≤ a ∧ a ≤ g.ijke 1 - g.ijks 1 → 0 ≤ b ∧ b ≤ g.ijke 0 - g.ijks 0 + 1 →
        g'.myEMF2 dim a b =
          (beforeStep11c c s).emf2 (if dim = 4 then g.ijks 2 else g.ijke 2 + 1) (g.ijks 1 + a) (g.ijks 0 + b)) ∧
      (∀ a b, ¬ (0 ≤ a ∧ a ≤ g.ijke 1 - g.ijks 1 + 1 ∧ 0 ≤ b ∧ b ≤ g.ijke 0 - g.ijks 0) →
        g'.myEMF1 dim a b = g.myEMF1 dim a b) ∧
      (∀ a b, ¬ (0 ≤ a ∧ a ≤ g.ijke 1 - g.ijks 1 ∧ 0 ≤ b ∧ b ≤ g.ijke 0 - g.ijks 0 + 1) →
        g'.myEMF2 dim a b = g.myEMF2 dim a b) ∧
      g'.myEMF3 dim = g.myEMF3 dim ∧
      (∀ a b, 0 ≤ a ∧ a ≤ g.ijke 1 - g.ijks 1 → 0 ≤ b ∧ b ≤ g.ijke 0 - g.ijks 0 →
        regEntry g' dim a b =
          some (flxReg3 ((beforeStep11c c s).x3Flux (if dim = 4 then g.ijks 2 else g.ijke 2 + 1) (g.ijks 1 + a) (g.ijks 0 + b))))) ∧
    (∀ f : Cons1D,
      ((flxReg1 f).B1c = 0 ∧ (flxReg1 f).B2c = f.By ∧ (flxReg1 f).B3c = f.Bz) ∧
      ((flxReg2 f).B1c = f.Bz ∧ (flxReg2 f).B2c = 0 ∧ (flxReg2 f).B3c = f.By) ∧
      ((flxReg3 f).B1c = f.By ∧ (flxReg3 f).B2c = f.Bz ∧ (flxReg3 f).B3c = 0)) ∧
    (∀ u : Gas,
      ((flxReg1 (load1 u)).B2c = u.B2c ∧ (flxReg1 (load1 u)).B3c = u.B3c) ∧
      ((flxReg2 (load2 u)).B1c = u.B1c ∧ (flxReg2 (load2 u)).B3c = u.B3c) ∧
      ((flxReg3 (load3 u)).B1c = u.B1c ∧ (flxReg3 (load3 u)).B2c = u.B2c)) := by
  have hg' : g' = smrGrid (beforeStep11c c s) g := by
    rcases hg with ⟨n, h0, h1, rfl, rfl⟩ | ⟨n, h0, h1, rfl, rfl⟩
    · exact integrate_3d_vl_CGrid c s hsmr n ⟨h0, by omega⟩
    · exact integrate_3d_vl_PGrid c s hsmr n ⟨h0, by omega⟩
  rw [hg']
  refine ⟨?_, ?_, ?_, fun f => ⟨⟨rfl, rfl, rfl⟩, ⟨rfl, rfl, rfl⟩, ⟨rfl, rfl, rfl⟩⟩,
    fun u => ⟨⟨rfl, rfl⟩, ⟨rfl, rfl⟩, ⟨rfl, rfl⟩⟩⟩
  · intro hd
    obtain ⟨e1, e2, e3, e4, e5⟩ := smrGrid_emf_x1 (beforeStep11c c s) g dim hd h
    refine ⟨e1, e2, e3, e4, e5, fun a b ha hb => ?_⟩
    have k := smrGrid_entry_x1 (beforeStep11c c s) g dim (g.ijks 2 + a) (g.ijks 1 + b) hd h
      ⟨by omega, by omega⟩ ⟨by omega, by omega⟩
    rwa [add_sub_cancel_left, add_sub_cancel_left] at k
  · intro hd
    obtain ⟨e1, e2, e3, e4, e5⟩ := smrGrid_emf_x2 (beforeStep11c c s) g dim hd h
    refine ⟨e1, e2, e3, e4, e5, fun a b ha hb => ?_⟩
    have k := smrGrid_entry_x2 (beforeStep11c c s) g dim (g.ijks 2 + a) (g.ijks 0 + b) hd h
      ⟨by omega, by omega⟩ ⟨by omega, by omega⟩
    rwa [add_sub_cancel_left, add_sub_cancel_left] at k
  · intro hd
    obtain ⟨e1, e2, e3, e4, e5⟩ := smrGrid_emf_x3 (beforeStep11c c s) g dim hd h
    refine ⟨e1, e2, e3, e4, e5, fun a b ha hb => ?_⟩
    have k := smrGrid_entry_x3 (beforeStep11c c s) g dim (g.ijks 1 + a) (g.ijks 0 + b) hd h
      ⟨by omega, by omega⟩ ⟨by omega, by omega⟩
    rwa [add_sub_cancel_left, add_sub_cancel_left] at k

/-- C12 on `demoStateSMR`: the entry `[1][0]` of `myEMF2[0]` of the child grid, one
beyond the face cells in `k`, holds the corner EMF of the edge at `k = 1`. -/
theorem C12_witness :
    ((integrate_3d_vl demoConfig demoStateSMR).pG.CGrid 0).myEMF2 0 1 0 =
      (beforeStep11c demoConfig demoStateSMR).emf2 (demoOvrlp.ijks 2 + 1)
        (demoOvrlp.ijks 1 + 0) (if (0 : Int) = 0 then demoOvrlp.ijks 0 else demoOvrlp.ijke 0 + 1) :=
  ((C12_emf_registers demoConfig demoStateSMR rfl demoOvrlp
    ((integrate_3d_vl demoConfig demoStateSMR).pG.CGrid 0)
    (Or.inl ⟨0, by decide, by decide, rfl, rfl⟩) 0 rfl).1 (Or.inl rfl)).1 1 0
    ⟨by decide, by decide⟩ ⟨by decide, by decide⟩

/-! ## C13: the mass fluxes saved for self-gravity -/

/-- The loop that saves the mass fluxes stores, at every index it visits, the density
components of the three flux arrays. -/
theorem stepMassFlux_hit (l : Locals) (s : State) (k0 j0 i0 : Int)
    (hk : l.ks ≤ k0 ∧ k0 ≤ l.ke + 1) (hj : l.js ≤ j0 ∧ j0 ≤ l.je + 1)
    (hi : l.is ≤ i0 ∧ i0 ≤ l.ie + 1) :
    (stepMassFlux l s).pG.x1MassFlux k0 j0 i0 = (s.x1Flux k0 j0 i0).d ∧
    (stepMassFlux l s).pG.x2MassFlux k0 j0 i0 = (s.x2Flux k0 j0 i0).d ∧
    (stepMassFlux l s).pG.x3MassFlux k0 j0 i0 = (s.x3Flux k0 j0 i0).d := by
  let obs : State → (Arr3 Cons1D × Arr3 Cons1D × Arr3 Cons1D) × (ℚ × ℚ × ℚ) := fun t =>
    ((t.x1Flux, t.x2Flux, t.x3Flux),
      (t.pG.x1MassFlux k0 j0 i0, t.pG.x2MassFlux k0 j0 i0, t.pG.x3MassFlux k0 j0 i0))
  let G : (Arr3 Cons1D × Arr3 Cons1D × Arr3 Cons1D) × (ℚ × ℚ × ℚ) →
      (Arr3 Cons1D × Arr3 Cons1D × Arr3 Cons1D) × (ℚ × ℚ × ℚ) := fun v =>
    (v.1, ((v.1.1 k0 j0 i0).d, (v.1.2.1 k0 j0 i0).d, (v.1.2.2 k0 j0 i0).d))
  have key : obs (stepMassFlux l s) = G (obs s) := by
    unfold stepMassFlux
    refine forLoop3_hit obs _ _ _ _ _ _ k0 j0 i0 _ G hk hj hi ?_ ?_ s
    · intro t
      simp only [obs, G, set3, and_self, if_true]
    · intro k j i t _ _ _ _ _ _ hne
      simp only [obs, set3, hne, if_false]
  simp only [obs, G, Prod.mk.injEq] at key
  exact ⟨key.2.1, key.2.2.1, key.2.2.2⟩

/-- C13: the mass fluxes are retained for self-gravity. With `SELF_GRAVITY`, after
`integrate_3d_vl`, for every `ks ≤ k ≤ ke+1`, `js ≤ j ≤ je+1`, `is ≤ i ≤ ie+1` the
arrays `pG->x1MassFlux`, `pG->x2MassFlux` and `pG->x3MassFlux` hold at `[k][j][i]` the
density components of the corrector's `x1Flux`, `x2Flux` and `x3Flux` at that index. -/
theorem C13_mass_fluxes_retained (c : Config) (s : State) (hsg : c.SELF_GRAVITY = true)
    (k j i : Int)
    (hk : (locals c s.pG).ks ≤ k ∧ k ≤ (locals c s.pG).ke + 1)
    (hj : (locals c s.pG).js ≤ j ∧ j ≤ (locals c s.pG).je + 1)
    (hi : (locals c s.pG).is ≤ i ∧ i ≤ (locals c s.pG).ie + 1) :
    (integrate_3d_vl c s).pG.x1MassFlux k j i = ((beforeStep11c c s).x1Flux k j i).d ∧
    (integrate_3d_vl c s).pG.x2MassFlux k j i = ((beforeStep11c c s).x2Flux k j i).d ∧
    (integrate_3d_vl c s).pG.x3MassFlux k j i = ((beforeStep11c c s).x3Flux k j i).d := by
  rw [integrate_3d_vl_eq]
  obtain ⟨a, b, hS⟩ := stepSMR_writes c (step13e (locals c s.pG) (step13 (locals c s.pG)
      (step12b c (locals c s.pG) (step12a c (locals c s.pG)
        (step11c (locals c s.pG) (beforeStep11c c s))))))
  rw [hS, step13e_eq, step13_eq]
  simp only [lensU]
  obtain ⟨B1, B2, B3, h1⟩ := step11c_frame (locals c s.pG) (beforeStep11c c s)
  obtain ⟨U2, h2⟩ := step12a_writes c (locals c s.pG) (step11c (locals c s.pG) (beforeStep11c c s))
  unfold step12b
  simp only [hsg, if_true]
  rw [step12b3_eq, step12b2_eq, step12b1_eq]
  simp only [lensU]
  rw [h2, h1]
  exact stepMassFlux_hit (locals c s.pG) _ k j i hk hj hi

/-- C13 on `demoState` with self-gravity on: the mass fluxes at the corner index
`(1, 1, 1) = (ke+1, je+1, ie+1)`. -/
theorem C13_witness :
    (integrate_3d_vl demoConfigSG demoState).pG.x1MassFlux 1 1 1 =
        ((beforeStep11c demoConfigSG demoState).x1Flux 1 1 1).d ∧
    (integrate_3d_vl demoConfigSG demoState).pG.x2MassFlux 1 1 1 =
        ((beforeStep11c demoConfigSG demoState).x2Flux 1 1 1).d ∧
    (integrate_3d_vl demoConfigSG demoState).pG.x3MassFlux 1 1 1 =
        ((beforeStep11c demoConfigSG demoState).x3Flux 1 1 1).d :=
  C13_mass_fluxes_retained demoConfigSG demoState rfl 1 1 1
    ⟨by decide, by decide⟩ ⟨by decide, by decide⟩ ⟨by decide, by decide⟩

/-! ## C14: the sizes of the scratch arrays -/

theorem scanGrid_none (d : DomainS) (z : Sizes) (h : d.Grid = none) : scanGrid d z = z := by
  unfold scanGrid
  rw [h]

/-- The three comparisons for one grid, in closed form. -/
theorem scanGrid_some (d : DomainS) (z : Sizes) (Nx : Arr1 Int) (h : d.Grid = some Nx) :
    scanGrid d z =
      { size1 := if Nx 0 > z.size1 then Nx 0 else z.size1,
        size2 := if Nx 1 > z.size2 then Nx 1 else z.size2,
        size3 := if Nx 2 > z.size3 then Nx 2 else z.size3 } := by
  unfold scanGrid
  rw [h]
  simp only
  split_ifs <;> rfl

/-- One grid never lowers the running maxima. -/
theorem scanGrid_mono (d : DomainS) (z : Sizes) :
    z.size1 ≤ (scanGrid d z).size1 ∧ z.size2 ≤ (scanGrid d z).size2 ∧
      z.size3 ≤ (scanGrid d z).size3 := by
  cases hG : d.Grid with
  | none => rw [scanGrid_none d z hG]; exact ⟨le_refl _, le_refl _, le_refl _⟩
  | some Nx =>
    rw [scanGrid_some d z Nx hG]
    simp only
    refine ⟨?_, ?_, ?_⟩ <;> split_ifs <;> omega

/-- One grid raises the running maxima to its cell counts. -/
theorem scanGrid_ge (d : DomainS) (z : Sizes) (Nx : Arr1 Int) (h : d.Grid = some Nx) :
    Nx 0 ≤ (scanGrid d z).size1 ∧ Nx 1 ≤ (scanGrid d z).size2 ∧
      Nx 2 ≤ (scanGrid d z).size3 := by
  rw [scanGrid_some d z Nx h]
  simp only
  refine ⟨?_, ?_, ?_⟩ <;> split_ifs <;> omega

/-- After one grid each running maximum is what it was or a cell count of the grid. -/
theorem scanGrid_mem (d : DomainS) (z : Sizes) :
    ((scanGrid d z).size1 = z.size1 ∨ ∃ Nx, d.Grid = some Nx ∧ (scanGrid d z).size1 = Nx 0) ∧
    ((scanGrid d z).size2 = z.size2 ∨ ∃ Nx, d.Grid = some Nx ∧ (scanGrid d z).size2 = Nx 1) ∧
    ((scanGrid d z).size3 = z.size3 ∨ ∃ Nx, d.Grid = some Nx ∧ (scanGrid d z).size3 = Nx 2) := by
  cases hG : d.Grid with
  | none => rw [scanGrid_none d z hG]; exact ⟨Or.inl rfl, Or.inl rfl, Or.inl rfl⟩
  | some Nx =>
    rw [scanGrid_some d z Nx hG]
    simp only
    refine ⟨?_, ?_, ?_⟩ <;> split_ifs
    all_goals first
      | exact Or.inl rfl
      | exact Or.inr ⟨Nx, rfl, rfl⟩

/-- The running maxima end at or above the cell counts of every grid of the mesh. -/
theorem scanMesh_ge (pM : MeshS) (nl nd : Int) (Nx : Arr1 Int)
    (hl : 0 ≤ nl ∧ nl < pM.NLevels) (hd : 0 ≤ nd ∧ nd < pM.DomainsPerLevel nl)
    (h : (pM.Domain nl nd).Grid = some Nx) :
    Nx 0 ≤ (scanMesh pM).size1 ∧ Nx 1 ≤ (scanMesh pM).size2 ∧ Nx 2 ≤ (scanMesh pM).size3 := by
  let Q : Sizes → Prop := fun z => Nx 0 ≤ z.size1 ∧ Nx 1 ≤ z.size2 ∧ Nx 2 ≤ z.size3
  have keep : ∀ d z, Q z → Q (scanGrid d z) := by
    intro d z hq
    have m := scanGrid_mono d z
    exact ⟨le_trans hq.1 m.1, le_trans hq.2.1 m.2.1, le_trans hq.2.2 m.2.2⟩
  unfold scanMesh
  refine forLoop_establish (fun _ => True) Q 0 (pM.NLevels - 1) nl
    (fun nl z => forLoop 0 (pM.DomainsPerLevel nl - 1)
      (fun nd z => scanGrid (pM.Domain nl nd) z) z)
    hl.1 (by omega) (fun _ _ _ _ _ => trivial) ?_ ?_ _ trivial
  · intro z _
    refine forLoop_establish (fun _ => True) Q 0 (pM.DomainsPerLevel nl - 1) nd
      (fun nd z => scanGrid (pM.Domain nl nd) z)
      hd.1 (by omega) (fun _ _ _ _ _ => trivial) ?_ ?_ z trivial
    · intro z _
      exact scanGrid_ge _ z Nx h
    · intro m z _ _ _ _ hq
      exact keep _ z hq
  · intro m z _ _ _ _ hq
    exact forLoop_inv Q 0 (pM.DomainsPerLevel m - 1)
      (fun nd z => scanGrid (pM.Domain m nd) z) (fun nd z _ _ hq => keep _ z hq) z hq

/-- Each running maximum ends at 0 or at the cell count of a grid of the mesh. -/
theorem scanMesh_mem (pM : MeshS) :
    ((scanMesh pM).size1 = 0 ∨ ∃ nl nd Nx, (0 ≤ nl ∧ nl < pM.NLevels) ∧
      (0 ≤ nd ∧ nd < pM.DomainsPerLevel nl) ∧ (pM.Domain nl nd).Grid = some Nx ∧
      (scanMesh pM).size1 = Nx 0) ∧
    ((scanMesh pM).size2 = 0 ∨ ∃ nl nd Nx, (0 ≤ nl ∧ nl < pM.NLevels) ∧
      (0 ≤ nd ∧ nd < pM.DomainsPerLevel nl) ∧ (pM.Domain nl nd).Grid = some Nx ∧
      (scanMesh pM).size2 = Nx 1) ∧
    ((scanMesh pM).size3 = 0 ∨ ∃ nl nd Nx, (0 ≤ nl ∧ nl < pM.NLevels) ∧
      (0 ≤ nd ∧ nd < pM.DomainsPerLevel nl) ∧ (pM.Domain nl nd).Grid = some Nx ∧
      (scanMesh pM).size3 = Nx 2) := by
  let R : Sizes → Prop := fun z =>
    (z.size1 = 0 ∨ ∃ nl nd Nx, (0 ≤ nl ∧ nl < pM.NLevels) ∧
      (0 ≤ nd ∧ nd < pM.DomainsPerLevel nl) ∧ (pM.Domain nl nd).Grid = some Nx ∧
      z.size1 = Nx 0) ∧
    (z.size2 = 0 ∨ ∃ nl nd Nx, (0 ≤ nl ∧ nl < pM.NLevels) ∧
      (0 ≤ nd ∧ nd < pM.DomainsPerLevel nl) ∧ (pM.Domain nl nd).Grid = some Nx ∧
      z.size2 = Nx 1) ∧
    (z.size3 = 0 ∨ ∃ nl nd Nx, (0 ≤ nl ∧ nl < pM.NLevels) ∧
      (0 ≤ nd ∧ nd < pM.DomainsPerLevel nl) ∧ (pM.Domain nl nd).Grid = some Nx ∧
      z.size3 = Nx 2)
  have step : ∀ nl nd z, (0 ≤ nl ∧ nl < pM.NLevels) → (0 ≤ nd ∧ nd < pM.DomainsPerLevel nl) →
      R z → R (scanGrid (pM.Domain nl nd) z) := by
    intro nl nd z hl hd hr
    obtain ⟨m1, m2, m3⟩ := scanGrid_mem (pM.Domain nl nd) z
    refine ⟨?_, ?_, ?_⟩
    · rcases m1 with e | ⟨Nx, hG, e⟩
      · rw [e]; exact hr.1
      · exact Or.inr ⟨nl, nd, Nx, hl, hd, hG, e⟩
    · rcases m2 with e | ⟨Nx, hG, e⟩
      · rw [e]; exact hr.2.1
      · exact Or.inr ⟨nl, nd, Nx, hl, hd, hG, e⟩
    · rcases m3 with e | ⟨Nx, hG, e⟩
      · rw [e]; exact hr.2.2
      · exact Or.inr ⟨nl, nd, Nx, hl, hd, hG, e⟩
  have main : R (scanMesh pM) := by
    unfold scanMesh
    refine forLoop_inv R 0 (pM.NLevels - 1)
      (fun nl z => forLoop 0 (pM.DomainsPerLevel nl - 1)
        (fun nd z => scanGrid (pM.Domain nl nd) z) z) ?_ _ ⟨Or.inl rfl, Or.inl rfl, Or.inl rfl⟩
    intro nl z a b hr
    exact forLoop_inv R 0 (pM.DomainsPerLevel nl - 1)
      (fun nd z => scanGrid (pM.Domain nl nd) z)
      (fun nd z a' b' hr => step nl nd z ⟨a, by omega⟩ ⟨a', by omega⟩ hr) z hr
  exact main

/-- The running maxima start at 0 and never fall below it. -/
theorem scanMesh_nonneg (pM : MeshS) :
    0 ≤ (scanMesh pM).size1 ∧ 0 ≤ (scanMesh pM).size2 ∧ 0 ≤ (scanMesh pM).size3 := by
  let Q : Sizes → Prop := fun z => 0 ≤ z.size1 ∧ 0 ≤ z.size2 ∧ 0 ≤ z.size3
  have keep : ∀ d z, Q z → Q (scanGrid d z) := by
    intro d z hq
    have m := scanGrid_mono d z
    exact ⟨le_trans hq.1 m.1, le_trans hq.2.1 m.2.1, le_trans hq.2.2 m.2.2⟩
  unfold scanMesh
  refine forLoop_inv Q 0 (pM.NLevels - 1)
    (fun nl z => forLoop 0 (pM.DomainsPerLevel nl - 1)
      (fun nd z => scanGrid (pM.Domain nl nd) z) z) ?_ _ ⟨le_refl _, le_refl _, le_refl _⟩
  intro nl z _ _ hq
  exact forLoop_inv Q 0 (pM.DomainsPerLevel nl - 1)
    (fun nd z => scanGrid (pM.Domain nl nd) z) (fun nd z _ _ hq => keep _ z hq) z hq

/-- When every allocation succeeds, all are made and the function returns. -/
theorem runAllocs_all (ok : Buf → Bool) (reqs : List (Buf × Request)) (done : List Event)
    (h : ∀ p ∈ reqs, ok p.1 = true) :
    runAllocs ok reqs done =
      { trace := done ++ reqs.map (fun p => Event.alloc p.1 p.2), returned := true } := by
  induction reqs generalizing done with
  | nil => simp [runAllocs]
  | cons p rest ih =>
    obtain ⟨b, r⟩ := p
    have hb : ok b = true := h (b, r) (List.mem_cons_self _ _)
    simp only [runAllocs, hb, if_true]
    rw [ih _ (fun q hq => h q (List.mem_cons_of_mem _ hq))]
    simp

/-- At the first allocation that fails, nothing more is allocated:
`integrate_destruct` and `ath_error` are called and the function does not return. -/
theorem runAllocs_fail (ok : Buf → Bool) (pre post : List (Buf × Request)) (b : Buf)
    (r : Request) (done : List Event) (hpre : ∀ p ∈ pre, ok p.1 = true) (hb : ok b = false) :
    runAllocs ok (pre ++ (b, r) :: post) done =
      { trace := done ++ pre.map (fun p => Event.alloc p.1 p.2) ++
          [Event.alloc b r, Event.integrate_destruct,
            Event.ath_error "[integrate_init]: malloc returned a NULL pointer\n"],
        returned := false } := by
  induction pre generalizing done with
  | nil => simp [runAllocs, hb]
  | cons p rest ih =>
    obtain ⟨b', r'⟩ := p
    have hb' : ok b' = true := hpre (b', r') (List.mem_cons_self _ _)
    have e : runAllocs ok ((b', r') :: rest ++ (b, r) :: post) done =
        runAllocs ok (rest ++ (b, r) :: post) (done ++ [Event.alloc b' r']) := by
      simp only [List.cons_append, runAllocs, hb', if_true]
      rfl
    rw [e, ih _ (fun q hq => hpre q (List.mem_cons_of_mem _ hq))]
    simp

/-- The function returns exactly when no allocation fails. -/
theorem runAllocs_returned (ok : Buf → Bool) (reqs : List (Buf × Request))
    (done : List Event) :
    (runAllocs ok reqs done).returned = true ↔ ∀ p ∈ reqs, ok p.1 = true := by
  induction reqs generalizing done with
  | nil => simp [runAllocs]
  | cons p rest ih =>
    obtain ⟨b, r⟩ := p
    by_cases hb : ok b = true
    · simp only [runAllocs, hb, if_true, List.mem_cons, forall_eq_or_imp, true_and]
      exact ih _
    · simp only [runAllocs, hb, if_false, List.mem_cons, forall_eq_or_imp, false_and]
      simp

/-- Every allocation made is one of the list. -/
theorem runAllocs_mem (ok : Buf → Bool) (reqs : List (Buf × Request)) (done : List Event)
    (b : Buf) (r : Request) (h : Event.alloc b r ∈ (runAllocs ok reqs done).trace) :
    Event.alloc b r ∈ done ∨ (b, r) ∈ reqs := by
  induction reqs generalizing done with
  | nil => exact Or.inl (by simpa [runAllocs] using h)
  | cons p rest ih =>
    obtain ⟨b', r'⟩ := p
    by_cases hb : ok b' = true
    · simp only [runAllocs, hb, if_true] at h
      rcases ih _ h with h1 | h1
      · rcases List.mem_append.1 h1 with h2 | h2
        · exact Or.inl h2
        · simp only [List.mem_singleton, Event.alloc.injEq] at h2
          exact Or.inr (by rw [h2.1, h2.2]; exact List.mem_cons_self _ _)
      · exact Or.inr (List.mem_cons_of_mem _ h1)
    · simp only [runAllocs, hb, if_false] at h
      rcases List.mem_append.1 h with h2 | h2
      · exact Or.inl h2
      · simp only [List.mem_cons, Event.alloc.injEq, List.mem_singleton, reduceCtorEq,
          or_false, List.not_mem_nil] at h2
        exact Or.inr (by rw [h2.1, h2.2]; exact List.mem_cons_self _ _)

/-- Every allocation of the list for a 1D scratch vector asks for `nmax` elements, and
every other one for a 3D array of extents `(size3, size2, size1)`. -/
theorem initRequests_shape (c : Config) (pM : MeshS) (b : Buf) (r : Request)
    (h : (b, r) ∈ initRequests c pM) :
    (b.isLine = true → ∃ t, r = Request.malloc (initNmax c pM) t) ∧
    (b.isLine = false → ∃ t, r = Request.calloc_3d_array (initSizes c pM).size3
      (initSizes c pM).size2 (initSizes c pM).size1 t) := by
  unfold initRequests at h
  simp only [List.mem_append, List.mem_cons, Prod.mk.injEq, List.mem_singleton,
    List.not_mem_nil, or_false] at h
  have fin : ∀ (b0 : Buf) (r0 : Request), b = b0 ∧ r = r0 →
      ((b0.isLine = true → ∃ t, r0 = Request.malloc (initNmax c pM) t) ∧
       (b0.isLine = false → ∃ t, r0 = Request.calloc_3d_array (initSizes c pM).size3
        (initSizes c pM).size2 (initSizes c pM).size1 t)) →
      ((b.isLine = true → ∃ t, r = Request.malloc (initNmax c pM) t) ∧
       (b.isLine = false → ∃ t, r = Request.calloc_3d_array (initSizes c pM).size3
        (initSizes c pM).size2 (initSizes c pM).size1 t)) := by
    rintro b0 r0 ⟨rfl, rfl⟩ hh
    exact hh
  have a3 : ∀ (b0 : Buf) (t : Elt), b0.isLine = false →
      ((b0.isLine = true → ∃ t', Request.calloc_3d_array (initSizes c pM).size3
          (initSizes c pM).size2 (initSizes c pM).size1 t = Request.malloc (initNmax c pM) t') ∧
       (b0.isLine = false → ∃ t', Request.calloc_3d_array (initSizes c pM).size3
          (initSizes c pM).size2 (initSizes c pM).size1 t =
        Request.calloc_3d_array (initSizes c pM).size3
          (initSizes c pM).size2 (initSizes c pM).size1 t')) := by
    intro b0 t hl
    exact ⟨fun h' => by rw [hl] at h'; exact absurd h' (by decide), fun _ => ⟨t, rfl⟩⟩
  have a1 : ∀ (b0 : Buf) (t : Elt), b0.isLine = true →
      ((b0.isLine = true → ∃ t', Request.malloc (initNmax c pM) t =
          Request.malloc (initNmax c pM) t') ∧
       (b0.isLine = false → ∃ t', Request.malloc (initNmax c pM) t =
        Request.calloc_3d_array (initSizes c pM).size3
          (initSizes c pM).size2 (initSizes c pM).size1 t')) := by
    intro b0 t hl
    exact ⟨fun _ => ⟨t, rfl⟩, fun h' => by rw [hl] at h'; exact absurd h' (by decide)⟩
  rcases h with (h | h) | h
  · rcases h with h | h | h | h | h | h <;> exact fin _ _ h (a3 _ _ rfl)
  · split_ifs at h
    · simp only [List.mem_cons, Prod.mk.injEq, List.mem_singleton, List.not_mem_nil,
        or_false] at h
      rcases h with h | h | h <;> exact fin _ _ h (a3 _ _ rfl)
    · exact absurd h (List.not_mem_nil _)
  · rcases h with h | h | h | h | h | h | h | h | h | h | h | h | h | h | h | h | h | h |
      h | h | h
    all_goals first
      | exact fin _ _ h (a3 _ _ rfl)
      | exact fin _ _ h (a1 _ _ rfl)

/-- C14: the scratch buffers are sized to the largest block. In `integrate_init_3d`,
for each direction `d`, `size_d` is at least `Nx[d] + 2*nghost` for every grid of the
mesh, and `size_d - 2*nghost` is 0 or the `Nx[d]` of a grid of the mesh: it is the
largest of 0 and the cell counts of the grids. When the mesh has a grid and no grid has
a negative cell count, `size_d = Nx[d] + 2*nghost` for at least one grid. `nmax` is the
largest of `size1`, `size2`, `size3`; every allocation the function makes for a 1D
scratch vector asks for `nmax` elements and every other one for a 3D array of extents
`(size3, size2, size1)`, and when no allocation fails every scratch pointer of the
configuration is allocated. -/
theorem C14_scratch_sizing (c : Config) (pM : MeshS) (ok : Buf → Bool) :
    (∀ nl nd Nx, pM.hasGrid nl nd Nx →
      Nx 0 + 2 * c.nghost ≤ (initSizes c pM).size1 ∧
      Nx 1 + 2 * c.nghost ≤ (initSizes c pM).size2 ∧
      Nx 2 + 2 * c.nghost ≤ (initSizes c pM).size3) ∧
    (((initSizes c pM).size1 = 0 + 2 * c.nghost ∨ ∃ nl nd Nx, pM.hasGrid nl nd Nx ∧
        (initSizes c pM).size1 = Nx 0 + 2 * c.nghost) ∧
     ((initSizes c pM).size2 = 0 + 2 * c.nghost ∨ ∃ nl nd Nx, pM.hasGrid nl nd Nx ∧
        (initSizes c pM).size2 = Nx 1 + 2 * c.nghost) ∧
     ((initSizes c pM).size3 = 0 + 2 * c.nghost ∨ ∃ nl nd Nx, pM.hasGrid nl nd Nx ∧
        (initSizes c pM).size3 = Nx 2 + 2 * c.nghost)) ∧
    (0 + 2 * c.nghost ≤ (initSizes c pM).size1 ∧ 0 + 2 * c.nghost ≤ (initSizes c pM).size2 ∧
      0 + 2 * c.nghost ≤ (initSizes c pM).size3) ∧
    ((∀ nl nd Nx, pM.hasGrid nl nd Nx → 0 ≤ Nx 0 ∧ 0 ≤ Nx 1 ∧ 0 ≤ Nx 2) →
      (∃ nl nd Nx, pM.hasGrid nl nd Nx) →
      (∃ nl nd Nx, pM.hasGrid nl nd Nx ∧ (initSizes c pM).size1 = Nx 0 + 2 * c.nghost) ∧
      (∃ nl nd Nx, pM.hasGrid nl nd Nx ∧ (initSizes c pM).size2 = Nx 1 + 2 * c.nghost) ∧
      (∃ nl nd Nx, pM.hasGrid nl nd Nx ∧ (initSizes c pM).size3 = Nx 2 + 2 * c.nghost)) ∧
    initNmax c pM =
      max (max (initSizes c pM).size1 (initSizes c pM).size2) (initSizes c pM).size3 ∧
    (∀ b r, Event.alloc b r ∈ (integrate_init_3d c pM ok).trace →
      (b.isLine = true → ∃ t, r = Request.malloc (initNmax c pM) t) ∧
      (b.isLine = false → ∃ t, r = Request.calloc_3d_array (initSizes c pM).size3
        (initSizes c pM).size2 (initSizes c pM).size1 t)) ∧
    ((∀ p ∈ initRequests c pM, ok p.1 = true) →
      ∀ b, (b = Buf.eta1 ∨ b = Buf.eta2 ∨ b = Buf.eta3 → c.H_CORRECTION = true) →
        ∃ r, Event.alloc b r ∈ (integrate_init_3d c pM ok).trace) := by
  have ge := scanMesh_ge pM
  obtain ⟨m1, m2, m3⟩ := scanMesh_mem pM
  obtain ⟨n1, n2, n3⟩ := scanMesh_nonneg pM
  refine ⟨?_, ⟨?_, ?_, ?_⟩, ?_, ?_, ?_, ?_, ?_⟩
  · intro nl nd Nx h
    obtain ⟨g1, g2, g3⟩ := ge nl nd Nx h.1 h.2.1 h.2.2
    simp only [initSizes]
    exact ⟨by omega, by omega, by omega⟩
  · rcases m1 with e | ⟨nl, nd, Nx, hl, hd, hG, e⟩
    · exact Or.inl (by simp only [initSizes]; omega)
    · exact Or.inr ⟨nl, nd, Nx, ⟨hl, hd, hG⟩, by simp only [initSizes]; omega⟩
  · rcases m2 with e | ⟨nl, nd, Nx, hl, hd, hG, e⟩
    · exact Or.inl (by simp only [initSizes]; omega)
    · exact Or.inr ⟨nl, nd, Nx, ⟨hl, hd, hG⟩, by simp only [initSizes]; omega⟩
  · rcases m3 with e | ⟨nl, nd, Nx, hl, hd, hG, e⟩
    · exact Or.inl (by simp only [initSizes]; omega)
    · exact Or.inr ⟨nl, nd, Nx, ⟨hl, hd, hG⟩, by simp only [initSizes]; omega⟩
  · simp only [initSizes]
    exact ⟨by omega, by omega, by omega⟩
  · rintro hpos ⟨nl0, nd0, Nx0, h0⟩
    obtain ⟨g1, g2, g3⟩ := ge nl0 nd0 Nx0 h0.1 h0.2.1 h0.2.2
    obtain ⟨p1, p2, p3⟩ := hpos nl0 nd0 Nx0 h0
    refine ⟨?_, ?_, ?_⟩
    · rcases m1 with e | ⟨nl, nd, Nx, hl, hd, hG, e⟩
      · exact ⟨nl0, nd0, Nx0, h0, by simp only [initSizes]; omega⟩
      · exact ⟨nl, nd, Nx, ⟨hl, hd, hG⟩, by simp only [initSizes]; omega⟩
    · rcases m2 with e | ⟨nl, nd, Nx, hl, hd, hG, e⟩
      · exact ⟨nl0, nd0, Nx0, h0, by simp only [initSizes]; omega⟩
      · exact ⟨nl, nd, Nx, ⟨hl, hd, hG⟩, by simp only [initSizes]; omega⟩
    · rcases m3 with e | ⟨nl, nd, Nx, hl, hd, hG, e⟩
      · exact ⟨nl0, nd0, Nx0, h0, by simp only [initSizes]; omega⟩
      · exact ⟨nl, nd, Nx, ⟨hl, hd, hG⟩, by simp only [initSizes]; omega⟩
  · unfold initNmax MAXint
    split_ifs <;> omega
  · intro b r h
    rcases runAllocs_mem ok (initRequests c pM) [] b r h with h1 | h1
    · exact absurd h1 (List.not_mem_nil _)
    · exact initRequests_shape c pM b r h1
  · intro hall b hb
    unfold integrate_init_3d
    rw [runAllocs_all ok _ [] hall]
    have hfst : b ∈ (initRequests c pM).map Prod.fst := by
      cases hH : c.H_CORRECTION with
      | true =>
        simp only [initRequests, hH, if_true, List.map_append, List.map_cons, List.map_nil]
        cases b <;> decide
      | false =>
        simp only [initRequests, hH, Bool.false_eq_true, if_false, List.map_append,
          List.map_cons, List.map_nil]
        rw [hH] at hb
        cases b
        all_goals first
          | decide
          | exact absurd (hb (Or.inl rfl)) (by decide)
          | exact absurd (hb (Or.inr (Or.inl rfl))) (by decide)
          | exact absurd (hb (Or.inr (Or.inr rfl))) (by decide)
    obtain ⟨p, hp, rfl⟩ := List.mem_map.1 hfst
    exact ⟨p.2, by
      simp only [List.nil_append]
      exact List.mem_map.2 ⟨p, hp, rfl⟩⟩

/-- C14 on `demoMesh` with `nghost = 4`: the sizes are `8+8`, `16+8`, `2+8`, the line
length is 24, and the grid of level 1 is within `size2`. -/
theorem C14_witness :
    initSizes demoConfig demoMesh = { size1 := 16, size2 := 24, size3 := 10 } ∧
    initNmax demoConfig demoMesh = 24 ∧
    (16 : Int) + 2 * demoConfig.nghost ≤ (initSizes demoConfig demoMesh).size2 :=
  ⟨by decide, by decide,
    ((C14_scratch_sizing demoConfig demoMesh (fun _ => true)).1 1 1
      (fun d => if d = 0 then 4 else if d = 1 then 16 else 2)
      ⟨⟨by decide, by decide⟩, ⟨by decide, by decide⟩, rfl⟩).2.1⟩

/-! ## C15: a failed allocation is fatal -/

/-- C15: allocation failure is fatal. `integrate_init_3d` returns to its caller if and
only if every allocation it asks for succeeds, and then it has made every allocation of
its list and nothing else. At the first allocation that returns `NULL` it has made the
allocations before it and that one, makes no further allocation, calls
`integrate_destruct` and then `ath_error` with the message
`[integrate_init]: malloc returned a NULL pointer`, and does not return. -/
theorem C15_allocation_failure_fatal (c : Config) (pM : MeshS) (ok : Buf → Bool) :
    ((integrate_init_3d c pM ok).returned = true ↔ ∀ p ∈ initRequests c pM, ok p.1 = true) ∧
    ((∀ p ∈ initRequests c pM, ok p.1 = true) →
      (integrate_init_3d c pM ok).trace =
        (initRequests c pM).map (fun p => Event.alloc p.1 p.2)) ∧
    (∀ pre b r post, initRequests c pM = pre ++ (b, r) :: post →
      (∀ p ∈ pre, ok p.1 = true) → ok b = false →
      (integrate_init_3d c pM ok).returned = false ∧
      (integrate_init_3d c pM ok).trace =
        pre.map (fun p => Event.alloc p.1 p.2) ++
          [Event.alloc b r, Event.integrate_destruct,
            Event.ath_error "[integrate_init]: malloc returned a NULL pointer\n"]) := by
  refine ⟨runAllocs_returned ok _ [], ?_, ?_⟩
  · intro h
    unfold integrate_init_3d
    rw [runAllocs_all ok _ [] h]
    rfl
  · intro pre b r post e hpre hb
    unfold integrate_init_3d
    rw [e, runAllocs_fail ok pre post b r [] hpre hb]
    exact ⟨rfl, rfl⟩

/-- C15 on `demoMesh` when the allocation of `emf3` fails: `emf1`, `emf2` and the
request for `emf3` are followed by `integrate_destruct` and the fatal error. -/
theorem C15_witness :
    (integrate_init_3d demoConfig demoMesh (fun b => decide (b ≠ Buf.emf3))).returned = false ∧
    (integrate_init_3d demoConfig demoMesh (fun b => decide (b ≠ Buf.emf3))).trace =
      [Event.alloc Buf.emf1 (Request.calloc_3d_array 10 24 16 Elt.real),
       Event.alloc Buf.emf2 (Request.calloc_3d_array 10 24 16 Elt.real),
       Event.alloc Buf.emf3 (Request.calloc_3d_array 10 24 16 Elt.real),
       Event.integrate_destruct,
       Event.ath_error "[integrate_init]: malloc returned a NULL pointer\n"] :=
  (C15_allocation_failure_fatal demoConfig demoMesh (fun b => decide (b ≠ Buf.emf3))).2.2
    [(Buf.emf1, Request.calloc_3d_array 10 24 16 Elt.real),
     (Buf.emf2, Request.calloc_3d_array 10 24 16 Elt.real)]
    Buf.emf3 (Request.calloc_3d_array 10 24 16 Elt.real)
    ((initRequests demoConfig demoMesh).drop 3) (by decide) (by decide) (by decide)

/-! ## C20: the half-step state -/

theorem step1_Uhalf (c : Config) (l : Locals) (s : State) : (step1 c l s).Uhalf = s.Uhalf := by
  obtain ⟨a1, a2, a3, a4, a5, a6, h⟩ := step1_writes c l s; rw [h]

theorem step2_Uhalf (c : Config) (l : Locals) (s : State) : (step2 c l s).Uhalf = s.Uhalf := by
  obtain ⟨a1, a2, a3, a4, a5, a6, h⟩ := step2_writes c l s; rw [h]

theorem step3_Uhalf (c : Config) (l : Locals) (s : State) : (step3 c l s).Uhalf = s.Uhalf := by
  obtain ⟨a1, a2, a3, a4, a5, a6, h⟩ := step3_writes c l s; rw [h]

theorem step4a_Uhalf (l : Locals) (s : State) : (step4a l s).Uhalf = s.Uhalf := by
  obtain ⟨a1, a2, a3, h⟩ := step4a_writes l s; rw [h]

theorem step4b_Uhalf (l : Locals) (s : State) : (step4b l s).Uhalf = s.Uhalf := by
  obtain ⟨a1, a2, a3, h⟩ := step4b_writes l s; rw [h]

theorem integrate_emf1_corner_Uhalf (c : Config) (s : State) :
    (integrate_emf1_corner c s).Uhalf = s.Uhalf := by
  rw [integrate_emf1_corner_eq]; rfl

theorem integrate_emf2_corner_Uhalf (c : Config) (s : State) :
    (integrate_emf2_corner c s).Uhalf = s.Uhalf := by
  rw [integrate_emf2_corner_eq]; rfl

theorem integrate_emf3_corner_Uhalf (c : Config) (s : State) :
    (integrate_emf3_corner c s).Uhalf = s.Uhalf := by
  rw [integrate_emf3_corner_eq]; rfl

/-- Steps 1-4b do not write `Uhalf`: before Step 4c it is the copy of `pG->U`. -/
theorem beforeStep4c_Uhalf (c : Config) (s : State) :
    (step4b (locals c s.pG) (beforeStep4b c s)).Uhalf =
      cellMap (locals c s.pG).kl (locals c s.pG).ku (locals c s.pG).jl (locals c s.pG).ju
        (locals c s.pG).il (locals c s.pG).iu (fun k j i _ => s.pG.U k j i) s.Uhalf := by
  rw [step4b_Uhalf, beforeStep4b_eq, integrate_emf3_corner_Uhalf, integrate_emf2_corner_Uhalf,
    integrate_emf1_corner_Uhalf, step4a_Uhalf, step3_Uhalf, step2_Uhalf, step1_Uhalf,
    stepInit_eq]
  rfl

theorem afterStep5_eq (c : Config) (s : State) :
    afterStep5 c s = step5c (locals c s.pG) (step5b (locals c s.pG)
      (step5a (locals c s.pG) (afterStep4c c s))) := rfl

/-- Steps 5a-5c in closed form: they write `Uhalf` only, and on the cells they visit
apply the three flux updates in turn. -/
theorem afterStep5_closed (c : Config) (s : State) :
    afterStep5 c s = lensUhalf.set (afterStep4c c s)
      (cellMap ((locals c s.pG).kl + 1) ((locals c s.pG).ku - 1) ((locals c s.pG).jl + 1)
        ((locals c s.pG).ju - 1) ((locals c s.pG).il + 1) ((locals c s.pG).iu - 1)
        (fun k j i u => flux3Update (locals c s.pG).q3 (afterStep4c c s).x3Flux k j i
          (flux2Update (locals c s.pG).q2 (afterStep4c c s).x2Flux k j i
            (flux1Update (locals c s.pG).q1 (afterStep4c c s).x1Flux k j i u)))
        (afterStep4c c s).Uhalf) := by
  rw [afterStep5_eq, step5a_eq, step5b_eq, step5c_eq]
  simp only [lensUhalf]
  congr 1
  funext k j i
  simp only [cellMap]
  split_ifs <;> rfl

/-! ## Steps 1-3: the first-order fluxes in closed form -/

/-- Step 1 in closed form at one face: the flux stored is the flux between the two
cells of `pG->U` on the sides of the face, with the persistent face field. -/
theorem step1_flux_at (c : Config) (l : Locals) (s : State) (k0 j0 i0 : Int)
    (hk : l.kl ≤ k0 ∧ k0 ≤ l.ku) (hj : l.jl ≤ j0 ∧ j0 ≤ l.ju) (hi : l.il + 1 ≤ i0 ∧ i0 ≤ l.iu) :
    (step1 c l s).x1Flux k0 j0 i0 =
      faceFlux c s.etah (load1 (s.pG.U k0 j0 (i0 - 1))) (load1 (s.pG.U k0 j0 i0))
        (s.pG.B1i k0 j0 i0) := by
  let P : State → Prop := fun t => t.pG = s.pG ∧ t.etah = s.etah
  let Q : State → Prop := fun t => t.x1Flux k0 j0 i0 =
    faceFlux c s.etah (load1 (s.pG.U k0 j0 (i0 - 1))) (load1 (s.pG.U k0 j0 i0))
      (s.pG.B1i k0 j0 i0)
  let P1 : State → Prop := fun t => t.Ul i0 = load1 (s.pG.U k0 j0 (i0 - 1)) ∧
    t.Ur i0 = load1 (s.pG.U k0 j0 i0) ∧ t.B1_x1Face k0 j0 i0 = s.pG.B1i k0 j0 i0
  unfold step1
  refine forLoop2_establish P Q _ _ _ _ k0 j0
    (fun k j s => forLoop (l.il + 1) l.iu (fun i s => step1_flux c k j i s)
      (forLoop (l.il + 1) l.iu (fun i s => step1_load k j i s) s)) hk hj ?_ ?_ ?_ s
    ⟨rfl, rfl⟩
  · intro k j t _ _ _ _ hp
    exact forLoop_inv P _ _ (fun i s => step1_flux c k j i s) (fun i t _ _ hp => hp) _
      (forLoop_inv P _ _ (fun i s => step1_load k j i s) (fun i t _ _ hp => hp) t hp)
  · intro t hp
    have h1 : (fun t => P t ∧ P1 t)
        (forLoop (l.il + 1) l.iu (fun i s => step1_load k0 j0 i s) t) := by
      refine ⟨forLoop_inv P _ _ (fun i s => step1_load k0 j0 i s) (fun i t _ _ hp => hp) t hp, ?_⟩
      refine forLoop_establish P P1 _ _ i0 (fun i s => step1_load k0 j0 i s) hi.1 hi.2
        (fun i t _ _ hp => hp) ?_ ?_ t hp
      · intro t hp
        refine ⟨?_, ?_, ?_⟩
        · simp only [step1_load, set1, if_true]
          rw [hp.1]
        · simp only [step1_load, set1, if_true]
          rw [hp.1]
        · simp only [step1_load, set3, and_self, if_true]
          rw [hp.1]
      · intro i t _ _ hne hp hq
        have hn : ¬ i0 = i := fun h => hne h.symm
        refine ⟨?_, ?_, ?_⟩
        · simp only [step1_load, set1, hn, if_false]; exact hq.1
        · simp only [step1_load, set1, hn, if_false]; exact hq.2.1
        · simp only [step1_load, set3, hn, and_false, false_and, if_false]; exact hq.2.2
    refine forLoop_establish (fun t => P t ∧ P1 t) Q _ _ i0 _ hi.1 hi.2 ?_ ?_ ?_ _ h1
    · intro i t _ _ hp
      exact hp
    · intro t hp
      show (step1_flux c k0 j0 i0 t).x1Flux k0 j0 i0 = _
      simp only [step1_flux, set1, set3, and_self, if_true]
      rw [hp.2.1, hp.2.2.1, hp.2.2.2, hp.1.2]
      rfl
    · intro i t _ _ hne hp hq
      have hn : ¬ i0 = i := fun h => hne h.symm
      show (step1_flux c k0 j0 i t).x1Flux k0 j0 i0 = _
      simp only [step1_flux, set3, hn, and_false, false_and, if_false]
      exact hq
  · intro k j t _ _ _ _ hne hp hq
    refine forLoop_inv Q _ _ _ ?_ _
      (forLoop_inv Q _ _ (fun i s => step1_load k j i s) (fun i t _ _ hq => hq) t hq)
    intro i t _ _ hq
    have hn : ¬ (k0 = k ∧ j0 = j ∧ i0 = i) := fun h => hne ⟨h.1.symm, h.2.1.symm⟩
    show (step1_flux c k j i t).x1Flux k0 j0 i0 = _
    simp only [step1_flux, set3, hn, if_false]
    exact hq

/-- Step 2 in closed form at one face: the flux stored is the flux between the two
cells of `pG->U` on the sides of the face, with the persistent face field. -/
theorem step2_flux_at (c : Config) (l : Locals) (s : State) (k0 j0 i0 : Int)
    (hk : l.kl ≤ k0 ∧ k0 ≤ l.ku) (hj : l.jl + 1 ≤ j0 ∧ j0 ≤ l.ju) (hi : l.il ≤ i0 ∧ i0 ≤ l.iu) :
    (step2 c l s).x2Flux k0 j0 i0 =
      faceFlux c s.etah (load2 (s.pG.U k0 (j0 - 1) i0)) (load2 (s.pG.U k0 j0 i0))
        (s.pG.B2i k0 j0 i0) := by
  let P : State → Prop := fun t => t.pG = s.pG ∧ t.etah = s.etah
  let Q : State → Prop := fun t => t.x2Flux k0 j0 i0 =
    faceFlux c s.etah (load2 (s.pG.U k0 (j0 - 1) i0)) (load2 (s.pG.U k0 j0 i0))
      (s.pG.B2i k0 j0 i0)
  let P1 : State → Prop := fun t => t.Ul j0 = load2 (s.pG.U k0 (j0 - 1) i0) ∧
    t.Ur j0 = load2 (s.pG.U k0 j0 i0) ∧ t.B2_x2Face k0 j0 i0 = s.pG.B2i k0 j0 i0
  unfold step2
  refine forLoop2_establish P Q _ _ _ _ k0 i0
    (fun k i s => forLoop (l.jl + 1) l.ju (fun j s => step2_flux c k j i s)
      (forLoop (l.jl + 1) l.ju (fun j s => step2_load k j i s) s)) hk hi ?_ ?_ ?_ s
    ⟨rfl, rfl⟩
  · intro k i t _ _ _ _ hp
    exact forLoop_inv P _ _ (fun j s => step2_flux c k j i s) (fun j t _ _ hp => hp) _
      (forLoop_inv P _ _ (fun j s => step2_load k j i s) (fun j t _ _ hp => hp) t hp)
  · intro t hp
    have h1 : (fun t => P t ∧ P1 t)
        (forLoop (l.jl + 1) l.ju (fun j s => step2_load k0 j i0 s) t) := by
      refine ⟨forLoop_inv P _ _ (fun j s => step2_load k0 j i0 s) (fun j t _ _ hp => hp) t hp, ?_⟩
      refine forLoop_establish P P1 _ _ j0 (fun j s => step2_load k0 j i0 s) hj.1 hj.2
        (fun j t _ _ hp => hp) ?_ ?_ t hp
      · intro t hp
        refine ⟨?_, ?_, ?_⟩
        · simp only [step2_load, set1, if_true]
          rw [hp.1]
        · simp only [step2_load, set1, if_true]
          rw [hp.1]
        · simp only [step2_load, set3, and_self, if_true]
          rw [hp.1]
      · intro j t _ _ hne hp hq
        have hn : ¬ j0 = j := fun h => hne h.symm
        refine ⟨?_, ?_, ?_⟩
        · simp only [step2_load, set1, hn, if_false]; exact hq.1
        · simp only [step2_load, set1, hn, if_false]; exact hq.2.1
        · simp only [step2_load, set3, hn, and_false, false_and, if_false]; exact hq.2.2
    refine forLoop_establish (fun t => P t ∧ P1 t) Q _ _ j0 _ hj.1 hj.2 ?_ ?_ ?_ _ h1
    · intro j t _ _ hp
      exact hp
    · intro t hp
      show (step2_flux c k0 j0 i0 t).x2Flux k0 j0 i0 = _
      simp only [step2_flux, set1, set3, and_self, if_true]
      rw [hp.2.1, hp.2.2.1, hp.2.2.2, hp.1.2]
      rfl
    · intro j t _ _ hne hp hq
      have hn : ¬ j0 = j := fun h => hne h.symm
      show (step2_flux c k0 j i0 t).x2Flux k0 j0 i0 = _
      simp only [step2_flux, set3, hn, and_false, false_and, if_false]
      exact hq
  · intro k i t _ _ _ _ hne hp hq
    refine forLoop_inv Q _ _ _ ?_ _
      (forLoop_inv Q _ _ (fun j s => step2_load k j i s) (fun j t _ _ hq => hq) t hq)
    intro j t _ _ hq
    have hn : ¬ (k0 = k ∧ j0 = j ∧ i0 = i) := fun h => hne ⟨h.1.symm, h.2.2.symm⟩
    show (step2_flux c k j i t).x2Flux k0 j0 i0 = _
    simp only [step2_flux, set3, hn, if_false]
    exact hq

/-- Step 3 in closed form at one face: the flux stored is the flux between the two
cells of `pG->U` on the sides of the face, with the persistent face field. -/
theorem step3_flux_at (c : Config) (l : Locals) (s : State) (k0 j0 i0 : Int)
    (hk : l.kl + 1 ≤ k0 ∧ k0 ≤ l.ku) (hj : l.jl ≤ j0 ∧ j0 ≤ l.ju) (hi : l.il ≤ i0 ∧ i0 ≤ l.iu) :
    (step3 c l s).x3Flux k0 j0 i0 =
      faceFlux c s.etah (load3 (s.pG.U (k0 - 1) j0 i0)) (load3 (s.pG.U k0 j0 i0))
        (s.pG.B3i k0 j0 i0) := by
  let P : State → Prop := fun t => t.pG = s.pG ∧ t.etah = s.etah
  let Q : State → Prop := fun t => t.x3Flux k0 j0 i0 =
    faceFlux c s.etah (load3 (s.pG.U (k0 - 1) j0 i0)) (load3 (s.pG.U k0 j0 i0))
      (s.pG.B3i k0 j0 i0)
  let P1 : State → Prop := fun t => t.Ul k0 = load3 (s.pG.U (k0 - 1) j0 i0) ∧
    t.Ur k0 = load3 (s.pG.U k0 j0 i0) ∧ t.B3_x3Face k0 j0 i0 = s.pG.B3i k0 j0 i0
  unfold step3
  refine forLoop2_establish P Q _ _ _ _ j0 i0
    (fun j i s => forLoop (l.kl + 1) l.ku (fun k s => step3_flux c k j i s)
      (forLoop (l.kl + 1) l.ku (fun k s => step3_load k j i s) s)) hj hi ?_ ?_ ?_ s
    ⟨rfl, rfl⟩
  · intro j i t _ _ _ _ hp
    exact forLoop_inv P _ _ (fun k s => step3_flux c k j i s) (fun k t _ _ hp => hp) _
      (forLoop_inv P _ _ (fun k s => step3_load k j i s) (fun k t _ _ hp => hp) t hp)
  · intro t hp
    have h1 : (fun t => P t ∧ P1 t)
        (forLoop (l.kl + 1) l.ku (fun k s => step3_load k j0 i0 s) t) := by
      refine ⟨forLoop_inv P _ _ (fun k s => step3_load k j0 i0 s) (fun k t _ _ hp => hp) t hp, ?_⟩
      refine forLoop_establish P P1 _ _ k0 (fun k s => step3_load k j0 i0 s) hk.1 hk.2
        (fun k t _ _ hp => hp) ?_ ?_ t hp
      · intro t hp
        refine ⟨?_, ?_, ?_⟩
        · simp only [step3_load, set1, if_true]
          rw [hp.1]
        · simp only [step3_load, set1, if_true]
          rw [hp.1]
        · simp only [step3_load, set3, and_self, if_true]
          rw [hp.1]
      · intro k t _ _ hne hp hq
        have hn : ¬ k0 = k := fun h => hne h.symm
        refine ⟨?_, ?_, ?_⟩
        · simp only [step3_load, set1, hn, if_false]; exact hq.1
        · simp only [step3_load, set1, hn, if_false]; exact hq.2.1
        · simp only [step3_load, set3, hn, and_false, false_and, if_false]; exact hq.2.2
    refine forLoop_establish (fun t => P t ∧ P1 t) Q _ _ k0 _ hk.1 hk.2 ?_ ?_ ?_ _ h1
    · intro k t _ _ hp
      exact hp
    · intro t hp
      show (step3_flux c k0 j0 i0 t).x3Flux k0 j0 i0 = _
      simp only [step3_flux, set1, set3, and_self, if_true]
      rw [hp.2.1, hp.2.2.1, hp.2.2.2, hp.1.2]
      rfl
    · intro k t _ _ hne hp hq
      have hn : ¬ k0 = k := fun h => hne h.symm
      show (step3_flux c k j0 i0 t).x3Flux k0 j0 i0 = _
      simp only [step3_flux, set3, hn, and_false, false_and, if_false]
      exact hq
  · intro j i t _ _ _ _ hne hp hq
    refine forLoop_inv Q _ _ _ ?_ _
      (forLoop_inv Q _ _ (fun k s => step3_load k j i s) (fun k t _ _ hq => hq) t hq)
    intro k t _ _ hq
    have hn : ¬ (k0 = k ∧ j0 = j ∧ i0 = i) := fun h => hne ⟨h.2.1.symm, h.2.2.symm⟩
    show (step3_flux c k j i t).x3Flux k0 j0 i0 = _
    simp only [step3_flux, set3, hn, if_false]
    exact hq

theorem stepInit_keep (l : Locals) (s : State) :
    (stepInit l s).pG = s.pG ∧ (stepInit l s).etah = 0 := by
  rw [stepInit_eq]
  exact ⟨rfl, rfl⟩

theorem step1_keep (c : Config) (l : Locals) (s : State) :
    (step1 c l s).pG = s.pG ∧ (step1 c l s).etah = s.etah := by
  obtain ⟨a1, a2, a3, a4, a5, a6, h⟩ := step1_writes c l s
  rw [h]
  exact ⟨rfl, rfl⟩

theorem step2_keep (c : Config) (l : Locals) (s : State) :
    (step2 c l s).pG = s.pG ∧ (step2 c l s).etah = s.etah ∧
      (step2 c l s).x1Flux = s.x1Flux := by
  obtain ⟨a1, a2, a3, a4, a5, a6, h⟩ := step2_writes c l s
  rw [h]
  exact ⟨rfl, rfl, rfl⟩

theorem step3_keep (c : Config) (l : Locals) (s : State) :
    (step3 c l s).x1Flux = s.x1Flux ∧ (step3 c l s).x2Flux = s.x2Flux := by
  obtain ⟨a1, a2, a3, a4, a5, a6, h⟩ := step3_writes c l s
  rw [h]
  exact ⟨rfl, rfl⟩

theorem step4a_fluxes (l : Locals) (s : State) :
    (step4a l s).x1Flux = s.x1Flux ∧ (step4a l s).x2Flux = s.x2Flux ∧
      (step4a l s).x3Flux = s.x3Flux := by
  obtain ⟨a1, a2, a3, h⟩ := step4a_writes l s
  rw [h]
  exact ⟨rfl, rfl, rfl⟩

theorem integrate_emf1_corner_fluxes (c : Config) (s : State) :
    (integrate_emf1_corner c s).x1Flux = s.x1Flux ∧
      (integrate_emf1_corner c s).x2Flux = s.x2Flux ∧
      (integrate_emf1_corner c s).x3Flux = s.x3Flux := by
  rw [integrate_emf1_corner_eq]
  exact ⟨rfl, rfl, rfl⟩

theorem integrate_emf2_corner_fluxes (c : Config) (s : State) :
    (integrate_emf2_corner c s).x1Flux = s.x1Flux ∧
      (integrate_emf2_corner c s).x2Flux = s.x2Flux ∧
      (integrate_emf2_corner c s).x3Flux = s.x3Flux := by
  rw [integrate_emf2_corner_eq]
  exact ⟨rfl, rfl, rfl⟩

theorem integrate_emf3_corner_fluxes (c : Config) (s : State) :
    (integrate_emf3_corner c s).x1Flux = s.x1Flux ∧
      (integrate_emf3_corner c s).x2Flux = s.x2Flux ∧
      (integrate_emf3_corner c s).x3Flux = s.x3Flux := by
  rw [integrate_emf3_corner_eq]
  exact ⟨rfl, rfl, rfl⟩

/-- The flux arrays before Step 4b are the ones Steps 1-3 leave. -/
theorem beforeStep4b_fluxes (c : Config) (s : State) :
    (beforeStep4b c s).x1Flux =
      (step1 c (locals c s.pG) (stepInit (locals c s.pG) s)).x1Flux ∧
    (beforeStep4b c s).x2Flux =
      (step2 c (locals c s.pG) (step1 c (locals c s.pG) (stepInit (locals c s.pG) s))).x2Flux ∧
    (beforeStep4b c s).x3Flux =
      (step3 c (locals c s.pG) (step2 c (locals c s.pG)
        (step1 c (locals c s.pG) (stepInit (locals c s.pG) s)))).x3Flux := by
  rw [beforeStep4b_eq]
  obtain ⟨a1, a2, a3⟩ := integrate_emf3_corner_fluxes c (integrate_emf2_corner c
      (integrate_emf1_corner c (step4a (locals c s.pG) (step3 c (locals c s.pG)
        (step2 c (locals c s.pG) (step1 c (locals c s.pG) (stepInit (locals c s.pG) s)))))))
  obtain ⟨b1, b2, b3⟩ := integrate_emf2_corner_fluxes c
      (integrate_emf1_corner c (step4a (locals c s.pG) (step3 c (locals c s.pG)
        (step2 c (locals c s.pG) (step1 c (locals c s.pG) (stepInit (locals c s.pG) s))))))
  obtain ⟨c1, c2, c3⟩ := integrate_emf1_corner_fluxes c
      (step4a (locals c s.pG) (step3 c (locals c s.pG)
        (step2 c (locals c s.pG) (step1 c (locals c s.pG) (stepInit (locals c s.pG) s)))))
  obtain ⟨d1, d2, d3⟩ := step4a_fluxes (locals c s.pG) (step3 c (locals c s.pG)
        (step2 c (locals c s.pG) (step1 c (locals c s.pG) (stepInit (locals c s.pG) s))))
  obtain ⟨e1, e2⟩ := step3_keep c (locals c s.pG)
        (step2 c (locals c s.pG) (step1 c (locals c s.pG) (stepInit (locals c s.pG) s)))
  obtain ⟨-, -, f1⟩ := step2_keep c (locals c s.pG)
    (step1 c (locals c s.pG) (stepInit (locals c s.pG) s))
  exact ⟨a1.trans (b1.trans (c1.trans (d1.trans (e1.trans f1)))),
    a2.trans (b2.trans (c2.trans (d2.trans e2))), a3.trans (b3.trans (c3.trans d3))⟩

/-- The first-order fluxes: after Steps 1-3 the flux of every face the step visits is the
flux, with `etah = 0`, between the two cells of the persistent state on its sides. -/
theorem firstOrderFluxes (c : Config) (s : State) (k j i : Int) :
    ((locals c s.pG).kl ≤ k ∧ k ≤ (locals c s.pG).ku → (locals c s.pG).jl ≤ j ∧
      j ≤ (locals c s.pG).ju → (locals c s.pG).il + 1 ≤ i ∧ i ≤ (locals c s.pG).iu →
      (beforeStep4b c s).x1Flux k j i =
        faceFlux c 0 (load1 (s.pG.U k j (i - 1))) (load1 (s.pG.U k j i)) (s.pG.B1i k j i)) ∧
    ((locals c s.pG).kl ≤ k ∧ k ≤ (locals c s.pG).ku → (locals c s.pG).jl + 1 ≤ j ∧
      j ≤ (locals c s.pG).ju → (locals c s.pG).il ≤ i ∧ i ≤ (locals c s.pG).iu →
      (beforeStep4b c s).x2Flux k j i =
        faceFlux c 0 (load2 (s.pG.U k (j - 1) i)) (load2 (s.pG.U k j i)) (s.pG.B2i k j i)) ∧
    ((locals c s.pG).kl + 1 ≤ k ∧ k ≤ (locals c s.pG).ku → (locals c s.pG).jl ≤ j ∧
      j ≤ (locals c s.pG).ju → (locals c s.pG).il ≤ i ∧ i ≤ (locals c s.pG).iu →
      (beforeStep4b c s).x3Flux k j i =
        faceFlux c 0 (load3 (s.pG.U (k - 1) j i)) (load3 (s.pG.U k j i)) (s.pG.B3i k j i)) := by
  obtain ⟨f1, f2, f3⟩ := beforeStep4b_fluxes c s
  obtain ⟨p0, e0⟩ := stepInit_keep (locals c s.pG) s
  obtain ⟨p1, e1⟩ := step1_keep c (locals c s.pG) (stepInit (locals c s.pG) s)
  obtain ⟨p2, e2, -⟩ := step2_keep c (locals c s.pG)
    (step1 c (locals c s.pG) (stepInit (locals c s.pG) s))
  refine ⟨fun hk hj hi => ?_, fun hk hj hi => ?_, fun hk hj hi => ?_⟩
  · rw [f1, step1_flux_at c _ _ k j i hk hj hi, p0, e0]
  · rw [f2, step2_flux_at c _ _ k j i hk hj hi, p1, e1, p0, e0]
  · rw [f3, step3_flux_at c _ _ k j i hk hj hi, p2, e2, p1, e1, p0, e0]

/-- After Step 4c a cell of the interior of the box holds the cell of `pG->U` with its
cell-centred field replaced by the face averages. -/
theorem afterStep4c_Uhalf (c : Config) (s : State) (k j i : Int)
    (hin : (locals c s.pG).kl + 1 ≤ k ∧ k ≤ (locals c s.pG).ku - 1 ∧
      (locals c s.pG).jl + 1 ≤ j ∧ j ≤ (locals c s.pG).ju - 1 ∧
      (locals c s.pG).il + 1 ≤ i ∧ i ≤ (locals c s.pG).iu - 1) :
    (afterStep4c c s).Uhalf k j i =
      faceAverage (afterStep4c c s).B1_x1Face (afterStep4c c s).B2_x2Face
        (afterStep4c c s).B3_x3Face k j i (s.pG.U k j i) := by
  have hbox : (locals c s.pG).kl ≤ k ∧ k ≤ (locals c s.pG).ku ∧
      (locals c s.pG).jl ≤ j ∧ j ≤ (locals c s.pG).ju ∧
      (locals c s.pG).il ≤ i ∧ i ≤ (locals c s.pG).iu :=
    ⟨by omega, by omega, by omega, by omega, by omega, by omega⟩
  rw [afterStep4c_eq, step4c_eq]
  simp only [lensUhalf, cellMap, hin, and_self, if_true]
  rw [beforeStep4c_Uhalf]
  simp only [cellMap, hbox, and_self, if_true]

/-- After Step 5 a cell of the box outside the interior still holds the copy of
`pG->U`. -/
theorem afterStep5_outer (c : Config) (s : State) (k j i : Int)
    (hbox : (locals c s.pG).kl ≤ k ∧ k ≤ (locals c s.pG).ku ∧
      (locals c s.pG).jl ≤ j ∧ j ≤ (locals c s.pG).ju ∧
      (locals c s.pG).il ≤ i ∧ i ≤ (locals c s.pG).iu)
    (hout : ¬ ((locals c s.pG).kl + 1 ≤ k ∧ k ≤ (locals c s.pG).ku - 1 ∧
      (locals c s.pG).jl + 1 ≤ j ∧ j ≤ (locals c s.pG).ju - 1 ∧
      (locals c s.pG).il + 1 ≤ i ∧ i ≤ (locals c s.pG).iu - 1)) :
    (afterStep5 c s).Uhalf k j i = s.pG.U k j i := by
  rw [afterStep5_closed]
  simp only [lensUhalf, cellMap, hout, if_false]
  rw [afterStep4c_eq, step4c_eq]
  simp only [lensUhalf, cellMap, hout, if_false]
  rw [beforeStep4c_Uhalf]
  simp only [cellMap, hbox, and_self, if_true]

theorem step4b_fluxes (l : Locals) (s : State) :
    (step4b l s).x1Flux = s.x1Flux ∧ (step4b l s).x2Flux = s.x2Flux ∧
      (step4b l s).x3Flux = s.x3Flux := by
  obtain ⟨a1, a2, a3, h⟩ := step4b_writes l s
  rw [h]
  exact ⟨rfl, rfl, rfl⟩

theorem step4c_fluxes (l : Locals) (s : State) :
    (step4c l s).x1Flux = s.x1Flux ∧ (step4c l s).x2Flux = s.x2Flux ∧
      (step4c l s).x3Flux = s.x3Flux := by
  rw [step4c_eq]
  exact ⟨rfl, rfl, rfl⟩

/-- Steps 4b-5c do not write the flux arrays. -/
theorem afterStep5_fluxes (c : Config) (s : State) :
    (afterStep5 c s).x1Flux = (beforeStep4b c s).x1Flux ∧
    (afterStep5 c s).x2Flux = (beforeStep4b c s).x2Flux ∧
    (afterStep5 c s).x3Flux = (beforeStep4b c s).x3Flux := by
  have h5 : (afterStep5 c s).x1Flux = (afterStep4c c s).x1Flux ∧
      (afterStep5 c s).x2Flux = (afterStep4c c s).x2Flux ∧
      (afterStep5 c s).x3Flux = (afterStep4c c s).x3Flux := by
    rw [afterStep5_closed]
    exact ⟨rfl, rfl, rfl⟩
  have h4 := step4c_fluxes (locals c s.pG) (step4b (locals c s.pG) (beforeStep4b c s))
  have h3 := step4b_fluxes (locals c s.pG) (beforeStep4b c s)
  rw [← afterStep4c_eq] at h4
  exact ⟨h5.1.trans (h4.1.trans h3.1), h5.2.1.trans (h4.2.1.trans h3.2.1),
    h5.2.2.trans (h4.2.2.trans h3.2.2)⟩

/-- After Step 5 a cell of the interior of the box holds the cell of `pG->U`, with the
face averages for its cell-centred field, after the three flux updates. -/
theorem afterStep5_interior (c : Config) (s : State) (k j i : Int)
    (hin : (locals c s.pG).kl + 1 ≤ k ∧ k ≤ (locals c s.pG).ku - 1 ∧
      (locals c s.pG).jl + 1 ≤ j ∧ j ≤ (locals c s.pG).ju - 1 ∧
      (locals c s.pG).il + 1 ≤ i ∧ i ≤ (locals c s.pG).iu - 1) :
    (afterStep5 c s).Uhalf k j i =
      flux3Update (locals c s.pG).q3 (afterStep5 c s).x3Flux k j i
        (flux2Update (locals c s.pG).q2 (afterStep5 c s).x2Flux k j i
          (flux1Update (locals c s.pG).q1 (afterStep5 c s).x1Flux k j i
            (faceAverage (afterStep4c c s).B1_x1Face (afterStep4c c s).B2_x2Face
              (afterStep4c c s).B3_x3Face k j i (s.pG.U k j i)))) := by
  have hU := afterStep4c_Uhalf c s k j i hin
  have hc := afterStep5_closed c s
  have f1 : (afterStep5 c s).x1Flux = (afterStep4c c s).x1Flux := by rw [hc]; rfl
  have f2 : (afterStep5 c s).x2Flux = (afterStep4c c s).x2Flux := by rw [hc]; rfl
  have f3 : (afterStep5 c s).x3Flux = (afterStep4c c s).x3Flux := by rw [hc]; rfl
  rw [f1, f2, f3, hc]
  simp only [lensUhalf, cellMap, hin, and_self, if_true]
  rw [hU]

/-- After Step 5 the flux arrays hold the first-order fluxes. -/
theorem afterStep5_firstOrder (c : Config) (s : State) (k j i : Int) :
    ((locals c s.pG).kl ≤ k ∧ k ≤ (locals c s.pG).ku → (locals c s.pG).jl ≤ j ∧
      j ≤ (locals c s.pG).ju → (locals c s.pG).il + 1 ≤ i ∧ i ≤ (locals c s.pG).iu →
      (afterStep5 c s).x1Flux k j i =
        faceFlux c 0 (load1 (s.pG.U k j (i - 1))) (load1 (s.pG.U k j i)) (s.pG.B1i k j i)) ∧
    ((locals c s.pG).kl ≤ k ∧ k ≤ (locals c s.pG).ku → (locals c s.pG).jl + 1 ≤ j ∧
      j ≤ (locals c s.pG).ju → (locals c s.pG).il ≤ i ∧ i ≤ (locals c s.pG).iu →
      (afterStep5 c s).x2Flux k j i =
        faceFlux c 0 (load2 (s.pG.U k (j - 1) i)) (load2 (s.pG.U k j i)) (s.pG.B2i k j i)) ∧
    ((locals c s.pG).kl + 1 ≤ k ∧ k ≤ (locals c s.pG).ku → (locals c s.pG).jl ≤ j ∧
      j ≤ (locals c s.pG).ju → (locals c s.pG).il ≤ i ∧ i ≤ (locals c s.pG).iu →
      (afterStep5 c s).x3Flux k j i =
        faceFlux c 0 (load3 (s.pG.U (k - 1) j i)) (load3 (s.pG.U k j i)) (s.pG.B3i k j i)) := by
  obtain ⟨f1, f2, f3⟩ := afterStep5_fluxes c s
  rw [f1, f2, f3]
  exact firstOrderFluxes c s k j i

/-- C20: the half-step state. After Step 5, every cell with `il+1 ≤ i ≤ iu-1`,
`jl+1 ≤ j ≤ ju-1`, `kl+1 ≤ k ≤ ku-1` has in `d`, `M1`, `M2`, `M3` and `E` the value
`U - (dt/(2 dx1))(F1[i+1]-F1[i]) - (dt/(2 dx2))(F2[j+1]-F2[j]) - (dt/(2 dx3))(F3[k+1]-F3[k])`
of `specHalfStep`, where `U` is the cell of the persistent state and `F1`, `F2`, `F3`
are the flux arrays; every cell of the box `[kl,ku] × [jl,ju] × [il,iu]` on its
outermost layer has `Uhalf` equal to `U`. The flux arrays hold the first-order fluxes:
at every face Steps 1-3 visit, the flux with `etah = 0` between the two cells of `U` on
its sides. Without a gravity source this is the state at the end of the predictor. -/
theorem C20_half_step_formula (c : Config) (s : State) (k j i : Int) :
    ((locals c s.pG).kl + 1 ≤ k ∧ k ≤ (locals c s.pG).ku - 1 ∧
      (locals c s.pG).jl + 1 ≤ j ∧ j ≤ (locals c s.pG).ju - 1 ∧
      (locals c s.pG).il + 1 ≤ i ∧ i ≤ (locals c s.pG).iu - 1 →
      ((afterStep5 c s).Uhalf k j i).d =
        (specHalfStep s.pG.dt s.pG.dx1 s.pG.dx2 s.pG.dx3 (afterStep5 c s).x1Flux
          (afterStep5 c s).x2Flux (afterStep5 c s).x3Flux k j i (s.pG.U k j i)).d ∧
      ((afterStep5 c s).Uhalf k j i).M1 =
        (specHalfStep s.pG.dt s.pG.dx1 s.pG.dx2 s.pG.dx3 (afterStep5 c s).x1Flux
          (afterStep5 c s).x2Flux (afterStep5 c s).x3Flux k j i (s.pG.U k j i)).M1 ∧
      ((afterStep5 c s).Uhalf k j i).M2 =
        (specHalfStep s.pG.dt s.pG.dx1 s.pG.dx2 s.pG.dx3 (afterStep5 c s).x1Flux
          (afterStep5 c s).x2Flux (afterStep5 c s).x3Flux k j i (s.pG.U k j i)).M2 ∧
      ((afterStep5 c s).Uhalf k j i).M3 =
        (specHalfStep s.pG.dt s.pG.dx1 s.pG.dx2 s.pG.dx3 (afterStep5 c s).x1Flux
          (afterStep5 c s).x2Flux (afterStep5 c s).x3Flux k j i (s.pG.U k j i)).M3 ∧
      ((afterStep5 c s).Uhalf k j i).E =
        (specHalfStep s.pG.dt s.pG.dx1 s.pG.dx2 s.pG.dx3 (afterStep5 c s).x1Flux
          (afterStep5 c s).x2Flux (afterStep5 c s).x3Flux k j i (s.pG.U k j i)).E) ∧
    ((locals c s.pG).kl ≤ k ∧ k ≤ (locals c s.pG).ku ∧
      (locals c s.pG).jl ≤ j ∧ j ≤ (locals c s.pG).ju ∧
      (locals c s.pG).il ≤ i ∧ i ≤ (locals c s.pG).iu →
      (k = (locals c s.pG).kl ∨ k = (locals c s.pG).ku ∨ j = (locals c s.pG).jl ∨
        j = (locals c s.pG).ju ∨ i = (locals c s.pG).il ∨ i = (locals c s.pG).iu) →
      (afterStep5 c s).Uhalf k j i = s.pG.U k j i) ∧
    (((locals c s.pG).kl ≤ k ∧ k ≤ (locals c s.pG).ku → (locals c s.pG).jl ≤ j ∧
        j ≤ (locals c s.pG).ju → (locals c s.pG).il + 1 ≤ i ∧ i ≤ (locals c s.pG).iu →
        (afterStep5 c s).x1Flux k j i =
          faceFlux c 0 (load1 (s.pG.U k j (i - 1))) (load1 (s.pG.U k j i)) (s.pG.B1i k j i)) ∧
      ((locals c s.pG).kl ≤ k ∧ k ≤ (locals c s.pG).ku → (locals c s.pG).jl + 1 ≤ j ∧
        j ≤ (locals c s.pG).ju → (locals c s.pG).il ≤ i ∧ i ≤ (locals c s.pG).iu →
        (afterStep5 c s).x2Flux k j i =
          faceFlux c 0 (load2 (s.pG.U k (j - 1) i)) (load2 (s.pG.U k j i)) (s.pG.B2i k j i)) ∧
      ((locals c s.pG).kl + 1 ≤ k ∧ k ≤ (locals c s.pG).ku → (locals c s.pG).jl ≤ j ∧
        j ≤ (locals c s.pG).ju → (locals c s.pG).il ≤ i ∧ i ≤ (locals c s.pG).iu →
        (afterStep5 c s).x3Flux k j i =
          faceFlux c 0 (load3 (s.pG.U (k - 1) j i)) (load3 (s.pG.U k j i)) (s.pG.B3i k j i))) ∧
    (c.StaticGravPot = none → c.SELF_GRAVITY = false →
      runStages (predictorStages c (locals c s.pG)) s = afterStep5 c s) := by
  refine ⟨fun hin => ?_, fun hbox hl => ?_, afterStep5_firstOrder c s k j i, fun hg hsg => ?_⟩
  · rw [afterStep5_interior c s k j i hin]
    simp only [flux3Update, flux2Update, flux1Update, faceAverage, specHalfStep, locals]
    refine ⟨?_, ?_, ?_, ?_, ?_⟩ <;> ring
  · refine afterStep5_outer c s k j i hbox ?_
    rintro ⟨a1, a2, a3, a4, a5, a6⟩
    omega
  · have e0 : runStages (predictorStages c (locals c s.pG)) s =
        step6b c (locals c s.pG) (step6a c (locals c s.pG) (afterStep5 c s)) := rfl
    rw [e0, step6a_none c _ _ hg, step6b_off c _ _ hsg]

/-- C20 on `demoState`: the half-step density of the cell `(0, 0, 0)`. -/
theorem C20_witness :
    ((afterStep5 demoConfig demoState).Uhalf 0 0 0).d =
      (specHalfStep demoState.pG.dt demoState.pG.dx1 demoState.pG.dx2 demoState.pG.dx3
        (afterStep5 demoConfig demoState).x1Flux (afterStep5 demoConfig demoState).x2Flux
        (afterStep5 demoConfig demoState).x3Flux 0 0 0 (demoState.pG.U 0 0 0)).d :=
  ((C20_half_step_formula demoConfig demoState 0 0 0).1
    ⟨by decide, by decide, by decide, by decide, by decide, by decide⟩).1

/-! ## C16: a density that is not positive -/

/-- The half-step density of an interior cell, as Step 5 computes it from the
first-order fluxes of its six faces. -/
theorem afterStep5_density (c : Config) (s : State) (k j i : Int)
    (hin : (locals c s.pG).kl + 1 ≤ k ∧ k ≤ (locals c s.pG).ku - 1 ∧
      (locals c s.pG).jl + 1 ≤ j ∧ j ≤ (locals c s.pG).ju - 1 ∧
      (locals c s.pG).il + 1 ≤ i ∧ i ≤ (locals c s.pG).iu - 1) :
    ((afterStep5 c s).Uhalf k j i).d = (s.pG.U k j i).d
      - (locals c s.pG).q1 *
        ((faceFlux c 0 (load1 (s.pG.U k j (i + 1 - 1))) (load1 (s.pG.U k j (i + 1)))
            (s.pG.B1i k j (i + 1))).d
          - (faceFlux c 0 (load1 (s.pG.U k j (i - 1))) (load1 (s.pG.U k j i))
            (s.pG.B1i k j i)).d)
      - (locals c s.pG).q2 *
        ((faceFlux c 0 (load2 (s.pG.U k (j + 1 - 1) i)) (load2 (s.pG.U k (j + 1) i))
            (s.pG.B2i k (j + 1) i)).d
          - (faceFlux c 0 (load2 (s.pG.U k (j - 1) i)) (load2 (s.pG.U k j i))
            (s.pG.B2i k j i)).d)
      - (locals c s.pG).q3 *
        ((faceFlux c 0 (load3 (s.pG.U (k + 1 - 1) j i)) (load3 (s.pG.U (k + 1) j i))
            (s.pG.B3i (k + 1) j i)).d
          - (faceFlux c 0 (load3 (s.pG.U (k - 1) j i)) (load3 (s.pG.U k j i))
            (s.pG.B3i k j i)).d) := by
  have a1 := (afterStep5_firstOrder c s k j i).1 ⟨by omega, by omega⟩ ⟨by omega, by omega⟩
    ⟨by omega, by omega⟩
  have a2 := (afterStep5_firstOrder c s k j (i + 1)).1 ⟨by omega, by omega⟩
    ⟨by omega, by omega⟩ ⟨by omega, by omega⟩
  have b1 := (afterStep5_firstOrder c s k j i).2.1 ⟨by omega, by omega⟩ ⟨by omega, by omega⟩
    ⟨by omega, by omega⟩
  have b2 := (afterStep5_firstOrder c s k (j + 1) i).2.1 ⟨by omega, by omega⟩
    ⟨by omega, by omega⟩ ⟨by omega, by omega⟩
  have c1 := (afterStep5_firstOrder c s k j i).2.2 ⟨by omega, by omega⟩ ⟨by omega, by omega⟩
    ⟨by omega, by omega⟩
  have c2 := (afterStep5_firstOrder c s (k + 1) j i).2.2 ⟨by omega, by omega⟩
    ⟨by omega, by omega⟩ ⟨by omega, by omega⟩
  rw [afterStep5_interior c s k j i hin]
  simp only [flux3Update, flux2Update, flux1Update, faceAverage]
  rw [a1, a2, b1, b2, c1, c2]

/-- The cell `(0, 0, 0)` is one the half-step update of `demoStateNeg` writes. -/
theorem demoStateNeg_interior :
    (locals demoConfig demoStateNeg.pG).kl + 1 ≤ 0 ∧
      0 ≤ (locals demoConfig demoStateNeg.pG).ku - 1 ∧
      (locals demoConfig demoStateNeg.pG).jl + 1 ≤ 0 ∧
      0 ≤ (locals demoConfig demoStateNeg.pG).ju - 1 ∧
      (locals demoConfig demoStateNeg.pG).il + 1 ≤ 0 ∧
      0 ≤ (locals demoConfig demoStateNeg.pG).iu - 1 :=
  ⟨by decide, by decide, by decide, by decide, by decide, by decide⟩

/-- On `demoStateNeg` the half-step density of the cell `(0, 0, 0)` is `-4`: the x1 mass
fluxes of its faces are `-50` and `50`, and `dt/(2 dx1) = 1/20`. -/
theorem demoStateNeg_density :
    ((afterStep5 demoConfig demoStateNeg).Uhalf 0 0 0).d = -4 := by
  rw [afterStep5_density demoConfig demoStateNeg 0 0 0 demoStateNeg_interior]
  simp only [faceFlux, demoConfig, demoFlux, load1, load2, load3, demoStateNeg, demoGrid,
    locals]
  norm_num

/-- C16, counterexample. On `demoStateNeg`, whose cells all have density 1, the
half-step update gives the cell `(0, 0, 0)`, which it writes, the density `-4`. The call
of `integrate_3d_vl` returns all the same; it signals no fatal error. -/
theorem C16_counterexample :
    (∀ k j i, 0 < (demoStateNeg.pG.U k j i).d) ∧
    ((locals demoConfig demoStateNeg.pG).kl + 1 ≤ 0 ∧
      0 ≤ (locals demoConfig demoStateNeg.pG).ku - 1 ∧
      (locals demoConfig demoStateNeg.pG).jl + 1 ≤ 0 ∧
      0 ≤ (locals demoConfig demoStateNeg.pG).ju - 1 ∧
      (locals demoConfig demoStateNeg.pG).il + 1 ≤ 0 ∧
      0 ≤ (locals demoConfig demoStateNeg.pG).iu - 1) ∧
    ((afterStep5 demoConfig demoStateNeg).Uhalf 0 0 0).d ≤ 0 ∧
    integrate_3d_vl_call demoConfig demoStateNeg =
      Outcome.returned (integrate_3d_vl demoConfig demoStateNeg) ∧
    ∀ msg, integrate_3d_vl_call demoConfig demoStateNeg ≠ Outcome.fatal msg := by
  refine ⟨fun k j i => ?_, demoStateNeg_interior, ?_, rfl, fun msg h => ?_⟩
  · show (0 : ℚ) < 1
    norm_num
  · rw [demoStateNeg_density]; norm_num
  · unfold integrate_3d_vl_call at h
    cases h

/-- C16, as the code has it: a density that is not positive is not reported. Whenever
the half-step update leaves a density `≤ 0` in a cell it writes, or the full-step update
leaves one in a cell of `pG->U` it writes, the call of `integrate_3d_vl` returns to its
caller with the state its steps leave and signals no fatal error; the half-step density
is the value computed from the first-order fluxes, stored as it is. -/
theorem C16_negative_density_unreported (c : Config) (s : State) (k j i : Int) :
    ((((locals c s.pG).kl + 1 ≤ k ∧ k ≤ (locals c s.pG).ku - 1 ∧
          (locals c s.pG).jl + 1 ≤ j ∧ j ≤ (locals c s.pG).ju - 1 ∧
          (locals c s.pG).il + 1 ≤ i ∧ i ≤ (locals c s.pG).iu - 1) ∧
        ((afterStep5 c s).Uhalf k j i).d ≤ 0) ∨
      (((locals c s.pG).kb + 1 ≤ k ∧ k ≤ (locals c s.pG).kt - 1 ∧
          (locals c s.pG).jb + 1 ≤ j ∧ j ≤ (locals c s.pG).jt - 1 ∧
          (locals c s.pG).ib + 1 ≤ i ∧ i ≤ (locals c s.pG).it - 1) ∧
        ((integrate_3d_vl c s).pG.U k j i).d ≤ 0)) →
    integrate_3d_vl_call c s = Outcome.returned (integrate_3d_vl c s) ∧
    (∀ msg, integrate_3d_vl_call c s ≠ Outcome.fatal msg) ∧
    (((locals c s.pG).kl + 1 ≤ k ∧ k ≤ (locals c s.pG).ku - 1 ∧
        (locals c s.pG).jl + 1 ≤ j ∧ j ≤ (locals c s.pG).ju - 1 ∧
        (locals c s.pG).il + 1 ≤ i ∧ i ≤ (locals c s.pG).iu - 1) →
      ((afterStep5 c s).Uhalf k j i).d = (s.pG.U k j i).d
        - (locals c s.pG).q1 *
          ((faceFlux c 0 (load1 (s.pG.U k j (i + 1 - 1))) (load1 (s.pG.U k j (i + 1)))
              (s.pG.B1i k j (i + 1))).d
            - (faceFlux c 0 (load1 (s.pG.U k j (i - 1))) (load1 (s.pG.U k j i))
              (s.pG.B1i k j i)).d)
        - (locals c s.pG).q2 *
          ((faceFlux c 0 (load2 (s.pG.U k (j + 1 - 1) i)) (load2 (s.pG.U k (j + 1) i))
              (s.pG.B2i k (j + 1) i)).d
            - (faceFlux c 0 (load2 (s.pG.U k (j - 1) i)) (load2 (s.pG.U k j i))
              (s.pG.B2i k j i)).d)
        - (locals c s.pG).q3 *
          ((faceFlux c 0 (load3 (s.pG.U (k + 1 - 1) j i)) (load3 (s.pG.U (k + 1) j i))
              (s.pG.B3i (k + 1) j i)).d
            - (faceFlux c 0 (load3 (s.pG.U (k - 1) j i)) (load3 (s.pG.U k j i))
              (s.pG.B3i k j i)).d)) := by
  intro _
  refine ⟨rfl, fun msg hm => ?_, fun hin => afterStep5_density c s k j i hin⟩
  unfold integrate_3d_vl_call at hm
  cases hm

/-- C16 on `demoStateNeg`: the half-step density of the cell `(0, 0, 0)` is `-4` and the
call returns. -/
theorem C16_witness :
    integrate_3d_vl_call demoConfig demoStateNeg =
      Outcome.returned (integrate_3d_vl demoConfig demoStateNeg) :=
  (C16_negative_density_unreported demoConfig demoStateNeg 0 0 0
    (Or.inl ⟨demoStateNeg_interior, by rw [demoStateNeg_density]; norm_num⟩)).1

/-! ## C17: the linear solver on a lower-triangular system -/

/-- A loop whose range is empty does nothing. -/
theorem forLoop_done {σ : Type} (lo hi : Int) (body : Int → σ → σ) (s : σ) (h : hi < lo) :
    forLoop lo hi body s = s := by
  unfold forLoop
  have e : (hi + 1 - lo).toNat = 0 := by omega
  rw [e]
  rfl

/-- A loop runs its first pass and then the passes that remain. -/
theorem forLoop_step {σ : Type} (lo hi : Int) (body : Int → σ → σ) (s : σ) (h : lo ≤ hi) :
    forLoop lo hi body s = forLoop (lo + 1) hi body (body lo s) := by
  unfold forLoop
  have e : (hi + 1 - lo).toNat = (hi + 1 - (lo + 1)).toNat + 1 := by omega
  rw [e]
  rfl

theorem forLoopDown_done {σ : Type} (hi lo : Int) (body : Int → σ → σ) (s : σ) (h : hi < lo) :
    forLoopDown hi lo body s = s := by
  unfold forLoopDown
  have e : (hi + 1 - lo).toNat = 0 := by omega
  rw [e]
  rfl

theorem forLoopDown_step {σ : Type} (hi lo : Int) (body : Int → σ → σ) (s : σ) (h : lo ≤ hi) :
    forLoopDown hi lo body s = forLoopDown (hi - 1) lo body (body hi s) := by
  unfold forLoopDown
  have e : (hi + 1 - lo).toNat = (hi - 1 + 1 - lo).toNat + 1 := by omega
  rw [e]
  rfl

/-- C17 fails on the code: `ludcmp` followed by `lubksb` on the system
`[[1, 0], [1, 1]] x = [1, 1]`, whose only solution is `x = (1, 0)`. `ludcmp` completes
and stores a correct factorisation of the matrix with its rows exchanged (`indx = [1, 1]`,
`L = [[1, 0], [1, 1]]`, `U = [[1, 1], [0, -1]]`). In `lubksb` the first non-zero entry of
the right-hand side is found at `i = 0`, so `ii = i` leaves `ii = 0`, which the test
`if (ii)` reads as "none found yet": the forward substitution leaves `b[1] = 1` where
`0` is due. The back substitution also reads `a[i][n]` and `b[n]`, beyond the arrays;
with `b[n]` read as 0 the vector left in `b` is `(2, -1)`, which fails the first
equation. -/
theorem C17_lubksb_wrong_solution (T : ℚ) (vv0 : Arr1 ℚ) (imax0 : Int) (indx0 : Arr1 Int)
    (a : Arr2 ℚ) (b : Arr1 ℚ)
    (ha : a 0 0 = 1 ∧ a 0 1 = 0 ∧ a 1 0 = 1 ∧ a 1 1 = 1) (hb : b 0 = 1 ∧ b 1 = 1)
    (hb2 : b 2 = 0) :
    ∃ r, ludcmp T true vv0 imax0 a 2 indx0 = .ok r ∧
      (r.1 0 0 = 1 ∧ r.1 0 1 = 1 ∧ r.1 1 0 = 1 ∧ r.1 1 1 = -1 ∧
        r.2.1 0 = 1 ∧ r.2.1 1 = 1 ∧ r.2.2 = -1) ∧
      ((lubksbForward r.1 2 r.2.1 { b := b, ii := 0 }).b 0 = 1 ∧
        (lubksbForward r.1 2 r.2.1 { b := b, ii := 0 }).b 1 = 1) ∧
      (lubksb r.1 2 r.2.1 b 0 = 2 ∧ lubksb r.1 2 r.2.1 b 1 = -1) ∧
      a 0 0 * lubksb r.1 2 r.2.1 b 0 + a 0 1 * lubksb r.1 2 r.2.1 b 1 ≠ b 0 ∧
      (∀ x0 x1 : ℚ, a 0 0 * x0 + a 0 1 * x1 = b 0 ∧ a 1 0 * x0 + a 1 1 * x1 = b 1 ↔
        x0 = 1 ∧ x1 = 0) := by
  obtain ⟨a00, a01, a10, a11⟩ := ha
  obtain ⟨b0, b1⟩ := hb
  norm_num [ludcmp, ludcmpScale, ludcmpColumns, ludcmpUpper, ludcmpPivot, ludcmpSwap,
    ludcmpDivide, rowBig, lubksb, lubksbForward, lubksbBack, forLoop_step, forLoop_done,
    forLoopDown_step, forLoopDown_done, set1, set2, a00, a01, a10, a11, b0, b1, hb2]
  intro x0 x1 h
  subst h
  constructor <;> intro h <;> linarith

/-- C17 on `demoMatrix` and `demoRhs`: the vector `lubksb` leaves is `(2, -1)`. -/
theorem C17_witness :
    ∃ r, ludcmp (1 / 10 ^ 20) true (fun _ => 0) 0 demoMatrix 2 (fun _ => 0) = .ok r ∧
      lubksb r.1 2 r.2.1 demoRhs 0 = 2 ∧ lubksb r.1 2 r.2.1 demoRhs 1 = -1 := by
  obtain ⟨r, h, -, -, h2, -⟩ := C17_lubksb_wrong_solution (1 / 10 ^ 20) (fun _ => 0) 0
    (fun _ => 0) demoMatrix demoRhs
    ⟨by simp [demoMatrix], by simp [demoMatrix], by simp [demoMatrix], by simp [demoMatrix]⟩
    ⟨by simp [demoRhs], by simp [demoRhs]⟩ (by simp [demoRhs])
  exact ⟨r, h, h2⟩

/-! ## C18: the corner EMF rule -/

theorem emf1_cell_terms (s : State) (k j i : Int) :
    emf1_cell s k j i = (1 / 4) * ((s.x3Flux k j i).Bz + (s.x3Flux k (j - 1) i).Bz
          - (s.x2Flux k j i).By - (s.x2Flux (k - 1) j i).By
          + de1_l2 s k j i + de1_r2 s k j i + de1_l3 s k j i + de1_r3 s k j i) := rfl

theorem emf2_cell_terms (s : State) (k j i : Int) :
    emf2_cell s k j i = (1 / 4) * ((s.x1Flux k j i).Bz + (s.x1Flux (k - 1) j i).Bz
          - (s.x3Flux k j i).By - (s.x3Flux k j (i - 1)).By
          + de2_l1 s k j i + de2_r1 s k j i + de2_l3 s k j i + de2_r3 s k j i) := rfl

theorem emf3_cell_terms (s : State) (k j i : Int) :
    emf3_cell s k j i = (1 / 4) * ((s.x2Flux k j (i - 1)).Bz + (s.x2Flux k j i).Bz
          - (s.x1Flux k (j - 1) i).By - (s.x1Flux k j i).By
          + de3_l1 s k j i + de3_r1 s k j i + de3_l2 s k j i + de3_r2 s k j i) := rfl

theorem de1_l3_spec (s : State) (k j i : Int) :
    de1_l3 s k j i = specUpwind (s.x2Flux (k - 1) j i).d
      ((s.x3Flux k (j - 1) i).Bz - s.emf1_cc (k - 1) (j - 1) i)
      ((s.x3Flux k j i).Bz - s.emf1_cc (k - 1) j i) := by
  simp only [de1_l3, specUpwind]
  split_ifs <;> ring

theorem de1_r3_spec (s : State) (k j i : Int) :
    de1_r3 s k j i = specUpwind (s.x2Flux k j i).d
      ((s.x3Flux k (j - 1) i).Bz - s.emf1_cc k (j - 1) i)
      ((s.x3Flux k j i).Bz - s.emf1_cc k j i) := by
  simp only [de1_r3, specUpwind]
  split_ifs <;> ring

theorem de1_l2_spec (s : State) (k j i : Int) :
    de1_l2 s k j i = specUpwind (s.x3Flux k (j - 1) i).d
      (-(s.x2Flux (k - 1) j i).By - s.emf1_cc (k - 1) (j - 1) i)
      (-(s.x2Flux k j i).By - s.emf1_cc k (j - 1) i) := by
  simp only [de1_l2, specUpwind]
  split_ifs <;> ring

theorem de1_r2_spec (s : State) (k j i : Int) :
    de1_r2 s k j i = specUpwind (s.x3Flux k j i).d
      (-(s.x2Flux (k - 1) j i).By - s.emf1_cc (k - 1) j i)
      (-(s.x2Flux k j i).By - s.emf1_cc k j i) := by
  simp only [de1_r2, specUpwind]
  split_ifs <;> ring

theorem de2_l3_spec (s : State) (k j i : Int) :
    de2_l3 s k j i = specUpwind (s.x1Flux (k - 1) j i).d
      (-(s.x3Flux k j (i - 1)).By - s.emf2_cc (k - 1) j (i - 1))
      (-(s.x3Flux k j i).By - s.emf2_cc (k - 1) j i) := by
  simp only [de2_l3, specUpwind]
  split_ifs <;> ring

theorem de2_r3_spec (s : State) (k j i : Int) :
    de2_r3 s k j i = specUpwind (s.x1Flux k j i).d
      (-(s.x3Flux k j (i - 1)).By - s.emf2_cc k j (i - 1))
      (-(s.x3Flux k j i).By - s.emf2_cc k j i) := by
  simp only [de2_r3, specUpwind]
  split_ifs <;> ring

theorem de2_l1_spec (s : State) (k j i : Int) :
    de2_l1 s k j i = specUpwind (s.x3Flux k j (i - 1)).d
      ((s.x1Flux (k - 1) j i).Bz - s.emf2_cc (k - 1) j (i - 1))
      ((s.x1Flux k j i).Bz - s.emf2_cc k j (i - 1)) := by
  simp only [de2_l1, specUpwind]
  split_ifs <;> ring

theorem de2_r1_spec (s : State) (k j i : Int) :
    de2_r1 s k j i = specUpwind (s.x3Flux k j i).d
      ((s.x1Flux (k - 1) j i).Bz - s.emf2_cc (k - 1) j i)
      ((s.x1Flux k j i).Bz - s.emf2_cc k j i) := by
  simp only [de2_r1, specUpwind]
  split_ifs <;> ring

theorem de3_l2_spec (s : State) (k j i : Int) :
    de3_l2 s k j i = specUpwind (s.x1Flux k (j - 1) i).d
      ((s.x2Flux k j (i - 1)).Bz - s.emf3_cc k (j - 1) (i - 1))
      ((s.x2Flux k j i).Bz - s.emf3_cc k (j - 1) i) := by
  simp only [de3_l2, specUpwind]
  split_ifs <;> ring

theorem de3_r2_spec (s : State) (k j i : Int) :
    de3_r2 s k j i = specUpwind (s.x1Flux k j i).d
      ((s.x2Flux k j (i - 1)).Bz - s.emf3_cc k j (i - 1))
      ((s.x2Flux k j i).Bz - s.emf3_cc k j i) := by
  simp only [de3_r2, specUpwind]
  split_ifs <;> ring

theorem de3_l1_spec (s : State) (k j i : Int) :
    de3_l1 s k j i = specUpwind (s.x2Flux k j (i - 1)).d
      (-(s.x1Flux k (j - 1) i).By - s.emf3_cc k (j - 1) (i - 1))
      (-(s.x1Flux k j i).By - s.emf3_cc k j (i - 1)) := by
  simp only [de3_l1, specUpwind]
  split_ifs <;> ring

theorem de3_r1_spec (s : State) (k j i : Int) :
    de3_r1 s k j i = specUpwind (s.x2Flux k j i).d
      (-(s.x1Flux k (j - 1) i).By - s.emf3_cc k (j - 1) i)
      (-(s.x1Flux k j i).By - s.emf3_cc k j i) := by
  simp only [de3_r1, specUpwind]
  split_ifs <;> ring

/-- The source's `emf1[k][j][i]` is the corner EMF rule of the specification for the
direction `x1`. -/
theorem emf1_cell_spec (s : State) (k j i : Int) :
    emf1_cell s k j i = specCornerEmf s Dir.x1 k j i := by
  rw [emf1_cell_terms, de1_l3_spec, de1_r3_spec, de1_l2_spec, de1_r2_spec]
  simp only [specCornerEmf, Dir.next, Dir.down, fluxAt, ccAt]
  ring

/-- The array `emf1` after `integrate_emf1_corner`, on the edges the function visits. -/
theorem integrate_emf1_corner_at (c : Config) (s : State) (k j i : Int)
    (h : (locals c s.pG).kl + 1 ≤ k ∧ k ≤ (locals c s.pG).ku ∧
      (locals c s.pG).jl + 1 ≤ j ∧ j ≤ (locals c s.pG).ju ∧
      (locals c s.pG).il + 1 ≤ i ∧ i ≤ (locals c s.pG).iu - 1) :
    (integrate_emf1_corner c s).emf1 k j i = emf1_cell s k j i := by
  rw [integrate_emf1_corner_eq]
  simp only [locals] at h
  simp only [lensEmf1, cellMap, h, and_self, if_true]

/-- The source's `emf2[k][j][i]` is the corner EMF rule of the specification for the
direction `x2`. -/
theorem emf2_cell_spec (s : State) (k j i : Int) :
    emf2_cell s k j i = specCornerEmf s Dir.x2 k j i := by
  rw [emf2_cell_terms, de2_l3_spec, de2_r3_spec, de2_l1_spec, de2_r1_spec]
  simp only [specCornerEmf, Dir.next, Dir.down, fluxAt, ccAt]
  ring

/-- The array `emf2` after `integrate_emf2_corner`, on the edges the function visits. -/
theorem integrate_emf2_corner_at (c : Config) (s : State) (k j i : Int)
    (h : (locals c s.pG).kl + 1 ≤ k ∧ k ≤ (locals c s.pG).ku ∧
      (locals c s.pG).jl + 1 ≤ j ∧ j ≤ (locals c s.pG).ju - 1 ∧
      (locals c s.pG).il + 1 ≤ i ∧ i ≤ (locals c s.pG).iu) :
    (integrate_emf2_corner c s).emf2 k j i = emf2_cell s k j i := by
  rw [integrate_emf2_corner_eq]
  simp only [locals] at h
  simp only [lensEmf2, cellMap, h, and_self, if_true]

/-- The source's `emf3[k][j][i]` is the corner EMF rule of the specification for the
direction `x3`. -/
theorem emf3_cell_spec (s : State) (k j i : Int) :
    emf3_cell s k j i = specCornerEmf s Dir.x3 k j i := by
  rw [emf3_cell_terms, de3_l2_spec, de3_r2_spec, de3_l1_spec, de3_r1_spec]
  simp only [specCornerEmf, Dir.next, Dir.down, fluxAt, ccAt]
  ring

/-- The array `emf3` after `integrate_emf3_corner`, on the edges the function visits. -/
theorem integrate_emf3_corner_at (c : Config) (s : State) (k j i : Int)
    (h : (locals c s.pG).kl + 1 ≤ k ∧ k ≤ (locals c s.pG).ku - 1 ∧
      (locals c s.pG).jl + 1 ≤ j ∧ j ≤ (locals c s.pG).ju ∧
      (locals c s.pG).il + 1 ≤ i ∧ i ≤ (locals c s.pG).iu) :
    (integrate_emf3_corner c s).emf3 k j i = emf3_cell s k j i := by
  rw [integrate_emf3_corner_eq]
  simp only [locals] at h
  simp only [lensEmf3, cellMap, h, and_self, if_true]

/-- C18: the corner EMF rule. On every edge with `kl+1 ≤ k ≤ ku`, `jl+1 ≤ j ≤ ju`,
`il+1 ≤ i ≤ iu-1`, `integrate_emf1_corner` sets `emf1[k][j][i]` to a quarter of
`x3Flux[k][j][i].Bz + x3Flux[k][j-1][i].Bz - x2Flux[k][j][i].By - x2Flux[k-1][j][i].By
+ de1_l2 + de1_r2 + de1_l3 + de1_r3`; each derivative term is a face EMF minus a
cell-centred EMF taken on the lower-index side when its selecting mass flux is positive
and on the higher-index side when it is negative, `de1_l3` and `de1_r3` being selected
by `x2Flux[k-1][j][i].d` and `x2Flux[k][j][i].d`, `de1_l2` and `de1_r2` by
`x3Flux[k][j-1][i].d` and `x3Flux[k][j][i].d`. This is `specCornerEmf` for the direction
`x1`, and `integrate_emf2_corner` and `integrate_emf3_corner` set `emf2` and `emf3`, on
the edges they visit, to `specCornerEmf` for `x2` and `x3`: the same rule under the
cyclic relabelling of directions. -/
theorem C18_corner_emf_rule (c : Config) (s : State) (k j i : Int) :
    ((locals c s.pG).kl + 1 ≤ k ∧ k ≤ (locals c s.pG).ku ∧
      (locals c s.pG).jl + 1 ≤ j ∧ j ≤ (locals c s.pG).ju ∧
      (locals c s.pG).il + 1 ≤ i ∧ i ≤ (locals c s.pG).iu - 1 →
      (integrate_emf1_corner c s).emf1 k j i = (1 / 4) * ((s.x3Flux k j i).Bz + (s.x3Flux k (j - 1) i).Bz
          - (s.x2Flux k j i).By - (s.x2Flux (k - 1) j i).By
          + de1_l2 s k j i + de1_r2 s k j i + de1_l3 s k j i + de1_r3 s k j i)) ∧
    (((s.x2Flux (k - 1) j i).d > 0 → de1_l3 s k j i =
        (s.x3Flux k (j - 1) i).Bz - s.emf1_cc (k - 1) (j - 1) i) ∧
      ((s.x2Flux (k - 1) j i).d < 0 → de1_l3 s k j i =
        (s.x3Flux k j i).Bz - s.emf1_cc (k - 1) j i)) ∧
    (((s.x2Flux k j i).d > 0 → de1_r3 s k j i =
        (s.x3Flux k (j - 1) i).Bz - s.emf1_cc k (j - 1) i) ∧
      ((s.x2Flux k j i).d < 0 → de1_r3 s k j i =
        (s.x3Flux k j i).Bz - s.emf1_cc k j i)) ∧
    (((s.x3Flux k (j - 1) i).d > 0 → de1_l2 s k j i =
        -(s.x2Flux (k - 1) j i).By - s.emf1_cc (k - 1) (j - 1) i) ∧
      ((s.x3Flux k (j - 1) i).d < 0 → de1_l2 s k j i =
        -(s.x2Flux k j i).By - s.emf1_cc k (j - 1) i)) ∧
    (((s.x3Flux k j i).d > 0 → de1_r2 s k j i =
        -(s.x2Flux (k - 1) j i).By - s.emf1_cc (k - 1) j i) ∧
      ((s.x3Flux k j i).d < 0 → de1_r2 s k j i =
        -(s.x2Flux k j i).By - s.emf1_cc k j i)) ∧
    ((locals c s.pG).kl + 1 ≤ k ∧ k ≤ (locals c s.pG).ku ∧
      (locals c s.pG).jl + 1 ≤ j ∧ j ≤ (locals c s.pG).ju ∧
      (locals c s.pG).il + 1 ≤ i ∧ i ≤ (locals c s.pG).iu - 1 →
      (integrate_emf1_corner c s).emf1 k j i = specCornerEmf s Dir.x1 k j i) ∧
    ((locals c s.pG).kl + 1 ≤ k ∧ k ≤ (locals c s.pG).ku ∧
      (locals c s.pG).jl + 1 ≤ j ∧ j ≤ (locals c s.pG).ju - 1 ∧
      (locals c s.pG).il + 1 ≤ i ∧ i ≤ (locals c s.pG).iu →
      (integrate_emf2_corner c s).emf2 k j i = specCornerEmf s Dir.x2 k j i) ∧
    ((locals c s.pG).kl + 1 ≤ k ∧ k ≤ (locals c s.pG).ku - 1 ∧
      (locals c s.pG).jl + 1 ≤ j ∧ j ≤ (locals c s.pG).ju ∧
      (locals c s.pG).il + 1 ≤ i ∧ i ≤ (locals c s.pG).iu →
      (integrate_emf3_corner c s).emf3 k j i = specCornerEmf s Dir.x3 k j i) := by
  refine ⟨fun h => ?_, ?_, ?_, ?_, ?_, fun h => ?_, fun h => ?_, fun h => ?_⟩
  · rw [integrate_emf1_corner_at c s k j i h, emf1_cell_terms]
  · constructor
    · intro h
      simp only [de1_l3, h, if_true]
    · intro h
      have h' : ¬ (s.x2Flux (k - 1) j i).d > 0 := not_lt.2 h.le
      simp only [de1_l3, h, h', if_true, if_false]
  · constructor
    · intro h
      simp only [de1_r3, h, if_true]
    · intro h
      have h' : ¬ (s.x2Flux k j i).d > 0 := not_lt.2 h.le
      simp only [de1_r3, h, h', if_true, if_false]
  · constructor
    · intro h
      simp only [de1_l2, h, if_true]
    · intro h
      have h' : ¬ (s.x3Flux k (j - 1) i).d > 0 := not_lt.2 h.le
      simp only [de1_l2, h, h', if_true, if_false]
  · constructor
    · intro h
      simp only [de1_r2, h, if_true]
    · intro h
      have h' : ¬ (s.x3Flux k j i).d > 0 := not_lt.2 h.le
      simp only [de1_r2, h, h', if_true, if_false]
  · rw [integrate_emf1_corner_at c s k j i h, emf1_cell_spec]
  · rw [integrate_emf2_corner_at c s k j i h, emf2_cell_spec]
  · rw [integrate_emf3_corner_at c s k j i h, emf3_cell_spec]

/-- C18 on `demoState`: the three corner EMFs of the edge `(0, 0, 0)`. -/
theorem C18_witness :
    (integrate_emf1_corner demoConfig demoState).emf1 0 0 0 =
      specCornerEmf demoState Dir.x1 0 0 0 ∧
    (integrate_emf2_corner demoConfig demoState).emf2 0 0 0 =
      specCornerEmf demoState Dir.x2 0 0 0 ∧
    (integrate_emf3_corner demoConfig demoState).emf3 0 0 0 =
      specCornerEmf demoState Dir.x3 0 0 0 :=
  ⟨(C18_corner_emf_rule demoConfig demoState 0 0 0).2.2.2.2.2.1
      ⟨by decide, by decide, by decide, by decide, by decide, by decide⟩,
    (C18_corner_emf_rule demoConfig demoState 0 0 0).2.2.2.2.2.2.1
      ⟨by decide, by decide, by decide, by decide, by decide, by decide⟩,
    (C18_corner_emf_rule demoConfig demoState 0 0 0).2.2.2.2.2.2.2
      ⟨by decide, by decide, by decide, by decide, by decide, by decide⟩⟩

/-! ## C19: a zero mass flux selects the centred average -/

/-- C19: a zero mass flux selects the centred average. For each of the twelve
derivative terms of `integrate_emf1_corner`, `integrate_emf2_corner` and
`integrate_emf3_corner`, and for all contents of the flux and cell-centred EMF arrays:
the value of the term when its selecting face mass flux is exactly 0 is one half of the
sum of its value when that mass flux is a positive `mp` and its value when it is a
negative `mn`, everything else being the same. -/
theorem C19_zero_mass_flux_centred (s : State) (k j i : Int) (mp mn : ℚ)
    (hp : 0 < mp) (hn : mn < 0) :
    de1_l3 { s with x2Flux := setD s.x2Flux (k - 1) j i 0 } k j i =
      (1 / 2) * (de1_l3 { s with x2Flux := setD s.x2Flux (k - 1) j i mp } k j i +
        de1_l3 { s with x2Flux := setD s.x2Flux (k - 1) j i mn } k j i) ∧
    de1_r3 { s with x2Flux := setD s.x2Flux k j i 0 } k j i =
      (1 / 2) * (de1_r3 { s with x2Flux := setD s.x2Flux k j i mp } k j i +
        de1_r3 { s with x2Flux := setD s.x2Flux k j i mn } k j i) ∧
    de1_l2 { s with x3Flux := setD s.x3Flux k (j - 1) i 0 } k j i =
      (1 / 2) * (de1_l2 { s with x3Flux := setD s.x3Flux k (j - 1) i mp } k j i +
        de1_l2 { s with x3Flux := setD s.x3Flux k (j - 1) i mn } k j i) ∧
    de1_r2 { s with x3Flux := setD s.x3Flux k j i 0 } k j i =
      (1 / 2) * (de1_r2 { s with x3Flux := setD s.x3Flux k j i mp } k j i +
        de1_r2 { s with x3Flux := setD s.x3Flux k j i mn } k j i) ∧
    de2_l3 { s with x1Flux := setD s.x1Flux (k - 1) j i 0 } k j i =
      (1 / 2) * (de2_l3 { s with x1Flux := setD s.x1Flux (k - 1) j i mp } k j i +
        de2_l3 { s with x1Flux := setD s.x1Flux (k - 1) j i mn } k j i) ∧
    de2_r3 { s with x1Flux := setD s.x1Flux k j i 0 } k j i =
      (1 / 2) * (de2_r3 { s with x1Flux := setD s.x1Flux k j i mp } k j i +
        de2_r3 { s with x1Flux := setD s.x1Flux k j i mn } k j i) ∧
    de2_l1 { s with x3Flux := setD s.x3Flux k j (i - 1) 0 } k j i =
      (1 / 2) * (de2_l1 { s with x3Flux := setD s.x3Flux k j (i - 1) mp } k j i +
        de2_l1 { s with x3Flux := setD s.x3Flux k j (i - 1) mn } k j i) ∧
    de2_r1 { s with x3Flux := setD s.x3Flux k j i 0 } k j i =
      (1 / 2) * (de2_r1 { s with x3Flux := setD s.x3Flux k j i mp } k j i +
        de2_r1 { s with x3Flux := setD s.x3Flux k j i mn } k j i) ∧
    de3_l2 { s with x1Flux := setD s.x1Flux k (j - 1) i 0 } k j i =
      (1 / 2) * (de3_l2 { s with x1Flux := setD s.x1Flux k (j - 1) i mp } k j i +
        de3_l2 { s with x1Flux := setD s.x1Flux k (j - 1) i mn } k j i) ∧
    de3_r2 { s with x1Flux := setD s.x1Flux k j i 0 } k j i =
      (1 / 2) * (de3_r2 { s with x1Flux := setD s.x1Flux k j i mp } k j i +
        de3_r2 { s with x1Flux := setD s.x1Flux k j i mn } k j i) ∧
    de3_l1 { s with x2Flux := setD s.x2Flux k j (i - 1) 0 } k j i =
      (1 / 2) * (de3_l1 { s with x2Flux := setD s.x2Flux k j (i - 1) mp } k j i +
        de3_l1 { s with x2Flux := setD s.x2Flux k j (i - 1) mn } k j i) ∧
    de3_r1 { s with x2Flux := setD s.x2Flux k j i 0 } k j i =
      (1 / 2) * (de3_r1 { s with x2Flux := setD s.x2Flux k j i mp } k j i +
        de3_r1 { s with x2Flux := setD s.x2Flux k j i mn } k j i) := by
  have h1 : ¬ (0 : ℚ) < 0 := lt_irrefl 0
  have h2 : ¬ 0 < mn := not_lt.2 hn.le
  refine ⟨?_, ?_, ?_, ?_, ?_, ?_, ?_, ?_, ?_, ?_, ?_, ?_⟩
  · simp only [de1_l3, setD, set3, and_self, if_true, gt_iff_lt, h1, h2, hp, hn, if_false]
    ring
  · simp only [de1_r3, setD, set3, and_self, if_true, gt_iff_lt, h1, h2, hp, hn, if_false]
    ring
  · simp only [de1_l2, setD, set3, and_self, if_true, gt_iff_lt, h1, h2, hp, hn, if_false]
    ring
  · simp only [de1_r2, setD, set3, and_self, if_true, gt_iff_lt, h1, h2, hp, hn, if_false]
    ring
  · simp only [de2_l3, setD, set3, and_self, if_true, gt_iff_lt, h1, h2, hp, hn, if_false]
    ring
  · simp only [de2_r3, setD, set3, and_self, if_true, gt_iff_lt, h1, h2, hp, hn, if_false]
    ring
  · simp only [de2_l1, setD, set3, and_self, if_true, gt_iff_lt, h1, h2, hp, hn, if_false]
    ring
  · simp only [de2_r1, setD, set3, and_self, if_true, gt_iff_lt, h1, h2, hp, hn, if_false]
    ring
  · simp only [de3_l2, setD, set3, and_self, if_true, gt_iff_lt, h1, h2, hp, hn, if_false]
    ring
  · simp only [de3_r2, setD, set3, and_self, if_true, gt_iff_lt, h1, h2, hp, hn, if_false]
    ring
  · simp only [de3_l1, setD, set3, and_self, if_true, gt_iff_lt, h1, h2, hp, hn, if_false]
    ring
  · simp only [de3_r1, setD, set3, and_self, if_true, gt_iff_lt, h1, h2, hp, hn, if_false]
    ring

/-- C19 on `demoState`, for the term `de1_l3` at the edge `(0, 0, 0)` with the mass
fluxes `1` and `-1`. -/
theorem C19_witness :
    de1_l3 { demoState with x2Flux := setD demoState.x2Flux (0 - 1) 0 0 0 } 0 0 0 =
      (1 / 2) * (de1_l3 { demoState with x2Flux := setD demoState.x2Flux (0 - 1) 0 0 1 } 0 0 0 +
        de1_l3 { demoState with x2Flux := setD demoState.x2Flux (0 - 1) 0 0 (-1) } 0 0 0) :=
  (C19_zero_mass_flux_centred demoState 0 0 0 1 (-1) (by norm_num) (by norm_num)).1

/-! ## C28: the corner EMF of a uniform EMF -/

/-- When the four face EMFs and the four cell-centred EMFs around an edge all equal
`E`, the derivative terms of `integrate_emf1_corner` vanish and the corner value is `E`,
whatever the mass fluxes are. -/
theorem emf1_cell_of_uniform (s : State) (k j i : Int) (E : ℚ)
    (h : (s.x3Flux k j i).Bz = E ∧ (s.x3Flux k (j - 1) i).Bz = E ∧ (s.x2Flux k j i).By = -E ∧ (s.x2Flux (k - 1) j i).By = -E ∧
      s.emf1_cc (k - 1) (j - 1) i = E ∧ s.emf1_cc (k - 1) j i = E ∧
      s.emf1_cc k (j - 1) i = E ∧ s.emf1_cc k j i = E) :
    (de1_l2 s k j i = 0 ∧ de1_r2 s k j i = 0 ∧ de1_l3 s k j i = 0 ∧ de1_r3 s k j i = 0) ∧
      emf1_cell s k j i = E := by
  obtain ⟨a1, a2, a3, a4, a5, a6, a7, a8⟩ := h
  have t1 : de1_l2 s k j i = 0 := by
    simp only [de1_l2, a1, a2, a3, a4, a5, a6, a7, a8]
    split_ifs <;> ring
  have t2 : de1_r2 s k j i = 0 := by
    simp only [de1_r2, a1, a2, a3, a4, a5, a6, a7, a8]
    split_ifs <;> ring
  have t3 : de1_l3 s k j i = 0 := by
    simp only [de1_l3, a1, a2, a3, a4, a5, a6, a7, a8]
    split_ifs <;> ring
  have t4 : de1_r3 s k j i = 0 := by
    simp only [de1_r3, a1, a2, a3, a4, a5, a6, a7, a8]
    split_ifs <;> ring
  refine ⟨⟨t1, t2, t3, t4⟩, ?_⟩
  rw [emf1_cell_terms, t1, t2, t3, t4, a1, a2, a3, a4]
  ring

/-- When the four face EMFs and the four cell-centred EMFs around an edge all equal
`E`, the derivative terms of `integrate_emf2_corner` vanish and the corner value is `E`,
whatever the mass fluxes are. -/
theorem emf2_cell_of_uniform (s : State) (k j i : Int) (E : ℚ)
    (h : (s.x1Flux k j i).Bz = E ∧ (s.x1Flux (k - 1) j i).Bz = E ∧ (s.x3Flux k j i).By = -E ∧ (s.x3Flux k j (i - 1)).By = -E ∧
      s.emf2_cc (k - 1) j (i - 1) = E ∧ s.emf2_cc (k - 1) j i = E ∧
      s.emf2_cc k j (i - 1) = E ∧ s.emf2_cc k j i = E) :
    (de2_l1 s k j i = 0 ∧ de2_r1 s k j i = 0 ∧ de2_l3 s k j i = 0 ∧ de2_r3 s k j i = 0) ∧
      emf2_cell s k j i = E := by
  obtain ⟨a1, a2, a3, a4, a5, a6, a7, a8⟩ := h
  have t1 : de2_l1 s k j i = 0 := by
    simp only [de2_l1, a1, a2, a3, a4, a5, a6, a7, a8]
    split_ifs <;> ring
  have t2 : de2_r1 s k j i = 0 := by
    simp only [de2_r1, a1, a2, a3, a4, a5, a6, a7, a8]
    split_ifs <;> ring
  have t3 : de2_l3 s k j i = 0 := by
    simp only [de2_l3, a1, a2, a3, a4, a5, a6, a7, a8]
    split_ifs <;> ring
  have t4 : de2_r3 s k j i = 0 := by
    simp only [de2_r3, a1, a2, a3, a4, a5, a6, a7, a8]
    split_ifs <;> ring
  refine ⟨⟨t1, t2, t3, t4⟩, ?_⟩
  rw [emf2_cell_terms, t1, t2, t3, t4, a1, a2, a3, a4]
  ring

/-- When the four face EMFs and the four cell-centred EMFs around an edge all equal
`E`, the derivative terms of `integrate_emf3_corner` vanish and the corner value is `E`,
whatever the mass fluxes are. -/
theorem emf3_cell_of_uniform (s : State) (k j i : Int) (E : ℚ)
    (h : (s.x2Flux k j (i - 1)).Bz = E ∧ (s.x2Flux k j i).Bz = E ∧ (s.x1Flux k (j - 1) i).By = -E ∧ (s.x1Flux k j i).By = -E ∧
      s.emf3_cc k (j - 1) (i - 1) = E ∧ s.emf3_cc k (j - 1) i = E ∧
      s.emf3_cc k j (i - 1) = E ∧ s.emf3_cc k j i = E) :
    (de3_l1 s k j i = 0 ∧ de3_r1 s k j i = 0 ∧ de3_l2 s k j i = 0 ∧ de3_r2 s k j i = 0) ∧
      emf3_cell s k j i = E := by
  obtain ⟨a1, a2, a3, a4, a5, a6, a7, a8⟩ := h
  have t1 : de3_l1 s k j i = 0 := by
    simp only [de3_l1, a1, a2, a3, a4, a5, a6, a7, a8]
    split_ifs <;> ring
  have t2 : de3_r1 s k j i = 0 := by
    simp only [de3_r1, a1, a2, a3, a4, a5, a6, a7, a8]
    split_ifs <;> ring
  have t3 : de3_l2 s k j i = 0 := by
    simp only [de3_l2, a1, a2, a3, a4, a5, a6, a7, a8]
    split_ifs <;> ring
  have t4 : de3_r2 s k j i = 0 := by
    simp only [de3_r2, a1, a2, a3, a4, a5, a6, a7, a8]
    split_ifs <;> ring
  refine ⟨⟨t1, t2, t3, t4⟩, ?_⟩
  rw [emf3_cell_terms, t1, t2, t3, t4, a1, a2, a3, a4]
  ring

/-- C28: the corner EMF reproduces a uniform EMF. For every `E` and whatever the signs
of the mass fluxes, if the four face EMFs that bracket an edge equal `E` (`x3Flux.Bz = E`
and `x2Flux.By = -E` for `emf1`, the corresponding slots for `emf2` and `emf3`) and the
four adjacent cell-centred EMFs equal `E`, then each of the four derivative terms is 0
and the corner EMF is `E`: that is the value `integrate_emf1_corner`,
`integrate_emf2_corner`, `integrate_emf3_corner` store on the edges they visit. -/
theorem C28_uniform_emf_reproduced (c : Config) (s : State) (k j i : Int) (E : ℚ) :
    ((s.x3Flux k j i).Bz = E ∧ (s.x3Flux k (j - 1) i).Bz = E ∧
      (s.x2Flux k j i).By = -E ∧ (s.x2Flux (k - 1) j i).By = -E ∧
      s.emf1_cc (k - 1) (j - 1) i = E ∧ s.emf1_cc (k - 1) j i = E ∧
      s.emf1_cc k (j - 1) i = E ∧ s.emf1_cc k j i = E →
      (de1_l2 s k j i = 0 ∧ de1_r2 s k j i = 0 ∧ de1_l3 s k j i = 0 ∧ de1_r3 s k j i = 0) ∧
      emf1_cell s k j i = E ∧
      ((locals c s.pG).kl + 1 ≤ k ∧ k ≤ (locals c s.pG).ku ∧
        (locals c s.pG).jl + 1 ≤ j ∧ j ≤ (locals c s.pG).ju ∧
        (locals c s.pG).il + 1 ≤ i ∧ i ≤ (locals c s.pG).iu - 1 →
        (integrate_emf1_corner c s).emf1 k j i = E)) ∧
    ((s.x1Flux k j i).Bz = E ∧ (s.x1Flux (k - 1) j i).Bz = E ∧
      (s.x3Flux k j i).By = -E ∧ (s.x3Flux k j (i - 1)).By = -E ∧
      s.emf2_cc (k - 1) j (i - 1) = E ∧ s.emf2_cc (k - 1) j i = E ∧
      s.emf2_cc k j (i - 1) = E ∧ s.emf2_cc k j i = E →
      (de2_l1 s k j i = 0 ∧ de2_r1 s k j i = 0 ∧ de2_l3 s k j i = 0 ∧ de2_r3 s k j i = 0) ∧
      emf2_cell s k j i = E ∧
      ((locals c s.pG).kl + 1 ≤ k ∧ k ≤ (locals c s.pG).ku ∧
        (locals c s.pG).jl + 1 ≤ j ∧ j ≤ (locals c s.pG).ju - 1 ∧
        (locals c s.pG).il + 1 ≤ i ∧ i ≤ (locals c s.pG).iu →
        (integrate_emf2_corner c s).emf2 k j i = E)) ∧
    ((s.x2Flux k j (i - 1)).Bz = E ∧ (s.x2Flux k j i).Bz = E ∧
      (s.x1Flux k (j - 1) i).By = -E ∧ (s.x1Flux k j i).By = -E ∧
      s.emf3_cc k (j - 1) (i - 1) = E ∧ s.emf3_cc k (j - 1) i = E ∧
      s.emf3_cc k j (i - 1) = E ∧ s.emf3_cc k j i = E →
      (de3_l1 s k j i = 0 ∧ de3_r1 s k j i = 0 ∧ de3_l2 s k j i = 0 ∧ de3_r2 s k j i = 0) ∧
      emf3_cell s k j i = E ∧
      ((locals c s.pG).kl + 1 ≤ k ∧ k ≤ (locals c s.pG).ku - 1 ∧
        (locals c s.pG).jl + 1 ≤ j ∧ j ≤ (locals c s.pG).ju ∧
        (locals c s.pG).il + 1 ≤ i ∧ i ≤ (locals c s.pG).iu →
        (integrate_emf3_corner c s).emf3 k j i = E)) := by
  refine ⟨fun h => ?_, fun h => ?_, fun h => ?_⟩
  · obtain ⟨t, e⟩ := emf1_cell_of_uniform s k j i E h
    exact ⟨t, e, fun hr => (integrate_emf1_corner_at c s k j i hr).trans e⟩
  · obtain ⟨t, e⟩ := emf2_cell_of_uniform s k j i E h
    exact ⟨t, e, fun hr => (integrate_emf2_corner_at c s k j i hr).trans e⟩
  · obtain ⟨t, e⟩ := emf3_cell_of_uniform s k j i E h
    exact ⟨t, e, fun hr => (integrate_emf3_corner_at c s k j i hr).trans e⟩

/-- C28 on `demoStateEmf`, where every face and cell-centred EMF is 3: the corner value
`emf1[0][0][0]` is 3. -/
theorem C28_witness : emf1_cell demoStateEmf 0 0 0 = 3 :=
  ((C28_uniform_emf_reproduced demoConfig demoStateEmf 0 0 0 3).1
    ⟨rfl, rfl, rfl, rfl, rfl, rfl, rfl, rfl⟩).2.1

/-! ## C23: the directional permutations -/

/-- C23: the directional permutations are mutually inverse. The loads of the three
sweeps are the cyclic permutations `x1: (M1, M2, M3)`, `x2: (M2, M3, M1)`,
`x3: (M3, M1, M2)` of the momenta into `(Mx, My, Mz)`, with the two tangential field
components in `(By, Bz)`, and the predictor loads (from `pG->U`) and the corrector loads
(from `Uhalf`) are the same maps. The flux updates of Steps 5 and 13 apply to each
component the slot it was loaded into: if the fluxes of the two faces of a cell are the
loads of `lo` and `hi`, the update subtracts `r (hi - lo)` component by component; and
the register entry made from a loaded cell gives each momentum and each tangential field
component back, with 0 for the normal field. -/
theorem C23_permutations_inverse (r : ℚ) (F : Arr3 Cons1D) (k j i : Int) (u lo hi : Gas) :
    (load1 u = { d := u.d, Mx := u.M1, My := u.M2, Mz := u.M3, E := u.E,
                 By := u.B2c, Bz := u.B3c } ∧
     load2 u = { d := u.d, Mx := u.M2, My := u.M3, Mz := u.M1, E := u.E,
                 By := u.B3c, Bz := u.B1c } ∧
     load3 u = { d := u.d, Mx := u.M3, My := u.M1, Mz := u.M2, E := u.E,
                 By := u.B1c, Bz := u.B2c }) ∧
    (∀ s : State,
      (step1_load k j i s).Ur i = load1 (s.pG.U k j i) ∧
      (step1_load k j i s).Ul i = load1 (s.pG.U k j (i - 1)) ∧
      (step7_load k j i s).U1d i = load1 (s.Uhalf k j i) ∧
      (step2_load k j i s).Ur j = load2 (s.pG.U k j i) ∧
      (step2_load k j i s).Ul j = load2 (s.pG.U k (j - 1) i) ∧
      (step8_load k j i s).U1d j = load2 (s.Uhalf k j i) ∧
      (step3_load k j i s).Ur k = load3 (s.pG.U k j i) ∧
      (step3_load k j i s).Ul k = load3 (s.pG.U (k - 1) j i) ∧
      (step9_load k j i s).U1d k = load3 (s.Uhalf k j i)) ∧
    (F k j i = load1 lo → F k j (i + 1) = load1 hi →
      (flux1Update r F k j i u).d = u.d - r * (hi.d - lo.d) ∧
      (flux1Update r F k j i u).M1 = u.M1 - r * (hi.M1 - lo.M1) ∧
      (flux1Update r F k j i u).M2 = u.M2 - r * (hi.M2 - lo.M2) ∧
      (flux1Update r F k j i u).M3 = u.M3 - r * (hi.M3 - lo.M3) ∧
      (flux1Update r F k j i u).E = u.E - r * (hi.E - lo.E)) ∧
    (F k j i = load2 lo → F k (j + 1) i = load2 hi →
      (flux2Update r F k j i u).d = u.d - r * (hi.d - lo.d) ∧
      (flux2Update r F k j i u).M1 = u.M1 - r * (hi.M1 - lo.M1) ∧
      (flux2Update r F k j i u).M2 = u.M2 - r * (hi.M2 - lo.M2) ∧
      (flux2Update r F k j i u).M3 = u.M3 - r * (hi.M3 - lo.M3) ∧
      (flux2Update r F k j i u).E = u.E - r * (hi.E - lo.E)) ∧
    (F k j i = load3 lo → F (k + 1) j i = load3 hi →
      (flux3Update r F k j i u).d = u.d - r * (hi.d - lo.d) ∧
      (flux3Update r F k j i u).M1 = u.M1 - r * (hi.M1 - lo.M1) ∧
      (flux3Update r F k j i u).M2 = u.M2 - r * (hi.M2 - lo.M2) ∧
      (flux3Update r F k j i u).M3 = u.M3 - r * (hi.M3 - lo.M3) ∧
      (flux3Update r F k j i u).E = u.E - r * (hi.E - lo.E)) ∧
    (∀ (l : Locals) (s : State),
      step5a l s = lensUhalf.set s (cellMap (l.kl + 1) (l.ku - 1) (l.jl + 1) (l.ju - 1)
        (l.il + 1) (l.iu - 1) (flux1Update l.q1 s.x1Flux) s.Uhalf) ∧
      step5b l s = lensUhalf.set s (cellMap (l.kl + 1) (l.ku - 1) (l.jl + 1) (l.ju - 1)
        (l.il + 1) (l.iu - 1) (flux2Update l.q2 s.x2Flux) s.Uhalf) ∧
      step5c l s = lensUhalf.set s (cellMap (l.kl + 1) (l.ku - 1) (l.jl + 1) (l.ju - 1)
        (l.il + 1) (l.iu - 1) (flux3Update l.q3 s.x3Flux) s.Uhalf) ∧
      step13a l s = lensU.set s (cellMap (l.kb + 1) (l.kt - 1) (l.jb + 1) (l.jt - 1)
        (l.ib + 1) (l.it - 1) (flux1Update l.dtodx1 s.x1Flux) s.pG.U) ∧
      step13b l s = lensU.set s (cellMap (l.kb + 1) (l.kt - 1) (l.jb + 1) (l.jt - 1)
        (l.ib + 1) (l.it - 1) (flux2Update l.dtodx2 s.x2Flux) s.pG.U) ∧
      step13c l s = lensU.set s (cellMap (l.kb + 1) (l.kt - 1) (l.jb + 1) (l.jt - 1)
        (l.ib + 1) (l.it - 1) (flux3Update l.dtodx3 s.x3Flux) s.pG.U)) ∧
    ((flxReg1 (load1 u)).d = u.d ∧ (flxReg1 (load1 u)).M1 = u.M1 ∧
      (flxReg1 (load1 u)).M2 = u.M2 ∧ (flxReg1 (load1 u)).M3 = u.M3 ∧
      (flxReg1 (load1 u)).E = u.E ∧ (flxReg1 (load1 u)).B1c = 0 ∧
      (flxReg1 (load1 u)).B2c = u.B2c ∧ (flxReg1 (load1 u)).B3c = u.B3c) ∧
    ((flxReg2 (load2 u)).d = u.d ∧ (flxReg2 (load2 u)).M1 = u.M1 ∧
      (flxReg2 (load2 u)).M2 = u.M2 ∧ (flxReg2 (load2 u)).M3 = u.M3 ∧
      (flxReg2 (load2 u)).E = u.E ∧ (flxReg2 (load2 u)).B1c = u.B1c ∧
      (flxReg2 (load2 u)).B2c = 0 ∧ (flxReg2 (load2 u)).B3c = u.B3c) ∧
    ((flxReg3 (load3 u)).d = u.d ∧ (flxReg3 (load3 u)).M1 = u.M1 ∧
      (flxReg3 (load3 u)).M2 = u.M2 ∧ (flxReg3 (load3 u)).M3 = u.M3 ∧
      (flxReg3 (load3 u)).E = u.E ∧ (flxReg3 (load3 u)).B1c = u.B1c ∧
      (flxReg3 (load3 u)).B2c = u.B2c ∧ (flxReg3 (load3 u)).B3c = 0) := by
  refine ⟨⟨rfl, rfl, rfl⟩, fun s => ?_, fun h1 h2 => ?_, fun h1 h2 => ?_, fun h1 h2 => ?_,
    fun l s => ⟨step5a_eq l s, step5b_eq l s, step5c_eq l s, step13a_eq l s, step13b_eq l s,
      step13c_eq l s⟩,
    ⟨rfl, rfl, rfl, rfl, rfl, rfl, rfl, rfl⟩, ⟨rfl, rfl, rfl, rfl, rfl, rfl, rfl, rfl⟩,
    ⟨rfl, rfl, rfl, rfl, rfl, rfl, rfl, rfl⟩⟩
  · simp only [step1_load, step2_load, step3_load, step7_load, step8_load, step9_load, set1,
      if_true, and_self]
  · simp only [flux1Update, h1, h2, load1, and_self]
  · simp only [flux2Update, h1, h2, load2, and_self]
  · simp only [flux3Update, h1, h2, load3, and_self]

/-- C23 for an x2 sweep: with the fluxes of the two x2-faces of a cell the loads of
two cells, the update changes `M1` by the difference of their `M1`. -/
theorem C23_witness :
    (flux2Update 2 (fun _ j _ => load2 (demoGrid.U 0 j 0)) 0 0 0 (demoGrid.U 0 0 0)).M1 =
      (demoGrid.U 0 0 0).M1 - 2 * ((demoGrid.U 0 1 0).M1 - (demoGrid.U 0 0 0).M1) :=
  ((C23_permutations_inverse 2 (fun _ j _ => load2 (demoGrid.U 0 j 0)) 0 0 0 (demoGrid.U 0 0 0)
    (demoGrid.U 0 0 0) (demoGrid.U 0 1 0)).2.2.2.1 rfl rfl).2.1

/-! ## C27: the loop extents of the self-gravity source -/

/-- C27: the loop extents of the self-gravity source differ by direction. With
`SELF_GRAVITY` on, the `d/dx1` loop of Step 12b acts on every cell of
`[kl+1, ku-1] x [jl+1, ju-1] x [il+1, iu-1]` and the `d/dx2` and `d/dx3` loops act on the
active cells `[ks, ke] x [js, je] x [is, ie]` only. Hence, with at least one ghost zone,
an active cell receives the three directional contributions, a ghost cell inside the
wider range receives the `d/dx1` contribution only, and a cell outside the wider range
is left as it was. -/
theorem C27_self_gravity_extents (c : Config) (s : State) (k j i : Int)
    (hg : c.SELF_GRAVITY = true) (hn : 1 ≤ c.nghost) :
    (step12b1 c (locals c s.pG) s = lensU.set s (cellMap (s.pG.ks - c.nghost + 1)
      (s.pG.ke + c.nghost - 1) (s.pG.js - c.nghost + 1) (s.pG.je + c.nghost - 1)
      (s.pG.is - c.nghost + 1) (s.pG.ie + c.nghost - 1)
      (step12b1_cell c (locals c s.pG) s) s.pG.U)) ∧
    (step12b2 c (locals c s.pG) s = lensU.set s (cellMap s.pG.ks s.pG.ke s.pG.js s.pG.je
      s.pG.is s.pG.ie (step12b2_cell c (locals c s.pG) s) s.pG.U)) ∧
    (step12b3 c (locals c s.pG) s = lensU.set s (cellMap s.pG.ks s.pG.ke s.pG.js s.pG.je
      s.pG.is s.pG.ie (step12b3_cell c (locals c s.pG) s) s.pG.U)) ∧
    ((s.pG.ks ≤ k ∧ k ≤ s.pG.ke ∧ s.pG.js ≤ j ∧ j ≤ s.pG.je ∧ s.pG.is ≤ i ∧ i ≤ s.pG.ie) →
      (step12b c (locals c s.pG) s).pG.U k j i =
        step12b3_cell c (locals c s.pG) s k j i (step12b2_cell c (locals c s.pG) s k j i
          (step12b1_cell c (locals c s.pG) s k j i (s.pG.U k j i)))) ∧
    ((s.pG.ks - c.nghost + 1 ≤ k ∧ k ≤ s.pG.ke + c.nghost - 1 ∧
      s.pG.js - c.nghost + 1 ≤ j ∧ j ≤ s.pG.je + c.nghost - 1 ∧
      s.pG.is - c.nghost + 1 ≤ i ∧ i ≤ s.pG.ie + c.nghost - 1) →
      ¬ (s.pG.ks ≤ k ∧ k ≤ s.pG.ke ∧ s.pG.js ≤ j ∧ j ≤ s.pG.je ∧ s.pG.is ≤ i ∧ i ≤ s.pG.ie) →
      (step12b c (locals c s.pG) s).pG.U k j i =
        step12b1_cell c (locals c s.pG) s k j i (s.pG.U k j i)) ∧
    (¬ (s.pG.ks - c.nghost + 1 ≤ k ∧ k ≤ s.pG.ke + c.nghost - 1 ∧
      s.pG.js - c.nghost + 1 ≤ j ∧ j ≤ s.pG.je + c.nghost - 1 ∧
      s.pG.is - c.nghost + 1 ≤ i ∧ i ≤ s.pG.ie + c.nghost - 1) →
      (step12b c (locals c s.pG) s).pG.U k j i = s.pG.U k j i) := by
  refine ⟨step12b1_eq c _ s, step12b2_eq c _ s, step12b3_eq c _ s, fun ha => ?_,
    fun hw ha => ?_, fun hw => ?_⟩
  · refine step12b_U_on c _ s k j i hg ?_ ha
    simp only [locals]
    omega
  · exact step12b_U_ghost c _ s k j i hg hw ha
  · have ha : ¬ (s.pG.ks ≤ k ∧ k ≤ s.pG.ke ∧ s.pG.js ≤ j ∧ j ≤ s.pG.je ∧
        s.pG.is ≤ i ∧ i ≤ s.pG.ie) := fun h => hw (by omega)
    unfold step12b
    rw [hg]
    simp only [if_true]
    rw [stepMassFlux_U, step12b3_eq, step12b2_eq, step12b1_eq]
    simp only [lensU, cellMap, locals, hw, ha, if_false]

/-- C27 on the one-cell grid with four ghost zones: the ghost cell `(0, 0, 1)` lies in
the wider range and receives the `d/dx1` terms only. -/
theorem C27_witness :
    (step12b demoConfigSG (locals demoConfigSG demoState.pG) demoState).pG.U 0 0 1 =
      step12b1_cell demoConfigSG (locals demoConfigSG demoState.pG) demoState 0 0 1
        (demoState.pG.U 0 0 1) :=
  (C27_self_gravity_extents demoConfigSG demoState 0 0 1 rfl (by decide)).2.2.2.2.1
    (by decide) (by decide)

/-! ## C24: the full-step source terms of a static potential -/

/-- C24: the full-step static-gravity source. With a static potential `pot`, for every
cell of `[kl+1, ku-1] x [jl+1, ju-1] x [il+1, iu-1]` Step 12a subtracts from each
momentum `(dt/dx)(phir - phil) Uhalf.d`, with the half-step density, and from the energy
`(dt/dx)(Flux[lower].d (phic - phil) + Flux[upper].d (phir - phic))` for each direction,
where `phic`, `phil`, `phir` are the potential at the cell centre and at the centre
shifted by half a cell down and up in that direction. The density and the cell-centred
field are not changed, and cells outside the range are left as they were. -/
theorem C24_static_gravity_source (c : Config) (s : State) (pot : ℚ → ℚ → ℚ → ℚ)
    (k j i : Int) (hp : c.StaticGravPot = some pot) :
    ((s.pG.ks - c.nghost + 1 ≤ k ∧ k ≤ s.pG.ke + c.nghost - 1 ∧
      s.pG.js - c.nghost + 1 ≤ j ∧ j ≤ s.pG.je + c.nghost - 1 ∧
      s.pG.is - c.nghost + 1 ≤ i ∧ i ≤ s.pG.ie + c.nghost - 1) →
      ((step12a c (locals c s.pG) s).pG.U k j i).M1 = (s.pG.U k j i).M1 -
        s.pG.dt / s.pG.dx1 *
          (pot ((c.cc_pos i j k).1 + 1 / 2 * s.pG.dx1) (c.cc_pos i j k).2.1 (c.cc_pos i j k).2.2 -
           pot ((c.cc_pos i j k).1 - 1 / 2 * s.pG.dx1) (c.cc_pos i j k).2.1 (c.cc_pos i j k).2.2)
          * (s.Uhalf k j i).d ∧
      ((step12a c (locals c s.pG) s).pG.U k j i).M2 = (s.pG.U k j i).M2 -
        s.pG.dt / s.pG.dx2 *
          (pot (c.cc_pos i j k).1 ((c.cc_pos i j k).2.1 + 1 / 2 * s.pG.dx2) (c.cc_pos i j k).2.2 -
           pot (c.cc_pos i j k).1 ((c.cc_pos i j k).2.1 - 1 / 2 * s.pG.dx2) (c.cc_pos i j k).2.2)
          * (s.Uhalf k j i).d ∧
      ((step12a c (locals c s.pG) s).pG.U k j i).M3 = (s.pG.U k j i).M3 -
        s.pG.dt / s.pG.dx3 *
          (pot (c.cc_pos i j k).1 (c.cc_pos i j k).2.1 ((c.cc_pos i j k).2.2 + 1 / 2 * s.pG.dx3) -
           pot (c.cc_pos i j k).1 (c.cc_pos i j k).2.1 ((c.cc_pos i j k).2.2 - 1 / 2 * s.pG.dx3))
          * (s.Uhalf k j i).d ∧
      ((step12a c (locals c s.pG) s).pG.U k j i).E = (s.pG.U k j i).E -
        s.pG.dt / s.pG.dx1 *
          ((s.x1Flux k j i).d *
            (pot (c.cc_pos i j k).1 (c.cc_pos i j k).2.1 (c.cc_pos i j k).2.2 -
             pot ((c.cc_pos i j k).1 - 1 / 2 * s.pG.dx1) (c.cc_pos i j k).2.1
               (c.cc_pos i j k).2.2) +
           (s.x1Flux k j (i + 1)).d *
            (pot ((c.cc_pos i j k).1 + 1 / 2 * s.pG.dx1) (c.cc_pos i j k).2.1
               (c.cc_pos i j k).2.2 -
             pot (c.cc_pos i j k).1 (c.cc_pos i j k).2.1 (c.cc_pos i j k).2.2)) -
        s.pG.dt / s.pG.dx2 *
          ((s.x2Flux k j i).d *
            (pot (c.cc_pos i j k).1 (c.cc_pos i j k).2.1 (c.cc_pos i j k).2.2 -
             pot (c.cc_pos i j k).1 ((c.cc_pos i j k).2.1 - 1 / 2 * s.pG.dx2)
               (c.cc_pos i j k).2.2) +
           (s.x2Flux k (j + 1) i).d *
            (pot (c.cc_pos i j k).1 ((c.cc_pos i j k).2.1 + 1 / 2 * s.pG.dx2)
               (c.cc_pos i j k).2.2 -
             pot (c.cc_pos i j k).1 (c.cc_pos i j k).2.1 (c.cc_pos i j k).2.2)) -
        s.pG.dt / s.pG.dx3 *
          ((s.x3Flux k j i).d *
            (pot (c.cc_pos i j k).1 (c.cc_pos i j k).2.1 (c.cc_pos i j k).2.2 -
             pot (c.cc_pos i j k).1 (c.cc_pos i j k).2.1
               ((c.cc_pos i j k).2.2 - 1 / 2 * s.pG.dx3)) +
           (s.x3Flux (k + 1) j i).d *
            (pot (c.cc_pos i j k).1 (c.cc_pos i j k).2.1
               ((c.cc_pos i j k).2.2 + 1 / 2 * s.pG.dx3) -
             pot (c.cc_pos i j k).1 (c.cc_pos i j k).2.1 (c.cc_pos i j k).2.2))) ∧
    ((step12a c (locals c s.pG) s).pG.U k j i).d = (s.pG.U k j i).d ∧
    ((step12a c (locals c s.pG) s).pG.U k j i).B1c = (s.pG.U k j i).B1c ∧
    ((step12a c (locals c s.pG) s).pG.U k j i).B2c = (s.pG.U k j i).B2c ∧
    ((step12a c (locals c s.pG) s).pG.U k j i).B3c = (s.pG.U k j i).B3c ∧
    (¬ (s.pG.ks - c.nghost + 1 ≤ k ∧ k ≤ s.pG.ke + c.nghost - 1 ∧
      s.pG.js - c.nghost + 1 ≤ j ∧ j ≤ s.pG.je + c.nghost - 1 ∧
      s.pG.is - c.nghost + 1 ≤ i ∧ i ≤ s.pG.ie + c.nghost - 1) →
      (step12a c (locals c s.pG) s).pG.U k j i = s.pG.U k j i) := by
  rw [step12a_some c _ s pot hp]
  by_cases hin : s.pG.ks - c.nghost + 1 ≤ k ∧ k ≤ s.pG.ke + c.nghost - 1 ∧
      s.pG.js - c.nghost + 1 ≤ j ∧ j ≤ s.pG.je + c.nghost - 1 ∧
      s.pG.is - c.nghost + 1 ≤ i ∧ i ≤ s.pG.ie + c.nghost - 1
  · simp only [lensU, cellMap, locals, hin, and_self, if_true, step12a_cell, not_true_eq_false,
      false_implies, true_implies, and_true]
  · simp only [lensU, cellMap, locals, hin, if_false, false_implies, not_false_eq_true,
      true_implies, and_self]

/-- C24 on the one-cell grid with the potential `x1² + 2 x2 + 3 x3`: the momentum `M1` of
the active cell after Step 12a. -/
theorem C24_witness :
    ((step12a demoConfigPot (locals demoConfigPot demoState.pG) demoState).pG.U 0 0 0).M1 =
      (demoState.pG.U 0 0 0).M1 - demoState.pG.dt / demoState.pG.dx1 *
        (((demoConfigPot.cc_pos 0 0 0).1 + 1 / 2 * demoState.pG.dx1) *
           ((demoConfigPot.cc_pos 0 0 0).1 + 1 / 2 * demoState.pG.dx1) +
           2 * (demoConfigPot.cc_pos 0 0 0).2.1 + 3 * (demoConfigPot.cc_pos 0 0 0).2.2 -
         (((demoConfigPot.cc_pos 0 0 0).1 - 1 / 2 * demoState.pG.dx1) *
           ((demoConfigPot.cc_pos 0 0 0).1 - 1 / 2 * demoState.pG.dx1) +
           2 * (demoConfigPot.cc_pos 0 0 0).2.1 + 3 * (demoConfigPot.cc_pos 0 0 0).2.2))
        * (demoState.Uhalf 0 0 0).d :=
  ((C24_static_gravity_source demoConfigPot demoState
    (fun x1 x2 x3 => x1 * x1 + 2 * x2 + 3 * x3) 0 0 0 rfl).1 (by decide)).1

/-! ## C21: the states of the first-order fluxes -/

/-- C21: the first-order predictor states. In Steps 1-3, for every face of a line, the
left and right conserved states passed to `fluxes` are the cells of `pG->U` on the lower
and on the upper side of the face, permuted to the sweep direction; the primitive states
are their conversions; the normal field is the persistent face field `B1i`, `B2i`, `B3i`
at the face. No other cell enters: two states with the same `etah`, the same two cells
and the same face field get the same flux at the face. -/
theorem C21_first_order_states (c : Config) (l : Locals) (s t : State) (k j i : Int) :
    ((l.kl ≤ k ∧ k ≤ l.ku) → (l.jl ≤ j ∧ j ≤ l.ju) → (l.il + 1 ≤ i ∧ i ≤ l.iu) →
      (step1 c l s).x1Flux k j i =
        c.fluxes s.etah (load1 (s.pG.U k j (i - 1))) (load1 (s.pG.U k j i))
          (c.Cons1D_to_Prim1D (load1 (s.pG.U k j (i - 1))) (s.pG.B1i k j i))
          (c.Cons1D_to_Prim1D (load1 (s.pG.U k j i)) (s.pG.B1i k j i)) (s.pG.B1i k j i) ∧
      (t.etah = s.etah → t.pG.U k j (i - 1) = s.pG.U k j (i - 1) →
        t.pG.U k j i = s.pG.U k j i → t.pG.B1i k j i = s.pG.B1i k j i →
        (step1 c l t).x1Flux k j i = (step1 c l s).x1Flux k j i)) ∧
    ((l.kl ≤ k ∧ k ≤ l.ku) → (l.jl + 1 ≤ j ∧ j ≤ l.ju) → (l.il ≤ i ∧ i ≤ l.iu) →
      (step2 c l s).x2Flux k j i =
        c.fluxes s.etah (load2 (s.pG.U k (j - 1) i)) (load2 (s.pG.U k j i))
          (c.Cons1D_to_Prim1D (load2 (s.pG.U k (j - 1) i)) (s.pG.B2i k j i))
          (c.Cons1D_to_Prim1D (load2 (s.pG.U k j i)) (s.pG.B2i k j i)) (s.pG.B2i k j i) ∧
      (t.etah = s.etah → t.pG.U k (j - 1) i = s.pG.U k (j - 1) i →
        t.pG.U k j i = s.pG.U k j i → t.pG.B2i k j i = s.pG.B2i k j i →
        (step2 c l t).x2Flux k j i = (step2 c l s).x2Flux k j i)) ∧
    ((l.kl + 1 ≤ k ∧ k ≤ l.ku) → (l.jl ≤ j ∧ j ≤ l.ju) → (l.il ≤ i ∧ i ≤ l.iu) →
      (step3 c l s).x3Flux k j i =
        c.fluxes s.etah (load3 (s.pG.U (k - 1) j i)) (load3 (s.pG.U k j i))
          (c.Cons1D_to_Prim1D (load3 (s.pG.U (k - 1) j i)) (s.pG.B3i k j i))
          (c.Cons1D_to_Prim1D (load3 (s.pG.U k j i)) (s.pG.B3i k j i)) (s.pG.B3i k j i) ∧
      (t.etah = s.etah → t.pG.U (k - 1) j i = s.pG.U (k - 1) j i →
        t.pG.U k j i = s.pG.U k j i → t.pG.B3i k j i = s.pG.B3i k j i →
        (step3 c l t).x3Flux k j i = (step3 c l s).x3Flux k j i)) := by
  refine ⟨fun hk hj hi => ⟨step1_flux_at c l s k j i hk hj hi, fun e a b d => ?_⟩,
    fun hk hj hi => ⟨step2_flux_at c l s k j i hk hj hi, fun e a b d => ?_⟩,
    fun hk hj hi => ⟨step3_flux_at c l s k j i hk hj hi, fun e a b d => ?_⟩⟩
  · rw [step1_flux_at c l s k j i hk hj hi, step1_flux_at c l t k j i hk hj hi, e, a, b, d]
  · rw [step2_flux_at c l s k j i hk hj hi, step2_flux_at c l t k j i hk hj hi, e, a, b, d]
  · rw [step3_flux_at c l s k j i hk hj hi, step3_flux_at c l t k j i hk hj hi, e, a, b, d]

/-- C21 on `demoState`: the x1-flux of Step 1 at the face `(0, 0, 0)`. -/
theorem C21_witness :
    (step1 demoConfig (locals demoConfig demoGrid) demoState).x1Flux 0 0 0 =
      demoFlux demoState.etah (load1 (demoGrid.U 0 0 (0 - 1))) (load1 (demoGrid.U 0 0 0))
        (demoC2P (load1 (demoGrid.U 0 0 (0 - 1))) (demoGrid.B1i 0 0 0))
        (demoC2P (load1 (demoGrid.U 0 0 0)) (demoGrid.B1i 0 0 0)) (demoGrid.B1i 0 0 0) :=
  ((C21_first_order_states demoConfig (locals demoConfig demoGrid) demoState demoState 0 0 0).1
    (by decide) (by decide) (by decide)).1

/-! ## C26: the predictor runs without H-correction -/

/-- The loops of Steps 10b-10d leave `etah` alone when H-correction is off. -/
theorem step10_etah_off (c : Config) (l : Locals) (s : State) (h : c.H_CORRECTION = false) :
    (step10b c l s).etah = s.etah ∧ (step10c c l s).etah = s.etah ∧
    (step10d c l s).etah = s.etah := by
  refine ⟨?_, ?_, ?_⟩
  · unfold step10b
    exact forLoop3_frame (fun t => t.etah) _ _ _ _ _ _ (fun k j i s => step10b_body c k j i s)
      (fun k j i t _ _ _ _ _ _ => by simp only [step10b_body, etah1, h, Bool.false_eq_true,
        if_false]) s
  · unfold step10c
    exact forLoop3_frame (fun t => t.etah) _ _ _ _ _ _ (fun k j i s => step10c_body c k j i s)
      (fun k j i t _ _ _ _ _ _ => by simp only [step10c_body, etah2, h, Bool.false_eq_true,
        if_false]) s
  · unfold step10d
    exact forLoop3_frame (fun t => t.etah) _ _ _ _ _ _ (fun k j i s => step10d_body c k j i s)
      (fun k j i t _ _ _ _ _ _ => by simp only [step10d_body, etah3, h, Bool.false_eq_true,
        if_false]) s

/-- The stages between the reset of `etah` and Step 10b leave `etah` alone. -/
theorem stagesToStep10a_etah (c : Config) (l : Locals) :
    ∀ f ∈ (stagesBefore11c c l).tail.take 18, ∀ t, (f t).etah = t.etah := by
  intro f hf t
  simp only [stagesBefore11c, predictorStages, correctorStages7to11b, List.cons_append,
    List.nil_append, List.tail_cons, List.take_succ_cons, List.take_zero, List.mem_cons,
    List.mem_singleton, List.not_mem_nil, or_false] at hf
  rcases hf with rfl | rfl | rfl | rfl | rfl | rfl | rfl | rfl | rfl | rfl | rfl | rfl | rfl |
    rfl | rfl | rfl | rfl | rfl
  · exact (step1_keep c l t).2
  · obtain ⟨b1, b2, b3, b4, b5, b6, h⟩ := step2_writes c l t; rw [h]
  · obtain ⟨b1, b2, b3, b4, b5, b6, h⟩ := step3_writes c l t; rw [h]
  · obtain ⟨b1, b2, b3, h⟩ := step4a_writes l t; rw [h]
  · rw [integrate_emf1_corner_eq]; rfl
  · rw [integrate_emf2_corner_eq]; rfl
  · rw [integrate_emf3_corner_eq]; rfl
  · obtain ⟨b1, b2, b3, h⟩ := step4b_writes l t; rw [h]
  · rw [step4c_eq]; rfl
  · rw [step5a_eq]; rfl
  · rw [step5b_eq]; rfl
  · rw [step5c_eq]; rfl
  · cases hp : c.StaticGravPot with
    | none => rw [step6a_none c l t hp]
    | some pot => rw [step6a_some c l t pot hp]; rfl
  · cases hg : c.SELF_GRAVITY with
    | false => rw [step6b_off c l t hg]
    | true => rw [step6b_on c l t hg]; rfl
  · obtain ⟨b1, b2, b3, b4, b5, b6, b7, b8, h⟩ := step7_writes c l t; rw [h]
  · obtain ⟨b1, b2, b3, b4, b5, b6, b7, b8, h⟩ := step8_writes c l t; rw [h]
  · obtain ⟨b1, b2, b3, b4, b5, b6, b7, b8, h⟩ := step9_writes c l t; rw [h]
  · obtain ⟨b1, b2, b3, h⟩ := step10a_writes c l t; rw [h]

/-- With H-correction off no stage after the reset changes `etah`. -/
theorem stagesAfterInit_etah_off (c : Config) (l : Locals) (hH : c.H_CORRECTION = false) :
    ∀ f ∈ (stagesBefore11c c l).tail ++ stagesFrom11c c l, ∀ t, (f t).etah = t.etah := by
  intro f hf t
  have h18 : (stagesBefore11c c l).tail ++ stagesFrom11c c l =
      (stagesBefore11c c l).tail.take 18 ++ ([step10b c l, step10c c l, step10d c l,
        step11a l, integrate_emf1_corner c, integrate_emf2_corner c,
        integrate_emf3_corner c] ++ stagesFrom11c c l) := rfl
  rw [h18] at hf
  rcases List.mem_append.mp hf with h | h
  · exact stagesToStep10a_etah c l f h t
  simp only [stagesFrom11c, List.cons_append, List.nil_append, List.mem_cons,
    List.mem_singleton, List.not_mem_nil, or_false] at h
  rcases h with rfl | rfl | rfl | rfl | rfl | rfl | rfl | rfl | rfl | rfl | rfl | rfl | rfl |
    rfl | rfl
  · exact (step10_etah_off c l t hH).1
  · exact (step10_etah_off c l t hH).2.1
  · exact (step10_etah_off c l t hH).2.2
  · obtain ⟨b1, b2, b3, h⟩ := step11a_writes l t; rw [h]
  · rw [integrate_emf1_corner_eq]; rfl
  · rw [integrate_emf2_corner_eq]; rfl
  · rw [integrate_emf3_corner_eq]; rfl
  · obtain ⟨b1, b2, b3, h⟩ := step11c_frame l t; rw [h]
  · obtain ⟨b1, h⟩ := step12a_writes c l t; rw [h]
  · obtain ⟨b1, b2, b3, b4, h⟩ := step12b_writes c l t; rw [h]
  · rw [step13a_eq]; rfl
  · rw [step13b_eq]; rfl
  · rw [step13c_eq]; rfl
  · rw [step13e_eq]; rfl
  · obtain ⟨b1, b2, h⟩ := stepSMR_writes c t; rw [h]

/-- A run of two stage lists, with the first stage of the first list taken out. -/
theorem runStages_split (B F : List (State → State)) (f : State → State) (s : State)
    (h : B = f :: B.tail) : runStages F (runStages B s) = runStages (B.tail ++ F) (f s) := by
  rw [runStages_append]
  congr 1
  conv_lhs => rw [h]
  rfl

/-- C26: the predictor never uses H-correction. `integrate_3d_vl` sets `etah` to 0 first,
whatever value the previous call left, and `etah` is 0 after every prefix of the stages
up to and including Step 10a: during Steps 1-3 every flux is computed with `etah = 0`,
and so the flux arrays of the predictor hold the fluxes with `etah = 0` between the two
cells of the persistent state. The first stage that may write `etah` is Step 10b; with
H-correction off `etah` is 0 after every prefix of the stages and when the call
returns. -/
theorem C26_predictor_without_h_correction (c : Config) (s : State) (k j i : Int) :
    (stepInit (locals c s.pG) s).etah = 0 ∧
    (stagesBefore11c c (locals c s.pG)).head? = some (stepInit (locals c s.pG)) ∧
    (∀ n, 1 ≤ n → n ≤ 19 →
      (runStages ((stagesBefore11c c (locals c s.pG)).take n) s).etah = 0) ∧
    ((stagesBefore11c c (locals c s.pG)).take 19).getLast? = some (step10a c (locals c s.pG)) ∧
    (((locals c s.pG).kl ≤ k ∧ k ≤ (locals c s.pG).ku) →
      ((locals c s.pG).jl ≤ j ∧ j ≤ (locals c s.pG).ju) →
      ((locals c s.pG).il + 1 ≤ i ∧ i ≤ (locals c s.pG).iu) →
      (beforeStep4b c s).x1Flux k j i =
        c.fluxes 0 (load1 (s.pG.U k j (i - 1))) (load1 (s.pG.U k j i))
          (c.Cons1D_to_Prim1D (load1 (s.pG.U k j (i - 1))) (s.pG.B1i k j i))
          (c.Cons1D_to_Prim1D (load1 (s.pG.U k j i)) (s.pG.B1i k j i)) (s.pG.B1i k j i)) ∧
    (((locals c s.pG).kl ≤ k ∧ k ≤ (locals c s.pG).ku) →
      ((locals c s.pG).jl + 1 ≤ j ∧ j ≤ (locals c s.pG).ju) →
      ((locals c s.pG).il ≤ i ∧ i ≤ (locals c s.pG).iu) →
      (beforeStep4b c s).x2Flux k j i =
        c.fluxes 0 (load2 (s.pG.U k (j - 1) i)) (load2 (s.pG.U k j i))
          (c.Cons1D_to_Prim1D (load2 (s.pG.U k (j - 1) i)) (s.pG.B2i k j i))
          (c.Cons1D_to_Prim1D (load2 (s.pG.U k j i)) (s.pG.B2i k j i)) (s.pG.B2i k j i)) ∧
    (((locals c s.pG).kl + 1 ≤ k ∧ k ≤ (locals c s.pG).ku) →
      ((locals c s.pG).jl ≤ j ∧ j ≤ (locals c s.pG).ju) →
      ((locals c s.pG).il ≤ i ∧ i ≤ (locals c s.pG).iu) →
      (beforeStep4b c s).x3Flux k j i =
        c.fluxes 0 (load3 (s.pG.U (k - 1) j i)) (load3 (s.pG.U k j i))
          (c.Cons1D_to_Prim1D (load3 (s.pG.U (k - 1) j i)) (s.pG.B3i k j i))
          (c.Cons1D_to_Prim1D (load3 (s.pG.U k j i)) (s.pG.B3i k j i)) (s.pG.B3i k j i)) ∧
    (c.H_CORRECTION = false →
      (∀ n, 1 ≤ n → (runStages ((stagesBefore11c c (locals c s.pG) ++
        stagesFrom11c c (locals c s.pG)).take n) s).etah = 0) ∧
      (integrate_3d_vl c s).etah = 0) := by
  have hcons : stagesBefore11c c (locals c s.pG) =
      stepInit (locals c s.pG) :: (stagesBefore11c c (locals c s.pG)).tail := rfl
  have hrun : ∀ fs : List (State → State), (∀ f ∈ fs, ∀ t, (f t).etah = t.etah) →
      (runStages fs (stepInit (locals c s.pG) s)).etah = 0 := fun fs H =>
    runStages_inv (fun t => t.etah = 0) fs (fun f hf t ht => (H f hf t).trans ht) _
      (stepInit_keep _ s).2
  obtain ⟨g1, g2, g3⟩ := firstOrderFluxes c s k j i
  refine ⟨(stepInit_keep _ s).2, rfl, fun n h1 h2 => ?_, rfl, g1, g2, g3,
    fun hH => ⟨fun n h1 => ?_, ?_⟩⟩
  · obtain ⟨m, rfl⟩ : ∃ m, n = m + 1 := ⟨n - 1, by omega⟩
    rw [hcons, List.take_succ_cons]
    refine hrun _ (fun f hf t => stagesToStep10a_etah c (locals c s.pG) f ?_ t)
    have e : List.take m (stagesBefore11c c (locals c s.pG)).tail =
        List.take m (List.take 18 (stagesBefore11c c (locals c s.pG)).tail) := by
      rw [List.take_take, min_eq_left (by omega)]
    rw [e] at hf
    exact List.mem_of_mem_take hf
  · obtain ⟨m, rfl⟩ : ∃ m, n = m + 1 := ⟨n - 1, by omega⟩
    rw [hcons, List.cons_append, List.take_succ_cons]
    exact hrun _ (fun f hf t =>
      stagesAfterInit_etah_off c _ hH f (List.mem_of_mem_take hf) t)
  · have e : integrate_3d_vl c s = runStages ((stagesBefore11c c (locals c s.pG)).tail ++
        stagesFrom11c c (locals c s.pG)) (stepInit (locals c s.pG) s) := by
      exact runStages_split _ _ _ s hcons
    rw [e]
    exact hrun _ (stagesAfterInit_etah_off c _ hH)

/-- C26 on `demoState`, which enters with `etah = 7`: after the first stage `etah` is 0,
and with H-correction off it is 0 when the call returns. -/
theorem C26_witness :
    demoState.etah = 7 ∧
    (runStages ((stagesBefore11c demoConfig (locals demoConfig demoState.pG)).take 1)
      demoState).etah = 0 ∧ (integrate_3d_vl demoConfig demoState).etah = 0 :=
  ⟨rfl, (C26_predictor_without_h_correction demoConfig demoState 0 0 0).2.2.1 1 (by decide)
      (by decide),
    ((C26_predictor_without_h_correction demoConfig demoState 0 0 0).2.2.2.2.2.2.2 rfl).2⟩

/-! ## C22: the corrector reconstructs from the half-step state -/

/-- A loop whose body commutes with a map of the state commutes with it. -/
theorem forLoop_comm {σ : Type} (τ : σ → σ) (lo hi : Int) (body : Int → σ → σ)
    (H : ∀ m s, body m (τ s) = τ (body m s)) (s : σ) :
    forLoop lo hi body (τ s) = τ (forLoop lo hi body s) := by
  unfold forLoop
  generalize (hi + 1 - lo).toNat = n
  induction n generalizing lo s with
  | zero => rfl
  | succ n ih =>
    simp only [forLoopAux]
    rw [H, ih]

/-- A double loop nest whose body commutes with a map of the state commutes with it. -/
theorem forLoop2_comm {σ : Type} (τ : σ → σ) (jlo jhi ilo ihi : Int)
    (body : Int → Int → σ → σ) (H : ∀ j i s, body j i (τ s) = τ (body j i s)) (s : σ) :
    forLoop jlo jhi (fun j s => forLoop ilo ihi (fun i s => body j i s) s) (τ s) =
      τ (forLoop jlo jhi (fun j s => forLoop ilo ihi (fun i s => body j i s) s) s) :=
  forLoop_comm τ _ _ _ (fun j s => forLoop_comm τ _ _ _ (fun i s => H j i s) s) s

/-- The sweep of one line (load, convert, reconstruct, store) commutes with a map of the
state that each of its parts commutes with. -/
theorem lineSweep_comm (τ : State → State) (lo hi lo2 hi2 : Int)
    (load prim store : Int → State → State) (lr : State → State)
    (H1 : ∀ m s, load m (τ s) = τ (load m s)) (H2 : ∀ m s, prim m (τ s) = τ (prim m s))
    (H3 : ∀ m s, store m (τ s) = τ (store m s)) (H4 : ∀ s, lr (τ s) = τ (lr s)) (s : State) :
    forLoop lo2 hi2 store (lr (forLoop lo hi prim (forLoop lo hi load (τ s)))) =
      τ (forLoop lo2 hi2 store (lr (forLoop lo hi prim (forLoop lo hi load s)))) := by
  rw [forLoop_comm τ _ _ load H1, forLoop_comm τ _ _ prim H2, H4, forLoop_comm τ _ _ store H3]

/-- Step 7 at one face of one line: the interface states stored are the outputs of
`lr_states` on a primitive line whose elements over the whole line are the conversions
of the cells of `Uhalf`. -/
theorem step7_recon (c : Config) (l : Locals) (s : State) (k0 j0 i0 : Int)
    (h1 : l.kb ≤ k0 ∧ k0 ≤ l.kt) (h2 : l.jb ≤ j0 ∧ j0 ≤ l.jt)
    (h3 : l.ib + 1 ≤ i0 ∧ i0 ≤ l.it) :
    ∃ (W : Arr1 Prim1D) (Bxc : Arr1 ℚ) (Wl Wr : Arr1 Prim1D),
      (∀ m, l.il ≤ m → m ≤ l.iu →
        W m = c.Cons1D_to_Prim1D (load1 (s.Uhalf k0 j0 m)) (s.Uhalf k0 j0 m).B1c ∧
        Bxc m = (s.Uhalf k0 j0 m).B1c) ∧
      (step7 c l s).Wl_x1Face k0 j0 i0 =
        (c.lr_states W Bxc 0 (l.ib + 1) (l.it - 1) Wl Wr).1 i0 ∧
      (step7 c l s).Wr_x1Face k0 j0 i0 =
        (c.lr_states W Bxc 0 (l.ib + 1) (l.it - 1) Wl Wr).2 i0 := by
  let P : State → Prop := fun t => t.Uhalf = s.Uhalf
  let R : Arr1 Prim1D → Arr1 ℚ → Prop := fun W Bxc => ∀ m, l.il ≤ m → m ≤ l.iu →
    W m = c.Cons1D_to_Prim1D (load1 (s.Uhalf k0 j0 m)) (s.Uhalf k0 j0 m).B1c ∧
    Bxc m = (s.Uhalf k0 j0 m).B1c
  let Q : State → Prop := fun t => ∃ (W : Arr1 Prim1D) (Bxc : Arr1 ℚ) (Wl Wr : Arr1 Prim1D),
    R W Bxc ∧
    t.Wl_x1Face k0 j0 i0 = (c.lr_states W Bxc 0 (l.ib + 1) (l.it - 1) Wl Wr).1 i0 ∧
    t.Wr_x1Face k0 j0 i0 = (c.lr_states W Bxc 0 (l.ib + 1) (l.it - 1) Wl Wr).2 i0
  let P2 : State → Prop := fun t => ∀ m, l.il ≤ m → m ≤ l.iu →
    t.U1d m = load1 (s.Uhalf k0 j0 m) ∧ t.Bxc m = (s.Uhalf k0 j0 m).B1c
  let P3 : State → Prop := fun t => ∃ (W : Arr1 Prim1D) (Bxc : Arr1 ℚ) (Wl Wr : Arr1 Prim1D),
    R W Bxc ∧ t.Wl i0 = (c.lr_states W Bxc 0 (l.ib + 1) (l.it - 1) Wl Wr).1 i0 ∧
    t.Wr i0 = (c.lr_states W Bxc 0 (l.ib + 1) (l.it - 1) Wl Wr).2 i0
  unfold step7
  refine forLoop2_establish P Q _ _ _ _ k0 j0
    (fun k j s => forLoop (l.ib + 1) l.it (fun i s => step7_store k j i s)
      (step7_lr c (l.ib + 1) (l.it - 1)
        (forLoop l.il l.iu (fun i s => step7_prim c i s)
          (forLoop l.il l.iu (fun i s => step7_load k j i s) s)))) h1 h2 ?_ ?_ ?_ s rfl
  · intro k j t _ _ _ _ hp
    exact forLoop_inv P _ _ (fun i s => step7_store k j i s) (fun _ t _ _ hp => hp) _
      (forLoop_inv P _ _ (fun i s => step7_prim c i s) (fun _ t _ _ hp => hp) _
        (forLoop_inv P _ _ (fun i s => step7_load k j i s) (fun _ t _ _ hp => hp) t hp))
  · intro t hp
    have e1 : P2 (forLoop l.il l.iu (fun i s => step7_load k0 j0 i s) t) := by
      intro m a1 a2
      refine forLoop_establish P (fun t => t.U1d m = load1 (s.Uhalf k0 j0 m) ∧
          t.Bxc m = (s.Uhalf k0 j0 m).B1c) _ _ m
        (fun i s => step7_load k0 j0 i s) a1 a2 (fun _ t _ _ hp => hp) ?_ ?_ t hp
      · intro t hp
        have hp' : t.Uhalf = s.Uhalf := hp
        simp only [step7_load, set1, if_true, hp', and_self]
      · intro n t _ _ hne hp hq
        have hn : ¬ m = n := fun h => hne h.symm
        simp only [step7_load, set1, hn, if_false]
        exact hq
    have e2 : ∀ m, l.il ≤ m → m ≤ l.iu →
        (forLoop l.il l.iu (fun i s => step7_prim c i s)
          (forLoop l.il l.iu (fun i s => step7_load k0 j0 i s) t)).W m =
            c.Cons1D_to_Prim1D (load1 (s.Uhalf k0 j0 m)) (s.Uhalf k0 j0 m).B1c ∧
        (forLoop l.il l.iu (fun i s => step7_prim c i s)
          (forLoop l.il l.iu (fun i s => step7_load k0 j0 i s) t)).Bxc m =
            (s.Uhalf k0 j0 m).B1c := by
      intro m a1 a2
      refine forLoop_establish P2 (fun t => t.W m =
          c.Cons1D_to_Prim1D (load1 (s.Uhalf k0 j0 m)) (s.Uhalf k0 j0 m).B1c ∧
          t.Bxc m = (s.Uhalf k0 j0 m).B1c) _ _ m
        (fun i s => step7_prim c i s) a1 a2 (fun _ t _ _ hp => hp) ?_ ?_ _ e1
      · intro t hp
        refine ⟨?_, (hp m a1 a2).2⟩
        show (step7_prim c m t).W m = _
        simp only [step7_prim, set1, if_true]
        rw [(hp m a1 a2).1, (hp m a1 a2).2]
      · intro n t _ _ hne hp hq
        have hn : ¬ m = n := fun h => hne h.symm
        refine ⟨?_, hq.2⟩
        show (step7_prim c n t).W m = _
        simp only [step7_prim, set1, hn, if_false]
        exact hq.1
    have e3 : P3 (step7_lr c (l.ib + 1) (l.it - 1)
        (forLoop l.il l.iu (fun i s => step7_prim c i s)
          (forLoop l.il l.iu (fun i s => step7_load k0 j0 i s) t))) :=
      ⟨_, _, _, _, e2, rfl, rfl⟩
    refine forLoop_establish P3 Q _ _ i0 (fun i s => step7_store k0 j0 i s) h3.1 h3.2
      (fun _ t _ _ hp => hp) ?_ ?_ _ e3
    · rintro t ⟨W, Bxc, Wl, Wr, hr, hl, hrr⟩
      refine ⟨W, Bxc, Wl, Wr, hr, ?_, ?_⟩
      · show (step7_store k0 j0 i0 t).Wl_x1Face k0 j0 i0 = _
        simp only [step7_store, set3, and_self, if_true]
        exact hl
      · show (step7_store k0 j0 i0 t).Wr_x1Face k0 j0 i0 = _
        simp only [step7_store, set3, and_self, if_true]
        exact hrr
    · intro n t _ _ hne hp hq
      have hn : ¬ i0 = n := fun h => hne h.symm
      obtain ⟨W, Bxc, Wl, Wr, hr, hl, hrr⟩ := hq
      refine ⟨W, Bxc, Wl, Wr, hr, ?_, ?_⟩
      · show (step7_store k0 j0 n t).Wl_x1Face k0 j0 i0 = _
        simp only [step7_store, set3, hn, and_false, if_false]
        exact hl
      · show (step7_store k0 j0 n t).Wr_x1Face k0 j0 i0 = _
        simp only [step7_store, set3, hn, and_false, if_false]
        exact hrr
  · intro k j t _ _ _ _ hne hp hq
    refine forLoop_inv Q _ _ (fun i s => step7_store k j i s) ?_ _
      (forLoop_inv Q _ _ (fun i s => step7_prim c i s) (fun _ t _ _ hq => hq) _
        (forLoop_inv Q _ _ (fun i s => step7_load k j i s) (fun _ t _ _ hq => hq) t hq))
    rintro i t _ _ ⟨W, Bxc, Wl, Wr, hr, hl, hrr⟩
    have hn : ¬ (k0 = k ∧ j0 = j ∧ i0 = i) := fun h => hne ⟨h.1.symm, h.2.1.symm⟩
    refine ⟨W, Bxc, Wl, Wr, hr, ?_, ?_⟩
    · show (step7_store k j i t).Wl_x1Face k0 j0 i0 = _
      simp only [step7_store, set3, hn, if_false]
      exact hl
    · show (step7_store k j i t).Wr_x1Face k0 j0 i0 = _
      simp only [step7_store, set3, hn, if_false]
      exact hrr

/-- Step 7 does not read `pG->U`: it commutes with any change of that array. -/
theorem step7_blind (c : Config) (l : Locals) (s : State) (U : Arr3 Gas) :
    step7 c l (lensU.set s U) = lensU.set (step7 c l s) U := by
  unfold step7
  refine forLoop2_comm (fun t => lensU.set t U) _ _ _ _ _ (fun k j t => ?_) s
  exact lineSweep_comm (fun t => lensU.set t U) _ _ _ _ (fun i s => step7_load k j i s)
    (fun i s => step7_prim c i s) (fun i s => step7_store k j i s)
    (step7_lr c (l.ib + 1) (l.it - 1)) (fun _ _ => rfl) (fun _ _ => rfl) (fun _ _ => rfl)
    (fun _ => rfl) t

/-- Step 8 at one face of one line: the interface states stored are the outputs of
`lr_states` on a primitive line whose elements over the whole line are the conversions
of the cells of `Uhalf`. -/
theorem step8_recon (c : Config) (l : Locals) (s : State) (k0 i0 j0 : Int)
    (h1 : l.kb ≤ k0 ∧ k0 ≤ l.kt) (h2 : l.ib ≤ i0 ∧ i0 ≤ l.it)
    (h3 : l.jb + 1 ≤ j0 ∧ j0 ≤ l.jt) :
    ∃ (W : Arr1 Prim1D) (Bxc : Arr1 ℚ) (Wl Wr : Arr1 Prim1D),
      (∀ m, l.jl ≤ m → m ≤ l.ju →
        W m = c.Cons1D_to_Prim1D (load2 (s.Uhalf k0 m i0)) (s.Uhalf k0 m i0).B2c ∧
        Bxc m = (s.Uhalf k0 m i0).B2c) ∧
      (step8 c l s).Wl_x2Face k0 j0 i0 =
        (c.lr_states W Bxc 0 (l.jb + 1) (l.jt - 1) Wl Wr).1 j0 ∧
      (step8 c l s).Wr_x2Face k0 j0 i0 =
        (c.lr_states W Bxc 0 (l.jb + 1) (l.jt - 1) Wl Wr).2 j0 := by
  let P : State → Prop := fun t => t.Uhalf = s.Uhalf
  let R : Arr1 Prim1D → Arr1 ℚ → Prop := fun W Bxc => ∀ m, l.jl ≤ m → m ≤ l.ju →
    W m = c.Cons1D_to_Prim1D (load2 (s.Uhalf k0 m i0)) (s.Uhalf k0 m i0).B2c ∧
    Bxc m = (s.Uhalf k0 m i0).B2c
  let Q : State → Prop := fun t => ∃ (W : Arr1 Prim1D) (Bxc : Arr1 ℚ) (Wl Wr : Arr1 Prim1D),
    R W Bxc ∧
    t.Wl_x2Face k0 j0 i0 = (c.lr_states W Bxc 0 (l.jb + 1) (l.jt - 1) Wl Wr).1 j0 ∧
    t.Wr_x2Face k0 j0 i0 = (c.lr_states W Bxc 0 (l.jb + 1) (l.jt - 1) Wl Wr).2 j0
  let P2 : State → Prop := fun t => ∀ m, l.jl ≤ m → m ≤ l.ju →
    t.U1d m = load2 (s.Uhalf k0 m i0) ∧ t.Bxc m = (s.Uhalf k0 m i0).B2c
  let P3 : State → Prop := fun t => ∃ (W : Arr1 Prim1D) (Bxc : Arr1 ℚ) (Wl Wr : Arr1 Prim1D),
    R W Bxc ∧ t.Wl j0 = (c.lr_states W Bxc 0 (l.jb + 1) (l.jt - 1) Wl Wr).1 j0 ∧
    t.Wr j0 = (c.lr_states W Bxc 0 (l.jb + 1) (l.jt - 1) Wl Wr).2 j0
  unfold step8
  refine forLoop2_establish P Q _ _ _ _ k0 i0
    (fun k i s => forLoop (l.jb + 1) l.jt (fun j s => step8_store k j i s)
      (step8_lr c (l.jb + 1) (l.jt - 1)
        (forLoop l.jl l.ju (fun j s => step8_prim c j s)
          (forLoop l.jl l.ju (fun j s => step8_load k j i s) s)))) h1 h2 ?_ ?_ ?_ s rfl
  · intro k i t _ _ _ _ hp
    exact forLoop_inv P _ _ (fun j s => step8_store k j i s) (fun _ t _ _ hp => hp) _
      (forLoop_inv P _ _ (fun j s => step8_prim c j s) (fun _ t _ _ hp => hp) _
        (forLoop_inv P _ _ (fun j s => step8_load k j i s) (fun _ t _ _ hp => hp) t hp))
  · intro t hp
    have e1 : P2 (forLoop l.jl l.ju (fun j s => step8_load k0 j i0 s) t) := by
      intro m a1 a2
      refine forLoop_establish P (fun t => t.U1d m = load2 (s.Uhalf k0 m i0) ∧
          t.Bxc m = (s.Uhalf k0 m i0).B2c) _ _ m
        (fun j s => step8_load k0 j i0 s) a1 a2 (fun _ t _ _ hp => hp) ?_ ?_ t hp
      · intro t hp
        have hp' : t.Uhalf = s.Uhalf := hp
        simp only [step8_load, set1, if_true, hp', and_self]
      · intro n t _ _ hne hp hq
        have hn : ¬ m = n := fun h => hne h.symm
        simp only [step8_load, set1, hn, if_false]
        exact hq
    have e2 : ∀ m, l.jl ≤ m → m ≤ l.ju →
        (forLoop l.jl l.ju (fun j s => step8_prim c j s)
          (forLoop l.jl l.ju (fun j s => step8_load k0 j i0 s) t)).W m =
            c.Cons1D_to_Prim1D (load2 (s.Uhalf k0 m i0)) (s.Uhalf k0 m i0).B2c ∧
        (forLoop l.jl l.ju (fun j s => step8_prim c j s)
          (forLoop l.jl l.ju (fun j s => step8_load k0 j i0 s) t)).Bxc m =
            (s.Uhalf k0 m i0).B2c := by
      intro m a1 a2
      refine forLoop_establish P2 (fun t => t.W m =
          c.Cons1D_to_Prim1D (load2 (s.Uhalf k0 m i0)) (s.Uhalf k0 m i0).B2c ∧
          t.Bxc m = (s.Uhalf k0 m i0).B2c) _ _ m
        (fun j s => step8_prim c j s) a1 a2 (fun _ t _ _ hp => hp) ?_ ?_ _ e1
      · intro t hp
        refine ⟨?_, (hp m a1 a2).2⟩
        show (step8_prim c m t).W m = _
        simp only [step8_prim, set1, if_true]
        rw [(hp m a1 a2).1, (hp m a1 a2).2]
      · intro n t _ _ hne hp hq
        have hn : ¬ m = n := fun h => hne h.symm
        refine ⟨?_, hq.2⟩
        show (step8_prim c n t).W m = _
        simp only [step8_prim, set1, hn, if_false]
        exact hq.1
    have e3 : P3 (step8_lr c (l.jb + 1) (l.jt - 1)
        (forLoop l.jl l.ju (fun j s => step8_prim c j s)
          (forLoop l.jl l.ju (fun j s => step8_load k0 j i0 s) t))) :=
      ⟨_, _, _, _, e2, rfl, rfl⟩
    refine forLoop_establish P3 Q _ _ j0 (fun j s => step8_store k0 j i0 s) h3.1 h3.2
      (fun _ t _ _ hp => hp) ?_ ?_ _ e3
    · rintro t ⟨W, Bxc, Wl, Wr, hr, hl, hrr⟩
      refine ⟨W, Bxc, Wl, Wr, hr, ?_, ?_⟩
      · show (step8_store k0 j0 i0 t).Wl_x2Face k0 j0 i0 = _
        simp only [step8_store, set3, and_self, if_true]
        exact hl
      · show (step8_store k0 j0 i0 t).Wr_x2Face k0 j0 i0 = _
        simp only [step8_store, set3, and_self, if_true]
        exact hrr
    · intro n t _ _ hne hp hq
      have hn : ¬ j0 = n := fun h => hne h.symm
      obtain ⟨W, Bxc, Wl, Wr, hr, hl, hrr⟩ := hq
      refine ⟨W, Bxc, Wl, Wr, hr, ?_, ?_⟩
      · show (step8_store k0 n i0 t).Wl_x2Face k0 j0 i0 = _
        simp only [step8_store, set3, hn, and_false, if_false]
        exact hl
      · show (step8_store k0 n i0 t).Wr_x2Face k0 j0 i0 = _
        simp only [step8_store, set3, hn, and_false, if_false]
        exact hrr
  · intro k i t _ _ _ _ hne hp hq
    refine forLoop_inv Q _ _ (fun j s => step8_store k j i s) ?_ _
      (forLoop_inv Q _ _ (fun j s => step8_prim c j s) (fun _ t _ _ hq => hq) _
        (forLoop_inv Q _ _ (fun j s => step8_load k j i s) (fun _ t _ _ hq => hq) t hq))
    rintro j t _ _ ⟨W, Bxc, Wl, Wr, hr, hl, hrr⟩
    have hn : ¬ (k0 = k ∧ j0 = j ∧ i0 = i) := fun h => hne ⟨h.1.symm, h.2.2.symm⟩
    refine ⟨W, Bxc, Wl, Wr, hr, ?_, ?_⟩
    · show (step8_store k j i t).Wl_x2Face k0 j0 i0 = _
      simp only [step8_store, set3, hn, if_false]
      exact hl
    · show (step8_store k j i t).Wr_x2Face k0 j0 i0 = _
      simp only [step8_store, set3, hn, if_false]
      exact hrr

/-- Step 8 does not read `pG->U`: it commutes with any change of that array. -/
theorem step8_blind (c : Config) (l : Locals) (s : State) (U : Arr3 Gas) :
    step8 c l (lensU.set s U) = lensU.set (step8 c l s) U := by
  unfold step8
  refine forLoop2_comm (fun t => lensU.set t U) _ _ _ _ _ (fun k i t => ?_) s
  exact lineSweep_comm (fun t => lensU.set t U) _ _ _ _ (fun j s => step8_load k j i s)
    (fun j s => step8_prim c j s) (fun j s => step8_store k j i s)
    (step8_lr c (l.jb + 1) (l.jt - 1)) (fun _ _ => rfl) (fun _ _ => rfl) (fun _ _ => rfl)
    (fun _ => rfl) t

/-- Step 9 at one face of one line: the interface states stored are the outputs of
`lr_states` on a primitive line whose elements over the whole line are the conversions
of the cells of `Uhalf`. -/
theorem step9_recon (c : Config) (l : Locals) (s : State) (j0 i0 k0 : Int)
    (h1 : l.jb ≤ j0 ∧ j0 ≤ l.jt) (h2 : l.ib ≤ i0 ∧ i0 ≤ l.it)
    (h3 : l.kb + 1 ≤ k0 ∧ k0 ≤ l.kt) :
    ∃ (W : Arr1 Prim1D) (Bxc : Arr1 ℚ) (Wl Wr : Arr1 Prim1D),
      (∀ m, l.kl ≤ m → m ≤ l.ku →
        W m = c.Cons1D_to_Prim1D (load3 (s.Uhalf m j0 i0)) (s.Uhalf m j0 i0).B3c ∧
        Bxc m = (s.Uhalf m j0 i0).B3c) ∧
      (step9 c l s).Wl_x3Face k0 j0 i0 =
        (c.lr_states W Bxc 0 (l.kb + 1) (l.kt - 1) Wl Wr).1 k0 ∧
      (step9 c l s).Wr_x3Face k0 j0 i0 =
        (c.lr_states W Bxc 0 (l.kb + 1) (l.kt - 1) Wl Wr).2 k0 := by
  let P : State → Prop := fun t => t.Uhalf = s.Uhalf
  let R : Arr1 Prim1D → Arr1 ℚ → Prop := fun W Bxc => ∀ m, l.kl ≤ m → m ≤ l.ku →
    W m = c.Cons1D_to_Prim1D (load3 (s.Uhalf m j0 i0)) (s.Uhalf m j0 i0).B3c ∧
    Bxc m = (s.Uhalf m j0 i0).B3c
  let Q : State → Prop := fun t => ∃ (W : Arr1 Prim1D) (Bxc : Arr1 ℚ) (Wl Wr : Arr1 Prim1D),
    R W Bxc ∧
    t.Wl_x3Face k0 j0 i0 = (c.lr_states W Bxc 0 (l.kb + 1) (l.kt - 1) Wl Wr).1 k0 ∧
    t.Wr_x3Face k0 j0 i0 = (c.lr_states W Bxc 0 (l.kb + 1) (l.kt - 1) Wl Wr).2 k0
  let P2 : State → Prop := fun t => ∀ m, l.kl ≤ m → m ≤ l.ku →
    t.U1d m = load3 (s.Uhalf m j0 i0) ∧ t.Bxc m = (s.Uhalf m j0 i0).B3c
  let P3 : State → Prop := fun t => ∃ (W : Arr1 Prim1D) (Bxc : Arr1 ℚ) (Wl Wr : Arr1 Prim1D),
    R W Bxc ∧ t.Wl k0 = (c.lr_states W Bxc 0 (l.kb + 1) (l.kt - 1) Wl Wr).1 k0 ∧
    t.Wr k0 = (c.lr_states W Bxc 0 (l.kb + 1) (l.kt - 1) Wl Wr).2 k0
  unfold step9
  refine forLoop2_establish P Q _ _ _ _ j0 i0
    (fun j i s => forLoop (l.kb + 1) l.kt (fun k s => step9_store k j i s)
      (step9_lr c (l.kb + 1) (l.kt - 1)
        (forLoop l.kl l.ku (fun k s => step9_prim c k s)
          (forLoop l.kl l.ku (fun k s => step9_load k j i s) s)))) h1 h2 ?_ ?_ ?_ s rfl
  · intro j i t _ _ _ _ hp
    exact forLoop_inv P _ _ (fun k s => step9_store k j i s) (fun _ t _ _ hp => hp) _
      (forLoop_inv P _ _ (fun k s => step9_prim c k s) (fun _ t _ _ hp => hp) _
        (forLoop_inv P _ _ (fun k s => step9_load k j i s) (fun _ t _ _ hp => hp) t hp))
  · intro t hp
    have e1 : P2 (forLoop l.kl l.ku (fun k s => step9_load k j0 i0 s) t) := by
      intro m a1 a2
      refine forLoop_establish P (fun t => t.U1d m = load3 (s.Uhalf m j0 i0) ∧
          t.Bxc m = (s.Uhalf m j0 i0).B3c) _ _ m
        (fun k s => step9_load k j0 i0 s) a1 a2 (fun _ t _ _ hp => hp) ?_ ?_ t hp
      · intro t hp
        have hp' : t.Uhalf = s.Uhalf := hp
        simp only [step9_load, set1, if_true, hp', and_self]
      · intro n t _ _ hne hp hq
        have hn : ¬ m = n := fun h => hne h.symm
        simp only [step9_load, set1, hn, if_false]
        exact hq
    have e2 : ∀ m, l.kl ≤ m → m ≤ l.ku →
        (forLoop l.kl l.ku (fun k s => step9_prim c k s)
          (forLoop l.kl l.ku (fun k s => step9_load k j0 i0 s) t)).W m =
            c.Cons1D_to_Prim1D (load3 (s.Uhalf m j0 i0)) (s.Uhalf m j0 i0).B3c ∧
        (forLoop l.kl l.ku (fun k s => step9_prim c k s)
          (forLoop l.kl l.ku (fun k s => step9_load k j0 i0 s) t)).Bxc m =
            (s.Uhalf m j0 i0).B3c := by
      intro m a1 a2
      refine forLoop_establish P2 (fun t => t.W m =
          c.Cons1D_to_Prim1D (load3 (s.Uhalf m j0 i0)) (s.Uhalf m j0 i0).B3c ∧
          t.Bxc m = (s.Uhalf m j0 i0).B3c) _ _ m
        (fun k s => step9_prim c k s) a1 a2 (fun _ t _ _ hp => hp) ?_ ?_ _ e1
      · intro t hp
        refine ⟨?_, (hp m a1 a2).2⟩
        show (step9_prim c m t).W m = _
        simp only [step9_prim, set1, if_true]
        rw [(hp m a1 a2).1, (hp m a1 a2).2]
      · intro n t _ _ hne hp hq
        have hn : ¬ m = n := fun h => hne h.symm
        refine ⟨?_, hq.2⟩
        show (step9_prim c n t).W m = _
        simp only [step9_prim, set1, hn, if_false]
        exact hq.1
    have e3 : P3 (step9_lr c (l.kb + 1) (l.kt - 1)
        (forLoop l.kl l.ku (fun k s => step9_prim c k s)
          (forLoop l.kl l.ku (fun k s => step9_load k j0 i0 s) t))) :=
      ⟨_, _, _, _, e2, rfl, rfl⟩
    refine forLoop_establish P3 Q _ _ k0 (fun k s => step9_store k j0 i0 s) h3.1 h3.2
      (fun _ t _ _ hp => hp) ?_ ?_ _ e3
    · rintro t ⟨W, Bxc, Wl, Wr, hr, hl, hrr⟩
      refine ⟨W, Bxc, Wl, Wr, hr, ?_, ?_⟩
      · show (step9_store k0 j0 i0 t).Wl_x3Face k0 j0 i0 = _
        simp only [step9_store, set3, and_self, if_true]
        exact hl
      · show (step9_store k0 j0 i0 t).Wr_x3Face k0 j0 i0 = _
        simp only [step9_store, set3, and_self, if_true]
        exact hrr
    · intro n t _ _ hne hp hq
      have hn : ¬ k0 = n := fun h => hne h.symm
      obtain ⟨W, Bxc, Wl, Wr, hr, hl, hrr⟩ := hq
      refine ⟨W, Bxc, Wl, Wr, hr, ?_, ?_⟩
      · show (step9_store n j0 i0 t).Wl_x3Face k0 j0 i0 = _
        simp only [step9_store, set3, hn, and_false, if_false]
        exact hl
      · show (step9_store n j0 i0 t).Wr_x3Face k0 j0 i0 = _
        simp only [step9_store, set3, hn, and_false, if_false]
        exact hrr
  · intro j i t _ _ _ _ hne hp hq
    refine forLoop_inv Q _ _ (fun k s => step9_store k j i s) ?_ _
      (forLoop_inv Q _ _ (fun k s => step9_prim c k s) (fun _ t _ _ hq => hq) _
        (forLoop_inv Q _ _ (fun k s => step9_load k j i s) (fun _ t _ _ hq => hq) t hq))
    rintro k t _ _ ⟨W, Bxc, Wl, Wr, hr, hl, hrr⟩
    have hn : ¬ (k0 = k ∧ j0 = j ∧ i0 = i) := fun h => hne ⟨h.2.1.symm, h.2.2.symm⟩
    refine ⟨W, Bxc, Wl, Wr, hr, ?_, ?_⟩
    · show (step9_store k j i t).Wl_x3Face k0 j0 i0 = _
      simp only [step9_store, set3, hn, if_false]
      exact hl
    · show (step9_store k j i t).Wr_x3Face k0 j0 i0 = _
      simp only [step9_store, set3, hn, if_false]
      exact hrr

/-- Step 9 does not read `pG->U`: it commutes with any change of that array. -/
theorem step9_blind (c : Config) (l : Locals) (s : State) (U : Arr3 Gas) :
    step9 c l (lensU.set s U) = lensU.set (step9 c l s) U := by
  unfold step9
  refine forLoop2_comm (fun t => lensU.set t U) _ _ _ _ _ (fun j i t => ?_) s
  exact lineSweep_comm (fun t => lensU.set t U) _ _ _ _ (fun k s => step9_load k j i s)
    (fun k s => step9_prim c k s) (fun k s => step9_store k j i s)
    (step9_lr c (l.kb + 1) (l.kt - 1)) (fun _ _ => rfl) (fun _ _ => rfl) (fun _ _ => rfl)
    (fun _ => rfl) t

/-- C22: the corrector reconstructs from the half-step state. In Steps 7-9, for every
line and every face `ib+1..it` (`jb+1..jt`, `kb+1..kt`) of it, the interface states
stored in the face arrays are the outputs of `lr_states` at that index, for a primitive
line `W` and a normal field `Bxc` whose elements at all indices `il..iu` (`jl..ju`,
`kl..ku`) are the conversion of the cell of `Uhalf` at that position, permuted to the
sweep direction, and the cell-centred normal component of `Uhalf`. No element of `pG->U`
is read: each step commutes with any change of that array. -/
theorem C22_corrector_reconstructs_from_half_step (c : Config) (l : Locals) (s : State)
    (k j i : Int) :
    ((l.kb ≤ k ∧ k ≤ l.kt) → (l.jb ≤ j ∧ j ≤ l.jt) → (l.ib + 1 ≤ i ∧ i ≤ l.it) →
      ∃ (W : Arr1 Prim1D) (Bxc : Arr1 ℚ) (Wl Wr : Arr1 Prim1D),
        (∀ m, l.il ≤ m → m ≤ l.iu →
          W m = c.Cons1D_to_Prim1D (load1 (s.Uhalf k j m)) (s.Uhalf k j m).B1c ∧
          Bxc m = (s.Uhalf k j m).B1c) ∧
        (step7 c l s).Wl_x1Face k j i =
          (c.lr_states W Bxc 0 (l.ib + 1) (l.it - 1) Wl Wr).1 i ∧
        (step7 c l s).Wr_x1Face k j i =
          (c.lr_states W Bxc 0 (l.ib + 1) (l.it - 1) Wl Wr).2 i) ∧
    ((l.kb ≤ k ∧ k ≤ l.kt) → (l.ib ≤ i ∧ i ≤ l.it) → (l.jb + 1 ≤ j ∧ j ≤ l.jt) →
      ∃ (W : Arr1 Prim1D) (Bxc : Arr1 ℚ) (Wl Wr : Arr1 Prim1D),
        (∀ m, l.jl ≤ m → m ≤ l.ju →
          W m = c.Cons1D_to_Prim1D (load2 (s.Uhalf k m i)) (s.Uhalf k m i).B2c ∧
          Bxc m = (s.Uhalf k m i).B2c) ∧
        (step8 c l s).Wl_x2Face k j i =
          (c.lr_states W Bxc 0 (l.jb + 1) (l.jt - 1) Wl Wr).1 j ∧
        (step8 c l s).Wr_x2Face k j i =
          (c.lr_states W Bxc 0 (l.jb + 1) (l.jt - 1) Wl Wr).2 j) ∧
    ((l.jb ≤ j ∧ j ≤ l.jt) → (l.ib ≤ i ∧ i ≤ l.it) → (l.kb + 1 ≤ k ∧ k ≤ l.kt) →
      ∃ (W : Arr1 Prim1D) (Bxc : Arr1 ℚ) (Wl Wr : Arr1 Prim1D),
        (∀ m, l.kl ≤ m → m ≤ l.ku →
          W m = c.Cons1D_to_Prim1D (load3 (s.Uhalf m j i)) (s.Uhalf m j i).B3c ∧
          Bxc m = (s.Uhalf m j i).B3c) ∧
        (step9 c l s).Wl_x3Face k j i =
          (c.lr_states W Bxc 0 (l.kb + 1) (l.kt - 1) Wl Wr).1 k ∧
        (step9 c l s).Wr_x3Face k j i =
          (c.lr_states W Bxc 0 (l.kb + 1) (l.kt - 1) Wl Wr).2 k) ∧
    (∀ U : Arr3 Gas,
      step7 c l (lensU.set s U) = lensU.set (step7 c l s) U ∧
      step8 c l (lensU.set s U) = lensU.set (step8 c l s) U ∧
      step9 c l (lensU.set s U) = lensU.set (step9 c l s) U) :=
  ⟨step7_recon c l s k j i, step8_recon c l s k i j, step9_recon c l s j i k,
    fun U => ⟨step7_blind c l s U, step8_blind c l s U, step9_blind c l s U⟩⟩

/-- C22 on `demoState`: the x1-interface states stored for the face `(0, 0, 0)`. -/
theorem C22_witness :
    ∃ (W : Arr1 Prim1D) (Bxc : Arr1 ℚ) (Wl Wr : Arr1 Prim1D),
      (∀ m, (locals demoConfig demoGrid).il ≤ m → m ≤ (locals demoConfig demoGrid).iu →
        W m = demoC2P (load1 (demoState.Uhalf 0 0 m)) (demoState.Uhalf 0 0 m).B1c ∧
        Bxc m = (demoState.Uhalf 0 0 m).B1c) ∧
      (step7 demoConfig (locals demoConfig demoGrid) demoState).Wl_x1Face 0 0 0 =
        (demoLr W Bxc 0 ((locals demoConfig demoGrid).ib + 1)
          ((locals demoConfig demoGrid).it - 1) Wl Wr).1 0 ∧
      (step7 demoConfig (locals demoConfig demoGrid) demoState).Wr_x1Face 0 0 0 =
        (demoLr W Bxc 0 ((locals demoConfig demoGrid).ib + 1)
          ((locals demoConfig demoGrid).it - 1) Wl Wr).2 0 :=
  (C22_corrector_reconstructs_from_half_step demoConfig (locals demoConfig demoGrid) demoState
    0 0 0).1 (by decide) (by decide) (by decide)

/-! ## Step 10 in closed form -/

theorem MAX_eq_max (a b : ℚ) : MAX a b = max a b := by
  unfold MAX
  split_ifs with h
  · exact (max_eq_left (le_of_lt h)).symm
  · exact (max_eq_right (not_lt.mp h)).symm

/-- With the H-correction on, `etah` for a face is the chain of `MAX` over its stencil. -/
theorem etah_stencil (c : Config) (s : State) (k j i : Int) (hH : c.H_CORRECTION = true) :
    (etah1 c k j i s).etah = etahOf s (stencil1 k j i) ∧
    (etah2 c k j i s).etah = etahOf s (stencil2 k j i) ∧
    (etah3 c k j i s).etah = etahOf s (stencil3 k j i) := by
  refine ⟨?_, ?_, ?_⟩
  · simp only [etah1, hH, if_true]; rfl
  · simp only [etah2, hH, if_true]; rfl
  · simp only [etah3, hH, if_true]; rfl

/-- The chain of `MAX` over a non-empty list is the largest entry: it is one of the
entries and no entry exceeds it. -/
theorem etahOf_max (s : State) (e : EtaIx) (es : List EtaIx) :
    (∀ x ∈ e :: es, etaAt s x ≤ etahOf s (e :: es)) ∧
    (∃ x ∈ e :: es, etahOf s (e :: es) = etaAt s x) := by
  have key : ∀ (es : List EtaIx) (m : ℚ),
      (m ≤ es.foldl (fun m e => MAX m (etaAt s e)) m ∧
        ∀ x ∈ es, etaAt s x ≤ es.foldl (fun m e => MAX m (etaAt s e)) m) ∧
      (es.foldl (fun m e => MAX m (etaAt s e)) m = m ∨
        ∃ x ∈ es, es.foldl (fun m e => MAX m (etaAt s e)) m = etaAt s x) := by
    intro es
    induction es with
    | nil => intro m; exact ⟨⟨le_refl _, fun x hx => absurd hx (List.not_mem_nil x)⟩, Or.inl rfl⟩
    | cons a es ih =>
      intro m
      obtain ⟨⟨h1, h2⟩, h3⟩ := ih (MAX m (etaAt s a))
      simp only [List.foldl_cons]
      rw [MAX_eq_max] at h1 h2 h3 ⊢
      refine ⟨⟨le_trans (le_max_left _ _) h1, fun x hx => ?_⟩, ?_⟩
      · rcases List.mem_cons.mp hx with rfl | hx
        · exact le_trans (le_max_right _ _) h1
        · exact h2 x hx
      · rcases h3 with h3 | ⟨x, hx, h3⟩
        · rcases max_choice m (etaAt s a) with h | h
          · exact Or.inl (h3.trans h)
          · exact Or.inr ⟨a, List.mem_cons_self _ _, h3.trans h⟩
        · exact Or.inr ⟨x, List.mem_cons_of_mem _ hx, h3⟩
  obtain ⟨⟨h1, h2⟩, h3⟩ := key es (etaAt s e)
  refine ⟨fun x hx => ?_, ?_⟩
  · rcases List.mem_cons.mp hx with rfl | hx
    · exact h1
    · exact h2 x hx
  · rcases h3 with h3 | ⟨x, hx, h3⟩
    · exact ⟨e, List.mem_cons_self _ _, h3⟩
    · exact ⟨x, List.mem_cons_of_mem _ hx, h3⟩

/-- Step 10a with the H-correction on, in closed form: each of the three arrays gets the
signal speeds of the faces of its loop nest and keeps its other entries. -/
theorem step10a_eq (c : Config) (l : Locals) (s : State) (hH : c.H_CORRECTION = true) :
    step10a c l s = { s with
      eta1 := cellMap l.kb l.kt l.jb l.jt (l.ib + 1) l.it
        (fun k j i _ => etaFresh c s (.x1, k, j, i)) s.eta1,
      eta2 := cellMap l.kb l.kt (l.jb + 1) l.jt l.ib l.it
        (fun k j i _ => etaFresh c s (.x2, k, j, i)) s.eta2,
      eta3 := cellMap (l.kb + 1) l.kt l.jb l.jt l.ib l.it
        (fun k j i _ => etaFresh c s (.x3, k, j, i)) s.eta3 } := by
  have h1 : ∀ t : State, cellNest lensEta1 l.kb l.kt l.jb l.jt (l.ib + 1) l.it
      (fun k j i s _ => etaFresh c s (.x1, k, j, i)) t =
        lensEta1.set t (cellMap l.kb l.kt l.jb l.jt (l.ib + 1) l.it
          (fun k j i _ => etaFresh c t (.x1, k, j, i)) t.eta1) := fun t =>
    cellNest_eq lensEta1 _ _ _ _ _ _ (fun k j i s _ => etaFresh c s (.x1, k, j, i))
      (fun _ _ _ _ _ _ => rfl) t
  have h2 : ∀ t : State, cellNest lensEta2 l.kb l.kt (l.jb + 1) l.jt l.ib l.it
      (fun k j i s _ => etaFresh c s (.x2, k, j, i)) t =
        lensEta2.set t (cellMap l.kb l.kt (l.jb + 1) l.jt l.ib l.it
          (fun k j i _ => etaFresh c t (.x2, k, j, i)) t.eta2) := fun t =>
    cellNest_eq lensEta2 _ _ _ _ _ _ (fun k j i s _ => etaFresh c s (.x2, k, j, i))
      (fun _ _ _ _ _ _ => rfl) t
  have h3 : ∀ t : State, cellNest lensEta3 (l.kb + 1) l.kt l.jb l.jt l.ib l.it
      (fun k j i s _ => etaFresh c s (.x3, k, j, i)) t =
        lensEta3.set t (cellMap (l.kb + 1) l.kt l.jb l.jt l.ib l.it
          (fun k j i _ => etaFresh c t (.x3, k, j, i)) t.eta3) := fun t =>
    cellNest_eq lensEta3 _ _ _ _ _ _ (fun k j i s _ => etaFresh c s (.x3, k, j, i))
      (fun _ _ _ _ _ _ => rfl) t
  have e : step10a c l s = cellNest lensEta3 (l.kb + 1) l.kt l.jb l.jt l.ib l.it
      (fun k j i s _ => etaFresh c s (.x3, k, j, i))
      (cellNest lensEta2 l.kb l.kt (l.jb + 1) l.jt l.ib l.it
        (fun k j i s _ => etaFresh c s (.x2, k, j, i))
        (cellNest lensEta1 l.kb l.kt l.jb l.jt (l.ib + 1) l.it
          (fun k j i s _ => etaFresh c s (.x1, k, j, i)) s)) := by
    unfold step10a
    simp only [hH, if_true]
    rfl
  rw [e, h1, h2, h3]
  rfl

/-- Step 10a with the H-correction on, entry by entry: an entry of the loop nests gets
the signal speed of its face, any other entry keeps its value. -/
theorem step10a_etaAt (c : Config) (l : Locals) (s : State) (hH : c.H_CORRECTION = true)
    (e : EtaIx) :
    etaAt (step10a c l s) e = if etaWritten l e then etaFresh c s e else etaAt s e := by
  rw [step10a_eq c l s hH]
  rcases e with ⟨d, k, j, i⟩
  cases d <;> simp only [etaAt, etaWritten, cellMap]

theorem etaFresh_nonneg (c : Config) (s : State) (e : EtaIx) : 0 ≤ etaFresh c s e := by
  rcases e with ⟨d, k, j, i⟩
  cases d <;> simp only [etaFresh, etaVal] <;> positivity


/-- The `etah` of a face depends on the three arrays of signal speeds only, and on the
incoming `etah` when the H-correction is off. -/
theorem etah_congr (c : Config) (s t : State) (k j i : Int)
    (h1 : t.eta1 = s.eta1) (h2 : t.eta2 = s.eta2) (h3 : t.eta3 = s.eta3)
    (h4 : c.H_CORRECTION = false → t.etah = s.etah) :
    (etah1 c k j i t).etah = (etah1 c k j i s).etah ∧
    (etah2 c k j i t).etah = (etah2 c k j i s).etah ∧
    (etah3 c k j i t).etah = (etah3 c k j i s).etah := by
  cases hH : c.H_CORRECTION with
  | false =>
    rw [etah1_off c k j i t hH, etah1_off c k j i s hH, etah2_off c k j i t hH,
      etah2_off c k j i s hH, etah3_off c k j i t hH, etah3_off c k j i s hH]
    exact ⟨h4 hH, h4 hH, h4 hH⟩
  | true =>
    simp only [etah1, etah2, etah3, hH, if_true, h1, h2, h3, and_self]

/-- Step 10b in closed form at one face: the flux stored is the flux between the
conversions of the two interface states of the face, with the `etah` of the face. -/
theorem step10b_flux_at (c : Config) (l : Locals) (s : State) (k0 j0 i0 : Int)
    (hk : l.kb ≤ k0 ∧ k0 ≤ l.kt) (hj : l.jb ≤ j0 ∧ j0 ≤ l.jt) (hi : l.ib + 1 ≤ i0 ∧ i0 ≤ l.it) :
    (step10b c l s).x1Flux k0 j0 i0 =
      c.fluxes (etah1 c k0 j0 i0 s).etah
        (c.Prim1D_to_Cons1D (s.Wl_x1Face k0 j0 i0) (s.B1_x1Face k0 j0 i0))
        (c.Prim1D_to_Cons1D (s.Wr_x1Face k0 j0 i0) (s.B1_x1Face k0 j0 i0))
        (s.Wl_x1Face k0 j0 i0) (s.Wr_x1Face k0 j0 i0) (s.B1_x1Face k0 j0 i0) := by
  let P : State → Prop := fun t => t.eta1 = s.eta1 ∧ t.eta2 = s.eta2 ∧ t.eta3 = s.eta3 ∧
    t.Wl_x1Face = s.Wl_x1Face ∧ t.Wr_x1Face = s.Wr_x1Face ∧
    t.B1_x1Face = s.B1_x1Face ∧ (c.H_CORRECTION = false → t.etah = s.etah)
  let Q : State → Prop := fun t => t.x1Flux k0 j0 i0 =
    c.fluxes (etah1 c k0 j0 i0 s).etah
      (c.Prim1D_to_Cons1D (s.Wl_x1Face k0 j0 i0) (s.B1_x1Face k0 j0 i0))
      (c.Prim1D_to_Cons1D (s.Wr_x1Face k0 j0 i0) (s.B1_x1Face k0 j0 i0))
      (s.Wl_x1Face k0 j0 i0) (s.Wr_x1Face k0 j0 i0) (s.B1_x1Face k0 j0 i0)
  unfold step10b
  refine forLoop3_establish P Q _ _ _ _ _ _ k0 j0 i0 (fun k j i s => step10b_body c k j i s)
    hk hj hi ?_ ?_ ?_ s ⟨rfl, rfl, rfl, rfl, rfl, rfl, fun _ => rfl⟩
  · intro k j i t _ _ _ _ _ _ hp
    obtain ⟨a, ha⟩ := etah1_writes c k j i t
    refine ⟨?_, ?_, ?_, ?_, ?_, ?_, fun h => ?_⟩
    · show (step10b_body c k j i t).eta1 = _
      simp only [step10b_body, ha]; exact hp.1
    · show (step10b_body c k j i t).eta2 = _
      simp only [step10b_body, ha]; exact hp.2.1
    · show (step10b_body c k j i t).eta3 = _
      simp only [step10b_body, ha]; exact hp.2.2.1
    · show (step10b_body c k j i t).Wl_x1Face = _
      simp only [step10b_body, ha]; exact hp.2.2.2.1
    · show (step10b_body c k j i t).Wr_x1Face = _
      simp only [step10b_body, ha]; exact hp.2.2.2.2.1
    · show (step10b_body c k j i t).B1_x1Face = _
      simp only [step10b_body, ha]; exact hp.2.2.2.2.2.1
    · show (step10b_body c k j i t).etah = s.etah
      simp only [step10b_body, etah1_off c k j i t h]
      exact hp.2.2.2.2.2.2 h
  · intro t hp
    obtain ⟨a, ha⟩ := etah1_writes c k0 j0 i0 t
    have hea : a = (etah1 c k0 j0 i0 s).etah := by
      have e := congrArg State.etah ha
      rw [(etah_congr c s t k0 j0 i0 hp.1 hp.2.1 hp.2.2.1 hp.2.2.2.2.2.2).1] at e
      exact e.symm
    show (step10b_body c k0 j0 i0 t).x1Flux k0 j0 i0 = _
    simp only [step10b_body, ha, set1, set3, and_self, if_true]
    rw [hp.2.2.2.1, hp.2.2.2.2.1, hp.2.2.2.2.2.1, hea]
  · intro k j i t _ _ _ _ _ _ hne hp hq
    obtain ⟨a, ha⟩ := etah1_writes c k j i t
    have hn : ¬ (k0 = k ∧ j0 = j ∧ i0 = i) := fun h => hne ⟨h.1.symm, h.2.1.symm, h.2.2.symm⟩
    show (step10b_body c k j i t).x1Flux k0 j0 i0 = _
    simp only [step10b_body, ha, set3, hn, if_false]
    exact hq

/-- Step 10c in closed form at one face: the flux stored is the flux between the
conversions of the two interface states of the face, with the `etah` of the face. -/
theorem step10c_flux_at (c : Config) (l : Locals) (s : State) (k0 j0 i0 : Int)
    (hk : l.kb ≤ k0 ∧ k0 ≤ l.kt) (hj : l.jb + 1 ≤ j0 ∧ j0 ≤ l.jt) (hi : l.ib ≤ i0 ∧ i0 ≤ l.it) :
    (step10c c l s).x2Flux k0 j0 i0 =
      c.fluxes (etah2 c k0 j0 i0 s).etah
        (c.Prim1D_to_Cons1D (s.Wl_x2Face k0 j0 i0) (s.B2_x2Face k0 j0 i0))
        (c.Prim1D_to_Cons1D (s.Wr_x2Face k0 j0 i0) (s.B2_x2Face k0 j0 i0))
        (s.Wl_x2Face k0 j0 i0) (s.Wr_x2Face k0 j0 i0) (s.B2_x2Face k0 j0 i0) := by
  let P : State → Prop := fun t => t.eta1 = s.eta1 ∧ t.eta2 = s.eta2 ∧ t.eta3 = s.eta3 ∧
    t.Wl_x2Face = s.Wl_x2Face ∧ t.Wr_x2Face = s.Wr_x2Face ∧
    t.B2_x2Face = s.B2_x2Face ∧ (c.H_CORRECTION = false → t.etah = s.etah)
  let Q : State → Prop := fun t => t.x2Flux k0 j0 i0 =
    c.fluxes (etah2 c k0 j0 i0 s).etah
      (c.Prim1D_to_Cons1D (s.Wl_x2Face k0 j0 i0) (s.B2_x2Face k0 j0 i0))
      (c.Prim1D_to_Cons1D (s.Wr_x2Face k0 j0 i0) (s.B2_x2Face k0 j0 i0))
      (s.Wl_x2Face k0 j0 i0) (s.Wr_x2Face k0 j0 i0) (s.B2_x2Face k0 j0 i0)
  unfold step10c
  refine forLoop3_establish P Q _ _ _ _ _ _ k0 j0 i0 (fun k j i s => step10c_body c k j i s)
    hk hj hi ?_ ?_ ?_ s ⟨rfl, rfl, rfl, rfl, rfl, rfl, fun _ => rfl⟩
  · intro k j i t _ _ _ _ _ _ hp
    obtain ⟨a, ha⟩ := etah2_writes c k j i t
    refine ⟨?_, ?_, ?_, ?_, ?_, ?_, fun h => ?_⟩
    · show (step10c_body c k j i t).eta1 = _
      simp only [step10c_body, ha]; exact hp.1
    · show (step10c_body c k j i t).eta2 = _
      simp only [step10c_body, ha]; exact hp.2.1
    · show (step10c_body c k j i t).eta3 = _
      simp only [step10c_body, ha]; exact hp.2.2.1
    · show (step10c_body c k j i t).Wl_x2Face = _
      simp only [step10c_body, ha]; exact hp.2.2.2.1
    · show (step10c_body c k j i t).Wr_x2Face = _
      simp only [step10c_body, ha]; exact hp.2.2.2.2.1
    · show (step10c_body c k j i t).B2_x2Face = _
      simp only [step10c_body, ha]; exact hp.2.2.2.2.2.1
    · show (step10c_body c k j i t).etah = s.etah
      simp only [step10c_body, etah2_off c k j i t h]
      exact hp.2.2.2.2.2.2 h
  · intro t hp
    obtain ⟨a, ha⟩ := etah2_writes c k0 j0 i0 t
    have hea : a = (etah2 c k0 j0 i0 s).etah := by
      have e := congrArg State.etah ha
      rw [(etah_congr c s t k0 j0 i0 hp.1 hp.2.1 hp.2.2.1 hp.2.2.2.2.2.2).2.1] at e
      exact e.symm
    show (step10c_body c k0 j0 i0 t).x2Flux k0 j0 i0 = _
    simp only [step10c_body, ha, set1, set3, and_self, if_true]
    rw [hp.2.2.2.1, hp.2.2.2.2.1, hp.2.2.2.2.2.1, hea]
  · intro k j i t _ _ _ _ _ _ hne hp hq
    obtain ⟨a, ha⟩ := etah2_writes c k j i t
    have hn : ¬ (k0 = k ∧ j0 = j ∧ i0 = i) := fun h => hne ⟨h.1.symm, h.2.1.symm, h.2.2.symm⟩
    show (step10c_body c k j i t).x2Flux k0 j0 i0 = _
    simp only [step10c_body, ha, set3, hn, if_false]
    exact hq

/-- Step 10d in closed form at one face: the flux stored is the flux between the
conversions of the two interface states of the face, with the `etah` of the face. -/
theorem step10d_flux_at (c : Config) (l : Locals) (s : State) (k0 j0 i0 : Int)
    (hk : l.kb + 1 ≤ k0 ∧ k0 ≤ l.kt) (hj : l.jb ≤ j0 ∧ j0 ≤ l.jt) (hi : l.ib ≤ i0 ∧ i0 ≤ l.it) :
    (step10d c l s).x3Flux k0 j0 i0 =
      c.fluxes (etah3 c k0 j0 i0 s).etah
        (c.Prim1D_to_Cons1D (s.Wl_x3Face k0 j0 i0) (s.B3_x3Face k0 j0 i0))
        (c.Prim1D_to_Cons1D (s.Wr_x3Face k0 j0 i0) (s.B3_x3Face k0 j0 i0))
        (s.Wl_x3Face k0 j0 i0) (s.Wr_x3Face k0 j0 i0) (s.B3_x3Face k0 j0 i0) := by
  let P : State → Prop := fun t => t.eta1 = s.eta1 ∧ t.eta2 = s.eta2 ∧ t.eta3 = s.eta3 ∧
    t.Wl_x3Face = s.Wl_x3Face ∧ t.Wr_x3Face = s.Wr_x3Face ∧
    t.B3_x3Face = s.B3_x3Face ∧ (c.H_CORRECTION = false → t.etah = s.etah)
  let Q : State → Prop := fun t => t.x3Flux k0 j0 i0 =
    c.fluxes (etah3 c k0 j0 i0 s).etah
      (c.Prim1D_to_Cons1D (s.Wl_x3Face k0 j0 i0) (s.B3_x3Face k0 j0 i0))
      (c.Prim1D_to_Cons1D (s.Wr_x3Face k0 j0 i0) (s.B3_x3Face k0 j0 i0))
      (s.Wl_x3Face k0 j0 i0) (s.Wr_x3Face k0 j0 i0) (s.B3_x3Face k0 j0 i0)
  unfold step10d
  refine forLoop3_establish P Q _ _ _ _ _ _ k0 j0 i0 (fun k j i s => step10d_body c k j i s)
    hk hj hi ?_ ?_ ?_ s ⟨rfl, rfl, rfl, rfl, rfl, rfl, fun _ => rfl⟩
  · intro k j i t _ _ _ _ _ _ hp
    obtain ⟨a, ha⟩ := etah3_writes c k j i t
    refine ⟨?_, ?_, ?_, ?_, ?_, ?_, fun h => ?_⟩
    · show (step10d_body c k j i t).eta1 = _
      simp only [step10d_body, ha]; exact hp.1
    · show (step10d_body c k j i t).eta2 = _
      simp only [step10d_body, ha]; exact hp.2.1
    · show (step10d_body c k j i t).eta3 = _
      simp only [step10d_body, ha]; exact hp.2.2.1
    · show (step10d_body c k j i t).Wl_x3Face = _
      simp only [step10d_body, ha]; exact hp.2.2.2.1
    · show (step10d_body c k j i t).Wr_x3Face = _
      simp only [step10d_body, ha]; exact hp.2.2.2.2.1
    · show (step10d_body c k j i t).B3_x3Face = _
      simp only [step10d_body, ha]; exact hp.2.2.2.2.2.1
    · show (step10d_body c k j i t).etah = s.etah
      simp only [step10d_body, etah3_off c k j i t h]
      exact hp.2.2.2.2.2.2 h
  · intro t hp
    obtain ⟨a, ha⟩ := etah3_writes c k0 j0 i0 t
    have hea : a = (etah3 c k0 j0 i0 s).etah := by
      have e := congrArg State.etah ha
      rw [(etah_congr c s t k0 j0 i0 hp.1 hp.2.1 hp.2.2.1 hp.2.2.2.2.2.2).2.2] at e
      exact e.symm
    show (step10d_body c k0 j0 i0 t).x3Flux k0 j0 i0 = _
    simp only [step10d_body, ha, set1, set3, and_self, if_true]
    rw [hp.2.2.2.1, hp.2.2.2.2.1, hp.2.2.2.2.2.1, hea]
  · intro k j i t _ _ _ _ _ _ hne hp hq
    obtain ⟨a, ha⟩ := etah3_writes c k j i t
    have hn : ¬ (k0 = k ∧ j0 = j ∧ i0 = i) := fun h => hne ⟨h.1.symm, h.2.1.symm, h.2.2.symm⟩
    show (step10d_body c k j i t).x3Flux k0 j0 i0 = _
    simp only [step10d_body, ha, set3, hn, if_false]
    exact hq

/-! ## C25: the stencil of the H-correction -/

/-- C25: the stencil of the H-correction. With the H-correction on, the `etah` in effect
when the corrector flux of a face is computed is the maximum of nine signal speeds of
Step 10a: for an x1-face `(k, j, i)` the face's own `eta1[k][j][i]`, the four
`eta2[k][j][i-1]`, `eta2[k][j][i]`, `eta2[k][j+1][i-1]`, `eta2[k][j+1][i]` and the four
`eta3[k][j][i-1]`, `eta3[k][j][i]`, `eta3[k+1][j][i-1]`, `eta3[k+1][j][i]`, and the
analogous nine values for an x2- and an x3-face. The own speed of the face is
`0.5 |lambdar - lambdal|`, hence non-negative, and `etah` is at least the own speed and
non-negative. -/
theorem C25_h_correction_stencil (c : Config) (l : Locals) (s : State) (k j i : Int)
    (hH : c.H_CORRECTION = true) :
    ((l.kb ≤ k ∧ k ≤ l.kt) → (l.jb ≤ j ∧ j ≤ l.jt) → (l.ib + 1 ≤ i ∧ i ≤ l.it) →
      (step10b c l (step10a c l s)).x1Flux k j i =
        c.fluxes (etahOf (step10a c l s) (stencil1 k j i))
          (c.Prim1D_to_Cons1D (s.Wl_x1Face k j i) (s.B1_x1Face k j i))
          (c.Prim1D_to_Cons1D (s.Wr_x1Face k j i) (s.B1_x1Face k j i))
          (s.Wl_x1Face k j i) (s.Wr_x1Face k j i) (s.B1_x1Face k j i) ∧
      etahOf (step10a c l s) (stencil1 k j i) =
        max (max (max (max (max (max (max (max ((step10a c l s).eta2 k j (i - 1))
          ((step10a c l s).eta2 k j i))
          ((step10a c l s).eta2 k (j + 1) (i - 1)))
          ((step10a c l s).eta2 k (j + 1) i))
          ((step10a c l s).eta3 k j (i - 1)))
          ((step10a c l s).eta3 k j i))
          ((step10a c l s).eta3 (k + 1) j (i - 1)))
          ((step10a c l s).eta3 (k + 1) j i))
          ((step10a c l s).eta1 k j i) ∧
      (step10a c l s).eta1 k j i =
        1 / 2 * |(s.Ur_x1Face k j i).Mx / (s.Ur_x1Face k j i).d +
            c.cfast (s.Ur_x1Face k j i) (s.B1_x1Face k j i) -
          ((s.Ul_x1Face k j i).Mx / (s.Ul_x1Face k j i).d -
            c.cfast (s.Ul_x1Face k j i) (s.B1_x1Face k j i))| ∧
      0 ≤ (step10a c l s).eta1 k j i ∧
      (step10a c l s).eta1 k j i ≤ etahOf (step10a c l s) (stencil1 k j i) ∧
      0 ≤ etahOf (step10a c l s) (stencil1 k j i)) ∧
    ((l.kb ≤ k ∧ k ≤ l.kt) → (l.jb + 1 ≤ j ∧ j ≤ l.jt) → (l.ib ≤ i ∧ i ≤ l.it) →
      (step10c c l (step10b c l (step10a c l s))).x2Flux k j i =
        c.fluxes (etahOf (step10a c l s) (stencil2 k j i))
          (c.Prim1D_to_Cons1D (s.Wl_x2Face k j i) (s.B2_x2Face k j i))
          (c.Prim1D_to_Cons1D (s.Wr_x2Face k j i) (s.B2_x2Face k j i))
          (s.Wl_x2Face k j i) (s.Wr_x2Face k j i) (s.B2_x2Face k j i) ∧
      etahOf (step10a c l s) (stencil2 k j i) =
        max (max (max (max (max (max (max (max ((step10a c l s).eta1 k (j - 1) i)
          ((step10a c l s).eta1 k j i))
          ((step10a c l s).eta1 k (j - 1) (i + 1)))
          ((step10a c l s).eta1 k j (i + 1)))
          ((step10a c l s).eta3 k (j - 1) i))
          ((step10a c l s).eta3 k j i))
          ((step10a c l s).eta3 (k + 1) (j - 1) i))
          ((step10a c l s).eta3 (k + 1) j i))
          ((step10a c l s).eta2 k j i) ∧
      (step10a c l s).eta2 k j i =
        1 / 2 * |(s.Ur_x2Face k j i).Mx / (s.Ur_x2Face k j i).d +
            c.cfast (s.Ur_x2Face k j i) (s.B2_x2Face k j i) -
          ((s.Ul_x2Face k j i).Mx / (s.Ul_x2Face k j i).d -
            c.cfast (s.Ul_x2Face k j i) (s.B2_x2Face k j i))| ∧
      0 ≤ (step10a c l s).eta2 k j i ∧
      (step10a c l s).eta2 k j i ≤ etahOf (step10a c l s) (stencil2 k j i) ∧
      0 ≤ etahOf (step10a c l s) (stencil2 k j i)) ∧
    ((l.kb + 1 ≤ k ∧ k ≤ l.kt) → (l.jb ≤ j ∧ j ≤ l.jt) → (l.ib ≤ i ∧ i ≤ l.it) →
      (step10d c l (step10c c l (step10b c l (step10a c l s)))).x3Flux k j i =
        c.fluxes (etahOf (step10a c l s) (stencil3 k j i))
          (c.Prim1D_to_Cons1D (s.Wl_x3Face k j i) (s.B3_x3Face k j i))
          (c.Prim1D_to_Cons1D (s.Wr_x3Face k j i) (s.B3_x3Face k j i))
          (s.Wl_x3Face k j i) (s.Wr_x3Face k j i) (s.B3_x3Face k j i) ∧
      etahOf (step10a c l s) (stencil3 k j i) =
        max (max (max (max (max (max (max (max ((step10a c l s).eta1 (k - 1) j i)
          ((step10a c l s).eta1 k j i))
          ((step10a c l s).eta1 (k - 1) j (i + 1)))
          ((step10a c l s).eta1 k j (i + 1)))
          ((step10a c l s).eta2 (k - 1) j i))
          ((step10a c l s).eta2 k j i))
          ((step10a c l s).eta2 (k - 1) (j + 1) i))
          ((step10a c l s).eta2 k (j + 1) i))
          ((step10a c l s).eta3 k j i) ∧
      (step10a c l s).eta3 k j i =
        1 / 2 * |(s.Ur_x3Face k j i).Mx / (s.Ur_x3Face k j i).d +
            c.cfast (s.Ur_x3Face k j i) (s.B3_x3Face k j i) -
          ((s.Ul_x3Face k j i).Mx / (s.Ul_x3Face k j i).d -
            c.cfast (s.Ul_x3Face k j i) (s.B3_x3Face k j i))| ∧
      0 ≤ (step10a c l s).eta3 k j i ∧
      (step10a c l s).eta3 k j i ≤ etahOf (step10a c l s) (stencil3 k j i) ∧
      0 ≤ etahOf (step10a c l s) (stencil3 k j i)) := by
  have hoff : c.H_CORRECTION = false → ∀ a b : ℚ, a = b := fun h => by
    rw [hH] at h
    exact absurd h (by decide)
  refine ⟨?_, ?_, ?_⟩
  · intro hk hj hi
    obtain ⟨a1, a2, a3, ha⟩ := step10a_writes c l s
    have hw : etaWritten l (.x1, k, j, i) := ⟨hk.1, hk.2, hj.1, hj.2, hi.1, hi.2⟩
    have hown : (step10a c l s).eta1 k j i = etaFresh c s (.x1, k, j, i) := by
      have e := step10a_etaAt c l s hH (.x1, k, j, i)
      rw [if_pos hw] at e
      exact e
    have hle : (step10a c l s).eta1 k j i ≤ etahOf (step10a c l s) (stencil1 k j i) :=
      (etahOf_max (step10a c l s) _ _).1 (.x1, k, j, i) (by simp [stencil1])
    have h0 : 0 ≤ (step10a c l s).eta1 k j i := by
      rw [hown]
      exact etaFresh_nonneg c s _
    refine ⟨?_, ?_, hown, h0, hle, le_trans h0 hle⟩
    · rw [step10b_flux_at c l _ k j i hk hj hi]
      have e : (etah1 c k j i (step10a c l s)).etah =
          etahOf (step10a c l s) (stencil1 k j i) := by
        exact (etah_stencil c (step10a c l s) k j i hH).1
      rw [e, ha]
    · simp only [etahOf, stencil1, List.foldl, MAX_eq_max, etaAt]
  · intro hk hj hi
    obtain ⟨a1, a2, a3, ha⟩ := step10a_writes c l s
    obtain ⟨b1, b2, b3, b4, hb⟩ := step10b_writes c l (step10a c l s)
    have hw : etaWritten l (.x2, k, j, i) := ⟨hk.1, hk.2, hj.1, hj.2, hi.1, hi.2⟩
    have hown : (step10a c l s).eta2 k j i = etaFresh c s (.x2, k, j, i) := by
      have e := step10a_etaAt c l s hH (.x2, k, j, i)
      rw [if_pos hw] at e
      exact e
    have hle : (step10a c l s).eta2 k j i ≤ etahOf (step10a c l s) (stencil2 k j i) :=
      (etahOf_max (step10a c l s) _ _).1 (.x2, k, j, i) (by simp [stencil2])
    have h0 : 0 ≤ (step10a c l s).eta2 k j i := by
      rw [hown]
      exact etaFresh_nonneg c s _
    refine ⟨?_, ?_, hown, h0, hle, le_trans h0 hle⟩
    · rw [step10c_flux_at c l _ k j i hk hj hi]
      have e : (etah2 c k j i (step10b c l (step10a c l s))).etah =
          etahOf (step10a c l s) (stencil2 k j i) := by
        rw [(etah_congr c (step10a c l s) (step10b c l (step10a c l s)) k j i (by rw [hb])
          (by rw [hb]) (by rw [hb]) (fun h => hoff h _ _)).2.1]
        exact (etah_stencil c (step10a c l s) k j i hH).2.1
      rw [e, hb, ha]
    · simp only [etahOf, stencil2, List.foldl, MAX_eq_max, etaAt]
  · intro hk hj hi
    obtain ⟨a1, a2, a3, ha⟩ := step10a_writes c l s
    obtain ⟨b1, b2, b3, b4, hb⟩ := step10b_writes c l (step10a c l s)
    obtain ⟨d1, d2, d3, d4, hc⟩ := step10c_writes c l (step10b c l (step10a c l s))
    have hw : etaWritten l (.x3, k, j, i) := ⟨hk.1, hk.2, hj.1, hj.2, hi.1, hi.2⟩
    have hown : (step10a c l s).eta3 k j i = etaFresh c s (.x3, k, j, i) := by
      have e := step10a_etaAt c l s hH (.x3, k, j, i)
      rw [if_pos hw] at e
      exact e
    have hle : (step10a c l s).eta3 k j i ≤ etahOf (step10a c l s) (stencil3 k j i) :=
      (etahOf_max (step10a c l s) _ _).1 (.x3, k, j, i) (by simp [stencil3])
    have h0 : 0 ≤ (step10a c l s).eta3 k j i := by
      rw [hown]
      exact etaFresh_nonneg c s _
    refine ⟨?_, ?_, hown, h0, hle, le_trans h0 hle⟩
    · rw [step10d_flux_at c l _ k j i hk hj hi]
      have e : (etah3 c k j i (step10c c l (step10b c l (step10a c l s)))).etah =
          etahOf (step10a c l s) (stencil3 k j i) := by
        rw [(etah_congr c (step10a c l s) (step10c c l (step10b c l (step10a c l s))) k j i
          (by rw [hc, hb]) (by rw [hc, hb]) (by rw [hc, hb]) (fun h => hoff h _ _)).2.2]
        exact (etah_stencil c (step10a c l s) k j i hH).2.2
      rw [e, hc, hb, ha]
    · simp only [etahOf, stencil3, List.foldl, MAX_eq_max, etaAt]

/-- C25 on `demoState` with the H-correction on: at the x1-face `(0, 0, 0)` the own
signal speed is at most the `etah` in effect. -/
theorem C25_witness :
    (step10a demoConfigH (locals demoConfigH demoGrid) demoState).eta1 0 0 0 ≤
      etahOf (step10a demoConfigH (locals demoConfigH demoGrid) demoState) (stencil1 0 0 0) :=
  ((C25_h_correction_stencil demoConfigH (locals demoConfigH demoGrid) demoState 0 0 0 rfl).1
    (by decide) (by decide) (by decide)).2.2.2.2.1

/-! ## C30: which signal speeds of a stencil are those of the same call -/

/-- C30, amended: the H-correction reads freshly computed speeds at the faces whose
transverse indices are interior to the loop ranges. With the H-correction on, for an
x1-face of Step 10b with `jb+1 ≤ j ≤ jt-1` and `kb+1 ≤ k ≤ kt-1` (an x2-face of Step 10c
with `ib+1 ≤ i ≤ it-1`, `kb+1 ≤ k ≤ kt-1`; an x3-face of Step 10d with `ib+1 ≤ i ≤ it-1`,
`jb+1 ≤ j ≤ jt-1`) each of the nine entries entering `etah` lies in a loop nest of
Step 10a and holds the signal speed Step 10a computed in this call. An entry outside the
loop nests of Step 10a keeps the value it had before the call. -/
theorem C30_fresh_speeds_at_interior_faces (c : Config) (l : Locals) (s : State) (k j i : Int)
    (hH : c.H_CORRECTION = true) :
    ((l.kb + 1 ≤ k ∧ k ≤ l.kt - 1) → (l.jb + 1 ≤ j ∧ j ≤ l.jt - 1) →
      (l.ib + 1 ≤ i ∧ i ≤ l.it) →
      ∀ e ∈ stencil1 k j i, etaWritten l e ∧ etaAt (step10a c l s) e = etaFresh c s e) ∧
    ((l.kb + 1 ≤ k ∧ k ≤ l.kt - 1) → (l.jb + 1 ≤ j ∧ j ≤ l.jt) →
      (l.ib + 1 ≤ i ∧ i ≤ l.it - 1) →
      ∀ e ∈ stencil2 k j i, etaWritten l e ∧ etaAt (step10a c l s) e = etaFresh c s e) ∧
    ((l.kb + 1 ≤ k ∧ k ≤ l.kt) → (l.jb + 1 ≤ j ∧ j ≤ l.jt - 1) →
      (l.ib + 1 ≤ i ∧ i ≤ l.it - 1) →
      ∀ e ∈ stencil3 k j i, etaWritten l e ∧ etaAt (step10a c l s) e = etaFresh c s e) ∧
    (∀ e, ¬ etaWritten l e → etaAt (step10a c l s) e = etaAt s e) := by
  have key : ∀ e, etaWritten l e →
      etaWritten l e ∧ etaAt (step10a c l s) e = etaFresh c s e := fun e hw =>
    ⟨hw, by rw [step10a_etaAt c l s hH, if_pos hw]⟩
  refine ⟨fun hk hj hi e he => key e ?_, fun hk hj hi e he => key e ?_,
    fun hk hj hi e he => key e ?_, fun e hw => by rw [step10a_etaAt c l s hH, if_neg hw]⟩
  · simp only [stencil1, List.mem_cons, List.mem_singleton, List.not_mem_nil, or_false] at he
    rcases he with rfl | rfl | rfl | rfl | rfl | rfl | rfl | rfl | rfl <;>
      simp only [etaWritten] <;> omega
  · simp only [stencil2, List.mem_cons, List.mem_singleton, List.not_mem_nil, or_false] at he
    rcases he with rfl | rfl | rfl | rfl | rfl | rfl | rfl | rfl | rfl <;>
      simp only [etaWritten] <;> omega
  · simp only [stencil3, List.mem_cons, List.mem_singleton, List.not_mem_nil, or_false] at he
    rcases he with rfl | rfl | rfl | rfl | rfl | rfl | rfl | rfl | rfl <;>
      simp only [etaWritten] <;> omega

/-- C30 on `demoState` with the H-correction on: the entry `eta2[0][1][-1]` of the stencil
of the x1-face `(0, 0, 0)`, whose transverse indices are interior, is written by Step 10a
and holds the speed computed in this call. -/
theorem C30_witness :
    etaWritten (locals demoConfigH demoGrid) (Dir.x2, 0, 0 + 1, 0 - 1) ∧
      etaAt (step10a demoConfigH (locals demoConfigH demoGrid) demoState)
        (Dir.x2, 0, 0 + 1, 0 - 1) = etaFresh demoConfigH demoState (Dir.x2, 0, 0 + 1, 0 - 1) :=
  (C30_fresh_speeds_at_interior_faces demoConfigH (locals demoConfigH demoGrid) demoState 0 0 0
    rfl).1 (by decide) (by decide) (by decide) (Dir.x2, 0, 0 + 1, 0 - 1)
    (by simp only [stencil1, List.mem_cons, true_or, or_true])

/-- C30 fails at a face on the edge of the range: the x1-face `(0, jb, 0)` is one of the
faces of Step 10b, its stencil contains `eta2[0][jb][-1]`, which no loop of Step 10a
writes; the entry keeps the value 100 left in it and decides the `etah` of the face,
which is 1 when the value left is 0. -/
theorem C30_counterexample :
    ((locals demoConfigH demoGrid).kb ≤ 0 ∧ 0 ≤ (locals demoConfigH demoGrid).kt ∧
      (locals demoConfigH demoGrid).jb = -2 ∧ -2 ≤ (locals demoConfigH demoGrid).jt ∧
      (locals demoConfigH demoGrid).ib + 1 ≤ 0 ∧ 0 ≤ (locals demoConfigH demoGrid).it) ∧
    (Dir.x2, 0, -2, -1) ∈ stencil1 0 (-2) 0 ∧
    ¬ etaWritten (locals demoConfigH demoGrid) (Dir.x2, 0, -2, -1) ∧
    (step10a demoConfigH (locals demoConfigH demoGrid) demoStateStale).eta2 0 (-2) (-1) = 100 ∧
    (etah1 demoConfigH 0 (-2) 0
      (step10a demoConfigH (locals demoConfigH demoGrid) demoStateStale)).etah = 100 ∧
    (etah1 demoConfigH 0 (-2) 0
      (step10a demoConfigH (locals demoConfigH demoGrid) demoState)).etah = 1 := by
  have hw : ∀ e : EtaIx, etaWritten (locals demoConfigH demoGrid) e →
      ∀ s, etaAt (step10a demoConfigH (locals demoConfigH demoGrid) s) e =
        etaFresh demoConfigH s e := fun e h s => by
    rw [step10a_etaAt _ _ _ rfl, if_pos h]
  have hn : ∀ e : EtaIx, ¬ etaWritten (locals demoConfigH demoGrid) e →
      ∀ s, etaAt (step10a demoConfigH (locals demoConfigH demoGrid) s) e = etaAt s e :=
    fun e h s => by rw [step10a_etaAt _ _ _ rfl, if_neg h]
  have f : ∀ e : EtaIx, etaFresh demoConfigH demoStateStale e = 1 ∧
      etaFresh demoConfigH demoState e = 1 := by
    rintro ⟨d, k, j, i⟩
    cases d <;> norm_num [etaFresh, etaVal, demoStateStale, demoState, demoConfigH, demoConfig]
  refine ⟨by decide, by decide, by decide, ?_, ?_, ?_⟩
  · exact hn (Dir.x2, 0, -2, -1) (by decide) demoStateStale
  · rw [(etah_stencil demoConfigH _ 0 (-2) 0 rfl).1]
    simp only [etahOf, stencil1, List.foldl]
    rw [hn (Dir.x2, 0, -2, 0 - 1) (by decide), hn (Dir.x2, 0, -2, 0) (by decide),
      hw (Dir.x2, 0, -2 + 1, 0 - 1) (by decide), hw (Dir.x2, 0, -2 + 1, 0) (by decide),
      hw (Dir.x3, 0, -2, 0 - 1) (by decide), hw (Dir.x3, 0, -2, 0) (by decide),
      hw (Dir.x3, 0 + 1, -2, 0 - 1) (by decide), hw (Dir.x3, 0 + 1, -2, 0) (by decide),
      hw (Dir.x1, 0, -2, 0) (by decide)]
    simp only [(f _).1]
    norm_num [MAX, etaAt, demoStateStale, demoState]
  · rw [(etah_stencil demoConfigH _ 0 (-2) 0 rfl).1]
    simp only [etahOf, stencil1, List.foldl]
    rw [hn (Dir.x2, 0, -2, 0 - 1) (by decide), hn (Dir.x2, 0, -2, 0) (by decide),
      hw (Dir.x2, 0, -2 + 1, 0 - 1) (by decide), hw (Dir.x2, 0, -2 + 1, 0) (by decide),
      hw (Dir.x3, 0, -2, 0 - 1) (by decide), hw (Dir.x3, 0, -2, 0) (by decide),
      hw (Dir.x3, 0 + 1, -2, 0 - 1) (by decide), hw (Dir.x3, 0 + 1, -2, 0) (by decide),
      hw (Dir.x1, 0, -2, 0) (by decide)]
    simp only [(f _).2]
    norm_num [MAX, etaAt, demoStateStale, demoState]

/-! ## C29: the full-step constrained transport reads corrector data only -/

/-- The fluxes the flux arrays hold after Steps 10b-10d, at the faces of the three loop
nests, in terms of the state on entry to Step 10b. -/
theorem step10_fluxes (c : Config) (l : Locals) (t : State) (k j i : Int) :
    ((l.kb ≤ k ∧ k ≤ l.kt) → (l.jb ≤ j ∧ j ≤ l.jt) → (l.ib + 1 ≤ i ∧ i ≤ l.it) →
      (step10d c l (step10c c l (step10b c l t))).x1Flux k j i =
        c.fluxes (etah1 c k j i t).etah
          (c.Prim1D_to_Cons1D (t.Wl_x1Face k j i) (t.B1_x1Face k j i))
          (c.Prim1D_to_Cons1D (t.Wr_x1Face k j i) (t.B1_x1Face k j i))
          (t.Wl_x1Face k j i) (t.Wr_x1Face k j i) (t.B1_x1Face k j i)) ∧
    ((l.kb ≤ k ∧ k ≤ l.kt) → (l.jb + 1 ≤ j ∧ j ≤ l.jt) → (l.ib ≤ i ∧ i ≤ l.it) →
      (step10d c l (step10c c l (step10b c l t))).x2Flux k j i =
        c.fluxes (etah2 c k j i t).etah
          (c.Prim1D_to_Cons1D (t.Wl_x2Face k j i) (t.B2_x2Face k j i))
          (c.Prim1D_to_Cons1D (t.Wr_x2Face k j i) (t.B2_x2Face k j i))
          (t.Wl_x2Face k j i) (t.Wr_x2Face k j i) (t.B2_x2Face k j i)) ∧
    ((l.kb + 1 ≤ k ∧ k ≤ l.kt) → (l.jb ≤ j ∧ j ≤ l.jt) → (l.ib ≤ i ∧ i ≤ l.it) →
      (step10d c l (step10c c l (step10b c l t))).x3Flux k j i =
        c.fluxes (etah3 c k j i t).etah
          (c.Prim1D_to_Cons1D (t.Wl_x3Face k j i) (t.B3_x3Face k j i))
          (c.Prim1D_to_Cons1D (t.Wr_x3Face k j i) (t.B3_x3Face k j i))
          (t.Wl_x3Face k j i) (t.Wr_x3Face k j i) (t.B3_x3Face k j i)) := by
  obtain ⟨b1, b2, b3, b4, hb⟩ := step10b_writes c l t
  obtain ⟨d1, d2, d3, d4, hc⟩ := step10c_writes c l (step10b c l t)
  obtain ⟨f1, f2, f3, f4, hd⟩ := step10d_writes c l (step10c c l (step10b c l t))
  refine ⟨fun hk hj hi => ?_, fun hk hj hi => ?_, fun hk hj hi => ?_⟩
  · have e : (step10d c l (step10c c l (step10b c l t))).x1Flux = (step10b c l t).x1Flux := by
      rw [hd, hc]
    rw [e]
    exact step10b_flux_at c l t k j i hk hj hi
  · have e : (step10d c l (step10c c l (step10b c l t))).x2Flux =
        (step10c c l (step10b c l t)).x2Flux := by
      rw [hd]
    rw [e, step10c_flux_at c l _ k j i hk hj hi,
      (etah_congr c t (step10b c l t) k j i (by rw [hb]) (by rw [hb]) (by rw [hb])
        (fun h => step10b_etah c l t h)).2.1, hb]
  · rw [step10d_flux_at c l _ k j i hk hj hi,
      (etah_congr c t (step10c c l (step10b c l t)) k j i (by rw [hc, hb]) (by rw [hc, hb])
        (by rw [hc, hb])
        (fun h => (step10c_etah c l _ h).trans (step10b_etah c l t h))).2.2, hc, hb]

/-- What Steps 10b-11a write: `etah`, the buffers `Ul`, `Ur`, the three flux arrays and
the three arrays of cell-centred EMFs. -/
theorem steps10bTo11a_writes (c : Config) (l : Locals) (t : State) :
    ∃ a1 a2 a3 a4 a5 a6 a7 a8 a9,
      step11a l (step10d c l (step10c c l (step10b c l t))) =
        { t with etah := a1, Ul := a2, Ur := a3, x1Flux := a4, x2Flux := a5, x3Flux := a6,
                 emf1_cc := a7, emf2_cc := a8, emf3_cc := a9 } := by
  obtain ⟨b1, b2, b3, b4, hb⟩ := step10b_writes c l t
  obtain ⟨d1, d2, d3, d4, hc⟩ := step10c_writes c l (step10b c l t)
  obtain ⟨f1, f2, f3, f4, hd⟩ := step10d_writes c l (step10c c l (step10b c l t))
  obtain ⟨g1, g2, g3, hg⟩ := step11a_writes l (step10d c l (step10c c l (step10b c l t)))
  rw [hg, hd, hc, hb]
  exact ⟨_, _, _, _, _, _, _, _, _, rfl⟩

/-- The inputs of the corner integrations of the corrector, at the faces of Steps 10b-10d
and the cells of Step 11a, are the same for two states that agree on the interface
states, the scratch face fields, the signal speeds, `etah` and `Uhalf`. -/
theorem corrector_inputs_agree (c : Config) (l : Locals) (t t' : State)
    (h1 : t'.eta1 = t.eta1) (h2 : t'.eta2 = t.eta2) (h3 : t'.eta3 = t.eta3)
    (h4 : t'.etah = t.etah) (h5 : t'.Uhalf = t.Uhalf)
    (w1 : t'.Wl_x1Face = t.Wl_x1Face) (w2 : t'.Wr_x1Face = t.Wr_x1Face)
    (w3 : t'.Wl_x2Face = t.Wl_x2Face) (w4 : t'.Wr_x2Face = t.Wr_x2Face)
    (w5 : t'.Wl_x3Face = t.Wl_x3Face) (w6 : t'.Wr_x3Face = t.Wr_x3Face)
    (b1 : t'.B1_x1Face = t.B1_x1Face) (b2 : t'.B2_x2Face = t.B2_x2Face)
    (b3 : t'.B3_x3Face = t.B3_x3Face) (k j i : Int) :
    ((l.kb ≤ k ∧ k ≤ l.kt) → (l.jb ≤ j ∧ j ≤ l.jt) → (l.ib + 1 ≤ i ∧ i ≤ l.it) →
      (step11a l (step10d c l (step10c c l (step10b c l t')))).x1Flux k j i =
        (step11a l (step10d c l (step10c c l (step10b c l t)))).x1Flux k j i) ∧
    ((l.kb ≤ k ∧ k ≤ l.kt) → (l.jb + 1 ≤ j ∧ j ≤ l.jt) → (l.ib ≤ i ∧ i ≤ l.it) →
      (step11a l (step10d c l (step10c c l (step10b c l t')))).x2Flux k j i =
        (step11a l (step10d c l (step10c c l (step10b c l t)))).x2Flux k j i) ∧
    ((l.kb + 1 ≤ k ∧ k ≤ l.kt) → (l.jb ≤ j ∧ j ≤ l.jt) → (l.ib ≤ i ∧ i ≤ l.it) →
      (step11a l (step10d c l (step10c c l (step10b c l t')))).x3Flux k j i =
        (step11a l (step10d c l (step10c c l (step10b c l t)))).x3Flux k j i) ∧
    ((l.kb ≤ k ∧ k ≤ l.kt) → (l.jb ≤ j ∧ j ≤ l.jt) → (l.ib ≤ i ∧ i ≤ l.it) →
      (step11a l (step10d c l (step10c c l (step10b c l t')))).emf1_cc k j i =
        (step11a l (step10d c l (step10c c l (step10b c l t)))).emf1_cc k j i ∧
      (step11a l (step10d c l (step10c c l (step10b c l t')))).emf2_cc k j i =
        (step11a l (step10d c l (step10c c l (step10b c l t)))).emf2_cc k j i ∧
      (step11a l (step10d c l (step10c c l (step10b c l t')))).emf3_cc k j i =
        (step11a l (step10d c l (step10c c l (step10b c l t)))).emf3_cc k j i) := by
  obtain ⟨g1, g2, g3, hg⟩ := step11a_writes l (step10d c l (step10c c l (step10b c l t)))
  obtain ⟨g1', g2', g3', hg'⟩ := step11a_writes l (step10d c l (step10c c l (step10b c l t')))
  have fx : (step11a l (step10d c l (step10c c l (step10b c l t)))).x1Flux =
        (step10d c l (step10c c l (step10b c l t))).x1Flux ∧
      (step11a l (step10d c l (step10c c l (step10b c l t)))).x2Flux =
        (step10d c l (step10c c l (step10b c l t))).x2Flux ∧
      (step11a l (step10d c l (step10c c l (step10b c l t)))).x3Flux =
        (step10d c l (step10c c l (step10b c l t))).x3Flux := by
    rw [hg]
    exact ⟨rfl, rfl, rfl⟩
  have fx' : (step11a l (step10d c l (step10c c l (step10b c l t')))).x1Flux =
        (step10d c l (step10c c l (step10b c l t'))).x1Flux ∧
      (step11a l (step10d c l (step10c c l (step10b c l t')))).x2Flux =
        (step10d c l (step10c c l (step10b c l t'))).x2Flux ∧
      (step11a l (step10d c l (step10c c l (step10b c l t')))).x3Flux =
        (step10d c l (step10c c l (step10b c l t'))).x3Flux := by
    rw [hg']
    exact ⟨rfl, rfl, rfl⟩
  obtain ⟨e1, e2, e3⟩ := etah_congr c t t' k j i h1 h2 h3 (fun _ => h4)
  obtain ⟨p1, p2, p3⟩ := step10_fluxes c l t k j i
  obtain ⟨q1, q2, q3⟩ := step10_fluxes c l t' k j i
  have hU : ∀ s : State, (step10d c l (step10c c l (step10b c l s))).Uhalf = s.Uhalf := by
    intro s
    obtain ⟨b1, b2, b3, b4, hb⟩ := step10b_writes c l s
    obtain ⟨d1, d2, d3, d4, hc⟩ := step10c_writes c l (step10b c l s)
    obtain ⟨f1, f2, f3, f4, hd⟩ := step10d_writes c l (step10c c l (step10b c l s))
    rw [hd, hc, hb]
  refine ⟨fun hk hj hi => ?_, fun hk hj hi => ?_, fun hk hj hi => ?_, fun hk hj hi => ?_⟩
  · rw [fx.1, fx'.1, p1 hk hj hi, q1 hk hj hi, e1, w1, w2, b1]
  · rw [fx.2.1, fx'.2.1, p2 hk hj hi, q2 hk hj hi, e2, w3, w4, b2]
  · rw [fx.2.2, fx'.2.2, p3 hk hj hi, q3 hk hj hi, e3, w5, w6, b3]
  · obtain ⟨r1, r2, r3⟩ := step11a_cc l (step10d c l (step10c c l (step10b c l t))) k j i hk hj hi
    obtain ⟨s1, s2, s3⟩ := step11a_cc l (step10d c l (step10c c l (step10b c l t'))) k j i
      hk hj hi
    rw [r1, r2, r3, s1, s2, s3, hU t, hU t', h5]
    exact ⟨rfl, rfl, rfl⟩

/-- The corner value `emf1[k][j][i]` is the same in two states that agree on the two
x2-fluxes, the two x3-fluxes and the four cell-centred EMFs it reads. -/
theorem emf1_cell_congr (s t : State) (k j i : Int)
    (h : t.x2Flux (k - 1) j i = s.x2Flux (k - 1) j i ∧ t.x2Flux k j i = s.x2Flux k j i ∧
      t.x3Flux k (j - 1) i = s.x3Flux k (j - 1) i ∧ t.x3Flux k j i = s.x3Flux k j i ∧
      t.emf1_cc (k - 1) (j - 1) i = s.emf1_cc (k - 1) (j - 1) i ∧
      t.emf1_cc (k - 1) j i = s.emf1_cc (k - 1) j i ∧
      t.emf1_cc k (j - 1) i = s.emf1_cc k (j - 1) i ∧ t.emf1_cc k j i = s.emf1_cc k j i) :
    emf1_cell t k j i = emf1_cell s k j i := by
  obtain ⟨a1, a2, a3, a4, a5, a6, a7, a8⟩ := h
  unfold emf1_cell
  rw [a1, a2, a3, a4, a5, a6, a7, a8]

theorem emf2_cell_congr (s t : State) (k j i : Int)
    (h : t.x1Flux (k - 1) j i = s.x1Flux (k - 1) j i ∧ t.x1Flux k j i = s.x1Flux k j i ∧
      t.x3Flux k j (i - 1) = s.x3Flux k j (i - 1) ∧ t.x3Flux k j i = s.x3Flux k j i ∧
      t.emf2_cc (k - 1) j (i - 1) = s.emf2_cc (k - 1) j (i - 1) ∧
      t.emf2_cc (k - 1) j i = s.emf2_cc (k - 1) j i ∧
      t.emf2_cc k j (i - 1) = s.emf2_cc k j (i - 1) ∧ t.emf2_cc k j i = s.emf2_cc k j i) :
    emf2_cell t k j i = emf2_cell s k j i := by
  obtain ⟨a1, a2, a3, a4, a5, a6, a7, a8⟩ := h
  unfold emf2_cell
  rw [a1, a2, a3, a4, a5, a6, a7, a8]

theorem emf3_cell_congr (s t : State) (k j i : Int)
    (h : t.x1Flux k (j - 1) i = s.x1Flux k (j - 1) i ∧ t.x1Flux k j i = s.x1Flux k j i ∧
      t.x2Flux k j (i - 1) = s.x2Flux k j (i - 1) ∧ t.x2Flux k j i = s.x2Flux k j i ∧
      t.emf3_cc k (j - 1) (i - 1) = s.emf3_cc k (j - 1) (i - 1) ∧
      t.emf3_cc k (j - 1) i = s.emf3_cc k (j - 1) i ∧
      t.emf3_cc k j (i - 1) = s.emf3_cc k j (i - 1) ∧ t.emf3_cc k j i = s.emf3_cc k j i) :
    emf3_cell t k j i = emf3_cell s k j i := by
  obtain ⟨a1, a2, a3, a4, a5, a6, a7, a8⟩ := h
  unfold emf3_cell
  rw [a1, a2, a3, a4, a5, a6, a7, a8]

/-- The corner EMFs after Steps 10b-11b: inside the loop nests of the corner integrations
each is the corner value computed from the fluxes and the cell-centred EMFs that
Steps 10b-11a leave; the grid is not written. -/
theorem steps10bTo11b_emf (c : Config) (l : Locals) (t : State) (k j i : Int) :
    (((locals c t.pG).kl + 1 ≤ k ∧ k ≤ (locals c t.pG).ku ∧
      (locals c t.pG).jl + 1 ≤ j ∧ j ≤ (locals c t.pG).ju ∧
      (locals c t.pG).il + 1 ≤ i ∧ i ≤ (locals c t.pG).iu - 1) →
      (steps10bTo11b c l t).emf1 k j i =
        emf1_cell (step11a l (step10d c l (step10c c l (step10b c l t)))) k j i) ∧
    (((locals c t.pG).kl + 1 ≤ k ∧ k ≤ (locals c t.pG).ku ∧
      (locals c t.pG).jl + 1 ≤ j ∧ j ≤ (locals c t.pG).ju - 1 ∧
      (locals c t.pG).il + 1 ≤ i ∧ i ≤ (locals c t.pG).iu) →
      (steps10bTo11b c l t).emf2 k j i =
        emf2_cell (step11a l (step10d c l (step10c c l (step10b c l t)))) k j i) ∧
    (((locals c t.pG).kl + 1 ≤ k ∧ k ≤ (locals c t.pG).ku - 1 ∧
      (locals c t.pG).jl + 1 ≤ j ∧ j ≤ (locals c t.pG).ju ∧
      (locals c t.pG).il + 1 ≤ i ∧ i ≤ (locals c t.pG).iu) →
      (steps10bTo11b c l t).emf3 k j i =
        emf3_cell (step11a l (step10d c l (step10c c l (step10b c l t)))) k j i) ∧
    (steps10bTo11b c l t).pG = t.pG := by
  obtain ⟨a1, a2, a3, a4, a5, a6, a7, a8, a9, hw⟩ := steps10bTo11a_writes c l t
  have hp : (step11a l (step10d c l (step10c c l (step10b c l t)))).pG = t.pG := by rw [hw]
  have e : steps10bTo11b c l t = integrate_emf3_corner c (integrate_emf2_corner c
      (integrate_emf1_corner c (step11a l (step10d c l (step10c c l (step10b c l t)))))) := rfl
  have hp1 : (integrate_emf1_corner c
      (step11a l (step10d c l (step10c c l (step10b c l t))))).pG = t.pG := by
    rw [integrate_emf1_corner_eq]
    exact hp
  have hp2 : (integrate_emf2_corner c (integrate_emf1_corner c
      (step11a l (step10d c l (step10c c l (step10b c l t)))))).pG = t.pG := by
    rw [integrate_emf2_corner_eq]
    exact hp1
  refine ⟨fun h => ?_, fun h => ?_, fun h => ?_, ?_⟩
  · rw [← hp] at h
    rw [e, integrate_emf3_corner_eq, integrate_emf2_corner_eq]
    exact integrate_emf1_corner_at c _ k j i h
  · rw [← hp1] at h
    rw [e, integrate_emf3_corner_eq]
    refine (integrate_emf2_corner_at c _ k j i h).trans ?_
    rw [integrate_emf1_corner_eq]
    rfl
  · rw [← hp2] at h
    rw [e]
    refine (integrate_emf3_corner_at c _ k j i h).trans ?_
    rw [integrate_emf2_corner_eq, integrate_emf1_corner_eq]
    rfl
  · rw [e, integrate_emf3_corner_eq]
    exact hp2

/-- The corner EMFs that Step 11c reads do not depend on what the flux arrays, the
arrays of cell-centred EMFs and the arrays of corner EMFs hold on entry to Step 10b. -/
theorem corrector_emfs_agree (c : Config) (t : State) (F1 F2 F3 : Arr3 Cons1D)
    (c1 c2 c3 e1 e2 e3 : Arr3 ℚ) (k j i : Int) :
    (((locals c t.pG).kb + 1 ≤ k ∧ k ≤ (locals c t.pG).kt) →
      ((locals c t.pG).jb + 1 ≤ j ∧ j ≤ (locals c t.pG).jt) →
      ((locals c t.pG).ib + 1 ≤ i ∧ i ≤ (locals c t.pG).it - 1) →
      (steps10bTo11b c (locals c t.pG)
        (withFluxesAndEmfs t F1 F2 F3 c1 c2 c3 e1 e2 e3)).emf1 k j i =
        (steps10bTo11b c (locals c t.pG) t).emf1 k j i) ∧
    (((locals c t.pG).kb + 1 ≤ k ∧ k ≤ (locals c t.pG).kt) →
      ((locals c t.pG).jb + 1 ≤ j ∧ j ≤ (locals c t.pG).jt - 1) →
      ((locals c t.pG).ib + 1 ≤ i ∧ i ≤ (locals c t.pG).it) →
      (steps10bTo11b c (locals c t.pG)
        (withFluxesAndEmfs t F1 F2 F3 c1 c2 c3 e1 e2 e3)).emf2 k j i =
        (steps10bTo11b c (locals c t.pG) t).emf2 k j i) ∧
    (((locals c t.pG).kb + 1 ≤ k ∧ k ≤ (locals c t.pG).kt - 1) →
      ((locals c t.pG).jb + 1 ≤ j ∧ j ≤ (locals c t.pG).jt) →
      ((locals c t.pG).ib + 1 ≤ i ∧ i ≤ (locals c t.pG).it) →
      (steps10bTo11b c (locals c t.pG)
        (withFluxesAndEmfs t F1 F2 F3 c1 c2 c3 e1 e2 e3)).emf3 k j i =
        (steps10bTo11b c (locals c t.pG) t).emf3 k j i) := by
  have ho := c.order.offset_pos
  have A : ∀ k j i, _ := fun k j i => corrector_inputs_agree c (locals c t.pG) t
    (withFluxesAndEmfs t F1 F2 F3 c1 c2 c3 e1 e2 e3)
    rfl rfl rfl rfl rfl rfl rfl rfl rfl rfl rfl rfl rfl rfl k j i
  have B := steps10bTo11b_emf c (locals c t.pG) t k j i
  have B' := steps10bTo11b_emf c (locals c t.pG)
    (withFluxesAndEmfs t F1 F2 F3 c1 c2 c3 e1 e2 e3) k j i
  refine ⟨fun hk hj hi => ?_, fun hk hj hi => ?_, fun hk hj hi => ?_⟩
  · have hr : (locals c t.pG).kl + 1 ≤ k ∧ k ≤ (locals c t.pG).ku ∧
        (locals c t.pG).jl + 1 ≤ j ∧ j ≤ (locals c t.pG).ju ∧
        (locals c t.pG).il + 1 ≤ i ∧ i ≤ (locals c t.pG).iu - 1 := by
      simp only [locals] at hk hj hi ⊢
      omega
    rw [B.1 hr, B'.1 hr]
    exact emf1_cell_congr _ _ k j i
      ⟨(A (k - 1) j i).2.1 (by omega) (by omega) (by omega),
        (A k j i).2.1 (by omega) (by omega) (by omega),
        (A k (j - 1) i).2.2.1 (by omega) (by omega) (by omega),
        (A k j i).2.2.1 (by omega) (by omega) (by omega),
        ((A (k - 1) (j - 1) i).2.2.2 (by omega) (by omega) (by omega)).1,
        ((A (k - 1) j i).2.2.2 (by omega) (by omega) (by omega)).1,
        ((A k (j - 1) i).2.2.2 (by omega) (by omega) (by omega)).1,
        ((A k j i).2.2.2 (by omega) (by omega) (by omega)).1⟩
  · have hr : (locals c t.pG).kl + 1 ≤ k ∧ k ≤ (locals c t.pG).ku ∧
        (locals c t.pG).jl + 1 ≤ j ∧ j ≤ (locals c t.pG).ju - 1 ∧
        (locals c t.pG).il + 1 ≤ i ∧ i ≤ (locals c t.pG).iu := by
      simp only [locals] at hk hj hi ⊢
      omega
    rw [B.2.1 hr, B'.2.1 hr]
    exact emf2_cell_congr _ _ k j i
      ⟨(A (k - 1) j i).1 (by omega) (by omega) (by omega),
        (A k j i).1 (by omega) (by omega) (by omega),
        (A k j (i - 1)).2.2.1 (by omega) (by omega) (by omega),
        (A k j i).2.2.1 (by omega) (by omega) (by omega),
        ((A (k - 1) j (i - 1)).2.2.2 (by omega) (by omega) (by omega)).2.1,
        ((A (k - 1) j i).2.2.2 (by omega) (by omega) (by omega)).2.1,
        ((A k j (i - 1)).2.2.2 (by omega) (by omega) (by omega)).2.1,
        ((A k j i).2.2.2 (by omega) (by omega) (by omega)).2.1⟩
  · have hr : (locals c t.pG).kl + 1 ≤ k ∧ k ≤ (locals c t.pG).ku - 1 ∧
        (locals c t.pG).jl + 1 ≤ j ∧ j ≤ (locals c t.pG).ju ∧
        (locals c t.pG).il + 1 ≤ i ∧ i ≤ (locals c t.pG).iu := by
      simp only [locals] at hk hj hi ⊢
      omega
    rw [B.2.2.1 hr, B'.2.2.1 hr]
    exact emf3_cell_congr _ _ k j i
      ⟨(A k (j - 1) i).1 (by omega) (by omega) (by omega),
        (A k j i).1 (by omega) (by omega) (by omega),
        (A k j (i - 1)).2.1 (by omega) (by omega) (by omega),
        (A k j i).2.1 (by omega) (by omega) (by omega),
        ((A k (j - 1) (i - 1)).2.2.2 (by omega) (by omega) (by omega)).2.2,
        ((A k (j - 1) i).2.2.2 (by omega) (by omega) (by omega)).2.2,
        ((A k j (i - 1)).2.2.2 (by omega) (by omega) (by omega)).2.2,
        ((A k j i).2.2.2 (by omega) (by omega) (by omega)).2.2⟩

/-- C29: the full-step constrained transport uses corrector data only. The state Step 11c
starts from is the one Steps 10b-11b leave, and every corner EMF that Step 11c reads
(`emf1` on `[kb+1, kt] x [jb+1, jt] x [ib+1, it-1]`, `emf2` on
`[kb+1, kt] x [jb+1, jt-1] x [ib+1, it]`, `emf3` on `[kb+1, kt-1] x [jb+1, jt] x [ib+1, it]`)
is the same whatever the flux arrays, the cell-centred EMFs and the corner EMFs hold on
entry to Step 10b, which is where the first-order fluxes and the EMFs of time `n` of the
predictor are: the corner integrations see only the fluxes of Steps 10b-10d and the
cell-centred EMFs of Step 11a. Hence the face field Step 11c stores on its update ranges
does not depend on them either. -/
theorem C29_full_step_ct_reads_corrector_data (c : Config) (t : State) (F1 F2 F3 : Arr3 Cons1D)
    (c1 c2 c3 e1 e2 e3 : Arr3 ℚ) (k j i : Int) :
    (∀ s, beforeStep11c c s = steps10bTo11b c (locals c s.pG)
      (runStages ((stagesBefore11c c (locals c s.pG)).take 19) s)) ∧
    (((locals c t.pG).kb + 1 ≤ k ∧ k ≤ (locals c t.pG).kt) →
      ((locals c t.pG).jb + 1 ≤ j ∧ j ≤ (locals c t.pG).jt) →
      ((locals c t.pG).ib + 1 ≤ i ∧ i ≤ (locals c t.pG).it - 1) →
      (steps10bTo11b c (locals c t.pG)
        (withFluxesAndEmfs t F1 F2 F3 c1 c2 c3 e1 e2 e3)).emf1 k j i =
        (steps10bTo11b c (locals c t.pG) t).emf1 k j i) ∧
    (((locals c t.pG).kb + 1 ≤ k ∧ k ≤ (locals c t.pG).kt) →
      ((locals c t.pG).jb + 1 ≤ j ∧ j ≤ (locals c t.pG).jt - 1) →
      ((locals c t.pG).ib + 1 ≤ i ∧ i ≤ (locals c t.pG).it) →
      (steps10bTo11b c (locals c t.pG)
        (withFluxesAndEmfs t F1 F2 F3 c1 c2 c3 e1 e2 e3)).emf2 k j i =
        (steps10bTo11b c (locals c t.pG) t).emf2 k j i) ∧
    (((locals c t.pG).kb + 1 ≤ k ∧ k ≤ (locals c t.pG).kt - 1) →
      ((locals c t.pG).jb + 1 ≤ j ∧ j ≤ (locals c t.pG).jt) →
      ((locals c t.pG).ib + 1 ≤ i ∧ i ≤ (locals c t.pG).it) →
      (steps10bTo11b c (locals c t.pG)
        (withFluxesAndEmfs t F1 F2 F3 c1 c2 c3 e1 e2 e3)).emf3 k j i =
        (steps10bTo11b c (locals c t.pG) t).emf3 k j i) ∧
    (((locals c t.pG).kb + 1 ≤ k ∧ k ≤ (locals c t.pG).kt - 1) →
      ((locals c t.pG).jb + 1 ≤ j ∧ j ≤ (locals c t.pG).jt - 1) →
      ((locals c t.pG).ib + 1 ≤ i ∧ i ≤ (locals c t.pG).it) →
      (step11c (locals c t.pG) (steps10bTo11b c (locals c t.pG)
        (withFluxesAndEmfs t F1 F2 F3 c1 c2 c3 e1 e2 e3))).pG.B1i k j i =
        (step11c (locals c t.pG) (steps10bTo11b c (locals c t.pG) t)).pG.B1i k j i) ∧
    (((locals c t.pG).kb + 1 ≤ k ∧ k ≤ (locals c t.pG).kt - 1) →
      ((locals c t.pG).jb + 1 ≤ j ∧ j ≤ (locals c t.pG).jt) →
      ((locals c t.pG).ib + 1 ≤ i ∧ i ≤ (locals c t.pG).it - 1) →
      (step11c (locals c t.pG) (steps10bTo11b c (locals c t.pG)
        (withFluxesAndEmfs t F1 F2 F3 c1 c2 c3 e1 e2 e3))).pG.B2i k j i =
        (step11c (locals c t.pG) (steps10bTo11b c (locals c t.pG) t)).pG.B2i k j i) ∧
    (((locals c t.pG).kb + 1 ≤ k ∧ k ≤ (locals c t.pG).kt) →
      ((locals c t.pG).jb + 1 ≤ j ∧ j ≤ (locals c t.pG).jt - 1) →
      ((locals c t.pG).ib + 1 ≤ i ∧ i ≤ (locals c t.pG).it - 1) →
      (step11c (locals c t.pG) (steps10bTo11b c (locals c t.pG)
        (withFluxesAndEmfs t F1 F2 F3 c1 c2 c3 e1 e2 e3))).pG.B3i k j i =
        (step11c (locals c t.pG) (steps10bTo11b c (locals c t.pG) t)).pG.B3i k j i) := by
  have E := fun k j i => corrector_emfs_agree c t F1 F2 F3 c1 c2 c3 e1 e2 e3 k j i
  have hp : (steps10bTo11b c (locals c t.pG) t).pG = t.pG :=
    (steps10bTo11b_emf c (locals c t.pG) t k j i).2.2.2
  have hp' : (steps10bTo11b c (locals c t.pG)
      (withFluxesAndEmfs t F1 F2 F3 c1 c2 c3 e1 e2 e3)).pG = t.pG :=
    (steps10bTo11b_emf c (locals c t.pG) (withFluxesAndEmfs t F1 F2 F3 c1 c2 c3 e1 e2 e3)
      k j i).2.2.2
  refine ⟨fun s => ?_, (E k j i).1, (E k j i).2.1, (E k j i).2.2, fun hk hj hi => ?_,
    fun hk hj hi => ?_, fun hk hj hi => ?_⟩
  · unfold beforeStep11c steps10bTo11b
    rw [← runStages_append]
    rfl
  · rw [step11c_B1i _ _ k j i hk hj hi, step11c_B1i _ _ k j i hk hj hi, hp, hp',
      (E (k + 1) j i).2.1 (by omega) (by omega) (by omega),
      (E k j i).2.1 (by omega) (by omega) (by omega),
      (E k (j + 1) i).2.2 (by omega) (by omega) (by omega),
      (E k j i).2.2 (by omega) (by omega) (by omega)]
  · rw [step11c_B2i _ _ k j i hk hj hi, step11c_B2i _ _ k j i hk hj hi, hp, hp',
      (E k j (i + 1)).2.2 (by omega) (by omega) (by omega),
      (E k j i).2.2 (by omega) (by omega) (by omega),
      (E (k + 1) j i).1 (by omega) (by omega) (by omega),
      (E k j i).1 (by omega) (by omega) (by omega)]
  · rw [step11c_B3i _ _ k j i hk hj hi, step11c_B3i _ _ k j i hk hj hi, hp, hp',
      (E k (j + 1) i).1 (by omega) (by omega) (by omega),
      (E k j i).1 (by omega) (by omega) (by omega),
      (E k j (i + 1)).2.1 (by omega) (by omega) (by omega),
      (E k j i).2.1 (by omega) (by omega) (by omega)]

/-- C29 on `demoState`: the corner EMF `emf1[0][0][0]` after Steps 10b-11b is the same
when the flux arrays and the EMF arrays are overwritten on entry to Step 10b. -/
theorem C29_witness :
    (steps10bTo11b demoConfig (locals demoConfig demoState.pG)
      (withFluxesAndEmfs demoState (fun _ _ _ => ⟨9, 9, 9, 9, 9, 9, 9⟩)
        (fun _ _ _ => ⟨8, 8, 8, 8, 8, 8, 8⟩) (fun _ _ _ => ⟨7, 7, 7, 7, 7, 7, 7⟩)
        (fun _ _ _ => 5) (fun _ _ _ => 5) (fun _ _ _ => 5)
        (fun _ _ _ => 4) (fun _ _ _ => 4) (fun _ _ _ => 4))).emf1 0 0 0 =
      (steps10bTo11b demoConfig (locals demoConfig demoState.pG) demoState).emf1 0 0 0 :=
  (C29_full_step_ct_reads_corrector_data demoConfig demoState (fun _ _ _ => ⟨9, 9, 9, 9, 9, 9, 9⟩)
    (fun _ _ _ => ⟨8, 8, 8, 8, 8, 8, 8⟩) (fun _ _ _ => ⟨7, 7, 7, 7, 7, 7, 7⟩)
    (fun _ _ _ => 5) (fun _ _ _ => 5) (fun _ _ _ => 5)
    (fun _ _ _ => 4) (fun _ _ _ => 4) (fun _ _ _ => 4) 0 0 0).2.1
    (by decide) (by decide) (by decide)

/-! ## C31: every active cell is advanced -/

/-- C31: every active cell is advanced. With `il = is - nghost`, `iu = ie + nghost` and
the loop limits `ib = il + r`, `it = iu - r` (`r` = 1, 2, 3 for first, second and third
order), the range `[ib+1, it-1]` of the full-step update contains the active range
`[is, ie]` exactly when `nghost ≥ r + 1`, and likewise in `j` and `k`: the end points of
the active range lie in the update range exactly then, and so does every index of a
non-empty active range. Under that condition Step 13 replaces the state of every active
cell: density, momenta and energy by the flux differences of Steps 13a-13c, the
cell-centred field by the face averages of Step 13e. -/
theorem C31_active_cells_advanced (c : Config) (s : State) (k j i : Int) :
    ((locals c s.pG).il = s.pG.is - c.nghost ∧ (locals c s.pG).iu = s.pG.ie + c.nghost ∧
      (locals c s.pG).ib = (locals c s.pG).il + c.order.offset ∧
      (locals c s.pG).it = (locals c s.pG).iu - c.order.offset ∧
      ReconOrder.FIRST_ORDER.offset = 1 ∧ ReconOrder.SECOND_ORDER.offset = 2 ∧
      ReconOrder.THIRD_ORDER.offset = 3) ∧
    (((locals c s.pG).ib + 1 ≤ s.pG.is ∧ s.pG.ie ≤ (locals c s.pG).it - 1) ↔
      c.order.offset + 1 ≤ c.nghost) ∧
    (((locals c s.pG).jb + 1 ≤ s.pG.js ∧ s.pG.je ≤ (locals c s.pG).jt - 1) ↔
      c.order.offset + 1 ≤ c.nghost) ∧
    (((locals c s.pG).kb + 1 ≤ s.pG.ks ∧ s.pG.ke ≤ (locals c s.pG).kt - 1) ↔
      c.order.offset + 1 ≤ c.nghost) ∧
    (s.pG.is ≤ s.pG.ie →
      ((∀ m, s.pG.is ≤ m ∧ m ≤ s.pG.ie →
        (locals c s.pG).ib + 1 ≤ m ∧ m ≤ (locals c s.pG).it - 1) ↔
        c.order.offset + 1 ≤ c.nghost)) ∧
    (s.pG.js ≤ s.pG.je →
      ((∀ m, s.pG.js ≤ m ∧ m ≤ s.pG.je →
        (locals c s.pG).jb + 1 ≤ m ∧ m ≤ (locals c s.pG).jt - 1) ↔
        c.order.offset + 1 ≤ c.nghost)) ∧
    (s.pG.ks ≤ s.pG.ke →
      ((∀ m, s.pG.ks ≤ m ∧ m ≤ s.pG.ke →
        (locals c s.pG).kb + 1 ≤ m ∧ m ≤ (locals c s.pG).kt - 1) ↔
        c.order.offset + 1 ≤ c.nghost)) ∧
    (c.order.offset + 1 ≤ c.nghost →
      (s.pG.ks ≤ k ∧ k ≤ s.pG.ke ∧ s.pG.js ≤ j ∧ j ≤ s.pG.je ∧ s.pG.is ≤ i ∧ i ≤ s.pG.ie) →
      (step13e (locals c s.pG) (step13 (locals c s.pG) s)).pG.U k j i =
        faceAverage s.pG.B1i s.pG.B2i s.pG.B3i k j i
          (flux3Update (s.pG.dt / s.pG.dx3) s.x3Flux k j i
            (flux2Update (s.pG.dt / s.pG.dx2) s.x2Flux k j i
              (flux1Update (s.pG.dt / s.pG.dx1) s.x1Flux k j i (s.pG.U k j i))))) := by
  refine ⟨⟨rfl, rfl, rfl, rfl, rfl, rfl, rfl⟩, ?_, ?_, ?_,
    fun h => ⟨fun H => ?_, fun H m hm => ?_⟩,
    fun h => ⟨fun H => ?_, fun H m hm => ?_⟩, fun h => ⟨fun H => ?_, fun H m hm => ?_⟩,
    fun hn ha => ?_⟩
  · simp only [locals]
    constructor <;> intro h <;> omega
  · simp only [locals]
    constructor <;> intro h <;> omega
  · simp only [locals]
    constructor <;> intro h <;> omega
  · have a := H s.pG.is ⟨le_refl _, h⟩
    simp only [locals] at a
    omega
  · simp only [locals]
    omega
  · have a := H s.pG.js ⟨le_refl _, h⟩
    simp only [locals] at a
    omega
  · simp only [locals]
    omega
  · have a := H s.pG.ks ⟨le_refl _, h⟩
    simp only [locals] at a
    omega
  · simp only [locals]
    omega
  · have hin : (locals c s.pG).kb + 1 ≤ k ∧ k ≤ (locals c s.pG).kt - 1 ∧
        (locals c s.pG).jb + 1 ≤ j ∧ j ≤ (locals c s.pG).jt - 1 ∧
        (locals c s.pG).ib + 1 ≤ i ∧ i ≤ (locals c s.pG).it - 1 := by
      simp only [locals]
      omega
    rw [step13e_eq, step13_eq]
    simp only [lensU, cellMap, hin, and_self, if_true]
    rfl

/-- C31 on the one-cell grid with four ghost zones and second-order limits: the active
cell `(0, 0, 0)` after Step 13. -/
theorem C31_witness :
    (step13e (locals demoConfig demoState.pG) (step13 (locals demoConfig demoState.pG)
      demoState)).pG.U 0 0 0 =
      faceAverage demoState.pG.B1i demoState.pG.B2i demoState.pG.B3i 0 0 0
        (flux3Update (demoState.pG.dt / demoState.pG.dx3) demoState.x3Flux 0 0 0
          (flux2Update (demoState.pG.dt / demoState.pG.dx2) demoState.x2Flux 0 0 0
            (flux1Update (demoState.pG.dt / demoState.pG.dx1) demoState.x1Flux 0 0 0
              (demoState.pG.U 0 0 0)))) :=
  (C31_active_cells_advanced demoConfig demoState 0 0 0).2.2.2.2.2.2.2 (by decide) (by decide)

/-! ## C32: the cell-centred EMF is perpendicular to the field and to the momentum -/

/-- C32: the cell-centred EMF is perpendicular to the field and to the momentum. For
every cell of Step 4a with non-zero density in `pG->U`, and every cell of Step 11a with
non-zero density in `Uhalf`, the three values stored are the components of
`(B x M)/d = -(v x B)` of that cell, and their scalar products with the cell-centred
field and with the momentum are zero. -/
theorem C32_cell_centred_emf_perpendicular (l : Locals) (s : State) (k j i : Int) :
    ((l.kl ≤ k ∧ k ≤ l.ku) → (l.jl ≤ j ∧ j ≤ l.ju) → (l.il ≤ i ∧ i ≤ l.iu) →
      (s.pG.U k j i).d ≠ 0 →
      ((step4a l s).emf1_cc k j i =
          ((s.pG.U k j i).B2c * (s.pG.U k j i).M3 - (s.pG.U k j i).B3c * (s.pG.U k j i).M2) /
            (s.pG.U k j i).d ∧
        (step4a l s).emf2_cc k j i =
          ((s.pG.U k j i).B3c * (s.pG.U k j i).M1 - (s.pG.U k j i).B1c * (s.pG.U k j i).M3) /
            (s.pG.U k j i).d ∧
        (step4a l s).emf3_cc k j i =
          ((s.pG.U k j i).B1c * (s.pG.U k j i).M2 - (s.pG.U k j i).B2c * (s.pG.U k j i).M1) /
            (s.pG.U k j i).d) ∧
      ((step4a l s).emf1_cc k j i =
          -((s.pG.U k j i).M2 / (s.pG.U k j i).d * (s.pG.U k j i).B3c -
            (s.pG.U k j i).M3 / (s.pG.U k j i).d * (s.pG.U k j i).B2c) ∧
        (step4a l s).emf2_cc k j i =
          -((s.pG.U k j i).M3 / (s.pG.U k j i).d * (s.pG.U k j i).B1c -
            (s.pG.U k j i).M1 / (s.pG.U k j i).d * (s.pG.U k j i).B3c) ∧
        (step4a l s).emf3_cc k j i =
          -((s.pG.U k j i).M1 / (s.pG.U k j i).d * (s.pG.U k j i).B2c -
            (s.pG.U k j i).M2 / (s.pG.U k j i).d * (s.pG.U k j i).B1c)) ∧
      (step4a l s).emf1_cc k j i * (s.pG.U k j i).B1c +
        (step4a l s).emf2_cc k j i * (s.pG.U k j i).B2c +
        (step4a l s).emf3_cc k j i * (s.pG.U k j i).B3c = 0 ∧
      (step4a l s).emf1_cc k j i * (s.pG.U k j i).M1 +
        (step4a l s).emf2_cc k j i * (s.pG.U k j i).M2 +
        (step4a l s).emf3_cc k j i * (s.pG.U k j i).M3 = 0) ∧
    ((l.kb ≤ k ∧ k ≤ l.kt) → (l.jb ≤ j ∧ j ≤ l.jt) → (l.ib ≤ i ∧ i ≤ l.it) →
      (s.Uhalf k j i).d ≠ 0 →
      ((step11a l s).emf1_cc k j i =
          ((s.Uhalf k j i).B2c * (s.Uhalf k j i).M3 - (s.Uhalf k j i).B3c * (s.Uhalf k j i).M2) /
            (s.Uhalf k j i).d ∧
        (step11a l s).emf2_cc k j i =
          ((s.Uhalf k j i).B3c * (s.Uhalf k j i).M1 - (s.Uhalf k j i).B1c * (s.Uhalf k j i).M3) /
            (s.Uhalf k j i).d ∧
        (step11a l s).emf3_cc k j i =
          ((s.Uhalf k j i).B1c * (s.Uhalf k j i).M2 - (s.Uhalf k j i).B2c * (s.Uhalf k j i).M1) /
            (s.Uhalf k j i).d) ∧
      ((step11a l s).emf1_cc k j i =
          -((s.Uhalf k j i).M2 / (s.Uhalf k j i).d * (s.Uhalf k j i).B3c -
            (s.Uhalf k j i).M3 / (s.Uhalf k j i).d * (s.Uhalf k j i).B2c) ∧
        (step11a l s).emf2_cc k j i =
          -((s.Uhalf k j i).M3 / (s.Uhalf k j i).d * (s.Uhalf k j i).B1c -
            (s.Uhalf k j i).M1 / (s.Uhalf k j i).d * (s.Uhalf k j i).B3c) ∧
        (step11a l s).emf3_cc k j i =
          -((s.Uhalf k j i).M1 / (s.Uhalf k j i).d * (s.Uhalf k j i).B2c -
            (s.Uhalf k j i).M2 / (s.Uhalf k j i).d * (s.Uhalf k j i).B1c)) ∧
      (step11a l s).emf1_cc k j i * (s.Uhalf k j i).B1c +
        (step11a l s).emf2_cc k j i * (s.Uhalf k j i).B2c +
        (step11a l s).emf3_cc k j i * (s.Uhalf k j i).B3c = 0 ∧
      (step11a l s).emf1_cc k j i * (s.Uhalf k j i).M1 +
        (step11a l s).emf2_cc k j i * (s.Uhalf k j i).M2 +
        (step11a l s).emf3_cc k j i * (s.Uhalf k j i).M3 = 0) := by
  refine ⟨fun hk hj hi hd => ?_, fun hk hj hi hd => ?_⟩
  · obtain ⟨e1, e2, e3⟩ := step4a_cc l s k j i hk hj hi
    rw [e1, e2, e3]
    refine ⟨⟨rfl, rfl, rfl⟩, ⟨?_, ?_, ?_⟩, ?_, ?_⟩ <;> field_simp <;> ring
  · obtain ⟨e1, e2, e3⟩ := step11a_cc l s k j i hk hj hi
    rw [e1, e2, e3]
    refine ⟨⟨rfl, rfl, rfl⟩, ⟨?_, ?_, ?_⟩, ?_, ?_⟩ <;> field_simp <;> ring

/-- C32 on `demoState`: the cell-centred EMF of Step 4a at the cell `(1, 2, 1)` is
perpendicular to the cell-centred field. -/
theorem C32_witness :
    (step4a (locals demoConfig demoGrid) demoState).emf1_cc 1 2 1 * (demoState.pG.U 1 2 1).B1c +
      (step4a (locals demoConfig demoGrid) demoState).emf2_cc 1 2 1 * (demoState.pG.U 1 2 1).B2c +
      (step4a (locals demoConfig demoGrid) demoState).emf3_cc 1 2 1 * (demoState.pG.U 1 2 1).B3c
      = 0 :=
  ((C32_cell_centred_emf_perpendicular (locals demoConfig demoGrid) demoState 1 2 1).1
    (by decide) (by decide) (by decide) (by norm_num [demoState, demoGrid])).2.2.1

/-! ## C36: the update of the source function -/

/-- C36: `update_sfunc` is an accelerated update of the source function with the expected
fixed point. It sets `S' = S + ((1 - eps) J + eps - S) / (1 - (1 - eps) lamstr)` and
leaves every other field alone; when the denominator is not zero, `S' = S` exactly when
`S = (1 - eps) J + eps`; for `lamstr = 0` the new value is `(1 - eps) J + eps`. -/
theorem C36_update_sfunc_fixed_point (R : RadS) :
    (update_sfunc R).S =
      R.S + ((1 - R.eps) * R.J + R.eps - R.S) / (1 - (1 - R.eps) * R.lamstr) ∧
    ((update_sfunc R).J = R.J ∧ (update_sfunc R).chi = R.chi ∧
      (update_sfunc R).eps = R.eps ∧ (update_sfunc R).lamstr = R.lamstr) ∧
    (1 - (1 - R.eps) * R.lamstr ≠ 0 →
      ((update_sfunc R).S = R.S ↔ R.S = (1 - R.eps) * R.J + R.eps)) ∧
    (R.lamstr = 0 → (update_sfunc R).S = (1 - R.eps) * R.J + R.eps) := by
  refine ⟨rfl, ⟨rfl, rfl, rfl, rfl⟩, fun hd => ?_, fun h0 => ?_⟩
  · show R.S + ((1 - R.eps) * R.J + R.eps - R.S) / (1 - (1 - R.eps) * R.lamstr) = R.S ↔ _
    constructor
    · intro h
      have h1 : ((1 - R.eps) * R.J + R.eps - R.S) / (1 - (1 - R.eps) * R.lamstr) = 0 := by
        linarith
      rcases div_eq_zero_iff.mp h1 with h2 | h2
      · linarith
      · exact absurd h2 hd
    · intro h
      rw [← h, sub_self, zero_div, add_zero]
  · show R.S + ((1 - R.eps) * R.J + R.eps - R.S) / (1 - (1 - R.eps) * R.lamstr) = _
    rw [h0]
    ring

/-- C36 on a record with `eps = 1/2`, `J = 3`, `lamstr = 1/2`, `S = 1`: the denominator
is `3/4` and `S` is not the fixed point `2`, so the update changes it. -/
theorem C36_witness :
    (update_sfunc ⟨3, 1, 1, 1 / 2, 1 / 2⟩).S = 1 ↔ (1 : ℚ) = (1 - 1 / 2) * 3 + 1 / 2 :=
  (C36_update_sfunc_fixed_point ⟨3, 1, 1, 1 / 2, 1 / 2⟩).2.2.1 (by norm_num)

/-! ## C35: the upwind intensity is limited -/

theorem MIN_eq_min (a b : ℚ) : MIN a b = min a b := by
  unfold MIN
  split_ifs with h
  · exact (min_eq_left (le_of_lt h)).symm
  · exact (min_eq_right (not_lt.mp h)).symm

/-- The limiter of lines 214-215: a value above `max a b` becomes that maximum, then a
value below `min a b` becomes that minimum. -/
theorem limiter_spec (a b x : ℚ) :
    min a b ≤ (if (if x > MAX a b then MAX a b else x) < MIN a b then MIN a b
      else (if x > MAX a b then MAX a b else x)) ∧
    (if (if x > MAX a b then MAX a b else x) < MIN a b then MIN a b
      else (if x > MAX a b then MAX a b else x)) ≤ max a b ∧
    (min a b ≤ x → x ≤ max a b →
      (if (if x > MAX a b then MAX a b else x) < MIN a b then MIN a b
        else (if x > MAX a b then MAX a b else x)) = x) := by
  rw [MAX_eq_max, MIN_eq_min]
  have hmm : min a b ≤ max a b := le_trans (min_le_left a b) (le_max_left a b)
  refine ⟨?_, ?_, fun h1 h2 => ?_⟩
  · split_ifs <;> linarith
  · split_ifs <;> linarith
  · rw [if_neg (not_lt.mpr h2), if_neg (not_lt.mpr h1)]

/-- The three weights of the parabolic interpolation sum to 1. -/
theorem sweepWeights_sum (am : ℚ) :
    (sweepWeights am).1 + (sweepWeights am).2.1 + (sweepWeights am).2.2 = 1 := by
  unfold sweepWeights
  split_ifs
  · simp only []
    ring
  · simp only []
    ring

/-- C35: the upwind intensity is monotonicity-limited. In `sweep_2d`, with the parabolic
interpolation, the intensity `imu0` of every ray is the one the body of the loop uses;
it lies between the minimum and the maximum of the two bracketing stored intensities
(`imuo[i-sx][..][1]` and `imuo[i][..][0]` when `am ≤ 1`, `imuo[i-sx][..][0]` and
`imuo[i-sx][..][1]` when `am > 1`); it is the parabolic value `w0 I0 + w1 I1 + w2 I2`
whenever that value lies in the interval; the three weights sum to 1 in both branches,
so three equal intensities are reproduced exactly. -/
theorem C35_upwind_intensity_limited (s : SweepState) (j sx sy i ifr l m : Int) :
    (sweepRay j sx sy i ifr l m s).imuo i ifr l m 0 =
      s.psi j i ifr l m 0 * sweepImu0 s sx i ifr l m +
        s.psi j i ifr l m 1 * (sweepSources s j sx sy i ifr l m).1 +
        s.psi j i ifr l m 2 * (s.pRG.R s.pRG.ks j i ifr).S +
        s.psi j i ifr l m 3 * (sweepSources s j sx sy i ifr l m).2 ∧
    (s.am0 l m ≤ 1 →
      sweepParabolic s sx i ifr l m =
        1 / 2 * s.am0 l m * (1 + s.am0 l m) * s.imuo (i - sx) ifr l m 1 +
        (1 - s.am0 l m) * (1 + s.am0 l m) * s.imuo i ifr l m 0 +
        -(1 / 2) * s.am0 l m * (1 - s.am0 l m) * s.imuo (i + sx) ifr l m 0 ∧
      min (s.imuo (i - sx) ifr l m 1) (s.imuo i ifr l m 0) ≤ sweepImu0 s sx i ifr l m ∧
      sweepImu0 s sx i ifr l m ≤ max (s.imuo (i - sx) ifr l m 1) (s.imuo i ifr l m 0) ∧
      (min (s.imuo (i - sx) ifr l m 1) (s.imuo i ifr l m 0) ≤ sweepParabolic s sx i ifr l m →
        sweepParabolic s sx i ifr l m ≤
          max (s.imuo (i - sx) ifr l m 1) (s.imuo i ifr l m 0) →
        sweepImu0 s sx i ifr l m = sweepParabolic s sx i ifr l m) ∧
      (∀ I : ℚ, s.imuo (i - sx) ifr l m 1 = I → s.imuo i ifr l m 0 = I →
        s.imuo (i + sx) ifr l m 0 = I → sweepImu0 s sx i ifr l m = I)) ∧
    (1 < s.am0 l m →
      sweepParabolic s sx i ifr l m =
        1 / 2 * (1 - 1 / s.am0 l m) * (1 + (1 - 1 / s.am0 l m)) * s.imuo (i - sx) ifr l m 0 +
        1 / s.am0 l m * (1 + (1 - 1 / s.am0 l m)) * s.imuo (i - sx) ifr l m 1 +
        -(1 / 2) * (1 / s.am0 l m) * (1 - 1 / s.am0 l m) * s.imuo (i - sx) ifr l m 2 ∧
      min (s.imuo (i - sx) ifr l m 0) (s.imuo (i - sx) ifr l m 1) ≤
        sweepImu0 s sx i ifr l m ∧
      sweepImu0 s sx i ifr l m ≤
        max (s.imuo (i - sx) ifr l m 0) (s.imuo (i - sx) ifr l m 1) ∧
      (min (s.imuo (i - sx) ifr l m 0) (s.imuo (i - sx) ifr l m 1) ≤
          sweepParabolic s sx i ifr l m →
        sweepParabolic s sx i ifr l m ≤
          max (s.imuo (i - sx) ifr l m 0) (s.imuo (i - sx) ifr l m 1) →
        sweepImu0 s sx i ifr l m = sweepParabolic s sx i ifr l m) ∧
      (∀ I : ℚ, s.imuo (i - sx) ifr l m 0 = I → s.imuo (i - sx) ifr l m 1 = I →
        s.imuo (i - sx) ifr l m 2 = I → sweepImu0 s sx i ifr l m = I)) ∧
    (sweepWeights (s.am0 l m)).1 + (sweepWeights (s.am0 l m)).2.1 +
      (sweepWeights (s.am0 l m)).2.2 = 1 := by
  have hw := sweepWeights_sum (s.am0 l m)
  refine ⟨?_, fun h => ?_, fun h => ?_, hw⟩
  · simp only [sweepRay, and_self, if_true]
  · have hp : sweepParabolic s sx i ifr l m =
        (sweepWeights (s.am0 l m)).1 * s.imuo (i - sx) ifr l m 1 +
        (sweepWeights (s.am0 l m)).2.1 * s.imuo i ifr l m 0 +
        (sweepWeights (s.am0 l m)).2.2 * s.imuo (i + sx) ifr l m 0 := by
      simp only [sweepParabolic, h, if_true]
    have hi : sweepImu0 s sx i ifr l m =
        (if (if sweepParabolic s sx i ifr l m >
              MAX (s.imuo (i - sx) ifr l m 1) (s.imuo i ifr l m 0) then
            MAX (s.imuo (i - sx) ifr l m 1) (s.imuo i ifr l m 0)
          else sweepParabolic s sx i ifr l m) <
            MIN (s.imuo (i - sx) ifr l m 1) (s.imuo i ifr l m 0) then
          MIN (s.imuo (i - sx) ifr l m 1) (s.imuo i ifr l m 0)
        else (if sweepParabolic s sx i ifr l m >
              MAX (s.imuo (i - sx) ifr l m 1) (s.imuo i ifr l m 0) then
            MAX (s.imuo (i - sx) ifr l m 1) (s.imuo i ifr l m 0)
          else sweepParabolic s sx i ifr l m)) := by
      simp only [sweepImu0, h, if_true]
    obtain ⟨l1, l2, l3⟩ := limiter_spec (s.imuo (i - sx) ifr l m 1) (s.imuo i ifr l m 0)
      (sweepParabolic s sx i ifr l m)
    rw [← hi] at l1 l2 l3
    refine ⟨?_, l1, l2, l3, fun I a b d => ?_⟩
    · rw [hp]
      simp only [sweepWeights, h, if_true]
    · have e : sweepParabolic s sx i ifr l m = I := by
        rw [hp, a, b, d, ← add_mul, ← add_mul, hw, one_mul]
      rw [l3 (by rw [e, a, b, min_self]) (by rw [e, a, b, max_self]), e]
  · have hn : ¬ s.am0 l m ≤ 1 := not_le.mpr h
    have hp : sweepParabolic s sx i ifr l m =
        (sweepWeights (s.am0 l m)).1 * s.imuo (i - sx) ifr l m 0 +
        (sweepWeights (s.am0 l m)).2.1 * s.imuo (i - sx) ifr l m 1 +
        (sweepWeights (s.am0 l m)).2.2 * s.imuo (i - sx) ifr l m 2 := by
      simp only [sweepParabolic, hn, if_false]
    have hi : sweepImu0 s sx i ifr l m =
        (if (if sweepParabolic s sx i ifr l m >
              MAX (s.imuo (i - sx) ifr l m 0) (s.imuo (i - sx) ifr l m 1) then
            MAX (s.imuo (i - sx) ifr l m 0) (s.imuo (i - sx) ifr l m 1)
          else sweepParabolic s sx i ifr l m) <
            MIN (s.imuo (i - sx) ifr l m 0) (s.imuo (i - sx) ifr l m 1) then
          MIN (s.imuo (i - sx) ifr l m 0) (s.imuo (i - sx) ifr l m 1)
        else (if sweepParabolic s sx i ifr l m >
              MAX (s.imuo (i - sx) ifr l m 0) (s.imuo (i - sx) ifr l m 1) then
            MAX (s.imuo (i - sx) ifr l m 0) (s.imuo (i - sx) ifr l m 1)
          else sweepParabolic s sx i ifr l m)) := by
      simp only [sweepImu0, hn, if_false]
    obtain ⟨l1, l2, l3⟩ := limiter_spec (s.imuo (i - sx) ifr l m 0)
      (s.imuo (i - sx) ifr l m 1) (sweepParabolic s sx i ifr l m)
    rw [← hi] at l1 l2 l3
    refine ⟨?_, l1, l2, l3, fun I a b d => ?_⟩
    · rw [hp]
      simp only [sweepWeights, hn, if_false]
    · have e : sweepParabolic s sx i ifr l m = I := by
        rw [hp, a, b, d, ← add_mul, ← add_mul, hw, one_mul]
      rw [l3 (by rw [e, a, b, min_self]) (by rw [e, a, b, max_self]), e]

/-- C35 on `demoSweep`, where `am0 = 1/2`: the intensity of the ray `(1, 0, 0, 0)` of a
forward sweep is at most the larger of `imuo[0][..][1]` and `imuo[1][..][0]`. -/
theorem C35_witness :
    sweepImu0 demoSweep 1 1 0 0 0 ≤
      max (demoSweep.imuo (1 - 1) 0 0 0 1) (demoSweep.imuo 1 0 0 0 0) :=
  ((C35_upwind_intensity_limited demoSweep 0 1 1 1 0 0 0).2.1
    (by norm_num [demoSweep])).2.2.1

/-! ## C34: the accesses of `lubksb` -/

theorem forLoopDown_inv {σ : Type} (P : σ → Prop) (hi lo : Int) (body : Int → σ → σ)
    (H : ∀ m s, lo ≤ m → m ≤ hi → P s → P (body m s)) (s : σ) (hs : P s) :
    P (forLoopDown hi lo body s) := by
  have key : ∀ (n : Nat) (a : Int) (s : σ), a ≤ hi → lo - 1 ≤ a - n → P s →
      P (forLoopDownAux body n a s) := by
    intro n
    induction n with
    | zero => intro a s _ _ h; exact h
    | succ n ih =>
      intro a s h1 h2 h
      simp only [forLoopDownAux]
      exact ih (a - 1) _ (by omega) (by push_cast at h2; omega)
        (H a s (by push_cast at h2; omega) h1 h)
  by_cases h : hi < lo
  · rw [forLoopDown_done hi lo body s h]
    exact hs
  · unfold forLoopDown
    exact key _ hi s (le_refl _) (by omega) hs

/-- The forward substitution with its accesses computes the forward substitution. -/
theorem lubksbForwardTrace_fst (a : Arr2 ℚ) (n : Int) (indx : Arr1 Int) (b : Arr1 ℚ) :
    (lubksbForwardTrace a n indx b).1 = lubksbForward a n indx { b := b, ii := 0 } := by
  unfold lubksbForwardTrace lubksbForward forLoop
  exact forLoopAux_obs Prod.fst _ (fun i s => lubksbForwardStep a indx i s) _ 0
    (fun _ _ _ _ => rfl) _

/-- The accesses of an inner loop over `j = lo, ..., hi`: the elements `a[i][j]` and
`b[j]` of that range. -/
theorem rowAccesses_mem (i lo hi : Int) (x : Access) :
    x ∈ rowAccesses i lo hi → ∃ j, lo ≤ j ∧ j ≤ hi ∧ (x = Access.a i j ∨ x = Access.b j) := by
  unfold rowAccesses
  refine forLoop_inv (fun tr => x ∈ tr → ∃ j, lo ≤ j ∧ j ≤ hi ∧
    (x = Access.a i j ∨ x = Access.b j)) lo hi
    (fun j tr => tr ++ [Access.a i j, Access.b j]) ?_ [] (fun h => absurd h (List.not_mem_nil x))
  intro m tr h1 h2 ih hx
  rcases List.mem_append.mp hx with h | h
  · exact ih h
  · simp only [List.mem_cons, List.mem_singleton, List.not_mem_nil, or_false] at h
    exact ⟨m, h1, h2, h⟩

/-- An upward loop that appends `f i` in each pass leaves the elements of every `f i`
of its range in the list. -/
theorem forLoop_append_mem {α : Type} (f : Int → List α) (lo hi : Int) (tr : List α) (x : α)
    (i : Int) (h1 : lo ≤ i) (h2 : i ≤ hi) (hx : x ∈ f i) :
    x ∈ forLoop lo hi (fun i tr => tr ++ f i) tr := by
  have key : ∀ (n : Nat) (a : Int) (tr : List α), (x ∈ tr ∨ (a ≤ i ∧ i < a + n)) →
      x ∈ forLoopAux (fun i tr => tr ++ f i) n a tr := by
    intro n
    induction n with
    | zero =>
      intro a tr h
      rcases h with h | h
      · exact h
      · omega
    | succ n ih =>
      intro a tr h
      simp only [forLoopAux]
      refine ih (a + 1) _ ?_
      rcases h with h | h
      · exact Or.inl (List.mem_append_left _ h)
      · by_cases e : i = a
        · subst e
          exact Or.inl (List.mem_append_right _ hx)
        · exact Or.inr ⟨by omega, by push_cast at h; omega⟩
  unfold forLoop
  exact key _ lo tr (Or.inr ⟨h1, by omega⟩)

/-- A downward loop that appends `f i` in each pass leaves the elements of every `f i`
of its range in the list. -/
theorem forLoopDown_append_mem {α : Type} (f : Int → List α) (hi lo : Int) (tr : List α)
    (x : α) (i : Int) (h1 : lo ≤ i) (h2 : i ≤ hi) (hx : x ∈ f i) :
    x ∈ forLoopDown hi lo (fun i tr => tr ++ f i) tr := by
  have key : ∀ (n : Nat) (a : Int) (tr : List α), (x ∈ tr ∨ (a - n < i ∧ i ≤ a)) →
      x ∈ forLoopDownAux (fun i tr => tr ++ f i) n a tr := by
    intro n
    induction n with
    | zero =>
      intro a tr h
      rcases h with h | h
      · exact h
      · simp only [Nat.cast_zero, sub_zero] at h
        omega
    | succ n ih =>
      intro a tr h
      simp only [forLoopDownAux]
      refine ih (a - 1) _ ?_
      rcases h with h | h
      · exact Or.inl (List.mem_append_left _ h)
      · by_cases e : i = a
        · subst e
          exact Or.inl (List.mem_append_right _ hx)
        · exact Or.inr ⟨by push_cast at h; omega, by omega⟩
  unfold forLoopDown
  exact key _ hi tr (Or.inr ⟨by omega, h2⟩)

/-- The forward substitution leaves `ii` as it was or sets it to the index of the pass. -/
theorem lubksbForwardStep_ii (a : Arr2 ℚ) (indx : Arr1 Int) (i : Int) (s : BksbState) :
    (lubksbForwardStep a indx i s).ii = s.ii ∨ (lubksbForwardStep a indx i s).ii = i := by
  unfold lubksbForwardStep
  simp only []
  split_ifs
  · exact Or.inl rfl
  · exact Or.inr rfl
  · exact Or.inl rfl

/-- C34 fails on the code: the back substitution of `lubksb` reads beyond its arrays. For
every `n ≥ 1` the forward substitution stays inside the arrays when the pivot indices
do, but the inner loop of the back substitution runs over `j = i+1, ..., n`: for every row
`i` it reads `a[i][n]` and `b[n]`, the last row `n-1` included, and the index `n` is
outside `0..n-1`. -/
theorem C34_lubksb_reads_past_arrays (a : Arr2 ℚ) (indx : Arr1 Int) (b : Arr1 ℚ) (n : Int)
    (hn : 1 ≤ n) :
    ((∀ i, 0 ≤ i → i ≤ n - 1 → 0 ≤ indx i ∧ indx i ≤ n - 1) →
      ∀ x ∈ (lubksbForwardTrace a n indx b).2, Access.inBounds n x) ∧
    (∀ i, 0 ≤ i → i ≤ n - 1 →
      Access.a i n ∈ lubksbBackTrace n ∧ Access.b n ∈ lubksbBackTrace n ∧
      ¬ Access.inBounds n (Access.a i n)) ∧
    (Access.a (n - 1) n ∈ lubksbBackTrace n ∧ Access.b n ∈ lubksbBackTrace n) ∧
    ¬ Access.inBounds n (Access.b n) ∧
    lubksb a n indx b = (lubksbBack a n (lubksbForwardTrace a n indx b).1).b := by
  have rows : ∀ i, 0 ≤ i → i ≤ n - 1 →
      Access.a i n ∈ lubksbBackTrace n ∧ Access.b n ∈ lubksbBackTrace n ∧
      ¬ Access.inBounds n (Access.a i n) := by
    intro i h1 h2
    refine ⟨?_, ?_, ?_⟩
    · unfold lubksbBackTrace
      refine forLoopDown_append_mem (lubksbBackAccesses n) (n - 1) 0 [] _ i h1 h2 ?_
      refine List.mem_append_left _ (List.mem_append_right _ ?_)
      exact forLoop_append_mem (fun j => [Access.a i j, Access.b j]) (i + 1) n [] _ n
        (by omega) (le_refl _) (List.mem_cons_self _ _)
    · unfold lubksbBackTrace
      refine forLoopDown_append_mem (lubksbBackAccesses n) (n - 1) 0 [] _ i h1 h2 ?_
      refine List.mem_append_left _ (List.mem_append_right _ ?_)
      exact forLoop_append_mem (fun j => [Access.a i j, Access.b j]) (i + 1) n [] _ n
        (by omega) (le_refl _) (List.mem_cons_of_mem _ (List.mem_cons_self _ _))
    · simp only [Access.inBounds]
      omega
  refine ⟨fun hx => ?_, rows, ⟨(rows (n - 1) (by omega) (le_refl _)).1,
    (rows (n - 1) (by omega) (le_refl _)).2.1⟩, ?_, ?_⟩
  · have key : 0 ≤ (lubksbForwardTrace a n indx b).1.ii ∧
        ∀ x ∈ (lubksbForwardTrace a n indx b).2, Access.inBounds n x := by
      unfold lubksbForwardTrace
      refine forLoop_inv (fun p : BksbState × List Access =>
          0 ≤ p.1.ii ∧ ∀ x ∈ p.2, Access.inBounds n x) 0 (n - 1)
        (fun i p => (lubksbForwardStep a indx i p.1, p.2 ++ lubksbForwardAccesses indx i p.1))
        ?_ _ ⟨le_refl _, fun x h => absurd h (List.not_mem_nil x)⟩
      rintro i ⟨s, tr⟩ h1 h2 ⟨hii, htr⟩
      refine ⟨?_, fun x hxm => ?_⟩
      · rcases lubksbForwardStep_ii a indx i s with h | h
        · rw [h]; exact hii
        · rw [h]; exact h1
      · rcases List.mem_append.mp hxm with h | h
        · exact htr x h
        · have hi := hx i h1 h2
          have hs : 0 ≤ s.ii := hii
          simp only [lubksbForwardAccesses, List.mem_append, List.mem_cons, List.mem_singleton,
            List.not_mem_nil, or_false] at h
          rcases h with (((rfl | rfl | rfl) | h) | rfl)
          · exact hi
          · exact ⟨h1, h2⟩
          · exact hi
          · split_ifs at h
            · obtain ⟨j, a1, a2, rfl | rfl⟩ := rowAccesses_mem i s.ii (i - 1) x h
              · exact ⟨h1, h2, by omega, by omega⟩
              · exact ⟨by omega, by omega⟩
            · exact absurd h (List.not_mem_nil x)
          · exact ⟨h1, h2⟩
    exact key.2
  · simp only [Access.inBounds]
    omega
  · rw [lubksbForwardTrace_fst]
    rfl

/-- C34 on the system `2 x = 4` (`n = 1`): the back substitution reads `a[0][1]` and
`b[1]`, beyond a matrix of one row and one column and a vector of one element. -/
theorem C34_witness :
    Access.a 0 1 ∈ lubksbBackTrace 1 ∧ Access.b 1 ∈ lubksbBackTrace 1 ∧
      ¬ Access.inBounds 1 (Access.a 0 1) :=
  (C34_lubksb_reads_past_arrays (fun _ _ => 2) (fun _ => 0) (fun _ => 4) 1 (by decide)).2.1 0
    (by decide) (by decide)

/-! ## C33: when `ludcmp` reports a singular matrix -/

/-- Induction over the passes of a loop with a property that may depend on the loop
variable: it holds on entry for `lo`, each pass `m` takes it from `m` to `m + 1`, so it
holds for `hi + 1` on exit. -/
theorem forLoop_ind {σ : Type} (I : Int → σ → Prop) (lo hi : Int) (body : Int → σ → σ)
    (h : lo ≤ hi + 1) (s : σ) (h0 : I lo s)
    (step : ∀ m s, lo ≤ m → m ≤ hi → I m s → I (m + 1) (body m s)) :
    I (hi + 1) (forLoop lo hi body s) := by
  have key : ∀ (n : Nat) (a : Int) (s : σ), lo ≤ a → a + n = hi + 1 → I a s →
      I (hi + 1) (forLoopAux body n a s) := by
    intro n
    induction n with
    | zero =>
      intro a s _ h2 h
      simp only [Nat.cast_zero, add_zero] at h2
      rw [← h2]
      exact h
    | succ n ih =>
      intro a s h1 h2 h
      simp only [forLoopAux]
      exact ih (a + 1) _ (by omega) (by push_cast at h2; omega)
        (step a s h1 (by push_cast at h2; omega) h)
  unfold forLoop
  exact key _ lo s (le_refl _) (by omega) h0

theorem rowBig_nonneg (a : Arr2 ℚ) (n i : Int) : 0 ≤ rowBig a n i := by
  unfold rowBig
  refine forLoop_inv (fun big => 0 ≤ big) 0 (n - 1)
    (fun j big => if |a i j| > big then |a i j| else big) ?_ 0 (le_refl _)
  intro j big _ _ h
  show 0 ≤ (if |a i j| > big then |a i j| else big)
  split_ifs
  · exact abs_nonneg _
  · exact h

theorem rowBig_ge (a : Arr2 ℚ) (n i j : Int) (h1 : 0 ≤ j) (h2 : j ≤ n - 1) :
    |a i j| ≤ rowBig a n i := by
  unfold rowBig
  refine forLoop_establish (fun _ => True) (fun big => |a i j| ≤ big) 0 (n - 1) j
    (fun j big => if |a i j| > big then |a i j| else big) h1 h2 (fun _ _ _ _ _ => trivial)
    ?_ ?_ 0 trivial
  · intro big _
    show |a i j| ≤ (if |a i j| > big then |a i j| else big)
    split_ifs with h
    · exact le_refl _
    · exact not_lt.mp h
  · intro m big _ _ _ _ hq
    show |a i j| ≤ (if |a i m| > big then |a i m| else big)
    split_ifs with h
    · exact le_trans hq (le_of_lt h)
    · exact hq

/-- The largest absolute value of a row is zero exactly when the row consists of zeros. -/
theorem rowBig_eq_zero_iff (a : Arr2 ℚ) (n i : Int) :
    rowBig a n i = 0 ↔ ∀ j, 0 ≤ j → j ≤ n - 1 → a i j = 0 := by
  constructor
  · intro h j h1 h2
    have := rowBig_ge a n i j h1 h2
    rw [h] at this
    exact abs_eq_zero.mp (le_antisymm this (abs_nonneg _))
  · intro h
    unfold rowBig
    refine forLoop_inv (fun big => big = 0) 0 (n - 1)
      (fun j big => if |a i j| > big then |a i j| else big) ?_ 0 rfl
    intro j big h1 h2 hb
    show (if |a i j| > big then |a i j| else big) = 0
    rw [hb, h j h1 h2, abs_zero, if_neg (lt_irrefl _)]

/-- The scaling loop of `ludcmp` on a matrix without a row of zeros: it completes, leaves
everything but `vv` alone and stores a positive scaling for every row. -/
theorem ludcmpScale_ok (n : Int) (s : LUState)
    (h : ∀ i, 0 ≤ i → i ≤ n - 1 → rowBig s.a n i ≠ 0) :
    ∃ t, ludcmpScale n s = .ok t ∧ t.a = s.a ∧ t.indx = s.indx ∧ t.d = s.d ∧
      ∀ i, 0 ≤ i → i ≤ n - 1 → 0 < t.vv i := by
  let P : Except String LUState → Prop := fun r =>
    ∃ t, r = .ok t ∧ t.a = s.a ∧ t.indx = s.indx ∧ t.d = s.d
  let body : Int → Except String LUState → Except String LUState := fun i r =>
    match r with
    | .error e => .error e
    | .ok s =>
      if rowBig s.a n i = 0 then .error "[ludcmp]: Singular matrix in routine ludcmp\n"
      else .ok { s with vv := set1 s.vv i (1 / rowBig s.a n i) }
  have hb : ∀ m t, rowBig t.a n m ≠ 0 →
      body m (.ok t) = .ok { t with vv := set1 t.vv m (1 / rowBig t.a n m) } := by
    intro m t hne
    simp only [body, hne, if_false]
  have hP : ∀ m r, 0 ≤ m → m ≤ n - 1 → P r → P (body m r) := by
    rintro m r h1 h2 ⟨t, rfl, ha, hi, hd⟩
    have hne : rowBig t.a n m ≠ 0 := by rw [ha]; exact h m h1 h2
    exact ⟨_, hb m t hne, ha, hi, hd⟩
  have frame : P (ludcmpScale n s) := forLoop_inv P 0 (n - 1) body hP _ ⟨s, rfl, rfl, rfl, rfl⟩
  obtain ⟨t, ht, ha, hi, hd⟩ := frame
  refine ⟨t, ht, ha, hi, hd, fun i h1 h2 => ?_⟩
  have hq : ∃ t', ludcmpScale n s = .ok t' ∧ 0 < t'.vv i := by
    refine forLoop_establish P (fun r => ∃ t', r = .ok t' ∧ 0 < t'.vv i) 0 (n - 1) i body h1 h2
      hP ?_ ?_ _ ⟨s, rfl, rfl, rfl, rfl⟩
    · rintro r ⟨t, rfl, ha, -, -⟩
      have hne : rowBig t.a n i ≠ 0 := by rw [ha]; exact h i h1 h2
      refine ⟨_, hb i t hne, ?_⟩
      simp only [set1, if_true]
      exact one_div_pos.mpr (lt_of_le_of_ne (rowBig_nonneg _ _ _) (Ne.symm hne))
    · rintro m r a1 a2 hne ⟨t, rfl, ha, -, -⟩ ⟨t', e, hv⟩
      have hne' : rowBig t.a n m ≠ 0 := by rw [ha]; exact h m a1 a2
      cases e
      refine ⟨_, hb m t hne', ?_⟩
      have hn : ¬ i = m := fun e => hne e.symm
      simp only [set1, hn, if_false]
      exact hv
  obtain ⟨t', ht', hv⟩ := hq
  rw [ht] at ht'
  cases ht'
  exact hv

/-- The scaling loop of `ludcmp` on a matrix with a row of zeros ends the run with the
message for a singular matrix. -/
theorem ludcmpScale_error (n : Int) (s : LUState) (i : Int) (h1 : 0 ≤ i) (h2 : i ≤ n - 1)
    (h : rowBig s.a n i = 0) :
    ludcmpScale n s = .error "[ludcmp]: Singular matrix in routine ludcmp\n" := by
  let P : Except String LUState → Prop := fun r =>
    r = .error "[ludcmp]: Singular matrix in routine ludcmp\n" ∨ ∃ t, r = .ok t ∧ t.a = s.a
  let body : Int → Except String LUState → Except String LUState := fun i r =>
    match r with
    | .error e => .error e
    | .ok s =>
      if rowBig s.a n i = 0 then .error "[ludcmp]: Singular matrix in routine ludcmp\n"
      else .ok { s with vv := set1 s.vv i (1 / rowBig s.a n i) }
  refine forLoop_establish P
    (fun r => r = .error "[ludcmp]: Singular matrix in routine ludcmp\n") 0 (n - 1) i body h1 h2
    ?_ ?_ ?_ _ (Or.inr ⟨s, rfl, rfl⟩)
  · rintro m r _ _ (rfl | ⟨t, rfl, ha⟩)
    · exact Or.inl rfl
    · by_cases hz : rowBig t.a n m = 0
      · exact Or.inl (by simp only [body, hz, if_true])
      · exact Or.inr ⟨{ t with vv := set1 t.vv m (1 / rowBig t.a n m) },
          by simp only [body, hz, if_false], ha⟩
  · rintro r (rfl | ⟨t, rfl, ha⟩)
    · rfl
    · have hz : rowBig t.a n i = 0 := by rw [ha]; exact h
      simp only [body, hz, if_true]
  · rintro m r _ _ _ _ rfl
    rfl

/-- The entries above the diagonal of column `j` are the only thing lines 43-47 write. -/
theorem ludcmpUpper_frame (j : Int) (s : LUState) :
    (ludcmpUpper j s).vv = s.vv ∧ (ludcmpUpper j s).indx = s.indx ∧
    ∀ r c, c ≠ j → (ludcmpUpper j s).a r c = s.a r c := by
  unfold ludcmpUpper
  refine forLoop_inv (fun t : LUState => t.vv = s.vv ∧ t.indx = s.indx ∧
    ∀ r c, c ≠ j → t.a r c = s.a r c) 0 (j - 1)
    (fun i s =>
      let sum := forLoop 0 (i - 1) (fun k sum => sum - s.a i k * s.a k j) (s.a i j)
      { s with a := set2 s.a i j sum }) ?_ s ⟨rfl, rfl, fun _ _ _ => rfl⟩
  rintro i t _ _ ⟨h1, h2, h3⟩
  refine ⟨h1, h2, fun r c hc => ?_⟩
  have hn : ¬ (r = i ∧ c = j) := fun h => hc h.2
  simp only [set2, hn, if_false]
  exact h3 r c hc

/-- The search for the pivot (lines 49-59) writes column `j` only and, for a column of the
matrix with a non-negative scaling of row `j`, leaves `imax` among the rows `j..n-1`. -/
theorem ludcmpPivot_spec (n j : Int) (s : LUState) :
    (ludcmpPivot n j s).1.vv = s.vv ∧ (ludcmpPivot n j s).1.indx = s.indx ∧
    (∀ r c, c ≠ j → (ludcmpPivot n j s).1.a r c = s.a r c) ∧
    (j ≤ n - 1 → 0 ≤ s.vv j →
      j ≤ (ludcmpPivot n j s).1.imax ∧ (ludcmpPivot n j s).1.imax ≤ n - 1) := by
  let body : Int → LUState × ℚ → LUState × ℚ := fun i p =>
    if (p.1.vv i * |forLoop 0 (j - 1) (fun k sum => sum - p.1.a i k * p.1.a k j) (p.1.a i j)|)
        ≥ p.2 then
      ({ p.1 with
          a := set2 p.1.a i j
            (forLoop 0 (j - 1) (fun k sum => sum - p.1.a i k * p.1.a k j) (p.1.a i j)),
          imax := i },
        p.1.vv i * |forLoop 0 (j - 1) (fun k sum => sum - p.1.a i k * p.1.a k j) (p.1.a i j)|)
    else
      ({ p.1 with
          a := set2 p.1.a i j
            (forLoop 0 (j - 1) (fun k sum => sum - p.1.a i k * p.1.a k j) (p.1.a i j)) },
        p.2)
  have e : ludcmpPivot n j s = forLoop j (n - 1) body (s, 0) := rfl
  have frame : (forLoop j (n - 1) body (s, 0)).1.vv = s.vv ∧
      (forLoop j (n - 1) body (s, 0)).1.indx = s.indx ∧
      ∀ r c, c ≠ j → (forLoop j (n - 1) body (s, 0)).1.a r c = s.a r c := by
    refine forLoop_inv (fun p : LUState × ℚ => p.1.vv = s.vv ∧ p.1.indx = s.indx ∧
      ∀ r c, c ≠ j → p.1.a r c = s.a r c) j (n - 1) body ?_ (s, 0) ⟨rfl, rfl, fun _ _ _ => rfl⟩
    rintro i p _ _ ⟨h1, h2, h3⟩
    simp only [body]
    split_ifs
    · refine ⟨h1, h2, fun r c hc => ?_⟩
      have hn : ¬ (r = i ∧ c = j) := fun h => hc h.2
      simp only [set2, hn, if_false]
      exact h3 r c hc
    · refine ⟨h1, h2, fun r c hc => ?_⟩
      have hn : ¬ (r = i ∧ c = j) := fun h => hc h.2
      simp only [set2, hn, if_false]
      exact h3 r c hc
  rw [e]
  refine ⟨frame.1, frame.2.1, frame.2.2, fun hj hv => ?_⟩
  have key := forLoop_ind (fun (m : Int) (p : LUState × ℚ) => p.1.vv = s.vv ∧
      (m = j → p.2 = 0) ∧ (j < m → j ≤ p.1.imax ∧ p.1.imax ≤ m - 1)) j (n - 1) body
    (by omega) (s, 0) ⟨rfl, fun _ => rfl, fun h => absurd h (lt_irrefl _)⟩ ?_
  · exact key.2.2 (by omega) |>.imp_right (fun h => by omega)
  · rintro m p h1 h2 ⟨hvv, hz, hi⟩
    simp only [body]
    split_ifs with hc
    · refine ⟨hvv, fun h => by omega, fun _ => ?_⟩
      show j ≤ m ∧ m ≤ m + 1 - 1
      omega
    · refine ⟨hvv, fun h => by omega, fun _ => ?_⟩
      show j ≤ p.1.imax ∧ p.1.imax ≤ m + 1 - 1
      rcases eq_or_lt_of_le h1 with h | h
      · exfalso
        apply hc
        rw [hz h.symm, ← h, hvv]
        exact mul_nonneg hv (abs_nonneg _)
      · obtain ⟨a1, a2⟩ := hi h
        exact ⟨a1, by omega⟩

/-- The interchange of rows (lines 61-69) keeps `indx` and `imax`, takes every scaling
from the scalings it found, and writes the rows `imax` and `j` only. -/
theorem ludcmpSwap_spec (n j : Int) (s : LUState) :
    (ludcmpSwap n j s).indx = s.indx ∧ (ludcmpSwap n j s).imax = s.imax ∧
    (∀ i, (ludcmpSwap n j s).vv i = s.vv i ∨ (ludcmpSwap n j s).vv i = s.vv j) ∧
    (∀ r c, r ≠ s.imax → r ≠ j → (ludcmpSwap n j s).a r c = s.a r c) := by
  unfold ludcmpSwap
  split_ifs with h
  · have frame := forLoop_inv (fun t : LUState => t.indx = s.indx ∧ t.imax = s.imax ∧
        t.vv = s.vv ∧ ∀ r c, r ≠ s.imax → r ≠ j → t.a r c = s.a r c) 0 (n - 1)
      (fun k s =>
        let dum := s.a s.imax k
        let s := { s with a := set2 s.a s.imax k (s.a j k) }
        { s with a := set2 s.a j k dum }) (by
          rintro k t _ _ ⟨h1, h2, h3, h4⟩
          refine ⟨h1, h2, h3, fun r c hr hj => ?_⟩
          have n1 : ¬ (r = j ∧ c = k) := fun e => hj e.1
          have n2 : ¬ (r = t.imax ∧ c = k) := fun e => hr (e.1.trans h2)
          simp only [set2, n1, n2, if_false]
          exact h4 r c hr hj) s ⟨rfl, rfl, rfl, fun _ _ _ _ => rfl⟩
    obtain ⟨h1, h2, h3, h4⟩ := frame
    refine ⟨h1, h2, fun i => ?_, h4⟩
    simp only [set1]
    split_ifs
    · exact Or.inr (by rw [h3])
    · exact Or.inl (by rw [h3])
  · exact ⟨rfl, rfl, fun _ => Or.inl rfl, fun _ _ _ _ => rfl⟩

/-- Lines 71-76: the pivot index stored is `imax`, the diagonal entry left is not zero,
and only column `j` of the matrix and `indx[j]` are written. -/
theorem ludcmpDivide_spec (T : ℚ) (n j : Int) (s : LUState) (hT : T ≠ 0) :
    (ludcmpDivide T n j s).indx j = s.imax ∧
    (∀ i, i ≠ j → (ludcmpDivide T n j s).indx i = s.indx i) ∧
    (ludcmpDivide T n j s).vv = s.vv ∧ (ludcmpDivide T n j s).a j j ≠ 0 ∧
    (∀ r c, c ≠ j → (ludcmpDivide T n j s).a r c = s.a r c) := by
  have key : ∀ t : LUState, t.indx = set1 s.indx j s.imax → t.vv = s.vv → t.a j j ≠ 0 →
      (∀ r c, c ≠ j → t.a r c = s.a r c) →
      ∀ u : LUState, u.indx = t.indx → u.vv = t.vv → u.a j j = t.a j j →
      (∀ r c, c ≠ j → u.a r c = t.a r c) →
      u.indx j = s.imax ∧ (∀ i, i ≠ j → u.indx i = s.indx i) ∧ u.vv = s.vv ∧ u.a j j ≠ 0 ∧
      (∀ r c, c ≠ j → u.a r c = s.a r c) := by
    intro t t1 t2 t3 t4 u u1 u2 u3 u4
    refine ⟨?_, fun i hi => ?_, u2.trans t2, by rw [u3]; exact t3,
      fun r c hc => (u4 r c hc).trans (t4 r c hc)⟩
    · rw [u1, t1]
      simp only [set1, if_true]
    · rw [u1, t1]
      simp only [set1, hi, if_false]
  have loop : ∀ (t : LUState) (dum : ℚ),
      (forLoop (j + 1) (n - 1)
        (fun i s => { s with a := set2 s.a i j (s.a i j * dum) }) t).indx = t.indx ∧
      (forLoop (j + 1) (n - 1)
        (fun i s => { s with a := set2 s.a i j (s.a i j * dum) }) t).vv = t.vv ∧
      (forLoop (j + 1) (n - 1)
        (fun i s => { s with a := set2 s.a i j (s.a i j * dum) }) t).a j j = t.a j j ∧
      ∀ r c, c ≠ j → (forLoop (j + 1) (n - 1)
        (fun i s => { s with a := set2 s.a i j (s.a i j * dum) }) t).a r c = t.a r c := by
    intro t dum
    refine forLoop_inv (fun u : LUState => u.indx = t.indx ∧ u.vv = t.vv ∧
      u.a j j = t.a j j ∧ ∀ r c, c ≠ j → u.a r c = t.a r c) (j + 1) (n - 1)
      (fun i s => { s with a := set2 s.a i j (s.a i j * dum) }) ?_ t
      ⟨rfl, rfl, rfl, fun _ _ _ => rfl⟩
    rintro i u hi _ ⟨h1, h2, h3, h4⟩
    refine ⟨h1, h2, ?_, fun r c hc => ?_⟩
    · have hn : ¬ j = i := by omega
      simp only [set2, hn, false_and, if_false]
      exact h3
    · have hn : ¬ (r = i ∧ c = j) := fun e => hc e.2
      simp only [set2, hn, if_false]
      exact h4 r c hc
  let t1 : LUState := { s with indx := set1 s.indx j s.imax }
  let tz : LUState := if t1.a j j = 0 then { t1 with a := set2 t1.a j j T } else t1
  have z1 : tz.indx = set1 s.indx j s.imax := by
    by_cases h0 : s.a j j = 0 <;> simp only [tz, t1, h0, if_true, if_false]
  have z2 : tz.vv = s.vv := by
    by_cases h0 : s.a j j = 0 <;> simp only [tz, t1, h0, if_true, if_false]
  have z3 : tz.a j j ≠ 0 := by
    by_cases h0 : s.a j j = 0
    · simp only [tz, t1, h0, if_true, set2, and_self]
      exact hT
    · simp only [tz, t1, h0, if_false]
      exact h0
  have z4 : ∀ r c, c ≠ j → tz.a r c = s.a r c := by
    intro r c hc
    have hn : ¬ (r = j ∧ c = j) := fun e => hc e.2
    by_cases h0 : s.a j j = 0 <;> simp only [tz, t1, h0, if_true, if_false, set2, hn]
  have e : ludcmpDivide T n j s =
      if j ≠ n - 1 then
        forLoop (j + 1) (n - 1)
          (fun i s => { s with a := set2 s.a i j (s.a i j * (1 / tz.a j j)) }) tz
      else tz := rfl
  rw [e]
  split_ifs
  · obtain ⟨l1, l2, l3, l4⟩ := loop tz (1 / tz.a j j)
    exact key tz z1 z2 z3 z4 _ l1 l2 l3 l4
  · exact key tz z1 z2 z3 z4 tz rfl rfl rfl (fun _ _ _ => rfl)

/-- One pass of the loop over the columns, for a column `m` of the matrix and positive
scalings: the scalings stay positive, the diagonal entry of the column is left non-zero
with its pivot index among the rows `m..n-1`, and the diagonal entries and pivot indices
of the earlier columns are not written. -/
theorem ludcmpColumn_spec (T : ℚ) (n m : Int) (s : LUState) (hT : T ≠ 0)
    (h1 : 0 ≤ m) (h2 : m ≤ n - 1) (hv : ∀ i, 0 ≤ i → i ≤ n - 1 → 0 < s.vv i) :
    (∀ i, 0 ≤ i → i ≤ n - 1 →
      0 < (ludcmpDivide T n m (ludcmpSwap n m (ludcmpPivot n m (ludcmpUpper m s)).1)).vv i) ∧
    (ludcmpDivide T n m (ludcmpSwap n m (ludcmpPivot n m (ludcmpUpper m s)).1)).a m m ≠ 0 ∧
    m ≤ (ludcmpDivide T n m (ludcmpSwap n m (ludcmpPivot n m (ludcmpUpper m s)).1)).indx m ∧
    (ludcmpDivide T n m (ludcmpSwap n m (ludcmpPivot n m (ludcmpUpper m s)).1)).indx m ≤ n - 1 ∧
    (∀ j, j < m →
      (ludcmpDivide T n m (ludcmpSwap n m (ludcmpPivot n m (ludcmpUpper m s)).1)).a j j =
        s.a j j ∧
      (ludcmpDivide T n m (ludcmpSwap n m (ludcmpPivot n m (ludcmpUpper m s)).1)).indx j =
        s.indx j) := by
  obtain ⟨u1, u2, u3⟩ := ludcmpUpper_frame m s
  obtain ⟨p1, p2, p3, p4⟩ := ludcmpPivot_spec n m (ludcmpUpper m s)
  obtain ⟨w1, w2, w3, w4⟩ := ludcmpSwap_spec n m (ludcmpPivot n m (ludcmpUpper m s)).1
  obtain ⟨d1, d2, d3, d4, d5⟩ := ludcmpDivide_spec T n m
    (ludcmpSwap n m (ludcmpPivot n m (ludcmpUpper m s)).1) hT
  have hvm : 0 ≤ (ludcmpUpper m s).vv m := by
    rw [u1]
    exact le_of_lt (hv m h1 h2)
  obtain ⟨i1, i2⟩ := p4 h2 hvm
  refine ⟨fun i a1 a2 => ?_, d4, ?_, ?_, fun j hj => ⟨?_, ?_⟩⟩
  · rw [d3]
    rcases w3 i with e | e
    · rw [e, p1, u1]
      exact hv i a1 a2
    · rw [e, p1, u1]
      exact hv m h1 h2
  · rw [d1, w2]
    exact i1
  · rw [d1, w2]
    exact i2
  · rw [d5 j j (by omega), w4 j j (by omega) (by omega), p3 j j (by omega), u3 j j (by omega)]
  · rw [d2 j (by omega), w1, p2, u2]

/-- The loop over the columns, from positive scalings: on exit no diagonal entry of the
matrix is zero and every pivot index `indx[j]` lies among the rows `j..n-1`. -/
theorem ludcmpColumns_spec (T : ℚ) (n : Int) (s : LUState) (hT : T ≠ 0)
    (hv : ∀ i, 0 ≤ i → i ≤ n - 1 → 0 < s.vv i) :
    ∀ j, 0 ≤ j → j ≤ n - 1 →
      (ludcmpColumns T n s).a j j ≠ 0 ∧ j ≤ (ludcmpColumns T n s).indx j ∧
      (ludcmpColumns T n s).indx j ≤ n - 1 := by
  intro j h1 h2
  have key := forLoop_ind (fun (m : Int) (t : LUState) =>
      (∀ i, 0 ≤ i → i ≤ n - 1 → 0 < t.vv i) ∧
      ∀ j, 0 ≤ j → j < m → t.a j j ≠ 0 ∧ j ≤ t.indx j ∧ t.indx j ≤ n - 1) 0 (n - 1)
    (fun j s =>
      ludcmpDivide T n j (ludcmpSwap n j (ludcmpPivot n j (ludcmpUpper j s)).1))
    (by omega) s ⟨hv, fun j a1 a2 => by omega⟩ ?_
  · exact key.2 j h1 (by omega)
  · rintro m t a1 a2 ⟨tv, tq⟩
    obtain ⟨c1, c2, c3, c4, c5⟩ := ludcmpColumn_spec T n m t hT a1 a2 tv
    refine ⟨c1, fun j b1 b2 => ?_⟩
    rcases eq_or_lt_of_le (show j ≤ m by omega) with e | e
    · subst e
      exact ⟨c2, c3, c4⟩
    · rw [(c5 j e).1, (c5 j e).2]
      exact tq j b1 e

/-- C33: when `ludcmp` reports a singular matrix. With the allocation of `vv`
succeeding, `ludcmp` ends with the message `[ludcmp]: Singular matrix in routine ludcmp`
exactly when some row of the matrix consists of zeros; for every other matrix it
completes, and then, `TINY_NUMBER` being non-zero, no diagonal entry `a[j][j]` of the
factorisation it stores is zero and every pivot index satisfies `j ≤ indx[j] ≤ n-1`. -/
theorem C33_ludcmp_singular_iff_zero_row (T : ℚ) (vv0 : Arr1 ℚ) (imax0 : Int) (a : Arr2 ℚ)
    (n : Int) (indx : Arr1 Int) (hT : T ≠ 0) :
    (ludcmp T true vv0 imax0 a n indx =
        .error "[ludcmp]: Singular matrix in routine ludcmp\n" ↔
      ∃ i, 0 ≤ i ∧ i ≤ n - 1 ∧ ∀ j, 0 ≤ j → j ≤ n - 1 → a i j = 0) ∧
    ((¬ ∃ i, 0 ≤ i ∧ i ≤ n - 1 ∧ ∀ j, 0 ≤ j → j ≤ n - 1 → a i j = 0) →
      ∃ r, ludcmp T true vv0 imax0 a n indx = .ok r ∧
        ∀ j, 0 ≤ j → j ≤ n - 1 → r.1 j j ≠ 0 ∧ j ≤ r.2.1 j ∧ r.2.1 j ≤ n - 1) := by
  have ok : (¬ ∃ i, 0 ≤ i ∧ i ≤ n - 1 ∧ ∀ j, 0 ≤ j → j ≤ n - 1 → a i j = 0) →
      ∃ r, ludcmp T true vv0 imax0 a n indx = .ok r ∧
        ∀ j, 0 ≤ j → j ≤ n - 1 → r.1 j j ≠ 0 ∧ j ≤ r.2.1 j ∧ r.2.1 j ≤ n - 1 := by
    intro hno
    obtain ⟨t, ht, -, -, -, hv⟩ := ludcmpScale_ok n
      { a := a, indx := indx, d := 1, vv := vv0, imax := imax0 }
      (fun i h1 h2 hz => hno ⟨i, h1, h2, (rowBig_eq_zero_iff a n i).mp hz⟩)
    refine ⟨((ludcmpColumns T n t).a, (ludcmpColumns T n t).indx, (ludcmpColumns T n t).d),
      ?_, ludcmpColumns_spec T n t hT hv⟩
    simp only [ludcmp, if_true, ht]
  refine ⟨⟨fun h => ?_, fun h => ?_⟩, ok⟩
  · by_contra hno
    obtain ⟨r, hr, -⟩ := ok hno
    rw [hr] at h
    cases h
  · obtain ⟨i, h1, h2, hz⟩ := h
    have e := ludcmpScale_error n { a := a, indx := indx, d := 1, vv := vv0, imax := imax0 }
      i h1 h2 ((rowBig_eq_zero_iff a n i).mpr hz)
    simp only [ludcmp, if_true, e]

/-- C33 on `demoMatrix`, which has no row of zeros: `ludcmp` completes with non-zero
diagonal entries and pivot indices in range. -/
theorem C33_witness :
    ∃ r, ludcmp (1 / 10 ^ 20) true (fun _ => 0) 0 demoMatrix 2 (fun _ => 0) = .ok r ∧
      ∀ j, 0 ≤ j → j ≤ 2 - 1 → r.1 j j ≠ 0 ∧ j ≤ r.2.1 j ∧ r.2.1 j ≤ 2 - 1 :=
  (C33_ludcmp_singular_iff_zero_row (1 / 10 ^ 20) (fun _ => 0) 0 demoMatrix 2 (fun _ => 0)
    (by norm_num)).2 (by
      rintro ⟨i, h1, h2, hz⟩
      have e : i = 0 ∨ i = 1 := by omega
      rcases e with rfl | rfl
      · have := hz 0 (by decide) (by decide)
        simp [demoMatrix] at this
      · have := hz 0 (by decide) (by decide)
        simp [demoMatrix] at this)

end Athena
